import Mathlib

/-! Coherence_Structures: NMOESI transaction engine (snoop and directory variants).

Shallow embedding of `mem-system/nmoesi-protocol.c`, `mem-system/module.c`,
`mem-system/cache.h` and `mem-system/mod-stack.h`.

Conventions of the embedding.

* C `int` flags and one-bit bit-fields are `Bool`; `enum` types are inductive
  types whose constructors keep the C names and the C declaration order.
* Pointers to `struct mod_stack_t` are handles (`Nat`) into `Sim.stack_tab`;
  pointers to `struct mod_t` are indices into `Sim.mods`; `NULL` is `none`.
* The intrusive doubly linked lists of `module.c` are lists of handles:
  insert-head is `::`, insert-tail is `++ [_]`, remove is `List.erase`.
* `assert` is compiled out (the release configuration): a failed assertion
  does not stop the run.  `fatal` stops the simulation (`Sim.fatal`).
* Statistics counters, `mem_debug` and the cycle stamps kept only for
  statistics are left out; `mem_trace` is the `Sim.trace` log.
* Code of the repository that is not part of the available sources
  (`cache.c`, `mod-stack.c`, the event scheduler, the interconnect) is
  modelled from the specification; every such definition says so.
-/

namespace Coherence

/-! ## Data model -/

/-- `enum cache_block_state_t` of cache.h. -/
inductive cache_block_state_t
  | cache_block_invalid
  | cache_block_noncoherent
  | cache_block_modified
  | cache_block_owned
  | cache_block_exclusive
  | cache_block_shared
  deriving DecidableEq, Repr, Fintype

export cache_block_state_t (cache_block_invalid cache_block_noncoherent
  cache_block_modified cache_block_owned cache_block_exclusive cache_block_shared)

/-- Numeric value of a block state (C enumerator value). -/
def cache_block_state_t.toInt : cache_block_state_t → Int
  | cache_block_invalid => 0
  | cache_block_noncoherent => 1
  | cache_block_modified => 2
  | cache_block_owned => 3
  | cache_block_exclusive => 4
  | cache_block_shared => 5

/-- C truth value of a block state: `if (stack->state)`. -/
def cache_block_state_t.valid (st : cache_block_state_t) : Bool :=
  decide (st ≠ cache_block_invalid)

/-- `enum mod_request_dir_t` of mod-stack.h. -/
inductive mod_request_dir_t
  | mod_request_invalid
  | mod_request_up_down
  | mod_request_down_up
  deriving DecidableEq, Repr, Fintype

export mod_request_dir_t (mod_request_invalid mod_request_up_down mod_request_down_up)

/-- `enum mod_reply_type_t` of mod-stack.h. -/
inductive mod_reply_type_t
  | reply_none
  | reply_ack
  | reply_ack_data
  | reply_ack_data_sent_to_peer
  | reply_ack_error
  deriving DecidableEq, Repr, Fintype

export mod_reply_type_t (reply_none reply_ack reply_ack_data
  reply_ack_data_sent_to_peer reply_ack_error)

/-- Numeric value of a reply kind (C enumerator value). -/
def mod_reply_type_t.toNat : mod_reply_type_t → Nat
  | reply_none => 0
  | reply_ack => 1
  | reply_ack_data => 2
  | reply_ack_data_sent_to_peer => 3
  | reply_ack_error => 4

/-- `enum mod_message_type_t` of mod-stack.h. -/
inductive mod_message_type_t
  | message_none
  | message_clear_owner
  deriving DecidableEq, Repr

export mod_message_type_t (message_none message_clear_owner)

/-- `enum mod_access_kind_t` of module.h. -/
inductive mod_access_kind_t
  | mod_access_invalid
  | mod_access_load
  | mod_access_store
  | mod_access_nc_store
  | mod_access_prefetch
  deriving DecidableEq, Repr

export mod_access_kind_t (mod_access_invalid mod_access_load mod_access_store
  mod_access_nc_store mod_access_prefetch)

/-- `enum mod_kind_t` of module.h. -/
inductive mod_kind_t
  | mod_kind_invalid
  | mod_kind_cache
  | mod_kind_main_memory
  | mod_kind_local_memory
  deriving DecidableEq, Repr

export mod_kind_t (mod_kind_invalid mod_kind_cache mod_kind_main_memory mod_kind_local_memory)

/-- `enum mod_range_kind_t` of module.h together with the `range` union. -/
inductive mod_range_t
  | mod_range_invalid
  | mod_range_bounds (low high : Nat)
  | mod_range_interleaved (mod div eq : Nat)
  deriving DecidableEq, Repr

export mod_range_t (mod_range_invalid mod_range_bounds mod_range_interleaved)

/-- Kind of a network node (`node->kind`); only `net_node_end` nodes carry a module. -/
inductive net_node_kind_t
  | net_node_end
  | net_node_switch
  | net_node_bus
  deriving DecidableEq, Repr

export net_node_kind_t (net_node_end net_node_switch net_node_bus)

/-- Events of nmoesi-protocol.c (the `EV_MOD_NMOESI_*` variables), plus the
scheduler's `ESIM_EV_NONE`. -/
inductive Ev
  | ESIM_EV_NONE
  | EV_MOD_NMOESI_LOAD
  | EV_MOD_NMOESI_LOAD_LOCK
  | EV_MOD_NMOESI_LOAD_ACTION
  | EV_MOD_NMOESI_LOAD_MISS
  | EV_MOD_NMOESI_LOAD_UNLOCK
  | EV_MOD_NMOESI_LOAD_FINISH
  | EV_MOD_NMOESI_STORE
  | EV_MOD_NMOESI_STORE_LOCK
  | EV_MOD_NMOESI_STORE_ACTION
  | EV_MOD_NMOESI_STORE_UNLOCK
  | EV_MOD_NMOESI_STORE_FINISH
  | EV_MOD_NMOESI_NC_STORE
  | EV_MOD_NMOESI_NC_STORE_LOCK
  | EV_MOD_NMOESI_NC_STORE_WRITEBACK
  | EV_MOD_NMOESI_NC_STORE_ACTION
  | EV_MOD_NMOESI_NC_STORE_MISS
  | EV_MOD_NMOESI_NC_STORE_UNLOCK
  | EV_MOD_NMOESI_NC_STORE_FINISH
  | EV_MOD_NMOESI_PREFETCH
  | EV_MOD_NMOESI_PREFETCH_LOCK
  | EV_MOD_NMOESI_PREFETCH_ACTION
  | EV_MOD_NMOESI_PREFETCH_MISS
  | EV_MOD_NMOESI_PREFETCH_UNLOCK
  | EV_MOD_NMOESI_PREFETCH_FINISH
  | EV_MOD_NMOESI_FIND_AND_LOCK
  | EV_MOD_NMOESI_FIND_AND_LOCK_PORT
  | EV_MOD_NMOESI_FIND_AND_LOCK_ACTION
  | EV_MOD_NMOESI_FIND_AND_LOCK_FINISH
  | EV_MOD_NMOESI_EVICT
  | EV_MOD_NMOESI_EVICT_INVALID
  | EV_MOD_NMOESI_EVICT_ACTION
  | EV_MOD_NMOESI_EVICT_RECEIVE
  | EV_MOD_NMOESI_EVICT_PROCESS
  | EV_MOD_NMOESI_EVICT_PROCESS_NONCOHERENT
  | EV_MOD_NMOESI_EVICT_REPLY
  | EV_MOD_NMOESI_EVICT_REPLY_RECEIVE
  | EV_MOD_NMOESI_EVICT_FINISH
  | EV_MOD_NMOESI_WRITE_REQUEST
  | EV_MOD_NMOESI_WRITE_REQUEST_RECEIVE
  | EV_MOD_NMOESI_WRITE_REQUEST_ACTION
  | EV_MOD_NMOESI_WRITE_REQUEST_EXCLUSIVE
  | EV_MOD_NMOESI_WRITE_REQUEST_UPDOWN
  | EV_MOD_NMOESI_WRITE_REQUEST_UPDOWN_FINISH
  | EV_MOD_NMOESI_WRITE_REQUEST_DOWNUP
  | EV_MOD_NMOESI_WRITE_REQUEST_DOWNUP_FINISH
  | EV_MOD_NMOESI_WRITE_REQUEST_REPLY
  | EV_MOD_NMOESI_WRITE_REQUEST_FINISH
  | EV_MOD_NMOESI_READ_REQUEST
  | EV_MOD_NMOESI_READ_REQUEST_RECEIVE
  | EV_MOD_NMOESI_READ_REQUEST_ACTION
  | EV_MOD_NMOESI_READ_REQUEST_UPDOWN
  | EV_MOD_NMOESI_READ_REQUEST_UPDOWN_MISS
  | EV_MOD_NMOESI_READ_REQUEST_UPDOWN_FINISH
  | EV_MOD_NMOESI_READ_REQUEST_DOWNUP
  | EV_MOD_NMOESI_READ_REQUEST_DOWNUP_WAIT_FOR_REQS
  | EV_MOD_NMOESI_READ_REQUEST_DOWNUP_FINISH
  | EV_MOD_NMOESI_READ_REQUEST_REPLY
  | EV_MOD_NMOESI_READ_REQUEST_FINISH
  | EV_MOD_NMOESI_INVALIDATE
  | EV_MOD_NMOESI_INVALIDATE_FINISH
  | EV_MOD_NMOESI_MESSAGE
  | EV_MOD_NMOESI_MESSAGE_RECEIVE
  | EV_MOD_NMOESI_MESSAGE_ACTION
  | EV_MOD_NMOESI_MESSAGE_REPLY
  | EV_MOD_NMOESI_MESSAGE_FINISH
  deriving DecidableEq, Repr

open Ev

/-- `struct cache_lock_t` of cache.h; `lock_queue` holds the waiting stacks in
arrival order. -/
structure cache_lock_t where
  lock : Bool
  stack_id : Int
  lock_queue : List Nat
  deriving DecidableEq, Repr

/-- `struct cache_block_t` of cache.h (the LRU links are `cache_t.way_order`). -/
structure cache_block_t where
  tag : Int
  transient_tag : Int
  state : cache_block_state_t
  deriving DecidableEq, Repr

/-- `struct cache_t` of cache.h.  `blocks set way` is `sets[set].blocks[way]`,
`cache_lock set way` the lock of that entry, `way_order set` the recency order
of the ways of a set (most recent first). -/
structure cache_t where
  num_sets : Nat
  block_size : Nat
  assoc : Nat
  block_mask : Nat
  log_block_size : Nat
  blocks : Int → Int → cache_block_t
  cache_lock : Int → Int → cache_lock_t
  way_order : Int → List Int

/-- `struct mod_port_t` of module.h: the access locking the port, if any. -/
structure mod_port_t where
  stack : Option Nat
  deriving DecidableEq, Repr

/-- A node of the module's upper network (`high_net->node_list`). -/
structure net_node_t where
  kind : net_node_kind_t
  user_data : Nat
  deriving DecidableEq, Repr

/-- `struct mod_t` of module.h, with the fields the protocol reads or writes. -/
structure mod_t where
  kind : mod_kind_t
  mod_id : Int
  block_size : Nat
  log_block_size : Nat
  latency : Nat
  mshr_size : Int
  range : mod_range_t
  ports : List mod_port_t
  num_ports : Int
  num_locked_ports : Int
  port_waiting_list : List Nat
  cache : cache_t
  low_mod_list : List Nat
  sub_block_size : Nat
  num_sub_blocks : Nat
  has_high_net : Bool
  has_low_net : Bool
  num_nodes : Nat
  node_list : List net_node_t
  access_list : List Nat
  write_access_list : List Nat
  access_list_coalesced_count : Int
  access_hash_table : Nat → List Nat
  downup_access_list : List Nat
  downup_access_hash_table : Nat → List Nat
  read_write_req_list : List Nat
  read_write_req_hash_table : Nat → List Nat
  evict_list : List Nat
  evict_hash_table : Int → List Nat

/-- `struct mod_stack_t` of mod-stack.h, with the fields the protocol reads or
writes.  `waiting_list` holds the stacks waiting for this one to finish. -/
structure mod_stack_t where
  id : Int
  access_kind : mod_access_kind_t
  witness_ptr : Bool
  mod : Nat
  target_mod : Option Nat
  except_mod : Option Nat
  orig_mod_id : Int
  issue_mod_id : Int
  port : Option Nat
  addr : Nat
  tag : Int
  set : Int
  way : Int
  state : cache_block_state_t
  prev_state : cache_block_state_t
  src_set : Int
  src_way : Int
  src_tag : Int
  request_dir : mod_request_dir_t
  message : mod_message_type_t
  reply : mod_reply_type_t
  reply_size : Int
  pending : Int
  hit : Bool
  err : Bool
  shared : Bool
  read : Bool
  write : Bool
  nc_write : Bool
  prefetch : Bool
  blocking : Bool
  eviction : Bool
  retry : Bool
  coalesced : Bool
  port_locked : Bool
  read_request_in_progress : Bool
  write_request_in_progress : Bool
  dirty : Bool
  evict_trans : Bool
  invalidate_eviction : Bool
  wb_store : Bool
  downup_read_request : Bool
  downup_writeback_request : Bool
  downup_access_registered : Bool
  updown_access_registered : Bool
  evict_access_registered : Bool
  msg : Bool
  waiting_list_event : Ev
  waiting_list : List Nat
  port_waiting_list_event : Ev
  master_stack : Option Nat
  cache_lock_event : Ev
  ret_stack : Option Nat
  ret_event : Ev

/-- Kinds of cache-entry lock operations, logged in `Sim.lock_log`. -/
inductive lock_op_t
  | acquired
  | queued
  | released
  deriving DecidableEq, Repr

/-- One record of `Sim.lock_log`: operation, module, set, way, access id. -/
structure lock_rec_t where
  op : lock_op_t
  mod : Nat
  set : Int
  way : Int
  id : Int
  deriving DecidableEq, Repr

/-- Whole simulation state: modules, live stacks, the scheduler's event heap,
the oracles standing for the interconnect's buffer state (`net_oracle`, one
answer per send attempt) and for `random()`, and the parts of absent code taken
as parameters: `set_reply old new` is the reply kind `mod_stack_set_reply`
leaves in a stack, `replace_policy` is `cache_replace_block`, `uninit_state` is
the value of an uninitialised `int` local.  `assert_log` lists the source lines
of the assertions that did not hold. -/
structure Sim where
  mods : Nat → mod_t
  num_mods : Nat
  stack_tab : Nat → mod_stack_t
  next_stack : Nat
  mod_stack_id : Int
  events : List (Nat × Ev × Nat)
  esim_time : Nat
  fatal : Bool
  trace : List (Ev × Nat)
  lock_log : List lock_rec_t
  witness : Int
  net_oracle : List Bool
  net_delay : Nat
  net_log : List (Ev × Int × Bool)
  random_oracle : List Nat
  uninit_state : cache_block_state_t
  set_reply : mod_reply_type_t → mod_reply_type_t → mod_reply_type_t
  replace_policy : cache_t → Int → Int
  assert_log : List Nat

/-! ## cache_block_next_state (nmoesi-protocol.c, lines 118-135) -/

/-- `static int cache_block_next_state(int flag_shared, int flag_dirty)`. -/
def cache_block_next_state (flag_shared flag_dirty : Int) : cache_block_state_t :=
  if flag_shared ≠ 0 then
    if flag_dirty ≠ 0 then cache_block_owned else cache_block_shared
  else
    if flag_dirty ≠ 0 then cache_block_modified else cache_block_exclusive

/-- Value read from a one-bit flag of `struct mod_stack_t` when it is passed as an `int`. -/
def flag (b : Bool) : Int := if b then 1 else 0

/-! ## Machine integers -/

/-- Conversion of an `int` to `unsigned int`. -/
def toU32 (x : Int) : Nat := (x % 4294967296).toNat

/-- Conversion of an `unsigned int` to `int` (two's complement). -/
def toI32 (n : Nat) : Int :=
  if n % 4294967296 < 2147483648 then ((n % 4294967296 : Nat) : Int)
  else ((n % 4294967296 : Nat) : Int) - 4294967296

/-! ## State access -/

/-- Pointwise update of a table indexed by handles. -/
def upd {α : Type} (f : Nat → α) (i : Nat) (v : α) : Nat → α :=
  fun j => if j = i then v else f j

/-- Pointwise update of a table indexed by (set, way). -/
def upd2 {α : Type} (f : Int → Int → α) (i j : Int) (v : α) : Int → Int → α :=
  fun a b => if a = i ∧ b = j then v else f a b

/-- Pointwise update of a table indexed by set. -/
def updI {α : Type} (f : Int → α) (i : Int) (v : α) : Int → α :=
  fun a => if a = i then v else f a

/-- Store a stack back into the table. -/
def Sim.setStack (s : Sim) (h : Nat) (st : mod_stack_t) : Sim :=
  { s with stack_tab := upd s.stack_tab h st }

/-- Store a module back into the table. -/
def Sim.setMod (s : Sim) (m : Nat) (md : mod_t) : Sim :=
  { s with mods := upd s.mods m md }

/-- Store the cache of module `m`. -/
def Sim.setCache (s : Sim) (m : Nat) (c : cache_t) : Sim :=
  s.setMod m { s.mods m with cache := c }

/-- `assert(cond)` at source line `line`: compiled out, the failure is only logged. -/
def Sim.check (s : Sim) (cond : Bool) (line : Nat) : Sim :=
  if cond then s else { s with assert_log := s.assert_log ++ [line] }

/-- `fatal(...)`: the simulation stops. -/
def Sim.stop (s : Sim) : Sim := { s with fatal := true }

/-- `mem_trace` record of a protocol step. -/
def Sim.log (s : Sim) (ev : Ev) (h : Nat) : Sim :=
  { s with trace := s.trace ++ [(ev, h)] }

/-! ## Scheduler and interconnect -/

/-- Modelled from the spec: the scheduler's event heap (`esim`, not in the
available sources).  Delivery is strictly time-ordered and deterministic; events
with equal time are delivered in the order they were scheduled. -/
def insert_event (t : Nat) (ev : Ev) (h : Nat) :
    List (Nat × Ev × Nat) → List (Nat × Ev × Nat)
  | [] => [(t, ev, h)]
  | e :: rest =>
    if e.1 ≤ t then e :: insert_event t ev h rest else (t, ev, h) :: e :: rest

/-- Modelled from the spec: `scheduleEvent(event, access, delayCycles)`. -/
def esim_schedule_event (s : Sim) (ev : Ev) (h : Nat) (delay : Nat) : Sim :=
  { s with events := insert_event (s.esim_time + delay) ev h s.events }

/-- Modelled from the spec: `trySend(network, srcNode, dstNode, sizeBytes,
onDelivered, retryEvent, access)` of the interconnect (not in the available
sources).  The next answer of `net_oracle` says whether buffer space is
available (an exhausted oracle accepts).  On acceptance the message is delivered
(`receive_event`) after `net_delay` cycles and `stack->msg` is set; on
rejection `stack->msg` is `NULL` and the retry event is rescheduled one cycle
later.  Every attempt is recorded in `net_log` with its size and outcome. -/
def net_try_send_ev (s : Sim) (h : Nat) (size : Int) (receive_event retry_event : Ev) : Sim :=
  match s.net_oracle with
  | false :: rest =>
    let s := { s with net_oracle := rest, net_log := s.net_log ++ [(receive_event, size, false)] }
    let s := s.setStack h { s.stack_tab h with msg := false }
    esim_schedule_event s retry_event h 1
  | _ =>
    let s := { s with net_oracle := s.net_oracle.tail,
                      net_log := s.net_log ++ [(receive_event, size, true)] }
    let s := s.setStack h { s.stack_tab h with msg := true }
    esim_schedule_event s receive_event h s.net_delay

/-- `mod_get_retry_latency`: `random() % mod->latency + mod->latency`, with
`random()` read from the oracle. -/
def mod_get_retry_latency (s : Sim) (m : Nat) : Nat × Sim :=
  let r := s.random_oracle.headD 0
  (r % (s.mods m).latency + (s.mods m).latency,
   { s with random_oracle := s.random_oracle.tail })

/-! ## mod-stack.c (modelled) -/

/-- A zero-filled `struct mod_stack_t`. -/
def mod_stack_zero : mod_stack_t :=
  { id := 0, access_kind := mod_access_invalid, witness_ptr := false, mod := 0,
    target_mod := none, except_mod := none, orig_mod_id := 0, issue_mod_id := 0,
    port := none, addr := 0, tag := 0, set := 0, way := 0,
    state := cache_block_invalid, prev_state := cache_block_invalid,
    src_set := 0, src_way := 0, src_tag := 0, request_dir := mod_request_invalid,
    message := message_none, reply := reply_none, reply_size := 0, pending := 0,
    hit := false, err := false, shared := false, read := false, write := false,
    nc_write := false, prefetch := false, blocking := false, eviction := false,
    retry := false, coalesced := false, port_locked := false,
    read_request_in_progress := false, write_request_in_progress := false,
    dirty := false, evict_trans := false, invalidate_eviction := false,
    wb_store := false, downup_read_request := false,
    downup_writeback_request := false, downup_access_registered := false,
    updown_access_registered := false, evict_access_registered := false,
    msg := false, waiting_list_event := ESIM_EV_NONE, waiting_list := [],
    port_waiting_list_event := ESIM_EV_NONE, master_stack := none,
    cache_lock_event := ESIM_EV_NONE, ret_stack := none, ret_event := ESIM_EV_NONE }

/-- Modelled from the spec: `mod_stack_create(id, mod, addr, ret_event,
ret_stack)` of mod-stack.c (not in the available sources).  A new access
descriptor is zero-filled except for its arguments; its set, way and tag are
not resolved yet (-1), so that FindAndLock selects a victim the first time.
Returns the handle of the new stack. -/
def mod_stack_create (s : Sim) (id : Int) (m : Nat) (addr : Nat) (ret_event : Ev)
    (ret_stack : Option Nat) : Nat × Sim :=
  (s.next_stack,
   { s with
     next_stack := s.next_stack + 1
     stack_tab := upd s.stack_tab s.next_stack
       { mod_stack_zero with
         id := id, mod := m, addr := addr, ret_event := ret_event,
         ret_stack := ret_stack, way := -1, set := -1, tag := -1 } })

/-- Wake the stacks of a waiting list, oldest first. -/
def wakeup_list (s : Sim) : List Nat → Sim
  | [] => s
  | w :: rest =>
    wakeup_list (esim_schedule_event s (s.stack_tab w).waiting_list_event w 0) rest

/-- Modelled from the spec: `mod_stack_return(stack)` of mod-stack.c (not in
the available sources).  The access retires: the waiters queued behind it are
woken, then its return event runs on its return stack. -/
def mod_stack_return (s : Sim) (h : Nat) : Sim :=
  let st := s.stack_tab h
  let s := wakeup_list s st.waiting_list
  let s := s.setStack h { s.stack_tab h with waiting_list := [] }
  match st.ret_stack with
  | none => s
  | some r => esim_schedule_event s st.ret_event r 0

/-- Modelled from the spec: `mod_stack_wait_in_stack(stack, master_stack,
event)` of mod-stack.c (not in the available sources).  The access registers
as a waiter of `master` and will resume at `event` when `master` retires. -/
def mod_stack_wait_in_stack (s : Sim) (h master : Nat) (event : Ev) : Sim :=
  let s := s.setStack h { s.stack_tab h with waiting_list_event := event }
  s.setStack master
    { s.stack_tab master with waiting_list := (s.stack_tab master).waiting_list ++ [h] }

/-- `mod_stack_set_reply(stack, reply)` of mod-stack.c (not in the available
sources): the reply kind left in the stack is given by the parameter
`Sim.set_reply`. -/
def mod_stack_set_reply (s : Sim) (h : Nat) (reply : mod_reply_type_t) : Sim :=
  s.setStack h { s.stack_tab h with reply := s.set_reply (s.stack_tab h).reply reply }

/-- Reply rule used in the scenarios: a reply kind is only replaced by one that
comes later in `enum mod_reply_type_t`. -/
def set_reply_max (old new : mod_reply_type_t) : mod_reply_type_t :=
  if old.toNat < new.toNat then new else old

/-! ## cache.c (modelled from cache.h) -/

/-- Modelled from the spec: `setBlock(set, way, tag, state)` is a direct mutator
(`cache_set_block` is declared in cache.h, defined in cache.c). -/
def cache_set_block (s : Sim) (m : Nat) (set way tag : Int) (state : cache_block_state_t) :
    Sim :=
  let c := (s.mods m).cache
  s.setCache m
    { c with blocks := upd2 c.blocks set way { c.blocks set way with tag := tag, state := state } }

/-- Modelled from the spec: `getBlock(set, way)` is a direct reader
(`cache_get_block` is declared in cache.h, defined in cache.c). -/
def cache_get_block (s : Sim) (m : Nat) (set way : Int) : Int × cache_block_state_t :=
  let b := (s.mods m).cache.blocks set way
  (b.tag, b.state)

/-- Modelled from the spec: `cache_set_transient_tag` stamps the tag of the
block being fetched (declared in cache.h, defined in cache.c). -/
def cache_set_transient_tag (s : Sim) (m : Nat) (set way tag : Int) : Sim :=
  let c := (s.mods m).cache
  s.setCache m
    { c with blocks := upd2 c.blocks set way { c.blocks set way with transient_tag := tag } }

/-- Modelled from the spec: `touch(set, way)` updates the recency metadata
(`cache_access_block` is declared in cache.h, defined in cache.c): the way
becomes the most recent of its set. -/
def cache_access_block (s : Sim) (m : Nat) (set way : Int) : Sim :=
  let c := (s.mods m).cache
  s.setCache m
    { c with way_order := updI c.way_order set (way :: (c.way_order set).erase way) }

/-- `cache_replace_block(cache, set)` (declared in cache.h, defined in cache.c):
the victim way is chosen by the parameter `Sim.replace_policy`. -/
def cache_replace_block (s : Sim) (m : Nat) (set : Int) : Int :=
  s.replace_policy (s.mods m).cache set

/-- Victim rule used in the scenarios (LRU): the least recently used way of the
set; a way never touched is older than every touched way, and among those the
highest index is the oldest. -/
def replace_lru (c : cache_t) (set : Int) : Int :=
  let untouched := ((List.range c.assoc).map Int.ofNat).filter
    (fun w => !(c.way_order set).contains w)
  (c.way_order set ++ untouched).getLastD 0

/-- `cache_lock_get(cache, set, way)` of cache.h. -/
def cache_lock_get (s : Sim) (m : Nat) (set way : Int) : cache_lock_t :=
  (s.mods m).cache.cache_lock set way

/-- Store the lock of an entry. -/
def Sim.setLock (s : Sim) (m : Nat) (set way : Int) (l : cache_lock_t) : Sim :=
  let c := (s.mods m).cache
  s.setCache m { c with cache_lock := upd2 c.cache_lock set way l }

/-- Modelled from the spec: `cache_entry_lock(cache, set, way, event, stack)`,
documented in cache.h and defined in cache.c (not in the available sources):
"Make a try to lock the directory entry [...]. In case the directory entry is
already locked we enqueue this access in the directory entry's lock queue. A
value of '0' is returned if the lock attempt was unsuccessful else a value of
'1' is returned." -/
def cache_entry_lock (s : Sim) (m : Nat) (set way : Int) (event : Ev) (h : Nat) :
    Bool × Sim :=
  let l := cache_lock_get s m set way
  let id := (s.stack_tab h).id
  if l.lock then
    let s := s.setStack h { s.stack_tab h with cache_lock_event := event }
    let s := s.setLock m set way { l with lock_queue := l.lock_queue ++ [h] }
    (false, { s with lock_log := s.lock_log ++ [⟨lock_op_t.queued, m, set, way, id⟩] })
  else
    let s := s.setLock m set way { l with lock := true, stack_id := id }
    (true, { s with lock_log := s.lock_log ++ [⟨lock_op_t.acquired, m, set, way, id⟩] })

/-- Modelled from the spec: `cache_entry_unlock(cache, set, way)`, documented
in cache.h and defined in cache.c (not in the available sources): "To unlock
check the lock queue in case there are pending instructions, get the head of
the lock queue, schedule the event, update the lock queue and unlock the
directory entry."  The woken access is scheduled one cycle later. -/
def cache_entry_unlock (s : Sim) (m : Nat) (set way : Int) : Sim :=
  let l := cache_lock_get s m set way
  let s := { s with lock_log := s.lock_log ++ [⟨lock_op_t.released, m, set, way, l.stack_id⟩] }
  match l.lock_queue with
  | [] => s.setLock m set way { l with lock := false }
  | w :: rest =>
    let s := esim_schedule_event s (s.stack_tab w).cache_lock_event w 1
    s.setLock m set way { l with lock := false, lock_queue := rest }

/-! ## module.c -/

/-- `MOD_ACCESS_HASH_TABLE_SIZE` of module.h. -/
def MOD_ACCESS_HASH_TABLE_SIZE : Nat := 17

/-- Result of `mod_find_block`: the return value and the four output variables. -/
structure find_block_t where
  hit : Bool
  set : Int
  way : Int
  tag : Int
  state : cache_block_state_t
  deriving DecidableEq, Repr

/-- The loop `for (way = 0; way < cache->assoc; way++)` of the snoop variant of
`mod_find_block`: stops at the first way whose tag matches and whose state is
valid; `n` is the number of ways still to examine. -/
def mod_find_block_scan (c : cache_t) (set tag : Int) : Nat → Nat → Nat
  | 0, way => way
  | n + 1, way =>
    if (c.blocks set way).tag = tag ∧ (c.blocks set way).state ≠ cache_block_invalid then way
    else mod_find_block_scan c set tag n (way + 1)

/-- The `tag` computed by `mod_find_block`: `addr & ~cache->block_mask`, stored in an `int`. -/
def mod_find_block_tag (c : cache_t) (addr : Nat) : Int :=
  toI32 (addr &&& (4294967295 ^^^ c.block_mask))

/-- The `set` computed by `mod_find_block`; `none` when the range kind is
invalid (`panic`).  `tag >> log_block_size` shifts an `int`; the division and
the remainder are unsigned. -/
def mod_find_block_set (md : mod_t) (tag : Int) : Option Int :=
  match md.range with
  | mod_range_interleaved num_mods _ _ =>
    some (toI32 ((toU32 (tag >>> md.cache.log_block_size) / num_mods) % md.cache.num_sets))
  | mod_range_bounds _ _ =>
    some (toI32 (toU32 (tag >>> md.cache.log_block_size) % md.cache.num_sets))
  | mod_range_invalid => none

/-- `mod_find_block` (snoop variant, module.c lines 243-302).  `way0` and
`state0` are the values of `*way_ptr` and `*state_ptr` before the call: on a
miss they are left as they were.  `none` is the `panic` on an invalid range
kind. -/
def mod_find_block (md : mod_t) (addr : Nat) (way0 : Int) (state0 : cache_block_state_t) :
    Option find_block_t :=
  let tag := mod_find_block_tag md.cache addr
  match mod_find_block_set md tag with
  | none => none
  | some set =>
    let way := mod_find_block_scan md.cache set tag md.cache.assoc 0
    if way = md.cache.assoc then
      some { hit := false, set := set, way := way0, tag := tag, state := state0 }
    else
      some { hit := true, set := set, way := way, tag := tag,
             state := (md.cache.blocks set way).state }

/-- The loop `for (i = 0; i < mod->num_ports; i++)` of `mod_lock_port`: index of
the first port whose `stack` is `NULL`, counting from `i`; the length of the
list when there is none. -/
def port_scan : List mod_port_t → Nat → Nat
  | [], i => i
  | p :: rest, i => if p.stack = none then i else port_scan rest (i + 1)

/-- `mod_lock_port(mod, stack, event)` (module.c; the two variants agree). -/
def mod_lock_port (s : Sim) (m h : Nat) (event : Ev) : Sim :=
  let md := s.mods m
  let stack := s.stack_tab h
  if md.num_locked_ports ≥ md.num_ports then
    let s := s.check (!(md.port_waiting_list.contains h)) 340
    let wl := if stack.request_dir = mod_request_down_up then h :: md.port_waiting_list
              else md.port_waiting_list ++ [h]
    let s := s.setMod m { s.mods m with port_waiting_list := wl }
    s.setStack h { s.stack_tab h with port_waiting_list_event := event }
  else
    let i := port_scan md.ports 0
    let s := s.check (decide (i < md.num_ports)) 390
    let p := if i < md.num_ports then i else i - 1
    let s := s.setMod m { s.mods m with
      ports := md.ports.set p { stack := some h }
      num_locked_ports := md.num_locked_ports + 1 }
    let s := s.setStack h { s.stack_tab h with port := some p }
    esim_schedule_event s event h 0

/-- `mod_unlock_port(mod, port, stack)` (module.c; the two variants agree). -/
def mod_unlock_port (s : Sim) (m port h : Nat) : Sim :=
  let md := s.mods m
  let stack := s.stack_tab h
  let s := s.check (decide (md.num_locked_ports > 0)) 414
  let s := s.check (decide (stack.port = some port ∧ (md.ports.getD port ⟨none⟩).stack = some h)) 415
  let s := s.check (decide (stack.mod = m)) 416
  let s := s.setStack h { s.stack_tab h with port := none }
  let s := s.setMod m { s.mods m with
    ports := md.ports.set port { stack := none }
    num_locked_ports := md.num_locked_ports - 1 }
  match md.port_waiting_list with
  | [] => s
  | w :: rest =>
    let event := (s.stack_tab w).port_waiting_list_event
    let s := s.setMod m { s.mods m with port_waiting_list := rest }
    mod_lock_port s m w event

/-- Hash-table index of an address: `(addr >> mod->log_block_size) % MOD_ACCESS_HASH_TABLE_SIZE`. -/
def hash_index (md : mod_t) (addr : Nat) : Nat :=
  (addr >>> md.log_block_size) % MOD_ACCESS_HASH_TABLE_SIZE

/-- `mod_access_start(mod, stack, access_kind)`. -/
def mod_access_start (s : Sim) (m h : Nat) (access_kind : mod_access_kind_t) : Sim :=
  let s := s.setStack h { s.stack_tab h with access_kind := access_kind }
  let md := s.mods m
  let index := hash_index md (s.stack_tab h).addr
  s.setMod m { md with
    access_list := md.access_list ++ [h]
    write_access_list :=
      if access_kind = mod_access_store then md.write_access_list ++ [h]
      else md.write_access_list
    access_hash_table := upd md.access_hash_table index (md.access_hash_table index ++ [h]) }

/-- `mod_access_finish(mod, stack)`. -/
def mod_access_finish (s : Sim) (m h : Nat) : Sim :=
  let stack := s.stack_tab h
  let md := s.mods m
  let s := s.check (decide (stack.access_kind ≠ mod_access_invalid)) 470
  let index := hash_index md stack.addr
  let s := s.check (decide (!stack.coalesced ∨ md.access_list_coalesced_count > 0)) 481
  s.setMod m { md with
    access_list := md.access_list.erase h
    write_access_list :=
      if stack.access_kind = mod_access_store then md.write_access_list.erase h
      else md.write_access_list
    access_hash_table := upd md.access_hash_table index ((md.access_hash_table index).erase h)
    access_list_coalesced_count :=
      if stack.coalesced then md.access_list_coalesced_count - 1
      else md.access_list_coalesced_count }

/-- The chain `stack->access_list_prev, ->access_list_prev, ...` of `h` in a
list: the members before `h`, nearest first; empty when `h` is not a member. -/
def prev_chain (l : List Nat) (h : Nat) : List Nat :=
  if l.contains h then (l.takeWhile (fun x => x != h)).reverse else []

/-- `mod_in_flight_address(mod, addr, older_than_stack)`. -/
def mod_in_flight_address (s : Sim) (m : Nat) (addr : Nat) (older_than_stack : Option Nat) :
    Option Nat :=
  let md := s.mods m
  (md.access_hash_table (hash_index md addr)).find? (fun h =>
    let stack := s.stack_tab h
    !(match older_than_stack with
      | some o => decide (stack.id ≥ (s.stack_tab o).id)
      | none => false)
    && decide (stack.addr >>> md.log_block_size = addr >>> md.log_block_size))

/-- `mod_in_flight_write(mod, older_than_stack)`. -/
def mod_in_flight_write (s : Sim) (m : Nat) (older_than_stack : Option Nat) : Option Nat :=
  let md := s.mods m
  match older_than_stack with
  | none => md.write_access_list.getLast?
  | some o =>
    (prev_chain md.access_list o).find? (fun h =>
      decide ((s.stack_tab h).access_kind = mod_access_store))

/-- `mod_serves_address(mod, addr)`; `none` is the `panic` on an invalid range kind. -/
def mod_serves_address (md : mod_t) (addr : Nat) : Option Bool :=
  match md.range with
  | mod_range_bounds low high => some (decide (addr ≥ low ∧ addr ≤ high))
  | mod_range_interleaved mod div eq => some (decide ((addr / div) % mod = eq))
  | mod_range_invalid => none

/-- Outcome of `mod_get_low_mod`. -/
inductive low_mod_t
  | server (m : Nat)
  | null
  | fatal
  deriving DecidableEq, Repr

/-- The loop `LINKED_LIST_FOR_EACH(mod->low_mod_list)` of `mod_get_low_mod`:
`acc` is `server_mod`; `none` is a `fatal` or `panic` inside the loop. -/
def mod_get_low_mod_loop (s : Sim) (addr : Nat) : List Nat → Option Nat → Option (Option Nat)
  | [], acc => some acc
  | low_mod :: rest, acc =>
    match mod_serves_address (s.mods low_mod) addr with
    | none => none
    | some false => mod_get_low_mod_loop s addr rest acc
    | some true =>
      match acc with
      | some _ => none
      | none => mod_get_low_mod_loop s addr rest (some low_mod)

/-- `mod_get_low_mod(mod, addr)`. -/
def mod_get_low_mod (s : Sim) (m : Nat) (addr : Nat) : low_mod_t :=
  let md := s.mods m
  if md.kind = mod_kind_main_memory then low_mod_t.null
  else
    match mod_get_low_mod_loop s addr md.low_mod_list none with
    | none => low_mod_t.fatal
    | some none => low_mod_t.fatal
    | some (some server_mod) => low_mod_t.server server_mod

/-- `mod_can_coalesce(mod, access_kind, addr, older_than_stack)` (module.c, snoop
variant lines 631-735); `none` is `NULL`. -/
def mod_can_coalesce (s : Sim) (m : Nat) (access_kind : mod_access_kind_t) (addr : Nat)
    (older_than_stack : Option Nat) : Option Nat :=
  let md := s.mods m
  let same_block := fun (h : Nat) =>
    decide ((s.stack_tab h).addr >>> md.log_block_size = addr >>> md.log_block_size)
  let master := fun (h : Nat) => ((s.stack_tab h).master_stack).getD h
  if (mod_in_flight_address s m addr older_than_stack).isNone then none
  else
    let chain := match older_than_stack with
      | some o => prev_chain md.access_list o
      | none => md.access_list.reverse
    match access_kind with
    | mod_access_load =>
      let rec go : List Nat → Option Nat
        | [] => none
        | h :: rest =>
          if (s.stack_tab h).access_kind ≠ mod_access_load ∧
             (s.stack_tab h).access_kind ≠ mod_access_prefetch then none
          else if same_block h then some (master h)
          else go rest
      go chain
    | mod_access_store =>
      match chain with
      | [] => none
      | h :: _ =>
        if (s.stack_tab h).access_kind ≠ mod_access_store then none
        else if !same_block h then none
        else if (s.stack_tab h).port_locked then none
        else some (master h)
    | mod_access_nc_store =>
      match chain with
      | [] => none
      | h :: _ =>
        if (s.stack_tab h).access_kind ≠ mod_access_nc_store then none
        else if !same_block h then none
        else if (s.stack_tab h).port_locked then none
        else some (master h)
    | mod_access_prefetch => chain.find? same_block
    | mod_access_invalid => none

/-- `mod_coalesce(mod, master_stack, stack)`. -/
def mod_coalesce (s : Sim) (m master h : Nat) : Sim :=
  let s := s.check ((s.stack_tab master).master_stack.isNone) 747
  let s := s.check (decide ((s.stack_tab h).access_kind ≠ mod_access_invalid)) 751
  let s := s.setStack h { s.stack_tab h with coalesced := true, master_stack := some master }
  let md := s.mods m
  let s := s.check (decide (md.access_list_coalesced_count ≤ md.access_list.length)) 756
  s.setMod m { md with access_list_coalesced_count := md.access_list_coalesced_count + 1 }

/-- `mod_downup_access_start(mod, stack, access_kind)`. -/
def mod_downup_access_start (s : Sim) (m h : Nat) (access_kind : mod_access_kind_t) : Sim :=
  let s := s.setStack h { s.stack_tab h with
    access_kind := access_kind, downup_access_registered := true }
  let md := s.mods m
  let index := hash_index md (s.stack_tab h).addr
  s.setMod m { md with
    downup_access_list := md.downup_access_list ++ [h]
    downup_access_hash_table :=
      upd md.downup_access_hash_table index (md.downup_access_hash_table index ++ [h]) }

/-- `mod_downup_access_finish(mod, stack)`. -/
def mod_downup_access_finish (s : Sim) (m h : Nat) : Sim :=
  let md := s.mods m
  let index := hash_index md (s.stack_tab h).addr
  let s := s.setMod m { md with
    downup_access_list := md.downup_access_list.erase h
    downup_access_hash_table :=
      upd md.downup_access_hash_table index ((md.downup_access_hash_table index).erase h) }
  s.setStack h { s.stack_tab h with downup_access_registered := false }

/-- `mod_read_write_req_access_start(mod, stack, access_kind)`. -/
def mod_read_write_req_access_start (s : Sim) (m h : Nat) (access_kind : mod_access_kind_t) :
    Sim :=
  let s := s.setStack h { s.stack_tab h with
    access_kind := access_kind, updown_access_registered := true }
  let md := s.mods m
  let index := hash_index md (s.stack_tab h).addr
  s.setMod m { md with
    read_write_req_list := md.read_write_req_list ++ [h]
    read_write_req_hash_table :=
      upd md.read_write_req_hash_table index (md.read_write_req_hash_table index ++ [h]) }

/-- `mod_read_write_req_access_finish(mod, stack)`. -/
def mod_read_write_req_access_finish (s : Sim) (m h : Nat) : Sim :=
  let md := s.mods m
  let index := hash_index md (s.stack_tab h).addr
  let s := s.setMod m { md with
    read_write_req_list := md.read_write_req_list.erase h
    read_write_req_hash_table :=
      upd md.read_write_req_hash_table index ((md.read_write_req_hash_table index).erase h) }
  s.setStack h { s.stack_tab h with updown_access_registered := false }

/-- Bucket index used by `mod_evict_start` and `mod_evict_finish`:
`(stack->src_tag >> mod->log_block_size) % MOD_ACCESS_HASH_TABLE_SIZE`, computed
on `int`. -/
def evict_index (md : mod_t) (src_tag : Int) : Int :=
  Int.tmod (src_tag >>> md.log_block_size) 17

/-- `mod_evict_start(mod, stack, access_kind)`. -/
def mod_evict_start (s : Sim) (m h : Nat) (access_kind : mod_access_kind_t) : Sim :=
  let s := s.setStack h { s.stack_tab h with
    access_kind := access_kind, evict_access_registered := true }
  let md := s.mods m
  let index := evict_index md (s.stack_tab h).src_tag
  s.setMod m { md with
    evict_list := md.evict_list ++ [h]
    evict_hash_table := updI md.evict_hash_table index (md.evict_hash_table index ++ [h]) }

/-- `mod_evict_finish(mod, stack)`. -/
def mod_evict_finish (s : Sim) (m h : Nat) : Sim :=
  let md := s.mods m
  let index := evict_index md (s.stack_tab h).src_tag
  let s := s.setMod m { md with
    evict_list := md.evict_list.erase h
    evict_hash_table := updI md.evict_hash_table index ((md.evict_hash_table index).erase h) }
  s.setStack h { s.stack_tab h with evict_access_registered := false }

/-- `mod_in_flight_read_write_req_address(mod, addr, older_than_stack)`: the
bucket is walked from the tail to the first stack with the caller's id, then
on towards the head. -/
def mod_in_flight_read_write_req_address (s : Sim) (m : Nat) (addr : Nat)
    (older_than_stack : Nat) : Option Nat :=
  let md := s.mods m
  let id := (s.stack_tab older_than_stack).id
  let bucket := (md.read_write_req_hash_table (hash_index md addr)).reverse
  let rest := (bucket.dropWhile (fun h => decide ((s.stack_tab h).id ≠ id))).tail
  rest.find? (fun h =>
    decide ((s.stack_tab h).id ≠ id) &&
    decide ((s.stack_tab h).addr >>> md.log_block_size = addr >>> md.log_block_size))

/-- `mod_in_flight_evict_address(mod, addr, older_than_stack)`. -/
def mod_in_flight_evict_address (s : Sim) (m : Nat) (addr : Nat) (older_than_stack : Nat) :
    Option Nat :=
  let md := s.mods m
  let id := (s.stack_tab older_than_stack).id
  let bucket := (md.evict_hash_table ((hash_index md addr : Nat) : Int)).reverse
  bucket.find? (fun h =>
    decide ((s.stack_tab h).id ≠ id) &&
    decide (toU32 ((s.stack_tab h).src_tag >>> md.log_block_size) = addr >>> md.log_block_size))

/-- `mod_check_in_flight_address_dependency_for_downup_request(mod, addr,
older_than_stack)`. -/
def mod_check_in_flight_address_dependency_for_downup_request (s : Sim) (m : Nat) (addr : Nat)
    (older_than_stack : Nat) : Option Nat :=
  let md := s.mods m
  let id := (s.stack_tab older_than_stack).id
  (md.read_write_req_hash_table (hash_index md addr)).find? (fun h =>
    let stack := s.stack_tab h
    decide (stack.id ≠ id) &&
    decide (stack.addr >>> md.log_block_size = addr >>> md.log_block_size) &&
    (if stack.read then stack.read_request_in_progress else stack.write))

/-- The checks of `mod_check_coherency_status` on one module (module.c, snoop
variant lines 2217-2279): `true` when one of the `fatal` calls is reached.
`hit` and `st` are `check_stack_hit` and `check_stack_state`. -/
def coherency_violation (kind : mod_kind_t) (issue_mod_state : cache_block_state_t)
    (request_dir_down_up : Bool) (hit : Bool) (st : cache_block_state_t) : Bool :=
  if request_dir_down_up then
    if issue_mod_state = cache_block_exclusive ∨ issue_mod_state = cache_block_modified then
      decide (st ≠ cache_block_invalid) && hit
    else if issue_mod_state = cache_block_shared then
      hit && decide (st = cache_block_exclusive ∨ st = cache_block_modified)
    else if issue_mod_state = cache_block_owned then
      hit && decide (st ≠ cache_block_shared) && decide (st ≠ cache_block_invalid)
    else false
  else
    if issue_mod_state = cache_block_modified ∨ issue_mod_state = cache_block_exclusive then
      decide (st ≠ cache_block_exclusive) && decide (st ≠ cache_block_modified) &&
        decide (st ≠ cache_block_noncoherent) && hit
    else if issue_mod_state = cache_block_shared ∨ issue_mod_state = cache_block_owned then
      if kind ≠ mod_kind_main_memory then
        decide (st ≠ cache_block_shared) && decide (st ≠ cache_block_owned)
      else decide (st = cache_block_invalid)
    else false

/-- `mod_check_coherency_status(target_mod, prev_mod, issue_mod, addr,
issue_mod_state, request_dir_down_up, stack)` (module.c, snoop variant lines
2203-2319).  The result is `true` when the walk reaches a `fatal` (or does not
end within `fuel` nested calls, or is handed no module). -/
def mod_check_coherency_status (s : Sim) (issue_mod : Nat) (addr : Nat)
    (issue_mod_state : cache_block_state_t) :
    Nat → Option Nat → Nat → Bool → Bool
  | 0, _, _, _ => true
  | _ + 1, none, _, _ => true
  | fuel + 1, some target_mod, prev_mod, request_dir_down_up =>
    let md := s.mods target_mod
    match mod_find_block md addr 0 s.uninit_state with
    | none => true
    | some r =>
      if coherency_violation md.kind issue_mod_state request_dir_down_up r.hit r.state then true
      else
        let up :=
          if md.has_high_net then
            (md.node_list.take md.num_nodes).any (fun node =>
              if node.kind ≠ net_node_end then false
              else
                let sharer := node.user_data
                if (s.mods sharer).mod_id = md.mod_id then false
                else if (s.mods sharer).mod_id = (s.mods prev_mod).mod_id then false
                else if (s.mods sharer).mod_id = (s.mods issue_mod).mod_id then false
                else mod_check_coherency_status s issue_mod addr issue_mod_state fuel
                  (some sharer) target_mod true)
          else false
        if up then true
        else if !request_dir_down_up && md.has_low_net then
          match mod_get_low_mod s target_mod addr with
          | low_mod_t.server sharer =>
            mod_check_coherency_status s issue_mod addr issue_mod_state fuel
              (some sharer) target_mod false
          | _ => true
        else false

/-! ## nmoesi-protocol.c (snoop variant) -/

/-- Update a stack in place. -/
def Sim.modStack (s : Sim) (h : Nat) (f : mod_stack_t → mod_stack_t) : Sim :=
  s.setStack h (f (s.stack_tab h))

/-- Update the return stack `stack->ret_stack` of `h` in place (a `NULL`
return stack cannot be written: the run stops). -/
def Sim.modRet (s : Sim) (h : Nat) (f : mod_stack_t → mod_stack_t) : Sim :=
  match (s.stack_tab h).ret_stack with
  | some r => s.modStack r f
  | none => s.stop

/-- `EV_MOD_NMOESI_LOAD` (lines 147-187). -/
def ev_mod_nmoesi_load (s : Sim) (h : Nat) : Sim :=
  let s := s.log EV_MOD_NMOESI_LOAD h
  let mod := (s.stack_tab h).mod
  let s := mod_access_start s mod h mod_access_load
  let s := s.modStack h (fun st => { st with read := true })
  match mod_can_coalesce s mod mod_access_load (s.stack_tab h).addr (some h) with
  | some master_stack =>
    let s := mod_coalesce s mod master_stack h
    mod_stack_wait_in_stack s h master_stack EV_MOD_NMOESI_LOAD_FINISH
  | none => esim_schedule_event s EV_MOD_NMOESI_LOAD_LOCK h 0

/-- `EV_MOD_NMOESI_LOAD_LOCK` (lines 189-261). -/
def ev_mod_nmoesi_load_lock (s : Sim) (h : Nat) : Sim :=
  let s := s.log EV_MOD_NMOESI_LOAD_LOCK h
  let stack := s.stack_tab h
  let mod := stack.mod
  match mod_in_flight_write s mod (some h) with
  | some older_stack => mod_stack_wait_in_stack s h older_stack EV_MOD_NMOESI_LOAD_LOCK
  | none =>
    match mod_in_flight_address s mod stack.addr (some h) with
    | some older_stack => mod_stack_wait_in_stack s h older_stack EV_MOD_NMOESI_LOAD_LOCK
    | none =>
      let (new_stack, s) := mod_stack_create s stack.id mod stack.addr
        EV_MOD_NMOESI_LOAD_ACTION (some h)
      let s := s.modStack new_stack (fun st => { st with
        orig_mod_id := (s.mods mod).mod_id
        issue_mod_id := stack.issue_mod_id
        blocking := true
        read := true
        retry := stack.retry })
      esim_schedule_event s EV_MOD_NMOESI_FIND_AND_LOCK new_stack 0

/-- `EV_MOD_NMOESI_LOAD_ACTION` (lines 263-314). -/
def ev_mod_nmoesi_load_action (s : Sim) (h : Nat) : Sim :=
  let s := s.log EV_MOD_NMOESI_LOAD_ACTION h
  let stack := s.stack_tab h
  let mod := stack.mod
  if stack.err then
    let (retry_lat, s) := mod_get_retry_latency s mod
    let s := s.modStack h (fun st => { st with retry := true })
    esim_schedule_event s EV_MOD_NMOESI_LOAD_LOCK h retry_lat
  else if stack.state ≠ cache_block_invalid then
    esim_schedule_event s EV_MOD_NMOESI_LOAD_UNLOCK h 0
  else
    let (new_stack, s) := mod_stack_create s stack.id mod (toU32 stack.tag)
      EV_MOD_NMOESI_LOAD_MISS (some h)
    match mod_get_low_mod s mod (toU32 stack.tag) with
    | low_mod_t.fatal => s.stop
    | low =>
      let s := s.modStack new_stack (fun st => { st with
        orig_mod_id := (s.mods mod).mod_id
        issue_mod_id := stack.issue_mod_id
        target_mod := (match low with | low_mod_t.server t => some t | _ => none)
        request_dir := mod_request_up_down
        read := true })
      esim_schedule_event s EV_MOD_NMOESI_READ_REQUEST new_stack 0

/-- Fuel handed to `mod_check_coherency_status`: the walk follows the module
tree, so it nests at most once per module. -/
def coherency_fuel (s : Sim) : Nat := 2 * s.num_mods + 2

/-- The two lines `check_mod = mod_get_low_mod(mod, stack->tag);
mod_check_coherency_status(check_mod, mod, mod, stack->tag, next_state, 0,
stack);` shared by LOAD_MISS and STORE_UNLOCK: the run stops when either
reaches a `fatal`. -/
def check_after_install (s : Sim) (mod : Nat) (tag : Int) (next_state : cache_block_state_t) :
    Sim :=
  match mod_get_low_mod s mod (toU32 tag) with
  | low_mod_t.fatal => s.stop
  | low =>
    let check_mod := (match low with | low_mod_t.server t => some t | _ => none)
    if mod_check_coherency_status s mod (toU32 tag) next_state (coherency_fuel s)
        check_mod mod false then s.stop
    else s

/-- `EV_MOD_NMOESI_LOAD_MISS` (lines 316-355). -/
def ev_mod_nmoesi_load_miss (s : Sim) (h : Nat) : Sim :=
  let s := s.log EV_MOD_NMOESI_LOAD_MISS h
  let stack := s.stack_tab h
  let mod := stack.mod
  if stack.err then
    let (retry_lat, s) := mod_get_retry_latency s mod
    let s := cache_entry_unlock s mod stack.set stack.way
    let s := s.modStack h (fun st => { st with retry := true })
    esim_schedule_event s EV_MOD_NMOESI_LOAD_LOCK h retry_lat
  else
    let next_state := cache_block_next_state (flag stack.shared) (flag stack.dirty)
    let s := cache_set_block s mod stack.set stack.way stack.tag next_state
    let s := check_after_install s mod stack.tag next_state
    if s.fatal then s
    else esim_schedule_event s EV_MOD_NMOESI_LOAD_UNLOCK h 0

/-- `EV_MOD_NMOESI_LOAD_UNLOCK` (lines 357-371). -/
def ev_mod_nmoesi_load_unlock (s : Sim) (h : Nat) : Sim :=
  let s := s.log EV_MOD_NMOESI_LOAD_UNLOCK h
  let stack := s.stack_tab h
  let s := cache_entry_unlock s stack.mod stack.set stack.way
  esim_schedule_event s EV_MOD_NMOESI_LOAD_FINISH h (s.mods stack.mod).latency

/-- `EV_MOD_NMOESI_LOAD_FINISH` (lines 373-411). -/
def ev_mod_nmoesi_load_finish (s : Sim) (h : Nat) : Sim :=
  let s := s.log EV_MOD_NMOESI_LOAD_FINISH h
  let stack := s.stack_tab h
  let s := if stack.witness_ptr then { s with witness := s.witness + 1 } else s
  let s := mod_access_finish s stack.mod h
  mod_stack_return s h

/-- `mod_handler_nmoesi_load(event, data)`; an event of another handler is `abort()`. -/
def mod_handler_nmoesi_load (event : Ev) (s : Sim) (h : Nat) : Sim :=
  match event with
  | EV_MOD_NMOESI_LOAD => ev_mod_nmoesi_load s h
  | EV_MOD_NMOESI_LOAD_LOCK => ev_mod_nmoesi_load_lock s h
  | EV_MOD_NMOESI_LOAD_ACTION => ev_mod_nmoesi_load_action s h
  | EV_MOD_NMOESI_LOAD_MISS => ev_mod_nmoesi_load_miss s h
  | EV_MOD_NMOESI_LOAD_UNLOCK => ev_mod_nmoesi_load_unlock s h
  | EV_MOD_NMOESI_LOAD_FINISH => ev_mod_nmoesi_load_finish s h
  | _ => s.stop

/-- `EV_MOD_NMOESI_PREFETCH` (lines 923-957).  The statistics counter
`useless_prefetches` is not modelled. -/
def ev_mod_nmoesi_prefetch (s : Sim) (h : Nat) : Sim :=
  let s := s.log EV_MOD_NMOESI_PREFETCH h
  let mod := (s.stack_tab h).mod
  let s := mod_access_start s mod h mod_access_prefetch
  match mod_can_coalesce s mod mod_access_prefetch (s.stack_tab h).addr (some h) with
  | some _ =>
    let s := esim_schedule_event s EV_MOD_NMOESI_PREFETCH_FINISH h 0
    if (s.stack_tab h).witness_ptr then { s with witness := s.witness + 1 } else s
  | none => esim_schedule_event s EV_MOD_NMOESI_PREFETCH_LOCK h 0

/-- `EV_MOD_NMOESI_PREFETCH_LOCK` (lines 960-995). -/
def ev_mod_nmoesi_prefetch_lock (s : Sim) (h : Nat) : Sim :=
  let s := s.log EV_MOD_NMOESI_PREFETCH_LOCK h
  let stack := s.stack_tab h
  let mod := stack.mod
  match mod_in_flight_write s mod (some h) with
  | some older_stack => mod_stack_wait_in_stack s h older_stack EV_MOD_NMOESI_PREFETCH_LOCK
  | none =>
    let (new_stack, s) := mod_stack_create s stack.id mod stack.addr
      EV_MOD_NMOESI_PREFETCH_ACTION (some h)
    let s := s.modStack new_stack (fun st => { st with
      orig_mod_id := (s.mods mod).mod_id
      issue_mod_id := stack.issue_mod_id
      blocking := false
      prefetch := true
      retry := false
      witness_ptr := stack.witness_ptr })
    let s := esim_schedule_event s EV_MOD_NMOESI_FIND_AND_LOCK new_stack 0
    s.modStack h (fun st => { st with witness_ptr := false })

/-- `EV_MOD_NMOESI_PREFETCH_ACTION` (lines 997-1041).  The statistics counters
`prefetch_aborts` and `useless_prefetches` are not modelled. -/
def ev_mod_nmoesi_prefetch_action (s : Sim) (h : Nat) : Sim :=
  let s := s.log EV_MOD_NMOESI_PREFETCH_ACTION h
  let stack := s.stack_tab h
  let mod := stack.mod
  if stack.err then esim_schedule_event s EV_MOD_NMOESI_PREFETCH_FINISH h 0
  else if stack.state ≠ cache_block_invalid then
    esim_schedule_event s EV_MOD_NMOESI_PREFETCH_UNLOCK h 0
  else
    let (new_stack, s) := mod_stack_create s stack.id mod (toU32 stack.tag)
      EV_MOD_NMOESI_PREFETCH_MISS (some h)
    match mod_get_low_mod s mod (toU32 stack.tag) with
    | low_mod_t.fatal => s.stop
    | low =>
      let s := s.modStack new_stack (fun st => { st with
        orig_mod_id := (s.mods mod).mod_id
        issue_mod_id := stack.issue_mod_id
        target_mod := (match low with | low_mod_t.server t => some t | _ => none)
        request_dir := mod_request_up_down
        prefetch := true
        read := true })
      esim_schedule_event s EV_MOD_NMOESI_READ_REQUEST new_stack 0

/-- `EV_MOD_NMOESI_PREFETCH_MISS` (lines 1042-1087).  `mod_block_set_prefetched`
marks the block only in a cache that has a prefetcher; the caches of this
development have none, so the call does nothing. -/
def ev_mod_nmoesi_prefetch_miss (s : Sim) (h : Nat) : Sim :=
  let s := s.log EV_MOD_NMOESI_PREFETCH_MISS h
  let stack := s.stack_tab h
  let mod := stack.mod
  if stack.err then
    let s := cache_entry_unlock s mod stack.set stack.way
    esim_schedule_event s EV_MOD_NMOESI_PREFETCH_FINISH h 0
  else
    let next_state := cache_block_next_state (flag stack.shared) (flag stack.dirty)
    let s := cache_set_block s mod stack.set stack.way stack.tag next_state
    let s := check_after_install s mod stack.tag next_state
    if s.fatal then s
    else esim_schedule_event s EV_MOD_NMOESI_PREFETCH_UNLOCK h 0

/-- `EV_MOD_NMOESI_PREFETCH_UNLOCK` (lines 1089-1103). -/
def ev_mod_nmoesi_prefetch_unlock (s : Sim) (h : Nat) : Sim :=
  let s := s.log EV_MOD_NMOESI_PREFETCH_UNLOCK h
  let stack := s.stack_tab h
  let s := cache_entry_unlock s stack.mod stack.set stack.way
  esim_schedule_event s EV_MOD_NMOESI_PREFETCH_FINISH h 0

/-- `EV_MOD_NMOESI_PREFETCH_FINISH` (lines 1104-1131). -/
def ev_mod_nmoesi_prefetch_finish (s : Sim) (h : Nat) : Sim :=
  let s := s.log EV_MOD_NMOESI_PREFETCH_FINISH h
  let stack := s.stack_tab h
  let s := if stack.witness_ptr then { s with witness := s.witness + 1 } else s
  let s := mod_access_finish s stack.mod h
  mod_stack_return s h

/-- `mod_handler_nmoesi_prefetch(event, data)`; an event of another handler is
`abort()`. -/
def mod_handler_nmoesi_prefetch (event : Ev) (s : Sim) (h : Nat) : Sim :=
  match event with
  | EV_MOD_NMOESI_PREFETCH => ev_mod_nmoesi_prefetch s h
  | EV_MOD_NMOESI_PREFETCH_LOCK => ev_mod_nmoesi_prefetch_lock s h
  | EV_MOD_NMOESI_PREFETCH_ACTION => ev_mod_nmoesi_prefetch_action s h
  | EV_MOD_NMOESI_PREFETCH_MISS => ev_mod_nmoesi_prefetch_miss s h
  | EV_MOD_NMOESI_PREFETCH_UNLOCK => ev_mod_nmoesi_prefetch_unlock s h
  | EV_MOD_NMOESI_PREFETCH_FINISH => ev_mod_nmoesi_prefetch_finish s h
  | _ => s.stop

/-- `EV_MOD_NMOESI_STORE` (lines 425-468). -/
def ev_mod_nmoesi_store (s : Sim) (h : Nat) : Sim :=
  let s := s.log EV_MOD_NMOESI_STORE h
  let mod := (s.stack_tab h).mod
  let s := mod_access_start s mod h mod_access_store
  let s := s.modStack h (fun st => { st with write := true })
  match mod_can_coalesce s mod mod_access_store (s.stack_tab h).addr (some h) with
  | some master_stack =>
    let s := mod_coalesce s mod master_stack h
    let s := mod_stack_wait_in_stack s h master_stack EV_MOD_NMOESI_STORE_FINISH
    if (s.stack_tab h).witness_ptr then { s with witness := s.witness + 1 } else s
  | none => esim_schedule_event s EV_MOD_NMOESI_STORE_LOCK h 0

/-- `EV_MOD_NMOESI_STORE_LOCK` (lines 471-519). -/
def ev_mod_nmoesi_store_lock (s : Sim) (h : Nat) : Sim :=
  let s := s.log EV_MOD_NMOESI_STORE_LOCK h
  let stack := s.stack_tab h
  let mod := stack.mod
  match (prev_chain (s.mods mod).access_list h).head? with
  | some older_stack => mod_stack_wait_in_stack s h older_stack EV_MOD_NMOESI_STORE_LOCK
  | none =>
    let (new_stack, s) := mod_stack_create s stack.id mod stack.addr
      EV_MOD_NMOESI_STORE_ACTION (some h)
    let s := s.modStack new_stack (fun st => { st with
      orig_mod_id := (s.mods mod).mod_id
      issue_mod_id := stack.issue_mod_id
      blocking := true
      write := true
      retry := stack.retry
      witness_ptr := stack.witness_ptr })
    let s := esim_schedule_event s EV_MOD_NMOESI_FIND_AND_LOCK new_stack 0
    s.modStack h (fun st => { st with witness_ptr := false })

/-- `EV_MOD_NMOESI_STORE_ACTION` (lines 521-573). -/
def ev_mod_nmoesi_store_action (s : Sim) (h : Nat) : Sim :=
  let s := s.log EV_MOD_NMOESI_STORE_ACTION h
  let stack := s.stack_tab h
  let mod := stack.mod
  if stack.err then
    let (retry_lat, s) := mod_get_retry_latency s mod
    let s := s.modStack h (fun st => { st with retry := true })
    esim_schedule_event s EV_MOD_NMOESI_STORE_LOCK h retry_lat
  else if stack.state = cache_block_modified ∨ stack.state = cache_block_exclusive then
    esim_schedule_event s EV_MOD_NMOESI_STORE_UNLOCK h 0
  else
    let (new_stack, s) := mod_stack_create s stack.id mod (toU32 stack.tag)
      EV_MOD_NMOESI_STORE_UNLOCK (some h)
    match mod_get_low_mod s mod (toU32 stack.tag) with
    | low_mod_t.fatal => s.stop
    | low =>
      let s := s.modStack new_stack (fun st => { st with
        orig_mod_id := (s.mods mod).mod_id
        issue_mod_id := stack.issue_mod_id
        target_mod := (match low with | low_mod_t.server t => some t | _ => none)
        request_dir := mod_request_up_down
        write := true })
      esim_schedule_event s EV_MOD_NMOESI_WRITE_REQUEST new_stack 0

/-- `EV_MOD_NMOESI_STORE_UNLOCK` (lines 575-614). -/
def ev_mod_nmoesi_store_unlock (s : Sim) (h : Nat) : Sim :=
  let s := s.log EV_MOD_NMOESI_STORE_UNLOCK h
  let stack := s.stack_tab h
  let mod := stack.mod
  if stack.err then
    let (retry_lat, s) := mod_get_retry_latency s mod
    let s := cache_entry_unlock s mod stack.set stack.way
    let s := s.modStack h (fun st => { st with retry := true })
    esim_schedule_event s EV_MOD_NMOESI_STORE_LOCK h retry_lat
  else
    let s := cache_set_block s mod stack.set stack.way stack.tag cache_block_modified
    let s := check_after_install s mod stack.tag cache_block_modified
    if s.fatal then s
    else
      let s := cache_entry_unlock s mod stack.set stack.way
      esim_schedule_event s EV_MOD_NMOESI_STORE_FINISH h (s.mods mod).latency

/-- `EV_MOD_NMOESI_STORE_FINISH` (lines 616-648). -/
def ev_mod_nmoesi_store_finish (s : Sim) (h : Nat) : Sim :=
  let s := s.log EV_MOD_NMOESI_STORE_FINISH h
  let s := mod_access_finish s (s.stack_tab h).mod h
  mod_stack_return s h

/-- `mod_handler_nmoesi_store(event, data)`; an event of another handler is `abort()`. -/
def mod_handler_nmoesi_store (event : Ev) (s : Sim) (h : Nat) : Sim :=
  match event with
  | EV_MOD_NMOESI_STORE => ev_mod_nmoesi_store s h
  | EV_MOD_NMOESI_STORE_LOCK => ev_mod_nmoesi_store_lock s h
  | EV_MOD_NMOESI_STORE_ACTION => ev_mod_nmoesi_store_action s h
  | EV_MOD_NMOESI_STORE_UNLOCK => ev_mod_nmoesi_store_unlock s h
  | EV_MOD_NMOESI_STORE_FINISH => ev_mod_nmoesi_store_finish s h
  | _ => s.stop

/-- `EV_MOD_NMOESI_NC_STORE` (lines 661-686).  The statistics counter
`nc_writes` is not modelled. -/
def ev_mod_nmoesi_nc_store (s : Sim) (h : Nat) : Sim :=
  let s := s.log EV_MOD_NMOESI_NC_STORE h
  let mod := (s.stack_tab h).mod
  let s := mod_access_start s mod h mod_access_nc_store
  match mod_can_coalesce s mod mod_access_nc_store (s.stack_tab h).addr (some h) with
  | some master_stack =>
    let s := mod_coalesce s mod master_stack h
    mod_stack_wait_in_stack s h master_stack EV_MOD_NMOESI_NC_STORE_FINISH
  | none => esim_schedule_event s EV_MOD_NMOESI_NC_STORE_LOCK h 0

/-- `EV_MOD_NMOESI_NC_STORE_LOCK` (lines 688-726). -/
def ev_mod_nmoesi_nc_store_lock (s : Sim) (h : Nat) : Sim :=
  let s := s.log EV_MOD_NMOESI_NC_STORE_LOCK h
  let stack := s.stack_tab h
  let mod := stack.mod
  match mod_in_flight_write s mod (some h) with
  | some older_stack => mod_stack_wait_in_stack s h older_stack EV_MOD_NMOESI_NC_STORE_LOCK
  | none =>
    match mod_in_flight_address s mod stack.addr (some h) with
    | some older_stack => mod_stack_wait_in_stack s h older_stack EV_MOD_NMOESI_NC_STORE_LOCK
    | none =>
      let (new_stack, s) := mod_stack_create s stack.id mod stack.addr
        EV_MOD_NMOESI_NC_STORE_WRITEBACK (some h)
      let s := s.modStack new_stack (fun st => { st with
        orig_mod_id := (s.mods mod).mod_id
        issue_mod_id := stack.issue_mod_id
        blocking := true
        nc_write := true
        retry := stack.retry })
      esim_schedule_event s EV_MOD_NMOESI_FIND_AND_LOCK new_stack 0

/-- `EV_MOD_NMOESI_NC_STORE_WRITEBACK` (lines 728-766). -/
def ev_mod_nmoesi_nc_store_writeback (s : Sim) (h : Nat) : Sim :=
  let s := s.log EV_MOD_NMOESI_NC_STORE_WRITEBACK h
  let stack := s.stack_tab h
  let mod := stack.mod
  if stack.err then
    let (retry_lat, s) := mod_get_retry_latency s mod
    let s := s.modStack h (fun st => { st with retry := true })
    esim_schedule_event s EV_MOD_NMOESI_NC_STORE_LOCK h retry_lat
  else if stack.state = cache_block_modified ∨ stack.state = cache_block_owned then
    let s := s.modStack h (fun st => { st with eviction := true })
    let (new_stack, s) := mod_stack_create s stack.id mod 0
      EV_MOD_NMOESI_NC_STORE_ACTION (some h)
    let s := s.modStack new_stack (fun st => { st with
      orig_mod_id := (s.mods mod).mod_id
      issue_mod_id := stack.issue_mod_id
      set := stack.set
      way := stack.way
      evict_trans := true })
    esim_schedule_event s EV_MOD_NMOESI_EVICT new_stack 0
  else esim_schedule_event s EV_MOD_NMOESI_NC_STORE_ACTION h 0

/-- `EV_MOD_NMOESI_NC_STORE_ACTION` (lines 768-834). -/
def ev_mod_nmoesi_nc_store_action (s : Sim) (h : Nat) : Sim :=
  let s := s.log EV_MOD_NMOESI_NC_STORE_ACTION h
  let stack := s.stack_tab h
  let mod := stack.mod
  if stack.err then
    let (retry_lat, s) := mod_get_retry_latency s mod
    let s := s.modStack h (fun st => { st with retry := true })
    esim_schedule_event s EV_MOD_NMOESI_NC_STORE_LOCK h retry_lat
  else if (s.mods mod).kind = mod_kind_main_memory then
    esim_schedule_event s EV_MOD_NMOESI_NC_STORE_UNLOCK h 0
  else if stack.state = cache_block_shared ∨ stack.state = cache_block_noncoherent then
    esim_schedule_event s EV_MOD_NMOESI_NC_STORE_UNLOCK h 0
  else if stack.state = cache_block_exclusive then
    let (new_stack, s) := mod_stack_create s stack.id mod (toU32 stack.tag)
      EV_MOD_NMOESI_NC_STORE_MISS (some h)
    match mod_get_low_mod s mod (toU32 stack.tag) with
    | low_mod_t.fatal => s.stop
    | low =>
      let s := s.modStack new_stack (fun st => { st with
        orig_mod_id := (s.mods mod).mod_id
        issue_mod_id := stack.issue_mod_id
        message := message_clear_owner
        target_mod := (match low with | low_mod_t.server t => some t | _ => none) })
      esim_schedule_event s EV_MOD_NMOESI_MESSAGE new_stack 0
  else
    let (new_stack, s) := mod_stack_create s stack.id mod (toU32 stack.tag)
      EV_MOD_NMOESI_NC_STORE_MISS (some h)
    match mod_get_low_mod s mod (toU32 stack.tag) with
    | low_mod_t.fatal => s.stop
    | low =>
      let s := s.modStack new_stack (fun st => { st with
        orig_mod_id := (s.mods mod).mod_id
        issue_mod_id := stack.issue_mod_id
        nc_write := true
        target_mod := (match low with | low_mod_t.server t => some t | _ => none)
        request_dir := mod_request_up_down
        read := true })
      esim_schedule_event s EV_MOD_NMOESI_READ_REQUEST new_stack 0

/-- `EV_MOD_NMOESI_NC_STORE_MISS` (lines 836-860). -/
def ev_mod_nmoesi_nc_store_miss (s : Sim) (h : Nat) : Sim :=
  let s := s.log EV_MOD_NMOESI_NC_STORE_MISS h
  let stack := s.stack_tab h
  let mod := stack.mod
  if stack.err then
    let (retry_lat, s) := mod_get_retry_latency s mod
    let s := cache_entry_unlock s mod stack.set stack.way
    let s := s.modStack h (fun st => { st with retry := true })
    esim_schedule_event s EV_MOD_NMOESI_NC_STORE_LOCK h retry_lat
  else esim_schedule_event s EV_MOD_NMOESI_NC_STORE_UNLOCK h 0

/-- `EV_MOD_NMOESI_NC_STORE_UNLOCK` (lines 862-881). -/
def ev_mod_nmoesi_nc_store_unlock (s : Sim) (h : Nat) : Sim :=
  let s := s.log EV_MOD_NMOESI_NC_STORE_UNLOCK h
  let stack := s.stack_tab h
  let s := cache_set_block s stack.mod stack.set stack.way stack.tag cache_block_noncoherent
  let s := cache_entry_unlock s stack.mod stack.set stack.way
  esim_schedule_event s EV_MOD_NMOESI_NC_STORE_FINISH h (s.mods stack.mod).latency

/-- `EV_MOD_NMOESI_NC_STORE_FINISH` (lines 883-910). -/
def ev_mod_nmoesi_nc_store_finish (s : Sim) (h : Nat) : Sim :=
  let s := s.log EV_MOD_NMOESI_NC_STORE_FINISH h
  let stack := s.stack_tab h
  let s := if stack.witness_ptr then { s with witness := s.witness + 1 } else s
  let s := mod_access_finish s stack.mod h
  mod_stack_return s h

/-- `mod_handler_nmoesi_nc_store(event, data)`; an event of another handler is
`abort()`. -/
def mod_handler_nmoesi_nc_store (event : Ev) (s : Sim) (h : Nat) : Sim :=
  match event with
  | EV_MOD_NMOESI_NC_STORE => ev_mod_nmoesi_nc_store s h
  | EV_MOD_NMOESI_NC_STORE_LOCK => ev_mod_nmoesi_nc_store_lock s h
  | EV_MOD_NMOESI_NC_STORE_WRITEBACK => ev_mod_nmoesi_nc_store_writeback s h
  | EV_MOD_NMOESI_NC_STORE_ACTION => ev_mod_nmoesi_nc_store_action s h
  | EV_MOD_NMOESI_NC_STORE_MISS => ev_mod_nmoesi_nc_store_miss s h
  | EV_MOD_NMOESI_NC_STORE_UNLOCK => ev_mod_nmoesi_nc_store_unlock s h
  | EV_MOD_NMOESI_NC_STORE_FINISH => ev_mod_nmoesi_nc_store_finish s h
  | _ => s.stop

/-- The condition `!stack->downup_read_request && !stack->downup_writeback_request &&
!stack->evict_trans` of FindAndLock. -/
def mod_stack_t.plain (st : mod_stack_t) : Bool :=
  !st.downup_read_request && !st.downup_writeback_request && !st.evict_trans

/-- The condition `stack->hit || (!stack->downup_read_request && !stack->evict_trans &&
!stack->downup_writeback_request)` of FindAndLock: the entry is to be locked. -/
def mod_stack_t.locks (st : mod_stack_t) : Bool :=
  st.hit || (!st.downup_read_request && !st.evict_trans && !st.downup_writeback_request)

/-- The chains `if (stack->read) ... else if (stack->prefetch) ... else
fatal("Unknown memory operation type")` of FIND_AND_LOCK_PORT end in `fatal`
exactly when the stack carries no operation flag. -/
def mod_stack_t.known_op (st : mod_stack_t) : Bool :=
  st.read || st.prefetch || st.nc_write || st.write || decide (st.message ≠ message_none)

/-- `EV_MOD_NMOESI_FIND_AND_LOCK` (lines 1145-1161). -/
def ev_mod_nmoesi_find_and_lock (s : Sim) (h : Nat) : Sim :=
  let s := s.log EV_MOD_NMOESI_FIND_AND_LOCK h
  let s := s.modRet h (fun r => { r with err := false })
  let ret_way := match (s.stack_tab h).ret_stack with
    | some r => (s.stack_tab r).way
    | none => (s.stack_tab h).way
  let s := s.modStack h (fun st => { st with way := ret_way })
  mod_lock_port s (s.stack_tab h).mod h EV_MOD_NMOESI_FIND_AND_LOCK_PORT

/-- `EV_MOD_NMOESI_FIND_AND_LOCK_PORT` (lines 1163-1466). -/
def ev_mod_nmoesi_find_and_lock_port (s : Sim) (h : Nat) : Sim :=
  let s := s.log EV_MOD_NMOESI_FIND_AND_LOCK_PORT h
  let mod := (s.stack_tab h).mod
  let port := ((s.stack_tab h).port).getD 0
  let s := s.check ((s.stack_tab h).port.isSome) 1168
  let s := s.modRet h (fun r => { r with port_locked := true })
  match mod_find_block (s.mods mod) (s.stack_tab h).addr (s.stack_tab h).way
      (s.stack_tab h).state with
  | none => s.stop
  | some r =>
    let s := s.modStack h (fun st => { st with
      hit := r.hit, set := r.set, way := r.way, tag := r.tag, state := r.state })
    let s := s.modRet h (fun rt => { rt with
      prev_state := if r.hit then r.state else cache_block_invalid })
    if !(s.stack_tab h).known_op then s.stop
    else
      let st := s.stack_tab h
      let s := if !st.read && !st.prefetch && !st.nc_write && st.write && st.witness_ptr then
          { s.modStack h (fun st => { st with witness_ptr := false }) with
            witness := s.witness + 1 }
        else s
      let s := if (s.stack_tab h).plain && !(s.stack_tab h).hit && decide ((s.stack_tab h).way < 0)
        then s.modStack h (fun st => { st with way := cache_replace_block s mod st.set })
        else s
      let s := if (s.stack_tab h).plain then s.check (decide ((s.stack_tab h).way ≥ 0)) 1386 else s
      let st := s.stack_tab h
      if st.locks then
        let cache_lock := cache_lock_get s mod st.set st.way
        if cache_lock.lock && !st.blocking then
          let s := s.modRet h (fun rt => { rt with err := true })
          let s := mod_unlock_port s mod port h
          let s := s.modRet h (fun rt => { rt with port_locked := false })
          mod_stack_return s h
        else
          let (ok, s) := cache_entry_lock s mod st.set st.way EV_MOD_NMOESI_FIND_AND_LOCK h
          if !ok then
            let s := mod_unlock_port s mod port h
            s.modRet h (fun rt => { rt with port_locked := false })
          else
            let s := if st.request_dir ≠ mod_request_down_up then
                s.modRet h (fun rt => { rt with
                  read_request_in_progress := rt.read_request_in_progress || st.read
                  write_request_in_progress := rt.write_request_in_progress || st.write })
              else s
            let s := if st.plain && !st.hit then
                s.modStack h (fun x => { x with state := (cache_get_block s mod st.set st.way).2 })
              else s
            let s := cache_set_transient_tag s mod st.set st.way st.tag
            let s := cache_access_block s mod st.set st.way
            esim_schedule_event s EV_MOD_NMOESI_FIND_AND_LOCK_ACTION h 0
      else
        let s := if st.plain && !st.hit then
            s.modStack h (fun x => { x with state := (cache_get_block s mod st.set st.way).2 })
          else s
        esim_schedule_event s EV_MOD_NMOESI_FIND_AND_LOCK_ACTION h 0

/-- `EV_MOD_NMOESI_FIND_AND_LOCK_ACTION` (lines 1468-1509). -/
def ev_mod_nmoesi_find_and_lock_action (s : Sim) (h : Nat) : Sim :=
  let s := s.log EV_MOD_NMOESI_FIND_AND_LOCK_ACTION h
  let mod := (s.stack_tab h).mod
  let port := ((s.stack_tab h).port).getD 0
  let s := s.check ((s.stack_tab h).port.isSome) 1472
  let s := mod_unlock_port s mod port h
  let s := s.modRet h (fun rt => { rt with port_locked := false })
  let st := s.stack_tab h
  if st.plain && !st.hit && st.state.valid then
    let s := s.modStack h (fun x => { x with eviction := true })
    let (new_stack, s) := mod_stack_create s st.id mod 0
      EV_MOD_NMOESI_FIND_AND_LOCK_FINISH (some h)
    let s := s.modStack new_stack (fun x => { x with
      orig_mod_id := (s.mods mod).mod_id
      issue_mod_id := st.issue_mod_id
      set := st.set
      way := st.way
      evict_trans := true })
    esim_schedule_event s EV_MOD_NMOESI_EVICT new_stack 0
  else
    esim_schedule_event s EV_MOD_NMOESI_FIND_AND_LOCK_FINISH h 0

/-- `EV_MOD_NMOESI_FIND_AND_LOCK_FINISH` (lines 1511-1560). -/
def ev_mod_nmoesi_find_and_lock_finish (s : Sim) (h : Nat) : Sim :=
  let s := s.log EV_MOD_NMOESI_FIND_AND_LOCK_FINISH h
  let st := s.stack_tab h
  let mod := st.mod
  if st.err then
    let state := (cache_get_block s mod st.set st.way).2
    let s := s.modStack h (fun x => { x with state := state })
    let s := s.check state.valid 1522
    let s := s.check st.eviction 1523
    let s := s.modRet h (fun rt => { rt with err := true })
    let s := if st.locks then cache_entry_unlock s mod st.set st.way else s
    mod_stack_return s h
  else
    let s := if st.eviction then
        let state := (cache_get_block s mod st.set st.way).2
        (s.modStack h (fun x => { x with state := state })).check (!state.valid) 1539
      else s
    let s := if (s.mods mod).kind = mod_kind_main_memory ∧ !(s.stack_tab h).state.valid then
        let s := s.modStack h (fun x => { x with state := cache_block_exclusive })
        cache_set_block s mod st.set st.way st.tag cache_block_exclusive
      else s
    let st := s.stack_tab h
    let s := s.modRet h (fun rt => { rt with
      err := false, set := st.set, way := st.way, state := st.state, tag := st.tag })
    mod_stack_return s h

/-- `mod_handler_nmoesi_find_and_lock(event, data)`; an event of another handler
is `abort()`. -/
def mod_handler_nmoesi_find_and_lock (event : Ev) (s : Sim) (h : Nat) : Sim :=
  match event with
  | EV_MOD_NMOESI_FIND_AND_LOCK => ev_mod_nmoesi_find_and_lock s h
  | EV_MOD_NMOESI_FIND_AND_LOCK_PORT => ev_mod_nmoesi_find_and_lock_port s h
  | EV_MOD_NMOESI_FIND_AND_LOCK_ACTION => ev_mod_nmoesi_find_and_lock_action s h
  | EV_MOD_NMOESI_FIND_AND_LOCK_FINISH => ev_mod_nmoesi_find_and_lock_finish s h
  | _ => s.stop

/-- Option form of a `mod_get_low_mod` result that is not `fatal`. -/
def low_mod_t.toOption : low_mod_t → Option Nat
  | low_mod_t.server t => some t
  | _ => none

/-- The double loop shared by INVALIDATE, READ_REQUEST_UPDOWN and
READ_REQUEST_DOWNUP: for each sub-block `z` of the block at `tag` in module `m`
and each node `i` of its upper network, the pair (`cache_entry_tag`, sharer) is
kept unless the node is not an end node, the sharer is `except_mod`, the sharer
is the module itself, the sharer is the originating module, or the sub-block is
not aligned to the sharer's block size.  The pairs come in loop order. -/
def fanout (s : Sim) (m : Nat) (tag : Int) (orig_mod_id : Int) (except_mod : Option Nat) :
    List (Nat × Nat) :=
  let md := s.mods m
  (List.range md.num_sub_blocks).flatMap (fun z =>
    let cache_entry_tag := (toU32 tag + z * md.sub_block_size) % 4294967296
    (md.node_list.take md.num_nodes).filterMap (fun node =>
      let sharer := node.user_data
      if node.kind ≠ net_node_end then none
      else if some sharer = except_mod then none
      else if (s.mods sharer).mod_id = md.mod_id then none
      else if (s.mods sharer).mod_id = orig_mod_id then none
      else if cache_entry_tag % (s.mods sharer).block_size ≠ 0 then none
      else some (cache_entry_tag, sharer)))

/-- Body of the INVALIDATE loop for one (sub-block, sharer) pair (lines 3754-3769). -/
def invalidate_send (h : Nat) (s : Sim) (p : Nat × Nat) : Sim :=
  let stack := s.stack_tab h
  let mod := stack.mod
  let (new_stack, s) := mod_stack_create s stack.id mod p.1
    EV_MOD_NMOESI_INVALIDATE_FINISH (some h)
  let s := s.modStack new_stack (fun x => { x with
    orig_mod_id := (s.mods mod).mod_id
    issue_mod_id := stack.issue_mod_id
    target_mod := some p.2
    request_dir := mod_request_down_up
    invalidate_eviction := stack.invalidate_eviction
    wb_store := stack.wb_store
    downup_writeback_request := true
    evict_trans := stack.invalidate_eviction })
  let s := esim_schedule_event s EV_MOD_NMOESI_WRITE_REQUEST new_stack 0
  s.modStack h (fun x => { x with pending := x.pending + 1 })

/-- `EV_MOD_NMOESI_INVALIDATE` (lines 3700-3776). -/
def ev_mod_nmoesi_invalidate (s : Sim) (h : Nat) : Sim :=
  let s := s.log EV_MOD_NMOESI_INVALIDATE h
  let mod := (s.stack_tab h).mod
  let blk := cache_get_block s mod (s.stack_tab h).set (s.stack_tab h).way
  let s := s.modStack h (fun x => { x with
    tag := blk.1, state := blk.2, pending := 1, prev_state := blk.2 })
  let stack := s.stack_tab h
  let s := if (s.mods mod).num_nodes ≠ 0 ∧ stack.state ≠ cache_block_invalid then
      (fanout s mod stack.tag stack.orig_mod_id stack.except_mod).foldl (invalidate_send h) s
    else s
  esim_schedule_event s EV_MOD_NMOESI_INVALIDATE_FINISH h 0

/-- `EV_MOD_NMOESI_INVALIDATE_FINISH` (lines 3778-3809). -/
def ev_mod_nmoesi_invalidate_finish (s : Sim) (h : Nat) : Sim :=
  let s := s.log EV_MOD_NMOESI_INVALIDATE_FINISH h
  let stack := s.stack_tab h
  let s := if stack.reply = reply_ack_data then
      cache_set_block s stack.mod stack.set stack.way stack.tag cache_block_modified
    else s
  let s := s.check (decide (stack.pending > 0)) 3797
  let s := s.modStack h (fun x => { x with pending := x.pending - 1 })
  if (s.stack_tab h).pending ≠ 0 then s
  else mod_stack_return s h

/-- `mod_handler_nmoesi_invalidate(event, data)`. -/
def mod_handler_nmoesi_invalidate (event : Ev) (s : Sim) (h : Nat) : Sim :=
  match event with
  | EV_MOD_NMOESI_INVALIDATE => ev_mod_nmoesi_invalidate s h
  | EV_MOD_NMOESI_INVALIDATE_FINISH => ev_mod_nmoesi_invalidate_finish s h
  | _ => s.stop

/-- `EV_MOD_NMOESI_MESSAGE` (lines 3825-3852). -/
def ev_mod_nmoesi_message (s : Sim) (h : Nat) : Sim :=
  let s := s.log EV_MOD_NMOESI_MESSAGE h
  let s := s.modStack h (fun x => { x with reply_size := 8, reply := reply_ack })
  let s := s.modRet h (fun rt => { rt with err := false })
  let s := s.check (decide ((s.stack_tab h).message ≠ message_none)) 3841
  net_try_send_ev s h 8 EV_MOD_NMOESI_MESSAGE_RECEIVE EV_MOD_NMOESI_MESSAGE

/-- `EV_MOD_NMOESI_MESSAGE_RECEIVE` (lines 3854-3872). -/
def ev_mod_nmoesi_message_receive (s : Sim) (h : Nat) : Sim :=
  let s := s.log EV_MOD_NMOESI_MESSAGE_RECEIVE h
  let stack := s.stack_tab h
  match stack.target_mod with
  | none => s.stop
  | some target_mod =>
    let (new_stack, s) := mod_stack_create s stack.id target_mod stack.addr
      EV_MOD_NMOESI_MESSAGE_ACTION (some h)
    let s := s.modStack new_stack (fun x => { x with
      orig_mod_id := (s.mods target_mod).mod_id
      issue_mod_id := stack.issue_mod_id
      message := stack.message
      blocking := false
      retry := false })
    esim_schedule_event s EV_MOD_NMOESI_FIND_AND_LOCK new_stack 0

/-- `EV_MOD_NMOESI_MESSAGE_ACTION` (lines 3874-3904). -/
def ev_mod_nmoesi_message_action (s : Sim) (h : Nat) : Sim :=
  let s := s.log EV_MOD_NMOESI_MESSAGE_ACTION h
  let stack := s.stack_tab h
  match stack.target_mod with
  | none => s.stop
  | some target_mod =>
    let s := s.check (decide (stack.message ≠ message_none)) 3879
    if stack.err then
      let s := s.modRet h (fun rt => { rt with err := true })
      let s := match stack.ret_stack with
        | some r => mod_stack_set_reply s r reply_ack_error
        | none => s.stop
      esim_schedule_event s EV_MOD_NMOESI_MESSAGE_REPLY h 0
    else if stack.message = message_clear_owner then
      let s := cache_entry_unlock s target_mod stack.set stack.way
      esim_schedule_event s EV_MOD_NMOESI_MESSAGE_REPLY h 0
    else s.stop

/-- `EV_MOD_NMOESI_MESSAGE_REPLY` (lines 3906-3928). -/
def ev_mod_nmoesi_message_reply (s : Sim) (h : Nat) : Sim :=
  let s := s.log EV_MOD_NMOESI_MESSAGE_REPLY h
  let stack := s.stack_tab h
  match stack.target_mod with
  | none => s.stop
  | some target_mod =>
    let s := s.check (decide (mod_get_low_mod s stack.mod stack.addr = low_mod_t.server target_mod ∨
      mod_get_low_mod s target_mod stack.addr = low_mod_t.server stack.mod)) 3916
    net_try_send_ev s h stack.reply_size EV_MOD_NMOESI_MESSAGE_FINISH
      EV_MOD_NMOESI_MESSAGE_REPLY

/-- `EV_MOD_NMOESI_MESSAGE_FINISH` (lines 3930-3941). -/
def ev_mod_nmoesi_message_finish (s : Sim) (h : Nat) : Sim :=
  let s := s.log EV_MOD_NMOESI_MESSAGE_FINISH h
  mod_stack_return s h

/-- `mod_handler_nmoesi_message(event, data)`; an event of another handler is
`abort()`. -/
def mod_handler_nmoesi_message (event : Ev) (s : Sim) (h : Nat) : Sim :=
  match event with
  | EV_MOD_NMOESI_MESSAGE => ev_mod_nmoesi_message s h
  | EV_MOD_NMOESI_MESSAGE_RECEIVE => ev_mod_nmoesi_message_receive s h
  | EV_MOD_NMOESI_MESSAGE_ACTION => ev_mod_nmoesi_message_action s h
  | EV_MOD_NMOESI_MESSAGE_REPLY => ev_mod_nmoesi_message_reply s h
  | EV_MOD_NMOESI_MESSAGE_FINISH => ev_mod_nmoesi_message_finish s h
  | _ => s.stop

/-- `EV_MOD_NMOESI_EVICT` (lines 1578-1615). -/
def ev_mod_nmoesi_evict (s : Sim) (h : Nat) : Sim :=
  let s := s.log EV_MOD_NMOESI_EVICT h
  let s := s.modRet h (fun rt => { rt with err := false })
  let mod := (s.stack_tab h).mod
  let blk := cache_get_block s mod (s.stack_tab h).set (s.stack_tab h).way
  match mod_get_low_mod s mod (toU32 blk.1) with
  | low_mod_t.fatal => s.stop
  | low =>
    let s := s.modStack h (fun x => { x with
      tag := blk.1, state := blk.2
      src_set := x.set, src_way := x.way, src_tag := blk.1
      target_mod := low.toOption })
    let stack := s.stack_tab h
    let (new_stack, s) := mod_stack_create s stack.id mod 0
      EV_MOD_NMOESI_EVICT_INVALID (some h)
    let s := s.modStack new_stack (fun x => { x with
      orig_mod_id := (s.mods mod).mod_id
      issue_mod_id := stack.issue_mod_id
      except_mod := none
      set := stack.set
      way := stack.way
      invalidate_eviction := true
      prev_state := stack.state })
    esim_schedule_event s EV_MOD_NMOESI_INVALIDATE new_stack 0

/-- `EV_MOD_NMOESI_EVICT_INVALID` (lines 1617-1637). -/
def ev_mod_nmoesi_evict_invalid (s : Sim) (h : Nat) : Sim :=
  let s := s.log EV_MOD_NMOESI_EVICT_INVALID h
  let stack := s.stack_tab h
  if (s.mods stack.mod).kind = mod_kind_main_memory then
    let s := cache_set_block s stack.mod stack.src_set stack.src_way 0 cache_block_invalid
    esim_schedule_event s EV_MOD_NMOESI_EVICT_FINISH h 0
  else esim_schedule_event s EV_MOD_NMOESI_EVICT_ACTION h 0

/-- `EV_MOD_NMOESI_EVICT_ACTION` (lines 1639-1717). -/
def ev_mod_nmoesi_evict_action (s : Sim) (h : Nat) : Sim :=
  let s := s.log EV_MOD_NMOESI_EVICT_ACTION h
  let stack := s.stack_tab h
  let mod := stack.mod
  let s := s.check (decide (stack.target_mod ≠ some mod)) 1653
  let s := s.check (decide (stack.target_mod = (mod_get_low_mod s mod (toU32 stack.tag)).toOption))
    1654
  let state := (cache_get_block s mod stack.set stack.way).2
  let s := s.modStack h (fun x => { x with state := state, prev_state := state })
  if state = cache_block_invalid then
    esim_schedule_event s EV_MOD_NMOESI_EVICT_FINISH h 0
  else
    let msg_size : Int := if state = cache_block_modified ∨ state = cache_block_owned ∨
        state = cache_block_noncoherent then 8 + ((s.mods mod).block_size : Int) else 8
    let s := if state = cache_block_modified ∨ state = cache_block_owned ∨
        state = cache_block_noncoherent then
        s.modStack h (fun x => { x with reply := reply_ack_data })
      else s.modStack h (fun x => { x with reply := reply_ack })
    net_try_send_ev s h msg_size EV_MOD_NMOESI_EVICT_RECEIVE EV_MOD_NMOESI_EVICT_ACTION

/-- `EV_MOD_NMOESI_EVICT_RECEIVE` (lines 1719-1772). -/
def ev_mod_nmoesi_evict_receive (s : Sim) (h : Nat) : Sim :=
  let s := s.log EV_MOD_NMOESI_EVICT_RECEIVE h
  let stack := s.stack_tab h
  match stack.target_mod with
  | none => s.stop
  | some target_mod =>
    let s := if !stack.evict_access_registered ∧ (s.mods stack.mod).kind ≠ mod_kind_main_memory
      then mod_evict_start s target_mod h mod_access_invalid else s
    let (new_stack, s) := mod_stack_create s stack.id target_mod (toU32 stack.src_tag)
      (if stack.state = cache_block_noncoherent then EV_MOD_NMOESI_EVICT_PROCESS_NONCOHERENT
       else EV_MOD_NMOESI_EVICT_PROCESS) (some h)
    let s := s.modStack new_stack (fun x => { x with
      orig_mod_id := (s.mods target_mod).mod_id
      issue_mod_id := stack.issue_mod_id
      blocking := false
      write := true
      retry := false
      evict_trans := true })
    esim_schedule_event s EV_MOD_NMOESI_FIND_AND_LOCK new_stack 0

/-- `EV_MOD_NMOESI_EVICT_PROCESS` (lines 1774-1839). -/
def ev_mod_nmoesi_evict_process (s : Sim) (h : Nat) : Sim :=
  let s := s.log EV_MOD_NMOESI_EVICT_PROCESS h
  let stack := s.stack_tab h
  match stack.target_mod with
  | none => s.stop
  | some target_mod =>
    if stack.err then
      let s := s.modRet h (fun rt => { rt with err := true })
      esim_schedule_event s EV_MOD_NMOESI_EVICT_REPLY h 0
    else
      let unlock := fun (s : Sim) =>
        let s := cache_entry_unlock s target_mod stack.set stack.way
        esim_schedule_event s EV_MOD_NMOESI_EVICT_REPLY h (s.mods target_mod).latency
      if stack.reply = reply_ack then unlock s
      else if stack.reply = reply_ack_data then
        if stack.state = cache_block_exclusive ∨ stack.state = cache_block_modified then
          unlock (cache_set_block s target_mod stack.set stack.way stack.tag cache_block_modified)
        else if stack.state = cache_block_shared ∨ stack.state = cache_block_owned then
          unlock (cache_set_block s target_mod stack.set stack.way stack.tag cache_block_owned)
        else if stack.state = cache_block_noncoherent then
          unlock (cache_set_block s target_mod stack.set stack.way stack.tag
            cache_block_noncoherent)
        else s.stop
      else s.stop

/-- `EV_MOD_NMOESI_EVICT_PROCESS_NONCOHERENT` (lines 1841-1892). -/
def ev_mod_nmoesi_evict_process_noncoherent (s : Sim) (h : Nat) : Sim :=
  let s := s.log EV_MOD_NMOESI_EVICT_PROCESS_NONCOHERENT h
  let stack := s.stack_tab h
  match stack.target_mod with
  | none => s.stop
  | some target_mod =>
    if stack.err then
      let s := s.modRet h (fun rt => { rt with err := true })
      esim_schedule_event s EV_MOD_NMOESI_EVICT_REPLY h 0
    else
      let unlock := fun (s : Sim) =>
        let s := cache_entry_unlock s target_mod stack.set stack.way
        esim_schedule_event s EV_MOD_NMOESI_EVICT_REPLY h (s.mods target_mod).latency
      if stack.reply = reply_ack_data then
        if stack.state = cache_block_exclusive then
          unlock (cache_set_block s target_mod stack.set stack.way stack.tag cache_block_modified)
        else if stack.state = cache_block_owned ∨ stack.state = cache_block_modified then
          unlock s
        else if stack.state = cache_block_shared ∨ stack.state = cache_block_noncoherent then
          unlock (cache_set_block s target_mod stack.set stack.way stack.tag
            cache_block_noncoherent)
        else s.stop
      else s.stop

/-- `EV_MOD_NMOESI_EVICT_REPLY` (lines 1894-1924). -/
def ev_mod_nmoesi_evict_reply (s : Sim) (h : Nat) : Sim :=
  let s := s.log EV_MOD_NMOESI_EVICT_REPLY h
  net_try_send_ev s h 8 EV_MOD_NMOESI_EVICT_REPLY_RECEIVE EV_MOD_NMOESI_EVICT_REPLY

/-- `EV_MOD_NMOESI_EVICT_REPLY_RECEIVE` (lines 1926-1953). -/
def ev_mod_nmoesi_evict_reply_receive (s : Sim) (h : Nat) : Sim :=
  let s := s.log EV_MOD_NMOESI_EVICT_REPLY_RECEIVE h
  let stack := s.stack_tab h
  let s := if !stack.err then
      cache_set_block s stack.mod stack.src_set stack.src_way 0 cache_block_invalid
    else s
  esim_schedule_event s EV_MOD_NMOESI_EVICT_FINISH h 0

/-- `EV_MOD_NMOESI_EVICT_FINISH` (lines 1955-1980). -/
def ev_mod_nmoesi_evict_finish (s : Sim) (h : Nat) : Sim :=
  let s := s.log EV_MOD_NMOESI_EVICT_FINISH h
  let stack := s.stack_tab h
  if (s.mods stack.mod).kind ≠ mod_kind_main_memory then
    match stack.target_mod with
    | none => s.stop
    | some target_mod => mod_stack_return (mod_evict_finish s target_mod h) h
  else mod_stack_return s h

/-- `mod_handler_nmoesi_evict(event, data)`; an event of another handler is `abort()`. -/
def mod_handler_nmoesi_evict (event : Ev) (s : Sim) (h : Nat) : Sim :=
  match event with
  | EV_MOD_NMOESI_EVICT => ev_mod_nmoesi_evict s h
  | EV_MOD_NMOESI_EVICT_INVALID => ev_mod_nmoesi_evict_invalid s h
  | EV_MOD_NMOESI_EVICT_ACTION => ev_mod_nmoesi_evict_action s h
  | EV_MOD_NMOESI_EVICT_RECEIVE => ev_mod_nmoesi_evict_receive s h
  | EV_MOD_NMOESI_EVICT_PROCESS => ev_mod_nmoesi_evict_process s h
  | EV_MOD_NMOESI_EVICT_PROCESS_NONCOHERENT => ev_mod_nmoesi_evict_process_noncoherent s h
  | EV_MOD_NMOESI_EVICT_REPLY => ev_mod_nmoesi_evict_reply s h
  | EV_MOD_NMOESI_EVICT_REPLY_RECEIVE => ev_mod_nmoesi_evict_reply_receive s h
  | EV_MOD_NMOESI_EVICT_FINISH => ev_mod_nmoesi_evict_finish s h
  | _ => s.stop

/-- `EV_MOD_NMOESI_READ_REQUEST` (lines 1997-2064). -/
def ev_mod_nmoesi_read_request (s : Sim) (h : Nat) : Sim :=
  let s := s.log EV_MOD_NMOESI_READ_REQUEST h
  let s := s.modRet h (fun rt => { rt with err := false })
  let stack := s.stack_tab h
  let s := s.check (decide (stack.request_dir ≠ mod_request_invalid)) 2015
  net_try_send_ev s h 8 EV_MOD_NMOESI_READ_REQUEST_RECEIVE EV_MOD_NMOESI_READ_REQUEST

/-- The waits of READ_REQUEST_RECEIVE and WRITE_REQUEST_RECEIVE for a down-up
request (lines 2121-2207 and 3005-3089): the older stack to wait for, if any. -/
def downup_older_stack (s : Sim) (h mod target_mod : Nat) : Option Nat :=
  let stack := s.stack_tab h
  match mod_in_flight_evict_address s mod stack.addr h with
  | some o => some o
  | none =>
    match mod_check_in_flight_address_dependency_for_downup_request s mod stack.addr h with
    | some o => some o
    | none => (prev_chain (s.mods target_mod).downup_access_list h).head?

/-- `EV_MOD_NMOESI_READ_REQUEST_RECEIVE` (lines 2066-2291). -/
def ev_mod_nmoesi_read_request_receive (s : Sim) (h : Nat) : Sim :=
  let s := s.log EV_MOD_NMOESI_READ_REQUEST_RECEIVE h
  let stack := s.stack_tab h
  let mod := stack.mod
  match stack.target_mod with
  | none => s.stop
  | some target_mod =>
    let find_and_lock := fun (s : Sim) =>
      let (new_stack, s) := mod_stack_create s stack.id target_mod stack.addr
        EV_MOD_NMOESI_READ_REQUEST_ACTION (some h)
      let s := s.modStack new_stack (fun x => { x with
        orig_mod_id := (s.mods target_mod).mod_id
        issue_mod_id := stack.issue_mod_id
        blocking := decide (stack.request_dir = mod_request_down_up)
        read := true
        retry := false
        downup_read_request := stack.downup_read_request })
      esim_schedule_event s EV_MOD_NMOESI_FIND_AND_LOCK new_stack 0
    if stack.request_dir = mod_request_down_up then
      let s := if !stack.downup_access_registered then
          mod_downup_access_start s target_mod h mod_access_invalid else s
      match downup_older_stack s h mod target_mod with
      | some older_stack =>
        mod_stack_wait_in_stack s h older_stack EV_MOD_NMOESI_READ_REQUEST_RECEIVE
      | none => find_and_lock s
    else
      let s := if !stack.updown_access_registered then
          mod_read_write_req_access_start s target_mod h mod_access_invalid else s
      match mod_in_flight_read_write_req_address s target_mod stack.addr h with
      | some older_stack =>
        mod_stack_wait_in_stack s h older_stack EV_MOD_NMOESI_READ_REQUEST_RECEIVE
      | none =>
        match mod_in_flight_evict_address s target_mod stack.addr h with
        | some older_stack =>
          mod_stack_wait_in_stack s h older_stack EV_MOD_NMOESI_READ_REQUEST_RECEIVE
        | none => find_and_lock s

/-- `EV_MOD_NMOESI_READ_REQUEST_ACTION` (lines 2293-2314). -/
def ev_mod_nmoesi_read_request_action (s : Sim) (h : Nat) : Sim :=
  let s := s.log EV_MOD_NMOESI_READ_REQUEST_ACTION h
  let stack := s.stack_tab h
  if stack.err then
    let s := s.check (decide (stack.request_dir = mod_request_up_down)) 2304
    let s := s.modRet h (fun rt => { rt with err := true })
    let s := match stack.ret_stack with
      | some r => mod_stack_set_reply s r reply_ack_error
      | none => s.stop
    let s := s.modStack h (fun x => { x with reply_size := 8 })
    esim_schedule_event s EV_MOD_NMOESI_READ_REQUEST_REPLY h 0
  else
    esim_schedule_event s
      (if stack.request_dir = mod_request_up_down then EV_MOD_NMOESI_READ_REQUEST_UPDOWN
       else EV_MOD_NMOESI_READ_REQUEST_DOWNUP) h 0

/-- Body of the READ_REQUEST_UPDOWN loop for one (sub-block, sharer) pair
(lines 2381-2397). -/
def read_request_updown_send (h target_mod : Nat) (s : Sim) (p : Nat × Nat) : Sim :=
  let s := s.modStack h (fun x => { x with pending := x.pending + 1 })
  let stack := s.stack_tab h
  let (new_stack, s) := mod_stack_create s stack.id target_mod p.1
    EV_MOD_NMOESI_READ_REQUEST_UPDOWN_FINISH (some h)
  let s := s.modStack new_stack (fun x => { x with
    orig_mod_id := (s.mods target_mod).mod_id
    target_mod := some p.2
    request_dir := mod_request_down_up
    downup_read_request := true })
  esim_schedule_event s EV_MOD_NMOESI_READ_REQUEST new_stack 0

/-- `EV_MOD_NMOESI_READ_REQUEST_UPDOWN` (lines 2316-2431). -/
def ev_mod_nmoesi_read_request_updown (s : Sim) (h : Nat) : Sim :=
  let s := s.log EV_MOD_NMOESI_READ_REQUEST_UPDOWN h
  let mod := (s.stack_tab h).mod
  match (s.stack_tab h).target_mod with
  | none => s.stop
  | some target_mod =>
    let s := s.modStack h (fun x => { x with
      pending := 1, reply_size := ((s.mods mod).block_size : Int) + 8 })
    let s := mod_stack_set_reply s h reply_ack_data
    let stack := s.stack_tab h
    if stack.state ≠ cache_block_invalid then
      let s := s.check (decide (stack.addr % (s.mods mod).block_size = 0)) 2339
      let s := if (s.mods target_mod).num_nodes ≠ 0 then
          (fanout s target_mod stack.tag stack.orig_mod_id none).foldl
            (read_request_updown_send h target_mod) s
        else s
      esim_schedule_event s EV_MOD_NMOESI_READ_REQUEST_UPDOWN_FINISH h 0
    else
      let (new_stack, s) := mod_stack_create s stack.id target_mod (toU32 stack.tag)
        EV_MOD_NMOESI_READ_REQUEST_UPDOWN_MISS (some h)
      match mod_get_low_mod s target_mod (toU32 stack.tag) with
      | low_mod_t.fatal => s.stop
      | low =>
        let s := s.modStack new_stack (fun x => { x with
          orig_mod_id := (s.mods target_mod).mod_id
          issue_mod_id := stack.issue_mod_id
          target_mod := low.toOption
          request_dir := mod_request_up_down
          read := true })
        esim_schedule_event s EV_MOD_NMOESI_READ_REQUEST new_stack 0

/-- `EV_MOD_NMOESI_READ_REQUEST_UPDOWN_MISS` (lines 2433-2466). -/
def ev_mod_nmoesi_read_request_updown_miss (s : Sim) (h : Nat) : Sim :=
  let s := s.log EV_MOD_NMOESI_READ_REQUEST_UPDOWN_MISS h
  let stack := s.stack_tab h
  match stack.target_mod with
  | none => s.stop
  | some target_mod =>
    if stack.err then
      let s := cache_entry_unlock s target_mod stack.set stack.way
      let s := s.modRet h (fun rt => { rt with err := true })
      let s := match stack.ret_stack with
        | some r => mod_stack_set_reply s r reply_ack_error
        | none => s.stop
      let s := s.modStack h (fun x => { x with reply_size := 8 })
      esim_schedule_event s EV_MOD_NMOESI_READ_REQUEST_REPLY h 0
    else
      let next_state := cache_block_next_state (flag stack.shared) (flag stack.dirty)
      let s := cache_set_block s target_mod stack.set stack.way stack.tag next_state
      esim_schedule_event s EV_MOD_NMOESI_READ_REQUEST_UPDOWN_FINISH h 0

/-- The loop of READ_REQUEST_UPDOWN_FINISH (lines 2500-2518): the value of the
local `shared` after it. -/
def read_request_updown_shared (stack : mod_stack_t) (md target : mod_t) : Bool :=
  (List.range target.num_sub_blocks).any (fun z =>
    let cache_entry_tag := (toU32 stack.tag + z * target.sub_block_size) % 4294967296
    if cache_entry_tag < stack.addr ∨
       cache_entry_tag ≥ (stack.addr + md.block_size) % 4294967296 then false
    else
      (stack.nc_write || stack.shared) ||
      decide (stack.state = cache_block_owned ∨ stack.state = cache_block_noncoherent ∨
              stack.state = cache_block_shared))

/-- `EV_MOD_NMOESI_READ_REQUEST_UPDOWN_FINISH` (lines 2468-2535). -/
def ev_mod_nmoesi_read_request_updown_finish (s : Sim) (h : Nat) : Sim :=
  let stack := s.stack_tab h
  match stack.target_mod with
  | none => s.stop
  | some target_mod =>
    let s := s.check (decide (stack.reply ≠ reply_none)) 2474
    let s := s.check (decide (stack.pending > 0)) 2477
    let s := s.modStack h (fun x => { x with pending := x.pending - 1 })
    if (s.stack_tab h).pending ≠ 0 then s
    else
      let s := s.log EV_MOD_NMOESI_READ_REQUEST_UPDOWN_FINISH h
      if stack.reply_size ≥ 8 then
        let s := match stack.ret_stack with
          | some r => mod_stack_set_reply s r reply_ack_data
          | none => s.stop
        let s := s.modRet h (fun rt => { rt with
          reply_size := ((s.mods target_mod).block_size : Int) + 8 })
        let shared := read_request_updown_shared stack (s.mods stack.mod) (s.mods target_mod)
        let s := s.modRet h (fun rt => { rt with shared := shared })
        let next_state := cache_block_next_state (flag shared) (flag stack.dirty)
        let s := if shared then
            cache_set_block s target_mod stack.set stack.way stack.tag next_state
          else s
        let s := cache_entry_unlock s target_mod stack.set stack.way
        let latency := if stack.reply = reply_ack_data_sent_to_peer then 0
          else (s.mods target_mod).latency
        esim_schedule_event s EV_MOD_NMOESI_READ_REQUEST_REPLY h latency
      else s.stop

/-- Body of the READ_REQUEST_DOWNUP loop for one (sub-block, sharer) pair
(lines 2591-2599). -/
def read_request_downup_send (h target_mod : Nat) (s : Sim) (p : Nat × Nat) : Sim :=
  let s := s.modStack h (fun x => { x with pending := x.pending + 1 })
  let stack := s.stack_tab h
  let (new_stack, s) := mod_stack_create s stack.id target_mod p.1
    EV_MOD_NMOESI_READ_REQUEST_DOWNUP_WAIT_FOR_REQS (some h)
  let s := s.modStack new_stack (fun x => { x with
    orig_mod_id := (s.mods target_mod).mod_id
    issue_mod_id := stack.issue_mod_id
    target_mod := some p.2
    request_dir := mod_request_down_up
    downup_read_request := true })
  esim_schedule_event s EV_MOD_NMOESI_READ_REQUEST new_stack 0

/-- `EV_MOD_NMOESI_READ_REQUEST_DOWNUP` (lines 2537-2606). -/
def ev_mod_nmoesi_read_request_downup (s : Sim) (h : Nat) : Sim :=
  let s := s.log EV_MOD_NMOESI_READ_REQUEST_DOWNUP h
  let stack := s.stack_tab h
  match stack.target_mod with
  | none => s.stop
  | some target_mod =>
    let s := s.check (decide (stack.state ≠ cache_block_invalid)) 2549
    let s := s.check (decide (stack.state ≠ cache_block_shared)) 2550
    let s := s.check (decide (stack.state ≠ cache_block_noncoherent)) 2551
    let s := s.modStack h (fun x => { x with pending := 1 })
    let s := if (s.mods target_mod).num_nodes ≠ 0 then
        (fanout s target_mod stack.tag stack.orig_mod_id none).foldl
          (read_request_downup_send h target_mod) s
      else s
    esim_schedule_event s EV_MOD_NMOESI_READ_REQUEST_DOWNUP_WAIT_FOR_REQS h 0

/-- `EV_MOD_NMOESI_READ_REQUEST_DOWNUP_WAIT_FOR_REQS` (lines 2608-2640). -/
def ev_mod_nmoesi_read_request_downup_wait_for_reqs (s : Sim) (h : Nat) : Sim :=
  let stack := s.stack_tab h
  match stack.target_mod with
  | none => s.stop
  | some target_mod =>
    let s := s.check (decide (stack.pending > 0)) 2611
    let s := s.modStack h (fun x => { x with pending := x.pending - 1 })
    if (s.stack_tab h).pending ≠ 0 then s
    else
      let s := s.log EV_MOD_NMOESI_READ_REQUEST_DOWNUP_WAIT_FOR_REQS h
      match mod_find_block (s.mods target_mod) stack.addr stack.way stack.state with
      | none => s.stop
      | some r =>
        let s := s.modStack h (fun x => { x with
          hit := r.hit, set := r.set, way := r.way, tag := r.tag, state := r.state })
        let s := if r.hit then
            (mod_stack_set_reply s h reply_ack_data).modStack h (fun x => { x with
              reply_size := ((s.mods stack.mod).block_size : Int) + 8 })
          else
            (mod_stack_set_reply s h reply_ack).modStack h (fun x => { x with reply_size := 8 })
        esim_schedule_event s EV_MOD_NMOESI_READ_REQUEST_DOWNUP_FINISH h 0

/-- The `switch (stack->state)` of READ_REQUEST_DOWNUP_FINISH (lines 2665-2672);
`none` when no case assigns `next_state` (the local keeps an indeterminate value). -/
def read_request_downup_next_state : cache_block_state_t → Option cache_block_state_t
  | cache_block_exclusive => some cache_block_shared
  | cache_block_shared => some cache_block_shared
  | cache_block_modified => some cache_block_owned
  | cache_block_owned => some cache_block_owned
  | cache_block_noncoherent => some cache_block_noncoherent
  | cache_block_invalid => none

/-- `EV_MOD_NMOESI_READ_REQUEST_DOWNUP_FINISH` (lines 2642-2693). -/
def ev_mod_nmoesi_read_request_downup_finish (s : Sim) (h : Nat) : Sim :=
  let s := s.log EV_MOD_NMOESI_READ_REQUEST_DOWNUP_FINISH h
  let stack := s.stack_tab h
  match stack.target_mod with
  | none => s.stop
  | some target_mod =>
    let s := if stack.state ≠ cache_block_invalid then
        (mod_stack_set_reply s h reply_ack_data).modStack h (fun x => { x with
          reply_size := ((s.mods target_mod).block_size : Int) + 8 })
      else
        (mod_stack_set_reply s h reply_ack).modStack h (fun x => { x with reply_size := 8 })
    let next_state := (read_request_downup_next_state stack.state).getD s.uninit_state
    let s := if stack.state ≠ cache_block_invalid then
        let s := cache_set_block s target_mod stack.set stack.way stack.tag next_state
        let s := cache_entry_unlock s target_mod stack.set stack.way
        s.modRet h (fun rt => { rt with
          shared := true
          dirty := rt.dirty || decide (stack.state = cache_block_modified ∨
                                       stack.state = cache_block_owned) })
      else s
    let latency := if (s.stack_tab h).reply = reply_ack_data_sent_to_peer then 0
      else (s.mods target_mod).latency
    esim_schedule_event s EV_MOD_NMOESI_READ_REQUEST_REPLY h latency

/-- `EV_MOD_NMOESI_READ_REQUEST_REPLY` (lines 2695-2751). -/
def ev_mod_nmoesi_read_request_reply (s : Sim) (h : Nat) : Sim :=
  let s := s.log EV_MOD_NMOESI_READ_REQUEST_REPLY h
  let stack := s.stack_tab h
  let s := s.check (decide (stack.reply_size ≠ 0)) 2707
  let s := s.check (decide (stack.request_dir ≠ mod_request_invalid)) 2708
  net_try_send_ev s h stack.reply_size EV_MOD_NMOESI_READ_REQUEST_FINISH
    EV_MOD_NMOESI_READ_REQUEST_REPLY

/-- `EV_MOD_NMOESI_READ_REQUEST_FINISH` (lines 2753-2827). -/
def ev_mod_nmoesi_read_request_finish (s : Sim) (h : Nat) : Sim :=
  let s := s.log EV_MOD_NMOESI_READ_REQUEST_FINISH h
  let stack := s.stack_tab h
  match stack.target_mod with
  | none => s.stop
  | some target_mod =>
    let s := if stack.request_dir ≠ mod_request_down_up then
        let s := if !stack.err then
            match stack.ret_stack with
            | some r =>
              cache_set_block s stack.mod (s.stack_tab r).set (s.stack_tab r).way
                (s.stack_tab r).tag cache_block_invalid
            | none => s.stop
          else s
        s.modStack h (fun x => { x with read_request_in_progress := false })
      else s
    let s := if stack.request_dir = mod_request_down_up then
        mod_downup_access_finish s target_mod h
      else mod_read_write_req_access_finish s target_mod h
    mod_stack_return s h

/-- `mod_handler_nmoesi_read_request(event, data)`; an event of another handler
is `abort()`. -/
def mod_handler_nmoesi_read_request (event : Ev) (s : Sim) (h : Nat) : Sim :=
  match event with
  | EV_MOD_NMOESI_READ_REQUEST => ev_mod_nmoesi_read_request s h
  | EV_MOD_NMOESI_READ_REQUEST_RECEIVE => ev_mod_nmoesi_read_request_receive s h
  | EV_MOD_NMOESI_READ_REQUEST_ACTION => ev_mod_nmoesi_read_request_action s h
  | EV_MOD_NMOESI_READ_REQUEST_UPDOWN => ev_mod_nmoesi_read_request_updown s h
  | EV_MOD_NMOESI_READ_REQUEST_UPDOWN_MISS => ev_mod_nmoesi_read_request_updown_miss s h
  | EV_MOD_NMOESI_READ_REQUEST_UPDOWN_FINISH => ev_mod_nmoesi_read_request_updown_finish s h
  | EV_MOD_NMOESI_READ_REQUEST_DOWNUP => ev_mod_nmoesi_read_request_downup s h
  | EV_MOD_NMOESI_READ_REQUEST_DOWNUP_WAIT_FOR_REQS =>
    ev_mod_nmoesi_read_request_downup_wait_for_reqs s h
  | EV_MOD_NMOESI_READ_REQUEST_DOWNUP_FINISH => ev_mod_nmoesi_read_request_downup_finish s h
  | EV_MOD_NMOESI_READ_REQUEST_REPLY => ev_mod_nmoesi_read_request_reply s h
  | EV_MOD_NMOESI_READ_REQUEST_FINISH => ev_mod_nmoesi_read_request_finish s h
  | _ => s.stop

/-- `EV_MOD_NMOESI_WRITE_REQUEST` (lines 2844-2920). -/
def ev_mod_nmoesi_write_request (s : Sim) (h : Nat) : Sim :=
  let s := s.log EV_MOD_NMOESI_WRITE_REQUEST h
  let s := s.modRet h (fun rt => { rt with err := false })
  let mod := (s.stack_tab h).mod
  let s := s.modStack h (fun x => { x with reply_size := ((s.mods mod).block_size : Int) + 8 })
  let s := mod_stack_set_reply s h reply_ack_data
  let s := s.check (decide ((s.stack_tab h).request_dir ≠ mod_request_invalid)) 2870
  net_try_send_ev s h 8 EV_MOD_NMOESI_WRITE_REQUEST_RECEIVE EV_MOD_NMOESI_WRITE_REQUEST

/-- `EV_MOD_NMOESI_WRITE_REQUEST_RECEIVE` (lines 2922-3168). -/
def ev_mod_nmoesi_write_request_receive (s : Sim) (h : Nat) : Sim :=
  let s := s.log EV_MOD_NMOESI_WRITE_REQUEST_RECEIVE h
  let stack := s.stack_tab h
  let mod := stack.mod
  match stack.target_mod with
  | none => s.stop
  | some target_mod =>
    let find_and_lock := fun (s : Sim) =>
      let (new_stack, s) := mod_stack_create s stack.id target_mod stack.addr
        EV_MOD_NMOESI_WRITE_REQUEST_ACTION (some h)
      let s := s.modStack new_stack (fun x => { x with
        orig_mod_id := (s.mods target_mod).mod_id
        issue_mod_id := stack.issue_mod_id
        blocking := decide (stack.request_dir = mod_request_down_up)
        write := true
        retry := false
        downup_writeback_request := stack.downup_writeback_request
        evict_trans := stack.evict_trans })
      esim_schedule_event s EV_MOD_NMOESI_FIND_AND_LOCK new_stack 0
    if stack.request_dir = mod_request_down_up then
      let s := if !stack.downup_access_registered then
          mod_downup_access_start s target_mod h mod_access_invalid else s
      match downup_older_stack s h mod target_mod with
      | some older_stack =>
        mod_stack_wait_in_stack s h older_stack EV_MOD_NMOESI_WRITE_REQUEST_RECEIVE
      | none => find_and_lock s
    else
      let s := if !stack.updown_access_registered then
          mod_read_write_req_access_start s target_mod h mod_access_invalid else s
      match mod_in_flight_read_write_req_address s target_mod stack.addr h with
      | some _ =>
        let s := s.modRet h (fun rt => { rt with err := true })
        let s := s.modStack h (fun x => { x with reply_size := 8 })
        esim_schedule_event s EV_MOD_NMOESI_WRITE_REQUEST_REPLY h 0
      | none =>
        match mod_in_flight_evict_address s target_mod stack.addr h with
        | some older_stack =>
          mod_stack_wait_in_stack s h older_stack EV_MOD_NMOESI_WRITE_REQUEST_RECEIVE
        | none => find_and_lock s

/-- `EV_MOD_NMOESI_WRITE_REQUEST_ACTION` (lines 3170-3207). -/
def ev_mod_nmoesi_write_request_action (s : Sim) (h : Nat) : Sim :=
  let s := s.log EV_MOD_NMOESI_WRITE_REQUEST_ACTION h
  let stack := s.stack_tab h
  let mod := stack.mod
  match stack.target_mod with
  | none => s.stop
  | some target_mod =>
    if stack.err then
      let s := s.check (decide (stack.request_dir = mod_request_up_down)) 3181
      let s := s.modRet h (fun rt => { rt with err := true })
      let s := s.modStack h (fun x => { x with reply_size := 8 })
      esim_schedule_event s EV_MOD_NMOESI_WRITE_REQUEST_REPLY h 0
    else
      let (new_stack, s) := mod_stack_create s stack.id target_mod 0
        EV_MOD_NMOESI_WRITE_REQUEST_EXCLUSIVE (some h)
      let s := s.modStack new_stack (fun x => { x with
        orig_mod_id := (s.mods mod).mod_id
        issue_mod_id := stack.issue_mod_id
        except_mod := some mod
        set := stack.set
        way := stack.way
        invalidate_eviction := stack.invalidate_eviction
        wb_store := !stack.invalidate_eviction })
      esim_schedule_event s EV_MOD_NMOESI_INVALIDATE new_stack 0

/-- `EV_MOD_NMOESI_WRITE_REQUEST_EXCLUSIVE` (lines 3209-3221). -/
def ev_mod_nmoesi_write_request_exclusive (s : Sim) (h : Nat) : Sim :=
  let s := s.log EV_MOD_NMOESI_WRITE_REQUEST_EXCLUSIVE h
  if (s.stack_tab h).request_dir = mod_request_up_down then
    esim_schedule_event s EV_MOD_NMOESI_WRITE_REQUEST_UPDOWN h 0
  else esim_schedule_event s EV_MOD_NMOESI_WRITE_REQUEST_DOWNUP h 0

/-- `EV_MOD_NMOESI_WRITE_REQUEST_UPDOWN` (lines 3223-3273). -/
def ev_mod_nmoesi_write_request_updown (s : Sim) (h : Nat) : Sim :=
  let s := s.log EV_MOD_NMOESI_WRITE_REQUEST_UPDOWN h
  let stack := s.stack_tab h
  match stack.target_mod with
  | none => s.stop
  | some target_mod =>
    if stack.state = cache_block_modified ∨ stack.state = cache_block_exclusive then
      esim_schedule_event s EV_MOD_NMOESI_WRITE_REQUEST_UPDOWN_FINISH h 0
    else
      let (new_stack, s) := mod_stack_create s stack.id target_mod (toU32 stack.tag)
        EV_MOD_NMOESI_WRITE_REQUEST_UPDOWN_FINISH (some h)
      match mod_get_low_mod s target_mod (toU32 stack.tag) with
      | low_mod_t.fatal => s.stop
      | low =>
        let s := s.modStack new_stack (fun x => { x with
          orig_mod_id := (s.mods target_mod).mod_id
          target_mod := low.toOption
          request_dir := mod_request_up_down
          write := true })
        esim_schedule_event s EV_MOD_NMOESI_WRITE_REQUEST new_stack 0

/-- `EV_MOD_NMOESI_WRITE_REQUEST_UPDOWN_FINISH` (lines 3275-3325). -/
def ev_mod_nmoesi_write_request_updown_finish (s : Sim) (h : Nat) : Sim :=
  let s := s.log EV_MOD_NMOESI_WRITE_REQUEST_UPDOWN_FINISH h
  let stack := s.stack_tab h
  match stack.target_mod with
  | none => s.stop
  | some target_mod =>
    let s := s.check (decide (stack.reply ≠ reply_none)) 3285
    if stack.err then
      let s := s.modRet h (fun rt => { rt with err := true })
      let s := match stack.ret_stack with
        | some r => mod_stack_set_reply s r reply_ack_error
        | none => s.stop
      let s := s.modStack h (fun x => { x with reply_size := 8 })
      let s := cache_entry_unlock s target_mod stack.set stack.way
      esim_schedule_event s EV_MOD_NMOESI_WRITE_REQUEST_REPLY h 0
    else
      let next_state := cache_block_next_state (flag stack.shared) (flag stack.dirty)
      let s := cache_set_block s target_mod stack.set stack.way stack.tag next_state
      if stack.reply_size ≥ 8 then
        let s := match stack.ret_stack with
          | some r => mod_stack_set_reply s r reply_ack_data
          | none => s.stop
        let s := cache_entry_unlock s target_mod stack.set stack.way
        let latency := if stack.reply = reply_ack_data_sent_to_peer then 0
          else (s.mods target_mod).latency
        esim_schedule_event s EV_MOD_NMOESI_WRITE_REQUEST_REPLY h latency
      else s.stop

/-- `EV_MOD_NMOESI_WRITE_REQUEST_DOWNUP` (lines 3327-3383). -/
def ev_mod_nmoesi_write_request_downup (s : Sim) (h : Nat) : Sim :=
  let s := s.log EV_MOD_NMOESI_WRITE_REQUEST_DOWNUP h
  let stack := s.stack_tab h
  match stack.target_mod, stack.ret_stack with
  | some target_mod, some ret =>
    let s :=
      if stack.state = cache_block_exclusive ∨ stack.state = cache_block_shared then
        let s := s.modStack h (fun x => { x with reply_size := 8 })
        mod_stack_set_reply s ret reply_ack
      else if stack.state = cache_block_noncoherent then
        let s := s.modStack h (fun x => { x with
          reply_size := ((s.mods target_mod).block_size : Int) + 8 })
        mod_stack_set_reply s ret reply_ack_data
      else if stack.state = cache_block_modified ∨ stack.state = cache_block_owned then
        let s := mod_stack_set_reply s ret reply_ack_data
        let s := s.modStack h (fun x => { x with
          reply_size := ((s.mods target_mod).block_size : Int) + 8 })
        s.modStack ret (fun rt => { rt with dirty := true })
      else
        let s := s.modStack h (fun x => { x with reply_size := 8 })
        mod_stack_set_reply s ret reply_ack
    esim_schedule_event s EV_MOD_NMOESI_WRITE_REQUEST_DOWNUP_FINISH h 0
  | _, _ => s.stop

/-- `EV_MOD_NMOESI_WRITE_REQUEST_DOWNUP_FINISH` (lines 3385-3407). -/
def ev_mod_nmoesi_write_request_downup_finish (s : Sim) (h : Nat) : Sim :=
  let s := s.log EV_MOD_NMOESI_WRITE_REQUEST_DOWNUP_FINISH h
  let stack := s.stack_tab h
  match stack.target_mod, stack.ret_stack with
  | some target_mod, some ret =>
    let s := if stack.state ≠ cache_block_invalid then
        let s := cache_set_block s target_mod stack.set stack.way 0 cache_block_invalid
        cache_entry_unlock s target_mod stack.set stack.way
      else s
    let latency := if (s.stack_tab ret).reply = reply_ack_data_sent_to_peer then 0
      else (s.mods target_mod).latency
    esim_schedule_event s EV_MOD_NMOESI_WRITE_REQUEST_REPLY h latency
  | _, _ => s.stop

/-- `EV_MOD_NMOESI_WRITE_REQUEST_REPLY` (lines 3409-3469). -/
def ev_mod_nmoesi_write_request_reply (s : Sim) (h : Nat) : Sim :=
  let s := s.log EV_MOD_NMOESI_WRITE_REQUEST_REPLY h
  let stack := s.stack_tab h
  let s := s.check (decide (stack.reply_size ≠ 0)) 3421
  net_try_send_ev s h stack.reply_size EV_MOD_NMOESI_WRITE_REQUEST_FINISH
    EV_MOD_NMOESI_WRITE_REQUEST_REPLY

/-- `EV_MOD_NMOESI_WRITE_REQUEST_FINISH` (lines 3471-3564). -/
def ev_mod_nmoesi_write_request_finish (s : Sim) (h : Nat) : Sim :=
  let s := s.log EV_MOD_NMOESI_WRITE_REQUEST_FINISH h
  let stack := s.stack_tab h
  match stack.target_mod with
  | none => s.stop
  | some target_mod =>
    let s := if stack.request_dir ≠ mod_request_down_up then
        let s := if !stack.err then
            match stack.ret_stack with
            | some r =>
              cache_set_block s stack.mod (s.stack_tab r).set (s.stack_tab r).way
                (s.stack_tab r).tag cache_block_invalid
            | none => s.stop
          else s
        s.modStack h (fun x => { x with write_request_in_progress := false })
      else s
    let s := if stack.request_dir = mod_request_down_up then
        mod_downup_access_finish s target_mod h
      else mod_read_write_req_access_finish s target_mod h
    mod_stack_return s h

/-- `mod_handler_nmoesi_write_request(event, data)`; an event of another handler
is `abort()`. -/
def mod_handler_nmoesi_write_request (event : Ev) (s : Sim) (h : Nat) : Sim :=
  match event with
  | EV_MOD_NMOESI_WRITE_REQUEST => ev_mod_nmoesi_write_request s h
  | EV_MOD_NMOESI_WRITE_REQUEST_RECEIVE => ev_mod_nmoesi_write_request_receive s h
  | EV_MOD_NMOESI_WRITE_REQUEST_ACTION => ev_mod_nmoesi_write_request_action s h
  | EV_MOD_NMOESI_WRITE_REQUEST_EXCLUSIVE => ev_mod_nmoesi_write_request_exclusive s h
  | EV_MOD_NMOESI_WRITE_REQUEST_UPDOWN => ev_mod_nmoesi_write_request_updown s h
  | EV_MOD_NMOESI_WRITE_REQUEST_UPDOWN_FINISH => ev_mod_nmoesi_write_request_updown_finish s h
  | EV_MOD_NMOESI_WRITE_REQUEST_DOWNUP => ev_mod_nmoesi_write_request_downup s h
  | EV_MOD_NMOESI_WRITE_REQUEST_DOWNUP_FINISH => ev_mod_nmoesi_write_request_downup_finish s h
  | EV_MOD_NMOESI_WRITE_REQUEST_REPLY => ev_mod_nmoesi_write_request_reply s h
  | EV_MOD_NMOESI_WRITE_REQUEST_FINISH => ev_mod_nmoesi_write_request_finish s h
  | _ => s.stop

/-! ## Event loop -/

/-- Modelled from the spec: the scheduler's dispatch (`esim`, not in the
available sources): an event handler receives exactly the access it was
scheduled with; each event is bound to the handler it was registered with. -/
def dispatch (event : Ev) (s : Sim) (h : Nat) : Sim :=
  match event with
  | ESIM_EV_NONE => s
  | EV_MOD_NMOESI_LOAD | EV_MOD_NMOESI_LOAD_LOCK | EV_MOD_NMOESI_LOAD_ACTION
  | EV_MOD_NMOESI_LOAD_MISS | EV_MOD_NMOESI_LOAD_UNLOCK | EV_MOD_NMOESI_LOAD_FINISH =>
    mod_handler_nmoesi_load event s h
  | EV_MOD_NMOESI_STORE | EV_MOD_NMOESI_STORE_LOCK | EV_MOD_NMOESI_STORE_ACTION
  | EV_MOD_NMOESI_STORE_UNLOCK | EV_MOD_NMOESI_STORE_FINISH =>
    mod_handler_nmoesi_store event s h
  | EV_MOD_NMOESI_NC_STORE | EV_MOD_NMOESI_NC_STORE_LOCK | EV_MOD_NMOESI_NC_STORE_WRITEBACK
  | EV_MOD_NMOESI_NC_STORE_ACTION | EV_MOD_NMOESI_NC_STORE_MISS
  | EV_MOD_NMOESI_NC_STORE_UNLOCK | EV_MOD_NMOESI_NC_STORE_FINISH =>
    mod_handler_nmoesi_nc_store event s h
  | EV_MOD_NMOESI_PREFETCH | EV_MOD_NMOESI_PREFETCH_LOCK | EV_MOD_NMOESI_PREFETCH_ACTION
  | EV_MOD_NMOESI_PREFETCH_MISS | EV_MOD_NMOESI_PREFETCH_UNLOCK
  | EV_MOD_NMOESI_PREFETCH_FINISH =>
    mod_handler_nmoesi_prefetch event s h
  | EV_MOD_NMOESI_FIND_AND_LOCK | EV_MOD_NMOESI_FIND_AND_LOCK_PORT
  | EV_MOD_NMOESI_FIND_AND_LOCK_ACTION | EV_MOD_NMOESI_FIND_AND_LOCK_FINISH =>
    mod_handler_nmoesi_find_and_lock event s h
  | EV_MOD_NMOESI_EVICT | EV_MOD_NMOESI_EVICT_INVALID | EV_MOD_NMOESI_EVICT_ACTION
  | EV_MOD_NMOESI_EVICT_RECEIVE | EV_MOD_NMOESI_EVICT_PROCESS
  | EV_MOD_NMOESI_EVICT_PROCESS_NONCOHERENT | EV_MOD_NMOESI_EVICT_REPLY
  | EV_MOD_NMOESI_EVICT_REPLY_RECEIVE | EV_MOD_NMOESI_EVICT_FINISH =>
    mod_handler_nmoesi_evict event s h
  | EV_MOD_NMOESI_WRITE_REQUEST | EV_MOD_NMOESI_WRITE_REQUEST_RECEIVE
  | EV_MOD_NMOESI_WRITE_REQUEST_ACTION | EV_MOD_NMOESI_WRITE_REQUEST_EXCLUSIVE
  | EV_MOD_NMOESI_WRITE_REQUEST_UPDOWN | EV_MOD_NMOESI_WRITE_REQUEST_UPDOWN_FINISH
  | EV_MOD_NMOESI_WRITE_REQUEST_DOWNUP | EV_MOD_NMOESI_WRITE_REQUEST_DOWNUP_FINISH
  | EV_MOD_NMOESI_WRITE_REQUEST_REPLY | EV_MOD_NMOESI_WRITE_REQUEST_FINISH =>
    mod_handler_nmoesi_write_request event s h
  | EV_MOD_NMOESI_READ_REQUEST | EV_MOD_NMOESI_READ_REQUEST_RECEIVE
  | EV_MOD_NMOESI_READ_REQUEST_ACTION | EV_MOD_NMOESI_READ_REQUEST_UPDOWN
  | EV_MOD_NMOESI_READ_REQUEST_UPDOWN_MISS | EV_MOD_NMOESI_READ_REQUEST_UPDOWN_FINISH
  | EV_MOD_NMOESI_READ_REQUEST_DOWNUP | EV_MOD_NMOESI_READ_REQUEST_DOWNUP_WAIT_FOR_REQS
  | EV_MOD_NMOESI_READ_REQUEST_DOWNUP_FINISH | EV_MOD_NMOESI_READ_REQUEST_REPLY
  | EV_MOD_NMOESI_READ_REQUEST_FINISH =>
    mod_handler_nmoesi_read_request event s h
  | EV_MOD_NMOESI_INVALIDATE | EV_MOD_NMOESI_INVALIDATE_FINISH =>
    mod_handler_nmoesi_invalidate event s h
  | EV_MOD_NMOESI_MESSAGE | EV_MOD_NMOESI_MESSAGE_RECEIVE | EV_MOD_NMOESI_MESSAGE_ACTION
  | EV_MOD_NMOESI_MESSAGE_REPLY | EV_MOD_NMOESI_MESSAGE_FINISH =>
    mod_handler_nmoesi_message event s h

/-- Modelled from the spec: one turn of the scheduler: the earliest pending
event is removed, the clock advances to its time, and its handler runs.  A
stopped simulation, or one without pending events, does not move. -/
def esim_step (s : Sim) : Sim :=
  if s.fatal then s
  else
    match s.events with
    | [] => s
    | (t, ev, h) :: rest => dispatch ev { s with events := rest, esim_time := t } h

/-- Modelled from the spec: `n` turns of the scheduler. -/
def esim_run : Nat → Sim → Sim
  | 0, s => s
  | n + 1, s => esim_run n (esim_step s)

/-- `mod_access(mod, access_kind, addr, witness_ptr, ...)` (module.c, snoop
variant lines 149-218) for a cache or main-memory module: the access gets the
next id and its first event is executed at once; an invalid access kind is a
`panic`. -/
def mod_access (s : Sim) (m : Nat) (access_kind : mod_access_kind_t) (addr : Nat)
    (witness_ptr : Bool) : Sim :=
  let s := { s with mod_stack_id := s.mod_stack_id + 1 }
  let (stack, s) := mod_stack_create s s.mod_stack_id m addr ESIM_EV_NONE none
  let s := s.modStack stack (fun x => { x with
    orig_mod_id := (s.mods m).mod_id
    issue_mod_id := (s.mods m).mod_id
    witness_ptr := witness_ptr })
  match access_kind with
  | mod_access_load => dispatch EV_MOD_NMOESI_LOAD s stack
  | mod_access_store => dispatch EV_MOD_NMOESI_STORE s stack
  | mod_access_nc_store => dispatch EV_MOD_NMOESI_NC_STORE s stack
  | mod_access_prefetch => dispatch EV_MOD_NMOESI_PREFETCH s stack
  | mod_access_invalid => s.stop

/-! ## Scenario configurations -/

/-- An empty cache (`cache_create`: every block zero-filled, every lock free). -/
def cache_empty (num_sets block_size assoc log_block_size : Nat) : cache_t :=
  { num_sets := num_sets, block_size := block_size, assoc := assoc,
    block_mask := block_size - 1, log_block_size := log_block_size,
    blocks := fun _ _ => { tag := 0, transient_tag := 0, state := cache_block_invalid },
    cache_lock := fun _ _ => { lock := false, stack_id := 0, lock_queue := [] },
    way_order := fun _ => [] }

/-- A module as `mod_create` and the configuration leave it: no port locked, no
access in flight, serving the whole address space. -/
def mod_new (kind : mod_kind_t) (mod_id : Int) (num_ports block_size log_block_size latency : Nat)
    (cache : cache_t) (low_mod_list : List Nat) (node_list : List net_node_t)
    (sub_block_size : Nat) (has_low_net : Bool) : mod_t :=
  { kind := kind, mod_id := mod_id, block_size := block_size,
    log_block_size := log_block_size, latency := latency, mshr_size := 0,
    range := mod_range_bounds 0 4294967295,
    ports := List.replicate num_ports { stack := none },
    num_ports := num_ports, num_locked_ports := 0, port_waiting_list := [],
    cache := cache, low_mod_list := low_mod_list,
    sub_block_size := sub_block_size, num_sub_blocks := block_size / sub_block_size,
    has_high_net := !node_list.isEmpty, has_low_net := has_low_net,
    num_nodes := node_list.length, node_list := node_list,
    access_list := [], write_access_list := [], access_list_coalesced_count := 0,
    access_hash_table := fun _ => [], downup_access_list := [],
    downup_access_hash_table := fun _ => [], read_write_req_list := [],
    read_write_req_hash_table := fun _ => [], evict_list := [],
    evict_hash_table := fun _ => [] }

/-- A simulation at cycle 0 over the given modules: nothing scheduled, the
interconnect accepting every send one cycle after it is made. -/
def sim_new (mods : Nat → mod_t) (num_mods : Nat) (uninit : cache_block_state_t) : Sim :=
  { mods := mods, num_mods := num_mods, stack_tab := fun _ => mod_stack_zero,
    next_stack := 0, mod_stack_id := 0, events := [], esim_time := 0, fatal := false,
    trace := [], lock_log := [], witness := 0, net_oracle := [], net_delay := 1,
    net_log := [], random_oracle := [], uninit_state := uninit,
    set_reply := set_reply_max, replace_policy := replace_lru, assert_log := [] }

/-- The chain L1 (module 0) -> L2 (module 1) -> MainMemory (module 2): L1 has 4
sets of 2 ways, L2 8 sets of 2 ways, main memory 16 sets of 4 ways, all with
64-byte blocks; each network has one end node per module and a switch. -/
def chain_mods : Nat → mod_t
  | 0 => mod_new mod_kind_cache 0 2 64 6 1 (cache_empty 4 64 2 6) [1] [] 64 true
  | 1 => mod_new mod_kind_cache 1 2 64 6 2 (cache_empty 8 64 2 6) [2]
      [⟨net_node_end, 0⟩, ⟨net_node_end, 1⟩, ⟨net_node_switch, 0⟩] 64 true
  | _ => mod_new mod_kind_main_memory 2 2 64 6 4 (cache_empty 16 64 4 6) []
      [⟨net_node_end, 1⟩, ⟨net_node_end, 2⟩, ⟨net_node_switch, 0⟩] 64 false

/-- Scenario 1: the chain with all caches empty. -/
def chain_init (uninit : cache_block_state_t) : Sim := sim_new chain_mods 3 uninit


/-- Two first-level caches (modules 0 and 1) over a shared L2 (module 2) over
main memory (module 3); geometry as in `chain_mods`. -/
def dual_mods : Nat → mod_t
  | 0 => mod_new mod_kind_cache 0 2 64 6 1 (cache_empty 4 64 2 6) [2] [] 64 true
  | 1 => mod_new mod_kind_cache 1 2 64 6 1 (cache_empty 4 64 2 6) [2] [] 64 true
  | 2 => mod_new mod_kind_cache 2 2 64 6 2 (cache_empty 8 64 2 6) [3]
      [⟨net_node_end, 0⟩, ⟨net_node_end, 1⟩, ⟨net_node_end, 2⟩, ⟨net_node_switch, 0⟩] 64 true
  | _ => mod_new mod_kind_main_memory 3 2 64 6 4 (cache_empty 16 64 4 6) []
      [⟨net_node_end, 2⟩, ⟨net_node_end, 3⟩, ⟨net_node_switch, 0⟩] 64 false

/-- The two-core hierarchy with all caches empty. -/
def dual_init (uninit : cache_block_state_t) : Sim := sim_new dual_mods 4 uninit

/-! ## Specification-side definitions -/

/-- The function `f(shared, dirty)` as the specification words it: Modified if
dirty and not shared, Owned if dirty and shared, Exclusive if neither, Shared
if shared and not dirty. -/
def next_state_spec (shared dirty : Bool) : cache_block_state_t :=
  if dirty ∧ ¬shared then cache_block_modified
  else if dirty ∧ shared then cache_block_owned
  else if ¬dirty ∧ ¬shared then cache_block_exclusive
  else cache_block_shared

/-! ## Port arbiter: calls, well-formed states, runs -/

/-- One call on the port arbiter of a module. -/
inductive port_op_t
  | lock (h : Nat) (event : Ev)
  | unlock (port h : Nat)

/-- The caller's side of a port call: `mod_lock_port` is called by an access
that holds no port and is not already waiting; `mod_unlock_port` is called on a
port bound to the given access (its assertions at lines 415-416). -/
def port_op_ok (s : Sim) (m : Nat) : port_op_t → Prop
  | port_op_t.lock h _ =>
    (s.stack_tab h).port = none ∧ h ∉ (s.mods m).port_waiting_list
  | port_op_t.unlock port h =>
    (s.stack_tab h).port = some port ∧ (s.mods m).ports[port]? = some ⟨some h⟩ ∧
    (s.stack_tab h).mod = m

/-- Effect of a port call. -/
def port_apply (s : Sim) (m : Nat) : port_op_t → Sim
  | port_op_t.lock h event => mod_lock_port s m h event
  | port_op_t.unlock port h => mod_unlock_port s m port h

/-- A module with no port bound, as `mod_create` leaves it. -/
def ports_clear (s : Sim) (m : Nat) : Prop :=
  (((s.mods m).ports.length : Nat) : Int) = (s.mods m).num_ports ∧
  (∀ p ∈ (s.mods m).ports, p.stack = none) ∧
  (s.mods m).num_locked_ports = 0 ∧
  (s.mods m).port_waiting_list = []

/-- States reached from `s0` by port calls on module `m`. -/
inductive PortReach (m : Nat) (s0 : Sim) : Sim → Prop
  | init : PortReach m s0 s0
  | step {s : Sim} {op : port_op_t} :
    PortReach m s0 s → port_op_ok s m op → PortReach m s0 (port_apply s m op)

/-- States reached from `s1` by port calls on module `m`, with a history flag:
`g` is true when access `d` has held a port in some state of the run after `s1`. -/
inductive PortReachG (m d : Nat) (s1 : Sim) : Sim → Bool → Prop
  | init : PortReachG m d s1 s1 false
  | step {s : Sim} {g : Bool} {op : port_op_t} :
    PortReachG m d s1 s g → port_op_ok s m op →
    PortReachG m d s1 (port_apply s m op) (g || ((port_apply s m op).stack_tab d).port.isSome)

/-- Number of ports whose `stack` field is set. -/
def ports_bound (ports : List mod_port_t) : Nat :=
  ports.countP (fun p => p.stack.isSome)

/-- Well-formed port state of module `m`: the port array has `num_ports`
entries, `num_locked_ports` counts the bound ports, a bound port and its access
point at each other, waiting accesses hold no port and occur once, and nobody
waits while a port is free. -/
structure PortInv (s : Sim) (m : Nat) : Prop where
  len : (((s.mods m).ports.length : Nat) : Int) = (s.mods m).num_ports
  cnt : (s.mods m).num_locked_ports = ((ports_bound (s.mods m).ports : Nat) : Int)
  bound : ∀ i h, (s.mods m).ports[i]? = some ⟨some h⟩ → (s.stack_tab h).port = some i
  waiters : ∀ w ∈ (s.mods m).port_waiting_list, (s.stack_tab w).port = none
  full : (s.mods m).port_waiting_list ≠ [] →
    (s.mods m).num_locked_ports = (s.mods m).num_ports
  nodup : (s.mods m).port_waiting_list.Nodup

/-! ## Port arbiter: a concrete run -/

/-- The chain with stack 7 marked as a down-up request. -/
def port_demo0 : Sim :=
  (chain_init cache_block_invalid).setStack 7
    { mod_stack_zero with request_dir := mod_request_down_up }

/-- Accesses 1 and 2 hold the two ports of module 0; the down-up access 7 waits. -/
def port_demo1 : Sim :=
  port_apply (port_apply (port_apply port_demo0 0
    (port_op_t.lock 1 EV_MOD_NMOESI_FIND_AND_LOCK_PORT)) 0
    (port_op_t.lock 2 EV_MOD_NMOESI_FIND_AND_LOCK_PORT)) 0
    (port_op_t.lock 7 EV_MOD_NMOESI_FIND_AND_LOCK_PORT)

/-- Access 3 asks for a port after 7; then both ports are released in turn. -/
def port_demo2 : Sim :=
  port_apply (port_apply (port_apply port_demo1 0
    (port_op_t.lock 3 EV_MOD_NMOESI_FIND_AND_LOCK_PORT)) 0
    (port_op_t.unlock 0 1)) 0
    (port_op_t.unlock 1 2)

/-- The claimed response of a probed module to a down-up read, state by state:
Modified -> Owned, Owned -> Owned, Exclusive -> Shared, Shared -> Shared,
NonCoherent -> NonCoherent, and an Invalid line stays Invalid. -/
def downup_read_response : cache_block_state_t → cache_block_state_t
  | cache_block_modified => cache_block_owned
  | cache_block_owned => cache_block_owned
  | cache_block_exclusive => cache_block_shared
  | cache_block_shared => cache_block_shared
  | cache_block_noncoherent => cache_block_noncoherent
  | cache_block_invalid => cache_block_invalid

/-- "Never more permissive" as the specification words it: Modified/Owned may
only move to Owned/Shared/Invalid, Exclusive/Shared may only move to
Shared/Invalid; NonCoherent is passed through unchanged (or dropped) and
Invalid stays Invalid. -/
def demotion_allowed (before after : cache_block_state_t) : Prop :=
  match before with
  | cache_block_modified | cache_block_owned =>
    after = cache_block_owned ∨ after = cache_block_shared ∨ after = cache_block_invalid
  | cache_block_exclusive | cache_block_shared =>
    after = cache_block_shared ∨ after = cache_block_invalid
  | cache_block_noncoherent => after = cache_block_noncoherent ∨ after = cache_block_invalid
  | cache_block_invalid => after = cache_block_invalid

/-! ## Single protocol steps: concrete states -/

/-- The two-core hierarchy in which module 0 holds block 4160 Modified at
(set 1, way 0) and stack 50 is a down-up request probing module 0 on behalf of
stack 51, FindAndLock having found the line in state Modified. -/
def probe_demo : Sim :=
  ((cache_set_block (dual_init cache_block_invalid) 0 1 0 4160 cache_block_modified).setStack 50
    { mod_stack_zero with target_mod := some 0, ret_stack := some 51, set := 1, way := 0,
                          tag := 4160, state := cache_block_modified })

/-- The chain in which the L1 (module 0) holds block 4160 Exclusive at
(set 1, way 0) and stack 60 is a Store of module 0 for which FindAndLock
returned that entry without error. -/
def store_demo : Sim :=
  ((cache_set_block (chain_init cache_block_invalid) 0 1 0 4160 cache_block_exclusive).setStack 60
    { mod_stack_zero with mod := 0, set := 1, way := 0, tag := 4160,
                          state := cache_block_exclusive })

/-! ## Scenario runs -/

/-- State in which module `m` holds the block of address `X`, as `mod_find_block`
reports it; Invalid when the lookup misses. -/
def line_state (s : Sim) (m X : Nat) : cache_block_state_t :=
  match mod_find_block (s.mods m) X (-1) cache_block_invalid with
  | some r => if r.hit then r.state else cache_block_invalid
  | none => cache_block_invalid

/-- Every entry lock of module `m` is free and no port of `m` is bound or
waited for. -/
def mod_released (s : Sim) (m : Nat) : Prop :=
  (∀ set ∈ List.range (s.mods m).cache.num_sets, ∀ way ∈ List.range (s.mods m).cache.assoc,
    ((s.mods m).cache.cache_lock (set : Int) (way : Int)).lock = false) ∧
  (s.mods m).num_locked_ports = 0 ∧
  (s.mods m).port_waiting_list = [] ∧
  ∀ p ∈ (s.mods m).ports, p.stack = none

instance (s : Sim) (m : Nat) : Decidable (mod_released s m) := by
  unfold mod_released
  infer_instance

/-- Addresses on which Scenario 1 is run: first and last byte of block 0, the
next block, a block in set 1 of every level, the last block mapping to the
last set of main memory, and addresses at and above 2^16 and 2^31 up to the
last byte of the 32-bit space. -/
def scenario1_addrs : List Nat := [0, 63, 64, 4160, 1023, 65536, 2147483648, 4294967295]

/-- Scenario 1: one Load of `X` issued at L1 on the empty chain, run until the
event queue is empty (64 turns of the scheduler are more than enough). -/
def scenario1 (uninit : cache_block_state_t) (X : Nat) : Sim :=
  esim_run 64 (mod_access (chain_init uninit) 0 mod_access_load X false)

/-- Addresses on which Scenario 3 is run: a block in set 1 of every level and
the last byte of the last block but one of the 32-bit space. -/
def scenario3_addrs : List Nat := [4160, 4294967231]

/-- Scenario 3, preparation: on the empty two-core hierarchy, first-level
module `S` stores to `X` and the access runs to completion. -/
def scenario3_pre (uninit : cache_block_state_t) (S X : Nat) : Sim :=
  esim_run 64 (mod_access (dual_init uninit) S mod_access_store X false)

/-- Scenario 3: after `scenario3_pre`, first-level module `R` loads `X`; run
until the event queue is empty or the run stops. -/
def scenario3 (uninit : cache_block_state_t) (S R X : Nat) : Sim :=
  esim_run 128 (mod_access (scenario3_pre uninit S X) R mod_access_load X false)

/-- Premises of Scenario 3: the Store has retired leaving `S` Modified and `R`
without the line; the Load (stack 8) missed in `R` (FindAndLock stack 9); its
up-down read request (stack 10) went to the shared lower module 2, where
FindAndLock (stack 11) hit. -/
def scenario3_premises (uninit : cache_block_state_t) (S R X : Nat) : Prop :=
  (scenario3_pre uninit S X).events = [] ∧
  (scenario3_pre uninit S X).next_stack = 8 ∧
  line_state (scenario3_pre uninit S X) S X = cache_block_modified ∧
  line_state (scenario3_pre uninit S X) R X = cache_block_invalid ∧
  ((scenario3 uninit S R X).stack_tab 9).mod = R ∧
  ((scenario3 uninit S R X).stack_tab 9).hit = false ∧
  ((scenario3 uninit S R X).stack_tab 10).request_dir = mod_request_up_down ∧
  ((scenario3 uninit S R X).stack_tab 10).target_mod = some 2 ∧
  ((scenario3 uninit S R X).stack_tab 11).mod = 2 ∧
  ((scenario3 uninit S R X).stack_tab 11).hit = true

instance (uninit : cache_block_state_t) (S R X : Nat) :
    Decidable (scenario3_premises uninit S R X) := by
  unfold scenario3_premises
  infer_instance

/-- The single-writer property as the specification words it, over the modules
`mods` and the line of address `X`: when one of them holds the line Modified
or Exclusive, every other one holds it Invalid. -/
def single_writer (s : Sim) (mods : List Nat) (X : Nat) : Prop :=
  ∀ a ∈ mods,
    (line_state s a X = cache_block_modified ∨ line_state s a X = cache_block_exclusive) →
    ∀ b ∈ mods, b ≠ a → line_state s b X = cache_block_invalid

instance (s : Sim) (mods : List Nat) (X : Nat) : Decidable (single_writer s mods X) := by
  unfold single_writer
  infer_instance

/-- The two-core hierarchy in which module 0 holds block 4160 Exclusive at
(set 1, way 0) and stack 60 is a Store of module 0 for which FindAndLock
returned that entry without error. -/
def install_demo : Sim :=
  ((cache_set_block (dual_init cache_block_invalid) 0 1 0 4160 cache_block_exclusive).setStack 60
    { mod_stack_zero with mod := 0, set := 1, way := 0, tag := 4160,
                          state := cache_block_exclusive })

/-- The loop `for (way = 0; way < cache->assoc; way++)` of the directory variant
of `mod_find_block` (module.c lines 231-242): stops at the first way whose tag
matches with a valid state, or whose transient tag matches while its directory
entry is locked.  `dir_lock set way` is `dir_lock_get(mod->dir, set, way)->lock`
(`struct dir_t` is declared outside the available sources); `n` is the number
of ways still to examine. -/
def mod_find_block_scan_dir (c : cache_t) (dir_lock : Int → Int → Bool) (set tag : Int) :
    Nat → Nat → Nat
  | 0, way => way
  | n + 1, way =>
    if (c.blocks set way).tag = tag ∧ (c.blocks set way).state ≠ cache_block_invalid then way
    else if (c.blocks set way).transient_tag = tag ∧ dir_lock set way = true then way
    else mod_find_block_scan_dir c dir_lock set tag n (way + 1)

/-- `mod_find_block` (directory variant, module.c lines 201-261); `way0`,
`state0` and `none` as in `mod_find_block`. -/
def mod_find_block_dir (md : mod_t) (dir_lock : Int → Int → Bool) (addr : Nat) (way0 : Int)
    (state0 : cache_block_state_t) : Option find_block_t :=
  let tag := mod_find_block_tag md.cache addr
  match mod_find_block_set md tag with
  | none => none
  | some set =>
    let way := mod_find_block_scan_dir md.cache dir_lock set tag md.cache.assoc 0
    if way = md.cache.assoc then
      some { hit := false, set := set, way := way0, tag := tag, state := state0 }
    else
      some { hit := true, set := set, way := way, tag := tag,
             state := (md.cache.blocks set way).state }

/-- Hit condition of the snoop variant on way `w` of a set: the tag matches and
the state is not Invalid. -/
def way_hits (c : cache_t) (set tag : Int) (w : Nat) : Prop :=
  (c.blocks set w).tag = tag ∧ (c.blocks set w).state ≠ cache_block_invalid

/-- Hit condition of the directory variant on way `w` of a set: as `way_hits`,
or the transient tag matches and the entry is locked. -/
def way_hits_dir (c : cache_t) (dir_lock : Int → Int → Bool) (set tag : Int) (w : Nat) : Prop :=
  way_hits c set tag w ∨ ((c.blocks set w).transient_tag = tag ∧ dir_lock set w = true)

instance (c : cache_t) (set tag : Int) (w : Nat) : Decidable (way_hits c set tag w) := by
  unfold way_hits
  infer_instance

instance (c : cache_t) (dir_lock : Int → Int → Bool) (set tag : Int) (w : Nat) :
    Decidable (way_hits_dir c dir_lock set tag w) := by
  unfold way_hits_dir
  infer_instance

/-- Geometry of a cache as `cache_create` sets it up: the block size is a power
of two, `block_mask = block_size - 1`, and there is at least one set. -/
def cache_geometry (c : cache_t) : Prop :=
  c.log_block_size < 32 ∧ c.block_size = 2 ^ c.log_block_size ∧
  c.block_mask = c.block_size - 1 ∧ 0 < c.num_sets ∧ c.num_sets ≤ 2147483648

/-- Tag of an address as the lookup contract words it: the address rounded
down to a multiple of the block size. -/
def spec_find_block_tag (c : cache_t) (addr : Nat) : Nat :=
  addr / c.block_size * c.block_size

/-- Set index of an address as the lookup contract words it:
`(address / block_size) mod num_sets` under bounds mapping and
`((address / block_size) / num_mods) mod num_sets` under interleaved mapping. -/
def spec_find_block_set (md : mod_t) (addr : Nat) : Option Nat :=
  match md.range with
  | mod_range_interleaved num_mods _ _ =>
    some (((addr / md.cache.block_size) / num_mods) % md.cache.num_sets)
  | mod_range_bounds _ _ => some ((addr / md.cache.block_size) % md.cache.num_sets)
  | mod_range_invalid => none

/-- A cache module of 4 sets, 2 ways and 64-byte blocks that serves the blocks
whose index is 2 modulo 5 (`ADDR DIV 64 MOD 5 EQ 2`). -/
def lookup_demo : mod_t :=
  { mod_new mod_kind_cache 0 2 64 6 1 (cache_empty 4 64 2 6) [] [] 64 true with
    range := mod_range_interleaved 5 64 2 }

/-- A cache module of 4 sets, 2 ways and 64-byte blocks serving the whole
address space, where way 0 of set 1 is Invalid with tag 0, carries the
transient tag 4160 and has its entry lock held by the access with id 1. -/
def transient_demo : mod_t :=
  let c := cache_empty 4 64 2 6
  mod_new mod_kind_cache 0 2 64 6 1
    { c with
      blocks := upd2 c.blocks 1 0 { tag := 0, transient_tag := 4160, state := cache_block_invalid },
      cache_lock := upd2 c.cache_lock 1 0 { lock := true, stack_id := 1, lock_queue := [] } }
    [] [] 64 true

/-- The accesses of module `m` are recorded consistently: every bucket of the
hash table holds, in the order of the access list, the accesses of the list
whose address hashes to it, and the access list is in increasing id order. -/
def access_index_ok (s : Sim) (m : Nat) : Prop :=
  (∀ i, i < MOD_ACCESS_HASH_TABLE_SIZE →
    (s.mods m).access_hash_table i =
      (s.mods m).access_list.filter
        (fun h => hash_index (s.mods m) (s.stack_tab h).addr == i)) ∧
  (s.mods m).access_list.Pairwise (fun a b => (s.stack_tab a).id < (s.stack_tab b).id)

instance (s : Sim) (m : Nat) : Decidable (access_index_ok s m) := by
  unfold access_index_ok
  infer_instance

/-- Access `h` targets the block of `addr` in module `m`
(`stack->addr >> mod->log_block_size == addr >> mod->log_block_size`). -/
def same_block (s : Sim) (m : Nat) (addr h : Nat) : Bool :=
  decide ((s.stack_tab h).addr >>> (s.mods m).log_block_size = addr >>> (s.mods m).log_block_size)

/-- Access `h` is older than `older_than_stack` by id; every access is when
`older_than_stack` is absent. -/
def older_than (s : Sim) (older_than_stack : Option Nat) (h : Nat) : Bool :=
  match older_than_stack with
  | some o => decide ((s.stack_tab h).id < (s.stack_tab o).id)
  | none => true

/-- Three Loads of address 4160 issued back-to-back on the L1 of the chain
(stacks 0, 1 and 2 with ids 1, 2 and 3), before any event is processed. -/
def three_loads : Sim :=
  mod_access (mod_access (mod_access (chain_init cache_block_invalid) 0 mod_access_load 4160 false)
    0 mod_access_load 4160 false) 0 mod_access_load 4160 false

/-- The in-flight accesses of module `m` issued before `older_than_stack`, in
issue order (`x1..xn`); every in-flight access when it is absent. -/
def issued_before (s : Sim) (m : Nat) (older_than_stack : Option Nat) : List Nat :=
  match older_than_stack with
  | some o => (s.mods m).access_list.takeWhile (fun x => x != o)
  | none => (s.mods m).access_list

/-- `stack->master_stack ? stack->master_stack : stack`. -/
def master_of (s : Sim) (h : Nat) : Nat := ((s.stack_tab h).master_stack).getD h

/-- Access `h` is a Load or a Prefetch. -/
def load_or_prefetch (s : Sim) (h : Nat) : Bool :=
  decide ((s.stack_tab h).access_kind = mod_access_load) ||
  decide ((s.stack_tab h).access_kind = mod_access_prefetch)

/-- The caller of `mod_can_coalesce` is in flight: `older_than_stack`, when
present, is in the access list of the module. -/
def caller_in_flight (s : Sim) (m : Nat) (older_than_stack : Option Nat) : Prop :=
  ∀ o, older_than_stack = some o → o ∈ (s.mods m).access_list

instance (s : Sim) (m : Nat) (o : Option Nat) : Decidable (caller_in_flight s m o) := by
  unfold caller_in_flight
  cases o with
  | none => exact isTrue (fun _ h => by cases h)
  | some a =>
    exact decidable_of_iff (a ∈ (s.mods m).access_list)
      ⟨fun h o e => by cases e; exact h, fun h => h a rfl⟩

/-- The accesses that `mod_can_coalesce` walks through: `tail`, which is
`older_than_stack->access_list_prev` or `mod->access_list_tail`, then
`tail->access_list_prev` and so on. -/
def coalesce_chain (s : Sim) (m : Nat) (older_than_stack : Option Nat) : List Nat :=
  match older_than_stack with
  | some o => prev_chain (s.mods m).access_list o
  | none => (s.mods m).access_list.reverse

/-- The `assert(!"Hash table wrongly reported another access to same block.")`
of the Prefetch case of `mod_can_coalesce` is reached: the hash table reported
an access and the walk down the access list found none. -/
def mod_can_coalesce_prefetch_assert (s : Sim) (m : Nat) (addr : Nat)
    (older_than_stack : Option Nat) : Bool :=
  (mod_in_flight_address s m addr older_than_stack).isSome &&
  ((coalesce_chain s m older_than_stack).find? (fun h =>
    decide ((s.stack_tab h).addr >>> (s.mods m).log_block_size =
      addr >>> (s.mods m).log_block_size))).isNone

/-- Two Stores of address 4160 issued back-to-back on the L1 of the chain
(stacks 0 and 1), before any event is processed. -/
def two_stores : Sim :=
  mod_access (mod_access (chain_init cache_block_invalid) 0 mod_access_store 4160 false)
    0 mod_access_store 4160 false

/-- The start of an access of module `m`, as `mod_access` and the first event of
its handler perform it (`EV_MOD_NMOESI_LOAD`, `..._STORE`, `..._NC_STORE`,
`..._PREFETCH`): the access gets the next id and a fresh stack, is recorded by
`mod_access_start`, and `mod_can_coalesce` is asked for a master; a Load, Store
or NCStore is coalesced with the master returned, a Prefetch never is.  The
flags set and the events scheduled by the handlers are left out. -/
def access_issue (s : Sim) (m : Nat) (kind : mod_access_kind_t) (addr : Nat) : Sim :=
  let s := { s with mod_stack_id := s.mod_stack_id + 1 }
  let (stack, s) := mod_stack_create s s.mod_stack_id m addr ESIM_EV_NONE none
  let s := mod_access_start s m stack kind
  match mod_can_coalesce s m kind (s.stack_tab stack).addr (some stack) with
  | some master_stack =>
    if kind = mod_access_prefetch then s else mod_coalesce s m master_stack stack
  | none => s

/-- The state in which `access_issue` asks `mod_can_coalesce`: the new access
has its id and stack and is recorded in the access index. -/
def access_started (s : Sim) (m : Nat) (kind : mod_access_kind_t) (addr : Nat) : Sim :=
  mod_access_start (mod_stack_create { s with mod_stack_id := s.mod_stack_id + 1 }
    (s.mod_stack_id + 1) m addr ESIM_EV_NONE none).2 m s.next_stack kind

/-- Module `m` has no access in flight, no stack is coalesced, and the
assertion `!master_stack->master_stack` of `mod_coalesce` has not failed. -/
def access_idle (s : Sim) (m : Nat) : Prop :=
  (s.mods m).access_list = [] ∧
  (∀ i, i < MOD_ACCESS_HASH_TABLE_SIZE → (s.mods m).access_hash_table i = []) ∧
  (∀ h, (s.stack_tab h).master_stack = none) ∧
  747 ∉ s.assert_log

/-- States reached from `s0` by starting accesses on module `m`, finishing
in-flight accesses, and setting or clearing `port_locked` flags. -/
inductive AccessReach (m : Nat) (s0 : Sim) : Sim → Prop
  | init : AccessReach m s0 s0
  | issue {s : Sim} (kind : mod_access_kind_t) (addr : Nat) :
    AccessReach m s0 s → kind ≠ mod_access_invalid →
    AccessReach m s0 (access_issue s m kind addr)
  | finish {s : Sim} (h : Nat) :
    AccessReach m s0 s → h ∈ (s.mods m).access_list →
    AccessReach m s0 (mod_access_finish s m h)
  | port {s : Sim} (h : Nat) (b : Bool) :
    AccessReach m s0 s →
    AccessReach m s0 (s.setStack h { s.stack_tab h with port_locked := b })

/-- Invariant of the access index of module `m`: a master is not coalesced and
is an allocated stack, the in-flight accesses are allocated stacks with ids
already given out, the index is consistent, and the assertion of `mod_coalesce`
has not failed. -/
def coalesce_inv (s : Sim) (m : Nat) : Prop :=
  (∀ h mst, (s.stack_tab h).master_stack = some mst →
    (s.stack_tab mst).master_stack = none ∧ mst < s.next_stack) ∧
  (∀ h ∈ (s.mods m).access_list, h < s.next_stack ∧ (s.stack_tab h).id ≤ s.mod_stack_id) ∧
  access_index_ok s m ∧
  747 ∉ s.assert_log

/-- Three Loads of address 4160 started back-to-back on the L1 of the chain with
`access_issue`. -/
def issue_demo : Sim :=
  access_issue (access_issue (access_issue (chain_init cache_block_invalid) 0 mod_access_load 4160)
    0 mod_access_load 4160) 0 mod_access_load 4160

/-- A Store of address 4160 issued on the L1 of the chain (stack 0; its lookup is
stack 1), followed by `k` turns of the scheduler. -/
def store_run (k : Nat) : Sim :=
  esim_run k (mod_access (chain_init cache_block_invalid) 0 mod_access_store 4160 false)

/-- The master that `EV_MOD_NMOESI_LOAD` obtains from `mod_can_coalesce` for the
Load `h` (lines 161-171): the call is made after the access is recorded and
its `read` flag set. -/
def load_master (s : Sim) (h : Nat) : Option Nat :=
  let s := s.log EV_MOD_NMOESI_LOAD h
  let mod := (s.stack_tab h).mod
  let s := mod_access_start s mod h mod_access_load
  let s := s.modStack h (fun st => { st with read := true })
  mod_can_coalesce s mod mod_access_load (s.stack_tab h).addr (some h)

/-- Scenario 4: two Loads of `X` issued back-to-back at L1 on the empty chain
(stacks 0 and 1), run until the event queue is empty. -/
def scenario4 (uninit : cache_block_state_t) (X : Nat) : Sim :=
  esim_run 64 (mod_access (mod_access (chain_init uninit) 0 mod_access_load X false)
    0 mod_access_load X false)

/-- The `EV_MOD_NMOESI_READ_REQUEST` events of a run whose stack was created on
behalf of one of the accesses `parents`. -/
def read_requests_of (s : Sim) (parents : List Nat) : List (Ev × Nat) :=
  s.trace.filter (fun e =>
    decide (e.1 = EV_MOD_NMOESI_READ_REQUEST) &&
    parents.any (fun p => decide ((s.stack_tab e.2).ret_stack = some p)))

/-- The access that `EV_MOD_NMOESI_PREFETCH` obtains from `mod_can_coalesce` for
the Prefetch `h` (lines 934-937): the call is made after the access is
recorded. -/
def prefetch_master (s : Sim) (h : Nat) : Option Nat :=
  let s := s.log EV_MOD_NMOESI_PREFETCH h
  let mod := (s.stack_tab h).mod
  let s := mod_access_start s mod h mod_access_prefetch
  mod_can_coalesce s mod mod_access_prefetch (s.stack_tab h).addr (some h)

/-- A Load (stack 0), a Prefetch (stack 1) and a second Load (stack 2) of address
4160 issued back-to-back on the L1 of the chain, before any event is
processed. -/
def prefetch_demo : Sim :=
  mod_access (mod_access (mod_access (chain_init cache_block_invalid) 0 mod_access_load 4160 false)
    0 mod_access_prefetch 4160 false) 0 mod_access_load 4160 false

/-- The write list of module `m` holds, in the order of the access list, the
in-flight accesses of kind Store. -/
def write_list_ok (s : Sim) (m : Nat) : Prop :=
  (s.mods m).write_access_list =
    (s.mods m).access_list.filter
      (fun h => decide ((s.stack_tab h).access_kind = mod_access_store))

instance (s : Sim) (m : Nat) : Decidable (write_list_ok s m) := by
  unfold write_list_ok
  infer_instance

/-- A Store of 4160 (stack 0), a Load of 8256 (stack 1) and an NCStore of 4160
(stack 2) issued back-to-back on the L1 of the chain, before any event is
processed. -/
def mixed_accesses : Sim :=
  mod_access (mod_access (mod_access (chain_init cache_block_invalid) 0 mod_access_store 4160 false)
    0 mod_access_load 8256 false) 0 mod_access_nc_store 4160 false

/-- Number of in-flight accesses of module `m` marked `coalesced`. -/
def coalesced_in_flight (s : Sim) (m : Nat) : Nat :=
  (s.mods m).access_list.countP (fun h => (s.stack_tab h).coalesced)

/-- Module `m` has no access in flight, its coalesced count is zero, and the
assertions on the count in `mod_coalesce` and `mod_access_finish` have not
failed. -/
def count_idle (s : Sim) (m : Nat) : Prop :=
  (s.mods m).access_list = [] ∧ (s.mods m).access_list_coalesced_count = 0 ∧
  756 ∉ s.assert_log ∧ 481 ∉ s.assert_log

instance (s : Sim) (m : Nat) : Decidable (count_idle s m) := by
  unfold count_idle
  infer_instance

/-- States reached from `s0` by calls of `mod_access_start` on an access that
is not in flight and not marked coalesced (a new stack), of `mod_coalesce` on
an access in flight that is not yet coalesced, with any master, and of
`mod_access_finish` on an access in flight. -/
inductive CountReach (m : Nat) (s0 : Sim) : Sim → Prop
  | init : CountReach m s0 s0
  | start {s : Sim} (h : Nat) (kind : mod_access_kind_t) :
    CountReach m s0 s → h ∉ (s.mods m).access_list → (s.stack_tab h).coalesced = false →
    CountReach m s0 (mod_access_start s m h kind)
  | coalesce {s : Sim} (master h : Nat) :
    CountReach m s0 s → h ∈ (s.mods m).access_list → (s.stack_tab h).coalesced = false →
    CountReach m s0 (mod_coalesce s m master h)
  | finish {s : Sim} (h : Nat) :
    CountReach m s0 s → h ∈ (s.mods m).access_list →
    CountReach m s0 (mod_access_finish s m h)

/-- Invariant of the coalesced count of module `m`. -/
def count_inv (s : Sim) (m : Nat) : Prop :=
  (s.mods m).access_list.Nodup ∧
  (s.mods m).access_list_coalesced_count = ((coalesced_in_flight s m : Nat) : Int) ∧
  756 ∉ s.assert_log ∧ 481 ∉ s.assert_log

/-- Two Loads of address 4160 started on the L1 of the chain, the second
coalesced with the first, and the first finished. -/
def count_demo : Sim :=
  mod_access_finish (mod_coalesce (mod_access_start (mod_access_start
    (chain_init cache_block_invalid) 0 0 mod_access_load) 0 1 mod_access_load) 0 0 1) 0 0

/-- `mod_can_access(mod, addr)` (module.c, directory variant lines 179-198);
the `assert(mod->num_locked_ports <= mod->num_ports)` is compiled out, and
`access_list_count` is the length of the access list. -/
def mod_can_access (s : Sim) (m : Nat) (_addr : Nat) : Bool :=
  let md := s.mods m
  if md.num_locked_ports = md.num_ports then false
  else if md.mshr_size = 0 then true
  else
    let non_coalesced_accesses :=
      ((md.access_list.length : Nat) : Int) - md.access_list_coalesced_count
    decide (non_coalesced_accesses < md.mshr_size)

/-- The address-range predicate in the words of the specification: a bounds
range serves `addr` iff `low <= addr <= high`, an interleaved range iff
`(addr / div) mod mod = eq`. -/
def spec_serves (md : mod_t) (addr : Nat) : Bool :=
  match md.range with
  | mod_range_bounds low high => decide (low ≤ addr ∧ addr ≤ high)
  | mod_range_interleaved mod div eq => decide ((addr / div) % mod = eq)
  | mod_range_invalid => false

/-- The chain with a second, interleaved main memory below the L2: module 2
serves the even 64-byte blocks and module 3 the odd ones. -/
def two_banks : Sim :=
  let s := chain_init cache_block_invalid
  let s := s.setMod 2 { s.mods 2 with range := mod_range_interleaved 2 64 0 }
  let s := s.setMod 3 { s.mods 2 with range := mod_range_interleaved 2 64 1 }
  s.setMod 1 { s.mods 1 with low_mod_list := [2, 3] }

/-- The chain with an NCStore access (stack 0) whose lookup reported its line, set 1
way 1 of the L1, Modified. -/
def nc_store_demo : Sim :=
  (chain_init cache_block_invalid).setStack 0
    { mod_stack_zero with
      access_kind := mod_access_nc_store, addr := 4160, tag := 4160, set := 1, way := 1,
      state := cache_block_modified }

/-- No access with a smaller id to the block of access `h` is in flight in
module `m`. -/
def first_on_line (s : Sim) (m h : Nat) : Prop :=
  ∀ x ∈ (s.mods m).access_list, (s.stack_tab x).id < (s.stack_tab h).id →
    same_block s m (s.stack_tab h).addr x = false

instance (s : Sim) (m h : Nat) : Decidable (first_on_line s m h) := by
  unfold first_on_line
  infer_instance

/-- What a step of the simulation does to the access index of module `m`: the
id and address of an allocated stack and the block size never change, stacks
and ids are only handed out in increasing order, and an access in flight
afterwards was in flight before or is a new stack with a new id
(`mod_access_start` is only called from `mod_access`, on a stack just created
with id `++mod_stack_id`). -/
def index_step (m : Nat) (s s' : Sim) : Prop :=
  (∀ x, x < s.next_stack →
    (s'.stack_tab x).id = (s.stack_tab x).id ∧ (s'.stack_tab x).addr = (s.stack_tab x).addr) ∧
  (s'.mods m).log_block_size = (s.mods m).log_block_size ∧
  s.next_stack ≤ s'.next_stack ∧ s.mod_stack_id ≤ s'.mod_stack_id ∧
  (∀ x ∈ (s'.mods m).access_list, x ∈ (s.mods m).access_list ∨
    (s.next_stack ≤ x ∧ x < s'.next_stack ∧ s.mod_stack_id < (s'.stack_tab x).id))

/-- Access `p` and the accesses in flight in module `m` are allocated stacks,
the id of `p` has been handed out, and no access with a smaller id to the block
of `p` is in flight. -/
def line_inv (s : Sim) (m p : Nat) : Prop :=
  p < s.next_stack ∧ (s.stack_tab p).id ≤ s.mod_stack_id ∧
  (∀ x ∈ (s.mods m).access_list, x < s.next_stack) ∧ first_on_line s m p

/-- The part of the state that the issue order on a line depends on: the stack
and id counters, the access list and block size of module `m`, and the id and
address of every stack. -/
def index_view (m : Nat) (s : Sim) : Nat × Int × List Nat × Nat × (Nat → Int × Nat) :=
  (s.next_stack, s.mod_stack_id, (s.mods m).access_list, (s.mods m).log_block_size,
   fun x => ((s.stack_tab x).id, (s.stack_tab x).addr))

/-- The L2 of the chain about to evict its block (set 1, way 1), which holds
4160 Exclusive and is held Exclusive by main memory (set 1, way 3).  The L1
holds the line in state `l1_state` at (set 1, way 1), or nothing when
`l1_state` is Invalid (the state after the L1 has replaced the line).  Stack 0
is the caller, stack 1 the stack that the caller made for the Evict, which is
scheduled; with `low_locked` the entry of main memory is locked by another
access. -/
def evict_demo (l1_state : cache_block_state_t) (low_locked : Bool) : Sim :=
  let s := chain_init cache_block_invalid
  let s := if l1_state = cache_block_invalid then s else cache_set_block s 0 1 1 4160 l1_state
  let s := cache_set_block s 1 1 1 4160 cache_block_exclusive
  let s := cache_set_block s 2 1 3 4160 cache_block_exclusive
  let s := if low_locked then s.setLock 2 1 3 { lock := true, stack_id := 99, lock_queue := [] }
    else s
  let (caller, s) := mod_stack_create s 50 1 4160 ESIM_EV_NONE none
  let (victim, s) := mod_stack_create s 50 1 0 ESIM_EV_NONE (some caller)
  let s := s.modStack victim (fun x => { x with
    orig_mod_id := 1, set := 1, way := 1, evict_trans := true })
  esim_schedule_event s EV_MOD_NMOESI_EVICT victim 0

/-- Number of pending events of kind `ev`. -/
def count_events (ev : Ev) (s : Sim) : Nat :=
  s.events.countP (fun e => decide (e.2.1 = ev))

/-- The answer of the interconnect to the next `net_try_send_ev`: whether the
message is accepted. -/
def net_accepts (s : Sim) : Bool :=
  match s.net_oracle with
  | false :: _ => false
  | _ => true

/-- Number of WriteRequests that `EV_MOD_NMOESI_INVALIDATE` issues for stack
`h`: one per pair of `fanout` when the module has upper-level nodes and the
block is valid, none otherwise. -/
def invalidate_fanout (s : Sim) (h : Nat) : Nat :=
  let stack := s.stack_tab h
  let blk := cache_get_block s stack.mod stack.set stack.way
  if (s.mods stack.mod).num_nodes ≠ 0 ∧ blk.2 ≠ cache_block_invalid then
    (fanout s stack.mod blk.1 stack.orig_mod_id stack.except_mod).length
  else 0

/-- The state of `EV_MOD_NMOESI_INVALIDATE` once the block info is read and the
pending count set to one (lines 3704-3721), before the fan-out loop. -/
def invalidate_start (s : Sim) (h : Nat) : Sim :=
  let s := s.log EV_MOD_NMOESI_INVALIDATE h
  let mod := (s.stack_tab h).mod
  let blk := cache_get_block s mod (s.stack_tab h).set (s.stack_tab h).way
  s.modStack h (fun x => { x with
    tag := blk.1, state := blk.2, pending := 1, prev_state := blk.2 })

/-- The tag and state of every block of every module. -/
def block_view (s : Sim) (m : Nat) (set way : Int) : Int × cache_block_state_t :=
  (((s.mods m).cache.blocks set way).tag, ((s.mods m).cache.blocks set way).state)

/-- Lines 1163-1386 of `EV_MOD_NMOESI_FIND_AND_LOCK_PORT` for a lookup result
`r` of `mod_find_block` and a known operation: the lookup, the statistics
flags and the choice of a victim.  The result is the state in which the entry
lock is examined. -/
def find_and_lock_port_lookup (s : Sim) (h : Nat) (r : find_block_t) : Sim :=
  let s := s.log EV_MOD_NMOESI_FIND_AND_LOCK_PORT h
  let mod := (s.stack_tab h).mod
  let s := s.check ((s.stack_tab h).port.isSome) 1168
  let s := s.modRet h (fun r => { r with port_locked := true })
  let s := s.modStack h (fun st => { st with
    hit := r.hit, set := r.set, way := r.way, tag := r.tag, state := r.state })
  let s := s.modRet h (fun rt => { rt with
    prev_state := if r.hit then r.state else cache_block_invalid })
  let st := s.stack_tab h
  let s := if !st.read && !st.prefetch && !st.nc_write && st.write && st.witness_ptr then
      { s.modStack h (fun st => { st with witness_ptr := false }) with
        witness := s.witness + 1 }
    else s
  let s := if (s.stack_tab h).plain && !(s.stack_tab h).hit && decide ((s.stack_tab h).way < 0)
    then s.modStack h (fun st => { st with way := cache_replace_block s mod st.set })
    else s
  if (s.stack_tab h).plain then s.check (decide ((s.stack_tab h).way ≥ 0)) 1386 else s

/-- Lines 1389-1466 of `EV_MOD_NMOESI_FIND_AND_LOCK_PORT`: the entry lock is
examined and requested, the transient tag is stamped and the next step is
scheduled. -/
def find_and_lock_port_lock (s : Sim) (h mod port : Nat) : Sim :=
  let st := s.stack_tab h
  if st.locks then
    let cache_lock := cache_lock_get s mod st.set st.way
    if cache_lock.lock && !st.blocking then
      let s := s.modRet h (fun rt => { rt with err := true })
      let s := mod_unlock_port s mod port h
      let s := s.modRet h (fun rt => { rt with port_locked := false })
      mod_stack_return s h
    else
      let (ok, s) := cache_entry_lock s mod st.set st.way EV_MOD_NMOESI_FIND_AND_LOCK h
      if !ok then
        let s := mod_unlock_port s mod port h
        s.modRet h (fun rt => { rt with port_locked := false })
      else
        let s := if st.request_dir ≠ mod_request_down_up then
            s.modRet h (fun rt => { rt with
              read_request_in_progress := rt.read_request_in_progress || st.read
              write_request_in_progress := rt.write_request_in_progress || st.write })
          else s
        let s := if st.plain && !st.hit then
            s.modStack h (fun x => { x with state := (cache_get_block s mod st.set st.way).2 })
          else s
        let s := cache_set_transient_tag s mod st.set st.way st.tag
        let s := cache_access_block s mod st.set st.way
        esim_schedule_event s EV_MOD_NMOESI_FIND_AND_LOCK_ACTION h 0
  else
    let s := if st.plain && !st.hit then
        s.modStack h (fun x => { x with state := (cache_get_block s mod st.set st.way).2 })
      else s
    esim_schedule_event s EV_MOD_NMOESI_FIND_AND_LOCK_ACTION h 0

/-- A read of address 4160 at the first-level cache of the chain, about to run
the port step of FindAndLock: the line is present at set 1, way 1, and that
entry is locked by another access (id 99).  Stack 0 is the caller, stack 1 the
FindAndLock access; no port is bound yet. -/
def lock_demo0 (blocking : Bool) : Sim :=
  let s := chain_init cache_block_invalid
  let s := cache_set_block s 0 1 1 4160 cache_block_exclusive
  let s := s.setLock 0 1 1 { lock := true, stack_id := 99, lock_queue := [] }
  let (caller, s) := mod_stack_create s 50 0 4160 ESIM_EV_NONE none
  let (h, s) := mod_stack_create s 50 0 4160 EV_MOD_NMOESI_LOAD_ACTION (some caller)
  s.modStack h (fun x => { x with read := true, blocking := blocking })

/-- The state `lock_demo0` after the FindAndLock access took a port. -/
def lock_demo (blocking : Bool) : Sim :=
  port_apply (lock_demo0 blocking) 0 (port_op_t.lock 1 EV_MOD_NMOESI_FIND_AND_LOCK_PORT)

/-- A read of address 4672 at the first-level cache of the chain, about to run
FindAndLock: both ways of set 1 hold valid blocks (4160 and 4416), so the read
misses and a victim must be evicted.  Stack 0 is the caller, stack 1 the
FindAndLock access; no port is bound yet. -/
def victim_demo0 : Sim :=
  let s := chain_init cache_block_invalid
  let s := cache_set_block s 0 1 0 4160 cache_block_exclusive
  let s := cache_set_block s 0 1 1 4416 cache_block_exclusive
  let (caller, s) := mod_stack_create s 50 0 4672 ESIM_EV_NONE none
  let (h, s) := mod_stack_create s 50 0 4672 EV_MOD_NMOESI_LOAD_ACTION (some caller)
  s.modStack h (fun x => { x with read := true, blocking := true })

/-- The state `victim_demo0` after the FindAndLock access took a port: the port
step is scheduled. -/
def victim_demo : Sim :=
  port_apply victim_demo0 0 (port_op_t.lock 1 EV_MOD_NMOESI_FIND_AND_LOCK_PORT)

/-- The claimed effect of an eviction that carries data on the line of the lower
module, state by state: Exclusive or Modified -> Modified, Shared or Owned ->
Owned, NonCoherent -> NonCoherent; `none` (a fatal error) for an Invalid line. -/
def spec_evict_data_state : cache_block_state_t → Option cache_block_state_t
  | cache_block_exclusive => some cache_block_modified
  | cache_block_modified => some cache_block_modified
  | cache_block_shared => some cache_block_owned
  | cache_block_owned => some cache_block_owned
  | cache_block_noncoherent => some cache_block_noncoherent
  | cache_block_invalid => none

/-- The Evict transaction of `evict_demo` at the point where `EVICT_PROCESS`
runs at the lower module: the lower FindAndLock has reported the line (set 1,
way 1 of module 1, tag 4160) in state `low_state` and holds its lock; the
notice carries `reply`. -/
def evict_process_demo (low_state : cache_block_state_t) (reply : mod_reply_type_t)
    (err : Bool) : Sim :=
  let s := chain_init cache_block_invalid
  let s := cache_set_block s 1 1 1 4160 low_state
  let s := s.setLock 1 1 1 { lock := true, stack_id := 50, lock_queue := [] }
  let (caller, s) := mod_stack_create s 50 0 4160 ESIM_EV_NONE none
  let (h, s) := mod_stack_create s 50 0 4160 EV_MOD_NMOESI_FIND_AND_LOCK_FINISH (some caller)
  s.modStack h (fun x => { x with
    target_mod := some 1, set := 1, way := 1, tag := 4160, state := low_state,
    reply := reply, err := err, evict_trans := true })

/-- An up-down read request of the first core (module 0) for address 4160 at
the shared L2 (module 2) of the two-core hierarchy, about to run
`READ_REQUEST_UPDOWN_FINISH` for the last time (`pending = 1`): FindAndLock
found the line at set 1, way 1 in state `state` and holds its lock; `shared`
and `dirty` are the flags the probes of the other core left in the stack.
Stack 0 is the Load of module 0, stack 1 the read request. -/
def updown_finish_demo (state : cache_block_state_t) (shared dirty : Bool) : Sim :=
  let s := dual_init cache_block_invalid
  let s := cache_set_block s 2 1 1 4160 state
  let s := s.setLock 2 1 1 { lock := true, stack_id := 50, lock_queue := [] }
  let (caller, s) := mod_stack_create s 50 0 4160 ESIM_EV_NONE none
  let (h, s) := mod_stack_create s 50 0 4160 EV_MOD_NMOESI_LOAD_MISS (some caller)
  s.modStack h (fun x => { x with
    target_mod := some 2, request_dir := mod_request_up_down, tag := 4160, set := 1, way := 1,
    state := state, hit := true, pending := 1, reply := reply_ack_data, reply_size := 72,
    shared := shared, dirty := dirty, read := true })

/-- A run on the two-core hierarchy, every access run until the event queue is
empty: core 0 stores to 4160. -/
def dirty_run1 : Sim :=
  esim_run 64 (mod_access (dual_init cache_block_invalid) 0 mod_access_store 4160 false)

/-- Then core 1 loads 4160. -/
def dirty_run2 : Sim := esim_run 96 (mod_access dirty_run1 1 mod_access_load 4160 false)

/-- Then core 0 loads 4416. -/
def dirty_run3 : Sim := esim_run 64 (mod_access dirty_run2 0 mod_access_load 4416 false)

/-- Then core 0 loads 4672, which evicts 4160 from its cache. -/
def dirty_run4 : Sim := esim_run 96 (mod_access dirty_run3 0 mod_access_load 4672 false)

/-- Finally core 0 loads 4160 again. -/
def dirty_run5 : Sim := esim_run 96 (mod_access dirty_run4 0 mod_access_load 4160 false)

/-- A run on the two-core hierarchy, every access run until the event queue is
empty: core 0 loads 4160. -/
def probe_run1 : Sim :=
  esim_run 64 (mod_access (dual_init cache_block_invalid) 0 mod_access_load 4160 false)

/-- Then core 0 loads 4416. -/
def probe_run2 : Sim := esim_run 64 (mod_access probe_run1 0 mod_access_load 4416 false)

/-- Then core 0 loads 4672, which evicts 4160 from its cache; the shared L2
keeps it. -/
def probe_run3 : Sim := esim_run 96 (mod_access probe_run2 0 mod_access_load 4672 false)

/-- Finally core 0 loads 4160 again, which hits in the shared L2. -/
def probe_run4 : Sim := esim_run 96 (mod_access probe_run3 0 mod_access_load 4160 false)

/-- A Message (clear-owner) of the first-level cache of the chain for address
4160, about to be sent to the L2 (module 1): the L2 does not hold the line and
both ways of its set 1 hold valid blocks (64 and 576).  Stack 0 is the caller,
stack 1 the Message. -/
def message_miss_demo : Sim :=
  let s := chain_init cache_block_invalid
  let s := cache_set_block s 0 1 0 4160 cache_block_exclusive
  let s := cache_set_block s 1 1 0 64 cache_block_exclusive
  let s := cache_set_block s 1 1 1 576 cache_block_exclusive
  let s := cache_set_block s 2 1 0 64 cache_block_exclusive
  let s := cache_set_block s 2 9 0 576 cache_block_exclusive
  let (caller, s) := mod_stack_create s 50 0 4160 ESIM_EV_NONE none
  let (h, s) := mod_stack_create s 50 0 4160 ESIM_EV_NONE (some caller)
  let s := s.modStack h (fun x => { x with
    orig_mod_id := 0, message := message_clear_owner, target_mod := some 1 })
  esim_schedule_event s EV_MOD_NMOESI_MESSAGE h 0

/-- A run on the chain: the first-level cache loads 4160 (run until the event
queue is empty) and then issues a non-coherent store to 4160, which finds the
line Exclusive and sends a Message to the L2.  `message_run k` is the state
after `k` turns of the scheduler in the second access. -/
def message_run (k : Nat) : Sim :=
  esim_run k (mod_access
    (esim_run 64 (mod_access (chain_init cache_block_invalid) 0 mod_access_load 4160 false))
    0 mod_access_nc_store 4160 false)

/-- Tag and state of every block of every module agree in `s` and `t`. -/
def same_blocks (s t : Sim) : Prop :=
  ∀ m ∈ List.range s.num_mods, ∀ set ∈ List.range (s.mods m).cache.num_sets,
    ∀ way ∈ List.range (s.mods m).cache.assoc,
      block_view s m (set : Int) (way : Int) = block_view t m (set : Int) (way : Int)

instance (s t : Sim) : Decidable (same_blocks s t) := by
  unfold same_blocks
  infer_instance

/-- Number of read requests that `EV_MOD_NMOESI_READ_REQUEST_UPDOWN` issues for
stack `h` at target `t` in its hit branch: one per pair of `fanout` when the
target has upper-level nodes, none otherwise. -/
def read_request_fanout (s : Sim) (h t : Nat) : Nat :=
  if (s.mods t).num_nodes ≠ 0 then
    (fanout s t (s.stack_tab h).tag (s.stack_tab h).orig_mod_id none).length
  else 0

/-- The step `f` delivered `n` times to stack `h`. -/
def finish_iter (f : Sim → Nat → Sim) (h : Nat) : Nat → Sim → Sim
  | 0, s => s
  | n + 1, s => f (finish_iter f h n s) h

/-- The run `dirty_run1` followed by a Load of 4160 by core 1, stopped after
`k` turns of the scheduler.  After 13 turns the next event is
`READ_REQUEST_UPDOWN` of the read request of core 1 (stack 10) at the shared
L2, which holds the line; core 0 is the only other upper-level node. -/
def pending_demo (k : Nat) : Sim :=
  esim_run k (mod_access dirty_run1 1 mod_access_load 4160 false)

/-- Modules reached by the walk of `mod_check_coherency_status` started at
`(t, p, d)` (target module, previous module, down-up flag), with the flag under
which each is checked, leaving the `fatal` calls aside: the target itself; from
a target with an upper network, the walk of every end node of that network
other than the target, the previous module and the issuer, in the down-up
direction; and, when the flag is clear, the walk of the lower-level module of
the target. -/
inductive Visited (s : Sim) (issue_mod addr : Nat) : Nat → Nat → Bool → Nat → Bool → Prop
  | self (t p : Nat) (d : Bool) : Visited s issue_mod addr t p d t d
  | up (t p : Nat) (d : Bool) (node : net_node_t) (x : Nat) (dx : Bool) :
    (s.mods t).has_high_net = true →
    node ∈ (s.mods t).node_list.take (s.mods t).num_nodes →
    node.kind = net_node_end →
    (s.mods node.user_data).mod_id ≠ (s.mods t).mod_id →
    (s.mods node.user_data).mod_id ≠ (s.mods p).mod_id →
    (s.mods node.user_data).mod_id ≠ (s.mods issue_mod).mod_id →
    Visited s issue_mod addr node.user_data t true x dx →
    Visited s issue_mod addr t p d x dx
  | down (t p l x : Nat) (dx : Bool) :
    (s.mods t).has_low_net = true →
    mod_get_low_mod s t addr = low_mod_t.server l →
    Visited s issue_mod addr l t false x dx →
    Visited s issue_mod addr t p false x dx

/-- `enum mod_trans_type_t` of module.h. -/
inductive mod_trans_type_t
  | mod_trans_load
  | mod_trans_store
  | mod_trans_read_request
  | mod_trans_writeback
  | mod_trans_eviction
  | mod_trans_downup_read_request
  | mod_trans_downup_eviction_request
  | mod_trans_downup_writeback_request
  | mod_trans_peer_request
  | mod_trans_invalidate
  deriving DecidableEq, Repr

open mod_trans_type_t

/-- The ten `assert` conditions at the top of
`mod_update_state_modification_counters` (module.c, snoop variant lines
993-1006, directory variant lines 952-965; the two agree), in source order. -/
def state_counter_asserts (prev_state next_state : cache_block_state_t)
    (trans_type : mod_trans_type_t) : List Bool :=
  [decide (trans_type ≠ mod_trans_load ∧ trans_type ≠ mod_trans_store ∧
      trans_type ≠ mod_trans_downup_read_request ∧
      trans_type ≠ mod_trans_downup_writeback_request),
   decide (trans_type = mod_trans_load ∧ next_state = cache_block_invalid),
   decide (trans_type = mod_trans_load ∧ prev_state ≠ cache_block_invalid ∧
      next_state ≠ prev_state),
   decide (trans_type = mod_trans_load ∧ prev_state = cache_block_invalid ∧
      next_state ≠ cache_block_exclusive ∧ next_state ≠ cache_block_shared),
   decide (trans_type = mod_trans_store ∧ next_state ≠ cache_block_modified),
   decide (trans_type = mod_trans_downup_read_request ∧ prev_state = cache_block_invalid),
   decide (trans_type = mod_trans_downup_read_request ∧ next_state = cache_block_modified),
   decide (trans_type = mod_trans_downup_read_request ∧ next_state = cache_block_exclusive),
   decide (trans_type = mod_trans_downup_writeback_request ∧
      prev_state = cache_block_invalid),
   decide (trans_type = mod_trans_downup_writeback_request ∧
      next_state ≠ cache_block_invalid)]

/-- The `switch` of `mod_update_state_modification_counters` (module.c, snoop
variant lines 1008-1353): for the transaction types load, store, down-up read
request and down-up writeback request, the counter field of the module named
after (transaction type, previous state, next state) is incremented; there is
no case for the other types.  The 144 counter fields are the entries of the
table `c`. -/
def mod_update_state_modification_counters
    (c : mod_trans_type_t → cache_block_state_t → cache_block_state_t → Nat)
    (prev_state next_state : cache_block_state_t) (trans_type : mod_trans_type_t) :
    mod_trans_type_t → cache_block_state_t → cache_block_state_t → Nat :=
  if trans_type = mod_trans_load ∨ trans_type = mod_trans_store ∨
      trans_type = mod_trans_downup_read_request ∨
      trans_type = mod_trans_downup_writeback_request then
    fun t p n =>
      if t = trans_type ∧ p = prev_state ∧ n = next_state then c t p n + 1 else c t p n
  else c

/-- The steps that send on a network and name themselves as the retry event of
`net_try_send_ev`: the sends of Evict (line 1701), ReadRequest (line 2042) and
WriteRequest (line 2895) and of their replies (lines 1906, 2731 and 3443). -/
def retry_send_steps : List Ev :=
  [EV_MOD_NMOESI_EVICT_ACTION, EV_MOD_NMOESI_EVICT_REPLY, EV_MOD_NMOESI_READ_REQUEST,
   EV_MOD_NMOESI_READ_REQUEST_REPLY, EV_MOD_NMOESI_WRITE_REQUEST,
   EV_MOD_NMOESI_WRITE_REQUEST_REPLY]

/-- The steps that see the error of FindAndLock, each with the lock step it
schedules again (lines 271-277, 643-649 and 834-840). -/
def lock_retry_steps : List (Ev × Ev) :=
  [(EV_MOD_NMOESI_LOAD_ACTION, EV_MOD_NMOESI_LOAD_LOCK),
   (EV_MOD_NMOESI_STORE_ACTION, EV_MOD_NMOESI_STORE_LOCK),
   (EV_MOD_NMOESI_NC_STORE_ACTION, EV_MOD_NMOESI_NC_STORE_LOCK)]

/-- The state in which the handler of the next event runs: the event is taken
from the heap and the clock is set to its time (the first half of `esim_step`). -/
def esim_next (s : Sim) : Sim :=
  match s.events with
  | [] => s
  | (t, _, _) :: rest => { s with events := rest, esim_time := t }

/-- Two-core hierarchy in which core 0 holds 4160 (way 0) and 4416 (way 1) in
set 1 of its cache, both Exclusive and present in the L2 and in main memory.
A clear-owner Message of core 1 for 4416 (stack 1) holds the lock of the L2
entry of 4416 and reaches `MESSAGE_ACTION`, which releases the lock, at time
`T`.  At time 0 core 0 issues a Load of 4672 (stack 2), which maps to the same
set of its cache. -/
def retry_demo (T : Nat) : Sim :=
  let s := dual_init cache_block_invalid
  let s := cache_set_block s 0 1 0 4160 cache_block_exclusive
  let s := cache_set_block s 0 1 1 4416 cache_block_exclusive
  let s := cache_set_block s 2 1 0 4160 cache_block_exclusive
  let s := cache_set_block s 2 5 0 4416 cache_block_exclusive
  let s := cache_set_block s 3 1 0 4160 cache_block_exclusive
  let s := cache_set_block s 3 5 0 4416 cache_block_exclusive
  let (caller, s) := mod_stack_create s 77 1 4416 ESIM_EV_NONE none
  let (m, s) := mod_stack_create s 77 1 4416 ESIM_EV_NONE (some caller)
  let s := s.modStack m (fun x => { x with
    target_mod := some 2, set := 5, way := 0, tag := 4416, message := message_clear_owner,
    reply := reply_ack, reply_size := 8 })
  let s := s.setLock 2 5 0 { lock := true, stack_id := 77, lock_queue := [] }
  let s := esim_schedule_event s EV_MOD_NMOESI_MESSAGE_ACTION m T
  mod_access s 0 mod_access_load 4672 false

/-- The state of `retry_demo 0` in which `EVICT_ACTION` of the eviction of
4416 (stack 4) runs, with a network that rejects the next send. -/
def reject_demo : Sim :=
  { esim_next (esim_run 10 (retry_demo 0)) with net_oracle := [false, true] }

/-- The state of `retry_demo 12` in which `LOAD_ACTION` of the Load (stack 2)
runs after its FindAndLock failed. -/
def lock_error_demo : Sim := esim_next (esim_run 17 (retry_demo 12))

/-- What a rejected send leaves for the retry: `p` has the event heap, the
clock, the network oracle and the network log of `s`. -/
def net_frame (p s : Sim) : Prop :=
  p.events = s.events ∧ p.esim_time = s.esim_time ∧ p.net_oracle = s.net_oracle ∧
  p.net_log = s.net_log

/-! ## Invariant of the event queue and the access index -/

/-- Events that start an access: `mod_access` executes them at once, no handler
schedules or stores them. -/
def start_event (e : Ev) : Bool :=
  decide (e = EV_MOD_NMOESI_LOAD ∨ e = EV_MOD_NMOESI_STORE ∨ e = EV_MOD_NMOESI_NC_STORE ∨
    e = EV_MOD_NMOESI_PREFETCH)

/-- An event that is neither a start event nor `EV_MOD_NMOESI_PREFETCH_LOCK`. -/
def plain_event (e : Ev) : Bool :=
  !start_event e && decide (e ≠ EV_MOD_NMOESI_PREFETCH_LOCK)

/-- Event `e` may be scheduled for stack `h`: it is no start event, and it is
`EV_MOD_NMOESI_PREFETCH_LOCK` only for a stack in `G`. -/
def sched_ok (G : Nat → Prop) (e : Ev) (h : Nat) : Prop :=
  start_event e = false ∧ (e = EV_MOD_NMOESI_PREFETCH_LOCK → G h)

/-- Every pending event and every wake-up event kept in a stack may be
scheduled: the event of a waiter (`waiting_list_event`) for the waiter itself,
the events kept for a port, an entry lock or a return only when they are
plain. -/
def events_ok (G : Nat → Prop) (s : Sim) : Prop :=
  (∀ e ∈ s.events, sched_ok G e.2.1 e.2.2) ∧
  ∀ x, sched_ok G (s.stack_tab x).waiting_list_event x ∧
    plain_event (s.stack_tab x).port_waiting_list_event = true ∧
    plain_event (s.stack_tab x).cache_lock_event = true ∧
    plain_event (s.stack_tab x).ret_event = true

/-- What a handler other than the start and finish events leaves as it was: the
counters, the id, address and module of every allocated stack, and the access
index of every module. -/
def idx_frame (s t : Sim) : Prop :=
  s.next_stack ≤ t.next_stack ∧ t.mod_stack_id = s.mod_stack_id ∧
  (∀ x, x < s.next_stack → (t.stack_tab x).id = (s.stack_tab x).id ∧
    (t.stack_tab x).addr = (s.stack_tab x).addr ∧ (t.stack_tab x).mod = (s.stack_tab x).mod) ∧
  ∀ m, (t.mods m).access_list = (s.mods m).access_list ∧
    (t.mods m).access_hash_table = (s.mods m).access_hash_table ∧
    (t.mods m).log_block_size = (s.mods m).log_block_size

/-- State `t` is reached from `s` by steps that keep the access index and
schedule or store only events that may be scheduled. -/
def handler_frame (G : Nat → Prop) (s t : Sim) : Prop :=
  idx_frame s t ∧ (events_ok G s → events_ok G t)

/-- A stack update that keeps the id, the address, the module and the stored
events. -/
def keeps_index (f : mod_stack_t → mod_stack_t) : Prop :=
  ∀ st, (f st).id = st.id ∧ (f st).addr = st.addr ∧ (f st).mod = st.mod ∧
    (f st).waiting_list_event = st.waiting_list_event ∧
    (f st).port_waiting_list_event = st.port_waiting_list_event ∧
    (f st).cache_lock_event = st.cache_lock_event ∧ (f st).ret_event = st.ret_event

/-- Events that retire an access. -/
def finish_event (e : Ev) : Bool :=
  decide (e = EV_MOD_NMOESI_LOAD_FINISH ∨ e = EV_MOD_NMOESI_STORE_FINISH ∨
    e = EV_MOD_NMOESI_NC_STORE_FINISH ∨ e = EV_MOD_NMOESI_PREFETCH_FINISH)

/-- The access index of every module is consistent, and the accesses in flight
are allocated stacks with ids already given out. -/
def index_inv (s : Sim) : Prop :=
  ∀ m, access_index_ok s m ∧
    ∀ x ∈ (s.mods m).access_list, x < s.next_stack ∧ (s.stack_tab x).id ≤ s.mod_stack_id

/-- Access `p` has no in-flight access with a smaller id to its block in its
own module (`line_inv` for the module of `p`). -/
def on_line_first (s : Sim) (p : Nat) : Prop := line_inv s (s.stack_tab p).mod p

/-- Invariant of the simulation: the access indexes are consistent, no start
event is pending or stored, and `EV_MOD_NMOESI_PREFETCH_LOCK` is pending or
stored only for accesses that are first on their line. -/
def sim_inv (s : Sim) : Prop := index_inv s ∧ events_ok (on_line_first s) s

/-- A simulation in which nothing is scheduled, no stack keeps a wake-up event
and no access is in flight. -/
def sim_idle (s : Sim) : Prop :=
  s.events = [] ∧
  (∀ x, (s.stack_tab x).waiting_list_event = ESIM_EV_NONE ∧
    (s.stack_tab x).port_waiting_list_event = ESIM_EV_NONE ∧
    (s.stack_tab x).cache_lock_event = ESIM_EV_NONE ∧
    (s.stack_tab x).ret_event = ESIM_EV_NONE) ∧
  ∀ m, (s.mods m).access_list = [] ∧
    ∀ i, i < MOD_ACCESS_HASH_TABLE_SIZE → (s.mods m).access_hash_table i = []

/-- States reached from `s0` by turns of the scheduler and by accesses issued
with `mod_access` on any module. -/
inductive SimReach (s0 : Sim) : Sim → Prop
  | init : SimReach s0 s0
  | step {s : Sim} : SimReach s0 s → SimReach s0 (esim_step s)
  | access {s : Sim} (m : Nat) (kind : mod_access_kind_t) (addr : Nat) (wp : Bool) :
    SimReach s0 s → SimReach s0 (mod_access s m kind addr wp)

/-- The state in which `mod_access` executes the start event of the new access:
the id counter is advanced and the stack of the access is created and
filled in. -/
def access_created (s : Sim) (m addr : Nat) (wp : Bool) : Sim :=
  (mod_stack_create { s with mod_stack_id := s.mod_stack_id + 1 } (s.mod_stack_id + 1) m addr
    ESIM_EV_NONE none).2.modStack s.next_stack (fun x => { x with
      orig_mod_id := (s.mods m).mod_id
      issue_mod_id := (s.mods m).mod_id
      witness_ptr := wp })

/-! ## Lemmas and theorems -/

/-- C4: `cache_block_next_state(shared, dirty)` equals the specification's
`f(shared, dirty)` for every pair of `int` flag values, a flag counting as true
exactly when it is non-zero; the result is never Invalid and never NonCoherent. -/
theorem cache_block_next_state_eq_spec (flag_shared flag_dirty : Int) :
    cache_block_next_state flag_shared flag_dirty =
        next_state_spec (decide (flag_shared ≠ 0)) (decide (flag_dirty ≠ 0)) ∧
    cache_block_next_state flag_shared flag_dirty ≠ cache_block_invalid ∧
    cache_block_next_state flag_shared flag_dirty ≠ cache_block_noncoherent := by
  unfold cache_block_next_state next_state_spec
  by_cases hs : flag_shared = 0 <;> by_cases hd : flag_dirty = 0 <;> simp [hs, hd]

/-! ### Table updates -/

@[simp] theorem upd_same {α : Type} (f : Nat → α) (i : Nat) (v : α) : upd f i v i = v := by
  simp [upd]

theorem upd_other {α : Type} (f : Nat → α) (i j : Nat) (v : α) (h : j ≠ i) :
    upd f i v j = f j := by
  simp [upd, h]

theorem upd_apply {α : Type} (f : Nat → α) (i j : Nat) (v : α) :
    upd f i v j = if j = i then v else f j := rfl

/-- The scan finds a free port when one exists. -/
theorem port_scan_free (ports : List mod_port_t) (i : Nat)
    (h : ports_bound ports < ports.length) :
    port_scan ports i - i < ports.length ∧ i ≤ port_scan ports i ∧
    (ports[port_scan ports i - i]?).map (fun p => p.stack) = some none := by
  induction ports generalizing i with
  | nil => simp at h
  | cons p rest ih =>
    unfold port_scan
    by_cases hp : p.stack = none
    · simp [hp]
    · simp only [hp, if_false]
      have hb : ports_bound rest < rest.length := by
        have : ports_bound (p :: rest) = ports_bound rest + 1 := by
          unfold ports_bound
          rw [List.countP_cons]
          have : p.stack.isSome = true := by
            cases hps : p.stack with
            | none => exact absurd hps hp
            | some _ => rfl
          simp [this]
        rw [this] at h
        simp at h
        exact h
      obtain ⟨h1, h2, h3⟩ := ih (i + 1) hb
      refine ⟨?_, by omega, ?_⟩
      · simp; omega
      · have : port_scan rest (i + 1) - i = (port_scan rest (i + 1) - (i + 1)) + 1 := by omega
        rw [this]
        simpa using h3

theorem ports_bound_cons (p : mod_port_t) (rest : List mod_port_t) :
    ports_bound (p :: rest) = ports_bound rest + (if p.stack.isSome then 1 else 0) := by
  unfold ports_bound
  rw [List.countP_cons]

theorem ports_bound_le (ports : List mod_port_t) : ports_bound ports ≤ ports.length := by
  unfold ports_bound
  exact List.countP_le_length _

/-- Binding a free port adds one bound port. -/
theorem ports_bound_set_some (ports : List mod_port_t) (i h : Nat) (p : mod_port_t)
    (hi : ports[i]? = some p) (hp : p.stack = none) :
    ports_bound (ports.set i ⟨some h⟩) = ports_bound ports + 1 := by
  induction ports generalizing i with
  | nil => simp at hi
  | cons q rest ih =>
    cases i with
    | zero =>
      simp at hi
      subst hi
      simp [List.set, ports_bound_cons, hp]
    | succ j =>
      simp at hi
      simp [List.set, ports_bound_cons, ih j hi]
      omega

/-- Releasing a bound port removes one bound port. -/
theorem ports_bound_set_none (ports : List mod_port_t) (i h : Nat)
    (hi : ports[i]? = some ⟨some h⟩) :
    ports_bound (ports.set i ⟨none⟩) + 1 = ports_bound ports := by
  induction ports generalizing i with
  | nil => simp at hi
  | cons q rest ih =>
    cases i with
    | zero =>
      simp at hi
      subst hi
      simp [List.set, ports_bound_cons]
    | succ j =>
      simp at hi
      simp [List.set, ports_bound_cons]
      have := ih j hi
      omega

@[simp] theorem check_mods (s : Sim) (c : Bool) (l : Nat) : (s.check c l).mods = s.mods := by
  unfold Sim.check; split <;> rfl

@[simp] theorem check_stack_tab (s : Sim) (c : Bool) (l : Nat) :
    (s.check c l).stack_tab = s.stack_tab := by
  unfold Sim.check; split <;> rfl

@[simp] theorem check_true (s : Sim) (l : Nat) : s.check true l = s := by
  simp [Sim.check]

/-- State of the module after `mod_lock_port` when no port is free. -/
theorem mod_lock_port_wait (s : Sim) (m h : Nat) (ev : Ev)
    (hfull : (s.mods m).num_locked_ports ≥ (s.mods m).num_ports)
    (hw : h ∉ (s.mods m).port_waiting_list) :
    ((mod_lock_port s m h ev).mods m).ports = (s.mods m).ports ∧
    ((mod_lock_port s m h ev).mods m).num_ports = (s.mods m).num_ports ∧
    ((mod_lock_port s m h ev).mods m).num_locked_ports = (s.mods m).num_locked_ports ∧
    ((mod_lock_port s m h ev).mods m).port_waiting_list =
      (if (s.stack_tab h).request_dir = mod_request_down_up then h :: (s.mods m).port_waiting_list
       else (s.mods m).port_waiting_list ++ [h]) ∧
    (∀ k, ((mod_lock_port s m h ev).stack_tab k).port = (s.stack_tab k).port) ∧
    (∀ k, ((mod_lock_port s m h ev).stack_tab k).request_dir = (s.stack_tab k).request_dir) ∧
    (mod_lock_port s m h ev).assert_log = s.assert_log := by
  have hc : (s.mods m).port_waiting_list.contains h = false := by
    simpa using hw
  unfold mod_lock_port
  simp only [hfull, if_true, hc, Bool.not_false, check_true]
  refine ⟨?_, ?_, ?_, ?_, ?_, ?_, ?_⟩ <;>
    simp [Sim.setMod, Sim.setStack, upd_apply]
  · intro k; split <;> simp_all
  · intro k; split <;> simp_all

theorem ports_bound_pos (ports : List mod_port_t) (i h : Nat)
    (hi : ports[i]? = some ⟨some h⟩) : 0 < ports_bound ports := by
  have := ports_bound_set_none ports i h hi
  omega

/-- State of the module after `mod_lock_port` when a port is free. -/
theorem mod_lock_port_free (s : Sim) (m h : Nat) (ev : Ev)
    (hlen : (((s.mods m).ports.length : Nat) : Int) = (s.mods m).num_ports)
    (hcnt : (s.mods m).num_locked_ports = ((ports_bound (s.mods m).ports : Nat) : Int))
    (hfree : (s.mods m).num_locked_ports < (s.mods m).num_ports) :
    port_scan (s.mods m).ports 0 < (s.mods m).ports.length ∧
    ((s.mods m).ports[port_scan (s.mods m).ports 0]?).map (fun p => p.stack) = some none ∧
    ((mod_lock_port s m h ev).mods m).ports =
      (s.mods m).ports.set (port_scan (s.mods m).ports 0) ⟨some h⟩ ∧
    ((mod_lock_port s m h ev).mods m).num_ports = (s.mods m).num_ports ∧
    ((mod_lock_port s m h ev).mods m).num_locked_ports = (s.mods m).num_locked_ports + 1 ∧
    ((mod_lock_port s m h ev).mods m).port_waiting_list = (s.mods m).port_waiting_list ∧
    (∀ k, ((mod_lock_port s m h ev).stack_tab k).port =
      if k = h then some (port_scan (s.mods m).ports 0) else (s.stack_tab k).port) ∧
    (∀ k, ((mod_lock_port s m h ev).stack_tab k).request_dir = (s.stack_tab k).request_dir) ∧
    (mod_lock_port s m h ev).assert_log = s.assert_log := by
  have hb : ports_bound (s.mods m).ports < (s.mods m).ports.length := by
    have : ((ports_bound (s.mods m).ports : Nat) : Int) < (((s.mods m).ports.length : Nat) : Int) := by
      rw [← hcnt, hlen]; exact hfree
    exact_mod_cast this
  obtain ⟨h1, _, h3⟩ := port_scan_free (s.mods m).ports 0 hb
  simp only [Nat.sub_zero] at h1 h3
  have hnf : ¬ ((s.mods m).num_locked_ports ≥ (s.mods m).num_ports) := by omega
  have hi : ((port_scan (s.mods m).ports 0 : Nat) : Int) < (s.mods m).num_ports := by
    rw [← hlen]; exact_mod_cast h1
  unfold mod_lock_port
  simp only [hnf, if_false, hi, decide_True, check_true, if_true]
  refine ⟨h1, h3, ?_, ?_, ?_, ?_, ?_, ?_, ?_⟩ <;>
    simp [Sim.setMod, Sim.setStack, upd_apply, esim_schedule_event]
  · intro k; split <;> simp_all
  · intro k; split <;> simp_all

/-- Facts about a state in which a free port `i` has just been bound to `h`. -/
theorem PortInv_bind (s s' : Sim) (m h i : Nat)
    (hlen : (((s.mods m).ports.length : Nat) : Int) = (s.mods m).num_ports)
    (hcnt : (s.mods m).num_locked_ports = ((ports_bound (s.mods m).ports : Nat) : Int))
    (hbound : ∀ i h, (s.mods m).ports[i]? = some ⟨some h⟩ → (s.stack_tab h).port = some i)
    (hwait : ∀ w ∈ (s.mods m).port_waiting_list, (s.stack_tab w).port = none)
    (hnd : (s.mods m).port_waiting_list.Nodup)
    (hport : (s.stack_tab h).port = none)
    (hnw : h ∉ (s.mods m).port_waiting_list)
    (hfull : (s.mods m).port_waiting_list ≠ [] →
      (s.mods m).num_locked_ports + 1 = (s.mods m).num_ports)
    (hi : ((s.mods m).ports[i]?).map (fun p => p.stack) = some none)
    (e1 : (s'.mods m).ports = (s.mods m).ports.set i ⟨some h⟩)
    (e2 : (s'.mods m).num_ports = (s.mods m).num_ports)
    (e3 : (s'.mods m).num_locked_ports = (s.mods m).num_locked_ports + 1)
    (e4 : (s'.mods m).port_waiting_list = (s.mods m).port_waiting_list)
    (e5 : ∀ k, (s'.stack_tab k).port = if k = h then some i else (s.stack_tab k).port) :
    PortInv s' m := by
  obtain ⟨p, hp1, hp2⟩ : ∃ p, (s.mods m).ports[i]? = some p ∧ p.stack = none := by
    cases hq : (s.mods m).ports[i]? with
    | none => simp [hq] at hi
    | some p => exact ⟨p, rfl, by simpa [hq] using hi⟩
  have hil : i < (s.mods m).ports.length := by
    rcases List.getElem?_eq_some.mp hp1 with ⟨hlt, _⟩
    exact hlt
  constructor
  · rw [e1, e2, List.length_set]; exact hlen
  · rw [e1, e3, ports_bound_set_some _ i h p hp1 hp2, hcnt]; push_cast; rfl
  · intro j k hjk
    rw [e1] at hjk
    rw [e5]
    by_cases hji : j = i
    · subst hji
      rw [List.getElem?_set_self hil] at hjk
      simp at hjk
      simp [hjk]
    · rw [List.getElem?_set_ne (Ne.symm hji)] at hjk
      have hk := hbound j k hjk
      have : k ≠ h := by
        intro hkh; subst hkh; rw [hport] at hk; exact absurd hk (by simp)
      simp [this, hk]
  · intro w hw
    rw [e4] at hw
    rw [e5]
    have : w ≠ h := by intro hwh; subst hwh; exact hnw hw
    simp [this, hwait w hw]
  · intro hne
    rw [e4] at hne
    rw [e3, e2]; exact hfull hne
  · rw [e4]; exact hnd

theorem PortInv_locked_le (s : Sim) (m : Nat) (hinv : PortInv s m) :
    (s.mods m).num_locked_ports ≤ (s.mods m).num_ports := by
  rw [hinv.cnt, ← hinv.len]
  exact_mod_cast ports_bound_le _

/-- `mod_unlock_port` on a bound port: the release (state `s1`), followed by
`mod_lock_port` for the head of the wait queue when there is one. -/
theorem mod_unlock_port_eq (s : Sim) (m p h : Nat) (hinv : PortInv s m)
    (hok : port_op_ok s m (port_op_t.unlock p h)) :
    ∃ s1 : Sim,
      (s1.mods m).ports = (s.mods m).ports.set p ⟨none⟩ ∧
      (s1.mods m).num_ports = (s.mods m).num_ports ∧
      (s1.mods m).num_locked_ports = (s.mods m).num_locked_ports - 1 ∧
      (s1.mods m).port_waiting_list = (s.mods m).port_waiting_list.tail ∧
      (∀ k, (s1.stack_tab k).port = if k = h then none else (s.stack_tab k).port) ∧
      (∀ k, (s1.stack_tab k).request_dir = (s.stack_tab k).request_dir) ∧
      s1.assert_log = s.assert_log ∧
      mod_unlock_port s m p h =
        (match (s.mods m).port_waiting_list with
         | [] => s1
         | w :: _ => mod_lock_port s1 m w (s1.stack_tab w).port_waiting_list_event) := by
  obtain ⟨hport, hp, hmod⟩ := hok
  have hpos : 0 < ports_bound (s.mods m).ports := ports_bound_pos _ p h hp
  have hc1 : decide ((s.mods m).num_locked_ports > 0) = true := by
    rw [hinv.cnt]; simp; exact hpos
  have hc2 : decide ((s.stack_tab h).port = some p ∧
      ((s.mods m).ports.getD p ⟨none⟩).stack = some h) = true := by
    simp [hport, List.getD_eq_getElem?_getD, hp]
  have hc3 : decide ((s.stack_tab h).mod = m) = true := by simp [hmod]
  unfold mod_unlock_port
  simp only [hc1, hc2, hc3, check_true]
  cases hwl : (s.mods m).port_waiting_list with
  | nil =>
    refine ⟨_, ?_, ?_, ?_, ?_, ?_, ?_, ?_, rfl⟩
    · simp [Sim.setMod, Sim.setStack]
    · simp [Sim.setMod, Sim.setStack]
    · simp [Sim.setMod, Sim.setStack]
    · simp [Sim.setMod, Sim.setStack, hwl]
    · intro k; simp only [Sim.setMod, Sim.setStack, upd_apply]
      split <;> simp_all
    · intro k; simp only [Sim.setMod, Sim.setStack, upd_apply]
      split <;> simp_all
    · simp [Sim.setMod, Sim.setStack]
  | cons w rest =>
    refine ⟨(Sim.setMod
          (Sim.setMod (Sim.setStack s h { s.stack_tab h with port := none }) m
            { (Sim.setStack s h { s.stack_tab h with port := none }).mods m with
              ports := (s.mods m).ports.set p ⟨none⟩,
              num_locked_ports := (s.mods m).num_locked_ports - 1 }) m
          { (Sim.setMod (Sim.setStack s h { s.stack_tab h with port := none }) m
            { (Sim.setStack s h { s.stack_tab h with port := none }).mods m with
              ports := (s.mods m).ports.set p ⟨none⟩,
              num_locked_ports := (s.mods m).num_locked_ports - 1 }).mods m with
            port_waiting_list := rest }), ?_, ?_, ?_, ?_, ?_, ?_, ?_, ?_⟩
    · simp [Sim.setMod, Sim.setStack]
    · simp [Sim.setMod, Sim.setStack]
    · simp [Sim.setMod, Sim.setStack]
    · simp [Sim.setMod, Sim.setStack]
    · intro k; simp only [Sim.setMod, Sim.setStack, upd_apply]
      split <;> simp_all
    · intro k; simp only [Sim.setMod, Sim.setStack, upd_apply]
      split <;> simp_all
    · simp [Sim.setMod, Sim.setStack]
    · simp [Sim.setMod, Sim.setStack]

/-- What a valid port call does to the wait queue and to the port held by each
access. -/
theorem port_apply_effect (s : Sim) (m : Nat) (op : port_op_t) (hinv : PortInv s m)
    (hok : port_op_ok s m op) :
    PortInv (port_apply s m op) m ∧ (port_apply s m op).assert_log = s.assert_log ∧
    (∀ k, ((port_apply s m op).stack_tab k).request_dir = (s.stack_tab k).request_dir) ∧
    (match op with
     | port_op_t.lock h _ =>
       (∀ k, k ≠ h → ((port_apply s m op).stack_tab k).port = (s.stack_tab k).port) ∧
       ((s.mods m).num_locked_ports ≥ (s.mods m).num_ports →
         ((port_apply s m op).stack_tab h).port = none ∧
         ((port_apply s m op).mods m).port_waiting_list =
           (if (s.stack_tab h).request_dir = mod_request_down_up
            then h :: (s.mods m).port_waiting_list
            else (s.mods m).port_waiting_list ++ [h])) ∧
       ((s.mods m).num_locked_ports < (s.mods m).num_ports →
         ((port_apply s m op).stack_tab h).port.isSome ∧
         ((port_apply s m op).mods m).port_waiting_list = (s.mods m).port_waiting_list)
     | port_op_t.unlock _ h =>
       ((port_apply s m op).mods m).port_waiting_list = (s.mods m).port_waiting_list.tail ∧
       (∀ k, (s.mods m).port_waiting_list.head? ≠ some k →
         ((port_apply s m op).stack_tab k).port = if k = h then none else (s.stack_tab k).port) ∧
       (∀ w, (s.mods m).port_waiting_list.head? = some w →
         ((port_apply s m op).stack_tab w).port.isSome)) := by
  have hle := PortInv_locked_le s m hinv
  cases op with
  | lock h ev =>
    obtain ⟨hport, hnw⟩ := hok
    simp only [port_apply]
    by_cases hfull : (s.mods m).num_locked_ports ≥ (s.mods m).num_ports
    · obtain ⟨e1, e2, e3, e4, e5, e6, e7⟩ := mod_lock_port_wait s m h ev hfull hnw
      refine ⟨?_, e7, e6, ?_, ?_, ?_⟩
      · constructor
        · rw [e1, e2]; exact hinv.len
        · rw [e1, e3]; exact hinv.cnt
        · intro i k hik; rw [e1] at hik; rw [e5]; exact hinv.bound i k hik
        · intro w hw
          rw [e5]
          rw [e4] at hw
          split at hw
          · rcases List.mem_cons.mp hw with h1 | h1
            · rw [h1]; exact hport
            · exact hinv.waiters w h1
          · rcases List.mem_append.mp hw with h1 | h1
            · exact hinv.waiters w h1
            · simp at h1; rw [h1]; exact hport
        · intro _; rw [e3, e2]; omega
        · rw [e4]
          split
          · exact List.nodup_cons.mpr ⟨hnw, hinv.nodup⟩
          · exact List.Nodup.append hinv.nodup (by simp) (by simpa using hnw)
      · intro k _; exact e5 k
      · intro _; exact ⟨by rw [e5]; exact hport, e4⟩
      · intro hlt; omega
    · have hfree : (s.mods m).num_locked_ports < (s.mods m).num_ports := by omega
      obtain ⟨_, h3, e1, e2, e3, e4, e5, e6, e7⟩ :=
        mod_lock_port_free s m h ev hinv.len hinv.cnt hfree
      have hwl : (s.mods m).port_waiting_list = [] := by
        by_contra hne
        have := hinv.full hne
        omega
      refine ⟨?_, e7, e6, ?_, ?_, ?_⟩
      · exact PortInv_bind s _ m h _ hinv.len hinv.cnt hinv.bound hinv.waiters hinv.nodup
          hport hnw (by intro hne; exact absurd hwl hne) h3 e1 e2 e3 e4 e5
      · intro k hk; rw [e5]; simp [hk]
      · intro hge; exact absurd hge hfull
      · intro _; exact ⟨by rw [e5]; simp, e4⟩
  | unlock p h =>
    obtain ⟨s1, f1, f2, f3, f4, f5, f6, f7, heq⟩ := mod_unlock_port_eq s m p h hinv hok
    obtain ⟨hport, hp, hmod⟩ := hok
    have hpl : p < (s.mods m).ports.length := by
      rcases List.getElem?_eq_some.mp hp with ⟨hlt, _⟩
      exact hlt
    have hcnt1 : (s1.mods m).num_locked_ports = ((ports_bound (s1.mods m).ports : Nat) : Int) := by
      have := ports_bound_set_none _ p h hp
      rw [f1, f3, hinv.cnt]; omega
    have hlen1 : (((s1.mods m).ports.length : Nat) : Int) = (s1.mods m).num_ports := by
      rw [f1, f2, List.length_set]; exact hinv.len
    have hbound1 : ∀ i k, (s1.mods m).ports[i]? = some ⟨some k⟩ → (s1.stack_tab k).port = some i := by
      intro i k hik
      rw [f1] at hik
      rw [f5]
      by_cases hip : i = p
      · subst hip
        rw [List.getElem?_set_self hpl] at hik
        simp at hik
      · rw [List.getElem?_set_ne (Ne.symm hip)] at hik
        have hk := hinv.bound i k hik
        have : k ≠ h := by
          intro hkh; subst hkh; rw [hport] at hk
          simp at hk; exact hip hk.symm
        simp [this, hk]
    simp only [port_apply]
    rw [heq]
    cases hwl : (s.mods m).port_waiting_list with
    | nil =>
      simp only []
      rw [hwl] at f4
      refine ⟨?_, f7, f6, ?_, ?_, ?_⟩
      · constructor
        · exact hlen1
        · exact hcnt1
        · exact hbound1
        · intro w hw; rw [f4] at hw; simp at hw
        · intro hne; rw [f4] at hne; simp at hne
        · rw [f4]; simp
      · simp [f4]
      · intro k _; exact f5 k
      · intro w hw; simp at hw
    | cons w rest =>
      simp only []
      rw [hwl] at f4
      simp only [List.tail_cons] at f4
      have hfullold : (s.mods m).num_locked_ports = (s.mods m).num_ports :=
        hinv.full (by rw [hwl]; simp)
      have hnd := hinv.nodup
      rw [hwl] at hnd
      have hwr : w ∉ rest := (List.nodup_cons.mp hnd).1
      have hwport : (s.stack_tab w).port = none := hinv.waiters w (by rw [hwl]; simp)
      have hwh : w ≠ h := by
        intro e; rw [e, hport] at hwport; simp at hwport
      have hfree1 : (s1.mods m).num_locked_ports < (s1.mods m).num_ports := by
        rw [f2, f3]; omega
      obtain ⟨_, h3, e1, e2, e3, e4, e5, e6, e7⟩ :=
        mod_lock_port_free s1 m w (s1.stack_tab w).port_waiting_list_event hlen1 hcnt1 hfree1
      refine ⟨?_, by rw [e7, f7], by intro k; rw [e6, f6], ?_, ?_, ?_⟩
      · refine PortInv_bind s1 _ m w _ hlen1 hcnt1 hbound1 ?_ ?_ ?_ ?_ ?_ h3 e1 e2 e3 e4 e5
        · intro x hx
          rw [f4] at hx
          rw [f5]
          have hxw : (s.stack_tab x).port = none := hinv.waiters x (by rw [hwl]; simp [hx])
          split <;> simp [hxw]
        · rw [f4]; exact (List.nodup_cons.mp hnd).2
        · rw [f5]; simp [hwh, hwport]
        · rw [f4]; exact hwr
        · intro _; rw [f3, f2]; omega
      · simp [e4, f4]
      · intro k hk
        have hkw : k ≠ w := by
          intro e; apply hk; simp [e]
        rw [e5, f5]; simp [hkw]
      · intro x hx
        simp at hx
        subst hx
        rw [e5]; simp

theorem ports_bound_clear (ports : List mod_port_t) (h : ∀ p ∈ ports, p.stack = none) :
    ports_bound ports = 0 := by
  unfold ports_bound
  rw [List.countP_eq_zero]
  intro p hp
  simp [h p hp]

/-- A module with no port bound is in a well-formed port state. -/
theorem ports_clear_inv (s : Sim) (m : Nat) (h0 : ports_clear s m) : PortInv s m := by
  obtain ⟨hlen, hnone, hz, hwl⟩ := h0
  constructor
  · exact hlen
  · rw [hz, ports_bound_clear _ hnone]; rfl
  · intro i h hi
    have hm : (⟨some h⟩ : mod_port_t) ∈ (s.mods m).ports := List.mem_iff_getElem?.mpr ⟨i, hi⟩
    have := hnone _ hm
    simp at this
  · intro w hw; rw [hwl] at hw; simp at hw
  · intro hne; exact absurd hwl hne
  · rw [hwl]; simp

/-- Every state of a run of valid port calls is well formed, and no assertion
failed on the way. -/
theorem PortReach_inv (m : Nat) (s0 s : Sim) (h0 : ports_clear s0 m)
    (hr : PortReach m s0 s) : PortInv s m ∧ s.assert_log = s0.assert_log := by
  induction hr with
  | init => exact ⟨ports_clear_inv s0 m h0, rfl⟩
  | step _ hok ih =>
    obtain ⟨h1, h2, _⟩ := port_apply_effect _ m _ ih.1 hok
    exact ⟨h1, by rw [h2, ih.2]⟩

/-- C9: from a module with no port bound, after any sequence of valid
`mod_lock_port` / `mod_unlock_port` calls, `num_locked_ports` equals the number
of ports whose `stack` field is set and never exceeds `num_ports`; a bound port
and its access point at each other, so no access is bound to two ports (a port
holds one access by construction); whenever `mod_lock_port` then takes its
free-port path the index it finds satisfies `i < num_ports`, and no assertion
of the two functions has failed along the run. -/
theorem port_bound_invariant (m : Nat) (s0 s : Sim) (h0 : ports_clear s0 m)
    (hr : PortReach m s0 s) :
    (s.mods m).num_locked_ports = ((ports_bound (s.mods m).ports : Nat) : Int) ∧
    (s.mods m).num_locked_ports ≤ (s.mods m).num_ports ∧
    (∀ (i h : Nat), (s.mods m).ports[i]? = some (mod_port_t.mk (some h)) →
      (s.stack_tab h).port = some i) ∧
    (∀ (i j h : Nat), (s.mods m).ports[i]? = some (mod_port_t.mk (some h)) →
      (s.mods m).ports[j]? = some (mod_port_t.mk (some h)) → i = j) ∧
    ((s.mods m).num_locked_ports < (s.mods m).num_ports →
      ((port_scan (s.mods m).ports 0 : Nat) : Int) < (s.mods m).num_ports) ∧
    s.assert_log = s0.assert_log := by
  obtain ⟨hinv, hlog⟩ := PortReach_inv m s0 s h0 hr
  refine ⟨hinv.cnt, PortInv_locked_le s m hinv, hinv.bound, ?_, ?_, hlog⟩
  · intro i j h hi hj
    have h1 := hinv.bound i h hi
    have h2 := hinv.bound j h hj
    rw [h1] at h2
    exact Option.some.inj h2
  · intro hfree
    obtain ⟨h1, _⟩ := mod_lock_port_free s m 0 ESIM_EV_NONE hinv.len hinv.cnt hfree
    rw [← hinv.len]
    exact_mod_cast h1

theorem takeWhile_append_of_mem (l : List Nat) (d x : Nat) (hd : d ∈ l) :
    (l ++ [x]).takeWhile (fun y => y != d) = l.takeWhile (fun y => y != d) := by
  induction l with
  | nil => simp at hd
  | cons a rest ih =>
    by_cases had : a = d
    · simp [List.takeWhile, had]
    · have hdr : d ∈ rest := by
        rcases List.mem_cons.mp hd with h | h
        · exact absurd h.symm had
        · exact h
      simp [List.takeWhile, had, ih hdr]

/-- While `d` has not held a port since `s1`, it is still waiting, `u` holds no
port, and `u` does not stand before `d` in the wait queue. -/
theorem PortReachG_inv (m d u : Nat) (s1 s : Sim) (g : Bool)
    (hinv : PortInv s1 m)
    (hd : d ∈ (s1.mods m).port_waiting_list)
    (hu : u ∉ (s1.mods m).port_waiting_list)
    (hup : (s1.stack_tab u).port = none)
    (hdir_u : (s1.stack_tab u).request_dir ≠ mod_request_down_up)
    (hr : PortReachG m d s1 s g) :
    PortInv s m ∧ (s.stack_tab u).request_dir ≠ mod_request_down_up ∧
    (g = false → d ∈ (s.mods m).port_waiting_list ∧ (s.stack_tab u).port = none ∧
      u ∉ (s.mods m).port_waiting_list.takeWhile (fun y => y != d)) := by
  induction hr with
  | init =>
    refine ⟨hinv, hdir_u, fun _ => ⟨hd, hup, ?_⟩⟩
    intro hmem
    exact hu ((List.takeWhile_prefix _).subset hmem)
  | @step s g op _ hok ih =>
    obtain ⟨ihinv, ihdir, ihg⟩ := ih
    obtain ⟨h1, _, h3, h4⟩ := port_apply_effect s m op ihinv hok
    refine ⟨h1, by rw [h3]; exact ihdir, ?_⟩
    intro hg'
    have hgf : g = false := by
      cases g <;> simp_all
    have hdn : ((port_apply s m op).stack_tab d).port = none := by
      rw [hgf] at hg'
      simp at hg'
      exact hg'
    obtain ⟨hdw, hupn, horder⟩ := ihg hgf
    have hne : (s.mods m).port_waiting_list ≠ [] := by
      intro e; rw [e] at hdw; simp at hdw
    have hfull := ihinv.full hne
    cases op with
    | lock h ev =>
      obtain ⟨hport, hnw⟩ := hok
      simp only at h4
      obtain ⟨k1, k2, _⟩ := h4
      obtain ⟨_, hwl'⟩ := k2 (by omega)
      have hhd : h ≠ d := by intro e; rw [e] at hnw; exact hnw hdw
      refine ⟨?_, ?_, ?_⟩
      · rw [hwl']; split
        · exact List.mem_cons_of_mem _ hdw
        · exact List.mem_append_left _ hdw
      · by_cases huh : u = h
        · rw [huh]; exact (k2 (by omega)).1
        · rw [k1 u huh]; exact hupn
      · rw [hwl']
        split
        · rename_i hdu
          have huh : u ≠ h := by
            intro e; rw [e] at ihdir; exact ihdir hdu
          rw [List.takeWhile_cons]
          simp only [bne_iff_ne, ne_eq, hhd, not_false_eq_true, decide_True, if_true]
          intro hmem
          rcases List.mem_cons.mp hmem with e | e
          · exact huh e
          · exact horder e
        · rw [takeWhile_append_of_mem _ d h hdw]; exact horder
    | unlock p h =>
      obtain ⟨hport, hp, hmod⟩ := hok
      simp only at h4
      obtain ⟨k1, k2, k3⟩ := h4
      cases hwl : (s.mods m).port_waiting_list with
      | nil => exact absurd hwl hne
      | cons w rest =>
        have hwd : w ≠ d := by
          intro e
          have := k3 w (by rw [hwl]; rfl)
          rw [e, hdn] at this
          simp at this
        rw [hwl] at horder hdw k1
        have htw : (w :: rest).takeWhile (fun y => y != d) =
            w :: rest.takeWhile (fun y => y != d) := by
          rw [List.takeWhile_cons]
          simp [hwd]
        rw [htw] at horder
        have huw : u ≠ w := by
          intro e; apply horder; rw [e]; exact List.mem_cons_self _ _
        refine ⟨?_, ?_, ?_⟩
        · rw [k1]
          rcases List.mem_cons.mp hdw with e | e
          · exact absurd e.symm hwd
          · exact e
        · rw [k2 u (by rw [hwl]; simp; exact fun e => huw e.symm)]
          split
          · rfl
          · exact hupn
        · rw [k1]
          intro hmem
          exact horder (List.mem_cons_of_mem _ hmem)

/-- C10: when no port is free, `mod_lock_port` puts a down-up access at the head
of the port wait queue and any other access at its tail; consequently, in any
run of valid port calls from a state `s1` in which the down-up access `d`
waits and the access `u` (not down-up) neither waits nor holds a port, `u`
holds a port only after `d` has held one: `d` is granted before every up-down
access enqueued after it. -/
theorem port_priority (m d u : Nat) (s0 s1 s : Sim) (g : Bool)
    (h0 : ports_clear s0 m) (hr1 : PortReach m s0 s1)
    (hd : d ∈ (s1.mods m).port_waiting_list)
    (_hdir_d : (s1.stack_tab d).request_dir = mod_request_down_up)
    (hu : u ∉ (s1.mods m).port_waiting_list)
    (hup : (s1.stack_tab u).port = none)
    (hdir_u : (s1.stack_tab u).request_dir ≠ mod_request_down_up)
    (hr : PortReachG m d s1 s g) :
    (∀ (t : Sim) (h : Nat) (event : Ev),
      (t.mods m).num_locked_ports ≥ (t.mods m).num_ports →
      ((mod_lock_port t m h event).mods m).port_waiting_list =
        (if (t.stack_tab h).request_dir = mod_request_down_up
         then h :: (t.mods m).port_waiting_list
         else (t.mods m).port_waiting_list ++ [h])) ∧
    ((s.stack_tab u).port.isSome → g = true) := by
  constructor
  · intro t h event hfull
    unfold mod_lock_port
    simp only [hfull, if_true]
    simp [Sim.setMod, Sim.setStack]
  · intro hsome
    obtain ⟨hinv1, _⟩ := PortReach_inv m s0 s1 h0 hr1
    obtain ⟨_, _, hg⟩ := PortReachG_inv m d u s1 s g hinv1 hd hu hup hdir_u hr
    cases g with
    | true => rfl
    | false =>
      obtain ⟨_, hnone, _⟩ := hg rfl
      rw [hnone] at hsome
      simp at hsome

theorem port_demo1_reach : PortReach 0 port_demo0 port_demo1 :=
  PortReach.step (PortReach.step (PortReach.step PortReach.init
    (by unfold port_op_ok; decide)) (by unfold port_op_ok; decide))
    (by unfold port_op_ok; decide)

theorem port_bound_invariant_witness :
    ports_clear port_demo0 0 ∧ PortReach 0 port_demo0 port_demo1 ∧
    (port_demo1.mods 0).num_locked_ports = ((ports_bound (port_demo1.mods 0).ports : Nat) : Int) ∧
    (port_demo1.mods 0).num_locked_ports ≤ (port_demo1.mods 0).num_ports :=
  ⟨by unfold ports_clear; decide, port_demo1_reach,
   (port_bound_invariant 0 port_demo0 port_demo1 (by unfold ports_clear; decide)
      port_demo1_reach).1,
   (port_bound_invariant 0 port_demo0 port_demo1 (by unfold ports_clear; decide)
      port_demo1_reach).2.1⟩

theorem port_demo2_reach : PortReachG 0 7 port_demo1 port_demo2 true :=
  PortReachG.step (PortReachG.step (PortReachG.step PortReachG.init
    (by unfold port_op_ok; decide)) (by unfold port_op_ok; decide))
    (by unfold port_op_ok; decide)

theorem port_priority_witness :
    ports_clear port_demo0 0 ∧ PortReach 0 port_demo0 port_demo1 ∧
    7 ∈ (port_demo1.mods 0).port_waiting_list ∧
    (port_demo1.stack_tab 7).request_dir = mod_request_down_up ∧
    3 ∉ (port_demo1.mods 0).port_waiting_list ∧
    (port_demo1.stack_tab 3).port = none ∧
    (port_demo1.stack_tab 3).request_dir ≠ mod_request_down_up ∧
    PortReachG 0 7 port_demo1 port_demo2 true ∧
    (port_demo2.stack_tab 3).port.isSome ∧
    ((port_demo2.stack_tab 3).port.isSome → true = true) :=
  ⟨by unfold ports_clear; decide, port_demo1_reach, by decide, by decide, by decide,
   by decide, by decide, port_demo2_reach, by decide,
   (port_priority 0 7 3 port_demo0 port_demo1 port_demo2 true
      (by unfold ports_clear; decide) port_demo1_reach (by decide) (by decide) (by decide)
      (by decide) (by decide) port_demo2_reach).2⟩

/-! ## Frame lemmas for single protocol steps -/

/-! ### Frame lemmas: what each primitive leaves untouched -/

@[simp] theorem log_mods (s : Sim) (e : Ev) (h : Nat) : (s.log e h).mods = s.mods := rfl
@[simp] theorem log_stack_tab (s : Sim) (e : Ev) (h : Nat) : (s.log e h).stack_tab = s.stack_tab := rfl
@[simp] theorem log_set_reply (s : Sim) (e : Ev) (h : Nat) : (s.log e h).set_reply = s.set_reply := rfl
@[simp] theorem log_events (s : Sim) (e : Ev) (h : Nat) : (s.log e h).events = s.events := rfl
@[simp] theorem log_esim_time (s : Sim) (e : Ev) (h : Nat) : (s.log e h).esim_time = s.esim_time := rfl
@[simp] theorem log_next_stack (s : Sim) (e : Ev) (h : Nat) : (s.log e h).next_stack = s.next_stack := rfl
@[simp] theorem log_fatal (s : Sim) (e : Ev) (h : Nat) : (s.log e h).fatal = s.fatal := rfl

@[simp] theorem stop_mods (s : Sim) : s.stop.mods = s.mods := rfl
@[simp] theorem stop_stack_tab (s : Sim) : s.stop.stack_tab = s.stack_tab := rfl
@[simp] theorem stop_set_reply (s : Sim) : s.stop.set_reply = s.set_reply := rfl
@[simp] theorem stop_events (s : Sim) : s.stop.events = s.events := rfl

@[simp] theorem schedule_mods (s : Sim) (e : Ev) (h d : Nat) :
    (esim_schedule_event s e h d).mods = s.mods := rfl
@[simp] theorem schedule_stack_tab (s : Sim) (e : Ev) (h d : Nat) :
    (esim_schedule_event s e h d).stack_tab = s.stack_tab := rfl
@[simp] theorem schedule_events (s : Sim) (e : Ev) (h d : Nat) :
    (esim_schedule_event s e h d).events = insert_event (s.esim_time + d) e h s.events := rfl
@[simp] theorem schedule_next_stack (s : Sim) (e : Ev) (h d : Nat) :
    (esim_schedule_event s e h d).next_stack = s.next_stack := rfl
@[simp] theorem schedule_fatal (s : Sim) (e : Ev) (h d : Nat) :
    (esim_schedule_event s e h d).fatal = s.fatal := rfl

@[simp] theorem setStack_mods (s : Sim) (h : Nat) (st : mod_stack_t) :
    (s.setStack h st).mods = s.mods := rfl
@[simp] theorem setStack_set_reply (s : Sim) (h : Nat) (st : mod_stack_t) :
    (s.setStack h st).set_reply = s.set_reply := rfl
@[simp] theorem setStack_events (s : Sim) (h : Nat) (st : mod_stack_t) :
    (s.setStack h st).events = s.events := rfl
@[simp] theorem setStack_esim_time (s : Sim) (h : Nat) (st : mod_stack_t) :
    (s.setStack h st).esim_time = s.esim_time := rfl
@[simp] theorem setStack_next_stack (s : Sim) (h : Nat) (st : mod_stack_t) :
    (s.setStack h st).next_stack = s.next_stack := rfl
@[simp] theorem setStack_fatal (s : Sim) (h : Nat) (st : mod_stack_t) :
    (s.setStack h st).fatal = s.fatal := rfl
theorem setStack_stack_tab (s : Sim) (h k : Nat) (st : mod_stack_t) :
    (s.setStack h st).stack_tab k = if k = h then st else s.stack_tab k := rfl

@[simp] theorem modStack_mods (s : Sim) (h : Nat) (f : mod_stack_t → mod_stack_t) :
    (s.modStack h f).mods = s.mods := rfl
@[simp] theorem modStack_set_reply (s : Sim) (h : Nat) (f : mod_stack_t → mod_stack_t) :
    (s.modStack h f).set_reply = s.set_reply := rfl
@[simp] theorem modStack_events (s : Sim) (h : Nat) (f : mod_stack_t → mod_stack_t) :
    (s.modStack h f).events = s.events := rfl
@[simp] theorem modStack_esim_time (s : Sim) (h : Nat) (f : mod_stack_t → mod_stack_t) :
    (s.modStack h f).esim_time = s.esim_time := rfl
@[simp] theorem modStack_next_stack (s : Sim) (h : Nat) (f : mod_stack_t → mod_stack_t) :
    (s.modStack h f).next_stack = s.next_stack := rfl
@[simp] theorem modStack_fatal (s : Sim) (h : Nat) (f : mod_stack_t → mod_stack_t) :
    (s.modStack h f).fatal = s.fatal := rfl
theorem modStack_stack_tab (s : Sim) (h k : Nat) (f : mod_stack_t → mod_stack_t) :
    (s.modStack h f).stack_tab k = if k = h then f (s.stack_tab h) else s.stack_tab k := rfl

@[simp] theorem modRet_mods (s : Sim) (h : Nat) (f : mod_stack_t → mod_stack_t) :
    (s.modRet h f).mods = s.mods := by
  unfold Sim.modRet; split <;> rfl
@[simp] theorem modRet_set_reply (s : Sim) (h : Nat) (f : mod_stack_t → mod_stack_t) :
    (s.modRet h f).set_reply = s.set_reply := by
  unfold Sim.modRet; split <;> rfl
@[simp] theorem modRet_events (s : Sim) (h : Nat) (f : mod_stack_t → mod_stack_t) :
    (s.modRet h f).events = s.events := by
  unfold Sim.modRet; split <;> rfl
@[simp] theorem modRet_esim_time (s : Sim) (h : Nat) (f : mod_stack_t → mod_stack_t) :
    (s.modRet h f).esim_time = s.esim_time := by
  unfold Sim.modRet; split <;> rfl
theorem modRet_stack_tab (s : Sim) (h k : Nat) (f : mod_stack_t → mod_stack_t) :
    (s.modRet h f).stack_tab k =
      if (s.stack_tab h).ret_stack = some k then f (s.stack_tab k) else s.stack_tab k := by
  unfold Sim.modRet
  cases hr : (s.stack_tab h).ret_stack with
  | none => simp
  | some r =>
    simp only [modStack_stack_tab, Option.some.injEq]
    by_cases hk : k = r
    · subst hk; simp
    · have : ¬ r = k := fun e => hk e.symm
      simp [hk, this]

@[simp] theorem set_reply_mods (s : Sim) (h : Nat) (r : mod_reply_type_t) :
    (mod_stack_set_reply s h r).mods = s.mods := rfl
@[simp] theorem set_reply_set_reply (s : Sim) (h : Nat) (r : mod_reply_type_t) :
    (mod_stack_set_reply s h r).set_reply = s.set_reply := rfl
@[simp] theorem set_reply_events (s : Sim) (h : Nat) (r : mod_reply_type_t) :
    (mod_stack_set_reply s h r).events = s.events := rfl
@[simp] theorem set_reply_esim_time (s : Sim) (h : Nat) (r : mod_reply_type_t) :
    (mod_stack_set_reply s h r).esim_time = s.esim_time := rfl
theorem set_reply_stack_tab (s : Sim) (h k : Nat) (r : mod_reply_type_t) :
    (mod_stack_set_reply s h r).stack_tab k =
      if k = h then { s.stack_tab h with reply := s.set_reply (s.stack_tab h).reply r }
      else s.stack_tab k := rfl

@[simp] theorem cache_set_block_stack_tab (s : Sim) (m : Nat) (set way tag : Int)
    (st : cache_block_state_t) : (cache_set_block s m set way tag st).stack_tab = s.stack_tab := rfl
@[simp] theorem cache_set_block_set_reply (s : Sim) (m : Nat) (set way tag : Int)
    (st : cache_block_state_t) : (cache_set_block s m set way tag st).set_reply = s.set_reply := rfl
@[simp] theorem cache_set_block_events (s : Sim) (m : Nat) (set way tag : Int)
    (st : cache_block_state_t) : (cache_set_block s m set way tag st).events = s.events := rfl
@[simp] theorem cache_set_block_esim_time (s : Sim) (m : Nat) (set way tag : Int)
    (st : cache_block_state_t) : (cache_set_block s m set way tag st).esim_time = s.esim_time := rfl
@[simp] theorem cache_set_block_next_stack (s : Sim) (m : Nat) (set way tag : Int)
    (st : cache_block_state_t) : (cache_set_block s m set way tag st).next_stack = s.next_stack := rfl
@[simp] theorem cache_set_block_fatal (s : Sim) (m : Nat) (set way tag : Int)
    (st : cache_block_state_t) : (cache_set_block s m set way tag st).fatal = s.fatal := rfl

/-- Blocks after `cache_set_block`: only the addressed entry of the addressed
module changes, and it gets the given tag and state. -/
theorem cache_set_block_blocks (s : Sim) (m m' : Nat) (set way tag a b : Int)
    (st : cache_block_state_t) :
    ((cache_set_block s m set way tag st).mods m').cache.blocks a b =
      if m' = m ∧ a = set ∧ b = way then
        { (s.mods m).cache.blocks set way with tag := tag, state := st }
      else (s.mods m').cache.blocks a b := by
  unfold cache_set_block Sim.setCache Sim.setMod upd upd2
  by_cases hm : m' = m
  · subst hm
    by_cases hab : a = set ∧ b = way
    · simp [hab]
    · simp [hab]
  · simp [hm]

@[simp] theorem cache_set_block_block_size (s : Sim) (m m' : Nat) (set way tag : Int)
    (st : cache_block_state_t) :
    ((cache_set_block s m set way tag st).mods m').block_size = (s.mods m').block_size := by
  unfold cache_set_block Sim.setCache Sim.setMod upd
  by_cases hm : m' = m
  · subst hm; simp
  · simp [hm]

@[simp] theorem cache_set_block_latency (s : Sim) (m m' : Nat) (set way tag : Int)
    (st : cache_block_state_t) :
    ((cache_set_block s m set way tag st).mods m').latency = (s.mods m').latency := by
  unfold cache_set_block Sim.setCache Sim.setMod upd
  by_cases hm : m' = m
  · subst hm; simp
  · simp [hm]

@[simp] theorem cache_entry_unlock_stack_tab (s : Sim) (m : Nat) (set way : Int) :
    (cache_entry_unlock s m set way).stack_tab = s.stack_tab := by
  unfold cache_entry_unlock
  simp only []
  split <;> rfl

@[simp] theorem cache_entry_unlock_set_reply (s : Sim) (m : Nat) (set way : Int) :
    (cache_entry_unlock s m set way).set_reply = s.set_reply := by
  unfold cache_entry_unlock
  simp only []
  split <;> rfl

@[simp] theorem cache_entry_unlock_esim_time (s : Sim) (m : Nat) (set way : Int) :
    (cache_entry_unlock s m set way).esim_time = s.esim_time := by
  unfold cache_entry_unlock
  simp only []
  split <;> rfl

@[simp] theorem cache_entry_unlock_next_stack (s : Sim) (m : Nat) (set way : Int) :
    (cache_entry_unlock s m set way).next_stack = s.next_stack := by
  unfold cache_entry_unlock
  simp only []
  split <;> rfl

@[simp] theorem cache_entry_unlock_fatal (s : Sim) (m : Nat) (set way : Int) :
    (cache_entry_unlock s m set way).fatal = s.fatal := by
  unfold cache_entry_unlock
  simp only []
  split <;> rfl

/-- `cache_entry_unlock` changes no block. -/
@[simp] theorem cache_entry_unlock_blocks (s : Sim) (m m' : Nat) (set way : Int) :
    ((cache_entry_unlock s m set way).mods m').cache.blocks = (s.mods m').cache.blocks := by
  unfold cache_entry_unlock Sim.setLock Sim.setCache Sim.setMod cache_lock_get upd
  simp only []
  split <;> (by_cases hm : m' = m <;> simp [hm, esim_schedule_event])

@[simp] theorem cache_entry_unlock_block_size (s : Sim) (m m' : Nat) (set way : Int) :
    ((cache_entry_unlock s m set way).mods m').block_size = (s.mods m').block_size := by
  unfold cache_entry_unlock Sim.setLock Sim.setCache Sim.setMod cache_lock_get upd
  simp only []
  split <;> (by_cases hm : m' = m <;> simp [hm, esim_schedule_event])

@[simp] theorem cache_entry_unlock_latency (s : Sim) (m m' : Nat) (set way : Int) :
    ((cache_entry_unlock s m set way).mods m').latency = (s.mods m').latency := by
  unfold cache_entry_unlock Sim.setLock Sim.setCache Sim.setMod cache_lock_get upd
  simp only []
  split <;> (by_cases hm : m' = m <;> simp [hm, esim_schedule_event])


theorem state_cases (x : cache_block_state_t) :
    x = cache_block_invalid ∨ x = cache_block_noncoherent ∨ x = cache_block_modified ∨
    x = cache_block_owned ∨ x = cache_block_exclusive ∨ x = cache_block_shared := by
  cases x <;> simp

/-- C2: when `EV_MOD_NMOESI_READ_REQUEST_DOWNUP_FINISH` runs at the probed module
`t` on a line whose state is the one FindAndLock recorded, the line ends in
`downup_read_response` of that state (Modified and Owned to Owned, Exclusive
and Shared to Shared, NonCoherent and Invalid unchanged); the result is never
Modified nor Exclusive and is an allowed demotion; the reply size is
`block_size + 8` with `reply_ack_data` merged into the reply exactly when the
prior state was not Invalid, and `8` with `reply_ack` otherwise. -/
theorem read_request_downup_finish_response (s : Sim) (h t : Nat)
    (ht : (s.stack_tab h).target_mod = some t)
    (hline : ((s.mods t).cache.blocks (s.stack_tab h).set (s.stack_tab h).way).state =
      (s.stack_tab h).state) :
    ((((ev_mod_nmoesi_read_request_downup_finish s h).mods t).cache.blocks
        (s.stack_tab h).set (s.stack_tab h).way).state =
      downup_read_response (s.stack_tab h).state) ∧
    downup_read_response (s.stack_tab h).state ≠ cache_block_modified ∧
    downup_read_response (s.stack_tab h).state ≠ cache_block_exclusive ∧
    demotion_allowed (s.stack_tab h).state (downup_read_response (s.stack_tab h).state) ∧
    ((ev_mod_nmoesi_read_request_downup_finish s h).stack_tab h).reply_size =
      (if (s.stack_tab h).state ≠ cache_block_invalid
       then ((s.mods t).block_size : Int) + 8 else 8) ∧
    ((ev_mod_nmoesi_read_request_downup_finish s h).stack_tab h).reply =
      s.set_reply (s.stack_tab h).reply
        (if (s.stack_tab h).state ≠ cache_block_invalid then reply_ack_data else reply_ack) := by
  refine ⟨?_, ?_, ?_, ?_, ?_, ?_⟩
  · unfold ev_mod_nmoesi_read_request_downup_finish
    simp only [log_stack_tab, ht]
    rcases state_cases (s.stack_tab h).state with hst | hst | hst | hst | hst | hst <;>
      simp [hst, read_request_downup_next_state, downup_read_response, cache_set_block_blocks]
    rw [hline, hst]
  · cases (s.stack_tab h).state <;> simp [downup_read_response]
  · cases (s.stack_tab h).state <;> simp [downup_read_response]
  · cases (s.stack_tab h).state <;> simp [downup_read_response, demotion_allowed]
  · unfold ev_mod_nmoesi_read_request_downup_finish
    simp only [log_stack_tab, ht]
    rcases state_cases (s.stack_tab h).state with hst | hst | hst | hst | hst | hst <;>
      simp [hst, read_request_downup_next_state, modRet_stack_tab, modStack_stack_tab,
        set_reply_stack_tab] <;>
      split <;> simp
  · unfold ev_mod_nmoesi_read_request_downup_finish
    simp only [log_stack_tab, ht]
    rcases state_cases (s.stack_tab h).state with hst | hst | hst | hst | hst | hst <;>
      simp [hst, read_request_downup_next_state, modRet_stack_tab, modStack_stack_tab,
        set_reply_stack_tab] <;>
      split <;> simp

/-- The probed module of `probe_demo` held the line Modified: it ends Owned and
answers with 72 bytes. -/
theorem read_request_downup_finish_response_witness :
    (((ev_mod_nmoesi_read_request_downup_finish probe_demo 50).mods 0).cache.blocks 1 0).state =
      cache_block_owned ∧
    ((ev_mod_nmoesi_read_request_downup_finish probe_demo 50).stack_tab 50).reply_size = 72 :=
  ⟨(read_request_downup_finish_response probe_demo 50 0 rfl rfl).1,
   (read_request_downup_finish_response probe_demo 50 0 rfl rfl).2.2.2.2.1⟩

/-- C3: after `EV_MOD_NMOESI_WRITE_REQUEST_DOWNUP` and
`EV_MOD_NMOESI_WRITE_REQUEST_DOWNUP_FINISH` run at the probed module `t` on a
line whose state is the one FindAndLock recorded, the line is Invalid whatever
that state was; the reply size is `block_size + 8` and `reply_ack_data` is
merged into the requester's reply exactly when the prior state was Modified,
Owned or NonCoherent, and the reply is an 8-byte `reply_ack` otherwise. -/
theorem write_request_downup_response (s : Sim) (h t r : Nat)
    (ht : (s.stack_tab h).target_mod = some t)
    (hr : (s.stack_tab h).ret_stack = some r)
    (hline : ((s.mods t).cache.blocks (s.stack_tab h).set (s.stack_tab h).way).state =
      (s.stack_tab h).state) :
    (((ev_mod_nmoesi_write_request_downup_finish
          (ev_mod_nmoesi_write_request_downup s h) h).mods t).cache.blocks
        (s.stack_tab h).set (s.stack_tab h).way).state = cache_block_invalid ∧
    ((ev_mod_nmoesi_write_request_downup_finish
          (ev_mod_nmoesi_write_request_downup s h) h).stack_tab h).reply_size =
      (if (s.stack_tab h).state = cache_block_modified ∨ (s.stack_tab h).state = cache_block_owned ∨
          (s.stack_tab h).state = cache_block_noncoherent
       then ((s.mods t).block_size : Int) + 8 else 8) ∧
    ((ev_mod_nmoesi_write_request_downup_finish
          (ev_mod_nmoesi_write_request_downup s h) h).stack_tab r).reply =
      s.set_reply (s.stack_tab r).reply
        (if (s.stack_tab h).state = cache_block_modified ∨ (s.stack_tab h).state = cache_block_owned ∨
            (s.stack_tab h).state = cache_block_noncoherent
         then reply_ack_data else reply_ack) := by
  unfold ev_mod_nmoesi_write_request_downup_finish ev_mod_nmoesi_write_request_downup
  simp only [log_stack_tab, ht, hr]
  by_cases hrh : r = h
  · subst hrh
    rcases state_cases (s.stack_tab r).state with hst | hst | hst | hst | hst | hst <;>
      simp [hst, modStack_stack_tab, set_reply_stack_tab, ht, hr, cache_set_block_blocks]
    rw [hline, hst]
  · have hhr : ¬ h = r := fun e => hrh e.symm
    rcases state_cases (s.stack_tab h).state with hst | hst | hst | hst | hst | hst <;>
      simp [hst, modStack_stack_tab, set_reply_stack_tab, ht, hr, cache_set_block_blocks, hrh,
        hhr]
    rw [hline, hst]

/-- The probed module of `probe_demo` held the line Modified: it ends Invalid
and answers with 72 bytes. -/
theorem write_request_downup_response_witness :
    (((ev_mod_nmoesi_write_request_downup_finish
        (ev_mod_nmoesi_write_request_downup probe_demo 50) 50).mods 0).cache.blocks 1 0).state =
      cache_block_invalid ∧
    ((ev_mod_nmoesi_write_request_downup_finish
        (ev_mod_nmoesi_write_request_downup probe_demo 50) 50).stack_tab 50).reply_size = 72 :=
  ⟨(write_request_downup_response probe_demo 50 0 51 rfl rfl rfl).1,
   (write_request_downup_response probe_demo 50 0 51 rfl rfl rfl).2.1⟩

theorem insert_event_inj (t : Nat) (e1 e2 : Ev) (h1 h2 : Nat) (l : List (Nat × Ev × Nat))
    (h : insert_event t e1 h1 l = insert_event t e2 h2 l) : e1 = e2 ∧ h1 = h2 := by
  induction l with
  | nil =>
    simp [insert_event] at h
    exact h
  | cons a rest ih =>
    unfold insert_event at h
    by_cases hle : a.1 ≤ t
    · simp [hle] at h
      exact ih h
    · simp [hle] at h
      exact h

@[simp] theorem check_after_install_mods (s : Sim) (m : Nat) (tag : Int)
    (st : cache_block_state_t) : (check_after_install s m tag st).mods = s.mods := by
  unfold check_after_install
  split
  · rfl
  · dsimp only
    split <;> rfl

@[simp] theorem check_after_install_stack_tab (s : Sim) (m : Nat) (tag : Int)
    (st : cache_block_state_t) : (check_after_install s m tag st).stack_tab = s.stack_tab := by
  unfold check_after_install
  split
  · rfl
  · dsimp only
    split <;> rfl

@[simp] theorem retry_latency_mods (s : Sim) (m : Nat) :
    (mod_get_retry_latency s m).2.mods = s.mods := rfl

@[simp] theorem create_mods (s : Sim) (id : Int) (m addr : Nat) (e : Ev) (r : Option Nat) :
    (mod_stack_create s id m addr e r).2.mods = s.mods := rfl
@[simp] theorem create_fst (s : Sim) (id : Int) (m addr : Nat) (e : Ev) (r : Option Nat) :
    (mod_stack_create s id m addr e r).1 = s.next_stack := rfl
@[simp] theorem create_events (s : Sim) (id : Int) (m addr : Nat) (e : Ev) (r : Option Nat) :
    (mod_stack_create s id m addr e r).2.events = s.events := rfl
@[simp] theorem create_esim_time (s : Sim) (id : Int) (m addr : Nat) (e : Ev) (r : Option Nat) :
    (mod_stack_create s id m addr e r).2.esim_time = s.esim_time := rfl
@[simp] theorem create_next_stack (s : Sim) (id : Int) (m addr : Nat) (e : Ev) (r : Option Nat) :
    (mod_stack_create s id m addr e r).2.next_stack = s.next_stack + 1 := rfl
theorem create_stack_tab (s : Sim) (id : Int) (m addr k : Nat) (e : Ev) (r : Option Nat) :
    (mod_stack_create s id m addr e r).2.stack_tab k =
      if k = s.next_stack then
        { mod_stack_zero with id := id, mod := m, addr := addr, ret_event := e, ret_stack := r,
                              way := -1, set := -1, tag := -1 }
      else s.stack_tab k := rfl

theorem mod_get_low_mod_congr (s s' : Sim) (m addr : Nat) (hm : s'.mods = s.mods) :
    mod_get_low_mod s' m addr = mod_get_low_mod s m addr := by
  have hl : ∀ (l : List Nat) (acc : Option Nat),
      mod_get_low_mod_loop s' addr l acc = mod_get_low_mod_loop s addr l acc := by
    intro l
    induction l with
    | nil => intro acc; rfl
    | cons a rest ih =>
      intro acc
      show (match mod_serves_address (s'.mods a) addr with
        | none => none
        | some false => mod_get_low_mod_loop s' addr rest acc
        | some true =>
          match acc with
          | some _ => none
          | none => mod_get_low_mod_loop s' addr rest (some a)) =
        (match mod_serves_address (s.mods a) addr with
        | none => none
        | some false => mod_get_low_mod_loop s addr rest acc
        | some true =>
          match acc with
          | some _ => none
          | none => mod_get_low_mod_loop s addr rest (some a))
      rw [hm]
      cases mod_serves_address (s.mods a) addr with
      | none => rfl
      | some b =>
        cases b with
        | false => exact ih acc
        | true =>
          cases acc with
          | some _ => rfl
          | none => exact ih _
  unfold mod_get_low_mod
  simp only [hm, hl]

/-- C5: in `EV_MOD_NMOESI_STORE_ACTION` with no lock error, a write request
(a new stack with `request_dir = mod_request_up_down` whose target is the lower
module, scheduled on `EV_MOD_NMOESI_WRITE_REQUEST`) is issued if and only if
the state found by FindAndLock is neither Modified nor Exclusive; an
`EV_MOD_NMOESI_STORE_UNLOCK` that runs without error leaves the access's
(set, way) holding the access's tag in state Modified; and a Store that found
the line Exclusive only schedules `EV_MOD_NMOESI_STORE_UNLOCK`, creates no
stack, sends nothing, and its line is Modified after that event. -/
theorem store_hit_rule (s : Sim) (h t : Nat)
    (herr : (s.stack_tab h).err = false)
    (hlow : mod_get_low_mod s (s.stack_tab h).mod (toU32 (s.stack_tab h).tag) = low_mod_t.server t) :
    ((∃ k, (ev_mod_nmoesi_store_action s h).events =
            insert_event s.esim_time EV_MOD_NMOESI_WRITE_REQUEST k s.events ∧
          ((ev_mod_nmoesi_store_action s h).stack_tab k).request_dir = mod_request_up_down ∧
          ((ev_mod_nmoesi_store_action s h).stack_tab k).target_mod = some t) ↔
      ¬ ((s.stack_tab h).state = cache_block_modified ∨
         (s.stack_tab h).state = cache_block_exclusive)) ∧
    (((ev_mod_nmoesi_store_unlock s h).mods (s.stack_tab h).mod).cache.blocks
        (s.stack_tab h).set (s.stack_tab h).way).tag = (s.stack_tab h).tag ∧
    (((ev_mod_nmoesi_store_unlock s h).mods (s.stack_tab h).mod).cache.blocks
        (s.stack_tab h).set (s.stack_tab h).way).state = cache_block_modified ∧
    ((s.stack_tab h).state = cache_block_exclusive →
      (ev_mod_nmoesi_store_action s h).events =
        insert_event s.esim_time EV_MOD_NMOESI_STORE_UNLOCK h s.events ∧
      (ev_mod_nmoesi_store_action s h).next_stack = s.next_stack ∧
      (ev_mod_nmoesi_store_action s h).net_log = s.net_log ∧
      (((ev_mod_nmoesi_store_unlock (ev_mod_nmoesi_store_action s h) h).mods
          (s.stack_tab h).mod).cache.blocks (s.stack_tab h).set (s.stack_tab h).way).state =
        cache_block_modified) := by
  refine ⟨?_, ?_, ?_, ?_⟩
  · by_cases hme : (s.stack_tab h).state = cache_block_modified ∨
        (s.stack_tab h).state = cache_block_exclusive
    · simp only [hme, not_true_eq_false, iff_false, not_exists]
      intro k hk
      unfold ev_mod_nmoesi_store_action at hk
      simp [herr, hme] at hk
      have := insert_event_inj _ _ _ _ _ _ hk.1
      simp at this
    · simp only [hme, not_false_eq_true, iff_true]
      refine ⟨s.next_stack, ?_⟩
      unfold ev_mod_nmoesi_store_action
      simp only [log_stack_tab, herr, hme, if_false, Bool.false_eq_true]
      have hc := mod_get_low_mod_congr s (mod_stack_create (s.log EV_MOD_NMOESI_STORE_ACTION h)
        (s.stack_tab h).id (s.stack_tab h).mod (toU32 (s.stack_tab h).tag)
        EV_MOD_NMOESI_STORE_UNLOCK (some h)).2 (s.stack_tab h).mod (toU32 (s.stack_tab h).tag) rfl
      rw [hc, hlow]
      simp [modStack_stack_tab]
  · unfold ev_mod_nmoesi_store_unlock
    simp only [log_stack_tab, herr, if_false, Bool.false_eq_true]
    split <;> simp [cache_set_block_blocks]
  · unfold ev_mod_nmoesi_store_unlock
    simp only [log_stack_tab, herr, if_false, Bool.false_eq_true]
    split <;> simp [cache_set_block_blocks]
  · intro hE
    have hact : ev_mod_nmoesi_store_action s h =
        esim_schedule_event (s.log EV_MOD_NMOESI_STORE_ACTION h) EV_MOD_NMOESI_STORE_UNLOCK h 0 := by
      unfold ev_mod_nmoesi_store_action
      simp [herr, hE]
    rw [hact]
    refine ⟨by simp, by simp, rfl, ?_⟩
    unfold ev_mod_nmoesi_store_unlock
    simp only [log_stack_tab, schedule_stack_tab, herr, if_false, Bool.false_eq_true]
    split <;> simp [cache_set_block_blocks]

/-- The Store of `store_demo` found its line Exclusive: no write request, and
the line is Modified after `EV_MOD_NMOESI_STORE_UNLOCK`. -/
theorem store_hit_rule_witness :
    (ev_mod_nmoesi_store_action store_demo 60).next_stack = store_demo.next_stack ∧
    (((ev_mod_nmoesi_store_unlock (ev_mod_nmoesi_store_action store_demo 60) 60).mods
        0).cache.blocks 1 0).state = cache_block_modified :=
  ⟨((store_hit_rule store_demo 60 1 rfl rfl).2.2.2 rfl).2.1,
   ((store_hit_rule store_demo 60 1 rfl rfl).2.2.2 rfl).2.2.2⟩

/-- C7: Scenario 3 on the two-core hierarchy, for every value an uninitialised
local may have.  For the addresses of `scenario3_addrs` and either assignment
of the roles, the premises hold, the Load retires, the module that held the
line Modified ends Owned, the Load's stack has `shared` set and the requester
holds the line Shared.  For address 4294967295, in the last block of the
32-bit space, the premises hold and the other module ends Owned as well, but
`stack->addr + mod->block_size` wraps to 0 in `READ_REQUEST_UPDOWN_FINISH`, so
`shared` is not reported: the requester installs the line Exclusive and the
run stops with `fatal`. -/
theorem scenario3_read_of_modified :
    (∀ uninit : cache_block_state_t, ∀ X ∈ scenario3_addrs, ∀ p ∈ [(0, 1), (1, 0)],
      scenario3_premises uninit p.1 p.2 X ∧
      (scenario3 uninit p.1 p.2 X).events = [] ∧
      (scenario3 uninit p.1 p.2 X).fatal = false ∧
      (scenario3 uninit p.1 p.2 X).assert_log = [] ∧
      (EV_MOD_NMOESI_LOAD_FINISH, 8) ∈ (scenario3 uninit p.1 p.2 X).trace ∧
      line_state (scenario3 uninit p.1 p.2 X) p.1 X = cache_block_owned ∧
      ((scenario3 uninit p.1 p.2 X).stack_tab 8).shared = true ∧
      line_state (scenario3 uninit p.1 p.2 X) p.2 X = cache_block_shared) ∧
    (∀ uninit : cache_block_state_t,
      scenario3_premises uninit 0 1 4294967295 ∧
      line_state (scenario3 uninit 0 1 4294967295) 0 4294967295 = cache_block_owned ∧
      ((scenario3 uninit 0 1 4294967295).stack_tab 8).shared = false ∧
      line_state (scenario3 uninit 0 1 4294967295) 1 4294967295 = cache_block_exclusive ∧
      (scenario3 uninit 0 1 4294967295).fatal = true) := by
  decide!

/-- Scenario 3 at address 4160 with module 0 the holder and module 1 the
requester: the requester ends Shared. -/
theorem scenario3_read_of_modified_witness :
    4160 ∈ scenario3_addrs ∧
    line_state (scenario3 cache_block_invalid 0 1 4160) 1 4160 = cache_block_shared :=
  ⟨by decide, (scenario3_read_of_modified.1 cache_block_invalid 4160 (by decide) (0, 1)
    (by decide)).2.2.2.2.2.2.2⟩

/-! ## The coherency check at install time -/

theorem mccs_succ (s : Sim) (issue_mod addr : Nat) (st : cache_block_state_t) (fuel : Nat)
    (target_mod prev_mod : Nat) (d : Bool) :
    mod_check_coherency_status s issue_mod addr st (fuel + 1) (some target_mod) prev_mod d =
      (match mod_find_block (s.mods target_mod) addr 0 s.uninit_state with
      | none => true
      | some r =>
        if coherency_violation (s.mods target_mod).kind st d r.hit r.state then true
        else
          let up :=
            if (s.mods target_mod).has_high_net then
              ((s.mods target_mod).node_list.take (s.mods target_mod).num_nodes).any (fun node =>
                if node.kind ≠ net_node_end then false
                else
                  let sharer := node.user_data
                  if (s.mods sharer).mod_id = (s.mods target_mod).mod_id then false
                  else if (s.mods sharer).mod_id = (s.mods prev_mod).mod_id then false
                  else if (s.mods sharer).mod_id = (s.mods issue_mod).mod_id then false
                  else mod_check_coherency_status s issue_mod addr st fuel
                    (some sharer) target_mod true)
            else false
          if up then true
          else if !d && (s.mods target_mod).has_low_net then
            match mod_get_low_mod s target_mod addr with
            | low_mod_t.server sharer =>
              mod_check_coherency_status s issue_mod addr st fuel (some sharer) target_mod false
            | _ => true
          else false) := rfl

/-- `mod_find_block` with other initial values of the output variables: same
outcome, and on a hit the same state. -/
theorem mod_find_block_init (md : mod_t) (addr : Nat) (w1 w2 : Int) (s1 s2 : cache_block_state_t) :
    (mod_find_block md addr w1 s1 = none ↔ mod_find_block md addr w2 s2 = none) ∧
    ∀ r1 r2, mod_find_block md addr w1 s1 = some r1 → mod_find_block md addr w2 s2 = some r2 →
      r1.hit = r2.hit ∧ (r1.hit = true → r1.state = r2.state) := by
  unfold mod_find_block
  cases hset : mod_find_block_set md (mod_find_block_tag md.cache addr) with
  | none => simp [hset]
  | some set =>
    by_cases hw : mod_find_block_scan md.cache set (mod_find_block_tag md.cache addr)
        md.cache.assoc 0 = md.cache.assoc
    · simp only [hset, hw, if_true]
      refine ⟨by simp, ?_⟩
      intro r1 r2 h1 h2
      simp at h1 h2
      subst h1; subst h2
      simp
    · simp only [hset, hw, if_false]
      refine ⟨by simp, ?_⟩
      intro r1 r2 h1 h2
      simp at h1 h2
      subst h1; subst h2
      simp

/-- A walk of `mod_check_coherency_status` on module `p` in the down-up
direction that reaches no `fatal`, for an issuer state Modified or Exclusive:
`p` holds the line Invalid or not at all. -/
theorem mccs_peer (s : Sim) (issue_mod addr : Nat) (st : cache_block_state_t) (fuel : Nat)
    (p prev_mod : Nat) (hst : st = cache_block_modified ∨ st = cache_block_exclusive)
    (h : mod_check_coherency_status s issue_mod addr st (fuel + 1) (some p) prev_mod true = false) :
    line_state s p addr = cache_block_invalid := by
  rw [mccs_succ] at h
  unfold line_state
  have hinit := mod_find_block_init (s.mods p) addr 0 (-1) s.uninit_state cache_block_invalid
  cases h0 : mod_find_block (s.mods p) addr 0 s.uninit_state with
  | none => rw [h0] at h; simp at h
  | some r =>
    rw [h0] at h
    cases h1 : mod_find_block (s.mods p) addr (-1) cache_block_invalid with
    | none => rfl
    | some r1 =>
      have hh := hinit.2 r r1 h0 h1
      simp only
      by_cases hit : r1.hit = true
      · simp only [hit, if_true]
        have hv : coherency_violation (s.mods p).kind st true r.hit r.state = false := by
          by_cases hv : coherency_violation (s.mods p).kind st true r.hit r.state = true
          · simp [hv] at h
          · simpa using hv
        have hrh : r.hit = true := by rw [hh.1]; exact hit
        rw [← hh.2 hrh]
        unfold coherency_violation at hv
        rcases hst with hst | hst <;> simp [hst, hrh] at hv <;> exact hv
      · simp [hit]


/-- Root call of `mod_check_coherency_status` on the lower module `t` of the
issuer that reaches no `fatal`, for an issuer state Modified or Exclusive:
every other upper-level module `p` of `t` holds the line Invalid or not at
all, and `t` holds it neither Shared nor Owned. -/
theorem mccs_root (s : Sim) (issue_mod addr : Nat) (st : cache_block_state_t) (fuel : Nat)
    (t p : Nat) (node : net_node_t)
    (hst : st = cache_block_modified ∨ st = cache_block_exclusive)
    (h : mod_check_coherency_status s issue_mod addr st (fuel + 2) (some t) issue_mod false = false)
    (hnet : (s.mods t).has_high_net = true)
    (hnode : node ∈ (s.mods t).node_list.take (s.mods t).num_nodes)
    (hkind : node.kind = net_node_end) (hp : node.user_data = p)
    (hpt : (s.mods p).mod_id ≠ (s.mods t).mod_id)
    (hpm : (s.mods p).mod_id ≠ (s.mods issue_mod).mod_id) :
    line_state s p addr = cache_block_invalid ∧
    line_state s t addr ≠ cache_block_shared ∧ line_state s t addr ≠ cache_block_owned := by
  rw [mccs_succ] at h
  have hinit := mod_find_block_init (s.mods t) addr 0 (-1) s.uninit_state cache_block_invalid
  cases h0 : mod_find_block (s.mods t) addr 0 s.uninit_state with
  | none => rw [h0] at h; simp at h
  | some r =>
    rw [h0] at h
    simp only at h
    have hv : coherency_violation (s.mods t).kind st false r.hit r.state = false := by
      by_cases hv : coherency_violation (s.mods t).kind st false r.hit r.state = true
      · simp [hv] at h
      · simpa using hv
    simp only [hv, Bool.false_eq_true, if_false, hnet, if_true] at h
    constructor
    · simp at h
      have hup2 := h.1 node hnode hkind (by rw [hp]; exact hpt) (by rw [hp]; exact hpm)
      rw [hp] at hup2
      exact mccs_peer s issue_mod addr st fuel p t hst hup2
    · unfold line_state
      cases h1 : mod_find_block (s.mods t) addr (-1) cache_block_invalid with
      | none => simp
      | some r1 =>
        have hh := hinit.2 r r1 h0 h1
        simp only
        by_cases hit : r1.hit = true
        · simp only [hit, if_true]
          have hrh : r.hit = true := by rw [hh.1]; exact hit
          rw [← hh.2 hrh]
          unfold coherency_violation at hv
          rcases hst with hst | hst <;> simp [hst, hrh] at hv <;>
            (constructor <;> intro hc <;> simp [hc] at hv)
        · simp [hit]


theorem mod_find_block_scan_congr (c c' : cache_t) (hb : c'.blocks = c.blocks) (set tag : Int)
    (n way : Nat) : mod_find_block_scan c' set tag n way = mod_find_block_scan c set tag n way := by
  induction n generalizing way with
  | zero => rfl
  | succ n ih =>
    show (if (c'.blocks set way).tag = tag ∧ (c'.blocks set way).state ≠ cache_block_invalid
        then way else mod_find_block_scan c' set tag n (way + 1)) =
      (if (c.blocks set way).tag = tag ∧ (c.blocks set way).state ≠ cache_block_invalid
        then way else mod_find_block_scan c set tag n (way + 1))
    rw [hb, ih]

/-- `mod_find_block` reads only the blocks, the geometry and the address range. -/
theorem mod_find_block_congr (md md' : mod_t) (hb : md'.cache.blocks = md.cache.blocks)
    (ha : md'.cache.assoc = md.cache.assoc) (hm : md'.cache.block_mask = md.cache.block_mask)
    (hl : md'.cache.log_block_size = md.cache.log_block_size)
    (hn : md'.cache.num_sets = md.cache.num_sets) (hr : md'.range = md.range)
    (addr : Nat) (w : Int) (st : cache_block_state_t) :
    mod_find_block md' addr w st = mod_find_block md addr w st := by
  unfold mod_find_block mod_find_block_set mod_find_block_tag
  simp only [hb, ha, hm, hl, hn, hr, mod_find_block_scan_congr md.cache md'.cache hb]

theorem line_state_congr (s s' : Sim) (p X : Nat)
    (h : ∀ w st, mod_find_block (s'.mods p) X w st = mod_find_block (s.mods p) X w st) :
    line_state s' p X = line_state s p X := by
  unfold line_state
  rw [h]

theorem cache_entry_unlock_find (s : Sim) (m p : Nat) (set way : Int) (X : Nat) (w : Int)
    (st : cache_block_state_t) :
    mod_find_block ((cache_entry_unlock s m set way).mods p) X w st =
      mod_find_block (s.mods p) X w st := by
  apply mod_find_block_congr
  · simp
  all_goals
    unfold cache_entry_unlock Sim.setLock Sim.setCache Sim.setMod cache_lock_get upd
    simp only []
    split <;> (by_cases hm : p = m <;> simp [hm, esim_schedule_event])

/-- `cache_set_block` changes nothing of a module but its blocks. -/
theorem cache_set_block_config (s : Sim) (m m' : Nat) (set way tag : Int)
    (st : cache_block_state_t) :
    ((cache_set_block s m set way tag st).mods m').kind = (s.mods m').kind ∧
    ((cache_set_block s m set way tag st).mods m').low_mod_list = (s.mods m').low_mod_list ∧
    ((cache_set_block s m set way tag st).mods m').range = (s.mods m').range ∧
    ((cache_set_block s m set way tag st).mods m').has_high_net = (s.mods m').has_high_net ∧
    ((cache_set_block s m set way tag st).mods m').node_list = (s.mods m').node_list ∧
    ((cache_set_block s m set way tag st).mods m').num_nodes = (s.mods m').num_nodes ∧
    ((cache_set_block s m set way tag st).mods m').mod_id = (s.mods m').mod_id := by
  unfold cache_set_block Sim.setCache Sim.setMod upd
  by_cases hm : m' = m
  · subst hm; simp
  · simp [hm]

theorem mod_get_low_mod_config (s s' : Sim) (m addr : Nat)
    (hk : ∀ k, (s'.mods k).kind = (s.mods k).kind)
    (hl : ∀ k, (s'.mods k).low_mod_list = (s.mods k).low_mod_list)
    (hr : ∀ k, (s'.mods k).range = (s.mods k).range) :
    mod_get_low_mod s' m addr = mod_get_low_mod s m addr := by
  have hs : ∀ k, mod_serves_address (s'.mods k) addr = mod_serves_address (s.mods k) addr := by
    intro k; unfold mod_serves_address; rw [hr]
  have hloop : ∀ (l : List Nat) (acc : Option Nat),
      mod_get_low_mod_loop s' addr l acc = mod_get_low_mod_loop s addr l acc := by
    intro l
    induction l with
    | nil => intro acc; rfl
    | cons a rest ih =>
      intro acc
      show (match mod_serves_address (s'.mods a) addr with
        | none => none
        | some false => mod_get_low_mod_loop s' addr rest acc
        | some true =>
          match acc with
          | some _ => none
          | none => mod_get_low_mod_loop s' addr rest (some a)) =
        (match mod_serves_address (s.mods a) addr with
        | none => none
        | some false => mod_get_low_mod_loop s addr rest acc
        | some true =>
          match acc with
          | some _ => none
          | none => mod_get_low_mod_loop s addr rest (some a))
      rw [hs]
      cases mod_serves_address (s.mods a) addr with
      | none => rfl
      | some b =>
        cases b with
        | false => exact ih acc
        | true =>
          cases acc with
          | some _ => rfl
          | none => exact ih _
  unfold mod_get_low_mod
  simp only [hk, hl, hloop]

/-- A `check_after_install` that does not stop the run, for an installed state
Modified or Exclusive. -/
theorem check_after_install_ok (s : Sim) (mod : Nat) (tag : Int) (st : cache_block_state_t)
    (t p : Nat) (node : net_node_t)
    (hst : st = cache_block_modified ∨ st = cache_block_exclusive)
    (hlow : mod_get_low_mod s mod (toU32 tag) = low_mod_t.server t)
    (hnet : (s.mods t).has_high_net = true)
    (hnode : node ∈ (s.mods t).node_list.take (s.mods t).num_nodes)
    (hkind : node.kind = net_node_end) (hp : node.user_data = p)
    (hpt : (s.mods p).mod_id ≠ (s.mods t).mod_id)
    (hpm : (s.mods p).mod_id ≠ (s.mods mod).mod_id)
    (hfatal : (check_after_install s mod tag st).fatal = false) :
    line_state s p (toU32 tag) = cache_block_invalid ∧
    line_state s t (toU32 tag) ≠ cache_block_shared ∧
    line_state s t (toU32 tag) ≠ cache_block_owned := by
  unfold check_after_install at hfatal
  rw [hlow] at hfatal
  simp only at hfatal
  by_cases hc : mod_check_coherency_status s mod (toU32 tag) st (coherency_fuel s)
      (some t) mod false = true
  · simp [hc, Sim.stop] at hfatal
  · have hc2 : mod_check_coherency_status s mod (toU32 tag) st (2 * s.num_mods + 2)
        (some t) mod false = false := by simpa [coherency_fuel] using hc
    exact mccs_root s mod (toU32 tag) st (2 * s.num_mods) t p node hst hc2 hnet hnode hkind hp
      hpt hpm


/-- An install by `cache_set_block` followed by a `check_after_install` that does
not stop the run, stated on the state before the install. -/
theorem install_ok (s : Sim) (m : Nat) (set way tag : Int) (st : cache_block_state_t)
    (t p : Nat) (node : net_node_t)
    (hst : st = cache_block_modified ∨ st = cache_block_exclusive)
    (hlow : mod_get_low_mod s m (toU32 tag) = low_mod_t.server t)
    (hnet : (s.mods t).has_high_net = true)
    (hnode : node ∈ (s.mods t).node_list.take (s.mods t).num_nodes)
    (hkind : node.kind = net_node_end) (hp : node.user_data = p)
    (hpt : (s.mods p).mod_id ≠ (s.mods t).mod_id)
    (hpm : (s.mods p).mod_id ≠ (s.mods m).mod_id)
    (hfatal : (check_after_install (cache_set_block s m set way tag st) m tag st).fatal = false) :
    line_state (cache_set_block s m set way tag st) p (toU32 tag) = cache_block_invalid ∧
    line_state (cache_set_block s m set way tag st) t (toU32 tag) ≠ cache_block_shared ∧
    line_state (cache_set_block s m set way tag st) t (toU32 tag) ≠ cache_block_owned := by
  have hc := cache_set_block_config s m
  refine check_after_install_ok (cache_set_block s m set way tag st) m tag st t p node hst ?_ ?_ ?_
    hkind hp ?_ ?_ hfatal
  · rw [mod_get_low_mod_config s _ m (toU32 tag) (fun k => (hc k set way tag st).1)
      (fun k => (hc k set way tag st).2.1) (fun k => (hc k set way tag st).2.2.1)]
    exact hlow
  · rw [(hc t set way tag st).2.2.2.1]; exact hnet
  · rw [(hc t set way tag st).2.2.2.2.1, (hc t set way tag st).2.2.2.2.2.1]; exact hnode
  · rw [(hc t set way tag st).2.2.2.2.2.2, (hc p set way tag st).2.2.2.2.2.2]; exact hpt
  · rw [(hc m set way tag st).2.2.2.2.2.2, (hc p set way tag st).2.2.2.2.2.2]; exact hpm

/-- Single-writer among sibling modules at install time.  When
`EV_MOD_NMOESI_STORE_UNLOCK` installs a line Modified, or
`EV_MOD_NMOESI_LOAD_MISS` installs it Modified or Exclusive, in a module whose
lower module is `t`, and the step does not stop the run (the walk of
`mod_check_coherency_status` reaches no `fatal`), then every other upper-level
module `p` attached to `t` holds that line Invalid or not at all, and `t`
holds it neither Shared nor Owned. -/
theorem install_single_writer (s : Sim) (h t p : Nat) (node : net_node_t)
    (herr : (s.stack_tab h).err = false)
    (hlow : mod_get_low_mod s (s.stack_tab h).mod (toU32 (s.stack_tab h).tag) =
      low_mod_t.server t)
    (hnet : (s.mods t).has_high_net = true)
    (hnode : node ∈ (s.mods t).node_list.take (s.mods t).num_nodes)
    (hkind : node.kind = net_node_end) (hp : node.user_data = p)
    (hpt : (s.mods p).mod_id ≠ (s.mods t).mod_id)
    (hpm : (s.mods p).mod_id ≠ (s.mods (s.stack_tab h).mod).mod_id) :
    ((ev_mod_nmoesi_store_unlock s h).fatal = false →
      line_state (ev_mod_nmoesi_store_unlock s h) p (toU32 (s.stack_tab h).tag) =
        cache_block_invalid ∧
      line_state (ev_mod_nmoesi_store_unlock s h) t (toU32 (s.stack_tab h).tag) ≠
        cache_block_shared ∧
      line_state (ev_mod_nmoesi_store_unlock s h) t (toU32 (s.stack_tab h).tag) ≠
        cache_block_owned) ∧
    ((ev_mod_nmoesi_load_miss s h).fatal = false →
      (cache_block_next_state (flag (s.stack_tab h).shared) (flag (s.stack_tab h).dirty) =
          cache_block_modified ∨
        cache_block_next_state (flag (s.stack_tab h).shared) (flag (s.stack_tab h).dirty) =
          cache_block_exclusive) →
      line_state (ev_mod_nmoesi_load_miss s h) p (toU32 (s.stack_tab h).tag) =
        cache_block_invalid ∧
      line_state (ev_mod_nmoesi_load_miss s h) t (toU32 (s.stack_tab h).tag) ≠
        cache_block_shared ∧
      line_state (ev_mod_nmoesi_load_miss s h) t (toU32 (s.stack_tab h).tag) ≠
        cache_block_owned) := by
  have hlow2 : mod_get_low_mod (s.log EV_MOD_NMOESI_STORE_UNLOCK h) (s.stack_tab h).mod
      (toU32 (s.stack_tab h).tag) = low_mod_t.server t := by
    rw [mod_get_low_mod_congr s (s.log EV_MOD_NMOESI_STORE_UNLOCK h) _ _ rfl]; exact hlow
  have hlow3 : mod_get_low_mod (s.log EV_MOD_NMOESI_LOAD_MISS h) (s.stack_tab h).mod
      (toU32 (s.stack_tab h).tag) = low_mod_t.server t := by
    rw [mod_get_low_mod_congr s (s.log EV_MOD_NMOESI_LOAD_MISS h) _ _ rfl]; exact hlow
  constructor
  · intro hf
    unfold ev_mod_nmoesi_store_unlock at hf ⊢
    simp only [log_stack_tab, herr, Bool.false_eq_true, if_false] at hf ⊢
    by_cases hcf : (check_after_install (cache_set_block (s.log EV_MOD_NMOESI_STORE_UNLOCK h)
        (s.stack_tab h).mod (s.stack_tab h).set (s.stack_tab h).way (s.stack_tab h).tag
        cache_block_modified) (s.stack_tab h).mod (s.stack_tab h).tag
        cache_block_modified).fatal = true
    · simp [hcf] at hf
    · have hcf2 := Bool.eq_false_iff.mpr hcf
      have hok := install_ok (s.log EV_MOD_NMOESI_STORE_UNLOCK h) (s.stack_tab h).mod
        (s.stack_tab h).set (s.stack_tab h).way (s.stack_tab h).tag cache_block_modified t p node
        (Or.inl rfl) hlow2 hnet hnode hkind hp hpt hpm hcf2
      simp only [hcf2, Bool.false_eq_true, if_false]
      have hl : ∀ q, line_state (esim_schedule_event (cache_entry_unlock
          (check_after_install (cache_set_block (s.log EV_MOD_NMOESI_STORE_UNLOCK h)
            (s.stack_tab h).mod (s.stack_tab h).set (s.stack_tab h).way (s.stack_tab h).tag
            cache_block_modified) (s.stack_tab h).mod (s.stack_tab h).tag cache_block_modified)
          (s.stack_tab h).mod (s.stack_tab h).set (s.stack_tab h).way)
          EV_MOD_NMOESI_STORE_FINISH h
          ((cache_entry_unlock
          (check_after_install (cache_set_block (s.log EV_MOD_NMOESI_STORE_UNLOCK h)
            (s.stack_tab h).mod (s.stack_tab h).set (s.stack_tab h).way (s.stack_tab h).tag
            cache_block_modified) (s.stack_tab h).mod (s.stack_tab h).tag cache_block_modified)
          (s.stack_tab h).mod (s.stack_tab h).set (s.stack_tab h).way).mods
            (s.stack_tab h).mod).latency) q (toU32 (s.stack_tab h).tag) =
          line_state (cache_set_block (s.log EV_MOD_NMOESI_STORE_UNLOCK h)
            (s.stack_tab h).mod (s.stack_tab h).set (s.stack_tab h).way (s.stack_tab h).tag
            cache_block_modified) q (toU32 (s.stack_tab h).tag) := by
        intro q
        apply line_state_congr
        intro w st
        rw [schedule_mods, cache_entry_unlock_find, check_after_install_mods]
      rw [hl, hl]
      exact hok
  · intro hf hst
    unfold ev_mod_nmoesi_load_miss at hf ⊢
    simp only [log_stack_tab, herr, Bool.false_eq_true, if_false] at hf ⊢
    by_cases hcf : (check_after_install (cache_set_block (s.log EV_MOD_NMOESI_LOAD_MISS h)
        (s.stack_tab h).mod (s.stack_tab h).set (s.stack_tab h).way (s.stack_tab h).tag
        (cache_block_next_state (flag (s.stack_tab h).shared) (flag (s.stack_tab h).dirty)))
        (s.stack_tab h).mod (s.stack_tab h).tag
        (cache_block_next_state (flag (s.stack_tab h).shared)
          (flag (s.stack_tab h).dirty))).fatal = true
    · simp [hcf] at hf
    · have hcf2 := Bool.eq_false_iff.mpr hcf
      have hok := install_ok (s.log EV_MOD_NMOESI_LOAD_MISS h) (s.stack_tab h).mod
        (s.stack_tab h).set (s.stack_tab h).way (s.stack_tab h).tag _ t p node
        hst hlow3 hnet hnode hkind hp hpt hpm hcf2
      simp only [hcf2, Bool.false_eq_true, if_false]
      have hl : ∀ q (c : Sim) (e : Ev) (k d : Nat), line_state (esim_schedule_event
          (check_after_install c (s.stack_tab h).mod (s.stack_tab h).tag
            (cache_block_next_state (flag (s.stack_tab h).shared) (flag (s.stack_tab h).dirty)))
          e k d) q (toU32 (s.stack_tab h).tag) =
          line_state c q (toU32 (s.stack_tab h).tag) := by
        intro q c e k d
        apply line_state_congr
        intro w st
        rw [schedule_mods, check_after_install_mods]
      rw [hl, hl]
      exact hok

/-- The Store of `install_demo`: `EV_MOD_NMOESI_STORE_UNLOCK` does not stop the
run and the sibling module 1 does not hold the line. -/
theorem install_single_writer_witness :
    (ev_mod_nmoesi_store_unlock install_demo 60).fatal = false ∧
    line_state (ev_mod_nmoesi_store_unlock install_demo 60) 1 4160 = cache_block_invalid :=
  ⟨by decide, ((install_single_writer install_demo 60 2 1 ⟨net_node_end, 1⟩ rfl rfl rfl
    (by decide) rfl rfl (by decide) (by decide)).1 (by decide)).1⟩

/-- After the single Load of Scenario 1, a state reached from empty caches, L1,
L2 and main memory all hold the line Exclusive at once: a single-writer
property does not hold across the levels of the hierarchy. -/
theorem single_writer_whole_hierarchy_fails :
    (scenario1 cache_block_invalid 4160).fatal = false ∧
    (scenario1 cache_block_invalid 4160).events = [] ∧
    line_state (scenario1 cache_block_invalid 4160) 0 4160 = cache_block_exclusive ∧
    line_state (scenario1 cache_block_invalid 4160) 1 4160 = cache_block_exclusive ∧
    line_state (scenario1 cache_block_invalid 4160) 2 4160 = cache_block_exclusive ∧
    ¬ single_writer (scenario1 cache_block_invalid 4160) [0, 1, 2] 4160 := by
  decide!

/-- With every port bound, releasing port `p` leaves `p` as the first free port. -/
theorem port_scan_set_none (ports : List mod_port_t) (p i : Nat)
    (hall : ∀ q ∈ ports, q.stack.isSome) (hp : p < ports.length) :
    port_scan (ports.set p ⟨none⟩) i = i + p := by
  induction ports generalizing p i with
  | nil => simp at hp
  | cons q rest ih =>
    cases p with
    | zero => simp [List.set, port_scan]
    | succ j =>
      have hq : q.stack ≠ none := by
        have := hall q (List.mem_cons_self _ _)
        intro e; rw [e] at this; simp at this
      simp only [List.set, port_scan, hq, if_false]
      rw [ih j (i + 1) (fun x hx => hall x (List.mem_cons_of_mem _ hx)) (by simpa using hp)]
      omega

/-- In a well-formed port state with a non-empty wait queue every port is bound. -/
theorem PortInv_all_bound (s : Sim) (m : Nat) (hinv : PortInv s m)
    (hne : (s.mods m).port_waiting_list ≠ []) :
    ∀ q ∈ (s.mods m).ports, q.stack.isSome := by
  have h1 := hinv.full hne
  rw [hinv.cnt, ← hinv.len] at h1
  have h2 : ports_bound (s.mods m).ports = (s.mods m).ports.length := by exact_mod_cast h1
  unfold ports_bound at h2
  intro q hq
  exact (List.countP_eq_length.mp h2) q hq


/-- The release step of `mod_unlock_port` (state `s1`) touches neither the event
queue nor the clock nor the recorded resume events. -/
theorem mod_unlock_port_release (s : Sim) (m p h : Nat) (hinv : PortInv s m)
    (hok : port_op_ok s m (port_op_t.unlock p h)) :
    ∃ s1 : Sim,
      (s1.mods m).ports = (s.mods m).ports.set p ⟨none⟩ ∧
      (s1.mods m).num_ports = (s.mods m).num_ports ∧
      (s1.mods m).num_locked_ports = (s.mods m).num_locked_ports - 1 ∧
      (s1.mods m).port_waiting_list = (s.mods m).port_waiting_list.tail ∧
      (∀ k, (s1.stack_tab k).port = if k = h then none else (s.stack_tab k).port) ∧
      s1.events = s.events ∧ s1.esim_time = s.esim_time ∧
      (∀ k, (s1.stack_tab k).port_waiting_list_event = (s.stack_tab k).port_waiting_list_event) ∧
      mod_unlock_port s m p h =
        (match (s.mods m).port_waiting_list with
         | [] => s1
         | w :: _ => mod_lock_port s1 m w (s1.stack_tab w).port_waiting_list_event) := by
  obtain ⟨hport, hp, hmod⟩ := hok
  have hpos : 0 < ports_bound (s.mods m).ports := ports_bound_pos _ p h hp
  have hc1 : decide ((s.mods m).num_locked_ports > 0) = true := by
    rw [hinv.cnt]; simp; exact hpos
  have hc2 : decide ((s.stack_tab h).port = some p ∧
      ((s.mods m).ports.getD p ⟨none⟩).stack = some h) = true := by
    simp [hport, List.getD_eq_getElem?_getD, hp]
  have hc3 : decide ((s.stack_tab h).mod = m) = true := by simp [hmod]
  unfold mod_unlock_port
  simp only [hc1, hc2, hc3, check_true]
  cases hwl : (s.mods m).port_waiting_list with
  | nil =>
    refine ⟨_, ?_, ?_, ?_, ?_, ?_, ?_, ?_, ?_, rfl⟩
    · simp [Sim.setMod, Sim.setStack]
    · simp [Sim.setMod, Sim.setStack]
    · simp [Sim.setMod, Sim.setStack]
    · simp [Sim.setMod, Sim.setStack, hwl]
    · intro k; simp only [Sim.setMod, Sim.setStack, upd_apply]
      split <;> simp_all
    · simp [Sim.setMod, Sim.setStack]
    · simp [Sim.setMod, Sim.setStack]
    · intro k; simp only [Sim.setMod, Sim.setStack, upd_apply]
      split <;> simp_all
  | cons w rest =>
    refine ⟨(Sim.setMod
          (Sim.setMod (Sim.setStack s h { s.stack_tab h with port := none }) m
            { (Sim.setStack s h { s.stack_tab h with port := none }).mods m with
              ports := (s.mods m).ports.set p ⟨none⟩,
              num_locked_ports := (s.mods m).num_locked_ports - 1 }) m
          { (Sim.setMod (Sim.setStack s h { s.stack_tab h with port := none }) m
            { (Sim.setStack s h { s.stack_tab h with port := none }).mods m with
              ports := (s.mods m).ports.set p ⟨none⟩,
              num_locked_ports := (s.mods m).num_locked_ports - 1 }).mods m with
            port_waiting_list := rest }), ?_, ?_, ?_, ?_, ?_, ?_, ?_, ?_, ?_⟩
    · simp [Sim.setMod, Sim.setStack]
    · simp [Sim.setMod, Sim.setStack]
    · simp [Sim.setMod, Sim.setStack]
    · simp [Sim.setMod, Sim.setStack]
    · intro k; simp only [Sim.setMod, Sim.setStack, upd_apply]
      split <;> simp_all
    · simp [Sim.setMod, Sim.setStack]
    · simp [Sim.setMod, Sim.setStack]
    · intro k; simp only [Sim.setMod, Sim.setStack, upd_apply]
      split <;> simp_all
    · simp [Sim.setMod, Sim.setStack]

/-- `mod_lock_port` with a free port schedules the event with zero delay. -/
theorem mod_lock_port_free_events (s : Sim) (m h : Nat) (ev : Ev)
    (hfree : (s.mods m).num_locked_ports < (s.mods m).num_ports) :
    (mod_lock_port s m h ev).events = insert_event (s.esim_time + 0) ev h s.events := by
  have hnf : ¬ ((s.mods m).num_locked_ports ≥ (s.mods m).num_ports) := by omega
  unfold mod_lock_port
  simp only [hnf, if_false]
  simp [Sim.setMod, Sim.setStack, esim_schedule_event, Sim.check]
  split <;> rfl

/-- C11: `mod_unlock_port` on a port bound to the given access, in any state
reached from a module with no port bound by valid port calls.  The access no
longer holds a port.  With an empty wait queue the port becomes free,
`num_locked_ports` decreases by one and nothing is scheduled.  Otherwise the
head of the wait queue is removed and bound to the released port (the only
free one), its recorded resume event is scheduled with zero delay and
`num_locked_ports` is unchanged.  Whenever the wait queue is non-empty every
port is bound. -/
theorem port_release (m : Nat) (s0 s : Sim) (p h : Nat) (h0 : ports_clear s0 m)
    (hr : PortReach m s0 s) (hok : port_op_ok s m (port_op_t.unlock p h)) :
    ((s.mods m).port_waiting_list ≠ [] → ∀ q ∈ (s.mods m).ports, q.stack.isSome) ∧
    ((mod_unlock_port s m p h).stack_tab h).port = none ∧
    ((s.mods m).port_waiting_list = [] →
      ((mod_unlock_port s m p h).mods m).ports = (s.mods m).ports.set p (mod_port_t.mk none) ∧
      ((mod_unlock_port s m p h).mods m).num_locked_ports = (s.mods m).num_locked_ports - 1 ∧
      ((mod_unlock_port s m p h).mods m).port_waiting_list = [] ∧
      (mod_unlock_port s m p h).events = s.events) ∧
    (∀ (w : Nat) (rest : List Nat), (s.mods m).port_waiting_list = w :: rest →
      ((mod_unlock_port s m p h).mods m).port_waiting_list = rest ∧
      ((mod_unlock_port s m p h).mods m).ports =
        (s.mods m).ports.set p (mod_port_t.mk (some w)) ∧
      ((mod_unlock_port s m p h).stack_tab w).port = some p ∧
      ((mod_unlock_port s m p h).mods m).num_locked_ports = (s.mods m).num_locked_ports ∧
      (mod_unlock_port s m p h).events =
        insert_event (s.esim_time + 0) (s.stack_tab w).port_waiting_list_event w s.events) := by
  have hinv := (PortReach_inv m s0 s h0 hr).1
  obtain ⟨s1, e1, e2, e3, e4, e5, e6, e7, e8, e9⟩ := mod_unlock_port_release s m p h hinv hok
  obtain ⟨hport, hp, hmod⟩ := hok
  have hplen : p < (s.mods m).ports.length := by
    rcases Nat.lt_or_ge p (s.mods m).ports.length with hlt | hge
    · exact hlt
    · rw [List.getElem?_eq_none hge] at hp; simp at hp
  have hpos : 0 < ports_bound (s.mods m).ports := ports_bound_pos _ p h hp
  have hb1 := ports_bound_set_none (s.mods m).ports p h hp
  have key : ∀ (w : Nat) (rest : List Nat), (s.mods m).port_waiting_list = w :: rest →
      w ≠ h ∧ port_scan (s1.mods m).ports 0 = p ∧
      (s.mods m).num_locked_ports = (s.mods m).num_ports ∧
      mod_unlock_port s m p h = mod_lock_port s1 m w (s.stack_tab w).port_waiting_list_event := by
    intro w rest hwl
    have hall := PortInv_all_bound s m hinv (by rw [hwl]; simp)
    refine ⟨?_, ?_, hinv.full (by rw [hwl]; simp), ?_⟩
    · intro e
      have := hinv.waiters w (by rw [hwl]; simp)
      rw [e, hport] at this; simp at this
    · rw [e1, port_scan_set_none (s.mods m).ports p 0 hall hplen]; simp
    · rw [e9, hwl]
      simp only [e8]
  have free1 : ∀ (w : Nat) (rest : List Nat), (s.mods m).port_waiting_list = w :: rest →
      (((s1.mods m).ports.length : Nat) : Int) = (s1.mods m).num_ports ∧
      (s1.mods m).num_locked_ports = ((ports_bound (s1.mods m).ports : Nat) : Int) ∧
      (s1.mods m).num_locked_ports < (s1.mods m).num_ports := by
    intro w rest hwl
    have hle := PortInv_locked_le s m hinv
    refine ⟨?_, ?_, ?_⟩
    · rw [e1, e2, List.length_set]; exact hinv.len
    · rw [e3, e1, hinv.cnt]
      have : ports_bound (s.mods m).ports = ports_bound ((s.mods m).ports.set p ⟨none⟩) + 1 :=
        hb1.symm
      rw [this]; push_cast; omega
    · rw [e3, e2]; omega
  refine ⟨PortInv_all_bound s m hinv, ?_, ?_, ?_⟩
  · cases hwl : (s.mods m).port_waiting_list with
    | nil =>
      rw [e9, hwl]
      simp [e5]
    | cons w rest =>
      obtain ⟨hwh, _, _, heq⟩ := key w rest hwl
      obtain ⟨f1, f2, f3⟩ := free1 w rest hwl
      have hf := mod_lock_port_free s1 m w (s.stack_tab w).port_waiting_list_event f1 f2 f3
      rw [heq, hf.2.2.2.2.2.2.1 h]
      have hhw : h ≠ w := fun e => hwh e.symm
      simp [hhw, e5]
  · intro hwl
    rw [e9, hwl]
    refine ⟨e1, e3, ?_, e6⟩
    rw [e4, hwl]; rfl
  · intro w rest hwl
    obtain ⟨hwh, hsc, hfull, heq⟩ := key w rest hwl
    obtain ⟨f1, f2, f3⟩ := free1 w rest hwl
    have hf := mod_lock_port_free s1 m w (s.stack_tab w).port_waiting_list_event f1 f2 f3
    have hev := mod_lock_port_free_events s1 m w (s.stack_tab w).port_waiting_list_event f3
    rw [heq]
    refine ⟨?_, ?_, ?_, ?_, ?_⟩
    · rw [hf.2.2.2.2.2.1, e4, hwl]; rfl
    · rw [hf.2.2.1, hsc, e1]; simp
    · rw [hf.2.2.2.2.2.2.1 w, hsc]; simp
    · rw [hf.2.2.2.2.1, e3]; omega
    · rw [hev, e6, e7]

/-- In `port_demo1` access 1 releases port 0: the waiting access 7 gets port 0
and the wait queue is empty. -/
theorem port_release_witness :
    ports_clear port_demo0 0 ∧ PortReach 0 port_demo0 port_demo1 ∧
    port_op_ok port_demo1 0 (port_op_t.unlock 0 1) ∧
    ((mod_unlock_port port_demo1 0 0 1).mods 0).port_waiting_list = [] ∧
    ((mod_unlock_port port_demo1 0 0 1).stack_tab 7).port = some 0 :=
  ⟨by unfold ports_clear; decide, port_demo1_reach, by unfold port_op_ok; decide,
   ((port_release 0 port_demo0 port_demo1 0 1 (by unfold ports_clear; decide) port_demo1_reach
      (by unfold port_op_ok; decide)).2.2.2 7 [] (by decide)).1,
   ((port_release 0 port_demo0 port_demo1 0 1 (by unfold ports_clear; decide) port_demo1_reach
      (by unfold port_op_ok; decide)).2.2.2 7 [] (by decide)).2.2.1⟩

/-- A linear scan that stops at the first index satisfying `P`. -/
theorem scan_first (P : Nat → Prop) [DecidablePred P] (f : Nat → Nat → Nat)
    (hf0 : ∀ w, f 0 w = w) (hfs : ∀ n w, f (n + 1) w = if P w then w else f n (w + 1)) :
    ∀ n w, w ≤ f n w ∧ f n w ≤ w + n ∧ (∀ v, w ≤ v → v < f n w → ¬ P v) ∧
      (f n w < w + n → P (f n w)) := by
  intro n
  induction n with
  | zero =>
    intro w
    rw [hf0]
    exact ⟨le_refl _, le_refl _, fun v h1 h2 => by omega, fun h => by omega⟩
  | succ n ih =>
    intro w
    rw [hfs]
    by_cases hP : P w
    · rw [if_pos hP]
      exact ⟨le_refl _, by omega, fun v h1 h2 => by omega, fun _ => hP⟩
    · rw [if_neg hP]
      obtain ⟨i1, i2, i3, i4⟩ := ih (w + 1)
      refine ⟨by omega, by omega, ?_, fun h => i4 (by omega)⟩
      intro v h1 h2
      by_cases hv : v = w
      · rw [hv]; exact hP
      · exact i3 v (by omega) h2

theorem mod_find_block_scan_first (c : cache_t) (set tag : Int) (n w : Nat) :
    w ≤ mod_find_block_scan c set tag n w ∧ mod_find_block_scan c set tag n w ≤ w + n ∧
    (∀ v, w ≤ v → v < mod_find_block_scan c set tag n w → ¬ way_hits c set tag v) ∧
    (mod_find_block_scan c set tag n w < w + n →
      way_hits c set tag (mod_find_block_scan c set tag n w)) :=
  scan_first (way_hits c set tag) (mod_find_block_scan c set tag) (fun _ => rfl)
    (fun n w => by
      show (if (c.blocks set w).tag = tag ∧ (c.blocks set w).state ≠ cache_block_invalid then w
        else mod_find_block_scan c set tag n (w + 1)) = _
      by_cases h : way_hits c set tag w
      · have h' := h; unfold way_hits at h'; simp [h, h']
      · have h' := h; unfold way_hits at h'; simp only [h, h', if_false]) n w

theorem mod_find_block_scan_dir_first (c : cache_t) (dir_lock : Int → Int → Bool)
    (set tag : Int) (n w : Nat) :
    w ≤ mod_find_block_scan_dir c dir_lock set tag n w ∧
    mod_find_block_scan_dir c dir_lock set tag n w ≤ w + n ∧
    (∀ v, w ≤ v → v < mod_find_block_scan_dir c dir_lock set tag n w →
      ¬ way_hits_dir c dir_lock set tag v) ∧
    (mod_find_block_scan_dir c dir_lock set tag n w < w + n →
      way_hits_dir c dir_lock set tag (mod_find_block_scan_dir c dir_lock set tag n w)) :=
  scan_first (way_hits_dir c dir_lock set tag) (mod_find_block_scan_dir c dir_lock set tag)
    (fun _ => rfl)
    (fun n w => by
      show (if (c.blocks set w).tag = tag ∧ (c.blocks set w).state ≠ cache_block_invalid then w
        else if (c.blocks set w).transient_tag = tag ∧ dir_lock set w = true then w
        else mod_find_block_scan_dir c dir_lock set tag n (w + 1)) = _
      by_cases h : way_hits_dir c dir_lock set tag w
      · have h' := h
        unfold way_hits_dir way_hits at h'
        simp only [h, if_true]
        rcases h' with h1 | h2
        · simp [h1]
        · simp [h2]
      · have h' := h
        unfold way_hits_dir way_hits at h'
        push_neg at h'
        simp only [h, if_false]
        have h1 : ¬ ((c.blocks set w).tag = tag ∧ (c.blocks set w).state ≠ cache_block_invalid) :=
          fun e => (not_or.mp h).1 e
        have h2 : ¬ ((c.blocks set w).transient_tag = tag ∧ dir_lock set w = true) :=
          fun e => (not_or.mp h).2 e
        simp only [h1, h2, if_false]) n w


theorem and_not_mask (addr L : Nat) (hL : L < 32) (ha : addr < 4294967296) :
    addr &&& (4294967295 ^^^ (2 ^ L - 1)) = addr / 2 ^ L * 2 ^ L := by
  apply Nat.eq_of_testBit_eq
  intro i
  have e : (4294967295 : Nat) = 2 ^ 32 - 1 := by norm_num
  rw [Nat.testBit_and, Nat.testBit_xor, e, Nat.testBit_two_pow_sub_one,
    Nat.testBit_two_pow_sub_one, ← Nat.shiftRight_eq_div_pow, ← Nat.shiftLeft_eq,
    Nat.testBit_shiftLeft, Nat.testBit_shiftRight]
  by_cases h1 : i < L
  · have : ¬ (i ≥ L) := by omega
    have h2 : i < 32 := by omega
    simp [h1, this, h2]
  · have h1' : i ≥ L := by omega
    have e2 : L + (i - L) = i := by omega
    by_cases h2 : i < 32
    · simp [h1, h1', h2, e2]
    · have : addr.testBit i = false := by
        apply Nat.testBit_lt_two_pow
        calc addr < 2 ^ 32 := by norm_num; exact ha
          _ ≤ 2 ^ i := Nat.pow_le_pow_right (by norm_num) (by omega)
      simp [h1, h1', h2, e2, this]

theorem toU32_toI32 (n : Nat) (h : n < 4294967296) : toU32 (toI32 n) = n := by
  unfold toU32 toI32
  rw [Nat.mod_eq_of_lt h]
  split <;> omega

theorem toI32_small (n : Nat) (h : n < 2147483648) : toI32 n = (n : Int) := by
  unfold toI32
  rw [Nat.mod_eq_of_lt (by omega)]
  simp [h]

theorem mod_find_block_tag_eq (c : cache_t) (hg : cache_geometry c) (addr : Nat)
    (ha : addr < 4294967296) :
    mod_find_block_tag c addr = toI32 (addr / c.block_size * c.block_size) := by
  obtain ⟨h1, h2, h3, -, -⟩ := hg
  unfold mod_find_block_tag
  rw [h3, h2, and_not_mask addr _ h1 ha]

theorem round_lt (addr B : Nat) (ha : addr < 4294967296) : addr / B * B < 4294967296 :=
  lt_of_le_of_lt (Nat.div_mul_le_self addr B) ha

/-- The unsigned value of `tag >> log_block_size` for the tag of a block with
index `q`: the block index itself below 2^31, and the block index with the top
`L` bits set from 2^31 on (arithmetic shift of a negative `int`). -/
theorem tag_shift (q L : Nat) (hL : L < 32) (hq : q * 2 ^ L < 4294967296) :
    toU32 (toI32 (q * 2 ^ L) >>> L) =
      if q * 2 ^ L < 2147483648 then q else q + (4294967296 - 2 ^ (32 - L)) := by
  have hpos : 0 < 2 ^ L := Nat.pow_pos (by norm_num)
  have e32 : (4294967296 : Nat) = 2 ^ (32 - L) * 2 ^ L := by
    rw [← pow_add, Nat.sub_add_cancel (le_of_lt hL)]; norm_num
  have hq' : q < 2 ^ (32 - L) := by
    rw [e32] at hq
    exact lt_of_mul_lt_mul_right hq (Nat.zero_le _)
  have hle : 2 ^ (32 - L) ≤ 4294967296 := by
    rw [e32]; exact Nat.le_mul_of_pos_right _ hpos
  rw [Int.shiftRight_eq_div_pow]
  unfold toI32
  rw [Nat.mod_eq_of_lt hq]
  split
  · have : ((q * 2 ^ L : Nat) : Int) / ((2 ^ L : Nat) : Int) = (q : Int) := by
      push_cast
      exact Int.mul_ediv_cancel _ (by positivity)
    rw [this]
    unfold toU32
    omega
  · have : (((q * 2 ^ L : Nat) : Int) - 4294967296) / ((2 ^ L : Nat) : Int) =
        (q : Int) - ((2 ^ (32 - L) : Nat) : Int) := by
      have e : (((q * 2 ^ L : Nat) : Int) - 4294967296) =
          ((q : Int) - ((2 ^ (32 - L) : Nat) : Int)) * ((2 ^ L : Nat) : Int) := by
        have : (4294967296 : Int) = ((2 ^ (32 - L) * 2 ^ L : Nat) : Int) := by
          rw [← e32]; rfl
        rw [this]; push_cast; ring
      rw [e]
      exact Int.mul_ediv_cancel _ (by positivity)
    rw [this]
    unfold toU32
    omega


theorem mod_find_block_set_range (md : mod_t) (hg : cache_geometry md.cache) (tag set : Int)
    (h : mod_find_block_set md tag = some set) : 0 ≤ set ∧ set < md.cache.num_sets := by
  obtain ⟨-, -, -, h4, h5⟩ := hg
  have key : ∀ x : Nat, 0 ≤ toI32 (x % md.cache.num_sets) ∧
      toI32 (x % md.cache.num_sets) < md.cache.num_sets := by
    intro x
    have := Nat.mod_lt x h4
    rw [toI32_small _ (by omega)]
    omega
  unfold mod_find_block_set at h
  split at h
  · cases h; exact key _
  · cases h; exact key _
  · cases h

theorem mod_find_block_set_low (md : mod_t) (hg : cache_geometry md.cache) (addr : Nat)
    (ha : addr < 2147483648) :
    mod_find_block_set md (mod_find_block_tag md.cache addr) =
      (spec_find_block_set md addr).map Int.ofNat := by
  have hg' := hg
  obtain ⟨h1, h2, h3, h4, h5⟩ := hg'
  rw [mod_find_block_tag_eq _ hg _ (by omega)]
  have hlt : addr / md.cache.block_size * md.cache.block_size < 2147483648 :=
    lt_of_le_of_lt (Nat.div_mul_le_self _ _) ha
  have hs : toU32 (toI32 (addr / md.cache.block_size * md.cache.block_size) >>>
      md.cache.log_block_size) = addr / md.cache.block_size := by
    rw [h2] at hlt ⊢
    rw [tag_shift _ _ h1 (by omega), if_pos hlt]
  have key : ∀ x : Nat, toI32 (x % md.cache.num_sets) = Int.ofNat (x % md.cache.num_sets) := by
    intro x
    have := Nat.mod_lt x h4
    rw [toI32_small _ (by omega)]
    rfl
  unfold mod_find_block_set spec_find_block_set
  cases md.range <;> simp only [hs, key, Option.map]

theorem mod_find_block_set_pow2 (md : mod_t) (hg : cache_geometry md.cache) (addr : Nat)
    (ha : addr < 4294967296) (lo hi k : Nat) (hr : md.range = mod_range_bounds lo hi)
    (hk : md.cache.num_sets = 2 ^ k) (hkl : k + md.cache.log_block_size ≤ 32) :
    mod_find_block_set md (mod_find_block_tag md.cache addr) =
      (spec_find_block_set md addr).map Int.ofNat := by
  have hg' := hg
  obtain ⟨h1, h2, h3, h4, h5⟩ := hg'
  rw [mod_find_block_tag_eq _ hg _ ha]
  have hlt : addr / md.cache.block_size * md.cache.block_size < 4294967296 := round_lt _ _ ha
  have key : ∀ x : Nat, toI32 (x % md.cache.num_sets) = Int.ofNat (x % md.cache.num_sets) := by
    intro x
    have := Nat.mod_lt x h4
    rw [toI32_small _ (by omega)]
    rfl
  have hs : toU32 (toI32 (addr / md.cache.block_size * md.cache.block_size) >>>
      md.cache.log_block_size) % md.cache.num_sets =
      (addr / md.cache.block_size) % md.cache.num_sets := by
    rw [h2] at hlt ⊢
    rw [tag_shift _ _ h1 hlt]
    split
    · rfl
    · rw [hk]
      have e : 4294967296 - 2 ^ (32 - md.cache.log_block_size) =
          2 ^ k * (2 ^ (32 - md.cache.log_block_size - k) * (2 ^ md.cache.log_block_size - 1)) := by
        rw [← mul_assoc, ← pow_add, Nat.mul_sub, mul_one, ← pow_add]
        have a1 : k + (32 - md.cache.log_block_size - k) = 32 - md.cache.log_block_size := by
          omega
        have a2 : 32 - md.cache.log_block_size + md.cache.log_block_size = 32 := by omega
        rw [a1, a2]
        norm_num
      rw [e, Nat.add_mul_mod_self_left]
  unfold mod_find_block_set spec_find_block_set
  rw [hr]
  simp only [key, Option.map]
  rw [hs]


theorem mod_find_block_result (md : mod_t) (addr : Nat) (way0 : Int)
    (state0 : cache_block_state_t) (set : Int)
    (h : mod_find_block_set md (mod_find_block_tag md.cache addr) = some set) :
    ∃ r, mod_find_block md addr way0 state0 = some r ∧ r.set = set ∧
      r.tag = mod_find_block_tag md.cache addr ∧
      (r.hit = true ↔
        ∃ w, w < md.cache.assoc ∧ way_hits md.cache set (mod_find_block_tag md.cache addr) w) ∧
      (r.hit = true → ∃ w : Nat, w < md.cache.assoc ∧ r.way = (w : Int) ∧
        way_hits md.cache set (mod_find_block_tag md.cache addr) w ∧
        (∀ v, v < w → ¬ way_hits md.cache set (mod_find_block_tag md.cache addr) v) ∧
        r.state = (md.cache.blocks set w).state) ∧
      (r.hit = false → r.way = way0 ∧ r.state = state0) := by
  obtain ⟨-, i2, i3, i4⟩ := mod_find_block_scan_first md.cache set
    (mod_find_block_tag md.cache addr) md.cache.assoc 0
  simp only [Nat.zero_add] at i2 i4
  unfold mod_find_block
  simp only [h]
  by_cases hw : mod_find_block_scan md.cache set (mod_find_block_tag md.cache addr)
      md.cache.assoc 0 = md.cache.assoc
  · rw [if_pos hw]
    refine ⟨_, rfl, rfl, rfl, ?_, ?_, fun _ => ⟨rfl, rfl⟩⟩
    · constructor
      · intro h; cases h
      · rintro ⟨w, hw1, hw2⟩
        exact absurd hw2 (i3 w (Nat.zero_le _) (by omega))
    · intro h; cases h
  · rw [if_neg hw]
    have hlt := lt_of_le_of_ne i2 hw
    refine ⟨_, rfl, rfl, rfl, ?_, ?_, fun h => by cases h⟩
    · exact ⟨fun _ => ⟨_, hlt, i4 hlt⟩, fun _ => rfl⟩
    · intro _
      exact ⟨_, hlt, rfl, i4 hlt, fun v hv => i3 v (Nat.zero_le _) hv, rfl⟩

theorem mod_find_block_dir_result (md : mod_t) (dir_lock : Int → Int → Bool) (addr : Nat)
    (way0 : Int) (state0 : cache_block_state_t) (set : Int)
    (h : mod_find_block_set md (mod_find_block_tag md.cache addr) = some set) :
    ∃ r, mod_find_block_dir md dir_lock addr way0 state0 = some r ∧ r.set = set ∧
      r.tag = mod_find_block_tag md.cache addr ∧
      (r.hit = true ↔ ∃ w, w < md.cache.assoc ∧
        way_hits_dir md.cache dir_lock set (mod_find_block_tag md.cache addr) w) ∧
      (r.hit = true → ∃ w : Nat, w < md.cache.assoc ∧ r.way = (w : Int) ∧
        way_hits_dir md.cache dir_lock set (mod_find_block_tag md.cache addr) w ∧
        (∀ v, v < w →
          ¬ way_hits_dir md.cache dir_lock set (mod_find_block_tag md.cache addr) v) ∧
        r.state = (md.cache.blocks set w).state) ∧
      (r.hit = false → r.way = way0 ∧ r.state = state0) := by
  obtain ⟨-, i2, i3, i4⟩ := mod_find_block_scan_dir_first md.cache dir_lock set
    (mod_find_block_tag md.cache addr) md.cache.assoc 0
  simp only [Nat.zero_add] at i2 i4
  unfold mod_find_block_dir
  simp only [h]
  by_cases hw : mod_find_block_scan_dir md.cache dir_lock set (mod_find_block_tag md.cache addr)
      md.cache.assoc 0 = md.cache.assoc
  · rw [if_pos hw]
    refine ⟨_, rfl, rfl, rfl, ?_, ?_, fun _ => ⟨rfl, rfl⟩⟩
    · constructor
      · intro h; cases h
      · rintro ⟨w, hw1, hw2⟩
        exact absurd hw2 (i3 w (Nat.zero_le _) (by omega))
    · intro h; cases h
  · rw [if_neg hw]
    have hlt := lt_of_le_of_ne i2 hw
    refine ⟨_, rfl, rfl, rfl, ?_, ?_, fun h => by cases h⟩
    · exact ⟨fun _ => ⟨_, hlt, i4 hlt⟩, fun _ => rfl⟩
    · intro _
      exact ⟨_, hlt, rfl, i4 hlt, fun v hv => i3 v (Nat.zero_le _) hv, rfl⟩

theorem mod_find_block_same_block (md : mod_t) (hg : cache_geometry md.cache)
    (dir_lock : Int → Int → Bool) (a b : Nat) (ha : a < 4294967296) (hb : b < 4294967296)
    (hab : a / md.cache.block_size = b / md.cache.block_size) (way0 : Int)
    (state0 : cache_block_state_t) :
    mod_find_block md a way0 state0 = mod_find_block md b way0 state0 ∧
    mod_find_block_dir md dir_lock a way0 state0 = mod_find_block_dir md dir_lock b way0 state0 := by
  have e : mod_find_block_tag md.cache a = mod_find_block_tag md.cache b := by
    rw [mod_find_block_tag_eq _ hg _ ha, mod_find_block_tag_eq _ hg _ hb, hab]
  unfold mod_find_block mod_find_block_dir
  rw [e]
  exact ⟨rfl, rfl⟩


theorem lookup_demo_geometry : cache_geometry lookup_demo.cache := by
  unfold cache_geometry
  decide

/-- C12: block lookup in both variants, for a cache with the geometry of
`cache_create`, a module with an address range and a 32-bit address.  The
lookup returns; its tag, read as a 32-bit pattern, is the address rounded down
to a multiple of the block size; its set is at least 0 and below `num_sets`;
the set is the one of `spec_find_block_set` for every address below 2^31, and
for every address when the mapping is by bounds and `num_sets` is a power of
two; addresses of the same block give the same result; the lookup reports a hit
exactly when some way satisfies the hit condition of the variant, and then
returns the lowest such way with its state.  The lookup is a function of the
module and the address only and returns no new cache.  From 2^31 on the tag is
a negative `int` and `tag >> log_block_size` is an arithmetic shift: on
`lookup_demo`, which serves address 2147483648, the code selects set 0 where
`((address / block_size) / num_mods) mod num_sets` is 2. -/
theorem mod_find_block_lookup (md : mod_t) (dir_lock : Int → Int → Bool) (addr : Nat)
    (way0 : Int) (state0 : cache_block_state_t) (hg : cache_geometry md.cache)
    (hr : md.range ≠ mod_range_invalid) (ha : addr < 4294967296) :
    (∃ r rd, mod_find_block md addr way0 state0 = some r ∧
      mod_find_block_dir md dir_lock addr way0 state0 = some rd ∧
      rd.tag = r.tag ∧ rd.set = r.set ∧
      toU32 r.tag = spec_find_block_tag md.cache addr ∧
      0 ≤ r.set ∧ r.set < md.cache.num_sets ∧
      (addr < 2147483648 → some r.set = (spec_find_block_set md addr).map Int.ofNat) ∧
      (∀ lo hi k, md.range = mod_range_bounds lo hi → md.cache.num_sets = 2 ^ k →
        k + md.cache.log_block_size ≤ 32 →
        some r.set = (spec_find_block_set md addr).map Int.ofNat) ∧
      (r.hit = true ↔ ∃ w, w < md.cache.assoc ∧ way_hits md.cache r.set r.tag w) ∧
      (r.hit = true → ∃ w : Nat, w < md.cache.assoc ∧ r.way = (w : Int) ∧
        way_hits md.cache r.set r.tag w ∧ (∀ v, v < w → ¬ way_hits md.cache r.set r.tag v) ∧
        r.state = (md.cache.blocks r.set w).state) ∧
      (rd.hit = true ↔ ∃ w, w < md.cache.assoc ∧ way_hits_dir md.cache dir_lock r.set r.tag w) ∧
      (rd.hit = true → ∃ w : Nat, w < md.cache.assoc ∧ rd.way = (w : Int) ∧
        way_hits_dir md.cache dir_lock r.set r.tag w ∧
        (∀ v, v < w → ¬ way_hits_dir md.cache dir_lock r.set r.tag v) ∧
        rd.state = (md.cache.blocks r.set w).state)) ∧
    (∀ b, b < 4294967296 → b / md.cache.block_size = addr / md.cache.block_size →
      mod_find_block md b way0 state0 = mod_find_block md addr way0 state0 ∧
      mod_find_block_dir md dir_lock b way0 state0 =
        mod_find_block_dir md dir_lock addr way0 state0) ∧
    (cache_geometry lookup_demo.cache ∧
      mod_serves_address lookup_demo 2147483648 = some true ∧
      (mod_find_block lookup_demo 2147483648 (-1) cache_block_invalid).map (fun r => r.set) =
        some 0 ∧
      (mod_find_block_dir lookup_demo dir_lock 2147483648 (-1) cache_block_invalid).map
        (fun r => r.set) = some 0 ∧
      spec_find_block_set lookup_demo 2147483648 = some 2) := by
  refine ⟨?_, ?_, lookup_demo_geometry, by decide, by decide, ?_, by decide⟩
  · have hset : ∃ set, mod_find_block_set md (mod_find_block_tag md.cache addr) = some set := by
      unfold mod_find_block_set
      cases hrange : md.range with
      | mod_range_invalid => exact absurd hrange hr
      | mod_range_bounds lo hi => exact ⟨_, rfl⟩
      | mod_range_interleaved a b c => exact ⟨_, rfl⟩
    obtain ⟨set, hset⟩ := hset
    obtain ⟨r, hr1, hr2, hr3, hr4, hr5, -⟩ := mod_find_block_result md addr way0 state0 set hset
    obtain ⟨rd, hd1, hd2, hd3, hd4, hd5, -⟩ :=
      mod_find_block_dir_result md dir_lock addr way0 state0 set hset
    obtain ⟨b1, b2⟩ := mod_find_block_set_range md hg _ _ hset
    refine ⟨r, rd, hr1, hd1, by rw [hd3, hr3], by rw [hd2, hr2], ?_, by rw [hr2]; exact b1,
      by rw [hr2]; exact b2, ?_, ?_, by rw [hr2, hr3]; exact hr4, by rw [hr2, hr3]; exact hr5,
      by rw [hr2, hr3]; exact hd4, by rw [hr2, hr3]; exact hd5⟩
    · rw [hr3, mod_find_block_tag_eq _ hg _ ha, toU32_toI32 _ (round_lt _ _ ha)]
      rfl
    · intro hlow
      rw [hr2, ← hset]
      exact mod_find_block_set_low md hg addr hlow
    · intro lo hi k h1 h2 h3
      rw [hr2, ← hset]
      exact mod_find_block_set_pow2 md hg addr ha lo hi k h1 h2 h3
  · intro b hb hab
    exact mod_find_block_same_block md hg dir_lock b addr hb ha hab way0 state0
  · show (mod_find_block_dir lookup_demo dir_lock 2147483648 (-1) cache_block_invalid).map
      (fun r => r.set) = some 0
    have h : mod_find_block_set lookup_demo (mod_find_block_tag lookup_demo.cache 2147483648) =
        some 0 := by decide
    obtain ⟨rd, hd1, hd2, -⟩ :=
      mod_find_block_dir_result lookup_demo dir_lock 2147483648 (-1) cache_block_invalid 0 h
    rw [hd1]
    simp [hd2]

/-- On `lookup_demo` with no directory entry locked, address 4160 is looked up
in set `((4160 / 64) / 5) mod 4 = 1`. -/
theorem mod_find_block_lookup_witness :
    cache_geometry lookup_demo.cache ∧ lookup_demo.range ≠ mod_range_invalid ∧
    4160 < 4294967296 ∧
    (∃ r, mod_find_block lookup_demo 4160 (-1) cache_block_invalid = some r ∧ r.set = 1) := by
  refine ⟨lookup_demo_geometry, by decide, by decide, ?_⟩
  obtain ⟨r, rd, h1, -, -, -, -, -, -, h2, -⟩ :=
    (mod_find_block_lookup lookup_demo (fun _ _ => false) 4160 (-1) cache_block_invalid
      lookup_demo_geometry (by decide) (by decide)).1
  refine ⟨r, h1, ?_⟩
  have h3 := h2 (by decide)
  have h4 : spec_find_block_set lookup_demo 4160 = some 1 := by decide
  rw [h4] at h3
  exact Option.some.inj h3

theorem mod_find_block_scan_tag_state (c c' : cache_t) (set tag : Int)
    (h : ∀ w : Nat, (c'.blocks set w).tag = (c.blocks set w).tag ∧
      (c'.blocks set w).state = (c.blocks set w).state) (n way : Nat) :
    mod_find_block_scan c' set tag n way = mod_find_block_scan c set tag n way := by
  induction n generalizing way with
  | zero => rfl
  | succ n ih =>
    show (if (c'.blocks set way).tag = tag ∧ (c'.blocks set way).state ≠ cache_block_invalid
        then way else mod_find_block_scan c' set tag n (way + 1)) =
      (if (c.blocks set way).tag = tag ∧ (c.blocks set way).state ≠ cache_block_invalid
        then way else mod_find_block_scan c set tag n (way + 1))
    rw [(h way).1, (h way).2, ih]

/-- The snoop variant, which consults neither the transient tag nor the entry
lock, misses on a locked way whose transient tag is the looked-up tag. -/
theorem snoop_find_block_ignores_transient_tag :
    (transient_demo.cache.blocks 1 0).transient_tag = 4160 ∧
    (transient_demo.cache.cache_lock 1 0).lock = true ∧
    mod_find_block transient_demo 4160 (-1) cache_block_invalid =
      some { hit := false, set := 1, way := -1, tag := 4160, state := cache_block_invalid } := by
  decide

/-- C13 (amended): in the directory variant a way of the addressed set whose
transient tag is the looked-up tag and whose directory entry is locked makes
the lookup a hit, whatever its tag and state; a hit is always on a way that
either holds the tag in a valid state or has a matching transient tag with the
lock held, so a matching transient tag with a free lock is not a hit on that
account.  The snoop variant reports a hit exactly when some way holds the tag
in a valid state, and its result does not depend on transient tags or entry
locks. -/
theorem transient_tag_hit (md : mod_t) (dir_lock : Int → Int → Bool) (addr : Nat) (way0 : Int)
    (state0 : cache_block_state_t) (hr : md.range ≠ mod_range_invalid) :
    ∃ r rd, mod_find_block md addr way0 state0 = some r ∧
      mod_find_block_dir md dir_lock addr way0 state0 = some rd ∧
      (∀ w : Nat, w < md.cache.assoc → (md.cache.blocks rd.set w).transient_tag = rd.tag →
        dir_lock rd.set w = true → rd.hit = true) ∧
      (rd.hit = true → ∃ w : Nat, w < md.cache.assoc ∧ rd.way = (w : Int) ∧
        (((md.cache.blocks rd.set w).tag = rd.tag ∧
            (md.cache.blocks rd.set w).state ≠ cache_block_invalid) ∨
          ((md.cache.blocks rd.set w).transient_tag = rd.tag ∧ dir_lock rd.set w = true))) ∧
      (r.hit = true ↔ ∃ w : Nat, w < md.cache.assoc ∧ (md.cache.blocks r.set w).tag = r.tag ∧
        (md.cache.blocks r.set w).state ≠ cache_block_invalid) ∧
      (∀ (tt : Int → Int → Int) (lk : Int → Int → cache_lock_t),
        mod_find_block
          { md with cache := { md.cache with
              blocks := fun s w => { md.cache.blocks s w with transient_tag := tt s w },
              cache_lock := lk } } addr way0 state0 = some r) := by
  have hset : ∃ set, mod_find_block_set md (mod_find_block_tag md.cache addr) = some set := by
    unfold mod_find_block_set
    cases hrange : md.range with
    | mod_range_invalid => exact absurd hrange hr
    | mod_range_bounds lo hi => exact ⟨_, rfl⟩
    | mod_range_interleaved a b c => exact ⟨_, rfl⟩
  obtain ⟨set, hset⟩ := hset
  obtain ⟨r, hr1, hr2, hr3, hr4, -, -⟩ := mod_find_block_result md addr way0 state0 set hset
  obtain ⟨rd, hd1, hd2, hd3, hd4, hd5, -⟩ :=
    mod_find_block_dir_result md dir_lock addr way0 state0 set hset
  refine ⟨r, rd, hr1, hd1, ?_, ?_, ?_, ?_⟩
  · intro w hw ht hl
    rw [hd2, hd3] at ht
    rw [hd2] at hl
    exact hd4.mpr ⟨w, hw, Or.inr ⟨ht, hl⟩⟩
  · intro hh
    obtain ⟨w, hw, e1, e2, -, -⟩ := hd5 hh
    rw [hd2, hd3]
    exact ⟨w, hw, e1, e2⟩
  · rw [hr2, hr3]
    exact hr4
  · intro tt lk
    rw [← hr1]
    unfold mod_find_block mod_find_block_set mod_find_block_tag
    simp only
    have e : ∀ set tag n way, mod_find_block_scan
        { md.cache with
          blocks := fun s w => { md.cache.blocks s w with transient_tag := tt s w },
          cache_lock := lk } set tag n way = mod_find_block_scan md.cache set tag n way :=
      fun set tag n way =>
        mod_find_block_scan_tag_state md.cache
          { md.cache with
            blocks := fun s w => { md.cache.blocks s w with transient_tag := tt s w },
            cache_lock := lk } set tag (fun _ => ⟨rfl, rfl⟩) n way
    simp only [e]


/-- On `transient_demo`, with the directory entry of way 0 of set 1 locked, the
directory variant hits on address 4160. -/
theorem transient_tag_hit_witness :
    transient_demo.range ≠ mod_range_invalid ∧
    ∃ rd, mod_find_block_dir transient_demo (fun s w => decide (s = 1 ∧ w = 0)) 4160 (-1)
      cache_block_invalid = some rd ∧ rd.hit = true := by
  refine ⟨by decide, ?_⟩
  obtain ⟨r, rd, -, h2, h3, -⟩ := transient_tag_hit transient_demo
    (fun s w => decide (s = 1 ∧ w = 0)) 4160 (-1) cache_block_invalid (by decide)
  have e : mod_find_block_dir transient_demo (fun s w => decide (s = 1 ∧ w = 0)) 4160 (-1)
      cache_block_invalid =
        some { hit := true, set := 1, way := 0, tag := 4160, state := cache_block_invalid } := by
    decide
  have e2 := h2.symm.trans e
  cases e2
  exact ⟨_, h2, h3 0 (by decide) (by decide) (by decide)⟩

theorem hash_index_lt (md : mod_t) (addr : Nat) : hash_index md addr < MOD_ACCESS_HASH_TABLE_SIZE :=
  Nat.mod_lt _ (by decide)

theorem hash_index_same_block (s : Sim) (m addr h : Nat) (hb : same_block s m addr h = true) :
    hash_index (s.mods m) (s.stack_tab h).addr = hash_index (s.mods m) addr := by
  unfold same_block at hb
  unfold hash_index
  rw [of_decide_eq_true hb]

/-- The search of `mod_in_flight_address` as a search of the access list. -/
theorem mod_in_flight_address_eq (s : Sim) (m addr : Nat) (o : Option Nat)
    (hok : access_index_ok s m) :
    mod_in_flight_address s m addr o =
      (s.mods m).access_list.find? (fun h => older_than s o h && same_block s m addr h) := by
  unfold mod_in_flight_address
  simp only
  rw [hok.1 _ (hash_index_lt _ _)]
  induction (s.mods m).access_list with
  | nil => rfl
  | cons a l ih =>
    by_cases hb : same_block s m addr a = true
    · have e := hash_index_same_block s m addr a hb
      have hb' := hb
      unfold same_block at hb'
      rw [List.filter_cons_of_pos (by simp [e])]
      cases o with
      | none =>
        rw [List.find?_cons_of_pos _ (by simp [of_decide_eq_true hb']),
          List.find?_cons_of_pos _ (by simp [older_than, hb])]
      | some o' =>
        by_cases hid : (s.stack_tab a).id < (s.stack_tab o').id
        · rw [List.find?_cons_of_pos _ (by simp [of_decide_eq_true hb', hid]),
            List.find?_cons_of_pos _ (by simp [older_than, hb, hid])]
        · rw [List.find?_cons_of_neg _ (by simp [hid]),
            List.find?_cons_of_neg _ (by simp [older_than, hid]), ih]
    · have hb' := hb
      unfold same_block at hb'
      have hb2 : ¬ ((s.stack_tab a).addr >>> (s.mods m).log_block_size =
          addr >>> (s.mods m).log_block_size) := fun e => hb' (decide_eq_true e)
      rw [List.find?_cons_of_neg (l := l) (a := a)
        (p := fun h => older_than s o h && same_block s m addr h) (by simp [hb]), ← ih]
      by_cases hh : hash_index (s.mods m) (s.stack_tab a).addr = hash_index (s.mods m) addr
      · rw [List.filter_cons_of_pos (by simp [hh]), List.find?_cons_of_neg _ (by simp [hb2])]
      · rw [List.filter_cons_of_neg (by simp [hh])]


/-- C20: `mod_in_flight_address` on a module whose accesses are recorded
consistently.  It returns nothing exactly when no in-flight access to the block
of `addr` is older than `older_than_stack` (or when none exists at all, if
`older_than_stack` is absent).  When it returns an access, that access is in
flight, targets the block and is older than `older_than_stack`, and it has the
least id among such accesses: the bucket is scanned from its head, where
`mod_access_start` put the oldest access.  After three back-to-back Loads of
address 4160 (ids 1, 2, 3) the function returns the Load with id 1 both without
`older_than_stack` (the youngest has id 3) and for the Load with id 3 as
`older_than_stack` (the youngest older one has id 2). -/
theorem mod_in_flight_address_oldest (s : Sim) (m addr : Nat) (o : Option Nat)
    (hok : access_index_ok s m) :
    (mod_in_flight_address s m addr o = none ↔
      ∀ h ∈ (s.mods m).access_list,
        ¬ (older_than s o h = true ∧ same_block s m addr h = true)) ∧
    (∀ r, mod_in_flight_address s m addr o = some r →
      r ∈ (s.mods m).access_list ∧ older_than s o r = true ∧ same_block s m addr r = true ∧
      ∀ h ∈ (s.mods m).access_list, older_than s o h = true → same_block s m addr h = true →
        (s.stack_tab r).id ≤ (s.stack_tab h).id) ∧
    (access_index_ok three_loads 0 ∧ (three_loads.mods 0).access_list = [0, 1, 2] ∧
      (three_loads.stack_tab 0).id = 1 ∧ (three_loads.stack_tab 1).id = 2 ∧
      (three_loads.stack_tab 2).id = 3 ∧
      (∀ h ∈ [0, 1, 2], same_block three_loads 0 4160 h = true) ∧
      mod_in_flight_address three_loads 0 4160 none = some 0 ∧
      mod_in_flight_address three_loads 0 4160 (some 2) = some 0) := by
  refine ⟨?_, ?_, by decide⟩
  · rw [mod_in_flight_address_eq s m addr o hok, List.find?_eq_none]
    simp only [Bool.and_eq_true]
  · intro r hr
    rw [mod_in_flight_address_eq s m addr o hok, List.find?_eq_some] at hr
    obtain ⟨hp, pre, post, hl, hpre⟩ := hr
    simp only [Bool.and_eq_true] at hp
    refine ⟨by rw [hl]; simp, hp.1, hp.2, ?_⟩
    intro h hh h1 h2
    rw [hl] at hh
    rcases List.mem_append.mp hh with h3 | h3
    · have := hpre h h3
      simp [h1, h2] at this
    · rcases List.mem_cons.mp h3 with h4 | h4
      · rw [h4]
      · have hpw := hok.2
        rw [hl] at hpw
        have := (List.pairwise_cons.mp (List.pairwise_append.mp hpw).2.1).1 h h4
        exact le_of_lt this

/-- On `three_loads` the lookup for address 4160 returns an access of the
module. -/
theorem mod_in_flight_address_oldest_witness :
    access_index_ok three_loads 0 ∧ 0 ∈ (three_loads.mods 0).access_list :=
  ⟨by decide, ((mod_in_flight_address_oldest three_loads 0 4160 none (by decide)).2.1 0
    (by decide)).1⟩

theorem takeWhile_ne_split (l : List Nat) (o : Nat) (h : o ∈ l) :
    ∃ post, l = l.takeWhile (fun x => x != o) ++ o :: post := by
  induction l with
  | nil => cases h
  | cons a l ih =>
    by_cases e : a = o
    · subst e
      exact ⟨l, by simp⟩
    · have hm : o ∈ l := by
        rcases List.mem_cons.mp h with h1 | h1
        · exact absurd h1.symm e
        · exact h1
      obtain ⟨post, hp⟩ := ih hm
      refine ⟨post, ?_⟩
      rw [List.takeWhile_cons_of_pos (by simp [e])]
      simp only [List.cons_append]
      rw [← hp]

/-- The walk `tail, tail->access_list_prev, ...` of `mod_can_coalesce` visits
the accesses issued before the caller, latest first. -/
theorem chain_eq (s : Sim) (m : Nat) (o : Option Nat) (ho : caller_in_flight s m o) :
    coalesce_chain s m o = (issued_before s m o).reverse := by
  cases o with
  | none => rfl
  | some o' =>
    have := ho o' rfl
    simp only [coalesce_chain, prev_chain, issued_before]
    rw [if_pos (by simpa using this)]

/-- Among the in-flight accesses of a module recorded consistently, those with
an id below the caller's are those issued before it. -/
theorem older_than_iff (s : Sim) (m : Nat) (o : Option Nat) (hok : access_index_ok s m)
    (ho : caller_in_flight s m o) (h : Nat) (hh : h ∈ (s.mods m).access_list) :
    older_than s o h = true ↔ h ∈ issued_before s m o := by
  cases o with
  | none => simp [older_than, issued_before, hh]
  | some o' =>
    obtain ⟨post, hp⟩ := takeWhile_ne_split _ o' (ho o' rfl)
    have hpw := hok.2
    rw [hp] at hpw
    obtain ⟨-, h2, h3⟩ := List.pairwise_append.mp hpw
    have h2' := List.pairwise_cons.mp h2
    simp only [older_than, issued_before, decide_eq_true_eq]
    constructor
    · intro hid
      rw [hp] at hh
      rcases List.mem_append.mp hh with h4 | h4
      · exact h4
      · rcases List.mem_cons.mp h4 with h5 | h5
        · rw [h5] at hid; exact absurd hid (lt_irrefl _)
        · exact absurd (h2'.1 h h5) (not_lt.mpr (le_of_lt hid))
    · intro hm
      exact h3 h hm o' (List.mem_cons_self _ _)

theorem issued_before_sub (s : Sim) (m : Nat) (o : Option Nat) (h : Nat)
    (hh : h ∈ issued_before s m o) : h ∈ (s.mods m).access_list := by
  cases o with
  | none => exact hh
  | some o' => exact (List.takeWhile_sublist _).subset hh

/-- The hash-table check at the head of `mod_can_coalesce` fails exactly when no
access issued before the caller targets the block. -/
theorem in_flight_none_iff (s : Sim) (m addr : Nat) (o : Option Nat)
    (hok : access_index_ok s m) (ho : caller_in_flight s m o) :
    (mod_in_flight_address s m addr o).isNone = true ↔
      ∀ h ∈ issued_before s m o, same_block s m addr h = false := by
  rw [Option.isNone_iff_eq_none, mod_in_flight_address_eq s m addr o hok, List.find?_eq_none]
  constructor
  · intro h1 h hh
    have := h1 h (issued_before_sub s m o h hh)
    rw [Bool.and_eq_true, (older_than_iff s m o hok ho h (issued_before_sub s m o h hh))] at this
    cases hb : same_block s m addr h
    · rfl
    · exact absurd ⟨hh, hb⟩ this
  · intro h1 h hh hp
    rw [Bool.and_eq_true, older_than_iff s m o hok ho h hh] at hp
    rw [h1 h hp.1] at hp
    exact absurd hp.2 (by decide)


theorem go_nil (s : Sim) (sb : Nat → Bool) (ms : Nat → Nat) :
    mod_can_coalesce.go s sb ms [] = none := rfl

theorem go_cons (s : Sim) (sb : Nat → Bool) (ms : Nat → Nat) (w : Nat) (rest : List Nat) :
    mod_can_coalesce.go s sb ms (w :: rest) =
      if (s.stack_tab w).access_kind ≠ mod_access_load ∧
          (s.stack_tab w).access_kind ≠ mod_access_prefetch then none
      else if sb w = true then some (ms w) else mod_can_coalesce.go s sb ms rest := rfl

theorem load_or_prefetch_iff (s : Sim) (w : Nat) :
    load_or_prefetch s w = true ↔
      ¬ ((s.stack_tab w).access_kind ≠ mod_access_load ∧
        (s.stack_tab w).access_kind ≠ mod_access_prefetch) := by
  unfold load_or_prefetch
  simp only [Bool.or_eq_true, decide_eq_true_eq]
  tauto

/-- The Load walk of `mod_can_coalesce` over a chain `c` (latest access first). -/
theorem go_some_iff (s : Sim) (sb : Nat → Bool) (ms : Nat → Nat) (c : List Nat) (r : Nat) :
    mod_can_coalesce.go s sb ms c = some r ↔
      ∃ post x pre, c = post ++ x :: pre ∧
        (∀ y ∈ post, load_or_prefetch s y = true ∧ sb y = false) ∧
        load_or_prefetch s x = true ∧ sb x = true ∧ r = ms x := by
  induction c with
  | nil =>
    rw [go_nil]
    constructor
    · intro h; cases h
    · rintro ⟨post, x, pre, h, -⟩
      cases post <;> cases h
  | cons w rest ih =>
    rw [go_cons]
    by_cases hlp : load_or_prefetch s w = true
    · rw [if_neg ((load_or_prefetch_iff s w).mp hlp)]
      by_cases hsb : sb w = true
      · rw [if_pos hsb]
        constructor
        · intro h
          cases h
          exact ⟨[], w, rest, rfl, fun y hy => (by cases hy), hlp, hsb, rfl⟩
        · rintro ⟨post, x, pre, h, hpost, -, -, hr⟩
          cases post with
          | nil =>
            simp only [List.nil_append, List.cons.injEq] at h
            rw [hr, h.1]
          | cons a post =>
            simp only [List.cons_append, List.cons.injEq] at h
            have := (hpost a (List.mem_cons_self _ _)).2
            rw [← h.1, hsb] at this
            cases this
      · rw [if_neg hsb, ih]
        constructor
        · rintro ⟨post, x, pre, h, hpost, hx⟩
          refine ⟨w :: post, x, pre, by rw [h]; rfl, ?_, hx⟩
          intro y hy
          rcases List.mem_cons.mp hy with e | e
          · rw [e]; exact ⟨hlp, by simpa using hsb⟩
          · exact hpost y e
        · rintro ⟨post, x, pre, h, hpost, hx1, hx2, hr⟩
          cases post with
          | nil =>
            simp only [List.nil_append, List.cons.injEq] at h
            rw [← h.1] at hx2
            exact absurd hx2 hsb
          | cons a post =>
            simp only [List.cons_append, List.cons.injEq] at h
            exact ⟨post, x, pre, h.2, fun y hy => hpost y (List.mem_cons_of_mem _ hy),
              hx1, hx2, hr⟩
    · rw [if_pos (by
        have := (load_or_prefetch_iff s w).not.mp hlp
        exact not_not.mp this)]
      constructor
      · intro h; cases h
      · rintro ⟨post, x, pre, h, hpost, hx1, -⟩
        cases post with
        | nil =>
          simp only [List.nil_append, List.cons.injEq] at h
          rw [← h.1] at hx1
          exact absurd hx1 hlp
        | cons a post =>
          simp only [List.cons_append, List.cons.injEq] at h
          have := (hpost a (List.mem_cons_self _ _)).1
          rw [← h.1] at this
          exact absurd this hlp

/-- The Load walk over the accesses `xs` in issue order. -/
theorem go_reverse_some_iff (s : Sim) (sb : Nat → Bool) (ms : Nat → Nat) (xs : List Nat)
    (r : Nat) :
    mod_can_coalesce.go s sb ms xs.reverse = some r ↔
      ∃ pre x post, xs = pre ++ x :: post ∧ sb x = true ∧
        (∀ y ∈ post, sb y = false) ∧
        (∀ y ∈ x :: post, load_or_prefetch s y = true) ∧ r = ms x := by
  rw [go_some_iff]
  constructor
  · rintro ⟨post, x, pre, h, hpost, hx1, hx2, hr⟩
    refine ⟨pre.reverse, x, post.reverse, ?_, hx2, ?_, ?_, hr⟩
    · have := congrArg List.reverse h
      simpa using this
    · intro y hy
      exact (hpost y (List.mem_reverse.mp hy)).2
    · intro y hy
      rcases List.mem_cons.mp hy with e | e
      · rw [e]; exact hx1
      · exact (hpost y (List.mem_reverse.mp e)).1
  · rintro ⟨pre, x, post, h, hx2, hpost, hlp, hr⟩
    refine ⟨post.reverse, x, pre.reverse, by rw [h]; simp, ?_, hlp x (List.mem_cons_self _ _),
      hx2, hr⟩
    intro y hy
    have hy' := List.mem_reverse.mp hy
    exact ⟨hlp y (List.mem_cons_of_mem _ hy'), hpost y hy'⟩

/-- The last element of a list that satisfies `p`. -/
theorem last_split (p : Nat → Bool) (l : List Nat) (h : ∃ x ∈ l, p x = true) :
    ∃ pre x post, l = pre ++ x :: post ∧ p x = true ∧ ∀ y ∈ post, p y = false := by
  induction l with
  | nil => obtain ⟨x, hx, -⟩ := h; cases hx
  | cons a l ih =>
    by_cases hl : ∃ x ∈ l, p x = true
    · obtain ⟨pre, x, post, e, h1, h2⟩ := ih hl
      exact ⟨a :: pre, x, post, by rw [e]; rfl, h1, h2⟩
    · obtain ⟨x, hx, hpx⟩ := h
      rcases List.mem_cons.mp hx with e | e
      · refine ⟨[], a, l, rfl, by rw [← e]; exact hpx, ?_⟩
        intro y hy
        cases hb : p y
        · rfl
        · exact absurd ⟨y, hy, hb⟩ hl
      · exact absurd ⟨x, e, hpx⟩ hl


theorem mod_can_coalesce_unfold (s : Sim) (m : Nat) (kind : mod_access_kind_t) (addr : Nat)
    (o : Option Nat) :
    mod_can_coalesce s m kind addr o =
      if (mod_in_flight_address s m addr o).isNone then none
      else
        match kind with
        | mod_access_load =>
          mod_can_coalesce.go s (same_block s m addr) (master_of s)
            (coalesce_chain s m o)
        | mod_access_store =>
          match coalesce_chain s m o with
          | [] => none
          | h :: _ =>
            if (s.stack_tab h).access_kind ≠ mod_access_store then none
            else if !same_block s m addr h then none
            else if (s.stack_tab h).port_locked then none
            else some (master_of s h)
        | mod_access_nc_store =>
          match coalesce_chain s m o with
          | [] => none
          | h :: _ =>
            if (s.stack_tab h).access_kind ≠ mod_access_nc_store then none
            else if !same_block s m addr h then none
            else if (s.stack_tab h).port_locked then none
            else some (master_of s h)
        | mod_access_prefetch =>
          (coalesce_chain s m o).find? (same_block s m addr)
        | mod_access_invalid => none := rfl


theorem last_split_unique (p : Nat → Bool) (pre pre' post post' : List Nat) (x x' : Nat)
    (h : pre ++ x :: post = pre' ++ x' :: post') (hx : p x = true) (hx' : p x' = true)
    (hpost : ∀ y ∈ post, p y = false) (hpost' : ∀ y ∈ post', p y = false) :
    x = x' ∧ post = post' := by
  rcases List.append_eq_append_iff.mp h with ⟨a, -, h2⟩ | ⟨a, -, h2⟩
  · cases a with
    | nil =>
      simp only [List.nil_append, List.cons.injEq] at h2
      exact ⟨h2.1, h2.2⟩
    | cons b a =>
      simp only [List.cons_append, List.cons.injEq] at h2
      have := hpost x' (by rw [h2.2]; simp)
      rw [hx'] at this
      cases this
  · cases a with
    | nil =>
      simp only [List.nil_append, List.cons.injEq] at h2
      exact ⟨h2.1.symm, h2.2.symm⟩
    | cons b a =>
      simp only [List.cons_append, List.cons.injEq] at h2
      have := hpost' x (by rw [h2.2]; simp)
      rw [hx] at this
      cases this

theorem mod_can_coalesce_load_iff (s : Sim) (m addr : Nat) (o : Option Nat)
    (hok : access_index_ok s m) (ho : caller_in_flight s m o) (r : Nat) :
    mod_can_coalesce s m mod_access_load addr o = some r ↔
      ∃ pre x post, issued_before s m o = pre ++ x :: post ∧ same_block s m addr x = true ∧
        (∀ y ∈ post, same_block s m addr y = false) ∧
        (∀ y ∈ x :: post, load_or_prefetch s y = true) ∧ r = master_of s x := by
  rw [mod_can_coalesce_unfold]
  by_cases hpre : (mod_in_flight_address s m addr o).isNone = true
  · rw [if_pos hpre]
    constructor
    · intro h; cases h
    · rintro ⟨pre, x, post, e, hx, -⟩
      have := (in_flight_none_iff s m addr o hok ho).mp hpre x (by rw [e]; simp)
      rw [hx] at this
      cases this
  · rw [if_neg hpre]
    simp only
    rw [chain_eq s m o ho, go_reverse_some_iff]

/-- C14: the Load coalescing rule, on a module whose accesses are recorded
consistently and for a caller that is in flight.  With `x1..xn` the accesses
issued before the caller, `mod_can_coalesce` for a Load returns `r` exactly
when `r` is the master of the most recent access to the block and that access
and every access issued after it are Loads or Prefetches; it returns a master
exactly when some access to the block is followed only by Loads and Prefetches
and is one itself; a Store or NCStore issued after the most recent access to
the block makes the result empty. -/
theorem load_coalescing_rule (s : Sim) (m addr : Nat) (o : Option Nat)
    (hok : access_index_ok s m) (ho : caller_in_flight s m o) :
    (∀ r, mod_can_coalesce s m mod_access_load addr o = some r ↔
      ∃ pre x post, issued_before s m o = pre ++ x :: post ∧ same_block s m addr x = true ∧
        (∀ y ∈ post, same_block s m addr y = false) ∧
        (∀ y ∈ x :: post, load_or_prefetch s y = true) ∧ r = master_of s x) ∧
    ((mod_can_coalesce s m mod_access_load addr o).isSome = true ↔
      ∃ pre x post, issued_before s m o = pre ++ x :: post ∧ same_block s m addr x = true ∧
        (∀ y ∈ x :: post, load_or_prefetch s y = true)) ∧
    (∀ pre x post, issued_before s m o = pre ++ x :: post → same_block s m addr x = true →
      (∀ y ∈ post, same_block s m addr y = false) →
      (∃ y ∈ post, (s.stack_tab y).access_kind = mod_access_store ∨
        (s.stack_tab y).access_kind = mod_access_nc_store) →
      mod_can_coalesce s m mod_access_load addr o = none) := by
  refine ⟨mod_can_coalesce_load_iff s m addr o hok ho, ?_, ?_⟩
  · rw [Option.isSome_iff_exists]
    constructor
    · rintro ⟨r, hr⟩
      obtain ⟨pre, x, post, e, h1, -, h3, -⟩ :=
        (mod_can_coalesce_load_iff s m addr o hok ho r).mp hr
      exact ⟨pre, x, post, e, h1, h3⟩
    · rintro ⟨pre, x, post, e, h1, h3⟩
      obtain ⟨pre', x', post', e', h1', h2'⟩ :=
        last_split (same_block s m addr) (x :: post) ⟨x, List.mem_cons_self _ _, h1⟩
      refine ⟨master_of s x', (mod_can_coalesce_load_iff s m addr o hok ho _).mpr
        ⟨pre ++ pre', x', post', ?_, h1', h2', ?_, rfl⟩⟩
      · rw [e, e', List.append_assoc]
      · intro y hy
        exact h3 y (by rw [e']; exact List.mem_append_right _ hy)
  · intro pre x post e h1 h2 ⟨y, hy, hk⟩
    cases hres : mod_can_coalesce s m mod_access_load addr o with
    | none => rfl
    | some r =>
      obtain ⟨pre', x', post', e', h1', h2', h3', -⟩ :=
        (mod_can_coalesce_load_iff s m addr o hok ho r).mp hres
      obtain ⟨-, hp⟩ := last_split_unique (same_block s m addr) pre pre' post post' x x'
        (e.symm.trans e') h1 h1' h2 h2'
      have := h3' y (List.mem_cons_of_mem _ (hp ▸ hy))
      unfold load_or_prefetch at this
      rcases hk with hk | hk <;> rw [hk] at this <;> cases this


/-- On `three_loads`, a Load of address 4160 issued after the Loads 0 and 1 is
given the master of Load 1, which is Load 0. -/
theorem load_coalescing_rule_witness :
    access_index_ok three_loads 0 ∧ caller_in_flight three_loads 0 (some 2) ∧
    mod_can_coalesce three_loads 0 mod_access_load 4160 (some 2) = some 0 :=
  ⟨by decide, by decide,
    ((load_coalescing_rule three_loads 0 4160 (some 2) (by decide) (by decide)).1 0).mpr
      ⟨[0], 1, [], by decide, by decide, by decide, by decide, by decide⟩⟩

theorem reverse_eq_cons_iff (xs : List Nat) (t : Nat) (rest : List Nat) :
    xs.reverse = t :: rest ↔ xs = rest.reverse ++ [t] := by
  constructor
  · intro h
    have := congrArg List.reverse h
    simpa using this
  · intro h
    rw [h]; simp

theorem mod_can_coalesce_store_iff (s : Sim) (m addr : Nat) (o : Option Nat)
    (hok : access_index_ok s m) (ho : caller_in_flight s m o) (r : Nat) :
    mod_can_coalesce s m mod_access_store addr o = some r ↔
      ∃ pre t, issued_before s m o = pre ++ [t] ∧
        (s.stack_tab t).access_kind = mod_access_store ∧ same_block s m addr t = true ∧
        (s.stack_tab t).port_locked = false ∧ r = master_of s t := by
  rw [mod_can_coalesce_unfold]
  by_cases hpre : (mod_in_flight_address s m addr o).isNone = true
  · rw [if_pos hpre]
    constructor
    · intro h; cases h
    · rintro ⟨pre, t, e, -, hx, -⟩
      have := (in_flight_none_iff s m addr o hok ho).mp hpre t (by rw [e]; simp)
      rw [hx] at this
      cases this
  · rw [if_neg hpre]
    simp only
    rw [chain_eq s m o ho]
    cases hc : (issued_before s m o).reverse with
    | nil =>
      simp only
      constructor
      · intro h; cases h
      · rintro ⟨pre, t, e, -⟩
        rw [e] at hc
        simp at hc
    | cons t rest =>
      have e := (reverse_eq_cons_iff _ _ _).mp hc
      simp only
      constructor
      · intro h
        by_cases h1 : (s.stack_tab t).access_kind = mod_access_store
        · cases h2 : same_block s m addr t
          · simp [h1, h2] at h
          · cases h3 : (s.stack_tab t).port_locked
            · simp [h1, h2, h3] at h
              exact ⟨rest.reverse, t, e, h1, h2, h3, h.symm⟩
            · simp [h1, h2, h3] at h
        · simp [h1] at h
      · rintro ⟨pre, t', e', h1, h2, h3, hr⟩
        rw [e] at e'
        have ht : t = t' := by
          have := List.append_inj' e' rfl
          simpa using this.2
        subst ht
        simp [h1, h2, h3, hr]

theorem mod_can_coalesce_nc_store_iff (s : Sim) (m addr : Nat) (o : Option Nat)
    (hok : access_index_ok s m) (ho : caller_in_flight s m o) (r : Nat) :
    mod_can_coalesce s m mod_access_nc_store addr o = some r ↔
      ∃ pre t, issued_before s m o = pre ++ [t] ∧
        (s.stack_tab t).access_kind = mod_access_nc_store ∧ same_block s m addr t = true ∧
        (s.stack_tab t).port_locked = false ∧ r = master_of s t := by
  rw [mod_can_coalesce_unfold]
  by_cases hpre : (mod_in_flight_address s m addr o).isNone = true
  · rw [if_pos hpre]
    constructor
    · intro h; cases h
    · rintro ⟨pre, t, e, -, hx, -⟩
      have := (in_flight_none_iff s m addr o hok ho).mp hpre t (by rw [e]; simp)
      rw [hx] at this
      cases this
  · rw [if_neg hpre]
    simp only
    rw [chain_eq s m o ho]
    cases hc : (issued_before s m o).reverse with
    | nil =>
      simp only
      constructor
      · intro h; cases h
      · rintro ⟨pre, t, e, -⟩
        rw [e] at hc
        simp at hc
    | cons t rest =>
      have e := (reverse_eq_cons_iff _ _ _).mp hc
      simp only
      constructor
      · intro h
        by_cases h1 : (s.stack_tab t).access_kind = mod_access_nc_store
        · cases h2 : same_block s m addr t
          · simp [h1, h2] at h
          · cases h3 : (s.stack_tab t).port_locked
            · simp [h1, h2, h3] at h
              exact ⟨rest.reverse, t, e, h1, h2, h3, h.symm⟩
            · simp [h1, h2, h3] at h
        · simp [h1] at h
      · rintro ⟨pre, t', e', h1, h2, h3, hr⟩
        rw [e] at e'
        have ht : t = t' := by
          have := List.append_inj' e' rfl
          simpa using this.2
        subst ht
        simp [h1, h2, h3, hr]


/-- C15: the Store and NCStore coalescing rule, on a module whose accesses are
recorded consistently and for a caller that is in flight.  For kind Store
(NCStore) `mod_can_coalesce` returns `r` exactly when the most recent access
issued before the caller is a Store (NCStore) to the block whose `port_locked`
flag is clear and `r` is its master, the access itself when it is not
coalesced.  The result is decided by that one access, whatever was issued
before it, and nothing is returned when no access was issued before the
caller; in particular a Store gets nothing from an NCStore and an NCStore
nothing from a Store. -/
theorem store_coalescing_rule (s : Sim) (m addr : Nat) (o : Option Nat)
    (kind : mod_access_kind_t) (hok : access_index_ok s m) (ho : caller_in_flight s m o)
    (hk : kind = mod_access_store ∨ kind = mod_access_nc_store) :
    (∀ r, mod_can_coalesce s m kind addr o = some r ↔
      ∃ pre t, issued_before s m o = pre ++ [t] ∧ (s.stack_tab t).access_kind = kind ∧
        same_block s m addr t = true ∧ (s.stack_tab t).port_locked = false ∧
        r = master_of s t) ∧
    (issued_before s m o = [] → mod_can_coalesce s m kind addr o = none) ∧
    (∀ pre t, issued_before s m o = pre ++ [t] →
      mod_can_coalesce s m kind addr o =
        if (s.stack_tab t).access_kind = kind ∧ same_block s m addr t = true ∧
            (s.stack_tab t).port_locked = false
        then some (master_of s t) else none) := by
  have key : ∀ r, mod_can_coalesce s m kind addr o = some r ↔
      ∃ pre t, issued_before s m o = pre ++ [t] ∧ (s.stack_tab t).access_kind = kind ∧
        same_block s m addr t = true ∧ (s.stack_tab t).port_locked = false ∧
        r = master_of s t := by
    intro r
    rcases hk with hk | hk
    · rw [hk]; exact mod_can_coalesce_store_iff s m addr o hok ho r
    · rw [hk]; exact mod_can_coalesce_nc_store_iff s m addr o hok ho r
  refine ⟨key, ?_, ?_⟩
  · intro he
    cases hres : mod_can_coalesce s m kind addr o with
    | none => rfl
    | some r =>
      obtain ⟨pre, t, e, -⟩ := (key r).mp hres
      rw [he] at e
      simp at e
  · intro pre t e
    by_cases hc : (s.stack_tab t).access_kind = kind ∧ same_block s m addr t = true ∧
        (s.stack_tab t).port_locked = false
    · rw [if_pos hc]
      exact (key _).mpr ⟨pre, t, e, hc.1, hc.2.1, hc.2.2, rfl⟩
    · rw [if_neg hc]
      cases hres : mod_can_coalesce s m kind addr o with
      | none => rfl
      | some r =>
        obtain ⟨pre', t', e', h1, h2, h3, -⟩ := (key r).mp hres
        rw [e] at e'
        have ht : t = t' := by
          have := List.append_inj' e' rfl
          simpa using this.2
        subst ht
        exact absurd ⟨h1, h2, h3⟩ hc

/-- On `two_stores`, a Store of address 4160 issued after Store 0, whose port is
not locked yet, is given Store 0. -/
theorem store_coalescing_rule_witness :
    access_index_ok two_stores 0 ∧ caller_in_flight two_stores 0 (some 1) ∧
    (mod_access_store = mod_access_store ∨ mod_access_store = mod_access_nc_store) ∧
    mod_can_coalesce two_stores 0 mod_access_store 4160 (some 1) = some 0 :=
  ⟨by decide, by decide, Or.inl rfl,
    ((store_coalescing_rule two_stores 0 4160 (some 1) mod_access_store (by decide) (by decide)
      (Or.inl rfl)).1 0).mpr ⟨[], 0, by decide, by decide, by decide, by decide, by decide⟩⟩

theorem coalesce_chain_sub (s : Sim) (m h x : Nat) (hx : x ∈ coalesce_chain s m (some h)) :
    x ∈ (s.mods m).access_list ∧ x ≠ h := by
  simp only [coalesce_chain, prev_chain] at hx
  split at hx
  · rw [List.mem_reverse] at hx
    refine ⟨(List.takeWhile_sublist _).subset hx, ?_⟩
    have := List.mem_takeWhile_imp hx
    simpa using this
  · cases hx

/-- A master returned for a Load, Store or NCStore is the master of an access
of the chain walked. -/
theorem mod_can_coalesce_master (s : Sim) (m : Nat) (kind : mod_access_kind_t) (addr : Nat)
    (o : Option Nat) (r : Nat)
    (hk : kind = mod_access_load ∨ kind = mod_access_store ∨ kind = mod_access_nc_store)
    (h : mod_can_coalesce s m kind addr o = some r) :
    ∃ x ∈ coalesce_chain s m o, r = master_of s x := by
  rw [mod_can_coalesce_unfold] at h
  split at h
  · cases h
  · rcases hk with hk | hk | hk
    · subst hk
      simp only at h
      obtain ⟨post, x, pre, e, -, -, -, hr⟩ := (go_some_iff s _ _ _ r).mp h
      exact ⟨x, by rw [e]; simp, hr⟩
    · subst hk
      simp only at h
      cases hc : coalesce_chain s m o with
      | nil => rw [hc] at h; cases h
      | cons t rest =>
        rw [hc] at h
        simp only at h
        split at h
        · cases h
        · split at h
          · cases h
          · split at h
            · cases h
            · exact ⟨t, List.mem_cons_self _ _, (Option.some.inj h).symm⟩
    · subst hk
      simp only at h
      cases hc : coalesce_chain s m o with
      | nil => rw [hc] at h; cases h
      | cons t rest =>
        rw [hc] at h
        simp only at h
        split at h
        · cases h
        · split at h
          · cases h
          · split at h
            · cases h
            · exact ⟨t, List.mem_cons_self _ _, (Option.some.inj h).symm⟩

theorem master_of_no_master (s : Sim)
    (hA : ∀ h mst, (s.stack_tab h).master_stack = some mst →
      (s.stack_tab mst).master_stack = none ∧ mst < s.next_stack) (x : Nat) :
    (s.stack_tab (master_of s x)).master_stack = none := by
  unfold master_of
  cases h : (s.stack_tab x).master_stack with
  | none => simpa using h
  | some y => simpa using (hA x y h).1

theorem access_started_stack (s : Sim) (m : Nat) (kind : mod_access_kind_t) (addr x : Nat) :
    (access_started s m kind addr).stack_tab x =
      if x = s.next_stack then
        { mod_stack_zero with
          id := s.mod_stack_id + 1, mod := m, addr := addr, ret_event := ESIM_EV_NONE,
          ret_stack := none, way := -1, set := -1, tag := -1, access_kind := kind }
      else s.stack_tab x := by
  simp only [access_started, mod_access_start, mod_stack_create, Sim.setStack, Sim.setMod, upd]
  by_cases h : x = s.next_stack
  · simp [h]
  · simp [h]

theorem access_started_mod (s : Sim) (m : Nat) (kind : mod_access_kind_t) (addr : Nat) :
    ((access_started s m kind addr).mods m).access_list =
      (s.mods m).access_list ++ [s.next_stack] ∧
    ((access_started s m kind addr).mods m).access_hash_table =
      upd (s.mods m).access_hash_table (hash_index (s.mods m) addr)
        ((s.mods m).access_hash_table (hash_index (s.mods m) addr) ++ [s.next_stack]) ∧
    ((access_started s m kind addr).mods m).log_block_size = (s.mods m).log_block_size ∧
    (access_started s m kind addr).next_stack = s.next_stack + 1 ∧
    (access_started s m kind addr).mod_stack_id = s.mod_stack_id + 1 ∧
    (access_started s m kind addr).assert_log = s.assert_log := by
  simp [access_started, mod_access_start, mod_stack_create, Sim.setStack, Sim.setMod, upd,
    hash_index]

theorem access_issue_eq (s : Sim) (m : Nat) (kind : mod_access_kind_t) (addr : Nat) :
    access_issue s m kind addr =
      (match mod_can_coalesce (access_started s m kind addr) m kind
          ((access_started s m kind addr).stack_tab s.next_stack).addr (some s.next_stack) with
        | some master_stack =>
          if kind = mod_access_prefetch then access_started s m kind addr
          else mod_coalesce (access_started s m kind addr) m master_stack s.next_stack
        | none => access_started s m kind addr) := rfl


theorem hash_index_congr (md md' : mod_t) (h : md'.log_block_size = md.log_block_size)
    (addr : Nat) : hash_index md' addr = hash_index md addr := by
  unfold hash_index
  rw [h]

/-- The access index invariant only reads the access list, the hash table, the
block size and the addresses and ids of the stacks. -/
theorem access_index_ok_congr (s s' : Sim) (m : Nat)
    (hl : (s'.mods m).access_list = (s.mods m).access_list)
    (ht : (s'.mods m).access_hash_table = (s.mods m).access_hash_table)
    (hb : (s'.mods m).log_block_size = (s.mods m).log_block_size)
    (ha : ∀ x, (s'.stack_tab x).addr = (s.stack_tab x).addr)
    (hi : ∀ x, (s'.stack_tab x).id = (s.stack_tab x).id)
    (hok : access_index_ok s m) : access_index_ok s' m := by
  obtain ⟨h1, h2⟩ := hok
  refine ⟨?_, ?_⟩
  · intro i hi'
    rw [ht, hl, h1 i hi']
    apply List.filter_congr
    intro x _
    rw [ha, hash_index_congr _ _ hb]
  · rw [hl]
    exact h2.imp (fun {a b} hab => by rw [hi, hi]; exact hab)

theorem access_started_inv (s : Sim) (m : Nat) (kind : mod_access_kind_t) (addr : Nat)
    (hinv : coalesce_inv s m) :
    coalesce_inv (access_started s m kind addr) m ∧
    (∀ x mst, ((access_started s m kind addr).stack_tab x).master_stack = some mst →
      mst < s.next_stack) ∧
    (∀ x ∈ (s.mods m).access_list, x < s.next_stack) := by
  obtain ⟨hA, hL, ⟨hC, hP⟩, hlog⟩ := hinv
  obtain ⟨e1, e2, e3, e4, e5, e6⟩ := access_started_mod s m kind addr
  have hst := access_started_stack s m kind addr
  have hold : ∀ x, x < s.next_stack →
      (access_started s m kind addr).stack_tab x = s.stack_tab x := by
    intro x hx
    rw [hst, if_neg (by omega)]
  have hnew : ((access_started s m kind addr).stack_tab s.next_stack).master_stack = none ∧
      ((access_started s m kind addr).stack_tab s.next_stack).id = s.mod_stack_id + 1 ∧
      ((access_started s m kind addr).stack_tab s.next_stack).addr = addr := by
    rw [hst, if_pos rfl]
    exact ⟨rfl, rfl, rfl⟩
  have hm : ∀ x mst, ((access_started s m kind addr).stack_tab x).master_stack = some mst →
      (s.stack_tab x).master_stack = some mst := by
    intro x mst h
    by_cases hx : x = s.next_stack
    · rw [hx, hnew.1] at h
      cases h
    · rw [hst, if_neg hx] at h
      exact h
  refine ⟨⟨?_, ?_, ⟨?_, ?_⟩, ?_⟩, ?_, fun x hx => (hL x hx).1⟩
  · intro x mst h
    obtain ⟨a1, a2⟩ := hA x mst (hm x mst h)
    rw [hold mst a2, e4]
    exact ⟨a1, by omega⟩
  · intro x hx
    rw [e1] at hx
    rw [e4, e5]
    rcases List.mem_append.mp hx with h1 | h1
    · obtain ⟨b1, b2⟩ := hL x h1
      rw [hold x b1]
      exact ⟨by omega, by omega⟩
    · rw [List.mem_singleton] at h1
      rw [h1, hnew.2.1]
      exact ⟨by omega, le_refl _⟩
  · intro i hi
    rw [e1, e2, List.filter_append]
    have hf : List.filter (fun h => hash_index ((access_started s m kind addr).mods m)
          ((access_started s m kind addr).stack_tab h).addr == i) (s.mods m).access_list =
        (s.mods m).access_hash_table i := by
      rw [hC i hi]
      apply List.filter_congr
      intro x hx
      rw [hold x (hL x hx).1, hash_index_congr _ _ e3]
    rw [hf]
    simp only [List.filter_cons, List.filter_nil, hnew.2.2, hash_index_congr _ _ e3, upd]
    by_cases hidx : hash_index (s.mods m) addr = i
    · simp [hidx]
    · have : ¬ i = hash_index (s.mods m) addr := fun e => hidx e.symm
      simp [hidx, this]
  · rw [e1, List.pairwise_append]
    refine ⟨?_, List.pairwise_singleton _ _, ?_⟩
    · exact hP.imp_of_mem (fun {a b} ha hb hab => by
        rw [hold a (hL a ha).1, hold b (hL b hb).1]; exact hab)
    · intro a ha b hb
      rw [List.mem_singleton] at hb
      rw [hb, hnew.2.1, hold a (hL a ha).1]
      have := (hL a ha).2
      omega
  · rw [e6]; exact hlog
  · intro x mst h
    exact (hA x mst (hm x mst h)).2


theorem check_next_stack (s : Sim) (c : Bool) (l : Nat) :
    (s.check c l).next_stack = s.next_stack := by
  unfold Sim.check; split <;> rfl

theorem check_mod_stack_id (s : Sim) (c : Bool) (l : Nat) :
    (s.check c l).mod_stack_id = s.mod_stack_id := by
  unfold Sim.check; split <;> rfl

theorem check_assert_log (s : Sim) (c : Bool) (l k : Nat) (hk : k ≠ l)
    (h : k ∈ (s.check c l).assert_log) : k ∈ s.assert_log := by
  unfold Sim.check at h
  split at h
  · exact h
  · rcases List.mem_append.mp h with h1 | h1
    · exact h1
    · rw [List.mem_singleton] at h1
      exact absurd h1 hk

theorem mod_coalesce_frame (s : Sim) (m r h : Nat)
    (hr : (s.stack_tab r).master_stack = none) :
    (∀ x, (mod_coalesce s m r h).stack_tab x =
      if x = h then { s.stack_tab h with coalesced := true, master_stack := some r }
      else s.stack_tab x) ∧
    ((mod_coalesce s m r h).mods m).access_list = (s.mods m).access_list ∧
    ((mod_coalesce s m r h).mods m).access_hash_table = (s.mods m).access_hash_table ∧
    ((mod_coalesce s m r h).mods m).log_block_size = (s.mods m).log_block_size ∧
    (mod_coalesce s m r h).next_stack = s.next_stack ∧
    (mod_coalesce s m r h).mod_stack_id = s.mod_stack_id ∧
    (747 ∈ (mod_coalesce s m r h).assert_log → 747 ∈ s.assert_log) := by
  have c1 : s.check ((s.stack_tab r).master_stack.isNone) 747 = s := by
    rw [hr]; exact check_true s 747
  unfold mod_coalesce
  simp only [c1]
  refine ⟨?_, ?_, ?_, ?_, ?_, ?_, ?_⟩
  · intro x
    simp only [Sim.setMod, Sim.setStack, check_stack_tab, upd]
  · simp [Sim.setMod, Sim.setStack, upd]
  · simp [Sim.setMod, Sim.setStack, upd]
  · simp [Sim.setMod, Sim.setStack, upd]
  · simp [Sim.setMod, Sim.setStack, check_next_stack]
  · simp [Sim.setMod, Sim.setStack, check_mod_stack_id]
  · intro h747
    simp only [Sim.setMod] at h747
    have h2 := check_assert_log _ _ 756 747 (by decide) h747
    simp only [Sim.setStack] at h2
    exact check_assert_log _ _ 751 747 (by decide) h2


theorem mod_coalesce_inv (s : Sim) (m r h : Nat) (hinv : coalesce_inv s m)
    (hr : (s.stack_tab r).master_stack = none) (hrlt : r < s.next_stack) (hrh : r ≠ h)
    (hfresh : ∀ x mst, (s.stack_tab x).master_stack = some mst → mst ≠ h) :
    coalesce_inv (mod_coalesce s m r h) m := by
  obtain ⟨hA, hL, hok, hlog⟩ := hinv
  obtain ⟨f1, f2, f3, f4, f5, f6, f7⟩ := mod_coalesce_frame s m r h hr
  have hid : ∀ x, ((mod_coalesce s m r h).stack_tab x).id = (s.stack_tab x).id := by
    intro x
    rw [f1]
    split
    · next e => rw [e]
    · rfl
  have had : ∀ x, ((mod_coalesce s m r h).stack_tab x).addr = (s.stack_tab x).addr := by
    intro x
    rw [f1]
    split
    · next e => rw [e]
    · rfl
  refine ⟨?_, ?_, access_index_ok_congr s _ m f2 f3 f4 had hid hok, fun h747 => hlog (f7 h747)⟩
  · intro x mst hx
    rw [f5]
    by_cases e : x = h
    · rw [f1, if_pos e] at hx
      have : mst = r := (Option.some.inj hx).symm
      rw [this, f1, if_neg hrh]
      exact ⟨hr, hrlt⟩
    · rw [f1, if_neg e] at hx
      rw [f1, if_neg (hfresh x mst hx)]
      exact hA x mst hx
  · intro x hx
    rw [f2] at hx
    rw [f5, f6, hid]
    exact hL x hx

theorem mod_access_finish_frame (s : Sim) (m h : Nat) :
    (mod_access_finish s m h).stack_tab = s.stack_tab ∧
    ((mod_access_finish s m h).mods m).access_list = (s.mods m).access_list.erase h ∧
    ((mod_access_finish s m h).mods m).access_hash_table =
      upd (s.mods m).access_hash_table (hash_index (s.mods m) (s.stack_tab h).addr)
        (((s.mods m).access_hash_table (hash_index (s.mods m) (s.stack_tab h).addr)).erase h) ∧
    ((mod_access_finish s m h).mods m).log_block_size = (s.mods m).log_block_size ∧
    (mod_access_finish s m h).next_stack = s.next_stack ∧
    (mod_access_finish s m h).mod_stack_id = s.mod_stack_id ∧
    (747 ∈ (mod_access_finish s m h).assert_log → 747 ∈ s.assert_log) := by
  unfold mod_access_finish
  refine ⟨?_, ?_, ?_, ?_, ?_, ?_, ?_⟩
  · simp [Sim.setMod]
  · simp [Sim.setMod, upd]
  · simp [Sim.setMod, upd]
  · simp [Sim.setMod, upd]
  · simp [Sim.setMod, check_next_stack]
  · simp [Sim.setMod, check_mod_stack_id]
  · intro h747
    simp only [Sim.setMod] at h747
    have h2 := check_assert_log _ _ 481 747 (by decide) h747
    exact check_assert_log _ _ 470 747 (by decide) h2

theorem filter_erase_nodup (p : Nat → Bool) (l : List Nat) (h : Nat) (hn : l.Nodup) :
    (l.filter p).erase h = (l.erase h).filter p := by
  rw [hn.erase_eq_filter, (hn.filter p).erase_eq_filter, List.filter_filter, List.filter_filter]
  apply List.filter_congr
  intro x _
  exact Bool.and_comm _ _

theorem mod_access_finish_inv (s : Sim) (m h : Nat) (hinv : coalesce_inv s m) :
    coalesce_inv (mod_access_finish s m h) m := by
  obtain ⟨hA, hL, ⟨hC, hP⟩, hlog⟩ := hinv
  obtain ⟨f1, f2, f3, f4, f5, f6, f7⟩ := mod_access_finish_frame s m h
  have hnd : (s.mods m).access_list.Nodup :=
    hP.imp (fun {a b} hab e => by rw [e] at hab; exact lt_irrefl _ hab)
  refine ⟨?_, ?_, ⟨?_, ?_⟩, fun h747 => hlog (f7 h747)⟩
  · intro x mst hx
    rw [f1] at hx ⊢
    rw [f5]
    exact hA x mst hx
  · intro x hx
    rw [f2] at hx
    rw [f1, f5, f6]
    exact hL x (List.mem_of_mem_erase hx)
  · intro i hi
    rw [f2, f3, f1]
    simp only [hash_index_congr _ _ f4]
    rw [← filter_erase_nodup _ _ _ hnd, ← hC i hi]
    simp only [upd]
    split
    · next e => rw [e]
    · next e =>
      symm
      apply List.erase_of_not_mem
      rw [hC i hi]
      intro hmem
      have := (List.mem_filter.mp hmem).2
      simp only [beq_iff_eq] at this
      exact e this.symm
  · rw [f2, f1]
    exact hP.sublist (List.erase_sublist _ _)

theorem port_locked_inv (s : Sim) (m h : Nat) (b : Bool) (hinv : coalesce_inv s m) :
    coalesce_inv (s.setStack h { s.stack_tab h with port_locked := b }) m := by
  obtain ⟨hA, hL, hok, hlog⟩ := hinv
  have hst : ∀ x, ((s.setStack h { s.stack_tab h with port_locked := b }).stack_tab x).master_stack
        = (s.stack_tab x).master_stack ∧
      ((s.setStack h { s.stack_tab h with port_locked := b }).stack_tab x).id = (s.stack_tab x).id ∧
      ((s.setStack h { s.stack_tab h with port_locked := b }).stack_tab x).addr =
        (s.stack_tab x).addr := by
    intro x
    simp only [Sim.setStack, upd]
    split
    · next e => rw [e]; exact ⟨rfl, rfl, rfl⟩
    · exact ⟨rfl, rfl, rfl⟩
  refine ⟨?_, ?_, access_index_ok_congr s _ m rfl rfl rfl (fun x => (hst x).2.2)
    (fun x => (hst x).2.1) hok, hlog⟩
  · intro x mst hx
    rw [(hst x).1] at hx
    rw [(hst mst).1]
    exact hA x mst hx
  · intro x hx
    rw [(hst x).2.1]
    exact hL x hx


theorem access_issue_inv (s : Sim) (m : Nat) (kind : mod_access_kind_t) (addr : Nat)
    (hk : kind ≠ mod_access_invalid) (hinv : coalesce_inv s m) :
    coalesce_inv (access_issue s m kind addr) m := by
  obtain ⟨h3, hfr, hlt⟩ := access_started_inv s m kind addr hinv
  rw [access_issue_eq]
  cases hres : mod_can_coalesce (access_started s m kind addr) m kind
      ((access_started s m kind addr).stack_tab s.next_stack).addr (some s.next_stack) with
  | none => exact h3
  | some r =>
    simp only
    by_cases hp : kind = mod_access_prefetch
    · rw [if_pos hp]; exact h3
    · rw [if_neg hp]
      have hk3 : kind = mod_access_load ∨ kind = mod_access_store ∨
          kind = mod_access_nc_store := by
        cases kind <;> simp at hk hp ⊢
      obtain ⟨x, hx, hrx⟩ := mod_can_coalesce_master _ m kind _ _ r hk3 hres
      obtain ⟨hx1, hx2⟩ := coalesce_chain_sub _ m _ x hx
      rw [(access_started_mod s m kind addr).1] at hx1
      have hxl : x ∈ (s.mods m).access_list := by
        rcases List.mem_append.mp hx1 with h | h
        · exact h
        · rw [List.mem_singleton] at h
          exact absurd h hx2
      have hrlt : r < s.next_stack := by
        rw [hrx]
        unfold master_of
        cases hm : ((access_started s m kind addr).stack_tab x).master_stack with
        | none => simpa using hlt x hxl
        | some y => simpa using hfr x y hm
      apply mod_coalesce_inv _ m r s.next_stack h3
      · rw [hrx]
        exact master_of_no_master _ h3.1 x
      · rw [(access_started_mod s m kind addr).2.2.2.1]
        omega
      · omega
      · intro y mst hy
        have := hfr y mst hy
        omega

theorem access_idle_inv (s : Sim) (m : Nat) (h : access_idle s m) : coalesce_inv s m := by
  obtain ⟨h1, h2, h3, h4⟩ := h
  refine ⟨?_, ?_, ⟨?_, ?_⟩, h4⟩
  · intro x mst hx
    rw [h3] at hx
    cases hx
  · intro x hx
    rw [h1] at hx
    cases hx
  · intro i hi
    rw [h2 i hi, h1]
    rfl
  · rw [h1]
    exact List.Pairwise.nil

theorem AccessReach_inv (m : Nat) (s0 s : Sim) (h0 : access_idle s0 m)
    (hr : AccessReach m s0 s) : coalesce_inv s m := by
  induction hr with
  | init => exact access_idle_inv s0 m h0
  | issue kind addr _ hk ih => exact access_issue_inv _ m kind addr hk ih
  | finish h _ _ ih => exact mod_access_finish_inv _ m h ih
  | port h b _ ih => exact port_locked_inv _ m h b ih

/-- C18: coalescing depth is one.  In every state reached from an idle module by
starting accesses (`mod_access_start`, `mod_can_coalesce`, `mod_coalesce`),
finishing them (`mod_access_finish`) and setting or clearing `port_locked`
flags, the master of a coalesced access is not coalesced; every access that
`mod_can_coalesce` returns for a Load, Store or NCStore has no master; the
assertion `!master_stack->master_stack` of `mod_coalesce` has never failed; and
the access list is in increasing id order and consistent with the hash
buckets. -/
theorem coalescing_depth_one (m : Nat) (s0 s : Sim) (h0 : access_idle s0 m)
    (hr : AccessReach m s0 s) :
    (∀ h mst, (s.stack_tab h).master_stack = some mst →
      (s.stack_tab mst).master_stack = none) ∧
    (∀ kind addr o r,
      kind = mod_access_load ∨ kind = mod_access_store ∨ kind = mod_access_nc_store →
      mod_can_coalesce s m kind addr o = some r → (s.stack_tab r).master_stack = none) ∧
    747 ∉ s.assert_log ∧
    access_index_ok s m := by
  have hinv := AccessReach_inv m s0 s h0 hr
  refine ⟨fun h mst hx => (hinv.1 h mst hx).1, ?_, hinv.2.2.2, hinv.2.2.1⟩
  intro kind addr o r hk hres
  obtain ⟨x, -, hrx⟩ := mod_can_coalesce_master s m kind addr o r hk hres
  rw [hrx]
  exact master_of_no_master s hinv.1 x

/-- Three Loads of one block started on the idle L1 of the chain: the second and
third are coalesced with the first, which has no master, as in the run
`three_loads` of the handlers. -/
theorem coalescing_depth_one_witness :
    access_idle (chain_init cache_block_invalid) 0 ∧
    AccessReach 0 (chain_init cache_block_invalid) issue_demo ∧
    (issue_demo.stack_tab 2).master_stack = some 0 ∧
    (issue_demo.stack_tab 0).master_stack = none ∧
    (∀ h ∈ [0, 1, 2],
      (issue_demo.stack_tab h).master_stack = (three_loads.stack_tab h).master_stack) :=
  have hi : access_idle (chain_init cache_block_invalid) 0 :=
    ⟨rfl, fun _ _ => rfl, fun _ => rfl, by decide⟩
  have hr : AccessReach 0 (chain_init cache_block_invalid) issue_demo :=
    AccessReach.issue _ _ (AccessReach.issue _ _ (AccessReach.issue _ _ AccessReach.init
      (by decide)) (by decide)) (by decide)
  ⟨hi, hr, by decide,
    (coalescing_depth_one 0 _ issue_demo hi hr).1 2 0 (by decide), by decide⟩

/-- C16: a Store that has begun its lookup still accepts a rider.  The comments
of `mod_can_coalesce` ("Only if previous write has not started yet") and of
`FIND_AND_LOCK_PORT` ("checked by new writes to find out if it is already too
late to coalesce") state that a write whose lookup has begun is no longer
returned as master, but every path that releases the port clears
`port_locked` again.  In the run: after 9 turns the lookup (stack 1) of Store 0
has run `FIND_AND_LOCK_PORT`, where the flag was set (it is set after 3
turns), the Store is still in flight with the flag clear again,
`mod_can_coalesce` returns it for a Store of the same block, and a Store
issued then is coalesced with it. -/
theorem store_rider_after_lookup :
    (EV_MOD_NMOESI_FIND_AND_LOCK_PORT, 1) ∈ (store_run 9).trace ∧
    ((store_run 9).stack_tab 1).ret_stack = some 0 ∧
    ((store_run 3).stack_tab 0).port_locked = true ∧
    0 < (store_run 9).esim_time ∧
    0 ∈ ((store_run 9).mods 0).access_list ∧
    ((store_run 9).stack_tab 0).access_kind = mod_access_store ∧
    ((store_run 9).stack_tab 0).port_locked = false ∧
    mod_can_coalesce (store_run 9) 0 mod_access_store 4160 none = some 0 ∧
    ((mod_access (store_run 9) 0 mod_access_store 4160 false).stack_tab 4).access_kind =
      mod_access_store ∧
    ((mod_access (store_run 9) 0 mod_access_store 4160 false).stack_tab 4).master_stack =
      some 0 := by
  decide

/-- No riders while the port is held.  For a caller that is in
flight, when the most recent access issued before it has its `port_locked` flag
set, `mod_can_coalesce` returns nothing for a Store or an NCStore; so an access
returned for a Store or NCStore on account of the most recent access has that
flag clear. -/
theorem no_riders_while_port_locked (s : Sim) (m addr : Nat) (o : Option Nat)
    (kind : mod_access_kind_t) (pre : List Nat) (t : Nat)
    (hk : kind = mod_access_store ∨ kind = mod_access_nc_store)
    (ho : caller_in_flight s m o) (hx : issued_before s m o = pre ++ [t])
    (hl : (s.stack_tab t).port_locked = true) :
    mod_can_coalesce s m kind addr o = none := by
  have hc : coalesce_chain s m o = t :: pre.reverse := by
    rw [chain_eq s m o ho, hx]
    simp
  rw [mod_can_coalesce_unfold]
  split
  · rfl
  · rcases hk with hk | hk
    · subst hk
      simp only [hc]
      simp [hl]
    · subst hk
      simp only [hc]
      simp [hl]

/-- After 3 turns of `store_run` the lookup of Store 0 holds the port: a Store of
the same block gets no master. -/
theorem no_riders_while_port_locked_witness :
    (mod_access_store = mod_access_store ∨ mod_access_store = mod_access_nc_store) ∧
    caller_in_flight (store_run 3) 0 none ∧
    issued_before (store_run 3) 0 none = [] ++ [0] ∧
    ((store_run 3).stack_tab 0).port_locked = true ∧
    mod_can_coalesce (store_run 3) 0 mod_access_store 4160 none = none :=
  ⟨Or.inl rfl, by decide, by decide, by decide,
    no_riders_while_port_locked (store_run 3) 0 4160 none mod_access_store [] 0 (Or.inl rfl)
      (by decide) (by decide) (by decide)⟩

theorem mem_insert_event (t : Nat) (ev : Ev) (h : Nat) (l : List (Nat × Ev × Nat))
    (x : Nat × Ev × Nat) : x ∈ insert_event t ev h l ↔ x = (t, ev, h) ∨ x ∈ l := by
  induction l with
  | nil => simp [insert_event]
  | cons e rest ih =>
    unfold insert_event
    split
    · simp only [List.mem_cons, ih]
      tauto
    · simp only [List.mem_cons]

theorem wakeup_list_frame (l : List Nat) (s : Sim) :
    (wakeup_list s l).stack_tab = s.stack_tab ∧ (wakeup_list s l).esim_time = s.esim_time ∧
    (wakeup_list s l).next_stack = s.next_stack ∧
    (∀ x, x ∈ s.events → x ∈ (wakeup_list s l).events) ∧
    (∀ w ∈ l, (s.esim_time, (s.stack_tab w).waiting_list_event, w) ∈ (wakeup_list s l).events) := by
  induction l generalizing s with
  | nil => exact ⟨rfl, rfl, rfl, fun _ h => h, fun w hw => by cases hw⟩
  | cons a rest ih =>
    obtain ⟨i1, i2, i3, i4, i5⟩ := ih (esim_schedule_event s (s.stack_tab a).waiting_list_event a 0)
    simp only [wakeup_list]
    refine ⟨i1, i2, i3, ?_, ?_⟩
    · intro x hx
      apply i4
      simp only [esim_schedule_event]
      exact (mem_insert_event _ _ _ _ _).mpr (Or.inr hx)
    · intro w hw
      rcases List.mem_cons.mp hw with e | e
      · apply i4
        simp only [esim_schedule_event, Nat.add_zero]
        rw [e]
        exact (mem_insert_event _ _ _ _ _).mpr (Or.inl rfl)
      · exact i5 w e

theorem check_events (s : Sim) (c : Bool) (l : Nat) : (s.check c l).events = s.events := by
  unfold Sim.check; split <;> rfl

theorem check_trace (s : Sim) (c : Bool) (l : Nat) : (s.check c l).trace = s.trace := by
  unfold Sim.check; split <;> rfl

theorem check_esim_time (s : Sim) (c : Bool) (l : Nat) :
    (s.check c l).esim_time = s.esim_time := by
  unfold Sim.check; split <;> rfl

theorem mod_access_finish_sched (s : Sim) (m h : Nat) :
    (mod_access_finish s m h).events = s.events ∧
    (mod_access_finish s m h).esim_time = s.esim_time := by
  unfold mod_access_finish
  simp [Sim.setMod, check_events, check_esim_time]

/-- When an access retires, each of its waiters is scheduled, in the same cycle,
at the event it registered; no stack is created. -/
theorem mod_stack_return_wakes (t : Sim) (h w : Nat)
    (hw : w ∈ (t.stack_tab h).waiting_list) :
    (t.esim_time, (t.stack_tab w).waiting_list_event, w) ∈ (mod_stack_return t h).events ∧
    (mod_stack_return t h).next_stack = t.next_stack := by
  obtain ⟨i1, i2, i3, i4, i5⟩ := wakeup_list_frame (t.stack_tab h).waiting_list t
  unfold mod_stack_return
  simp only
  split
  · exact ⟨by simpa [Sim.setStack] using i5 w hw, by simpa [Sim.setStack] using i3⟩
  · refine ⟨?_, by simpa [Sim.setStack, esim_schedule_event] using i3⟩
    simp only [esim_schedule_event, Sim.setStack]
    exact (mem_insert_event _ _ _ _ _).mpr (Or.inr (i5 w hw))

/-- When the Load handler finishes access `master`, each of its waiters is
scheduled, in the same cycle, at the event it registered; no stack is created. -/
theorem load_finish_wakes (s : Sim) (master w : Nat)
    (hw : w ∈ (s.stack_tab master).waiting_list) :
    (s.esim_time, (s.stack_tab w).waiting_list_event, w) ∈
      (ev_mod_nmoesi_load_finish s master).events ∧
    (ev_mod_nmoesi_load_finish s master).next_stack = s.next_stack := by
  unfold ev_mod_nmoesi_load_finish
  simp only
  by_cases hwp : ((s.log EV_MOD_NMOESI_LOAD_FINISH master).stack_tab master).witness_ptr = true
  · rw [if_pos hwp]
    have f := mod_access_finish_frame
      { s.log EV_MOD_NMOESI_LOAD_FINISH master with
        witness := (s.log EV_MOD_NMOESI_LOAD_FINISH master).witness + 1 }
      ((s.log EV_MOD_NMOESI_LOAD_FINISH master).stack_tab master).mod master
    have g := mod_access_finish_sched
      { s.log EV_MOD_NMOESI_LOAD_FINISH master with
        witness := (s.log EV_MOD_NMOESI_LOAD_FINISH master).witness + 1 }
      ((s.log EV_MOD_NMOESI_LOAD_FINISH master).stack_tab master).mod master
    have := mod_stack_return_wakes _ master w (by rw [f.1]; exact hw)
    rw [f.1, g.2, f.2.2.2.2.1] at this
    exact this
  · rw [if_neg hwp]
    have f := mod_access_finish_frame (s.log EV_MOD_NMOESI_LOAD_FINISH master)
      ((s.log EV_MOD_NMOESI_LOAD_FINISH master).stack_tab master).mod master
    have g := mod_access_finish_sched (s.log EV_MOD_NMOESI_LOAD_FINISH master)
      ((s.log EV_MOD_NMOESI_LOAD_FINISH master).stack_tab master).mod master
    have := mod_stack_return_wakes _ master w (by rw [f.1]; exact hw)
    rw [f.1, g.2, f.2.2.2.2.1] at this
    exact this

/-- The coalesced branch of `EV_MOD_NMOESI_LOAD`. -/
theorem load_coalesced_branch (s : Sim) (h master : Nat) (hm : load_master s h = some master) :
    (ev_mod_nmoesi_load s h).events = s.events ∧
    (ev_mod_nmoesi_load s h).next_stack = s.next_stack ∧
    (ev_mod_nmoesi_load s h).trace = s.trace ++ [(EV_MOD_NMOESI_LOAD, h)] ∧
    ((ev_mod_nmoesi_load s h).stack_tab h).waiting_list_event = EV_MOD_NMOESI_LOAD_FINISH ∧
    h ∈ ((ev_mod_nmoesi_load s h).stack_tab master).waiting_list ∧
    ((ev_mod_nmoesi_load s h).stack_tab h).master_stack = some master ∧
    ((ev_mod_nmoesi_load s h).stack_tab h).coalesced = true := by
  unfold load_master at hm
  unfold ev_mod_nmoesi_load
  simp only at hm ⊢
  rw [hm]
  simp only
  refine ⟨?_, ?_, ?_, ?_, ?_, ?_, ?_⟩
  · simp [mod_stack_wait_in_stack, mod_coalesce, Sim.setStack, Sim.setMod, check_events,
      mod_access_start, Sim.modStack, Sim.log]
  · simp [mod_stack_wait_in_stack, mod_coalesce, Sim.setStack, Sim.setMod, check_next_stack,
      mod_access_start, Sim.modStack, Sim.log]
  · simp [mod_stack_wait_in_stack, mod_coalesce, Sim.setStack, Sim.setMod, check_trace,
      mod_access_start, Sim.modStack, Sim.log]
  · simp only [mod_stack_wait_in_stack, Sim.setStack, upd]
    by_cases e : h = master
    · simp [e]
    · simp [e]
  · simp only [mod_stack_wait_in_stack, Sim.setStack, upd]
    simp
  · simp only [mod_stack_wait_in_stack, mod_coalesce, Sim.setStack, Sim.setMod, check_stack_tab,
      upd]
    by_cases e : h = master
    · simp [e]
    · simp [e]
  · simp only [mod_stack_wait_in_stack, mod_coalesce, Sim.setStack, Sim.setMod, check_stack_tab,
      upd]
    by_cases e : h = master
    · simp [e]
    · simp [e]


/-- C19: a coalesced Load does no lookup.  When `EV_MOD_NMOESI_LOAD` obtains a
master for the Load, the handler schedules no event and creates no stack: the
Load is marked coalesced, and it is put in the master's waiting list with
`EV_MOD_NMOESI_LOAD_FINISH` as the event to resume at.  When the Load handler
finishes the master, each waiter is scheduled at its registered event in that
same cycle, and no stack is created.  Scenario 4, for each address of
`scenario1_addrs` and each value an uninitialised local may have: both Loads
retire with the queue empty; the second Load (stack 1) executes only
`EV_MOD_NMOESI_LOAD` and `EV_MOD_NMOESI_LOAD_FINISH`, the latter as the last
event of the run, right after the `EV_MOD_NMOESI_LOAD_FINISH` of the first; no
stack is created on its behalf; exactly one read request (stack 3) is made on
behalf of the two Loads; the only other read request of the run is the one of
L2 to main memory (stack 5), and the network carries one request and one reply
per level; and L1 holds the block Exclusive. -/
theorem coalesced_load_no_lookup :
    (∀ (s : Sim) (h master : Nat), load_master s h = some master →
      (ev_mod_nmoesi_load s h).events = s.events ∧
      (ev_mod_nmoesi_load s h).next_stack = s.next_stack ∧
      (ev_mod_nmoesi_load s h).trace = s.trace ++ [(EV_MOD_NMOESI_LOAD, h)] ∧
      ((ev_mod_nmoesi_load s h).stack_tab h).waiting_list_event = EV_MOD_NMOESI_LOAD_FINISH ∧
      h ∈ ((ev_mod_nmoesi_load s h).stack_tab master).waiting_list ∧
      ((ev_mod_nmoesi_load s h).stack_tab h).master_stack = some master ∧
      ((ev_mod_nmoesi_load s h).stack_tab h).coalesced = true) ∧
    (∀ (s : Sim) (master w : Nat), w ∈ (s.stack_tab master).waiting_list →
      (s.esim_time, (s.stack_tab w).waiting_list_event, w) ∈
        (ev_mod_nmoesi_load_finish s master).events ∧
      (ev_mod_nmoesi_load_finish s master).next_stack = s.next_stack) ∧
    (∀ uninit : cache_block_state_t, ∀ X ∈ scenario1_addrs,
      (scenario4 uninit X).events = [] ∧
      (scenario4 uninit X).fatal = false ∧
      (scenario4 uninit X).assert_log = [] ∧
      ((scenario4 uninit X).mods 0).access_list = [] ∧
      ((scenario4 uninit X).stack_tab 1).master_stack = some 0 ∧
      (scenario4 uninit X).trace.filter (fun e => e.2 = 1) =
        [(EV_MOD_NMOESI_LOAD, 1), (EV_MOD_NMOESI_LOAD_FINISH, 1)] ∧
      (scenario4 uninit X).trace.drop ((scenario4 uninit X).trace.length - 2) =
        [(EV_MOD_NMOESI_LOAD_FINISH, 0), (EV_MOD_NMOESI_LOAD_FINISH, 1)] ∧
      (∀ k ∈ List.range (scenario4 uninit X).next_stack,
        ((scenario4 uninit X).stack_tab k).ret_stack ≠ some 1) ∧
      read_requests_of (scenario4 uninit X) [0, 1] = [(EV_MOD_NMOESI_READ_REQUEST, 3)] ∧
      (scenario4 uninit X).trace.filter (fun e => e.1 = EV_MOD_NMOESI_READ_REQUEST) =
        [(EV_MOD_NMOESI_READ_REQUEST, 3), (EV_MOD_NMOESI_READ_REQUEST, 5)] ∧
      (scenario4 uninit X).net_log =
        [(EV_MOD_NMOESI_READ_REQUEST_RECEIVE, 8, true),
         (EV_MOD_NMOESI_READ_REQUEST_RECEIVE, 8, true),
         (EV_MOD_NMOESI_READ_REQUEST_FINISH, 72, true),
         (EV_MOD_NMOESI_READ_REQUEST_FINISH, 72, true)] ∧
      line_state (scenario4 uninit X) 0 X = cache_block_exclusive) := by
  refine ⟨load_coalesced_branch, load_finish_wakes, ?_⟩
  decide!

/-- Scenario 4 at address 4160: the second Load is coalesced with the first and
one read request is made for the two. -/
theorem coalesced_load_no_lookup_witness :
    4160 ∈ scenario1_addrs ∧
    ((scenario4 cache_block_invalid 4160).stack_tab 1).master_stack = some 0 ∧
    read_requests_of (scenario4 cache_block_invalid 4160) [0, 1] =
      [(EV_MOD_NMOESI_READ_REQUEST, 3)] :=
  ⟨by decide, (coalesced_load_no_lookup.2.2 cache_block_invalid 4160 (by decide)).2.2.2.2.1,
    (coalesced_load_no_lookup.2.2 cache_block_invalid 4160 (by decide)).2.2.2.2.2.2.2.2.1⟩

theorem mod_can_coalesce_prefetch_iff (s : Sim) (m addr : Nat) (o : Option Nat)
    (hok : access_index_ok s m) (ho : caller_in_flight s m o) (r : Nat) :
    mod_can_coalesce s m mod_access_prefetch addr o = some r ↔
      ∃ pre x post, issued_before s m o = pre ++ x :: post ∧ same_block s m addr x = true ∧
        (∀ y ∈ post, same_block s m addr y = false) ∧ r = x := by
  rw [mod_can_coalesce_unfold]
  by_cases hpre : (mod_in_flight_address s m addr o).isNone = true
  · rw [if_pos hpre]
    constructor
    · intro h; cases h
    · rintro ⟨pre, x, post, e, hx, -⟩
      have := (in_flight_none_iff s m addr o hok ho).mp hpre x (by rw [e]; simp)
      rw [hx] at this
      cases this
  · rw [if_neg hpre]
    simp only
    rw [chain_eq s m o ho, List.find?_eq_some]
    constructor
    · rintro ⟨hp, as, bs, e, has⟩
      refine ⟨bs.reverse, r, as.reverse, ?_, hp, ?_, rfl⟩
      · have := congrArg List.reverse e
        simpa using this
      · intro y hy
        have := has y (List.mem_reverse.mp hy)
        simpa using this
    · rintro ⟨pre, x, post, e, hx, hpost, hr⟩
      subst hr
      refine ⟨hx, post.reverse, pre.reverse, by rw [e]; simp, ?_⟩
      intro a ha
      rw [hpost a (List.mem_reverse.mp ha)]
      rfl

theorem mod_can_coalesce_prefetch_assert_false (s : Sim) (m addr : Nat) (o : Option Nat)
    (hok : access_index_ok s m) (ho : caller_in_flight s m o) :
    mod_can_coalesce_prefetch_assert s m addr o = false := by
  show ((mod_in_flight_address s m addr o).isSome &&
    ((coalesce_chain s m o).find? (same_block s m addr)).isNone) = false
  by_cases hpre : (mod_in_flight_address s m addr o).isNone = true
  · rw [Option.isNone_iff_eq_none] at hpre
    rw [hpre]
    rfl
  · have hex : ∃ x ∈ issued_before s m o, same_block s m addr x = true := by
      by_contra hne
      apply hpre
      rw [in_flight_none_iff s m addr o hok ho]
      intro x hx
      cases hb : same_block s m addr x
      · rfl
      · exact absurd ⟨x, hx, hb⟩ hne
    obtain ⟨x, hx, hb⟩ := hex
    have : ((coalesce_chain s m o).find? (same_block s m addr)).isNone = false := by
      rw [chain_eq s m o ho]
      cases hf : (issued_before s m o).reverse.find? (same_block s m addr) with
      | some r => rfl
      | none =>
        have := List.find?_eq_none.mp hf x (List.mem_reverse.mpr hx)
        exact absurd hb this
    rw [this, Bool.and_false]


/-- The branch of `EV_MOD_NMOESI_PREFETCH` taken when `mod_can_coalesce` returns
an access. -/
theorem prefetch_useless_branch (s : Sim) (h r : Nat) (hm : prefetch_master s h = some r) :
    (ev_mod_nmoesi_prefetch s h).events =
      insert_event (s.esim_time + 0) EV_MOD_NMOESI_PREFETCH_FINISH h s.events ∧
    (ev_mod_nmoesi_prefetch s h).next_stack = s.next_stack ∧
    (ev_mod_nmoesi_prefetch s h).trace = s.trace ++ [(EV_MOD_NMOESI_PREFETCH, h)] ∧
    (∀ x, ((ev_mod_nmoesi_prefetch s h).stack_tab x).master_stack =
        (s.stack_tab x).master_stack ∧
      ((ev_mod_nmoesi_prefetch s h).stack_tab x).coalesced = (s.stack_tab x).coalesced ∧
      ((ev_mod_nmoesi_prefetch s h).stack_tab x).waiting_list = (s.stack_tab x).waiting_list) := by
  unfold prefetch_master at hm
  unfold ev_mod_nmoesi_prefetch
  simp only at hm ⊢
  rw [hm]
  simp only
  refine ⟨?_, ?_, ?_, ?_⟩
  · split <;> simp [esim_schedule_event, mod_access_start, Sim.setStack, Sim.setMod, Sim.log]
  · split <;> simp [esim_schedule_event, mod_access_start, Sim.setStack, Sim.setMod, Sim.log]
  · split <;> simp [esim_schedule_event, mod_access_start, Sim.setStack, Sim.setMod, Sim.log]
  · intro x
    have key : (mod_access_start (s.log EV_MOD_NMOESI_PREFETCH h)
        ((s.log EV_MOD_NMOESI_PREFETCH h).stack_tab h).mod h mod_access_prefetch).stack_tab x =
        if x = h then { s.stack_tab h with access_kind := mod_access_prefetch }
        else s.stack_tab x := by
      simp only [mod_access_start, Sim.setStack, Sim.setMod, Sim.log, upd]
    split
    · simp only [esim_schedule_event]
      rw [key]
      split
      · next e => rw [e]; exact ⟨rfl, rfl, rfl⟩
      · exact ⟨rfl, rfl, rfl⟩
    · simp only [esim_schedule_event]
      rw [key]
      split
      · next e => rw [e]; exact ⟨rfl, rfl, rfl⟩
      · exact ⟨rfl, rfl, rfl⟩

theorem mod_stack_return_frame (t : Sim) (h : Nat) :
    (mod_stack_return t h).next_stack = t.next_stack ∧
    (mod_stack_return t h).trace = t.trace ∧
    (∀ x, ((mod_stack_return t h).stack_tab x).master_stack = (t.stack_tab x).master_stack) := by
  have hw : ∀ (l : List Nat) (u : Sim), (wakeup_list u l).stack_tab = u.stack_tab ∧
      (wakeup_list u l).next_stack = u.next_stack ∧ (wakeup_list u l).trace = u.trace := by
    intro l
    induction l with
    | nil => intro u; exact ⟨rfl, rfl, rfl⟩
    | cons a rest ih =>
      intro u
      simp only [wakeup_list]
      exact ih _
  obtain ⟨w1, w2, w3⟩ := hw (t.stack_tab h).waiting_list t
  have hx : ∀ x, ((upd (wakeup_list t (t.stack_tab h).waiting_list).stack_tab h
      { (wakeup_list t (t.stack_tab h).waiting_list).stack_tab h with
        waiting_list := [] }) x).master_stack = (t.stack_tab x).master_stack := by
    intro x
    simp only [upd, w1]
    split
    · next e => rw [e]
    · rfl
  unfold mod_stack_return
  simp only
  split
  · exact ⟨by simpa [Sim.setStack] using w2, by simpa [Sim.setStack] using w3,
      fun x => by simpa [Sim.setStack] using hx x⟩
  · exact ⟨by simpa [Sim.setStack, esim_schedule_event] using w2,
      by simpa [Sim.setStack, esim_schedule_event] using w3,
      fun x => by simpa [Sim.setStack, esim_schedule_event] using hx x⟩

/-- `EV_MOD_NMOESI_PREFETCH_FINISH` creates no stack and coalesces nothing. -/
theorem prefetch_finish_frame (s : Sim) (h : Nat) :
    (ev_mod_nmoesi_prefetch_finish s h).next_stack = s.next_stack ∧
    (ev_mod_nmoesi_prefetch_finish s h).trace =
      s.trace ++ [(EV_MOD_NMOESI_PREFETCH_FINISH, h)] ∧
    (∀ x, ((ev_mod_nmoesi_prefetch_finish s h).stack_tab x).master_stack =
      (s.stack_tab x).master_stack) := by
  unfold ev_mod_nmoesi_prefetch_finish
  simp only
  by_cases hwp : ((s.log EV_MOD_NMOESI_PREFETCH_FINISH h).stack_tab h).witness_ptr = true
  · rw [if_pos hwp]
    obtain ⟨r1, r2, r3⟩ := mod_stack_return_frame (mod_access_finish
      { s.log EV_MOD_NMOESI_PREFETCH_FINISH h with
        witness := (s.log EV_MOD_NMOESI_PREFETCH_FINISH h).witness + 1 }
      ((s.log EV_MOD_NMOESI_PREFETCH_FINISH h).stack_tab h).mod h) h
    have f := mod_access_finish_frame
      { s.log EV_MOD_NMOESI_PREFETCH_FINISH h with
        witness := (s.log EV_MOD_NMOESI_PREFETCH_FINISH h).witness + 1 }
      ((s.log EV_MOD_NMOESI_PREFETCH_FINISH h).stack_tab h).mod h
    refine ⟨by rw [r1, f.2.2.2.2.1]; rfl, ?_, fun x => by rw [r3, f.1]; rfl⟩
    rw [r2]
    simp [mod_access_finish, Sim.setMod, check_trace, Sim.log]
  · rw [if_neg hwp]
    obtain ⟨r1, r2, r3⟩ := mod_stack_return_frame (mod_access_finish
      (s.log EV_MOD_NMOESI_PREFETCH_FINISH h)
      ((s.log EV_MOD_NMOESI_PREFETCH_FINISH h).stack_tab h).mod h) h
    have f := mod_access_finish_frame (s.log EV_MOD_NMOESI_PREFETCH_FINISH h)
      ((s.log EV_MOD_NMOESI_PREFETCH_FINISH h).stack_tab h).mod h
    refine ⟨by rw [r1, f.2.2.2.2.1]; rfl, ?_, fun x => by rw [r3, f.1]; rfl⟩
    rw [r2]
    simp [mod_access_finish, Sim.setMod, check_trace, Sim.log]


/-- A Prefetch for which `mod_can_coalesce` returned an access becomes a master.
On `prefetch_demo` the Prefetch (stack 1) found the Load in flight and only
waits for `EV_MOD_NMOESI_PREFETCH_FINISH`; the Load issued next (stack 2) is
coalesced with it and waits in its waiting list. -/
theorem useless_prefetch_becomes_master :
    prefetch_demo.trace =
      [(EV_MOD_NMOESI_LOAD, 0), (EV_MOD_NMOESI_PREFETCH, 1), (EV_MOD_NMOESI_LOAD, 2)] ∧
    prefetch_demo.events =
      [(0, EV_MOD_NMOESI_LOAD_LOCK, 0), (0, EV_MOD_NMOESI_PREFETCH_FINISH, 1)] ∧
    (prefetch_demo.stack_tab 1).access_kind = mod_access_prefetch ∧
    mod_can_coalesce prefetch_demo 0 mod_access_prefetch 4160 (some 1) = some 0 ∧
    (prefetch_demo.stack_tab 2).access_kind = mod_access_load ∧
    (prefetch_demo.stack_tab 2).coalesced = true ∧
    (prefetch_demo.stack_tab 2).master_stack = some 1 ∧
    (prefetch_demo.stack_tab 1).waiting_list = [2] := by
  decide

/-- C17 (amended): the Prefetch lookup, on a module whose accesses are recorded
consistently and for a caller that is in flight.  For kind Prefetch
`mod_can_coalesce` returns `r` exactly when `r` is the most recent access to
the block issued before the caller, whatever its kind and without redirection
to its master; it returns an access exactly when some access issued before the
caller targets the block; the assertion that the hash table wrongly reported
an access is not reached.  When `EV_MOD_NMOESI_PREFETCH` obtains an access, the
handler schedules `EV_MOD_NMOESI_PREFETCH_FINISH` for the Prefetch and nothing
else, creates no stack, and leaves every master pointer, coalesced flag and
waiting list as they were: the Prefetch is not made a slave.
`EV_MOD_NMOESI_PREFETCH_FINISH` creates no stack and changes no master
pointer. -/
theorem prefetch_lookup (s : Sim) (m addr : Nat) (o : Option Nat)
    (hok : access_index_ok s m) (ho : caller_in_flight s m o) :
    (∀ r, mod_can_coalesce s m mod_access_prefetch addr o = some r ↔
      ∃ pre x post, issued_before s m o = pre ++ x :: post ∧ same_block s m addr x = true ∧
        (∀ y ∈ post, same_block s m addr y = false) ∧ r = x) ∧
    ((mod_can_coalesce s m mod_access_prefetch addr o).isSome = true ↔
      ∃ x ∈ issued_before s m o, same_block s m addr x = true) ∧
    mod_can_coalesce_prefetch_assert s m addr o = false ∧
    (∀ (t : Sim) (h r : Nat), prefetch_master t h = some r →
      (ev_mod_nmoesi_prefetch t h).events =
        insert_event (t.esim_time + 0) EV_MOD_NMOESI_PREFETCH_FINISH h t.events ∧
      (ev_mod_nmoesi_prefetch t h).next_stack = t.next_stack ∧
      (ev_mod_nmoesi_prefetch t h).trace = t.trace ++ [(EV_MOD_NMOESI_PREFETCH, h)] ∧
      (∀ x, ((ev_mod_nmoesi_prefetch t h).stack_tab x).master_stack =
          (t.stack_tab x).master_stack ∧
        ((ev_mod_nmoesi_prefetch t h).stack_tab x).coalesced = (t.stack_tab x).coalesced ∧
        ((ev_mod_nmoesi_prefetch t h).stack_tab x).waiting_list =
          (t.stack_tab x).waiting_list)) ∧
    (∀ (t : Sim) (h : Nat),
      (ev_mod_nmoesi_prefetch_finish t h).next_stack = t.next_stack ∧
      (ev_mod_nmoesi_prefetch_finish t h).trace =
        t.trace ++ [(EV_MOD_NMOESI_PREFETCH_FINISH, h)] ∧
      (∀ x, ((ev_mod_nmoesi_prefetch_finish t h).stack_tab x).master_stack =
        (t.stack_tab x).master_stack)) := by
  refine ⟨mod_can_coalesce_prefetch_iff s m addr o hok ho, ?_,
    mod_can_coalesce_prefetch_assert_false s m addr o hok ho, prefetch_useless_branch,
    prefetch_finish_frame⟩
  rw [Option.isSome_iff_exists]
  constructor
  · rintro ⟨r, hr⟩
    obtain ⟨pre, x, post, e, hx, -, -⟩ := (mod_can_coalesce_prefetch_iff s m addr o hok ho r).mp hr
    exact ⟨x, by rw [e]; simp, hx⟩
  · intro hex
    obtain ⟨pre, x, post, e, hx, hpost⟩ := last_split (same_block s m addr) _ hex
    exact ⟨x, (mod_can_coalesce_prefetch_iff s m addr o hok ho x).mpr ⟨pre, x, post, e, hx, hpost, rfl⟩⟩

/-- On `three_loads`, a Prefetch of address 4160 issued after the three Loads is
given the most recent of them, Load 2, although Load 2 is coalesced with
Load 0. -/
theorem prefetch_lookup_witness :
    access_index_ok three_loads 0 ∧ caller_in_flight three_loads 0 none ∧
    (three_loads.stack_tab 2).master_stack = some 0 ∧
    mod_can_coalesce three_loads 0 mod_access_prefetch 4160 none = some 2 :=
  ⟨by decide, by decide, by decide,
    ((prefetch_lookup three_loads 0 4160 none (by decide) (by decide)).1 2).mpr
      ⟨[0, 1], 2, [], by decide, by decide, by decide, rfl⟩⟩

theorem find_reverse_some_iff (p : Nat → Bool) (l : List Nat) (r : Nat) :
    l.reverse.find? p = some r ↔
      ∃ pre post, l = pre ++ r :: post ∧ p r = true ∧ ∀ y ∈ post, p y = false := by
  rw [List.find?_eq_some]
  constructor
  · rintro ⟨hr, as, bs, e, ha⟩
    refine ⟨bs.reverse, as.reverse, ?_, hr, ?_⟩
    · have := congrArg List.reverse e
      simpa using this
    · intro y hy
      have := ha y (List.mem_reverse.mp hy)
      simpa using this
  · rintro ⟨pre, post, e, hr, hp⟩
    refine ⟨hr, post.reverse, pre.reverse, ?_, ?_⟩
    · rw [e]; simp
    · intro y hy
      have := hp y (List.mem_reverse.mp hy)
      simp [this]

theorem getLast_filter_eq (p : Nat → Bool) (l : List Nat) :
    (l.filter p).getLast? = l.reverse.find? p := by
  rw [List.getLast?_eq_head?_reverse, ← List.filter_reverse]
  generalize l.reverse = k
  induction k with
  | nil => rfl
  | cons a k ih =>
    cases h : p a
    · rw [List.filter_cons_of_neg (by simp [h]), List.find?_cons_of_neg _ (by simp [h]), ih]
    · rw [List.filter_cons_of_pos h, List.find?_cons_of_pos _ h]; rfl

theorem mod_in_flight_write_eq (s : Sim) (m : Nat) (o : Option Nat)
    (ho : caller_in_flight s m o) (hw : write_list_ok s m) :
    mod_in_flight_write s m o =
      (issued_before s m o).reverse.find?
        (fun h => decide ((s.stack_tab h).access_kind = mod_access_store)) := by
  cases o with
  | none =>
    simp only [mod_in_flight_write, issued_before]
    rw [hw, getLast_filter_eq]
  | some o' =>
    have := chain_eq s m (some o') ho
    simp only [coalesce_chain] at this
    simp only [mod_in_flight_write]
    rw [this]


/-- C21: `mod_in_flight_write(mod, older_than)` returns the youngest in-flight
Store issued before `older_than` in the access list of the module, whatever its
address (the youngest in-flight Store when `older_than` is absent): the access
returned is a Store `r` with `x1..xn = pre ++ r :: post` and no Store in `post`,
where `x1..xn` are the accesses issued before the caller.  Nothing is returned
exactly when none of `x1..xn` is a Store, and an NCStore, Load or Prefetch is
never returned. -/
theorem mod_in_flight_write_youngest (s : Sim) (m : Nat) (o : Option Nat)
    (ho : caller_in_flight s m o) (hw : write_list_ok s m) :
    (∀ r, mod_in_flight_write s m o = some r ↔
      ∃ pre post, issued_before s m o = pre ++ r :: post ∧
        (s.stack_tab r).access_kind = mod_access_store ∧
        ∀ y ∈ post, (s.stack_tab y).access_kind ≠ mod_access_store) ∧
    (mod_in_flight_write s m o = none ↔
      ∀ y ∈ issued_before s m o, (s.stack_tab y).access_kind ≠ mod_access_store) ∧
    (∀ r, mod_in_flight_write s m o = some r →
      r ∈ (s.mods m).access_list ∧
      (s.stack_tab r).access_kind ≠ mod_access_nc_store ∧
      (s.stack_tab r).access_kind ≠ mod_access_load ∧
      (s.stack_tab r).access_kind ≠ mod_access_prefetch) := by
  rw [mod_in_flight_write_eq s m o ho hw]
  have key : ∀ r, (issued_before s m o).reverse.find?
      (fun h => decide ((s.stack_tab h).access_kind = mod_access_store)) = some r ↔
      ∃ pre post, issued_before s m o = pre ++ r :: post ∧
        (s.stack_tab r).access_kind = mod_access_store ∧
        ∀ y ∈ post, (s.stack_tab y).access_kind ≠ mod_access_store := by
    intro r
    rw [find_reverse_some_iff]
    simp only [decide_eq_true_eq, decide_eq_false_iff_not, ne_eq]
  refine ⟨key, ?_, ?_⟩
  · rw [List.find?_eq_none]
    simp only [List.mem_reverse, decide_eq_true_eq, ne_eq]
  · intro r hr
    obtain ⟨pre, post, e, hk, -⟩ := (key r).mp hr
    refine ⟨issued_before_sub s m o r (by rw [e]; simp), ?_, ?_, ?_⟩ <;>
    · rw [hk]; decide

theorem mod_in_flight_write_youngest_witness :
    caller_in_flight mixed_accesses 0 (some 2) ∧ write_list_ok mixed_accesses 0 ∧
    mod_in_flight_write mixed_accesses 0 (some 2) = some 0 :=
  ⟨by decide, by decide,
    ((mod_in_flight_write_youngest mixed_accesses 0 (some 2) (by decide) (by decide)).1 0).mpr
      ⟨[], [1], by decide, by decide, by decide⟩⟩

theorem erase_append_self (l : List Nat) (h : Nat) (hn : h ∉ l) : (l ++ [h]).erase h = l := by
  rw [List.erase_append_right _ hn]
  simp

/-- C24: `mod_access_start` appends the access to the tail of the access list,
to the tail of the write list iff its kind is Store, and to the tail of bucket
`(addr >> log_block_size) mod 17`, leaving the other buckets alone;
`mod_access_finish` removes an access from the access list, from the write list
iff its kind is Store, and from its bucket, leaving the other buckets alone and
the remaining accesses in their order.  For an access not yet in flight, start
followed by finish restores the access list, the write list, every bucket and
their counts. -/
theorem access_start_finish (s : Sim) (m h : Nat) (kind : mod_access_kind_t)
    (hfresh : h ∉ (s.mods m).access_list) (hok : access_index_ok s m)
    (hw : write_list_ok s m) :
    (((mod_access_start s m h kind).mods m).access_list = (s.mods m).access_list ++ [h] ∧
     ((mod_access_start s m h kind).mods m).write_access_list =
       (if kind = mod_access_store then (s.mods m).write_access_list ++ [h]
        else (s.mods m).write_access_list) ∧
     hash_index (s.mods m) (s.stack_tab h).addr =
       ((s.stack_tab h).addr >>> (s.mods m).log_block_size) % 17 ∧
     (∀ i, ((mod_access_start s m h kind).mods m).access_hash_table i =
       if i = hash_index (s.mods m) (s.stack_tab h).addr
       then (s.mods m).access_hash_table i ++ [h]
       else (s.mods m).access_hash_table i)) ∧
    (∀ (t : Sim) (g : Nat),
     ((mod_access_finish t m g).mods m).access_list = (t.mods m).access_list.erase g ∧
     ((mod_access_finish t m g).mods m).write_access_list =
       (if (t.stack_tab g).access_kind = mod_access_store
        then (t.mods m).write_access_list.erase g
        else (t.mods m).write_access_list) ∧
     (∀ i, ((mod_access_finish t m g).mods m).access_hash_table i =
       if i = hash_index (t.mods m) (t.stack_tab g).addr
       then ((t.mods m).access_hash_table i).erase g
       else (t.mods m).access_hash_table i) ∧
     ((t.mods m).access_list.erase g).Sublist (t.mods m).access_list) ∧
    (((mod_access_finish (mod_access_start s m h kind) m h).mods m).access_list =
       (s.mods m).access_list ∧
     ((mod_access_finish (mod_access_start s m h kind) m h).mods m).write_access_list =
       (s.mods m).write_access_list ∧
     (∀ i, ((mod_access_finish (mod_access_start s m h kind) m h).mods m).access_hash_table i =
       (s.mods m).access_hash_table i) ∧
     ((mod_access_finish (mod_access_start s m h kind) m h).mods m).access_list.length =
       (s.mods m).access_list.length ∧
     ((mod_access_finish (mod_access_start s m h kind) m h).mods m).write_access_list.length =
       (s.mods m).write_access_list.length ∧
     (∀ i, (((mod_access_finish (mod_access_start s m h kind) m h).mods m).access_hash_table
       i).length = ((s.mods m).access_hash_table i).length)) := by
  have hwl : h ∉ (s.mods m).write_access_list := by
    rw [hw]
    intro hm
    exact hfresh (List.mem_filter.mp hm).1
  have hbk : h ∉ (s.mods m).access_hash_table (hash_index (s.mods m) (s.stack_tab h).addr) := by
    rw [hok.1 _ (hash_index_lt _ _)]
    intro hm
    exact hfresh (List.mem_filter.mp hm).1
  have hstart1 : ((mod_access_start s m h kind).mods m).access_list =
      (s.mods m).access_list ++ [h] := by
    simp [mod_access_start, Sim.setStack, Sim.setMod, upd]
  have hstart2 : ((mod_access_start s m h kind).mods m).write_access_list =
       (if kind = mod_access_store then (s.mods m).write_access_list ++ [h]
        else (s.mods m).write_access_list) := by
    simp [mod_access_start, Sim.setStack, Sim.setMod, upd]
  have hstart3 : ∀ i, ((mod_access_start s m h kind).mods m).access_hash_table i =
       if i = hash_index (s.mods m) (s.stack_tab h).addr
       then (s.mods m).access_hash_table i ++ [h]
       else (s.mods m).access_hash_table i := by
    intro i
    simp only [mod_access_start, Sim.setStack, Sim.setMod, upd, if_true]
    split
    · next e => rw [e]
    · rfl
  have hstart4 : ((mod_access_start s m h kind).stack_tab h).access_kind = kind ∧
      ((mod_access_start s m h kind).stack_tab h).addr = (s.stack_tab h).addr ∧
      ((mod_access_start s m h kind).mods m).log_block_size = (s.mods m).log_block_size := by
    simp [mod_access_start, Sim.setStack, Sim.setMod, upd]
  have hfin : ∀ (t : Sim) (g : Nat),
     ((mod_access_finish t m g).mods m).access_list = (t.mods m).access_list.erase g ∧
     ((mod_access_finish t m g).mods m).write_access_list =
       (if (t.stack_tab g).access_kind = mod_access_store
        then (t.mods m).write_access_list.erase g
        else (t.mods m).write_access_list) ∧
     (∀ i, ((mod_access_finish t m g).mods m).access_hash_table i =
       if i = hash_index (t.mods m) (t.stack_tab g).addr
       then ((t.mods m).access_hash_table i).erase g
       else (t.mods m).access_hash_table i) ∧
     ((t.mods m).access_list.erase g).Sublist (t.mods m).access_list := by
    intro t g
    refine ⟨?_, ?_, ?_, List.erase_sublist _ _⟩
    · simp [mod_access_finish, Sim.setMod, upd]
    · simp [mod_access_finish, Sim.setMod, upd]
    · intro i
      simp only [mod_access_finish, Sim.setMod, upd, if_true]
      split
      · next e => rw [e]
      · rfl
  have hidx : hash_index ((mod_access_start s m h kind).mods m)
      ((mod_access_start s m h kind).stack_tab h).addr =
      hash_index (s.mods m) (s.stack_tab h).addr := by
    rw [hstart4.2.1]
    exact hash_index_congr _ _ hstart4.2.2 _
  have r1 : ((mod_access_finish (mod_access_start s m h kind) m h).mods m).access_list =
       (s.mods m).access_list := by
    rw [(hfin _ h).1, hstart1, erase_append_self _ _ hfresh]
  have r2 : ((mod_access_finish (mod_access_start s m h kind) m h).mods m).write_access_list =
       (s.mods m).write_access_list := by
    rw [(hfin _ h).2.1, hstart2, hstart4.1]
    by_cases hk : kind = mod_access_store
    · rw [if_pos hk, if_pos hk, erase_append_self _ _ hwl]
    · rw [if_neg hk, if_neg hk]
  have r3 : ∀ i, ((mod_access_finish (mod_access_start s m h kind) m h).mods m).access_hash_table i
      = (s.mods m).access_hash_table i := by
    intro i
    rw [(hfin _ h).2.2.1 i, hidx, hstart3 i]
    by_cases hi : i = hash_index (s.mods m) (s.stack_tab h).addr
    · rw [if_pos hi, if_pos hi, hi, erase_append_self _ _ hbk]
    · rw [if_neg hi, if_neg hi]
  refine ⟨⟨hstart1, hstart2, rfl, hstart3⟩, hfin, r1, r2, r3, ?_, ?_, ?_⟩
  · rw [r1]
  · rw [r2]
  · intro i; rw [r3 i]

theorem access_start_finish_witness :
    3 ∉ (mixed_accesses.mods 0).access_list ∧ access_index_ok mixed_accesses 0 ∧
    write_list_ok mixed_accesses 0 ∧
    ((mod_access_finish (mod_access_start mixed_accesses 0 3 mod_access_store) 0 3).mods
      0).access_list = [0, 1, 2] :=
  ⟨by decide, by decide, by decide,
    (access_start_finish mixed_accesses 0 3 mod_access_store (by decide) (by decide)
      (by decide)).2.2.1.trans (by decide)⟩

theorem countP_set_true (p q : Nat → Bool) (l : List Nat) (h : Nat) (hn : l.Nodup) (hm : h ∈ l)
    (hp : p h = false) (hq : q h = true) (hpq : ∀ x, x ≠ h → q x = p x) :
    l.countP q = l.countP p + 1 := by
  induction l with
  | nil => cases hm
  | cons a l ih =>
    obtain ⟨ha, hl⟩ := List.nodup_cons.mp hn
    by_cases e : a = h
    · subst e
      have hsame : l.countP q = l.countP p := by
        apply List.countP_congr
        intro x hx
        have : x ≠ a := fun e => ha (e ▸ hx)
        rw [hpq x this]
      rw [List.countP_cons_of_pos _ _ hq, List.countP_cons_of_neg _ _ (by simp [hp]), hsame]
    · have hm' : h ∈ l := by
        rcases List.mem_cons.mp hm with h1 | h1
        · exact absurd h1.symm e
        · exact h1
      have := ih hl hm'
      simp only [List.countP_cons, hpq a e, this]
      omega

theorem countP_erase_mem (p : Nat → Bool) (l : List Nat) (h : Nat) (hm : h ∈ l) :
    l.countP p = (l.erase h).countP p + (if p h then 1 else 0) := by
  rw [(List.perm_cons_erase hm).countP_eq p, List.countP_cons]

theorem count_idle_inv (s : Sim) (m : Nat) (h : count_idle s m) : count_inv s m := by
  obtain ⟨h1, h2, h3, h4⟩ := h
  refine ⟨by rw [h1]; exact List.nodup_nil, ?_, h3, h4⟩
  rw [h2]
  simp [coalesced_in_flight, h1]

theorem count_start_inv (s : Sim) (m h : Nat) (kind : mod_access_kind_t)
    (hinv : count_inv s m) (hfresh : h ∉ (s.mods m).access_list)
    (hc : (s.stack_tab h).coalesced = false) :
    count_inv (mod_access_start s m h kind) m := by
  obtain ⟨hn, hcnt, h1, h2⟩ := hinv
  have e1 : ((mod_access_start s m h kind).mods m).access_list = (s.mods m).access_list ++ [h] := by
    simp [mod_access_start, Sim.setStack, Sim.setMod, upd]
  have e2 : ((mod_access_start s m h kind).mods m).access_list_coalesced_count =
      (s.mods m).access_list_coalesced_count := by
    simp [mod_access_start, Sim.setStack, Sim.setMod, upd]
  have e3 : ∀ x, ((mod_access_start s m h kind).stack_tab x).coalesced =
      (s.stack_tab x).coalesced := by
    intro x
    simp only [mod_access_start, Sim.setStack, Sim.setMod, upd]
    split
    · next e => rw [e]
    · rfl
  have e4 : (mod_access_start s m h kind).assert_log = s.assert_log := by
    simp [mod_access_start, Sim.setStack, Sim.setMod]
  refine ⟨?_, ?_, by rw [e4]; exact h1, by rw [e4]; exact h2⟩
  · rw [e1]
    exact List.nodup_append.mpr ⟨hn, List.nodup_singleton h,
      fun {a} ha hb => hfresh (by rw [List.mem_singleton.mp hb] at ha; exact ha)⟩
  · rw [e2, hcnt]
    unfold coalesced_in_flight
    rw [e1]
    simp only [e3, List.countP_append, List.countP_cons, List.countP_nil, hc]
    simp

theorem count_coalesce_inv (s : Sim) (m r h : Nat) (hinv : count_inv s m)
    (hm : h ∈ (s.mods m).access_list) (hc : (s.stack_tab h).coalesced = false) :
    count_inv (mod_coalesce s m r h) m := by
  obtain ⟨hn, hcnt, h1, h2⟩ := hinv
  have hle : (s.mods m).access_list_coalesced_count ≤ ((s.mods m).access_list.length : Int) := by
    rw [hcnt]
    exact_mod_cast List.countP_le_length _
  have e1 : ((mod_coalesce s m r h).mods m).access_list = (s.mods m).access_list := by
    simp [mod_coalesce, Sim.setStack, Sim.setMod, upd, check_mods]
  have e2 : ((mod_coalesce s m r h).mods m).access_list_coalesced_count =
      (s.mods m).access_list_coalesced_count + 1 := by
    simp [mod_coalesce, Sim.setStack, Sim.setMod, upd, check_mods]
  have e3 : ∀ x, ((mod_coalesce s m r h).stack_tab x).coalesced =
      if x = h then true else (s.stack_tab x).coalesced := by
    intro x
    simp only [mod_coalesce, Sim.setStack, Sim.setMod, upd, check_stack_tab]
    split
    · next e => simp [e]
    · next e => simp [e]
  have e4 : ∀ k, k ≠ 747 → k ≠ 751 → k ∈ (mod_coalesce s m r h).assert_log →
      k ∈ s.assert_log := by
    intro k k1 k2 hk
    unfold mod_coalesce at hk
    simp only [Sim.setStack, Sim.setMod, check_mods] at hk
    have c3 : decide ((s.mods m).access_list_coalesced_count ≤
        ((s.mods m).access_list.length : Int)) = true := decide_eq_true hle
    rw [c3, check_true] at hk
    exact check_assert_log _ _ _ _ k1 (check_assert_log _ _ _ _ k2 hk)
  refine ⟨by rw [e1]; exact hn, ?_, fun hk => h1 (e4 756 (by decide) (by decide) hk),
    fun hk => h2 (e4 481 (by decide) (by decide) hk)⟩
  rw [e2, hcnt]
  unfold coalesced_in_flight
  rw [e1, countP_set_true (fun x => (s.stack_tab x).coalesced)
    (fun x => ((mod_coalesce s m r h).stack_tab x).coalesced) _ h hn hm hc
    (by show ((mod_coalesce s m r h).stack_tab h).coalesced = true; rw [e3]; simp)
    (fun x hx => by
      show ((mod_coalesce s m r h).stack_tab x).coalesced = (s.stack_tab x).coalesced
      rw [e3, if_neg hx])]
  push_cast
  rfl

theorem count_finish_inv (s : Sim) (m h : Nat) (hinv : count_inv s m)
    (hm : h ∈ (s.mods m).access_list) :
    count_inv (mod_access_finish s m h) m := by
  obtain ⟨hn, hcnt, h1, h2⟩ := hinv
  have hsplit : List.countP (fun x => (s.stack_tab x).coalesced) (s.mods m).access_list =
      List.countP (fun x => (s.stack_tab x).coalesced) ((s.mods m).access_list.erase h) +
        (if (s.stack_tab h).coalesced = true then 1 else 0) :=
    countP_erase_mem (fun x => (s.stack_tab x).coalesced) _ h hm
  obtain ⟨f1, f2, -⟩ := mod_access_finish_frame s m h
  have e2 : ((mod_access_finish s m h).mods m).access_list_coalesced_count =
      if (s.stack_tab h).coalesced then (s.mods m).access_list_coalesced_count - 1
      else (s.mods m).access_list_coalesced_count := by
    simp [mod_access_finish, Sim.setMod, upd]
  have c481 : (!(s.stack_tab h).coalesced || decide ((s.mods m).access_list_coalesced_count > 0))
      = true := by
    cases hc : (s.stack_tab h).coalesced
    · rfl
    · simp only [Bool.not_true, Bool.false_or, decide_eq_true_eq]
      rw [hcnt]
      unfold coalesced_in_flight
      rw [hsplit, hc]
      push_cast
      simp only [if_true]
      omega
  have e4 : ∀ k, k ≠ 470 → k ∈ (mod_access_finish s m h).assert_log → k ∈ s.assert_log := by
    intro k k1 hk
    unfold mod_access_finish at hk
    simp only [Sim.setMod, check_mods, check_stack_tab] at hk
    have c : decide (¬ (s.stack_tab h).coalesced = true ∨
        (s.mods m).access_list_coalesced_count > 0) = true := by
      cases hc : (s.stack_tab h).coalesced
      · simp
      · rw [hc] at c481
        simpa using c481
    simp only [Bool.not_eq_true', Bool.not_eq_true] at hk c
    rw [c, check_true] at hk
    exact check_assert_log _ _ _ _ k1 hk
  refine ⟨by rw [f2]; exact hn.erase h, ?_, fun hk => h1 (e4 756 (by decide) hk),
    fun hk => h2 (e4 481 (by decide) hk)⟩
  rw [e2]
  unfold coalesced_in_flight
  rw [f1, f2]
  rw [hcnt] 
  unfold coalesced_in_flight
  rw [hsplit]
  by_cases hc : (s.stack_tab h).coalesced = true
  · rw [if_pos hc, if_pos hc]
    push_cast
    omega
  · rw [if_neg hc, if_neg hc]
    rfl

theorem CountReach_inv (m : Nat) (s0 s : Sim) (h0 : count_idle s0 m)
    (hr : CountReach m s0 s) : count_inv s m := by
  induction hr with
  | init => exact count_idle_inv s0 m h0
  | start h kind _ hf hc ih => exact count_start_inv _ m h kind ih hf hc
  | coalesce r h _ hm hc ih => exact count_coalesce_inv _ m r h ih hm hc
  | finish h _ hm ih => exact count_finish_inv _ m h ih hm

/-- C25: coalesced-count invariant.  In every state reached from an idle module
by calls of `mod_access_start` (on a new access), `mod_coalesce` (on an access
in flight that is not yet coalesced) and `mod_access_finish` (on an access in
flight), `access_list_coalesced_count` equals the number of in-flight accesses
marked coalesced and lies between 0 and `access_list_count`, and the
assertions on it in `mod_coalesce` (line 756) and in `mod_access_finish` (line
481) have never failed. -/
theorem coalesced_count_invariant (m : Nat) (s0 s : Sim) (h0 : count_idle s0 m)
    (hr : CountReach m s0 s) :
    (s.mods m).access_list_coalesced_count = ((coalesced_in_flight s m : Nat) : Int) ∧
    0 ≤ (s.mods m).access_list_coalesced_count ∧
    (s.mods m).access_list_coalesced_count ≤ (((s.mods m).access_list.length : Nat) : Int) ∧
    756 ∉ s.assert_log ∧ 481 ∉ s.assert_log := by
  obtain ⟨-, hcnt, h1, h2⟩ := CountReach_inv m s0 s h0 hr
  refine ⟨hcnt, ?_, ?_, h1, h2⟩
  · rw [hcnt]
    exact Int.natCast_nonneg _
  · rw [hcnt]
    unfold coalesced_in_flight
    exact_mod_cast List.countP_le_length _

theorem count_demo_reach : CountReach 0 (chain_init cache_block_invalid) count_demo :=
  CountReach.finish 0 (CountReach.coalesce 0 1 (CountReach.start 1 mod_access_load
    (CountReach.start 0 mod_access_load CountReach.init (by decide) (by decide))
    (by decide) (by decide)) (by decide) (by decide)) (by decide)

theorem coalesced_count_invariant_witness :
    count_idle (chain_init cache_block_invalid) 0 ∧
    CountReach 0 (chain_init cache_block_invalid) count_demo ∧
    (count_demo.mods 0).access_list_coalesced_count = 1 ∧
    (count_demo.mods 0).access_list = [1] :=
  ⟨by decide, count_demo_reach,
    (coalesced_count_invariant 0 (chain_init cache_block_invalid) count_demo (by decide)
      count_demo_reach).1.trans (by decide), by decide⟩

/-- C26: in a well-formed port state `mod_can_access` returns false iff every
port is locked, or `mshr_size` is non-zero and the number of non-coalesced
in-flight accesses (`access_list_count - access_list_coalesced_count`) is at
least `mshr_size`; the address argument does not affect the result. -/
theorem mod_can_access_rule (s : Sim) (m addr addr' : Nat) (hinv : PortInv s m) :
    (mod_can_access s m addr = false ↔
      (∀ q ∈ (s.mods m).ports, q.stack.isSome = true) ∨
      ((s.mods m).mshr_size ≠ 0 ∧
        (((s.mods m).access_list.length : Nat) : Int) - (s.mods m).access_list_coalesced_count
          ≥ (s.mods m).mshr_size)) ∧
    mod_can_access s m addr = mod_can_access s m addr' := by
  have hall : (s.mods m).num_locked_ports = (s.mods m).num_ports ↔
      ∀ q ∈ (s.mods m).ports, q.stack.isSome = true := by
    rw [hinv.cnt, ← hinv.len]
    unfold ports_bound
    rw [← List.countP_eq_length]
    exact Int.ofNat_inj
  refine ⟨?_, rfl⟩
  unfold mod_can_access
  simp only
  by_cases h1 : (s.mods m).num_locked_ports = (s.mods m).num_ports
  · rw [if_pos h1]
    exact ⟨fun _ => Or.inl (hall.mp h1), fun _ => rfl⟩
  · rw [if_neg h1]
    by_cases h2 : (s.mods m).mshr_size = 0
    · rw [if_pos h2]
      constructor
      · intro h; cases h
      · rintro (h | ⟨h, -⟩)
        · exact absurd (hall.mpr h) h1
        · exact absurd h2 h
    · rw [if_neg h2, decide_eq_false_iff_not, not_lt]
      constructor
      · intro h; exact Or.inr ⟨h2, h⟩
      · rintro (h | ⟨-, h⟩)
        · exact absurd (hall.mpr h) h1
        · exact h

theorem mod_can_access_rule_witness :
    PortInv port_demo1 0 ∧ mod_can_access port_demo1 0 4160 = false :=
  ⟨(PortReach_inv 0 port_demo0 port_demo1 (by unfold ports_clear; decide) port_demo1_reach).1,
    (mod_can_access_rule port_demo1 0 4160 0
      (PortReach_inv 0 port_demo0 port_demo1 (by unfold ports_clear; decide)
        port_demo1_reach).1).1.mpr (Or.inl (by decide))⟩

theorem mod_get_low_mod_loop_cons (s : Sim) (addr a : Nat) (l : List Nat) (acc : Option Nat) :
    mod_get_low_mod_loop s addr (a :: l) acc =
      match mod_serves_address (s.mods a) addr with
      | none => none
      | some false => mod_get_low_mod_loop s addr l acc
      | some true =>
        match acc with
        | some _ => none
        | none => mod_get_low_mod_loop s addr l (some a) := rfl

theorem mod_get_low_mod_loop_eq (s : Sim) (addr : Nat) (l : List Nat)
    (hr : ∀ x ∈ l, (s.mods x).range ≠ mod_range_invalid) (acc : Option Nat) :
    mod_get_low_mod_loop s addr l acc =
      match acc, l.filter (fun x => spec_serves (s.mods x) addr) with
      | none, [] => some none
      | none, [x] => some (some x)
      | none, _ :: _ :: _ => none
      | some a, [] => some (some a)
      | some _, _ :: _ => none := by
  induction l generalizing acc with
  | nil => cases acc <;> rfl
  | cons a l ih =>
    have hra := hr a (List.mem_cons_self _ _)
    have hrl : ∀ x ∈ l, (s.mods x).range ≠ mod_range_invalid :=
      fun x hx => hr x (List.mem_cons_of_mem _ hx)
    have hs : mod_serves_address (s.mods a) addr = some (spec_serves (s.mods a) addr) := by
      unfold mod_serves_address spec_serves
      cases hrg : (s.mods a).range with
      | mod_range_bounds low high => simp only [ge_iff_le]
      | mod_range_interleaved md dv eq => rfl
      | mod_range_invalid => exact absurd hrg hra
    rw [mod_get_low_mod_loop_cons, hs]
    cases hb : spec_serves (s.mods a) addr
    · simp only
      rw [ih hrl acc, List.filter_cons_of_neg (by simp [hb])]
    · simp only
      rw [List.filter_cons_of_pos (by simp [hb])]
      cases acc with
      | some c => rfl
      | none =>
        simp only
        rw [ih hrl (some a)]
        cases List.filter (fun x => spec_serves (s.mods x) addr) l <;> rfl

/-- C27: lower-neighbour routing.  A low module serves `addr` iff `low <= addr
<= high` (bounds range) or `(addr / div) mod mod = eq` (interleaved range).
For a module that is not main memory, `mod_get_low_mod` returns the module `x`
exactly when `x` is the only entry of the low list that serves the address, and
stops with a fatal error exactly when no entry or more than one entry serves
it; for main memory it returns no module. -/
theorem mod_get_low_mod_routing (s : Sim) (m addr : Nat)
    (hr : ∀ x ∈ (s.mods m).low_mod_list, (s.mods x).range ≠ mod_range_invalid) :
    (∀ x ∈ (s.mods m).low_mod_list,
      mod_serves_address (s.mods x) addr = some (spec_serves (s.mods x) addr)) ∧
    ((s.mods m).kind = mod_kind_main_memory → mod_get_low_mod s m addr = low_mod_t.null) ∧
    ((s.mods m).kind ≠ mod_kind_main_memory →
      (∀ x, mod_get_low_mod s m addr = low_mod_t.server x ↔
        (s.mods m).low_mod_list.filter (fun y => spec_serves (s.mods y) addr) = [x]) ∧
      (mod_get_low_mod s m addr = low_mod_t.fatal ↔
        ((s.mods m).low_mod_list.filter (fun y => spec_serves (s.mods y) addr)).length ≠ 1) ∧
      mod_get_low_mod s m addr ≠ low_mod_t.null) := by
  refine ⟨?_, ?_, ?_⟩
  · intro x hx
    have hra := hr x hx
    unfold mod_serves_address spec_serves
    cases hrg : (s.mods x).range with
    | mod_range_bounds low high => simp only [ge_iff_le]
    | mod_range_interleaved md dv eq => rfl
    | mod_range_invalid => exact absurd hrg hra
  · intro hk
    unfold mod_get_low_mod
    simp only
    rw [if_pos hk]
  · intro hk
    unfold mod_get_low_mod
    simp only
    rw [if_neg hk, mod_get_low_mod_loop_eq s addr _ hr none]
    rcases hf : List.filter (fun y => spec_serves (s.mods y) addr) (s.mods m).low_mod_list with
      _ | ⟨a, _ | ⟨b, r⟩⟩
    · simp
    · simp
    · simp

theorem mod_get_low_mod_routing_witness :
    (∀ x ∈ (two_banks.mods 1).low_mod_list, (two_banks.mods x).range ≠ mod_range_invalid) ∧
    mod_get_low_mod two_banks 1 4160 = low_mod_t.server 3 :=
  ⟨by decide,
    ((mod_get_low_mod_routing two_banks 1 4160 (by decide)).2.2 (by decide)).1 3 |>.mpr
      (by decide)⟩

theorem mod_in_flight_write_some (s : Sim) (m h : Nat) (hm : h ∈ (s.mods m).access_list) :
    (mod_in_flight_write s m (some h) = none ↔
      ∀ x ∈ issued_before s m (some h), (s.stack_tab x).access_kind ≠ mod_access_store) ∧
    (∀ r, mod_in_flight_write s m (some h) = some r →
      r ∈ issued_before s m (some h) ∧ (s.stack_tab r).access_kind = mod_access_store) := by
  have ho : caller_in_flight s m (some h) := fun o e => by cases e; exact hm
  have e : mod_in_flight_write s m (some h) =
      (issued_before s m (some h)).reverse.find?
        (fun x => decide ((s.stack_tab x).access_kind = mod_access_store)) := by
    have := chain_eq s m (some h) ho
    simp only [coalesce_chain] at this
    simp only [mod_in_flight_write]
    rw [this]
  rw [e]
  constructor
  · rw [List.find?_eq_none]
    simp only [List.mem_reverse, decide_eq_true_eq, ne_eq]
  · intro r hr
    have h1 := List.find?_some hr
    have h2 := List.mem_of_find?_eq_some hr
    exact ⟨List.mem_reverse.mp h2, by simpa using h1⟩

theorem mod_in_flight_address_spec (s : Sim) (m addr : Nat) (o : Option Nat)
    (hok : access_index_ok s m) (ho : caller_in_flight s m o) :
    (mod_in_flight_address s m addr o = none ↔
      ∀ x ∈ issued_before s m o, same_block s m addr x = false) ∧
    (∀ r, mod_in_flight_address s m addr o = some r →
      r ∈ issued_before s m o ∧ same_block s m addr r = true) := by
  constructor
  · rw [← Option.isNone_iff_eq_none]
    exact in_flight_none_iff s m addr o hok ho
  · intro r hr
    rw [mod_in_flight_address_eq s m addr o hok] at hr
    have h1 := List.find?_some hr
    have h2 := List.mem_of_find?_eq_some hr
    rw [Bool.and_eq_true] at h1
    exact ⟨(older_than_iff s m o hok ho r h2).mp h1.1, h1.2⟩

theorem mod_stack_wait_in_stack_frame (s : Sim) (h older : Nat) (ev : Ev) :
    (mod_stack_wait_in_stack s h older ev).mods = s.mods ∧
    (mod_stack_wait_in_stack s h older ev).events = s.events ∧
    (mod_stack_wait_in_stack s h older ev).next_stack = s.next_stack ∧
    (mod_stack_wait_in_stack s h older ev).esim_time = s.esim_time ∧
    (mod_stack_wait_in_stack s h older ev).fatal = s.fatal ∧
    (mod_stack_wait_in_stack s h older ev).assert_log = s.assert_log ∧
    ((mod_stack_wait_in_stack s h older ev).stack_tab h).waiting_list_event = ev ∧
    h ∈ ((mod_stack_wait_in_stack s h older ev).stack_tab older).waiting_list ∧
    (∀ x, ((mod_stack_wait_in_stack s h older ev).stack_tab x).port = (s.stack_tab x).port ∧
      ((mod_stack_wait_in_stack s h older ev).stack_tab x).port_locked =
        (s.stack_tab x).port_locked ∧
      ((mod_stack_wait_in_stack s h older ev).stack_tab x).id = (s.stack_tab x).id ∧
      ((mod_stack_wait_in_stack s h older ev).stack_tab x).addr = (s.stack_tab x).addr ∧
      ((mod_stack_wait_in_stack s h older ev).stack_tab x).access_kind =
        (s.stack_tab x).access_kind) := by
  have key : ∀ x, ∃ e l, (mod_stack_wait_in_stack s h older ev).stack_tab x =
      { s.stack_tab x with waiting_list_event := e, waiting_list := l } := by
    intro x
    unfold mod_stack_wait_in_stack Sim.setStack
    simp only [upd]
    by_cases e1 : x = older
    · rw [if_pos e1]
      by_cases e2 : older = h
      · rw [if_pos e2]; subst e1; subst e2; exact ⟨_, _, rfl⟩
      · rw [if_neg e2]; subst e1; exact ⟨_, _, rfl⟩
    · rw [if_neg e1]
      by_cases e2 : x = h
      · rw [if_pos e2]; subst e2; exact ⟨_, _, rfl⟩
      · rw [if_neg e2]; exact ⟨(s.stack_tab x).waiting_list_event, (s.stack_tab x).waiting_list, rfl⟩
  refine ⟨rfl, rfl, rfl, rfl, rfl, rfl, ?_, ?_, ?_⟩
  · simp only [mod_stack_wait_in_stack, Sim.setStack, upd]
    by_cases e : h = older
    · simp [e]
    · simp [e]
  · simp [mod_stack_wait_in_stack, Sim.setStack, upd]
  · intro x
    obtain ⟨e, l, hx⟩ := key x
    rw [hx]
    exact ⟨rfl, rfl, rfl, rfl, rfl⟩

/-- C22: a Load never bypasses an older Store.  For a Load `h` in flight in its
module, `EV_MOD_NMOESI_LOAD_LOCK` either starts FindAndLock (a new stack that
returns to `h` at `LOAD_ACTION`, with `EV_MOD_NMOESI_FIND_AND_LOCK` scheduled),
and then no access issued before `h` and still in flight is a Store or targets
the block of `h`; or it queues `h` on an access `older` issued before it that
is a Store or targets its block: no stack is created and no event scheduled,
the module table (ports, entry locks, cache blocks) and the port fields of every
stack are unchanged, and when `older` retires `h` is scheduled at
`EV_MOD_NMOESI_LOAD_LOCK` again. -/
theorem load_never_bypasses_store (s : Sim) (m h : Nat) (hmod : (s.stack_tab h).mod = m)
    (hm : h ∈ (s.mods m).access_list) (hok : access_index_ok s m) :
    ((∀ x ∈ issued_before s m (some h),
        (s.stack_tab x).access_kind ≠ mod_access_store ∧
        same_block s m (s.stack_tab h).addr x = false) ∧
      (ev_mod_nmoesi_load_lock s h).next_stack = s.next_stack + 1 ∧
      (ev_mod_nmoesi_load_lock s h).events =
        insert_event (s.esim_time + 0) EV_MOD_NMOESI_FIND_AND_LOCK s.next_stack s.events ∧
      ((ev_mod_nmoesi_load_lock s h).stack_tab s.next_stack).mod = m ∧
      ((ev_mod_nmoesi_load_lock s h).stack_tab s.next_stack).addr = (s.stack_tab h).addr ∧
      ((ev_mod_nmoesi_load_lock s h).stack_tab s.next_stack).ret_stack = some h ∧
      ((ev_mod_nmoesi_load_lock s h).stack_tab s.next_stack).ret_event =
        EV_MOD_NMOESI_LOAD_ACTION ∧
      (ev_mod_nmoesi_load_lock s h).mods = s.mods) ∨
    (∃ older ∈ issued_before s m (some h),
      ((s.stack_tab older).access_kind = mod_access_store ∨
        same_block s m (s.stack_tab h).addr older = true) ∧
      ev_mod_nmoesi_load_lock s h =
        mod_stack_wait_in_stack (s.log EV_MOD_NMOESI_LOAD_LOCK h) h older
          EV_MOD_NMOESI_LOAD_LOCK ∧
      (ev_mod_nmoesi_load_lock s h).next_stack = s.next_stack ∧
      (ev_mod_nmoesi_load_lock s h).events = s.events ∧
      (ev_mod_nmoesi_load_lock s h).mods = s.mods ∧
      (∀ x, ((ev_mod_nmoesi_load_lock s h).stack_tab x).port = (s.stack_tab x).port ∧
        ((ev_mod_nmoesi_load_lock s h).stack_tab x).port_locked =
          (s.stack_tab x).port_locked) ∧
      ((ev_mod_nmoesi_load_lock s h).stack_tab h).waiting_list_event =
        EV_MOD_NMOESI_LOAD_LOCK ∧
      h ∈ ((ev_mod_nmoesi_load_lock s h).stack_tab older).waiting_list ∧
      (s.esim_time, EV_MOD_NMOESI_LOAD_LOCK, h) ∈
        (mod_stack_return (ev_mod_nmoesi_load_lock s h) older).events) := by
  have ho : caller_in_flight s m (some h) := fun o e => by cases e; exact hm
  obtain ⟨w1, w2⟩ := mod_in_flight_write_some s m h hm
  obtain ⟨a1, a2⟩ := mod_in_flight_address_spec s m (s.stack_tab h).addr (some h) hok ho
  have hwait : ∀ older, older ∈ issued_before s m (some h) →
      ((s.stack_tab older).access_kind = mod_access_store ∨
        same_block s m (s.stack_tab h).addr older = true) →
      ev_mod_nmoesi_load_lock s h =
        mod_stack_wait_in_stack (s.log EV_MOD_NMOESI_LOAD_LOCK h) h older
          EV_MOD_NMOESI_LOAD_LOCK →
      ∃ older ∈ issued_before s m (some h),
      ((s.stack_tab older).access_kind = mod_access_store ∨
        same_block s m (s.stack_tab h).addr older = true) ∧
      ev_mod_nmoesi_load_lock s h =
        mod_stack_wait_in_stack (s.log EV_MOD_NMOESI_LOAD_LOCK h) h older
          EV_MOD_NMOESI_LOAD_LOCK ∧
      (ev_mod_nmoesi_load_lock s h).next_stack = s.next_stack ∧
      (ev_mod_nmoesi_load_lock s h).events = s.events ∧
      (ev_mod_nmoesi_load_lock s h).mods = s.mods ∧
      (∀ x, ((ev_mod_nmoesi_load_lock s h).stack_tab x).port = (s.stack_tab x).port ∧
        ((ev_mod_nmoesi_load_lock s h).stack_tab x).port_locked =
          (s.stack_tab x).port_locked) ∧
      ((ev_mod_nmoesi_load_lock s h).stack_tab h).waiting_list_event =
        EV_MOD_NMOESI_LOAD_LOCK ∧
      h ∈ ((ev_mod_nmoesi_load_lock s h).stack_tab older).waiting_list ∧
      (s.esim_time, EV_MOD_NMOESI_LOAD_LOCK, h) ∈
        (mod_stack_return (ev_mod_nmoesi_load_lock s h) older).events := by
    intro older hin hcond heq
    obtain ⟨f1, f2, f3, f4, -, -, f7, f8, f9⟩ :=
      mod_stack_wait_in_stack_frame (s.log EV_MOD_NMOESI_LOAD_LOCK h) h older
        EV_MOD_NMOESI_LOAD_LOCK
    refine ⟨older, hin, hcond, heq, ?_, ?_, ?_, ?_, ?_, ?_, ?_⟩
    · rw [heq, f3]; rfl
    · rw [heq, f2]; rfl
    · rw [heq, f1]; rfl
    · intro x; rw [heq]; exact ⟨(f9 x).1, (f9 x).2.1⟩
    · rw [heq]; exact f7
    · rw [heq]; exact f8
    · have := (mod_stack_return_wakes _ older h f8).1
      rw [f7, f4] at this
      rw [heq]
      exact this
  have hunf : ev_mod_nmoesi_load_lock s h =
      (match mod_in_flight_write s m (some h) with
      | some older_stack =>
        mod_stack_wait_in_stack (s.log EV_MOD_NMOESI_LOAD_LOCK h) h older_stack
          EV_MOD_NMOESI_LOAD_LOCK
      | none =>
        match mod_in_flight_address s m (s.stack_tab h).addr (some h) with
        | some older_stack =>
          mod_stack_wait_in_stack (s.log EV_MOD_NMOESI_LOAD_LOCK h) h older_stack
            EV_MOD_NMOESI_LOAD_LOCK
        | none =>
          esim_schedule_event
            ((mod_stack_create (s.log EV_MOD_NMOESI_LOAD_LOCK h) (s.stack_tab h).id m
              (s.stack_tab h).addr EV_MOD_NMOESI_LOAD_ACTION (some h)).2.modStack s.next_stack
              (fun st => { st with
                orig_mod_id := (s.mods m).mod_id
                issue_mod_id := (s.stack_tab h).issue_mod_id
                blocking := true
                read := true
                retry := (s.stack_tab h).retry }))
            EV_MOD_NMOESI_FIND_AND_LOCK s.next_stack 0) := by
    subst hmod
    rfl
  cases hw : mod_in_flight_write s m (some h) with
  | some older =>
    rw [hw] at hunf
    exact Or.inr (hwait older (w2 older hw).1 (Or.inl (w2 older hw).2) hunf)
  | none =>
    rw [hw] at hunf
    cases ha : mod_in_flight_address s m (s.stack_tab h).addr (some h) with
    | some older =>
      rw [ha] at hunf
      exact Or.inr (hwait older (a2 older ha).1 (Or.inr (a2 older ha).2) hunf)
    | none =>
      rw [ha] at hunf
      simp only at hunf
      refine Or.inl ⟨fun x hx => ⟨w1.mp hw x hx, a1.mp ha x hx⟩, ?_, ?_, ?_, ?_, ?_, ?_, ?_⟩ <;>
        rw [hunf] <;>
        simp [esim_schedule_event, Sim.modStack, Sim.setStack, mod_stack_create, Sim.log, upd]

theorem load_never_bypasses_store_witness :
    (mixed_accesses.stack_tab 1).mod = 0 ∧ 1 ∈ (mixed_accesses.mods 0).access_list ∧
    access_index_ok mixed_accesses 0 ∧
    (ev_mod_nmoesi_load_lock mixed_accesses 1).events = mixed_accesses.events :=
  ⟨by decide, by decide, by decide,
    (load_never_bypasses_store mixed_accesses 0 1 (by decide) (by decide) (by decide)).elim
      (fun hl => absurd (by decide : (mixed_accesses.stack_tab 0).access_kind = mod_access_store)
        (hl.1 0 (by decide)).1)
      (fun hr => hr.elim (fun _ hx => hx.2.2.2.2.1))⟩

/-- C30: NCStore.  At `EV_MOD_NMOESI_NC_STORE_WRITEBACK` an Evict of the line of
the access is started (a new stack for the same set and way with `evict_trans`
set, returning to the access at `NC_STORE_ACTION`, and `EV_MOD_NMOESI_EVICT`
scheduled) iff FindAndLock succeeded and reported the line Modified or Owned;
with any other state reported the access goes to `NC_STORE_ACTION` at once and
no stack is created.  `EV_MOD_NMOESI_NC_STORE_UNLOCK` leaves the block at the
set and way of the access with the tag of the access and state NonCoherent,
whatever the state before and whatever the module. -/
theorem nc_store_rule (s : Sim) (h : Nat) :
    ((ev_mod_nmoesi_nc_store_writeback s h).next_stack = s.next_stack + 1 ↔
      ((s.stack_tab h).err = false ∧
        ((s.stack_tab h).state = cache_block_modified ∨
          (s.stack_tab h).state = cache_block_owned))) ∧
    ((s.stack_tab h).err = false →
      ((s.stack_tab h).state = cache_block_modified ∨
        (s.stack_tab h).state = cache_block_owned) →
      (ev_mod_nmoesi_nc_store_writeback s h).events =
        insert_event (s.esim_time + 0) EV_MOD_NMOESI_EVICT s.next_stack s.events ∧
      ((ev_mod_nmoesi_nc_store_writeback s h).stack_tab s.next_stack).mod =
        (s.stack_tab h).mod ∧
      ((ev_mod_nmoesi_nc_store_writeback s h).stack_tab s.next_stack).set =
        (s.stack_tab h).set ∧
      ((ev_mod_nmoesi_nc_store_writeback s h).stack_tab s.next_stack).way =
        (s.stack_tab h).way ∧
      ((ev_mod_nmoesi_nc_store_writeback s h).stack_tab s.next_stack).evict_trans = true ∧
      ((ev_mod_nmoesi_nc_store_writeback s h).stack_tab s.next_stack).ret_stack = some h ∧
      ((ev_mod_nmoesi_nc_store_writeback s h).stack_tab s.next_stack).ret_event =
        EV_MOD_NMOESI_NC_STORE_ACTION) ∧
    ((s.stack_tab h).err = false →
      ¬ ((s.stack_tab h).state = cache_block_modified ∨
        (s.stack_tab h).state = cache_block_owned) →
      (ev_mod_nmoesi_nc_store_writeback s h).next_stack = s.next_stack ∧
      (ev_mod_nmoesi_nc_store_writeback s h).stack_tab = s.stack_tab ∧
      (ev_mod_nmoesi_nc_store_writeback s h).events =
        insert_event (s.esim_time + 0) EV_MOD_NMOESI_NC_STORE_ACTION h s.events) ∧
    ((((ev_mod_nmoesi_nc_store_unlock s h).mods (s.stack_tab h).mod).cache.blocks
        (s.stack_tab h).set (s.stack_tab h).way).tag = (s.stack_tab h).tag ∧
     (((ev_mod_nmoesi_nc_store_unlock s h).mods (s.stack_tab h).mod).cache.blocks
        (s.stack_tab h).set (s.stack_tab h).way).state = cache_block_noncoherent) := by
  refine ⟨?_, ?_, ?_, ?_⟩
  · unfold ev_mod_nmoesi_nc_store_writeback
    simp only [Sim.log]
    by_cases he : (s.stack_tab h).err = true
    · rw [if_pos he]
      simp [esim_schedule_event, Sim.modStack, Sim.setStack, mod_get_retry_latency, he]
    · rw [if_neg he]
      by_cases hs : (s.stack_tab h).state = cache_block_modified ∨
          (s.stack_tab h).state = cache_block_owned
      · rw [if_pos hs]
        simp [esim_schedule_event, Sim.modStack, Sim.setStack, mod_stack_create, he, hs]
      · rw [if_neg hs]
        simp [esim_schedule_event, hs]
  · intro he hs
    have he' : ¬ (s.stack_tab h).err = true := by rw [he]; decide
    unfold ev_mod_nmoesi_nc_store_writeback
    simp only [Sim.log]
    rw [if_neg he', if_pos hs]
    simp [esim_schedule_event, Sim.modStack, Sim.setStack, mod_stack_create, upd]
  · intro he hs
    have he' : ¬ (s.stack_tab h).err = true := by rw [he]; decide
    unfold ev_mod_nmoesi_nc_store_writeback
    simp only [Sim.log]
    rw [if_neg he', if_neg hs]
    simp [esim_schedule_event]
  · unfold ev_mod_nmoesi_nc_store_unlock
    simp [Sim.log, esim_schedule_event, cache_entry_unlock, cache_set_block, Sim.setCache,
      Sim.setMod, Sim.setLock, upd, upd2]
    split <;> simp [Sim.setLock, Sim.setMod, Sim.setCache, esim_schedule_event, upd, upd2]

theorem nc_store_rule_witness :
    (ev_mod_nmoesi_nc_store_writeback nc_store_demo 0).next_stack =
      nc_store_demo.next_stack + 1 ∧
    (nc_store_demo.mods 0).kind = mod_kind_cache :=
  ⟨(nc_store_rule nc_store_demo 0).1.mpr ⟨by decide, Or.inl (by decide)⟩, by decide⟩

theorem first_on_line_of_before (s : Sim) (m h : Nat) (hm : h ∈ (s.mods m).access_list)
    (hok : access_index_ok s m)
    (hb : ∀ x ∈ issued_before s m (some h), same_block s m (s.stack_tab h).addr x = false) :
    first_on_line s m h := by
  intro x hx hid
  have ho : caller_in_flight s m (some h) := fun o e => by cases e; exact hm
  exact hb x ((older_than_iff s m (some h) hok ho x hx).mp (by simpa [older_than] using hid))

theorem load_lock_starts (s : Sim) (h : Nat)
    (hn : (ev_mod_nmoesi_load_lock s h).next_stack = s.next_stack + 1) :
    mod_in_flight_address s (s.stack_tab h).mod (s.stack_tab h).addr (some h) = none := by
  cases hw : mod_in_flight_write (s.log EV_MOD_NMOESI_LOAD_LOCK h)
      ((s.log EV_MOD_NMOESI_LOAD_LOCK h).stack_tab h).mod (some h) with
  | some o =>
    unfold ev_mod_nmoesi_load_lock at hn
    simp only at hn
    rw [hw] at hn
    simp [mod_stack_wait_in_stack, Sim.setStack, Sim.log] at hn
  | none =>
    cases ha : mod_in_flight_address (s.log EV_MOD_NMOESI_LOAD_LOCK h)
        ((s.log EV_MOD_NMOESI_LOAD_LOCK h).stack_tab h).mod
        ((s.log EV_MOD_NMOESI_LOAD_LOCK h).stack_tab h).addr (some h) with
    | some o =>
      unfold ev_mod_nmoesi_load_lock at hn
      simp only at hn
      rw [hw] at hn
      simp only at hn
      rw [ha] at hn
      simp [mod_stack_wait_in_stack, Sim.setStack, Sim.log] at hn
    | none => exact ha

theorem nc_store_lock_starts (s : Sim) (h : Nat)
    (hn : (ev_mod_nmoesi_nc_store_lock s h).next_stack = s.next_stack + 1) :
    mod_in_flight_address s (s.stack_tab h).mod (s.stack_tab h).addr (some h) = none := by
  cases hw : mod_in_flight_write (s.log EV_MOD_NMOESI_NC_STORE_LOCK h)
      ((s.log EV_MOD_NMOESI_NC_STORE_LOCK h).stack_tab h).mod (some h) with
  | some o =>
    unfold ev_mod_nmoesi_nc_store_lock at hn
    simp only at hn
    rw [hw] at hn
    simp [mod_stack_wait_in_stack, Sim.setStack, Sim.log] at hn
  | none =>
    cases ha : mod_in_flight_address (s.log EV_MOD_NMOESI_NC_STORE_LOCK h)
        ((s.log EV_MOD_NMOESI_NC_STORE_LOCK h).stack_tab h).mod
        ((s.log EV_MOD_NMOESI_NC_STORE_LOCK h).stack_tab h).addr (some h) with
    | some o =>
      unfold ev_mod_nmoesi_nc_store_lock at hn
      simp only at hn
      rw [hw] at hn
      simp only at hn
      rw [ha] at hn
      simp [mod_stack_wait_in_stack, Sim.setStack, Sim.log] at hn
    | none => exact ha

theorem store_lock_starts (s : Sim) (h : Nat)
    (hn : (ev_mod_nmoesi_store_lock s h).next_stack = s.next_stack + 1) :
    (prev_chain (s.mods (s.stack_tab h).mod).access_list h).head? = none := by
  cases hw : (prev_chain ((s.log EV_MOD_NMOESI_STORE_LOCK h).mods
      ((s.log EV_MOD_NMOESI_STORE_LOCK h).stack_tab h).mod).access_list h).head? with
  | some o =>
    unfold ev_mod_nmoesi_store_lock at hn
    simp only at hn
    rw [hw] at hn
    simp [mod_stack_wait_in_stack, Sim.setStack, Sim.log] at hn
  | none => exact hw

theorem line_inv_step (m p : Nat) (s s' : Sim) (hinv : line_inv s m p)
    (hs : index_step m s s') : line_inv s' m p := by
  obtain ⟨hp, hid, hall, hfirst⟩ := hinv
  obtain ⟨s1, s2, s3, s4, s5⟩ := hs
  refine ⟨lt_of_lt_of_le hp s3, ?_, ?_, ?_⟩
  · rw [(s1 p hp).1]
    exact le_trans hid s4
  · intro x hx
    rcases s5 x hx with h1 | ⟨-, h2, -⟩
    · exact lt_of_lt_of_le (hall x h1) s3
    · exact h2
  · intro x hx hlt
    rcases s5 x hx with h1 | ⟨-, -, h3⟩
    · have hxn := hall x h1
      rw [(s1 x hxn).1, (s1 p hp).1] at hlt
      have := hfirst x h1 hlt
      unfold same_block at this ⊢
      rw [(s1 x hxn).2, (s1 p hp).2, s2]
      exact this
    · rw [(s1 p hp).1] at hlt
      exact absurd (lt_of_lt_of_le (lt_trans h3 hlt) hid) (lt_irrefl _)

theorem line_inv_run (m p : Nat) (s s' : Sim) (hinv : line_inv s m p)
    (hr : Relation.ReflTransGen (index_step m) s s') : line_inv s' m p := by
  induction hr with
  | refl => exact hinv
  | tail _ hstep ih => exact line_inv_step m p _ _ ih hstep

theorem index_view_stack (m : Nat) (s t : Sim) (h1 : t.next_stack = s.next_stack)
    (h2 : t.mod_stack_id = s.mod_stack_id) (h3 : t.mods = s.mods)
    (h4 : ∀ x, (t.stack_tab x).id = (s.stack_tab x).id ∧ (t.stack_tab x).addr = (s.stack_tab x).addr) :
    index_view m t = index_view m s := by
  unfold index_view
  rw [h1, h2, h3]
  have : (fun x => ((t.stack_tab x).id, (t.stack_tab x).addr)) =
      (fun x => ((s.stack_tab x).id, (s.stack_tab x).addr)) := by
    funext x
    rw [(h4 x).1, (h4 x).2]
  rw [this]

theorem index_view_log (m : Nat) (s : Sim) (e : Ev) (h : Nat) :
    index_view m (s.log e h) = index_view m s := rfl

theorem index_view_sched (m : Nat) (s : Sim) (e : Ev) (h d : Nat) :
    index_view m (esim_schedule_event s e h d) = index_view m s := rfl

theorem index_view_check (m : Nat) (s : Sim) (c : Bool) (l : Nat) :
    index_view m (s.check c l) = index_view m s := by
  unfold Sim.check
  split <;> rfl

theorem index_view_modStack (m : Nat) (s : Sim) (h : Nat) (f : mod_stack_t → mod_stack_t)
    (hf : ∀ st, (f st).id = st.id ∧ (f st).addr = st.addr) :
    index_view m (s.modStack h f) = index_view m s := by
  apply index_view_stack m s (s.modStack h f) rfl rfl rfl
  intro x
  simp only [Sim.modStack, Sim.setStack, upd]
  split
  · next e => rw [e]; exact hf _
  · exact ⟨rfl, rfl⟩

theorem index_view_wait (m : Nat) (s : Sim) (h o : Nat) (e : Ev) :
    index_view m (mod_stack_wait_in_stack s h o e) = index_view m s := by
  obtain ⟨f1, -, f3, -, -, -, -, -, f9⟩ := mod_stack_wait_in_stack_frame s h o e
  exact index_view_stack m s (mod_stack_wait_in_stack s h o e) f3 rfl f1 (fun x => ⟨(f9 x).2.2.1, (f9 x).2.2.2.1⟩)

theorem index_view_coalesce (m : Nat) (s : Sim) (m' r h : Nat) :
    index_view m (mod_coalesce s m' r h) = index_view m s := by
  unfold mod_coalesce
  simp only
  unfold index_view
  simp only [Sim.setMod, Sim.setStack, check_mods, check_stack_tab, check_next_stack,
    check_mod_stack_id, upd]
  have e1 : ∀ x, (if x = h then
      { s.stack_tab h with coalesced := true, master_stack := some r } else s.stack_tab x).id =
      (s.stack_tab x).id ∧ (if x = h then
      { s.stack_tab h with coalesced := true, master_stack := some r } else s.stack_tab x).addr =
      (s.stack_tab x).addr := by
    intro x
    split
    · next e => rw [e]; exact ⟨rfl, rfl⟩
    · exact ⟨rfl, rfl⟩
  have e2 : (fun x => ((if x = h then
      { s.stack_tab h with coalesced := true, master_stack := some r } else s.stack_tab x).id,
      (if x = h then
      { s.stack_tab h with coalesced := true, master_stack := some r } else s.stack_tab x).addr)) =
      (fun x => ((s.stack_tab x).id, (s.stack_tab x).addr)) := by
    funext x
    rw [(e1 x).1, (e1 x).2]
  rw [e2]
  by_cases e : m = m'
  · simp [e]
  · simp [e]

theorem index_view_wakeup (m : Nat) (l : List Nat) (s : Sim) :
    index_view m (wakeup_list s l) = index_view m s := by
  induction l generalizing s with
  | nil => rfl
  | cons a rest ih =>
    simp only [wakeup_list]
    rw [ih]
    rfl

theorem index_view_return (m : Nat) (s : Sim) (h : Nat) :
    index_view m (mod_stack_return s h) = index_view m s := by
  have hw := index_view_wakeup m (s.stack_tab h).waiting_list s
  have hs : index_view m ((wakeup_list s (s.stack_tab h).waiting_list).setStack h
      { (wakeup_list s (s.stack_tab h).waiting_list).stack_tab h with waiting_list := [] }) =
      index_view m s := by
    rw [← hw]
    exact index_view_modStack m _ h (fun st => { st with waiting_list := [] })
      (fun st => ⟨rfl, rfl⟩)
  unfold mod_stack_return
  simp only
  split
  · exact hs
  · rw [index_view_sched]
    exact hs

theorem index_view_step (m : Nat) (s s' t' : Sim) (hv : index_view m s' = index_view m t')
    (hs : index_step m s t') : index_step m s s' := by
  unfold index_view at hv
  simp only [Prod.mk.injEq] at hv
  obtain ⟨v1, v2, v3, v4, v5⟩ := hv
  have v6 : ∀ x, (s'.stack_tab x).id = (t'.stack_tab x).id ∧
      (s'.stack_tab x).addr = (t'.stack_tab x).addr := by
    intro x
    have := congrFun v5 x
    simp only [Prod.mk.injEq] at this
    exact this
  obtain ⟨s1, s2, s3, s4, s5⟩ := hs
  refine ⟨?_, ?_, ?_, ?_, ?_⟩
  · intro x hx
    rw [(v6 x).1, (v6 x).2]
    exact s1 x hx
  · rw [v4]; exact s2
  · rw [v1]; exact s3
  · rw [v2]; exact s4
  · intro x hx
    rw [v3] at hx
    rw [v1, (v6 x).1]
    exact s5 x hx

theorem index_step_finish (m : Nat) (s : Sim) (m' h : Nat) :
    index_step m s (mod_access_finish s m' h) := by
  have hl : ((mod_access_finish s m' h).mods m).access_list =
      if m = m' then (s.mods m).access_list.erase h else (s.mods m).access_list := by
    unfold mod_access_finish
    simp only [Sim.setMod, check_mods, upd]
    by_cases e : m = m'
    · simp [e]
    · simp [e]
  have hb : ((mod_access_finish s m' h).mods m).log_block_size = (s.mods m).log_block_size := by
    unfold mod_access_finish
    simp only [Sim.setMod, check_mods, upd]
    by_cases e : m = m'
    · simp [e]
    · simp [e]
  obtain ⟨f1, -, -, -, f5, f6, -⟩ := mod_access_finish_frame s m' h
  refine ⟨fun x _ => by rw [f1]; exact ⟨rfl, rfl⟩, hb, by rw [f5], by rw [f6], ?_⟩
  intro x hx
  rw [hl] at hx
  left
  by_cases e : m = m'
  · rw [if_pos e] at hx
    exact List.mem_of_mem_erase hx
  · rw [if_neg e] at hx
    exact hx

theorem index_step_start (m : Nat) (s : Sim) (m' m'' addr : Nat) (kind : mod_access_kind_t)
    (f : mod_stack_t → mod_stack_t) (hf : ∀ st, (f st).id = st.id ∧ (f st).addr = st.addr) :
    index_step m s (mod_access_start
      ((mod_stack_create { s with mod_stack_id := s.mod_stack_id + 1 } (s.mod_stack_id + 1) m'
        addr ESIM_EV_NONE none).2.modStack s.next_stack f) m'' s.next_stack kind) := by
  have hst : ∀ x, x ≠ s.next_stack → (mod_access_start
      ((mod_stack_create { s with mod_stack_id := s.mod_stack_id + 1 } (s.mod_stack_id + 1) m'
        addr ESIM_EV_NONE none).2.modStack s.next_stack f) m'' s.next_stack kind).stack_tab x =
      s.stack_tab x := by
    intro x hx
    simp [mod_access_start, Sim.modStack, Sim.setStack, Sim.setMod, mod_stack_create, upd, hx]
  have hid : ((mod_access_start
      ((mod_stack_create { s with mod_stack_id := s.mod_stack_id + 1 } (s.mod_stack_id + 1) m'
        addr ESIM_EV_NONE none).2.modStack s.next_stack f) m'' s.next_stack kind).stack_tab
        s.next_stack).id = s.mod_stack_id + 1 := by
    simp [mod_access_start, Sim.modStack, Sim.setStack, Sim.setMod, mod_stack_create, upd,
      (hf _).1]
  have hl : ((mod_access_start
      ((mod_stack_create { s with mod_stack_id := s.mod_stack_id + 1 } (s.mod_stack_id + 1) m'
        addr ESIM_EV_NONE none).2.modStack s.next_stack f) m'' s.next_stack kind).mods
        m).access_list =
      if m = m'' then (s.mods m).access_list ++ [s.next_stack] else (s.mods m).access_list := by
    simp only [mod_access_start, Sim.modStack, Sim.setStack, Sim.setMod, mod_stack_create, upd]
    by_cases e : m = m''
    · simp [e]
    · simp [e]
  have hb : ((mod_access_start
      ((mod_stack_create { s with mod_stack_id := s.mod_stack_id + 1 } (s.mod_stack_id + 1) m'
        addr ESIM_EV_NONE none).2.modStack s.next_stack f) m'' s.next_stack kind).mods
        m).log_block_size = (s.mods m).log_block_size := by
    simp only [mod_access_start, Sim.modStack, Sim.setStack, Sim.setMod, mod_stack_create, upd]
    by_cases e : m = m''
    · simp [e]
    · simp [e]
  refine ⟨?_, hb, Nat.le_succ _, ?_, ?_⟩
  · intro x hx
    rw [hst x (Nat.ne_of_lt hx)]
    exact ⟨rfl, rfl⟩
  · show s.mod_stack_id ≤ s.mod_stack_id + 1
    omega
  · intro x hx
    rw [hl] at hx
    by_cases e : m = m''
    · rw [if_pos e] at hx
      rcases List.mem_append.mp hx with h1 | h1
      · exact Or.inl h1
      · have := List.mem_singleton.mp h1
        subst this
        refine Or.inr ⟨le_refl _, Nat.lt_succ_self _, ?_⟩
        rw [hid]
        omega
    · rw [if_neg e] at hx
      exact Or.inl hx

theorem index_view_witness (m : Nat) (t : Sim) (w : Int) :
    index_view m { t with witness := w } = index_view m t := rfl

theorem index_view_ev_load (m : Nat) (s : Sim) (h : Nat) :
    index_view m (ev_mod_nmoesi_load s h) =
      index_view m (mod_access_start s (s.stack_tab h).mod h mod_access_load) := by
  have hb : index_view m ((mod_access_start (s.log EV_MOD_NMOESI_LOAD h)
      ((s.log EV_MOD_NMOESI_LOAD h).stack_tab h).mod h mod_access_load).modStack h
        (fun st => { st with read := true })) =
      index_view m (mod_access_start s (s.stack_tab h).mod h mod_access_load) := by
    refine Eq.trans (index_view_modStack m _ h _ ?_) rfl
    exact fun st => ⟨rfl, rfl⟩
  unfold ev_mod_nmoesi_load
  simp only
  split
  · rw [index_view_wait, index_view_coalesce]
    exact hb
  · rw [index_view_sched]
    exact hb

theorem index_view_ev_store (m : Nat) (s : Sim) (h : Nat) :
    index_view m (ev_mod_nmoesi_store s h) =
      index_view m (mod_access_start s (s.stack_tab h).mod h mod_access_store) := by
  have hb : index_view m ((mod_access_start (s.log EV_MOD_NMOESI_STORE h)
      ((s.log EV_MOD_NMOESI_STORE h).stack_tab h).mod h mod_access_store).modStack h
        (fun st => { st with write := true })) =
      index_view m (mod_access_start s (s.stack_tab h).mod h mod_access_store) := by
    refine Eq.trans (index_view_modStack m _ h _ ?_) rfl
    exact fun st => ⟨rfl, rfl⟩
  unfold ev_mod_nmoesi_store
  simp only
  split
  · split
    · rw [index_view_witness, index_view_wait, index_view_coalesce]
      exact hb
    · rw [index_view_wait, index_view_coalesce]
      exact hb
  · rw [index_view_sched]
    exact hb

theorem index_view_ev_nc_store (m : Nat) (s : Sim) (h : Nat) :
    index_view m (ev_mod_nmoesi_nc_store s h) =
      index_view m (mod_access_start s (s.stack_tab h).mod h mod_access_nc_store) := by
  unfold ev_mod_nmoesi_nc_store
  simp only
  split
  · rw [index_view_wait, index_view_coalesce]
    rfl
  · rw [index_view_sched]
    rfl

theorem index_view_ev_prefetch (m : Nat) (s : Sim) (h : Nat) :
    index_view m (ev_mod_nmoesi_prefetch s h) =
      index_view m (mod_access_start s (s.stack_tab h).mod h mod_access_prefetch) := by
  unfold ev_mod_nmoesi_prefetch
  simp only
  split
  · split <;> rfl
  · rfl

/-- A call of `mod_access`, on any module, is an `index_step`. -/
theorem mod_access_index_step (m : Nat) (s : Sim) (m' : Nat) (kind : mod_access_kind_t)
    (addr : Nat) (wp : Bool) : index_step m s (mod_access s m' kind addr wp) := by
  have hf : ∀ st : mod_stack_t,
      ({ st with orig_mod_id := (s.mods m').mod_id, issue_mod_id := (s.mods m').mod_id,
                 witness_ptr := wp } : mod_stack_t).id = st.id ∧
      ({ st with orig_mod_id := (s.mods m').mod_id, issue_mod_id := (s.mods m').mod_id,
                 witness_ptr := wp } : mod_stack_t).addr = st.addr := fun st => ⟨rfl, rfl⟩
  cases kind with
  | mod_access_invalid =>
    refine ⟨?_, rfl, Nat.le_succ _, ?_, fun x hx => Or.inl hx⟩
    · intro x hx
      have : x ≠ s.next_stack := Nat.ne_of_lt hx
      simp [mod_access, Sim.stop, Sim.modStack, Sim.setStack, mod_stack_create, upd, this]
    · show s.mod_stack_id ≤ s.mod_stack_id + 1
      omega
  | mod_access_load =>
    exact index_view_step m s _ _ (index_view_ev_load m _ _)
      (index_step_start m s m' _ addr mod_access_load _ hf)
  | mod_access_store =>
    exact index_view_step m s _ _ (index_view_ev_store m _ _)
      (index_step_start m s m' _ addr mod_access_store _ hf)
  | mod_access_nc_store =>
    exact index_view_step m s _ _ (index_view_ev_nc_store m _ _)
      (index_step_start m s m' _ addr mod_access_nc_store _ hf)
  | mod_access_prefetch =>
    exact index_view_step m s _ _ (index_view_ev_prefetch m _ _)
      (index_step_start m s m' _ addr mod_access_prefetch _ hf)

/-- The four events that retire an access (`..._LOAD_FINISH`, `..._STORE_FINISH`,
`..._NC_STORE_FINISH`, `..._PREFETCH_FINISH`) are `index_step`s. -/
theorem finish_index_step (m : Nat) (s : Sim) (h : Nat) :
    index_step m s (ev_mod_nmoesi_load_finish s h) ∧
    index_step m s (ev_mod_nmoesi_store_finish s h) ∧
    index_step m s (ev_mod_nmoesi_nc_store_finish s h) ∧
    index_step m s (ev_mod_nmoesi_prefetch_finish s h) := by
  have key : ∀ (t : Sim) (m' : Nat), index_view m t = index_view m s →
      t.stack_tab = s.stack_tab → t.mods = s.mods →
      index_step m s (mod_stack_return (mod_access_finish t m' h) h) := by
    intro t m' hv hst hmd
    apply index_view_step m s _ (mod_access_finish s m' h) _ (index_step_finish m s m' h)
    rw [index_view_return]
    unfold index_view at hv ⊢
    simp only [Prod.mk.injEq] at hv
    obtain ⟨v1, v2, -, -, -⟩ := hv
    have e1 : (mod_access_finish t m' h).next_stack = (mod_access_finish s m' h).next_stack := by
      rw [(mod_access_finish_frame t m' h).2.2.2.2.1, (mod_access_finish_frame s m' h).2.2.2.2.1, v1]
    have e2 : (mod_access_finish t m' h).mod_stack_id =
        (mod_access_finish s m' h).mod_stack_id := by
      rw [(mod_access_finish_frame t m' h).2.2.2.2.2.1,
        (mod_access_finish_frame s m' h).2.2.2.2.2.1, v2]
    have e3 : (mod_access_finish t m' h).stack_tab = (mod_access_finish s m' h).stack_tab := by
      rw [(mod_access_finish_frame t m' h).1, (mod_access_finish_frame s m' h).1, hst]
    have e4 : (mod_access_finish t m' h).mods = (mod_access_finish s m' h).mods := by
      unfold mod_access_finish
      simp only [Sim.setMod, check_mods, check_stack_tab, hst, hmd]
    rw [e1, e2, e3, e4]
  refine ⟨?_, ?_, ?_, ?_⟩
  · unfold ev_mod_nmoesi_load_finish
    simp only
    split
    · exact key _ _ rfl rfl rfl
    · exact key _ _ rfl rfl rfl
  · unfold ev_mod_nmoesi_store_finish
    exact key _ _ rfl rfl rfl
  · unfold ev_mod_nmoesi_nc_store_finish
    simp only
    split
    · exact key _ _ rfl rfl rfl
    · exact key _ _ rfl rfl rfl
  · unfold ev_mod_nmoesi_prefetch_finish
    simp only
    split
    · exact key _ _ rfl rfl rfl
    · exact key _ _ rfl rfl rfl

theorem prefetch_first_on_line (s : Sim) (m p : Nat) (hmod : (s.stack_tab p).mod = m)
    (hok : access_index_ok (ev_mod_nmoesi_prefetch s p) m) (hn : prefetch_master s p = none) :
    first_on_line (ev_mod_nmoesi_prefetch s p) m p := by
  have heq : ev_mod_nmoesi_prefetch s p =
      esim_schedule_event (mod_access_start (s.log EV_MOD_NMOESI_PREFETCH p)
        ((s.log EV_MOD_NMOESI_PREFETCH p).stack_tab p).mod p mod_access_prefetch)
        EV_MOD_NMOESI_PREFETCH_LOCK p 0 := by
    unfold prefetch_master at hn
    unfold ev_mod_nmoesi_prefetch
    simp only at hn ⊢
    rw [hn]
  have hmod' : ((s.log EV_MOD_NMOESI_PREFETCH p).stack_tab p).mod = m := hmod
  unfold prefetch_master at hn
  simp only at hn
  rw [heq] at hok ⊢
  rw [hmod'] at hok hn ⊢
  have hokA : access_index_ok (mod_access_start (s.log EV_MOD_NMOESI_PREFETCH p) m p
      mod_access_prefetch) m := hok
  have hin : p ∈ ((mod_access_start (s.log EV_MOD_NMOESI_PREFETCH p) m p
      mod_access_prefetch).mods m).access_list := by
    simp [mod_access_start, Sim.setStack, Sim.setMod, upd]
  have ho : caller_in_flight (mod_access_start (s.log EV_MOD_NMOESI_PREFETCH p) m p
      mod_access_prefetch) m (some p) := fun o e => by cases e; exact hin
  have hb : ∀ x ∈ issued_before (mod_access_start (s.log EV_MOD_NMOESI_PREFETCH p) m p
      mod_access_prefetch) m (some p),
      same_block (mod_access_start (s.log EV_MOD_NMOESI_PREFETCH p) m p mod_access_prefetch) m
        ((mod_access_start (s.log EV_MOD_NMOESI_PREFETCH p) m p
          mod_access_prefetch).stack_tab p).addr x = false := by
    intro x hx
    cases hsb : same_block (mod_access_start (s.log EV_MOD_NMOESI_PREFETCH p) m p
        mod_access_prefetch) m ((mod_access_start (s.log EV_MOD_NMOESI_PREFETCH p) m p
          mod_access_prefetch).stack_tab p).addr x
    · rfl
    · obtain ⟨pre, y, post, e, hy, hpost⟩ := last_split _ _ ⟨x, hx, hsb⟩
      have := (mod_can_coalesce_prefetch_iff _ m _ (some p) hokA ho y).mpr
        ⟨pre, y, post, e, hy, hpost, rfl⟩
      rw [hn] at this
      cases this
  exact first_on_line_of_before _ m p hin hokA hb

/-! ### Handlers keep the access index and schedule only what may run -/

theorem check_frame (t : Sim) (c : Bool) (l : Nat) :
    (t.check c l).mods = t.mods ∧ (t.check c l).stack_tab = t.stack_tab ∧
    (t.check c l).events = t.events ∧ (t.check c l).esim_time = t.esim_time := by
  unfold Sim.check; split <;> exact ⟨rfl, rfl, rfl, rfl⟩

theorem plain_sched_ok (G : Nat → Prop) (e : Ev) (h : Nat) (he : plain_event e = true) :
    sched_ok G e h := by
  unfold plain_event at he
  simp only [Bool.and_eq_true, Bool.not_eq_true', decide_eq_true_eq] at he
  exact ⟨he.1, fun e' => absurd e' he.2⟩

theorem handler_frame_refl (G : Nat → Prop) (s : Sim) : handler_frame G s s :=
  ⟨⟨le_refl _, rfl, fun _ _ => ⟨rfl, rfl, rfl⟩, fun _ => ⟨rfl, rfl, rfl⟩⟩, fun h => h⟩

theorem handler_frame_trans {G : Nat → Prop} {s t u : Sim} (h1 : handler_frame G s t)
    (h2 : handler_frame G t u) : handler_frame G s u := by
  obtain ⟨⟨a1, a2, a3, a4⟩, a5⟩ := h1
  obtain ⟨⟨b1, b2, b3, b4⟩, b5⟩ := h2
  refine ⟨⟨le_trans a1 b1, by rw [b2, a2], ?_, ?_⟩, fun h => b5 (a5 h)⟩
  · intro x hx
    obtain ⟨c1, c2, c3⟩ := a3 x hx
    obtain ⟨d1, d2, d3⟩ := b3 x (lt_of_lt_of_le hx a1)
    exact ⟨by rw [d1, c1], by rw [d2, c2], by rw [d3, c3]⟩
  · intro m
    obtain ⟨c1, c2, c3⟩ := a4 m
    obtain ⟨d1, d2, d3⟩ := b4 m
    exact ⟨by rw [d1, c1], by rw [d2, c2], by rw [d3, c3]⟩

/-- A step that changes neither stacks, modules, counters nor pending events. -/
theorem hf_same {G : Nat → Prop} {s t : Sim} (t' : Sim) (h0 : handler_frame G s t)
    (h1 : t'.next_stack = t.next_stack) (h2 : t'.mod_stack_id = t.mod_stack_id)
    (h3 : t'.stack_tab = t.stack_tab) (h4 : t'.mods = t.mods) (h5 : t'.events = t.events) :
    handler_frame G s t' := by
  refine handler_frame_trans h0 ⟨⟨by rw [h1], h2, fun x _ => by rw [h3]; exact ⟨rfl, rfl, rfl⟩,
    fun m => by rw [h4]; exact ⟨rfl, rfl, rfl⟩⟩, ?_⟩
  intro ⟨e1, e2⟩
  refine ⟨?_, ?_⟩
  · rw [h5]; exact e1
  · rw [h3]; exact e2

theorem hf_log {G : Nat → Prop} {s t : Sim} (e : Ev) (h : Nat) (h0 : handler_frame G s t) :
    handler_frame G s (t.log e h) :=
  hf_same _ h0 rfl rfl rfl rfl rfl

theorem hf_stop {G : Nat → Prop} {s t : Sim} (h0 : handler_frame G s t) :
    handler_frame G s t.stop :=
  hf_same _ h0 rfl rfl rfl rfl rfl

theorem hf_check {G : Nat → Prop} {s t : Sim} (c : Bool) (l : Nat) (h0 : handler_frame G s t) :
    handler_frame G s (t.check c l) := by
  unfold Sim.check
  split
  · exact h0
  · exact hf_same _ h0 rfl rfl rfl rfl rfl

theorem hf_witness {G : Nat → Prop} {s t : Sim} (w : Int) (h0 : handler_frame G s t) :
    handler_frame G s { t with witness := w } :=
  hf_same _ h0 rfl rfl rfl rfl rfl

theorem hf_retry {G : Nat → Prop} {s t : Sim} (m : Nat) (h0 : handler_frame G s t) :
    handler_frame G s (mod_get_retry_latency t m).2 :=
  hf_same _ h0 rfl rfl rfl rfl rfl

theorem hf_sched {G : Nat → Prop} {s t : Sim} (e : Ev) (h d : Nat) (h0 : handler_frame G s t)
    (he : sched_ok G e h) : handler_frame G s (esim_schedule_event t e h d) := by
  refine handler_frame_trans h0 ⟨⟨le_refl _, rfl, fun _ _ => ⟨rfl, rfl, rfl⟩,
    fun _ => ⟨rfl, rfl, rfl⟩⟩, ?_⟩
  intro ⟨e1, e2⟩
  refine ⟨?_, e2⟩
  intro x hx
  rcases (mem_insert_event _ _ _ _ x).mp hx with rfl | hx
  · exact he
  · exact e1 x hx

theorem hf_sched_plain {G : Nat → Prop} {s t : Sim} (e : Ev) (h d : Nat)
    (h0 : handler_frame G s t) (he : plain_event e = true) :
    handler_frame G s (esim_schedule_event t e h d) :=
  hf_sched e h d h0 (plain_sched_ok G e h he)

/-- A stack is replaced by one with the same id, address and module whose
stored events may be scheduled. -/
theorem hf_setStack {G : Nat → Prop} {s t : Sim} (h : Nat) (v : mod_stack_t)
    (h0 : handler_frame G s t)
    (hk : v.id = (t.stack_tab h).id ∧ v.addr = (t.stack_tab h).addr ∧
      v.mod = (t.stack_tab h).mod)
    (hev : events_ok G t → sched_ok G v.waiting_list_event h ∧
      plain_event v.port_waiting_list_event = true ∧ plain_event v.cache_lock_event = true ∧
      plain_event v.ret_event = true) :
    handler_frame G s (t.setStack h v) := by
  refine handler_frame_trans h0 ⟨⟨le_refl _, rfl, ?_, fun _ => ⟨rfl, rfl, rfl⟩⟩, ?_⟩
  · intro x _
    show (upd t.stack_tab h v x).id = _ ∧ (upd t.stack_tab h v x).addr = _ ∧
      (upd t.stack_tab h v x).mod = _
    unfold upd
    split
    · next e => subst e; exact hk
    · exact ⟨rfl, rfl, rfl⟩
  · intro hok
    refine ⟨hok.1, ?_⟩
    intro x
    show sched_ok G (upd t.stack_tab h v x).waiting_list_event x ∧
      plain_event (upd t.stack_tab h v x).port_waiting_list_event = true ∧
      plain_event (upd t.stack_tab h v x).cache_lock_event = true ∧
      plain_event (upd t.stack_tab h v x).ret_event = true
    unfold upd
    split
    · next e => subst e; exact hev hok
    · exact hok.2 x

theorem hf_modStack {G : Nat → Prop} {s t : Sim} (h : Nat) (f : mod_stack_t → mod_stack_t)
    (h0 : handler_frame G s t) (hf : keeps_index f) :
    handler_frame G s (t.modStack h f) := by
  obtain ⟨f1, f2, f3, f4, f5, f6, f7⟩ := hf (t.stack_tab h)
  refine hf_setStack h _ h0 ⟨f1, f2, f3⟩ ?_
  intro hok
  rw [f4, f5, f6, f7]
  exact hok.2 h

theorem hf_modRet {G : Nat → Prop} {s t : Sim} (h : Nat) (f : mod_stack_t → mod_stack_t)
    (h0 : handler_frame G s t) (hf : keeps_index f) :
    handler_frame G s (t.modRet h f) := by
  unfold Sim.modRet
  split
  · exact hf_modStack _ f h0 hf
  · exact hf_stop h0

/-- A module is replaced by one with the same access index. -/
theorem hf_setMod {G : Nat → Prop} {s t : Sim} (m : Nat) (md : mod_t)
    (h0 : handler_frame G s t)
    (hk : md.access_list = (t.mods m).access_list ∧
      md.access_hash_table = (t.mods m).access_hash_table ∧
      md.log_block_size = (t.mods m).log_block_size) :
    handler_frame G s (t.setMod m md) := by
  refine handler_frame_trans h0 ⟨⟨le_refl _, rfl, fun _ _ => ⟨rfl, rfl, rfl⟩, ?_⟩, fun h => h⟩
  intro m'
  show (upd t.mods m md m').access_list = _ ∧ (upd t.mods m md m').access_hash_table = _ ∧
    (upd t.mods m md m').log_block_size = _
  unfold upd
  split
  · next e => subst e; exact hk
  · exact ⟨rfl, rfl, rfl⟩

theorem hf_setCache {G : Nat → Prop} {s t : Sim} (m : Nat) (c : cache_t)
    (h0 : handler_frame G s t) : handler_frame G s (t.setCache m c) :=
  hf_setMod m _ h0 ⟨rfl, rfl, rfl⟩

theorem hf_create {G : Nat → Prop} {s t : Sim} (id : Int) (m addr : Nat) (e : Ev)
    (r : Option Nat) (h0 : handler_frame G s t) (he : plain_event e = true) :
    handler_frame G s (mod_stack_create t id m addr e r).2 := by
  refine handler_frame_trans h0 ⟨⟨Nat.le_succ _, rfl, ?_, fun _ => ⟨rfl, rfl, rfl⟩⟩, ?_⟩
  · intro x hx
    show (upd t.stack_tab t.next_stack _ x).id = _ ∧ (upd t.stack_tab t.next_stack _ x).addr = _ ∧
      (upd t.stack_tab t.next_stack _ x).mod = _
    unfold upd
    rw [if_neg (Nat.ne_of_lt hx)]
    exact ⟨rfl, rfl, rfl⟩
  · intro hok
    refine ⟨hok.1, ?_⟩
    intro x
    show sched_ok G (upd t.stack_tab t.next_stack _ x).waiting_list_event x ∧
      plain_event (upd t.stack_tab t.next_stack _ x).port_waiting_list_event = true ∧
      plain_event (upd t.stack_tab t.next_stack _ x).cache_lock_event = true ∧
      plain_event (upd t.stack_tab t.next_stack _ x).ret_event = true
    unfold upd
    split
    · exact ⟨plain_sched_ok G _ _ rfl, rfl, rfl, he⟩
    · exact hok.2 x

theorem events_ok_same (G : Nat → Prop) (t t' : Sim) (h1 : t'.events = t.events)
    (h2 : t'.stack_tab = t.stack_tab) (h : events_ok G t') : events_ok G t := by
  obtain ⟨e1, e2⟩ := h
  rw [h1] at e1
  rw [h2] at e2
  exact ⟨e1, e2⟩

theorem hf_ite {G : Nat → Prop} {s : Sim} (c : Prop) [Decidable c] (a b : Sim)
    (ha : handler_frame G s a) (hb : handler_frame G s b) :
    handler_frame G s (if c then a else b) := by
  split
  · exact ha
  · exact hb

theorem hf_wakeup {G : Nat → Prop} {s : Sim} (l : List Nat) :
    ∀ t : Sim, handler_frame G s t → handler_frame G s (wakeup_list t l) := by
  induction l with
  | nil => intro t h0; exact h0
  | cons w rest ih =>
    intro t h0
    simp only [wakeup_list]
    apply ih
    refine handler_frame_trans h0 ⟨(hf_sched_plain (G := G) (s := t) ESIM_EV_NONE w 0
      (handler_frame_refl G t) rfl).1, ?_⟩
    intro hok
    exact (hf_sched _ w 0 (handler_frame_refl G t) (hok.2 w).1).2 hok

theorem hf_wait {G : Nat → Prop} {s t : Sim} (h master : Nat) (e : Ev)
    (h0 : handler_frame G s t) (he : sched_ok G e h) :
    handler_frame G s (mod_stack_wait_in_stack t h master e) := by
  unfold mod_stack_wait_in_stack
  refine hf_setStack master _ (hf_setStack h _ h0 ⟨rfl, rfl, rfl⟩ ?_) ⟨rfl, rfl, rfl⟩ ?_
  · intro hok
    exact ⟨he, (hok.2 h).2⟩
  · intro hok
    exact hok.2 master

theorem hf_wait_plain {G : Nat → Prop} {s t : Sim} (h master : Nat) (e : Ev)
    (h0 : handler_frame G s t) (he : plain_event e = true) :
    handler_frame G s (mod_stack_wait_in_stack t h master e) :=
  hf_wait h master e h0 (plain_sched_ok G e h he)

theorem hf_return {G : Nat → Prop} {s t : Sim} (h : Nat) (h0 : handler_frame G s t) :
    handler_frame G s (mod_stack_return t h) := by
  unfold mod_stack_return
  have h1 := hf_wakeup (t.stack_tab h).waiting_list t h0
  have hst := (wakeup_list_frame (t.stack_tab h).waiting_list t).1
  have h2 : handler_frame G s ((wakeup_list t (t.stack_tab h).waiting_list).setStack h
      { (wakeup_list t (t.stack_tab h).waiting_list).stack_tab h with waiting_list := [] }) :=
    hf_setStack h _ h1 ⟨rfl, rfl, rfl⟩ (fun hok => hok.2 h)
  simp only
  split
  · exact h2
  · next r hr =>
    refine handler_frame_trans h2 ⟨(hf_sched_plain (G := G) ESIM_EV_NONE r 0
      (handler_frame_refl G _) rfl).1, ?_⟩
    intro hok
    refine (hf_sched _ r 0 (handler_frame_refl G _) (plain_sched_ok G _ r ?_)).2 hok
    have := (hok.2 h).2.2.2
    simp only [Sim.setStack, upd, if_true] at this
    rw [hst] at this
    exact this

theorem hf_set_reply {G : Nat → Prop} {s t : Sim} (h : Nat) (r : mod_reply_type_t)
    (h0 : handler_frame G s t) : handler_frame G s (mod_stack_set_reply t h r) :=
  hf_setStack h _ h0 ⟨rfl, rfl, rfl⟩ (fun hok => hok.2 h)

theorem hf_set_block {G : Nat → Prop} {s t : Sim} (m : Nat) (set way tag : Int)
    (st : cache_block_state_t) (h0 : handler_frame G s t) :
    handler_frame G s (cache_set_block t m set way tag st) :=
  hf_setCache m _ h0

theorem hf_transient {G : Nat → Prop} {s t : Sim} (m : Nat) (set way tag : Int)
    (h0 : handler_frame G s t) : handler_frame G s (cache_set_transient_tag t m set way tag) :=
  hf_setCache m _ h0

theorem hf_access_block {G : Nat → Prop} {s t : Sim} (m : Nat) (set way : Int)
    (h0 : handler_frame G s t) : handler_frame G s (cache_access_block t m set way) :=
  hf_setCache m _ h0

theorem hf_setLock {G : Nat → Prop} {s t : Sim} (m : Nat) (set way : Int) (l : cache_lock_t)
    (h0 : handler_frame G s t) : handler_frame G s (t.setLock m set way l) :=
  hf_setCache m _ h0

theorem hf_lock_log {G : Nat → Prop} {s t : Sim} (l : List lock_rec_t)
    (h0 : handler_frame G s t) : handler_frame G s { t with lock_log := l } :=
  hf_same _ h0 rfl rfl rfl rfl rfl

theorem hf_entry_lock {G : Nat → Prop} {s t : Sim} (m : Nat) (set way : Int) (e : Ev) (h : Nat)
    (h0 : handler_frame G s t) (he : plain_event e = true) :
    handler_frame G s (cache_entry_lock t m set way e h).2 := by
  unfold cache_entry_lock
  simp only
  split
  · refine hf_lock_log _ (hf_setLock _ _ _ _ (hf_setStack h _ h0 ⟨rfl, rfl, rfl⟩ ?_))
    intro hok
    exact ⟨(hok.2 h).1, (hok.2 h).2.1, he, (hok.2 h).2.2.2⟩
  · exact hf_lock_log _ (hf_setLock _ _ _ _ h0)

theorem hf_entry_unlock {G : Nat → Prop} {s t : Sim} (m : Nat) (set way : Int)
    (h0 : handler_frame G s t) : handler_frame G s (cache_entry_unlock t m set way) := by
  unfold cache_entry_unlock
  simp only
  split
  · exact hf_setLock _ _ _ _ (hf_lock_log _ h0)
  · next w rest hw =>
    refine hf_setLock _ _ _ _ ?_
    have h1 : handler_frame G s { t with lock_log := t.lock_log ++
        [⟨lock_op_t.released, m, set, way, (cache_lock_get t m set way).stack_id⟩] } :=
      hf_lock_log _ h0
    refine handler_frame_trans h1 ⟨(hf_sched_plain (G := G) ESIM_EV_NONE w 1
      (handler_frame_refl G _) rfl).1, ?_⟩
    intro hok
    exact (hf_sched _ w 1 (handler_frame_refl G _)
      (plain_sched_ok G _ w (hok.2 w).2.2.1)).2 hok

theorem hf_sched_cond {G : Nat → Prop} {s t : Sim} (e : Ev) (h d : Nat)
    (h0 : handler_frame G s t) (he : events_ok G t → sched_ok G e h) :
    handler_frame G s (esim_schedule_event t e h d) := by
  refine handler_frame_trans h0 ⟨(hf_sched_plain (G := G) ESIM_EV_NONE h d
    (handler_frame_refl G _) rfl).1, ?_⟩
  intro hok
  exact (hf_sched e h d (handler_frame_refl G _) (he hok)).2 hok

theorem events_ok_of_fields (G : Nat → Prop) (t t' : Sim) (h1 : t'.events = t.events)
    (h2 : ∀ x, (t'.stack_tab x).waiting_list_event = (t.stack_tab x).waiting_list_event ∧
      (t'.stack_tab x).port_waiting_list_event = (t.stack_tab x).port_waiting_list_event ∧
      (t'.stack_tab x).cache_lock_event = (t.stack_tab x).cache_lock_event ∧
      (t'.stack_tab x).ret_event = (t.stack_tab x).ret_event)
    (h : events_ok G t') : events_ok G t := by
  obtain ⟨e1, e2⟩ := h
  rw [h1] at e1
  refine ⟨e1, fun x => ?_⟩
  have := e2 x
  rw [(h2 x).1, (h2 x).2.1, (h2 x).2.2.1, (h2 x).2.2.2] at this
  exact this

/-- The stored events of a stack after an update that keeps them. -/
theorem events_ok_setStack_keep (G : Nat → Prop) (t : Sim) (h : Nat) (v : mod_stack_t)
    (h1 : v.waiting_list_event = (t.stack_tab h).waiting_list_event)
    (h2 : v.port_waiting_list_event = (t.stack_tab h).port_waiting_list_event)
    (h3 : v.cache_lock_event = (t.stack_tab h).cache_lock_event)
    (h4 : v.ret_event = (t.stack_tab h).ret_event)
    (hok : events_ok G (t.setStack h v)) : events_ok G t := by
  refine ⟨hok.1, ?_⟩
  intro x
  have := hok.2 x
  simp only [Sim.setStack, upd] at this
  split at this
  · next e => subst e; rw [h1, h2, h3, h4] at this; exact this
  · exact this

theorem hf_lock_port {G : Nat → Prop} {s t : Sim} (m h : Nat) (e : Ev)
    (h0 : handler_frame G s t) (he : events_ok G t → plain_event e = true) :
    handler_frame G s (mod_lock_port t m h e) := by
  unfold mod_lock_port
  simp only
  split
  · refine hf_setStack h _ (hf_setMod m _ (hf_check _ _ h0) ⟨rfl, rfl, rfl⟩) ⟨rfl, rfl, rfl⟩ ?_
    intro hok
    have hok' : events_ok G t := events_ok_same G t _ (check_frame _ _ _).2.2.1
      (check_frame _ _ _).2.1 hok
    have hx := hok.2 h
    exact ⟨hx.1, he hok', hx.2.2⟩
  · refine hf_sched_cond _ _ _ (hf_setStack h _ (hf_setMod m _ (hf_check _ _ h0)
      ⟨rfl, rfl, rfl⟩) ⟨rfl, rfl, rfl⟩ (fun hok => hok.2 h)) ?_
    intro hok
    apply plain_sched_ok
    apply he
    refine events_ok_of_fields G t _ ?_ ?_ hok
    · exact (check_frame _ _ _).2.2.1
    intro x
    simp only [Sim.setStack, Sim.setMod, upd, (check_frame _ _ _).2.1]
    split
    · next e => subst e; exact ⟨rfl, rfl, rfl, rfl⟩
    · exact ⟨rfl, rfl, rfl, rfl⟩

theorem hf_lock_port_plain {G : Nat → Prop} {s t : Sim} (m h : Nat) (e : Ev)
    (h0 : handler_frame G s t) (he : plain_event e = true) :
    handler_frame G s (mod_lock_port t m h e) :=
  hf_lock_port m h e h0 (fun _ => he)

theorem hf_unlock_port {G : Nat → Prop} {s t : Sim} (m port h : Nat)
    (h0 : handler_frame G s t) : handler_frame G s (mod_unlock_port t m port h) := by
  unfold mod_unlock_port
  simp only
  split
  · exact hf_setMod m _ (hf_setStack h _ (hf_check _ _ (hf_check _ _ (hf_check _ _ h0)))
      ⟨rfl, rfl, rfl⟩ (fun hok => hok.2 h)) ⟨rfl, rfl, rfl⟩
  · next w rest hw =>
    refine hf_lock_port m w _ (hf_setMod m _ (hf_setMod m _ (hf_setStack h _
      (hf_check _ _ (hf_check _ _ (hf_check _ _ h0))) ⟨rfl, rfl, rfl⟩ (fun hok => hok.2 h))
      ⟨rfl, rfl, rfl⟩) ?_) ?_
    · simp [Sim.setMod, upd]
    · intro hok
      exact (hok.2 w).2.1

theorem hf_net {G : Nat → Prop} {s t : Sim} (h : Nat) (size : Int) (re rt : Ev)
    (h0 : handler_frame G s t) (h1 : plain_event re = true) (h2 : plain_event rt = true) :
    handler_frame G s (net_try_send_ev t h size re rt) := by
  unfold net_try_send_ev
  split
  · exact hf_sched_plain _ _ _ (hf_setStack h _ (hf_same _ h0 rfl rfl rfl rfl rfl)
      ⟨rfl, rfl, rfl⟩ (fun hok => hok.2 h)) h2
  · exact hf_sched_plain _ _ _ (hf_setStack h _ (hf_same _ h0 rfl rfl rfl rfl rfl)
      ⟨rfl, rfl, rfl⟩ (fun hok => hok.2 h)) h1

theorem hf_check_install {G : Nat → Prop} {s t : Sim} (m : Nat) (tag : Int)
    (st : cache_block_state_t) (h0 : handler_frame G s t) :
    handler_frame G s (check_after_install t m tag st) := by
  unfold check_after_install
  split
  · exact hf_stop h0
  · simp only
    split
    · exact hf_stop h0
    · exact h0

theorem hf_coalesce {G : Nat → Prop} {s t : Sim} (m master h : Nat)
    (h0 : handler_frame G s t) : handler_frame G s (mod_coalesce t m master h) := by
  unfold mod_coalesce
  refine hf_setMod m _ (hf_check _ _ (hf_setStack h _ (hf_check _ _ (hf_check _ _ h0))
    ⟨rfl, rfl, rfl⟩ (fun hok => hok.2 h))) ?_
  rw [(check_frame _ _ _).1]
  exact ⟨rfl, rfl, rfl⟩

theorem hf_downup_start {G : Nat → Prop} {s t : Sim} (m h : Nat) (k : mod_access_kind_t)
    (h0 : handler_frame G s t) : handler_frame G s (mod_downup_access_start t m h k) := by
  unfold mod_downup_access_start
  exact hf_setMod m _ (hf_setStack h _ h0 ⟨rfl, rfl, rfl⟩ (fun hok => hok.2 h)) ⟨rfl, rfl, rfl⟩

theorem hf_downup_finish {G : Nat → Prop} {s t : Sim} (m h : Nat)
    (h0 : handler_frame G s t) : handler_frame G s (mod_downup_access_finish t m h) := by
  unfold mod_downup_access_finish
  exact hf_setStack h _ (hf_setMod m _ h0 ⟨rfl, rfl, rfl⟩) ⟨rfl, rfl, rfl⟩ (fun hok => hok.2 h)

theorem hf_rw_start {G : Nat → Prop} {s t : Sim} (m h : Nat) (k : mod_access_kind_t)
    (h0 : handler_frame G s t) :
    handler_frame G s (mod_read_write_req_access_start t m h k) := by
  unfold mod_read_write_req_access_start
  exact hf_setMod m _ (hf_setStack h _ h0 ⟨rfl, rfl, rfl⟩ (fun hok => hok.2 h)) ⟨rfl, rfl, rfl⟩

theorem hf_rw_finish {G : Nat → Prop} {s t : Sim} (m h : Nat)
    (h0 : handler_frame G s t) : handler_frame G s (mod_read_write_req_access_finish t m h) := by
  unfold mod_read_write_req_access_finish
  exact hf_setStack h _ (hf_setMod m _ h0 ⟨rfl, rfl, rfl⟩) ⟨rfl, rfl, rfl⟩ (fun hok => hok.2 h)

theorem hf_evict_start {G : Nat → Prop} {s t : Sim} (m h : Nat) (k : mod_access_kind_t)
    (h0 : handler_frame G s t) : handler_frame G s (mod_evict_start t m h k) := by
  unfold mod_evict_start
  exact hf_setMod m _ (hf_setStack h _ h0 ⟨rfl, rfl, rfl⟩ (fun hok => hok.2 h)) ⟨rfl, rfl, rfl⟩

theorem hf_evict_finish {G : Nat → Prop} {s t : Sim} (m h : Nat)
    (h0 : handler_frame G s t) : handler_frame G s (mod_evict_finish t m h) := by
  unfold mod_evict_finish
  exact hf_setStack h _ (hf_setMod m _ h0 ⟨rfl, rfl, rfl⟩) ⟨rfl, rfl, rfl⟩ (fun hok => hok.2 h)

theorem hf_foldl {G : Nat → Prop} {s : Sim} {α : Type} (f : Sim → α → Sim)
    (hf : ∀ (t : Sim) (a : α), handler_frame G s t → handler_frame G s (f t a)) (l : List α) :
    ∀ t : Sim, handler_frame G s t → handler_frame G s (l.foldl f t) := by
  induction l with
  | nil => intro t h0; exact h0
  | cons a rest ih => intro t h0; exact ih _ (hf t a h0)

/-- The bodies of the three request loops (INVALIDATE, READ_REQUEST_UPDOWN,
READ_REQUEST_DOWNUP) keep the access index and schedule only plain events. -/
theorem hf_sends {G : Nat → Prop} {s : Sim} (h r : Nat) (t : Sim) (p : Nat × Nat)
    (h0 : handler_frame G s t) :
    handler_frame G s (invalidate_send h t p) ∧
    handler_frame G s (read_request_updown_send h r t p) ∧
    handler_frame G s (read_request_downup_send h r t p) := by
  refine ⟨?_, ?_, ?_⟩
  · unfold invalidate_send
    dsimp only
    repeat' first
      | with_reducible first
        | exact handler_frame_refl _ _
        | assumption
        | refine hf_log _ _ ?_
        | refine hf_stop ?_
        | refine hf_check _ _ ?_
        | refine hf_sched_plain _ _ _ ?_ (by decide)
        | refine hf_sched_plain _ _ _ ?_ ?_
        | refine hf_modStack _ _ ?_ ?_
        | refine hf_modRet _ _ ?_ ?_
        | refine hf_ite _ _ _ ?_ ?_
        | refine hf_wait_plain _ _ _ ?_ (by decide)
        | refine hf_return _ ?_
        | refine hf_set_reply _ _ ?_
        | refine hf_set_block _ _ _ _ _ ?_
        | refine hf_transient _ _ _ _ ?_
        | refine hf_access_block _ _ _ ?_
        | refine hf_entry_unlock _ _ _ ?_
        | refine hf_lock_port_plain _ _ _ ?_ (by decide)
        | refine hf_unlock_port _ _ _ ?_
        | refine hf_net _ _ _ _ ?_ (by decide) (by decide)
        | refine hf_check_install _ _ _ ?_
        | refine hf_coalesce _ _ _ ?_
        | refine hf_downup_start _ _ _ ?_
        | refine hf_downup_finish _ _ ?_
        | refine hf_rw_start _ _ _ ?_
        | refine hf_rw_finish _ _ ?_
        | refine hf_evict_start _ _ _ ?_
        | refine hf_evict_finish _ _ ?_
        | refine hf_create _ _ _ _ _ ?_ (by decide)
        | refine hf_create _ _ _ _ _ ?_ ?_
        | refine hf_retry _ ?_
        | refine hf_entry_lock _ _ _ _ _ ?_ (by decide)
        | refine hf_foldl _ ?_ _ _ ?_
      | with_reducible fail_if_no_progress (refine hf_witness _ ?_)
      | exact fun _ => ⟨rfl, rfl, rfl, rfl, rfl, rfl, rfl⟩
      | rfl
      | intro _ _ _
      | split
  · unfold read_request_updown_send
    dsimp only
    repeat' first
      | with_reducible first
        | exact handler_frame_refl _ _
        | assumption
        | refine hf_log _ _ ?_
        | refine hf_stop ?_
        | refine hf_check _ _ ?_
        | refine hf_sched_plain _ _ _ ?_ (by decide)
        | refine hf_sched_plain _ _ _ ?_ ?_
        | refine hf_modStack _ _ ?_ ?_
        | refine hf_modRet _ _ ?_ ?_
        | refine hf_ite _ _ _ ?_ ?_
        | refine hf_wait_plain _ _ _ ?_ (by decide)
        | refine hf_return _ ?_
        | refine hf_set_reply _ _ ?_
        | refine hf_set_block _ _ _ _ _ ?_
        | refine hf_transient _ _ _ _ ?_
        | refine hf_access_block _ _ _ ?_
        | refine hf_entry_unlock _ _ _ ?_
        | refine hf_lock_port_plain _ _ _ ?_ (by decide)
        | refine hf_unlock_port _ _ _ ?_
        | refine hf_net _ _ _ _ ?_ (by decide) (by decide)
        | refine hf_check_install _ _ _ ?_
        | refine hf_coalesce _ _ _ ?_
        | refine hf_downup_start _ _ _ ?_
        | refine hf_downup_finish _ _ ?_
        | refine hf_rw_start _ _ _ ?_
        | refine hf_rw_finish _ _ ?_
        | refine hf_evict_start _ _ _ ?_
        | refine hf_evict_finish _ _ ?_
        | refine hf_create _ _ _ _ _ ?_ (by decide)
        | refine hf_create _ _ _ _ _ ?_ ?_
        | refine hf_retry _ ?_
        | refine hf_entry_lock _ _ _ _ _ ?_ (by decide)
        | refine hf_foldl _ ?_ _ _ ?_
      | with_reducible fail_if_no_progress (refine hf_witness _ ?_)
      | exact fun _ => ⟨rfl, rfl, rfl, rfl, rfl, rfl, rfl⟩
      | rfl
      | intro _ _ _
      | split
  · unfold read_request_downup_send
    dsimp only
    repeat' first
      | with_reducible first
        | exact handler_frame_refl _ _
        | assumption
        | refine hf_log _ _ ?_
        | refine hf_stop ?_
        | refine hf_check _ _ ?_
        | refine hf_sched_plain _ _ _ ?_ (by decide)
        | refine hf_sched_plain _ _ _ ?_ ?_
        | refine hf_modStack _ _ ?_ ?_
        | refine hf_modRet _ _ ?_ ?_
        | refine hf_ite _ _ _ ?_ ?_
        | refine hf_wait_plain _ _ _ ?_ (by decide)
        | refine hf_return _ ?_
        | refine hf_set_reply _ _ ?_
        | refine hf_set_block _ _ _ _ _ ?_
        | refine hf_transient _ _ _ _ ?_
        | refine hf_access_block _ _ _ ?_
        | refine hf_entry_unlock _ _ _ ?_
        | refine hf_lock_port_plain _ _ _ ?_ (by decide)
        | refine hf_unlock_port _ _ _ ?_
        | refine hf_net _ _ _ _ ?_ (by decide) (by decide)
        | refine hf_check_install _ _ _ ?_
        | refine hf_coalesce _ _ _ ?_
        | refine hf_downup_start _ _ _ ?_
        | refine hf_downup_finish _ _ ?_
        | refine hf_rw_start _ _ _ ?_
        | refine hf_rw_finish _ _ ?_
        | refine hf_evict_start _ _ _ ?_
        | refine hf_evict_finish _ _ ?_
        | refine hf_create _ _ _ _ _ ?_ (by decide)
        | refine hf_create _ _ _ _ _ ?_ ?_
        | refine hf_retry _ ?_
        | refine hf_entry_lock _ _ _ _ _ ?_ (by decide)
        | refine hf_foldl _ ?_ _ _ ?_
      | with_reducible fail_if_no_progress (refine hf_witness _ ?_)
      | exact fun _ => ⟨rfl, rfl, rfl, rfl, rfl, rfl, rfl⟩
      | rfl
      | intro _ _ _
      | split

theorem hf_wait_lock {G : Nat → Prop} {s t : Sim} (h master : Nat)
    (h0 : handler_frame G s t) (hG : G h) :
    handler_frame G s (mod_stack_wait_in_stack t h master EV_MOD_NMOESI_PREFETCH_LOCK) :=
  hf_wait h master _ h0 ⟨rfl, fun _ => hG⟩

set_option maxHeartbeats 8000000 in
/-- Every handler other than the start events and the events that retire an
access keeps the access index and schedules or stores only events that may be
scheduled; `EV_MOD_NMOESI_PREFETCH_LOCK` is rescheduled only for the stack it
runs on. -/
theorem dispatch_frame (G : Nat → Prop) (s : Sim) (h : Nat) (e : Ev)
    (hs : start_event e = false) (hf : finish_event e = false)
    (hG : e = EV_MOD_NMOESI_PREFETCH_LOCK → G h) :
    handler_frame G s (dispatch e s h) := by
  cases e
  all_goals first
    | exact absurd hs (by decide)
    | exact absurd hf (by decide)
    | skip
  all_goals simp only [dispatch, mod_handler_nmoesi_load, mod_handler_nmoesi_prefetch, mod_handler_nmoesi_store, mod_handler_nmoesi_nc_store, mod_handler_nmoesi_find_and_lock, mod_handler_nmoesi_invalidate, mod_handler_nmoesi_message, mod_handler_nmoesi_evict, mod_handler_nmoesi_read_request, mod_handler_nmoesi_write_request]
  all_goals first
    | exact handler_frame_refl _ _
    | skip
  all_goals first
    | unfold ev_mod_nmoesi_load_lock
    | unfold ev_mod_nmoesi_load_action
    | unfold ev_mod_nmoesi_load_miss
    | unfold ev_mod_nmoesi_load_unlock
    | unfold ev_mod_nmoesi_prefetch_lock
    | unfold ev_mod_nmoesi_prefetch_action
    | unfold ev_mod_nmoesi_prefetch_miss
    | unfold ev_mod_nmoesi_prefetch_unlock
    | unfold ev_mod_nmoesi_store_lock
    | unfold ev_mod_nmoesi_store_action
    | unfold ev_mod_nmoesi_store_unlock
    | unfold ev_mod_nmoesi_nc_store_lock
    | unfold ev_mod_nmoesi_nc_store_writeback
    | unfold ev_mod_nmoesi_nc_store_action
    | unfold ev_mod_nmoesi_nc_store_miss
    | unfold ev_mod_nmoesi_nc_store_unlock
    | unfold ev_mod_nmoesi_find_and_lock
    | unfold ev_mod_nmoesi_find_and_lock_port
    | unfold ev_mod_nmoesi_find_and_lock_action
    | unfold ev_mod_nmoesi_find_and_lock_finish
    | unfold ev_mod_nmoesi_invalidate
    | unfold ev_mod_nmoesi_invalidate_finish
    | unfold ev_mod_nmoesi_message
    | unfold ev_mod_nmoesi_message_receive
    | unfold ev_mod_nmoesi_message_action
    | unfold ev_mod_nmoesi_message_reply
    | unfold ev_mod_nmoesi_message_finish
    | unfold ev_mod_nmoesi_evict
    | unfold ev_mod_nmoesi_evict_invalid
    | unfold ev_mod_nmoesi_evict_action
    | unfold ev_mod_nmoesi_evict_receive
    | unfold ev_mod_nmoesi_evict_process
    | unfold ev_mod_nmoesi_evict_process_noncoherent
    | unfold ev_mod_nmoesi_evict_reply
    | unfold ev_mod_nmoesi_evict_reply_receive
    | unfold ev_mod_nmoesi_evict_finish
    | unfold ev_mod_nmoesi_read_request
    | unfold ev_mod_nmoesi_read_request_receive
    | unfold ev_mod_nmoesi_read_request_action
    | unfold ev_mod_nmoesi_read_request_updown
    | unfold ev_mod_nmoesi_read_request_updown_miss
    | unfold ev_mod_nmoesi_read_request_updown_finish
    | unfold ev_mod_nmoesi_read_request_downup
    | unfold ev_mod_nmoesi_read_request_downup_wait_for_reqs
    | unfold ev_mod_nmoesi_read_request_downup_finish
    | unfold ev_mod_nmoesi_read_request_reply
    | unfold ev_mod_nmoesi_read_request_finish
    | unfold ev_mod_nmoesi_write_request
    | unfold ev_mod_nmoesi_write_request_receive
    | unfold ev_mod_nmoesi_write_request_action
    | unfold ev_mod_nmoesi_write_request_exclusive
    | unfold ev_mod_nmoesi_write_request_updown
    | unfold ev_mod_nmoesi_write_request_updown_finish
    | unfold ev_mod_nmoesi_write_request_downup
    | unfold ev_mod_nmoesi_write_request_downup_finish
    | unfold ev_mod_nmoesi_write_request_reply
    | unfold ev_mod_nmoesi_write_request_finish
  all_goals dsimp only
  all_goals
    repeat' first
      | with_reducible first
        | exact handler_frame_refl _ _
        | assumption
        | refine hf_log _ _ ?_
        | refine hf_stop ?_
        | refine hf_check _ _ ?_
        | refine hf_sched_plain _ _ _ ?_ (by decide)
        | refine hf_sched_plain _ _ _ ?_ ?_
        | refine hf_modStack _ _ ?_ ?_
        | refine hf_modRet _ _ ?_ ?_
        | refine hf_ite _ _ _ ?_ ?_
        | refine hf_wait_plain _ _ _ ?_ (by decide)
        | refine hf_return _ ?_
        | refine hf_set_reply _ _ ?_
        | refine hf_set_block _ _ _ _ _ ?_
        | refine hf_transient _ _ _ _ ?_
        | refine hf_access_block _ _ _ ?_
        | refine hf_entry_unlock _ _ _ ?_
        | refine hf_lock_port_plain _ _ _ ?_ (by decide)
        | refine hf_unlock_port _ _ _ ?_
        | refine hf_net _ _ _ _ ?_ (by decide) (by decide)
        | refine hf_check_install _ _ _ ?_
        | refine hf_coalesce _ _ _ ?_
        | refine hf_downup_start _ _ _ ?_
        | refine hf_downup_finish _ _ ?_
        | refine hf_rw_start _ _ _ ?_
        | refine hf_rw_finish _ _ ?_
        | refine hf_evict_start _ _ _ ?_
        | refine hf_evict_finish _ _ ?_
        | refine hf_create _ _ _ _ _ ?_ (by decide)
        | refine hf_create _ _ _ _ _ ?_ ?_
        | refine hf_retry _ ?_
        | refine hf_entry_lock _ _ _ _ _ ?_ (by decide)
        | refine hf_foldl _ ?_ _ _ ?_
        | refine hf_wait_lock _ _ ?_ (hG rfl)
        | exact (hf_sends _ _ _ _ (by assumption)).2.2
        | exact (hf_sends _ _ _ _ (by assumption)).2.1
        | exact (hf_sends _ 0 _ _ (by assumption)).1
      | with_reducible fail_if_no_progress (refine hf_witness _ ?_)
      | exact fun _ => ⟨rfl, rfl, rfl, rfl, rfl, rfl, rfl⟩
      | rfl
      | intro _ _ _
      | split

theorem hf_sched_lock {G : Nat → Prop} {s t : Sim} (h d : Nat) (h0 : handler_frame G s t)
    (hG : G h) : handler_frame G s (esim_schedule_event t EV_MOD_NMOESI_PREFETCH_LOCK h d) :=
  hf_sched _ h d h0 ⟨rfl, fun _ => hG⟩

set_option maxHeartbeats 4000000 in
/-- The start events: after `mod_access_start` has recorded the access, the rest
of the handler keeps the access index; `EV_MOD_NMOESI_PREFETCH` schedules
`EV_MOD_NMOESI_PREFETCH_LOCK` only when `mod_can_coalesce` returned nothing. -/
theorem start_frame (G : Nat → Prop) (s : Sim) (h : Nat) :
    handler_frame G (mod_access_start (s.log EV_MOD_NMOESI_LOAD h)
      ((s.log EV_MOD_NMOESI_LOAD h).stack_tab h).mod h mod_access_load)
      (ev_mod_nmoesi_load s h) ∧
    handler_frame G (mod_access_start (s.log EV_MOD_NMOESI_STORE h)
      ((s.log EV_MOD_NMOESI_STORE h).stack_tab h).mod h mod_access_store)
      (ev_mod_nmoesi_store s h) ∧
    handler_frame G (mod_access_start (s.log EV_MOD_NMOESI_NC_STORE h)
      ((s.log EV_MOD_NMOESI_NC_STORE h).stack_tab h).mod h mod_access_nc_store)
      (ev_mod_nmoesi_nc_store s h) ∧
    ((prefetch_master s h = none → G h) →
      handler_frame G (mod_access_start (s.log EV_MOD_NMOESI_PREFETCH h)
        ((s.log EV_MOD_NMOESI_PREFETCH h).stack_tab h).mod h mod_access_prefetch)
        (ev_mod_nmoesi_prefetch s h)) := by
  refine ⟨?_, ?_, ?_, ?_⟩
  · unfold ev_mod_nmoesi_load
    dsimp only
    repeat' first
      | with_reducible first
        | exact handler_frame_refl _ _
        | assumption
        | refine hf_log _ _ ?_
        | refine hf_stop ?_
        | refine hf_check _ _ ?_
        | refine hf_sched_plain _ _ _ ?_ (by decide)
        | refine hf_sched_lock _ _ ?_ (hG (by assumption))
        | refine hf_sched_plain _ _ _ ?_ ?_
        | refine hf_modStack _ _ ?_ ?_
        | refine hf_modRet _ _ ?_ ?_
        | refine hf_ite _ _ _ ?_ ?_
        | refine hf_wait_plain _ _ _ ?_ (by decide)
        | refine hf_return _ ?_
        | refine hf_set_reply _ _ ?_
        | refine hf_set_block _ _ _ _ _ ?_
        | refine hf_transient _ _ _ _ ?_
        | refine hf_access_block _ _ _ ?_
        | refine hf_entry_unlock _ _ _ ?_
        | refine hf_lock_port_plain _ _ _ ?_ (by decide)
        | refine hf_unlock_port _ _ _ ?_
        | refine hf_net _ _ _ _ ?_ (by decide) (by decide)
        | refine hf_check_install _ _ _ ?_
        | refine hf_coalesce _ _ _ ?_
        | refine hf_downup_start _ _ _ ?_
        | refine hf_downup_finish _ _ ?_
        | refine hf_rw_start _ _ _ ?_
        | refine hf_rw_finish _ _ ?_
        | refine hf_evict_start _ _ _ ?_
        | refine hf_evict_finish _ _ ?_
        | refine hf_create _ _ _ _ _ ?_ (by decide)
        | refine hf_create _ _ _ _ _ ?_ ?_
        | refine hf_retry _ ?_
        | refine hf_entry_lock _ _ _ _ _ ?_ (by decide)
        | refine hf_foldl _ ?_ _ _ ?_
      | with_reducible fail_if_no_progress (refine hf_witness _ ?_)
      | exact fun _ => ⟨rfl, rfl, rfl, rfl, rfl, rfl, rfl⟩
      | rfl
      | intro _ _ _
      | split
  · unfold ev_mod_nmoesi_store
    dsimp only
    repeat' first
      | with_reducible first
        | exact handler_frame_refl _ _
        | assumption
        | refine hf_log _ _ ?_
        | refine hf_stop ?_
        | refine hf_check _ _ ?_
        | refine hf_sched_plain _ _ _ ?_ (by decide)
        | refine hf_sched_lock _ _ ?_ (hG (by assumption))
        | refine hf_sched_plain _ _ _ ?_ ?_
        | refine hf_modStack _ _ ?_ ?_
        | refine hf_modRet _ _ ?_ ?_
        | refine hf_ite _ _ _ ?_ ?_
        | refine hf_wait_plain _ _ _ ?_ (by decide)
        | refine hf_return _ ?_
        | refine hf_set_reply _ _ ?_
        | refine hf_set_block _ _ _ _ _ ?_
        | refine hf_transient _ _ _ _ ?_
        | refine hf_access_block _ _ _ ?_
        | refine hf_entry_unlock _ _ _ ?_
        | refine hf_lock_port_plain _ _ _ ?_ (by decide)
        | refine hf_unlock_port _ _ _ ?_
        | refine hf_net _ _ _ _ ?_ (by decide) (by decide)
        | refine hf_check_install _ _ _ ?_
        | refine hf_coalesce _ _ _ ?_
        | refine hf_downup_start _ _ _ ?_
        | refine hf_downup_finish _ _ ?_
        | refine hf_rw_start _ _ _ ?_
        | refine hf_rw_finish _ _ ?_
        | refine hf_evict_start _ _ _ ?_
        | refine hf_evict_finish _ _ ?_
        | refine hf_create _ _ _ _ _ ?_ (by decide)
        | refine hf_create _ _ _ _ _ ?_ ?_
        | refine hf_retry _ ?_
        | refine hf_entry_lock _ _ _ _ _ ?_ (by decide)
        | refine hf_foldl _ ?_ _ _ ?_
      | with_reducible fail_if_no_progress (refine hf_witness _ ?_)
      | exact fun _ => ⟨rfl, rfl, rfl, rfl, rfl, rfl, rfl⟩
      | rfl
      | intro _ _ _
      | split
  · unfold ev_mod_nmoesi_nc_store
    dsimp only
    repeat' first
      | with_reducible first
        | exact handler_frame_refl _ _
        | assumption
        | refine hf_log _ _ ?_
        | refine hf_stop ?_
        | refine hf_check _ _ ?_
        | refine hf_sched_plain _ _ _ ?_ (by decide)
        | refine hf_sched_lock _ _ ?_ (hG (by assumption))
        | refine hf_sched_plain _ _ _ ?_ ?_
        | refine hf_modStack _ _ ?_ ?_
        | refine hf_modRet _ _ ?_ ?_
        | refine hf_ite _ _ _ ?_ ?_
        | refine hf_wait_plain _ _ _ ?_ (by decide)
        | refine hf_return _ ?_
        | refine hf_set_reply _ _ ?_
        | refine hf_set_block _ _ _ _ _ ?_
        | refine hf_transient _ _ _ _ ?_
        | refine hf_access_block _ _ _ ?_
        | refine hf_entry_unlock _ _ _ ?_
        | refine hf_lock_port_plain _ _ _ ?_ (by decide)
        | refine hf_unlock_port _ _ _ ?_
        | refine hf_net _ _ _ _ ?_ (by decide) (by decide)
        | refine hf_check_install _ _ _ ?_
        | refine hf_coalesce _ _ _ ?_
        | refine hf_downup_start _ _ _ ?_
        | refine hf_downup_finish _ _ ?_
        | refine hf_rw_start _ _ _ ?_
        | refine hf_rw_finish _ _ ?_
        | refine hf_evict_start _ _ _ ?_
        | refine hf_evict_finish _ _ ?_
        | refine hf_create _ _ _ _ _ ?_ (by decide)
        | refine hf_create _ _ _ _ _ ?_ ?_
        | refine hf_retry _ ?_
        | refine hf_entry_lock _ _ _ _ _ ?_ (by decide)
        | refine hf_foldl _ ?_ _ _ ?_
      | with_reducible fail_if_no_progress (refine hf_witness _ ?_)
      | exact fun _ => ⟨rfl, rfl, rfl, rfl, rfl, rfl, rfl⟩
      | rfl
      | intro _ _ _
      | split
  · intro hG
    unfold prefetch_master at hG
    unfold ev_mod_nmoesi_prefetch
    dsimp only at hG ⊢
    repeat' first
      | with_reducible first
        | exact handler_frame_refl _ _
        | assumption
        | refine hf_log _ _ ?_
        | refine hf_stop ?_
        | refine hf_check _ _ ?_
        | refine hf_sched_plain _ _ _ ?_ (by decide)
        | refine hf_sched_lock _ _ ?_ (hG (by assumption))
        | refine hf_sched_plain _ _ _ ?_ ?_
        | refine hf_modStack _ _ ?_ ?_
        | refine hf_modRet _ _ ?_ ?_
        | refine hf_ite _ _ _ ?_ ?_
        | refine hf_wait_plain _ _ _ ?_ (by decide)
        | refine hf_return _ ?_
        | refine hf_set_reply _ _ ?_
        | refine hf_set_block _ _ _ _ _ ?_
        | refine hf_transient _ _ _ _ ?_
        | refine hf_access_block _ _ _ ?_
        | refine hf_entry_unlock _ _ _ ?_
        | refine hf_lock_port_plain _ _ _ ?_ (by decide)
        | refine hf_unlock_port _ _ _ ?_
        | refine hf_net _ _ _ _ ?_ (by decide) (by decide)
        | refine hf_check_install _ _ _ ?_
        | refine hf_coalesce _ _ _ ?_
        | refine hf_downup_start _ _ _ ?_
        | refine hf_downup_finish _ _ ?_
        | refine hf_rw_start _ _ _ ?_
        | refine hf_rw_finish _ _ ?_
        | refine hf_evict_start _ _ _ ?_
        | refine hf_evict_finish _ _ ?_
        | refine hf_create _ _ _ _ _ ?_ (by decide)
        | refine hf_create _ _ _ _ _ ?_ ?_
        | refine hf_retry _ ?_
        | refine hf_entry_lock _ _ _ _ _ ?_ (by decide)
        | refine hf_foldl _ ?_ _ _ ?_
      | with_reducible fail_if_no_progress (refine hf_witness _ ?_)
      | exact fun _ => ⟨rfl, rfl, rfl, rfl, rfl, rfl, rfl⟩
      | rfl
      | intro _ _ _
      | split

set_option maxHeartbeats 4000000 in
/-- The events that retire an access are `mod_access_finish` between two parts
that keep the access index. -/
theorem finish_frame (s : Sim) (h : Nat) (e : Ev)
    (he : finish_event e = true) :
    ∃ t, ∀ G : Nat → Prop, handler_frame G s t ∧
      handler_frame G (mod_access_finish t (s.stack_tab h).mod h) (dispatch e s h) := by
  cases e
  all_goals first
    | exact absurd he (by decide)
    | skip
  all_goals simp only [dispatch, mod_handler_nmoesi_load, mod_handler_nmoesi_store,
    mod_handler_nmoesi_nc_store, mod_handler_nmoesi_prefetch]
  all_goals first
    | unfold ev_mod_nmoesi_load_finish
    | unfold ev_mod_nmoesi_store_finish
    | unfold ev_mod_nmoesi_nc_store_finish
    | unfold ev_mod_nmoesi_prefetch_finish
  all_goals dsimp only
  all_goals refine ⟨_, fun G => ⟨?_, hf_return _ (handler_frame_refl _ _)⟩⟩
  all_goals
    repeat' first
      | with_reducible first
        | exact handler_frame_refl _ _
        | assumption
        | refine hf_log _ _ ?_
        | refine hf_stop ?_
        | refine hf_check _ _ ?_
        | refine hf_sched_plain _ _ _ ?_ (by decide)
        | refine hf_sched_plain _ _ _ ?_ ?_
        | refine hf_modStack _ _ ?_ ?_
        | refine hf_modRet _ _ ?_ ?_
        | refine hf_ite _ _ _ ?_ ?_
        | refine hf_wait_plain _ _ _ ?_ (by decide)
        | refine hf_return _ ?_
        | refine hf_set_reply _ _ ?_
        | refine hf_set_block _ _ _ _ _ ?_
        | refine hf_transient _ _ _ _ ?_
        | refine hf_access_block _ _ _ ?_
        | refine hf_entry_unlock _ _ _ ?_
        | refine hf_lock_port_plain _ _ _ ?_ (by decide)
        | refine hf_unlock_port _ _ _ ?_
        | refine hf_net _ _ _ _ ?_ (by decide) (by decide)
        | refine hf_check_install _ _ _ ?_
        | refine hf_coalesce _ _ _ ?_
        | refine hf_downup_start _ _ _ ?_
        | refine hf_downup_finish _ _ ?_
        | refine hf_rw_start _ _ _ ?_
        | refine hf_rw_finish _ _ ?_
        | refine hf_evict_start _ _ _ ?_
        | refine hf_evict_finish _ _ ?_
        | refine hf_create _ _ _ _ _ ?_ (by decide)
        | refine hf_create _ _ _ _ _ ?_ ?_
        | refine hf_retry _ ?_
        | refine hf_entry_lock _ _ _ _ _ ?_ (by decide)
        | refine hf_foldl _ ?_ _ _ ?_
      | with_reducible fail_if_no_progress (refine hf_witness _ ?_)
      | exact fun _ => ⟨rfl, rfl, rfl, rfl, rfl, rfl, rfl⟩
      | rfl
      | intro _ _ _
      | split

theorem idx_frame_index_step (m : Nat) (s t : Sim) (h : idx_frame s t) : index_step m s t := by
  obtain ⟨a1, a2, a3, a4⟩ := h
  refine ⟨fun x hx => ⟨(a3 x hx).1, (a3 x hx).2.1⟩, (a4 m).2.2, a1, by rw [a2], ?_⟩
  intro x hx
  rw [(a4 m).1] at hx
  exact Or.inl hx

/-- The access index invariant reads the stacks only at the accesses in flight. -/
theorem access_index_ok_congr_mem (s s' : Sim) (m : Nat)
    (hl : (s'.mods m).access_list = (s.mods m).access_list)
    (ht : (s'.mods m).access_hash_table = (s.mods m).access_hash_table)
    (hb : (s'.mods m).log_block_size = (s.mods m).log_block_size)
    (ha : ∀ x ∈ (s.mods m).access_list, (s'.stack_tab x).addr = (s.stack_tab x).addr ∧
      (s'.stack_tab x).id = (s.stack_tab x).id)
    (hok : access_index_ok s m) : access_index_ok s' m := by
  obtain ⟨h1, h2⟩ := hok
  refine ⟨?_, ?_⟩
  · intro i hi'
    rw [ht, hl, h1 i hi']
    apply List.filter_congr
    intro x hx
    rw [(ha x hx).1, hash_index_congr _ _ hb]
  · rw [hl]
    exact h2.imp_of_mem (fun {a b} ha' hb' hab => by
      rw [(ha a ha').2, (ha b hb').2]; exact hab)

theorem index_inv_frame (s t : Sim) (hinv : index_inv s) (h : idx_frame s t) : index_inv t := by
  obtain ⟨a1, a2, a3, a4⟩ := h
  intro m
  obtain ⟨h1, h2⟩ := hinv m
  refine ⟨access_index_ok_congr_mem s t m (a4 m).1 (a4 m).2.1 (a4 m).2.2 ?_ h1, ?_⟩
  · intro x hx
    exact ⟨(a3 x (h2 x hx).1).2.1, (a3 x (h2 x hx).1).1⟩
  · intro x hx
    rw [(a4 m).1] at hx
    obtain ⟨b1, b2⟩ := h2 x hx
    rw [(a3 x b1).1, a2]
    exact ⟨lt_of_lt_of_le b1 a1, b2⟩

theorem on_line_first_step (s t : Sim) (p : Nat)
    (hs : ∀ m, index_step m s t)
    (hm : p < s.next_stack → (t.stack_tab p).mod = (s.stack_tab p).mod)
    (h : on_line_first s p) : on_line_first t p := by
  unfold on_line_first at h ⊢
  rw [hm h.1]
  exact line_inv_step _ p s t h (hs _)

theorem on_line_first_frame (s t : Sim) (p : Nat) (hf : idx_frame s t)
    (h : on_line_first s p) : on_line_first t p :=
  on_line_first_step s t p (fun m => idx_frame_index_step m s t hf)
    (fun hp => (hf.2.2.1 p hp).2.2) h

theorem events_ok_mono (G G' : Nat → Prop) (s : Sim) (hG : ∀ p, G p → G' p)
    (h : events_ok G s) : events_ok G' s := by
  obtain ⟨e1, e2⟩ := h
  refine ⟨fun e he => ⟨(e1 e he).1, fun hp => hG _ ((e1 e he).2 hp)⟩, fun x => ?_⟩
  obtain ⟨f1, f2⟩ := e2 x
  exact ⟨⟨f1.1, fun hp => hG _ (f1.2 hp)⟩, f2⟩

theorem sim_inv_frame (s t : Sim) (hinv : sim_inv s)
    (hf : handler_frame (on_line_first s) s t) : sim_inv t :=
  ⟨index_inv_frame s t hinv.1 hf.1,
    events_ok_mono _ _ t (fun p hp => on_line_first_frame s t p hf.1 hp) (hf.2 hinv.2)⟩

theorem mod_access_finish_other (s : Sim) (m m' h : Nat) (hne : m' ≠ m) :
    (mod_access_finish s m h).mods m' = s.mods m' := by
  unfold mod_access_finish
  simp only [Sim.setMod, upd, if_neg hne]
  rw [(check_frame _ _ _).1, (check_frame _ _ _).1]

theorem mod_access_finish_events (s : Sim) (m h : Nat) :
    (mod_access_finish s m h).events = s.events := by
  unfold mod_access_finish
  simp only [Sim.setMod]
  rw [(check_frame _ _ _).2.2.1, (check_frame _ _ _).2.2.1]

theorem index_inv_finish (s : Sim) (m h : Nat) (hinv : index_inv s) :
    index_inv (mod_access_finish s m h) := by
  obtain ⟨f1, f2, f3, f4, f5, f6, -⟩ := mod_access_finish_frame s m h
  intro m'
  by_cases hm : m' = m
  · subst hm
    obtain ⟨⟨hC, hP⟩, hL⟩ := hinv m'
    have hnd : (s.mods m').access_list.Nodup :=
      hP.imp (fun {a b} hab e => by rw [e] at hab; exact lt_irrefl _ hab)
    refine ⟨⟨?_, ?_⟩, ?_⟩
    · intro i hi
      rw [f2, f3, f1]
      simp only [hash_index_congr _ _ f4]
      rw [← filter_erase_nodup _ _ _ hnd, ← hC i hi]
      simp only [upd]
      split
      · next e => rw [e]
      · next e =>
        symm
        apply List.erase_of_not_mem
        rw [hC i hi]
        intro hmem
        have := (List.mem_filter.mp hmem).2
        simp only [beq_iff_eq] at this
        exact e this.symm
    · rw [f2, f1]
      exact hP.sublist (List.erase_sublist _ _)
    · intro x hx
      rw [f2] at hx
      rw [f1, f5, f6]
      exact hL x (List.mem_of_mem_erase hx)
  · obtain ⟨hok, hL⟩ := hinv m'
    have e := mod_access_finish_other s m m' h hm
    refine ⟨access_index_ok_congr_mem s _ m' (by rw [e]) (by rw [e]) (by rw [e])
      (fun x _ => by rw [f1]; exact ⟨rfl, rfl⟩) hok, ?_⟩
    intro x hx
    rw [e] at hx
    rw [f1, f5, f6]
    exact hL x hx

theorem sim_inv_finish (s : Sim) (m h : Nat) (hinv : sim_inv s) :
    sim_inv (mod_access_finish s m h) := by
  obtain ⟨f1, -, -, -, f5, f6, -⟩ := mod_access_finish_frame s m h
  refine ⟨index_inv_finish s m h hinv.1, ?_⟩
  have h1 : events_ok (on_line_first s) (mod_access_finish s m h) := by
    obtain ⟨e1, e2⟩ := hinv.2
    refine ⟨?_, ?_⟩
    · rw [mod_access_finish_events]; exact e1
    · rw [f1]; exact e2
  refine events_ok_mono _ _ _ (fun p hp => ?_) h1
  exact on_line_first_step s _ p (fun m' => index_step_finish m' s m h)
    (fun _ => by rw [f1]) hp

theorem sim_inv_idle (s : Sim) (h : sim_idle s) : sim_inv s := by
  obtain ⟨h1, h2, h3⟩ := h
  refine ⟨?_, ?_, ?_⟩
  · intro m
    obtain ⟨a1, a2⟩ := h3 m
    refine ⟨⟨?_, ?_⟩, ?_⟩
    · intro i hi
      rw [a2 i hi, a1]
      rfl
    · rw [a1]
      exact List.Pairwise.nil
    · intro x hx
      rw [a1] at hx
      cases hx
  · intro e he
    rw [h1] at he
    cases he
  · intro x
    obtain ⟨b1, b2, b3, b4⟩ := h2 x
    rw [b1, b2, b3, b4]
    exact ⟨⟨rfl, fun e => by cases e⟩, rfl, rfl, rfl⟩

theorem sim_inv_step (s : Sim) (hinv : sim_inv s) : sim_inv (esim_step s) := by
  unfold esim_step
  split
  · exact hinv
  · split
    · exact hinv
    · next t e h rest hev =>
      have hs' : sim_inv { s with events := rest, esim_time := t } := by
        refine ⟨hinv.1, ?_, hinv.2.2⟩
        intro x hx
        apply hinv.2.1
        rw [hev]
        exact List.mem_cons_of_mem _ hx
      have hsched : sched_ok (on_line_first s) e h := by
        have := hinv.2.1 (t, e, h) (by rw [hev]; exact List.mem_cons_self _ _)
        exact this
      by_cases hfin : finish_event e = true
      · obtain ⟨u, hu⟩ := finish_frame { s with events := rest, esim_time := t } h e hfin
        have h1 := sim_inv_frame _ u hs' (hu _).1
        have h2 := sim_inv_finish u (s.stack_tab h).mod h h1
        exact sim_inv_frame _ _ h2 (hu _).2
      · have hfin' : finish_event e = false := by
          cases hx : finish_event e
          · rfl
          · exact absurd hx hfin
        exact sim_inv_frame _ _ hs' (dispatch_frame _ _ h e hsched.1 hfin' hsched.2)

theorem mod_access_eq (s : Sim) (m : Nat) (kind : mod_access_kind_t) (addr : Nat) (wp : Bool) :
    mod_access s m kind addr wp =
      match kind with
      | mod_access_load => ev_mod_nmoesi_load (access_created s m addr wp) s.next_stack
      | mod_access_store => ev_mod_nmoesi_store (access_created s m addr wp) s.next_stack
      | mod_access_nc_store => ev_mod_nmoesi_nc_store (access_created s m addr wp) s.next_stack
      | mod_access_prefetch => ev_mod_nmoesi_prefetch (access_created s m addr wp) s.next_stack
      | mod_access_invalid => (access_created s m addr wp).stop := by
  cases kind <;> rfl

theorem access_created_frame (s : Sim) (m addr : Nat) (wp : Bool) :
    (access_created s m addr wp).next_stack = s.next_stack + 1 ∧
    (access_created s m addr wp).mod_stack_id = s.mod_stack_id + 1 ∧
    (access_created s m addr wp).mods = s.mods ∧
    (access_created s m addr wp).events = s.events ∧
    (∀ x, x ≠ s.next_stack → (access_created s m addr wp).stack_tab x = s.stack_tab x) ∧
    ((access_created s m addr wp).stack_tab s.next_stack).id = s.mod_stack_id + 1 ∧
    ((access_created s m addr wp).stack_tab s.next_stack).mod = m ∧
    ((access_created s m addr wp).stack_tab s.next_stack).waiting_list_event = ESIM_EV_NONE ∧
    ((access_created s m addr wp).stack_tab s.next_stack).port_waiting_list_event =
      ESIM_EV_NONE ∧
    ((access_created s m addr wp).stack_tab s.next_stack).cache_lock_event = ESIM_EV_NONE ∧
    ((access_created s m addr wp).stack_tab s.next_stack).ret_event = ESIM_EV_NONE := by
  refine ⟨rfl, rfl, rfl, rfl, ?_, ?_, ?_, ?_, ?_, ?_, ?_⟩
  · intro x hx
    simp [access_created, Sim.modStack, Sim.setStack, mod_stack_create, upd, hx]
  all_goals simp [access_created, Sim.modStack, Sim.setStack, mod_stack_create, upd,
    mod_stack_zero]

theorem mod_access_start_frame (t : Sim) (m p : Nat) (kind : mod_access_kind_t) :
    (mod_access_start t m p kind).next_stack = t.next_stack ∧
    (mod_access_start t m p kind).mod_stack_id = t.mod_stack_id ∧
    (mod_access_start t m p kind).events = t.events ∧
    (∀ x, ((mod_access_start t m p kind).stack_tab x).id = (t.stack_tab x).id ∧
      ((mod_access_start t m p kind).stack_tab x).addr = (t.stack_tab x).addr ∧
      ((mod_access_start t m p kind).stack_tab x).mod = (t.stack_tab x).mod ∧
      ((mod_access_start t m p kind).stack_tab x).waiting_list_event =
        (t.stack_tab x).waiting_list_event ∧
      ((mod_access_start t m p kind).stack_tab x).port_waiting_list_event =
        (t.stack_tab x).port_waiting_list_event ∧
      ((mod_access_start t m p kind).stack_tab x).cache_lock_event =
        (t.stack_tab x).cache_lock_event ∧
      ((mod_access_start t m p kind).stack_tab x).ret_event = (t.stack_tab x).ret_event) ∧
    ((mod_access_start t m p kind).mods m).access_list = (t.mods m).access_list ++ [p] ∧
    ((mod_access_start t m p kind).mods m).access_hash_table =
      upd (t.mods m).access_hash_table (hash_index (t.mods m) (t.stack_tab p).addr)
        ((t.mods m).access_hash_table (hash_index (t.mods m) (t.stack_tab p).addr) ++ [p]) ∧
    ((mod_access_start t m p kind).mods m).log_block_size = (t.mods m).log_block_size ∧
    (∀ m', m' ≠ m → (mod_access_start t m p kind).mods m' = t.mods m') := by
  refine ⟨rfl, rfl, rfl, ?_, ?_, ?_, ?_, ?_⟩
  · intro x
    simp only [mod_access_start, Sim.setStack, Sim.setMod, upd]
    split
    · next e => subst e; exact ⟨rfl, rfl, rfl, rfl, rfl, rfl, rfl⟩
    · exact ⟨rfl, rfl, rfl, rfl, rfl, rfl, rfl⟩
  · simp [mod_access_start, Sim.setStack, Sim.setMod, upd]
  · simp [mod_access_start, Sim.setStack, Sim.setMod, upd, hash_index]
  · simp [mod_access_start, Sim.setStack, Sim.setMod, upd]
  · intro m' hm
    simp [mod_access_start, Sim.setStack, Sim.setMod, upd, hm]

theorem index_inv_start (t : Sim) (m p : Nat) (kind : mod_access_kind_t)
    (hinv : index_inv t) (hp : p < t.next_stack) (hid : (t.stack_tab p).id ≤ t.mod_stack_id)
    (hlt : ∀ x ∈ (t.mods m).access_list, (t.stack_tab x).id < (t.stack_tab p).id) :
    index_inv (mod_access_start t m p kind) := by
  obtain ⟨f1, f2, -, f4, f5, f6, f7, f8⟩ := mod_access_start_frame t m p kind
  intro m'
  by_cases hm : m' = m
  · subst hm
    obtain ⟨⟨hC, hP⟩, hL⟩ := hinv m'
    refine ⟨⟨?_, ?_⟩, ?_⟩
    · intro i hi
      rw [f5, f6, List.filter_append]
      have hf : List.filter (fun h => hash_index ((mod_access_start t m' p kind).mods m')
            ((mod_access_start t m' p kind).stack_tab h).addr == i) (t.mods m').access_list =
          (t.mods m').access_hash_table i := by
        rw [hC i hi]
        apply List.filter_congr
        intro x _
        rw [(f4 x).2.1, hash_index_congr _ _ f7]
      rw [hf]
      simp only [List.filter_cons, List.filter_nil, (f4 p).2.1, hash_index_congr _ _ f7, upd]
      by_cases hidx : hash_index (t.mods m') (t.stack_tab p).addr = i
      · simp [hidx]
      · have : ¬ i = hash_index (t.mods m') (t.stack_tab p).addr := fun e => hidx e.symm
        simp [hidx, this]
    · rw [f5, List.pairwise_append]
      refine ⟨?_, List.pairwise_singleton _ _, ?_⟩
      · exact hP.imp (fun {a b} hab => by rw [(f4 a).1, (f4 b).1]; exact hab)
      · intro a ha b hb
        rw [List.mem_singleton] at hb
        rw [hb, (f4 a).1, (f4 p).1]
        exact hlt a ha
    · intro x hx
      rw [f5] at hx
      rw [f1, f2, (f4 x).1]
      rcases List.mem_append.mp hx with h1 | h1
      · exact hL x h1
      · rw [List.mem_singleton] at h1
        rw [h1]
        exact ⟨hp, hid⟩
  · obtain ⟨hok, hL⟩ := hinv m'
    have e := f8 m' hm
    refine ⟨access_index_ok_congr_mem t _ m' (by rw [e]) (by rw [e]) (by rw [e])
      (fun x _ => ⟨(f4 x).2.1, (f4 x).1⟩) hok, ?_⟩
    intro x hx
    rw [e] at hx
    rw [f1, f2, (f4 x).1]
    exact hL x hx

theorem sim_inv_issue (s : Sim) (m : Nat) (kind : mod_access_kind_t) (addr : Nat) (wp : Bool)
    (ev : Ev) (F : Sim) (hinv : sim_inv s)
    (hF : F = mod_access s m kind addr wp)
    (hfr : ∀ G : Nat → Prop,
      (kind = mod_access_prefetch →
        prefetch_master (access_created s m addr wp) s.next_stack = none → G s.next_stack) →
      handler_frame G (mod_access_start ((access_created s m addr wp).log ev s.next_stack) m
        s.next_stack kind) F)
    (hgood : kind = mod_access_prefetch →
      prefetch_master (access_created s m addr wp) s.next_stack = none →
      access_index_ok F m → first_on_line F m s.next_stack) :
    sim_inv F := by
  obtain ⟨c1, c2, c3, c4, c5, c6, c7, c8, c9, c10, c11⟩ := access_created_frame s m addr wp
  obtain ⟨f1, f2, f3, f4, f5, f6, f7, f8⟩ := mod_access_start_frame
    ((access_created s m addr wp).log ev s.next_stack) m s.next_stack kind
  have hidx := (hfr (fun _ => True) (fun _ _ => trivial)).1
  -- the access index after `mod_access_start`
  have hB : index_inv (mod_access_start ((access_created s m addr wp).log ev s.next_stack) m
      s.next_stack kind) := by
    apply index_inv_start
    · intro m'
      obtain ⟨hok, hL⟩ := hinv.1 m'
      refine ⟨access_index_ok_congr_mem s _ m' (by show ((access_created s m addr wp).mods m').access_list = _; rw [c3])
        (by show ((access_created s m addr wp).mods m').access_hash_table = _; rw [c3])
        (by show ((access_created s m addr wp).mods m').log_block_size = _; rw [c3]) ?_ hok, ?_⟩
      · intro x hx
        have hne : x ≠ s.next_stack := Nat.ne_of_lt (hL x hx).1
        show ((access_created s m addr wp).stack_tab x).addr = _ ∧
          ((access_created s m addr wp).stack_tab x).id = _
        rw [c5 x hne]
        exact ⟨rfl, rfl⟩
      · intro x hx
        have hx' : x ∈ (s.mods m').access_list := by
          have : ((access_created s m addr wp).mods m').access_list = (s.mods m').access_list := by
            rw [c3]
          rw [← this]; exact hx
        have hne : x ≠ s.next_stack := Nat.ne_of_lt (hL x hx').1
        show x < (access_created s m addr wp).next_stack ∧
          ((access_created s m addr wp).stack_tab x).id ≤ (access_created s m addr wp).mod_stack_id
        rw [c1, c2, c5 x hne]
        exact ⟨Nat.lt_succ_of_lt (hL x hx').1, le_trans (hL x hx').2 (by omega)⟩
    · show s.next_stack < (access_created s m addr wp).next_stack
      rw [c1]; exact Nat.lt_succ_self _
    · show ((access_created s m addr wp).stack_tab s.next_stack).id ≤
        (access_created s m addr wp).mod_stack_id
      rw [c6, c2]
    · intro x hx
      have hx' : x ∈ (s.mods m).access_list := by
        have : ((access_created s m addr wp).mods m).access_list = (s.mods m).access_list := by
          rw [c3]
        rw [← this]; exact hx
      obtain ⟨b1, b2⟩ := (hinv.1 m).2 x hx'
      have hne : x ≠ s.next_stack := Nat.ne_of_lt b1
      show ((access_created s m addr wp).stack_tab x).id <
        ((access_created s m addr wp).stack_tab s.next_stack).id
      rw [c5 x hne, c6]
      omega
  have hFi : index_inv F := index_inv_frame _ F hB hidx
  -- accesses first on their line stay so
  have hstep : ∀ m', index_step m' s F := fun m' => by
    rw [hF]; exact mod_access_index_step m' s m kind addr wp
  have hmod : ∀ x, x < s.next_stack → (F.stack_tab x).mod = (s.stack_tab x).mod := by
    intro x hx
    have hne : x ≠ s.next_stack := Nat.ne_of_lt hx
    have h1 := (hidx.2.2.1 x (by rw [f1]; show x < (access_created s m addr wp).next_stack
                                 rw [c1]; exact Nat.lt_succ_of_lt hx)).2.2
    rw [h1, (f4 x).2.2.1]
    show ((access_created s m addr wp).stack_tab x).mod = _
    rw [c5 x hne]
  have hmono : ∀ x, on_line_first s x → on_line_first F x := fun x hx =>
    on_line_first_step s F x hstep (hmod x) hx
  have hFm : (F.stack_tab s.next_stack).mod = m := by
    have h1 := (hidx.2.2.1 s.next_stack (by rw [f1]
                                            show s.next_stack < (access_created s m addr wp).next_stack
                                            rw [c1]; exact Nat.lt_succ_self _)).2.2
    rw [h1, (f4 _).2.2.1]
    exact c7
  have hnew : kind = mod_access_prefetch →
      prefetch_master (access_created s m addr wp) s.next_stack = none →
      on_line_first F s.next_stack := by
    intro hk hn
    unfold on_line_first
    rw [hFm]
    refine ⟨?_, ?_, ?_, hgood hk hn (hFi m).1⟩
    · exact lt_of_lt_of_le (by rw [f1]
                               show s.next_stack < (access_created s m addr wp).next_stack
                               rw [c1]; exact Nat.lt_succ_self _) hidx.1
    · have h1 := (hidx.2.2.1 s.next_stack (by rw [f1]
                                              show s.next_stack < (access_created s m addr wp).next_stack
                                              rw [c1]; exact Nat.lt_succ_self _)).1
      rw [h1, (f4 _).1, hidx.2.1, f2]
      show ((access_created s m addr wp).stack_tab s.next_stack).id ≤
        (access_created s m addr wp).mod_stack_id
      rw [c6, c2]
    · intro x hx
      exact ((hFi m).2 x hx).1
  refine ⟨hFi, (hfr (on_line_first F) hnew).2 ?_⟩
  -- the events pending and stored after `mod_access_start`
  obtain ⟨e1, e2⟩ := hinv.2
  refine ⟨?_, ?_⟩
  · intro e he
    rw [f3] at he
    have he' : e ∈ s.events := by rw [← c4]; exact he
    exact ⟨(e1 e he').1, fun hp => hmono _ ((e1 e he').2 hp)⟩
  · intro x
    rw [(f4 x).2.2.2.1, (f4 x).2.2.2.2.1, (f4 x).2.2.2.2.2.1, (f4 x).2.2.2.2.2.2]
    show sched_ok (on_line_first F) ((access_created s m addr wp).stack_tab x).waiting_list_event x ∧
      plain_event ((access_created s m addr wp).stack_tab x).port_waiting_list_event = true ∧
      plain_event ((access_created s m addr wp).stack_tab x).cache_lock_event = true ∧
      plain_event ((access_created s m addr wp).stack_tab x).ret_event = true
    by_cases hx : x = s.next_stack
    · subst hx
      rw [c8, c9, c10, c11]
      exact ⟨⟨rfl, fun e => by cases e⟩, rfl, rfl, rfl⟩
    · rw [c5 x hx]
      obtain ⟨g1, g2⟩ := e2 x
      exact ⟨⟨g1.1, fun hp => hmono _ (g1.2 hp)⟩, g2⟩

theorem sim_inv_bump (s : Sim) (hinv : sim_inv s) :
    sim_inv { s with mod_stack_id := s.mod_stack_id + 1 } := by
  obtain ⟨h1, h2⟩ := hinv
  refine ⟨?_, ?_⟩
  · intro m
    obtain ⟨a1, a2⟩ := h1 m
    exact ⟨a1, fun x hx => ⟨(a2 x hx).1, le_trans (a2 x hx).2 (by show s.mod_stack_id ≤ s.mod_stack_id + 1; omega)⟩⟩
  · have hmono : ∀ p, on_line_first s p →
        on_line_first { s with mod_stack_id := s.mod_stack_id + 1 } p := by
      intro p hp
      obtain ⟨b1, b2, b3, b4⟩ := hp
      exact ⟨b1, le_trans b2 (by show s.mod_stack_id ≤ s.mod_stack_id + 1; omega), b3, b4⟩
    obtain ⟨e1, e2⟩ := h2
    exact ⟨fun e he => ⟨(e1 e he).1, fun hp => hmono _ ((e1 e he).2 hp)⟩,
      fun x => ⟨⟨(e2 x).1.1, fun hp => hmono _ ((e2 x).1.2 hp)⟩, (e2 x).2⟩⟩

theorem sim_inv_access (s : Sim) (m : Nat) (kind : mod_access_kind_t) (addr : Nat) (wp : Bool)
    (hinv : sim_inv s) : sim_inv (mod_access s m kind addr wp) := by
  have c7 : ((access_created s m addr wp).stack_tab s.next_stack).mod = m :=
    (access_created_frame s m addr wp).2.2.2.2.2.2.1
  cases kind with
  | mod_access_invalid =>
    rw [mod_access_eq]
    refine sim_inv_frame _ _ (sim_inv_bump s hinv) ?_
    exact hf_stop (hf_modStack _ _ (hf_create _ _ _ _ _ (handler_frame_refl _ _) rfl)
      (fun _ => ⟨rfl, rfl, rfl, rfl, rfl, rfl, rfl⟩))
  | mod_access_load =>
    refine sim_inv_issue s m _ addr wp EV_MOD_NMOESI_LOAD _ hinv rfl ?_ ?_
    · intro G _
      have := (start_frame G (access_created s m addr wp) s.next_stack).1
      rw [show ((access_created s m addr wp).log EV_MOD_NMOESI_LOAD s.next_stack).stack_tab
        s.next_stack = (access_created s m addr wp).stack_tab s.next_stack from rfl, c7] at this
      exact this
    · intro hk; cases hk
  | mod_access_store =>
    refine sim_inv_issue s m _ addr wp EV_MOD_NMOESI_STORE _ hinv rfl ?_ ?_
    · intro G _
      have := (start_frame G (access_created s m addr wp) s.next_stack).2.1
      rw [show ((access_created s m addr wp).log EV_MOD_NMOESI_STORE s.next_stack).stack_tab
        s.next_stack = (access_created s m addr wp).stack_tab s.next_stack from rfl, c7] at this
      exact this
    · intro hk; cases hk
  | mod_access_nc_store =>
    refine sim_inv_issue s m _ addr wp EV_MOD_NMOESI_NC_STORE _ hinv rfl ?_ ?_
    · intro G _
      have := (start_frame G (access_created s m addr wp) s.next_stack).2.2.1
      rw [show ((access_created s m addr wp).log EV_MOD_NMOESI_NC_STORE s.next_stack).stack_tab
        s.next_stack = (access_created s m addr wp).stack_tab s.next_stack from rfl, c7] at this
      exact this
    · intro hk; cases hk
  | mod_access_prefetch =>
    refine sim_inv_issue s m _ addr wp EV_MOD_NMOESI_PREFETCH _ hinv rfl ?_ ?_
    · intro G hG
      have := (start_frame G (access_created s m addr wp) s.next_stack).2.2.2 (hG rfl)
      rw [show ((access_created s m addr wp).log EV_MOD_NMOESI_PREFETCH s.next_stack).stack_tab
        s.next_stack = (access_created s m addr wp).stack_tab s.next_stack from rfl, c7] at this
      exact this
    · intro _ hn hok
      rw [mod_access_eq] at hok ⊢
      exact prefetch_first_on_line _ m _ c7 hok hn

theorem sim_inv_reach (s0 s : Sim) (h0 : sim_idle s0) (hr : SimReach s0 s) : sim_inv s := by
  induction hr with
  | init => exact sim_inv_idle s0 h0
  | step _ ih => exact sim_inv_step _ ih
  | access m kind addr wp _ ih => exact sim_inv_access _ m kind addr wp ih

/-- In every state reached from an idle simulation, an access whose
`EV_MOD_NMOESI_PREFETCH_LOCK` is the next event has no in-flight access with a
smaller id to its block in its module. -/
theorem prefetch_lock_first (s0 s : Sim) (h0 : sim_idle s0) (hr : SimReach s0 s)
    (t p : Nat) (rest : List (Nat × Ev × Nat))
    (he : s.events = (t, EV_MOD_NMOESI_PREFETCH_LOCK, p) :: rest) :
    first_on_line { s with events := rest, esim_time := t } (s.stack_tab p).mod p ∧
    (s.fatal = false → esim_step s =
      ev_mod_nmoesi_prefetch_lock { s with events := rest, esim_time := t } p) := by
  have hinv := sim_inv_reach s0 s h0 hr
  have h1 := (hinv.2.1 (t, EV_MOD_NMOESI_PREFETCH_LOCK, p)
    (by rw [he]; exact List.mem_cons_self _ _)).2 rfl
  refine ⟨h1.2.2.2, ?_⟩
  intro hf
  unfold esim_step
  rw [if_neg (by rw [hf]; exact Bool.false_ne_true), he]
  rfl

theorem chain_init_idle (u : cache_block_state_t) : sim_idle (chain_init u) := by
  refine ⟨rfl, fun _ => ⟨rfl, rfl, rfl, rfl⟩, ?_⟩
  intro m
  match m with
  | 0 => exact ⟨rfl, fun _ _ => rfl⟩
  | 1 => exact ⟨rfl, fun _ _ => rfl⟩
  | _ + 2 => exact ⟨rfl, fun _ _ => rfl⟩

/-- C23: same-line issue order.  `LOAD_LOCK`, `STORE_LOCK` and `NC_STORE_LOCK`
start FindAndLock (create the lookup stack) for an access in flight only in a
state where no access with a smaller id to the same block is in flight in the
module.  A Prefetch that `EV_MOD_NMOESI_PREFETCH` sends on to `PREFETCH_LOCK`
(no access returned by `mod_can_coalesce`) has no in-flight access with a
smaller id to its block, and this stays so in every later state: steps never
change the id or address of a stack and only add accesses with new, larger
ids.  Hence, in every state reached from an idle simulation by turns of the
scheduler and by accesses issued with `mod_access`, whenever
`EV_MOD_NMOESI_PREFETCH_LOCK` is the next event, the state in which
`PREFETCH_LOCK` runs (and starts its FindAndLock) has no in-flight access with
a smaller id to the block of the Prefetch in its module. -/
theorem same_line_issue_order (m : Nat) :
    (∀ (s : Sim) (h : Nat), (s.stack_tab h).mod = m → h ∈ (s.mods m).access_list →
      access_index_ok s m →
      ((ev_mod_nmoesi_load_lock s h).next_stack = s.next_stack + 1 → first_on_line s m h) ∧
      ((ev_mod_nmoesi_store_lock s h).next_stack = s.next_stack + 1 → first_on_line s m h) ∧
      ((ev_mod_nmoesi_nc_store_lock s h).next_stack = s.next_stack + 1 →
        first_on_line s m h)) ∧
    (∀ (s : Sim) (p : Nat), (s.stack_tab p).mod = m →
      access_index_ok (ev_mod_nmoesi_prefetch s p) m → prefetch_master s p = none →
      first_on_line (ev_mod_nmoesi_prefetch s p) m p) ∧
    (∀ (s s' : Sim) (p : Nat), line_inv s m p →
      Relation.ReflTransGen (index_step m) s s' → first_on_line s' m p) ∧
    (∀ (s : Sim) (m' : Nat) (kind : mod_access_kind_t) (addr : Nat) (wp : Bool),
      index_step m s (mod_access s m' kind addr wp)) ∧
    (∀ (s : Sim) (h : Nat),
      index_step m s (ev_mod_nmoesi_load_finish s h) ∧
      index_step m s (ev_mod_nmoesi_store_finish s h) ∧
      index_step m s (ev_mod_nmoesi_nc_store_finish s h) ∧
      index_step m s (ev_mod_nmoesi_prefetch_finish s h)) ∧
    (∀ (s0 s : Sim), sim_idle s0 → SimReach s0 s →
      ∀ (t p : Nat) (rest : List (Nat × Ev × Nat)),
        s.events = (t, EV_MOD_NMOESI_PREFETCH_LOCK, p) :: rest →
        first_on_line { s with events := rest, esim_time := t } (s.stack_tab p).mod p ∧
        (s.fatal = false → esim_step s =
          ev_mod_nmoesi_prefetch_lock { s with events := rest, esim_time := t } p)) := by
  refine ⟨?_, ?_, ?_, ?_, ?_, ?_⟩
  · intro s h hmod hm hok
    have ho : caller_in_flight s m (some h) := fun o e => by cases e; exact hm
    obtain ⟨a1, -⟩ := mod_in_flight_address_spec s m (s.stack_tab h).addr (some h) hok ho
    refine ⟨?_, ?_, ?_⟩
    · intro hn
      have := load_lock_starts s h hn
      rw [hmod] at this
      exact first_on_line_of_before s m h hm hok (a1.mp this)
    · intro hn
      have := store_lock_starts s h hn
      rw [hmod] at this
      apply first_on_line_of_before s m h hm hok
      intro x hx
      unfold prev_chain at this
      rw [if_pos (by simpa using hm)] at this
      have he : (s.mods m).access_list.takeWhile (fun x => x != h) = [] := by
        cases hc : (s.mods m).access_list.takeWhile (fun x => x != h) with
        | nil => rfl
        | cons a l =>
          rw [hc] at this
          simp at this
      unfold issued_before at hx
      simp only at hx
      rw [he] at hx
      cases hx
    · intro hn
      have := nc_store_lock_starts s h hn
      rw [hmod] at this
      exact first_on_line_of_before s m h hm hok (a1.mp this)
  · intro s p hmod hok hn
    exact prefetch_first_on_line s m p hmod hok hn
  · intro s s' p hinv hr
    exact (line_inv_run m p s s' hinv hr).2.2.2
  · intro s m' kind addr wp
    exact mod_access_index_step m s m' kind addr wp
  · intro s h
    exact finish_index_step m s h
  · intro s0 s h0 hr t p rest he
    exact prefetch_lock_first s0 s h0 hr t p rest he

/-- Two Stores of one block on the L1 of the chain: `STORE_LOCK` of the first
starts its lookup with no older access to the block in flight.  A Prefetch of
4160 issued on the idle chain: `EV_MOD_NMOESI_PREFETCH_LOCK` is the next event
and the Prefetch is first on its line. -/
theorem same_line_issue_order_witness :
    (two_stores.stack_tab 0).mod = 0 ∧ 0 ∈ (two_stores.mods 0).access_list ∧
    access_index_ok two_stores 0 ∧
    (ev_mod_nmoesi_store_lock two_stores 0).next_stack = two_stores.next_stack + 1 ∧
    first_on_line two_stores 0 0 ∧
    sim_idle (chain_init cache_block_invalid) ∧
    SimReach (chain_init cache_block_invalid)
      (mod_access (chain_init cache_block_invalid) 0 mod_access_prefetch 4160 false) ∧
    (mod_access (chain_init cache_block_invalid) 0 mod_access_prefetch 4160 false).events =
      (0, EV_MOD_NMOESI_PREFETCH_LOCK, 0) :: [] ∧
    first_on_line { mod_access (chain_init cache_block_invalid) 0 mod_access_prefetch 4160
      false with events := [], esim_time := 0 } 0 0 :=
  ⟨by decide, by decide, by decide, by decide,
    ((same_line_issue_order 0).1 two_stores 0 (by decide) (by decide) (by decide)).2.1
      (by decide),
    chain_init_idle _, SimReach.access 0 mod_access_prefetch 4160 false SimReach.init, rfl,
    ((same_line_issue_order 0).2.2.2.2.2 _ _ (chain_init_idle cache_block_invalid)
      (SimReach.access 0 mod_access_prefetch 4160 false SimReach.init) 0 0 [] rfl).1⟩

theorem countP_insert_event (p : Nat × Ev × Nat → Bool) (t : Nat) (ev : Ev) (h : Nat)
    (l : List (Nat × Ev × Nat)) :
    (insert_event t ev h l).countP p = l.countP p + (if p (t, ev, h) then 1 else 0) := by
  induction l with
  | nil => simp [insert_event, List.countP_cons]
  | cons e rest ih =>
    unfold insert_event
    split
    · rw [List.countP_cons, List.countP_cons, ih]
      omega
    · simp only [List.countP_cons]

theorem invalidate_send_step (h : Nat) (s : Sim) (p : Nat × Nat) (hh : h < s.next_stack) :
    (invalidate_send h s p).next_stack = s.next_stack + 1 ∧
    ((invalidate_send h s p).stack_tab h).pending = (s.stack_tab h).pending + 1 ∧
    count_events EV_MOD_NMOESI_WRITE_REQUEST (invalidate_send h s p) =
      count_events EV_MOD_NMOESI_WRITE_REQUEST s + 1 ∧
    (invalidate_send h s p).mods = s.mods := by
  have hne : h ≠ s.next_stack := Nat.ne_of_lt hh
  refine ⟨?_, ?_, ?_, ?_⟩
  · simp [invalidate_send, Sim.modStack, Sim.setStack, mod_stack_create, esim_schedule_event]
  · simp [invalidate_send, Sim.modStack, Sim.setStack, mod_stack_create, esim_schedule_event,
      upd, hne]
  · unfold count_events
    simp only [invalidate_send, Sim.modStack, Sim.setStack, mod_stack_create,
      esim_schedule_event]
    rw [countP_insert_event]
    simp
  · simp [invalidate_send, Sim.modStack, Sim.setStack, mod_stack_create, esim_schedule_event]

theorem invalidate_send_fold (h : Nat) (l : List (Nat × Nat)) (s : Sim)
    (hh : h < s.next_stack) :
    (l.foldl (invalidate_send h) s).next_stack = s.next_stack + l.length ∧
    ((l.foldl (invalidate_send h) s).stack_tab h).pending =
      (s.stack_tab h).pending + (l.length : Int) ∧
    count_events EV_MOD_NMOESI_WRITE_REQUEST (l.foldl (invalidate_send h) s) =
      count_events EV_MOD_NMOESI_WRITE_REQUEST s + l.length ∧
    (l.foldl (invalidate_send h) s).mods = s.mods := by
  induction l generalizing s with
  | nil => simp
  | cons p rest ih =>
    obtain ⟨a1, a2, a3, a4⟩ := invalidate_send_step h s p hh
    obtain ⟨b1, b2, b3, b4⟩ := ih (invalidate_send h s p) (by rw [a1]; omega)
    simp only [List.foldl_cons, List.length_cons]
    refine ⟨?_, ?_, ?_, ?_⟩
    · rw [b1, a1]; omega
    · rw [b2, a2]; push_cast; omega
    · rw [b3, a3]; omega
    · rw [b4, a4]

theorem net_try_send_ev_log (s : Sim) (h : Nat) (size : Int) (re rt : Ev) :
    (net_try_send_ev s h size re rt).net_log = s.net_log ++ [(re, size, net_accepts s)] ∧
    ((net_try_send_ev s h size re rt).stack_tab h).reply = (s.stack_tab h).reply := by
  unfold net_try_send_ev net_accepts
  split
  · next rest heq => simp [esim_schedule_event, Sim.setStack, upd, heq]
  · next hne =>
    have : (match s.net_oracle with | false :: _ => false | _ => true) = true := by
      split
      · next r e => exact absurd e (hne r)
      · rfl
    simp [esim_schedule_event, Sim.setStack, upd, this]

theorem check_net_log (s : Sim) (c : Bool) (l : Nat) : (s.check c l).net_log = s.net_log := by
  unfold Sim.check; split <;> rfl

theorem check_net_oracle (s : Sim) (c : Bool) (l : Nat) :
    (s.check c l).net_oracle = s.net_oracle := by
  unfold Sim.check; split <;> rfl

theorem net_accepts_congr (s t : Sim) (h : t.net_oracle = s.net_oracle) :
    net_accepts t = net_accepts s := by
  unfold net_accepts
  rw [h]

theorem invalidate_fanout_cache (s : Sim) (h m' : Nat) (c : cache_t)
    (hm : m' ≠ (s.stack_tab h).mod) :
    invalidate_fanout (s.setCache m' c) h = invalidate_fanout s h := by
  have hmods : ∀ x, ((s.setCache m' c).mods x).mod_id = (s.mods x).mod_id ∧
      ((s.setCache m' c).mods x).block_size = (s.mods x).block_size := by
    intro x
    simp only [Sim.setCache, Sim.setMod, upd]
    split
    · next e => rw [e]; exact ⟨rfl, rfl⟩
    · exact ⟨rfl, rfl⟩
  have hmod : (s.setCache m' c).mods (s.stack_tab h).mod = s.mods (s.stack_tab h).mod := by
    simp only [Sim.setCache, Sim.setMod, upd]
    rw [if_neg (Ne.symm hm)]
  have hst : (s.setCache m' c).stack_tab = s.stack_tab := rfl
  unfold invalidate_fanout fanout cache_get_block
  simp only [hst, hmod, hmods]

theorem evict_action_invalid (s : Sim) (h : Nat)
    (hst : ((s.mods (s.stack_tab h).mod).cache.blocks (s.stack_tab h).set
      (s.stack_tab h).way).state = cache_block_invalid) :
    (ev_mod_nmoesi_evict_action s h).net_log = s.net_log ∧
    (ev_mod_nmoesi_evict_action s h).events =
      insert_event (s.esim_time + 0) EV_MOD_NMOESI_EVICT_FINISH h s.events ∧
    (ev_mod_nmoesi_evict_action s h).mods = s.mods := by
  unfold ev_mod_nmoesi_evict_action
  simp only [cache_get_block, Sim.log, check_mods, check_stack_tab, hst, if_true]
  simp [esim_schedule_event, Sim.modStack, Sim.setStack, check_net_log, check_events,
    check_esim_time]

theorem evict_action_send (s : Sim) (h : Nat)
    (hst : ((s.mods (s.stack_tab h).mod).cache.blocks (s.stack_tab h).set
      (s.stack_tab h).way).state ≠ cache_block_invalid) :
    (ev_mod_nmoesi_evict_action s h).net_log = s.net_log ++
      [(EV_MOD_NMOESI_EVICT_RECEIVE,
        (if ((s.mods (s.stack_tab h).mod).cache.blocks (s.stack_tab h).set
              (s.stack_tab h).way).state = cache_block_modified ∨
            ((s.mods (s.stack_tab h).mod).cache.blocks (s.stack_tab h).set
              (s.stack_tab h).way).state = cache_block_owned ∨
            ((s.mods (s.stack_tab h).mod).cache.blocks (s.stack_tab h).set
              (s.stack_tab h).way).state = cache_block_noncoherent
         then 8 + (((s.mods (s.stack_tab h).mod).block_size : Nat) : Int) else 8),
        net_accepts s)] ∧
    ((ev_mod_nmoesi_evict_action s h).stack_tab h).reply =
      (if ((s.mods (s.stack_tab h).mod).cache.blocks (s.stack_tab h).set
              (s.stack_tab h).way).state = cache_block_modified ∨
            ((s.mods (s.stack_tab h).mod).cache.blocks (s.stack_tab h).set
              (s.stack_tab h).way).state = cache_block_owned ∨
            ((s.mods (s.stack_tab h).mod).cache.blocks (s.stack_tab h).set
              (s.stack_tab h).way).state = cache_block_noncoherent
       then reply_ack_data else reply_ack) := by
  unfold ev_mod_nmoesi_evict_action
  simp only [cache_get_block, Sim.log, check_mods, check_stack_tab, hst, if_false]
  by_cases hd : ((s.mods (s.stack_tab h).mod).cache.blocks (s.stack_tab h).set
              (s.stack_tab h).way).state = cache_block_modified ∨
            ((s.mods (s.stack_tab h).mod).cache.blocks (s.stack_tab h).set
              (s.stack_tab h).way).state = cache_block_owned ∨
            ((s.mods (s.stack_tab h).mod).cache.blocks (s.stack_tab h).set
              (s.stack_tab h).way).state = cache_block_noncoherent
  · simp only [hd, if_true]
    refine ⟨?_, ?_⟩
    · rw [(net_try_send_ev_log _ _ _ _ _).1]
      simp [Sim.modStack, Sim.setStack, check_net_log, net_accepts, check_net_oracle, check_mods]
    · rw [(net_try_send_ev_log _ _ _ _ _).2]
      simp [Sim.modStack, Sim.setStack, upd]
  · simp only [hd, if_false]
    refine ⟨?_, ?_⟩
    · rw [(net_try_send_ev_log _ _ _ _ _).1]
      simp [Sim.modStack, Sim.setStack, check_net_log, net_accepts, check_net_oracle, check_mods]
    · rw [(net_try_send_ev_log _ _ _ _ _).2]
      simp [Sim.modStack, Sim.setStack, upd]

theorem invalidate_eq (s : Sim) (h : Nat) :
    ev_mod_nmoesi_invalidate s h =
      esim_schedule_event
        (if (s.mods (s.stack_tab h).mod).num_nodes ≠ 0 ∧
            ((s.mods (s.stack_tab h).mod).cache.blocks (s.stack_tab h).set
              (s.stack_tab h).way).state ≠ cache_block_invalid then
          (fanout s (s.stack_tab h).mod
            ((s.mods (s.stack_tab h).mod).cache.blocks (s.stack_tab h).set
              (s.stack_tab h).way).tag (s.stack_tab h).orig_mod_id
            (s.stack_tab h).except_mod).foldl (invalidate_send h) (invalidate_start s h)
         else invalidate_start s h) EV_MOD_NMOESI_INVALIDATE_FINISH h 0 := by
  unfold ev_mod_nmoesi_invalidate invalidate_start
  simp only [cache_get_block, Sim.log, Sim.modStack, Sim.setStack, upd, if_true, fanout]

theorem invalidate_counts (s : Sim) (h : Nat) (hh : h < s.next_stack) :
    (ev_mod_nmoesi_invalidate s h).next_stack = s.next_stack + invalidate_fanout s h ∧
    ((ev_mod_nmoesi_invalidate s h).stack_tab h).pending =
      1 + ((invalidate_fanout s h : Nat) : Int) ∧
    count_events EV_MOD_NMOESI_WRITE_REQUEST (ev_mod_nmoesi_invalidate s h) =
      count_events EV_MOD_NMOESI_WRITE_REQUEST s + invalidate_fanout s h := by
  have key : ∀ t : Sim, count_events EV_MOD_NMOESI_WRITE_REQUEST
      (esim_schedule_event t EV_MOD_NMOESI_INVALIDATE_FINISH h 0) =
      count_events EV_MOD_NMOESI_WRITE_REQUEST t := by
    intro t
    unfold count_events
    simp only [esim_schedule_event]
    rw [countP_insert_event]
    simp
  have hp : ((invalidate_start s h).stack_tab h).pending = 1 := by
    simp [invalidate_start, Sim.modStack, Sim.setStack, upd]
  have hc0 : count_events EV_MOD_NMOESI_WRITE_REQUEST (invalidate_start s h) =
      count_events EV_MOD_NMOESI_WRITE_REQUEST s := rfl
  have hn0 : (invalidate_start s h).next_stack = s.next_stack := rfl
  rw [invalidate_eq, key]
  unfold invalidate_fanout
  simp only [cache_get_block]
  by_cases hc : (s.mods (s.stack_tab h).mod).num_nodes ≠ 0 ∧
      ((s.mods (s.stack_tab h).mod).cache.blocks (s.stack_tab h).set
        (s.stack_tab h).way).state ≠ cache_block_invalid
  · rw [if_pos hc, if_pos hc]
    obtain ⟨a1, a2, a3, -⟩ := invalidate_send_fold h (fanout s (s.stack_tab h).mod
            ((s.mods (s.stack_tab h).mod).cache.blocks (s.stack_tab h).set
              (s.stack_tab h).way).tag (s.stack_tab h).orig_mod_id
            (s.stack_tab h).except_mod) (invalidate_start s h) hh
    refine ⟨?_, ?_, ?_⟩
    · exact a1
    · show ((List.foldl (invalidate_send h) (invalidate_start s h) _).stack_tab h).pending = _
      rw [a2, hp]
    · rw [a3, hc0]
  · rw [if_neg hc, if_neg hc]
    exact ⟨rfl, by show ((invalidate_start s h).stack_tab h).pending = _; rw [hp]; rfl, rfl⟩

/-- C28: eviction notice by victim state.  In `EVICT_ACTION` an Invalid victim
sends nothing and `EVICT_FINISH` is scheduled; a Modified, Owned or NonCoherent
victim sends the lower module a message of size `8 + block_size` with reply kind
ack+data; an Exclusive or Shared victim sends a message of size 8 with reply
kind ack.  The preceding Invalidate issues `invalidate_fanout` WriteRequests:
none when the module has no upper-level node or the victim is Invalid, and
otherwise one for every upper-level end node other than the module itself, the
originating module and the exempted module (per aligned sub-block); the number
does not depend on what the other modules hold. -/
theorem evict_notice_by_state (s : Sim) (h : Nat) (hh : h < s.next_stack) :
    ((cache_get_block s (s.stack_tab h).mod (s.stack_tab h).set (s.stack_tab h).way).2 =
        cache_block_invalid →
      (ev_mod_nmoesi_evict_action s h).net_log = s.net_log ∧
      (ev_mod_nmoesi_evict_action s h).events =
        insert_event (s.esim_time + 0) EV_MOD_NMOESI_EVICT_FINISH h s.events) ∧
    ((cache_get_block s (s.stack_tab h).mod (s.stack_tab h).set (s.stack_tab h).way).2 =
        cache_block_modified ∨
      (cache_get_block s (s.stack_tab h).mod (s.stack_tab h).set (s.stack_tab h).way).2 =
        cache_block_owned ∨
      (cache_get_block s (s.stack_tab h).mod (s.stack_tab h).set (s.stack_tab h).way).2 =
        cache_block_noncoherent →
      (ev_mod_nmoesi_evict_action s h).net_log = s.net_log ++
        [(EV_MOD_NMOESI_EVICT_RECEIVE,
          8 + (((s.mods (s.stack_tab h).mod).block_size : Nat) : Int), net_accepts s)] ∧
      ((ev_mod_nmoesi_evict_action s h).stack_tab h).reply = reply_ack_data) ∧
    ((cache_get_block s (s.stack_tab h).mod (s.stack_tab h).set (s.stack_tab h).way).2 =
        cache_block_exclusive ∨
      (cache_get_block s (s.stack_tab h).mod (s.stack_tab h).set (s.stack_tab h).way).2 =
        cache_block_shared →
      (ev_mod_nmoesi_evict_action s h).net_log = s.net_log ++
        [(EV_MOD_NMOESI_EVICT_RECEIVE, 8, net_accepts s)] ∧
      ((ev_mod_nmoesi_evict_action s h).stack_tab h).reply = reply_ack) ∧
    ((ev_mod_nmoesi_invalidate s h).next_stack = s.next_stack + invalidate_fanout s h ∧
      ((ev_mod_nmoesi_invalidate s h).stack_tab h).pending =
        1 + ((invalidate_fanout s h : Nat) : Int) ∧
      count_events EV_MOD_NMOESI_WRITE_REQUEST (ev_mod_nmoesi_invalidate s h) =
        count_events EV_MOD_NMOESI_WRITE_REQUEST s + invalidate_fanout s h) ∧
    (((s.mods (s.stack_tab h).mod).num_nodes = 0 ∨
      (cache_get_block s (s.stack_tab h).mod (s.stack_tab h).set (s.stack_tab h).way).2 =
        cache_block_invalid) → invalidate_fanout s h = 0) ∧
    (∀ (m' : Nat) (c : cache_t), m' ≠ (s.stack_tab h).mod →
      invalidate_fanout (s.setCache m' c) h = invalidate_fanout s h) := by
  refine ⟨?_, ?_, ?_, invalidate_counts s h hh, ?_, ?_⟩
  · intro hst
    exact ⟨(evict_action_invalid s h hst).1, (evict_action_invalid s h hst).2.1⟩
  · intro hst
    simp only [cache_get_block] at hst
    have hv : ((s.mods (s.stack_tab h).mod).cache.blocks (s.stack_tab h).set
        (s.stack_tab h).way).state ≠ cache_block_invalid := by
      rcases hst with e | e | e <;> rw [e] <;> decide
    have := evict_action_send s h hv
    rw [if_pos hst, if_pos hst] at this
    exact this
  · intro hst
    simp only [cache_get_block] at hst
    have hv : ((s.mods (s.stack_tab h).mod).cache.blocks (s.stack_tab h).set
        (s.stack_tab h).way).state ≠ cache_block_invalid := by
      rcases hst with e | e <;> rw [e] <;> decide
    have hd : ¬ (((s.mods (s.stack_tab h).mod).cache.blocks (s.stack_tab h).set
              (s.stack_tab h).way).state = cache_block_modified ∨
            ((s.mods (s.stack_tab h).mod).cache.blocks (s.stack_tab h).set
              (s.stack_tab h).way).state = cache_block_owned ∨
            ((s.mods (s.stack_tab h).mod).cache.blocks (s.stack_tab h).set
              (s.stack_tab h).way).state = cache_block_noncoherent) := by
      rcases hst with e | e <;> rw [e] <;> decide
    have := evict_action_send s h hv
    rw [if_neg hd, if_neg hd] at this
    exact this
  · intro hz
    unfold invalidate_fanout
    simp only
    rw [if_neg]
    rintro ⟨h1, h2⟩
    rcases hz with e | e
    · exact h1 e
    · exact h2 e
  · intro m' c hm
    exact invalidate_fanout_cache s h m' c hm

theorem evict_notice_by_state_witness :
    2 < (esim_step (evict_demo cache_block_invalid false)).next_stack ∧
    ((ev_mod_nmoesi_invalidate (esim_step (evict_demo cache_block_invalid false)) 2).stack_tab
      2).pending = 1 + ((invalidate_fanout (esim_step (evict_demo cache_block_invalid false))
        2 : Nat) : Int) :=
  ⟨by decide, (evict_notice_by_state (esim_step (evict_demo cache_block_invalid false)) 2
    (by decide)).2.2.2.1.2.1⟩

/-- C28 fails for its last sentence in the snoop variant.  The L2 of the chain
evicts a block that no upper-level module holds (every block of the L1 is
Invalid): `EVICT` creates the Invalidate (stack 2), and `INVALIDATE` still
issues a WriteRequest (stack 3) for the line to the L1, leaving `pending` at
2. -/
theorem invalidate_without_holders :
    (∀ set ∈ ([0, 1, 2, 3] : List Int), ∀ way ∈ ([0, 1] : List Int),
      (((evict_demo cache_block_invalid false).mods 0).cache.blocks set way).state =
        cache_block_invalid) ∧
    (esim_run 2 (evict_demo cache_block_invalid false)).trace =
      [(EV_MOD_NMOESI_EVICT, 1), (EV_MOD_NMOESI_INVALIDATE, 2)] ∧
    ((esim_run 2 (evict_demo cache_block_invalid false)).stack_tab 2).pending = 2 ∧
    (esim_run 2 (evict_demo cache_block_invalid false)).events =
      [(0, EV_MOD_NMOESI_WRITE_REQUEST, 3), (0, EV_MOD_NMOESI_INVALIDATE_FINISH, 2)] ∧
    ((esim_run 2 (evict_demo cache_block_invalid false)).stack_tab 3).target_mod = some 0 ∧
    ((esim_run 2 (evict_demo cache_block_invalid false)).stack_tab 3).addr = 4160 ∧
    invalidate_fanout (esim_step (evict_demo cache_block_invalid false)) 2 = 1 := by
  decide

theorem block_view_mods (s t : Sim) (h : t.mods = s.mods) : block_view t = block_view s := by
  funext m set way
  unfold block_view
  rw [h]

theorem wakeup_list_mods (l : List Nat) (s : Sim) :
    (wakeup_list s l).mods = s.mods ∧ (wakeup_list s l).assert_log = s.assert_log := by
  induction l generalizing s with
  | nil => exact ⟨rfl, rfl⟩
  | cons a rest ih =>
    simp only [wakeup_list]
    exact ih _

theorem mod_stack_return_keep (t : Sim) (h : Nat) :
    (mod_stack_return t h).mods = t.mods ∧
    (mod_stack_return t h).assert_log = t.assert_log ∧
    (∀ x, ((mod_stack_return t h).stack_tab x).err = (t.stack_tab x).err) := by
  obtain ⟨w1, w2⟩ := wakeup_list_mods (t.stack_tab h).waiting_list t
  obtain ⟨i1, -⟩ := wakeup_list_frame (t.stack_tab h).waiting_list t
  have hx : ∀ x, ((upd (wakeup_list t (t.stack_tab h).waiting_list).stack_tab h
      { (wakeup_list t (t.stack_tab h).waiting_list).stack_tab h with
        waiting_list := [] }) x).err = (t.stack_tab x).err := by
    intro x
    simp only [upd, i1]
    split
    · next e => rw [e]
    · rfl
  unfold mod_stack_return
  simp only
  split
  · exact ⟨w1, w2, hx⟩
  · exact ⟨w1, w2, hx⟩

theorem net_try_send_ev_mods (s : Sim) (h : Nat) (size : Int) (re rt : Ev) :
    (net_try_send_ev s h size re rt).mods = s.mods := by
  unfold net_try_send_ev
  split <;> rfl

theorem evict_reply_receive_ok (s : Sim) (h : Nat) (he : (s.stack_tab h).err = false) :
    block_view (ev_mod_nmoesi_evict_reply_receive s h) (s.stack_tab h).mod
      (s.stack_tab h).src_set (s.stack_tab h).src_way = (0, cache_block_invalid) ∧
    (ev_mod_nmoesi_evict_reply_receive s h).events =
      insert_event (s.esim_time + 0) EV_MOD_NMOESI_EVICT_FINISH h s.events := by
  unfold ev_mod_nmoesi_evict_reply_receive block_view
  simp [Sim.log, he, esim_schedule_event, cache_set_block, Sim.setCache, Sim.setMod, upd, upd2]

theorem evict_reply_receive_err (s : Sim) (h : Nat) (he : (s.stack_tab h).err = true) :
    (ev_mod_nmoesi_evict_reply_receive s h).mods = s.mods ∧
    (ev_mod_nmoesi_evict_reply_receive s h).events =
      insert_event (s.esim_time + 0) EV_MOD_NMOESI_EVICT_FINISH h s.events := by
  unfold ev_mod_nmoesi_evict_reply_receive
  simp [Sim.log, he, esim_schedule_event]

theorem evict_invalid_main_memory (s : Sim) (h : Nat)
    (hk : (s.mods (s.stack_tab h).mod).kind = mod_kind_main_memory) :
    block_view (ev_mod_nmoesi_evict_invalid s h) (s.stack_tab h).mod
      (s.stack_tab h).src_set (s.stack_tab h).src_way = (0, cache_block_invalid) ∧
    (ev_mod_nmoesi_evict_invalid s h).events =
      insert_event (s.esim_time + 0) EV_MOD_NMOESI_EVICT_FINISH h s.events := by
  unfold ev_mod_nmoesi_evict_invalid block_view
  simp [Sim.log, hk, esim_schedule_event, cache_set_block, Sim.setCache, Sim.setMod, upd, upd2]

theorem evict_invalid_cache (s : Sim) (h : Nat)
    (hk : (s.mods (s.stack_tab h).mod).kind ≠ mod_kind_main_memory) :
    (ev_mod_nmoesi_evict_invalid s h).mods = s.mods ∧
    (ev_mod_nmoesi_evict_invalid s h).events =
      insert_event (s.esim_time + 0) EV_MOD_NMOESI_EVICT_ACTION h s.events := by
  unfold ev_mod_nmoesi_evict_invalid
  simp [Sim.log, hk, esim_schedule_event]

theorem evict_action_mods (s : Sim) (h : Nat) : (ev_mod_nmoesi_evict_action s h).mods = s.mods := by
  unfold ev_mod_nmoesi_evict_action
  simp only
  split
  · simp [esim_schedule_event, Sim.modStack, Sim.setStack, Sim.log]
  · rw [net_try_send_ev_mods]
    split <;> simp [Sim.modStack, Sim.setStack, Sim.log]

theorem evict_mods (s : Sim) (h : Nat) : (ev_mod_nmoesi_evict s h).mods = s.mods := by
  have hr : ((s.log EV_MOD_NMOESI_EVICT h).modRet h (fun rt => { rt with err := false })).mods =
      s.mods := by
    unfold Sim.modRet
    split <;> rfl
  unfold ev_mod_nmoesi_evict
  simp only
  split
  · exact hr
  · simp only [esim_schedule_event, Sim.modStack, Sim.setStack, mod_stack_create]
    exact hr

theorem evict_reply_mods (s : Sim) (h : Nat) : (ev_mod_nmoesi_evict_reply s h).mods = s.mods := by
  unfold ev_mod_nmoesi_evict_reply
  rw [net_try_send_ev_mods]
  rfl

theorem evict_receive_blocks (s : Sim) (h : Nat) :
    block_view (ev_mod_nmoesi_evict_receive s h) = block_view s := by
  have hst : ∀ (t : Sim) (m : Nat) (k : mod_access_kind_t),
      block_view (mod_evict_start t m h k) = block_view t := by
    intro t m k
    funext x set way
    unfold block_view mod_evict_start
    simp only [Sim.setMod, Sim.setStack, upd]
    split
    · next e => rw [e]
    · rfl
  unfold ev_mod_nmoesi_evict_receive
  simp only
  split
  · rfl
  · split
    · exact hst _ _ _
    · rfl

theorem evict_finish_blocks (s : Sim) (h : Nat) :
    block_view (ev_mod_nmoesi_evict_finish s h) = block_view s := by
  have hst : ∀ (t : Sim) (m : Nat), block_view (mod_evict_finish t m h) = block_view t := by
    intro t m
    funext x set way
    unfold block_view mod_evict_finish
    simp only [Sim.setMod, Sim.setStack, upd]
    split
    · next e => rw [e]
    · rfl
  unfold ev_mod_nmoesi_evict_finish
  simp only
  split
  · split
    · rfl
    · rw [block_view_mods _ _ (mod_stack_return_keep _ h).1]
      exact hst _ _
  · exact block_view_mods _ _ (mod_stack_return_keep _ h).1

theorem evict_process_err (s : Sim) (h r t : Nat) (ht : (s.stack_tab h).target_mod = some t)
    (hr : (s.stack_tab h).ret_stack = some r) (he : (s.stack_tab h).err = true) :
    ((ev_mod_nmoesi_evict_process s h).stack_tab r).err = true ∧
    (ev_mod_nmoesi_evict_process s h).mods = s.mods ∧
    (ev_mod_nmoesi_evict_process s h).events =
      insert_event (s.esim_time + 0) EV_MOD_NMOESI_EVICT_REPLY h s.events ∧
    ((ev_mod_nmoesi_evict_process_noncoherent s h).stack_tab r).err = true ∧
    (ev_mod_nmoesi_evict_process_noncoherent s h).mods = s.mods ∧
    (ev_mod_nmoesi_evict_process_noncoherent s h).events =
      insert_event (s.esim_time + 0) EV_MOD_NMOESI_EVICT_REPLY h s.events := by
  unfold ev_mod_nmoesi_evict_process ev_mod_nmoesi_evict_process_noncoherent
  simp [Sim.log, ht, hr, he, Sim.modRet, Sim.modStack, Sim.setStack, esim_schedule_event, upd]

theorem invalidate_send_keep (h : Nat) (s : Sim) (p : Nat × Nat) (hh : h < s.next_stack) :
    (invalidate_send h s p).stack_tab h =
      { s.stack_tab h with pending := (s.stack_tab h).pending + 1 } := by
  have hne : h ≠ s.next_stack := Nat.ne_of_lt hh
  simp [invalidate_send, Sim.modStack, Sim.setStack, mod_stack_create, esim_schedule_event,
    upd, hne]

theorem invalidate_send_fold_tag (h : Nat) (l : List (Nat × Nat)) (s : Sim)
    (hh : h < s.next_stack) :
    ((l.foldl (invalidate_send h) s).stack_tab h).tag = (s.stack_tab h).tag := by
  induction l generalizing s with
  | nil => rfl
  | cons p rest ih =>
    simp only [List.foldl_cons]
    rw [ih (invalidate_send h s p) (by rw [(invalidate_send_step h s p hh).1]; omega),
      invalidate_send_keep h s p hh]

theorem invalidate_keeps_blocks (s : Sim) (h : Nat) (hh : h < s.next_stack) :
    (ev_mod_nmoesi_invalidate s h).mods = s.mods ∧
    ((ev_mod_nmoesi_invalidate s h).stack_tab h).tag =
      (block_view s (s.stack_tab h).mod (s.stack_tab h).set (s.stack_tab h).way).1 := by
  have ht : ((invalidate_start s h).stack_tab h).tag =
      (block_view s (s.stack_tab h).mod (s.stack_tab h).set (s.stack_tab h).way).1 := by
    simp [invalidate_start, block_view, cache_get_block, Sim.modStack, Sim.setStack, Sim.log, upd]
  rw [invalidate_eq]
  simp only [esim_schedule_event]
  split
  · refine ⟨?_, ?_⟩
    · rw [(invalidate_send_fold h _ (invalidate_start s h) hh).2.2.2]
      rfl
    · rw [invalidate_send_fold_tag h _ (invalidate_start s h) hh]
      exact ht
  · exact ⟨rfl, ht⟩

theorem invalidate_finish_blocks (s : Sim) (h : Nat) :
    ((s.stack_tab h).reply ≠ reply_ack_data →
      block_view (ev_mod_nmoesi_invalidate_finish s h) = block_view s) ∧
    ((s.stack_tab h).reply = reply_ack_data →
      block_view (ev_mod_nmoesi_invalidate_finish s h) (s.stack_tab h).mod (s.stack_tab h).set
        (s.stack_tab h).way = ((s.stack_tab h).tag, cache_block_modified) ∧
      ∀ (m : Nat) (set way : Int),
        (m, set, way) ≠ ((s.stack_tab h).mod, (s.stack_tab h).set, (s.stack_tab h).way) →
        block_view (ev_mod_nmoesi_invalidate_finish s h) m set way = block_view s m set way) := by
  have key : ∀ t : Sim, (ev_mod_nmoesi_invalidate_finish s h).mods = t.mods →
      block_view (ev_mod_nmoesi_invalidate_finish s h) = block_view t :=
    fun t e => block_view_mods _ _ e
  have hm : (ev_mod_nmoesi_invalidate_finish s h).mods =
      (if (s.stack_tab h).reply = reply_ack_data then
        cache_set_block s (s.stack_tab h).mod (s.stack_tab h).set (s.stack_tab h).way
          (s.stack_tab h).tag cache_block_modified
       else s).mods := by
    have hret : ∀ (c : Prop) [Decidable c] (t : Sim),
        (if c then t else mod_stack_return t h).mods = t.mods := by
      intro c _ t
      split
      · rfl
      · exact (mod_stack_return_keep t h).1
    unfold ev_mod_nmoesi_invalidate_finish
    simp only
    rw [hret]
    simp only [Sim.modStack, Sim.setStack, check_mods]
    by_cases hr : (s.stack_tab h).reply = reply_ack_data
    · have hr' : ((s.log EV_MOD_NMOESI_INVALIDATE_FINISH h).stack_tab h).reply =
          reply_ack_data := hr
      rw [if_pos hr, if_pos hr']
      rfl
    · have hr' : ¬ ((s.log EV_MOD_NMOESI_INVALIDATE_FINISH h).stack_tab h).reply =
          reply_ack_data := hr
      rw [if_neg hr, if_neg hr']
      rfl
  refine ⟨?_, ?_⟩
  · intro hr
    rw [if_neg hr] at hm
    exact key s hm
  · intro hr
    rw [if_pos hr] at hm
    rw [key _ hm]
    refine ⟨?_, ?_⟩
    · simp [block_view, cache_set_block, Sim.setCache, Sim.setMod, upd, upd2]
    · intro m set way hne
      unfold block_view cache_set_block
      simp only [Sim.setCache, Sim.setMod, upd, upd2]
      by_cases e1 : m = (s.stack_tab h).mod
      · subst e1
        by_cases e2 : set = (s.stack_tab h).set
        · subst e2
          by_cases e3 : way = (s.stack_tab h).way
          · subst e3
            exact absurd rfl hne
          · simp [upd2, e3]
        · simp [upd2, e2]
      · simp [upd, e1]

theorem modRet_err (t : Sim) (h r : Nat) (b : Bool) (f : mod_stack_t → mod_stack_t)
    (hret : (t.stack_tab h).ret_stack = some r) (hf : ∀ x, (f x).err = b) :
    ((t.modRet h f).stack_tab r).err = b := by
  unfold Sim.modRet
  rw [hret]
  simp [Sim.modStack, Sim.setStack, upd, hf]

theorem find_and_lock_finish_ok (s : Sim) (h r : Nat)
    (hr : (s.stack_tab h).ret_stack = some r) (he : (s.stack_tab h).err = false) :
    ((ev_mod_nmoesi_find_and_lock_finish s h).stack_tab r).err = false := by
  have he' : ¬ ((s.log EV_MOD_NMOESI_FIND_AND_LOCK_FINISH h).stack_tab h).err = true := by
    show ¬ (s.stack_tab h).err = true
    rw [he]; decide
  have hr' : ((s.log EV_MOD_NMOESI_FIND_AND_LOCK_FINISH h).stack_tab h).ret_stack = some r := hr
  have p_ite : ∀ (c : Prop) [Decidable c] (a b : Sim),
      (a.stack_tab h).ret_stack = some r → (b.stack_tab h).ret_stack = some r →
      ((if c then a else b).stack_tab h).ret_stack = some r := by
    intro c _ a b ha hb
    split
    · exact ha
    · exact hb
  have p_check : ∀ (t : Sim) (c : Bool) (l : Nat), (t.stack_tab h).ret_stack = some r →
      ((t.check c l).stack_tab h).ret_stack = some r := by
    intro t c l ht
    rw [check_stack_tab]
    exact ht
  have p_csb : ∀ (t : Sim) (m : Nat) (a b tag : Int) (st : cache_block_state_t),
      (t.stack_tab h).ret_stack = some r →
      ((cache_set_block t m a b tag st).stack_tab h).ret_stack = some r := fun _ _ _ _ _ _ ht => ht
  have p_mod : ∀ (t : Sim) (f : mod_stack_t → mod_stack_t),
      (∀ x, (f x).ret_stack = x.ret_stack) → (t.stack_tab h).ret_stack = some r →
      ((t.modStack h f).stack_tab h).ret_stack = some r := by
    intro t f hf ht
    simp [Sim.modStack, Sim.setStack, upd, hf, ht]
  unfold ev_mod_nmoesi_find_and_lock_finish
  simp only
  rw [if_neg he', (mod_stack_return_keep _ h).2.2 r]
  refine modRet_err _ h r false _ ?_ ?_
  · apply p_ite
    · apply p_csb
      refine p_mod _ _ ?_ ?_
      · intro x; rfl
      · apply p_ite
        · apply p_check
          refine p_mod _ _ ?_ hr'
          intro x; rfl
        · exact hr'
    · apply p_ite
      · apply p_check
        refine p_mod _ _ ?_ hr'
        intro x; rfl
      · exact hr'
  · intro x; rfl

theorem cache_entry_unlock_keep (t : Sim) (m : Nat) (set way : Int) :
    block_view (cache_entry_unlock t m set way) = block_view t ∧
    (cache_entry_unlock t m set way).stack_tab = t.stack_tab := by
  unfold cache_entry_unlock
  simp only
  split
  · refine ⟨?_, rfl⟩
    funext x a b
    unfold block_view
    simp only [Sim.setLock, Sim.setCache, Sim.setMod, upd]
    split
    · next e => rw [e]
    · rfl
  · refine ⟨?_, rfl⟩
    funext x a b
    unfold block_view
    simp only [Sim.setLock, Sim.setCache, Sim.setMod, upd, esim_schedule_event]
    split
    · next e => rw [e]
    · rfl

theorem find_and_lock_finish_err (s : Sim) (h r : Nat)
    (hr : (s.stack_tab h).ret_stack = some r) (he : (s.stack_tab h).err = true) :
    ((ev_mod_nmoesi_find_and_lock_finish s h).stack_tab r).err = true ∧
    block_view (ev_mod_nmoesi_find_and_lock_finish s h) = block_view s := by
  have he' : ((s.log EV_MOD_NMOESI_FIND_AND_LOCK_FINISH h).stack_tab h).err = true := he
  have hr' : ((s.log EV_MOD_NMOESI_FIND_AND_LOCK_FINISH h).stack_tab h).ret_stack = some r := hr
  have e_ite : ∀ (c : Prop) [Decidable c] (z : Sim) (m : Nat) (a b : Int),
      (z.stack_tab r).err = true →
      ((if c then cache_entry_unlock z m a b else z).stack_tab r).err = true := by
    intro c _ z m a b hz
    split
    · rw [(cache_entry_unlock_keep z m a b).2]; exact hz
    · exact hz
  have b_ite : ∀ (c : Prop) [Decidable c] (z : Sim) (m : Nat) (a b : Int),
      block_view z = block_view s →
      block_view (if c then cache_entry_unlock z m a b else z) = block_view s := by
    intro c _ z m a b hz
    split
    · rw [(cache_entry_unlock_keep z m a b).1]; exact hz
    · exact hz
  unfold ev_mod_nmoesi_find_and_lock_finish
  simp only
  rw [if_pos he']
  refine ⟨?_, ?_⟩
  · rw [(mod_stack_return_keep _ h).2.2 r]
    apply e_ite
    refine modRet_err _ h r true _ ?_ ?_
    · rw [check_stack_tab, check_stack_tab]
      simp [Sim.modStack, Sim.setStack, upd, Sim.log, hr]
    · intro x; rfl
  · rw [block_view_mods _ _ (mod_stack_return_keep _ h).1]
    apply b_ite
    apply block_view_mods
    rw [modRet_mods, check_mods, check_mods]
    rfl

/-- C29: Evict outcome.  Without error: `EVICT_REPLY_RECEIVE` (and, at main
memory, `EVICT_INVALID`) sets the victim way to tag 0, Invalid; `EVICT_ACTION`
finishes at once only for a way that is already Invalid; `FIND_AND_LOCK_FINISH`
then returns to its caller without error.  When FindAndLock at the lower module
failed: `EVICT_PROCESS` sets the `err` flag of the caller of Evict,
`EVICT_REPLY_RECEIVE` writes no block, and `FIND_AND_LOCK_FINISH` passes the
error on and writes no block.  No other Evict step writes the tag or state of a
block.  Of the preceding Invalidate, `INVALIDATE` takes the tag of the victim
and writes no block, and `INVALIDATE_FINISH` writes the victim way only when the
reply is ack+data, setting it to that tag and Modified. -/
theorem evict_outcome (s : Sim) (h : Nat) :
    ((s.stack_tab h).err = false →
      block_view (ev_mod_nmoesi_evict_reply_receive s h) (s.stack_tab h).mod
        (s.stack_tab h).src_set (s.stack_tab h).src_way = (0, cache_block_invalid)) ∧
    ((s.mods (s.stack_tab h).mod).kind = mod_kind_main_memory →
      block_view (ev_mod_nmoesi_evict_invalid s h) (s.stack_tab h).mod
        (s.stack_tab h).src_set (s.stack_tab h).src_way = (0, cache_block_invalid)) ∧
    ((ev_mod_nmoesi_evict_action s h).events =
        insert_event (s.esim_time + 0) EV_MOD_NMOESI_EVICT_FINISH h s.events →
      (block_view s (s.stack_tab h).mod (s.stack_tab h).set (s.stack_tab h).way).2 =
        cache_block_invalid ∨
      (s.esim_time + 0, EV_MOD_NMOESI_EVICT_FINISH, h) ∈ s.events) ∧
    (∀ r, (s.stack_tab h).ret_stack = some r → (s.stack_tab h).err = false →
      ((ev_mod_nmoesi_find_and_lock_finish s h).stack_tab r).err = false) ∧
    (∀ r t, (s.stack_tab h).target_mod = some t → (s.stack_tab h).ret_stack = some r →
      (s.stack_tab h).err = true →
      ((ev_mod_nmoesi_evict_process s h).stack_tab r).err = true ∧
      (ev_mod_nmoesi_evict_process s h).mods = s.mods ∧
      ((ev_mod_nmoesi_evict_process_noncoherent s h).stack_tab r).err = true ∧
      (ev_mod_nmoesi_evict_process_noncoherent s h).mods = s.mods) ∧
    ((s.stack_tab h).err = true → (ev_mod_nmoesi_evict_reply_receive s h).mods = s.mods) ∧
    (∀ r, (s.stack_tab h).ret_stack = some r → (s.stack_tab h).err = true →
      ((ev_mod_nmoesi_find_and_lock_finish s h).stack_tab r).err = true ∧
      block_view (ev_mod_nmoesi_find_and_lock_finish s h) = block_view s) ∧
    ((ev_mod_nmoesi_evict s h).mods = s.mods ∧
      ((s.mods (s.stack_tab h).mod).kind ≠ mod_kind_main_memory →
        (ev_mod_nmoesi_evict_invalid s h).mods = s.mods) ∧
      (ev_mod_nmoesi_evict_action s h).mods = s.mods ∧
      block_view (ev_mod_nmoesi_evict_receive s h) = block_view s ∧
      (ev_mod_nmoesi_evict_reply s h).mods = s.mods ∧
      block_view (ev_mod_nmoesi_evict_finish s h) = block_view s) ∧
    (h < s.next_stack →
      (ev_mod_nmoesi_invalidate s h).mods = s.mods ∧
      ((ev_mod_nmoesi_invalidate s h).stack_tab h).tag =
        (block_view s (s.stack_tab h).mod (s.stack_tab h).set (s.stack_tab h).way).1) ∧
    ((s.stack_tab h).reply ≠ reply_ack_data →
      block_view (ev_mod_nmoesi_invalidate_finish s h) = block_view s) ∧
    ((s.stack_tab h).reply = reply_ack_data →
      block_view (ev_mod_nmoesi_invalidate_finish s h) (s.stack_tab h).mod (s.stack_tab h).set
        (s.stack_tab h).way = ((s.stack_tab h).tag, cache_block_modified) ∧
      ∀ (m : Nat) (set way : Int),
        (m, set, way) ≠ ((s.stack_tab h).mod, (s.stack_tab h).set, (s.stack_tab h).way) →
        block_view (ev_mod_nmoesi_invalidate_finish s h) m set way = block_view s m set way) := by
  refine ⟨fun he => (evict_reply_receive_ok s h he).1,
    fun hk => (evict_invalid_main_memory s h hk).1, ?_,
    fun r hr he => find_and_lock_finish_ok s h r hr he,
    fun r t ht hr he => ⟨(evict_process_err s h r t ht hr he).1,
      (evict_process_err s h r t ht hr he).2.1, (evict_process_err s h r t ht hr he).2.2.2.1,
      (evict_process_err s h r t ht hr he).2.2.2.2.1⟩,
    fun he => (evict_reply_receive_err s h he).1,
    fun r hr he => find_and_lock_finish_err s h r hr he,
    ⟨evict_mods s h, fun hk => (evict_invalid_cache s h hk).1, evict_action_mods s h,
      evict_receive_blocks s h, evict_reply_mods s h, evict_finish_blocks s h⟩,
    fun hh => invalidate_keeps_blocks s h hh,
    (invalidate_finish_blocks s h).1, (invalidate_finish_blocks s h).2⟩
  intro hev
  by_cases hst : ((s.mods (s.stack_tab h).mod).cache.blocks (s.stack_tab h).set
      (s.stack_tab h).way).state = cache_block_invalid
  · exact Or.inl hst
  · right
    have hmem : (s.esim_time + 0, EV_MOD_NMOESI_EVICT_FINISH, h) ∈
        (ev_mod_nmoesi_evict_action s h).events := by
      rw [hev]
      exact (mem_insert_event _ _ _ _ _).mpr (Or.inl rfl)
    have hsend : ∀ x ∈ (ev_mod_nmoesi_evict_action s h).events,
        x.2.1 = EV_MOD_NMOESI_EVICT_RECEIVE ∨ x.2.1 = EV_MOD_NMOESI_EVICT_ACTION ∨
        x ∈ s.events := by
      intro x hx
      unfold ev_mod_nmoesi_evict_action at hx
      simp only [cache_get_block, Sim.log, check_mods, check_stack_tab, hst, if_false] at hx
      unfold net_try_send_ev at hx
      split at hx
      · simp only [esim_schedule_event] at hx
        rcases (mem_insert_event _ _ _ _ _).mp hx with e | e
        · right; left; rw [e]
        · right; right
          revert e
          split <;> simp [Sim.modStack, Sim.setStack, check_events]
      · simp only [esim_schedule_event] at hx
        rcases (mem_insert_event _ _ _ _ _).mp hx with e | e
        · left; rw [e]
        · right; right
          revert e
          split <;> simp [Sim.modStack, Sim.setStack, check_events]
    rcases hsend _ hmem with e | e | e
    · cases e
    · cases e
    · exact e

theorem evict_outcome_witness :
    ((evict_demo cache_block_modified true).stack_tab 1).err = false ∧
    block_view (ev_mod_nmoesi_evict_reply_receive (evict_demo cache_block_modified true) 1)
      ((evict_demo cache_block_modified true).stack_tab 1).mod
      ((evict_demo cache_block_modified true).stack_tab 1).src_set
      ((evict_demo cache_block_modified true).stack_tab 1).src_way = (0, cache_block_invalid) :=
  ⟨by decide, (evict_outcome (evict_demo cache_block_modified true) 1).1 (by decide)⟩

/-- C29 fails for "exactly what they were".  The L2 of the chain holds 4160
Exclusive, the L1 holds it Modified and the entry of main memory is locked by
another access.  The Evict of the L2 block runs to its end: FindAndLock at main
memory fails and the caller (stack 0) gets `err`, nothing has stopped and no
assertion has failed; but the Invalidate fetched the dirty data from the L1, so
the victim way is now Modified, not Exclusive, and the L1 copy is Invalid. -/
theorem evict_error_changes_victim :
    block_view (evict_demo cache_block_modified true) 1 1 1 = (4160, cache_block_exclusive) ∧
    block_view (evict_demo cache_block_modified true) 0 1 1 = (4160, cache_block_modified) ∧
    (esim_run 28 (evict_demo cache_block_modified true)).events = [] ∧
    (esim_run 28 (evict_demo cache_block_modified true)).fatal = false ∧
    (esim_run 28 (evict_demo cache_block_modified true)).assert_log = [] ∧
    (EV_MOD_NMOESI_EVICT_FINISH, 1) ∈ (esim_run 28 (evict_demo cache_block_modified true)).trace ∧
    ((esim_run 28 (evict_demo cache_block_modified true)).stack_tab 0).err = true ∧
    block_view (esim_run 28 (evict_demo cache_block_modified true)) 1 1 1 =
      (4160, cache_block_modified) ∧
    block_view (esim_run 28 (evict_demo cache_block_modified true)) 0 1 1 =
      (0, cache_block_invalid) := by
  decide!

/-- The write list stays the list of in-flight Stores when an access that is not
in flight is started and when an access is finished. -/
theorem write_list_ok_preserved (s : Sim) (m h : Nat) (kind : mod_access_kind_t)
    (hw : write_list_ok s m) :
    (h ∉ (s.mods m).access_list → write_list_ok (mod_access_start s m h kind) m) ∧
    ((s.mods m).access_list.Nodup → write_list_ok (mod_access_finish s m h) m) := by
  unfold write_list_ok at hw ⊢
  constructor
  · intro hfresh
    have e1 : ((mod_access_start s m h kind).mods m).access_list =
        (s.mods m).access_list ++ [h] := by
      simp [mod_access_start, Sim.setStack, Sim.setMod, upd]
    have e2 : ((mod_access_start s m h kind).mods m).write_access_list =
        (if kind = mod_access_store then (s.mods m).write_access_list ++ [h]
         else (s.mods m).write_access_list) := by
      simp [mod_access_start, Sim.setStack, Sim.setMod, upd]
    have e3 : ∀ x, ((mod_access_start s m h kind).stack_tab x).access_kind =
        if x = h then kind else (s.stack_tab x).access_kind := by
      intro x
      simp only [mod_access_start, Sim.setStack, Sim.setMod, upd]
      split <;> rfl
    rw [e1, e2, List.filter_append]
    have e4 : List.filter (fun x => decide (((mod_access_start s m h kind).stack_tab
        x).access_kind = mod_access_store)) (s.mods m).access_list =
        List.filter (fun x => decide ((s.stack_tab x).access_kind = mod_access_store))
          (s.mods m).access_list := by
      apply List.filter_congr
      intro x hx
      have : x ≠ h := fun e => hfresh (e ▸ hx)
      rw [e3, if_neg this]
    rw [e4, ← hw]
    by_cases hk : kind = mod_access_store
    · rw [if_pos hk, List.filter_cons_of_pos (by rw [e3, if_pos rfl]; simp [hk])]
      rfl
    · rw [if_neg hk, List.filter_cons_of_neg (by rw [e3, if_pos rfl]; simp [hk])]
      simp
  · intro hn
    obtain ⟨f1, f2, -⟩ := mod_access_finish_frame s m h
    have e2 : ((mod_access_finish s m h).mods m).write_access_list =
        (if (s.stack_tab h).access_kind = mod_access_store
         then (s.mods m).write_access_list.erase h else (s.mods m).write_access_list) := by
      simp [mod_access_finish, Sim.setMod, upd]
    rw [f1, f2, e2, ← filter_erase_nodup _ _ _ hn, ← hw]
    by_cases hk : (s.stack_tab h).access_kind = mod_access_store
    · rw [if_pos hk]
    · rw [if_neg hk]
      symm
      apply List.erase_of_not_mem
      rw [hw]
      intro hm
      exact hk (by simpa using (List.mem_filter.mp hm).2)

theorem modRet_keep (t : Sim) (h k : Nat) (f : mod_stack_t → mod_stack_t) {α : Type}
    (g : mod_stack_t → α) (hf : ∀ x, g (f x) = g x) :
    g ((t.modRet h f).stack_tab k) = g (t.stack_tab k) := by
  rw [modRet_stack_tab]
  split
  · exact hf _
  · rfl

theorem modStack_keep (t : Sim) (h k : Nat) (f : mod_stack_t → mod_stack_t) {α : Type}
    (g : mod_stack_t → α) (hf : ∀ x, g (f x) = g x) :
    g ((t.modStack h f).stack_tab k) = g (t.stack_tab k) := by
  rw [modStack_stack_tab]
  split
  · next e => rw [hf, e]
  · rfl

set_option maxHeartbeats 2000000 in
/-- The port step of FindAndLock, for a lookup that does not end in `panic`
and a known operation, is the lookup followed by the lock step. -/
theorem find_and_lock_port_eq (s : Sim) (h : Nat) (r : find_block_t)
    (hfb : mod_find_block (s.mods (s.stack_tab h).mod) (s.stack_tab h).addr (s.stack_tab h).way
      (s.stack_tab h).state = some r)
    (hop : (s.stack_tab h).known_op = true) :
    ev_mod_nmoesi_find_and_lock_port s h =
      find_and_lock_port_lock (find_and_lock_port_lookup s h r) h (s.stack_tab h).mod
        ((s.stack_tab h).port.getD 0) := by
  have e1 : ∀ (f : mod_stack_t → mod_stack_t) (c : Bool) (l : Nat),
      (∀ x, (f x).addr = x.addr ∧ (f x).way = x.way ∧ (f x).state = x.state) →
      mod_find_block
        ((((s.log EV_MOD_NMOESI_FIND_AND_LOCK_PORT h).check c l).modRet h f).mods
          ((s.log EV_MOD_NMOESI_FIND_AND_LOCK_PORT h).stack_tab h).mod)
        ((((s.log EV_MOD_NMOESI_FIND_AND_LOCK_PORT h).check c l).modRet h f).stack_tab h).addr
        ((((s.log EV_MOD_NMOESI_FIND_AND_LOCK_PORT h).check c l).modRet h f).stack_tab h).way
        ((((s.log EV_MOD_NMOESI_FIND_AND_LOCK_PORT h).check c l).modRet h f).stack_tab h).state
        = some r := by
    intro f c l hf
    rw [modRet_keep _ h h f (fun x => x.addr) (fun x => (hf x).1),
      modRet_keep _ h h f (fun x => x.way) (fun x => (hf x).2.1),
      modRet_keep _ h h f (fun x => x.state) (fun x => (hf x).2.2),
      modRet_mods, check_mods, check_stack_tab]
    exact hfb
  unfold ev_mod_nmoesi_find_and_lock_port
  simp only
  rw [e1]
  · have hop' : ∀ (t : Sim), (t.stack_tab h).known_op = (s.stack_tab h).known_op →
        (!(t.stack_tab h).known_op) = false := by
      intro t ht; rw [ht, hop]; rfl
    dsimp only
    rw [hop']
    · rfl
    · refine (modRet_keep _ h h _ (fun x => x.known_op) ?_).trans
        ((modStack_keep _ h h _ (fun x => x.known_op) ?_).trans
          ((modRet_keep _ h h _ (fun x => x.known_op) ?_).trans ?_))
      · intro x; rfl
      · intro x; rfl
      · intro x; rfl
      · rw [check_stack_tab]; rfl
  · intro x; exact ⟨rfl, rfl, rfl⟩

/-- A well-formed port state depends only on the port fields of the module and
of the accesses. -/
theorem PortInv_congr (s t : Sim) (m : Nat)
    (h1 : (t.mods m).ports = (s.mods m).ports)
    (h2 : (t.mods m).num_ports = (s.mods m).num_ports)
    (h3 : (t.mods m).num_locked_ports = (s.mods m).num_locked_ports)
    (h4 : (t.mods m).port_waiting_list = (s.mods m).port_waiting_list)
    (h5 : ∀ k, (t.stack_tab k).port = (s.stack_tab k).port)
    (hinv : PortInv s m) : PortInv t m := by
  constructor
  · rw [h1, h2]; exact hinv.len
  · rw [h1, h3]; exact hinv.cnt
  · intro i k hik; rw [h1] at hik; rw [h5]; exact hinv.bound i k hik
  · intro w hw; rw [h4] at hw; rw [h5]; exact hinv.waiters w hw
  · intro hne; rw [h4] at hne; rw [h3, h2]; exact hinv.full hne
  · rw [h4]; exact hinv.nodup

/-- The lookup part of the port step changes no module, no event and no clock. -/
theorem find_and_lock_port_lookup_frame (s : Sim) (h : Nat) (r : find_block_t) :
    (find_and_lock_port_lookup s h r).mods = s.mods ∧
    (find_and_lock_port_lookup s h r).events = s.events ∧
    (find_and_lock_port_lookup s h r).esim_time = s.esim_time := by
  have P : ∀ (t : Sim) (c : Prop) [Decidable c] (u : Sim),
      (u.mods = t.mods ∧ u.events = t.events ∧ u.esim_time = t.esim_time) →
      (t.mods = s.mods ∧ t.events = s.events ∧ t.esim_time = s.esim_time) →
      ((if c then u else t).mods = s.mods ∧ (if c then u else t).events = s.events ∧
        (if c then u else t).esim_time = s.esim_time) := by
    intro t c _ u hu ht
    split
    · exact ⟨hu.1.trans ht.1, hu.2.1.trans ht.2.1, hu.2.2.trans ht.2.2⟩
    · exact ht
  unfold find_and_lock_port_lookup
  simp only
  refine P _ _ _ ?_ (P _ _ _ ?_ (P _ _ _ ?_ ?_))
  · exact ⟨(check_frame _ _ _).1, (check_frame _ _ _).2.2.1, (check_frame _ _ _).2.2.2⟩
  · exact ⟨rfl, rfl, rfl⟩
  · exact ⟨rfl, rfl, rfl⟩
  · refine ⟨?_, ?_, ?_⟩
    · rw [modRet_mods]
      show (Sim.modRet _ h _).mods = s.mods
      rw [modRet_mods, (check_frame _ _ _).1]; rfl
    · rw [modRet_events]
      show (Sim.modRet _ h _).events = s.events
      rw [modRet_events, (check_frame _ _ _).2.2.1]; rfl
    · rw [modRet_esim_time]
      show (Sim.modRet _ h _).esim_time = s.esim_time
      rw [modRet_esim_time, (check_frame _ _ _).2.2.2]; rfl

/-- The lookup part of the port step keeps every property of a stack that does
not depend on the fields it writes. -/
theorem find_and_lock_port_lookup_keep (s : Sim) (h k : Nat) (r : find_block_t) {α : Type}
    (g : mod_stack_t → α)
    (hg1 : ∀ x b, g { x with port_locked := b } = g x)
    (hg2 : ∀ x a b c d e, g { x with hit := a, set := b, way := c, tag := d, state := e } = g x)
    (hg3 : ∀ x a, g { x with prev_state := a } = g x)
    (hg4 : ∀ x a, g { x with witness_ptr := a } = g x)
    (hg5 : ∀ x a, g { x with way := a } = g x) :
    g ((find_and_lock_port_lookup s h r).stack_tab k) = g (s.stack_tab k) := by
  have k0 : g ((((s.log EV_MOD_NMOESI_FIND_AND_LOCK_PORT h).check
      ((s.log EV_MOD_NMOESI_FIND_AND_LOCK_PORT h).stack_tab h).port.isSome 1168).modRet h
      (fun r => { r with port_locked := true })).stack_tab k) = g (s.stack_tab k) := by
    refine (modRet_keep _ h k _ g ?_).trans ?_
    · intro x; exact hg1 x true
    · rw [check_stack_tab]; rfl
  have k1 : ∀ (t : Sim), g (t.stack_tab k) = g (s.stack_tab k) →
      g (((t.modStack h (fun st => { st with
        hit := r.hit, set := r.set, way := r.way, tag := r.tag, state := r.state })).modRet h
        (fun rt => { rt with
          prev_state := if r.hit then r.state else cache_block_invalid })).stack_tab k) =
        g (s.stack_tab k) := by
    intro t ht
    refine (modRet_keep _ h k _ g ?_).trans ((modStack_keep _ h k _ g ?_).trans ht)
    · intro x; exact hg3 x _
    · intro x; exact hg2 x _ _ _ _ _
  have k2 : ∀ (t : Sim) (c : Prop) [Decidable c], g (t.stack_tab k) = g (s.stack_tab k) →
      g ((if c then { t.modStack h (fun st => { st with witness_ptr := false }) with
          witness := t.witness + 1 } else t).stack_tab k) = g (s.stack_tab k) := by
    intro t c _ ht
    split
    · show g ((t.modStack h (fun st => { st with witness_ptr := false })).stack_tab k) = _
      refine (modStack_keep t h k _ g ?_).trans ht
      intro x; exact hg4 x _
    · exact ht
  have k3 : ∀ (t : Sim) (c : Prop) [Decidable c] (m : Nat), g (t.stack_tab k) = g (s.stack_tab k) →
      g ((if c then t.modStack h (fun st => { st with way := cache_replace_block t m st.set })
          else t).stack_tab k) = g (s.stack_tab k) := by
    intro t c _ m ht
    split
    · refine (modStack_keep t h k _ g ?_).trans ht
      intro x; exact hg5 x _
    · exact ht
  have k4 : ∀ (t : Sim) (c : Prop) [Decidable c] (b : Bool) (l : Nat),
      g (t.stack_tab k) = g (s.stack_tab k) →
      g ((if c then t.check b l else t).stack_tab k) = g (s.stack_tab k) := by
    intro t c _ b l ht
    split
    · rw [check_stack_tab]; exact ht
    · exact ht
  unfold find_and_lock_port_lookup
  simp only
  exact k4 _ _ _ _ (k3 _ _ _ (k2 _ _ (k1 _ k0)))

/-- Every stack keeps all its fields but `waiting_list` when an access returns. -/
theorem mod_stack_return_stack (t : Sim) (h x : Nat) :
    ∃ l, (mod_stack_return t h).stack_tab x = { t.stack_tab x with waiting_list := l } := by
  obtain ⟨i1, -⟩ := wakeup_list_frame (t.stack_tab h).waiting_list t
  have hx : ∃ l, (upd (wakeup_list t (t.stack_tab h).waiting_list).stack_tab h
      { (wakeup_list t (t.stack_tab h).waiting_list).stack_tab h with
        waiting_list := [] }) x = { t.stack_tab x with waiting_list := l } := by
    simp only [upd, i1]
    split
    · next e => rw [e]; exact ⟨[], rfl⟩
    · exact ⟨(t.stack_tab x).waiting_list, rfl⟩
  unfold mod_stack_return
  simp only
  split
  · exact hx
  · exact hx

/-- An access that returns schedules its return event on its return stack in
the same cycle. -/
theorem mod_stack_return_event (t : Sim) (h r : Nat)
    (hr : (t.stack_tab h).ret_stack = some r) :
    (t.esim_time, (t.stack_tab h).ret_event, r) ∈ (mod_stack_return t h).events := by
  obtain ⟨-, i2, -⟩ := wakeup_list_frame (t.stack_tab h).waiting_list t
  unfold mod_stack_return
  simp only
  rw [hr]
  simp only [esim_schedule_event, Sim.setStack, Nat.add_zero, i2]
  exact (mem_insert_event _ _ _ _ _).mpr (Or.inl rfl)

/-- The step `mod_lock_port` writes only port fields: caches, the clock and the
other fields of every stack stay. -/
theorem mod_lock_port_keep (s : Sim) (m h : Nat) (ev : Ev) :
    (∀ k, ((mod_lock_port s m h ev).mods k).cache = (s.mods k).cache) ∧
    (mod_lock_port s m h ev).esim_time = s.esim_time ∧
    (∀ k, ∃ q e, (mod_lock_port s m h ev).stack_tab k =
      { s.stack_tab k with port := q, port_waiting_list_event := e }) := by
  unfold mod_lock_port
  simp only
  split
  · refine ⟨?_, ?_, ?_⟩
    · intro k
      simp only [Sim.setStack, Sim.setMod, upd, check_mods]
      split
      · next e => rw [e]
      · rfl
    · simp [Sim.setStack, Sim.setMod, (check_frame _ _ _).2.2.2]
    · intro k
      simp only [Sim.setStack, Sim.setMod, upd, check_stack_tab]
      split
      · next e => rw [e]; exact ⟨_, _, rfl⟩
      · exact ⟨_, _, rfl⟩
  · refine ⟨?_, ?_, ?_⟩
    · intro k
      simp only [Sim.setStack, Sim.setMod, upd, check_mods, esim_schedule_event]
      split
      · next e => rw [e]
      · rfl
    · simp [Sim.setStack, Sim.setMod, (check_frame _ _ _).2.2.2, esim_schedule_event]
    · intro k
      simp only [Sim.setStack, Sim.setMod, upd, check_stack_tab, esim_schedule_event]
      split
      · next e => rw [e]; exact ⟨_, _, rfl⟩
      · exact ⟨_, _, rfl⟩

/-- The step `mod_unlock_port` writes only port fields: caches, the clock and
the other fields of every stack stay. -/
theorem mod_unlock_port_keep (s : Sim) (m p h : Nat) :
    (∀ k, ((mod_unlock_port s m p h).mods k).cache = (s.mods k).cache) ∧
    (mod_unlock_port s m p h).esim_time = s.esim_time ∧
    (∀ k, ∃ q e, (mod_unlock_port s m p h).stack_tab k =
      { s.stack_tab k with port := q, port_waiting_list_event := e }) := by
  have a1 : ∀ (t : Sim), (∀ k, (t.mods k).cache = (s.mods k).cache) →
      t.esim_time = s.esim_time →
      (∀ k, ∃ q e, t.stack_tab k =
        { s.stack_tab k with port := q, port_waiting_list_event := e }) →
      ∀ (w : Nat) (ev : Ev) (rest : List Nat),
      (∀ k, ((mod_lock_port (t.setMod m { t.mods m with port_waiting_list := rest }) m w ev).mods
        k).cache = (s.mods k).cache) ∧
      (mod_lock_port (t.setMod m { t.mods m with port_waiting_list := rest }) m w ev).esim_time =
        s.esim_time ∧
      (∀ k, ∃ q e,
        (mod_lock_port (t.setMod m { t.mods m with port_waiting_list := rest }) m w ev).stack_tab k =
        { s.stack_tab k with port := q, port_waiting_list_event := e }) := by
    intro t h1 h2 h3 w ev rest
    obtain ⟨l1, l2, l3⟩ := mod_lock_port_keep
      (t.setMod m { t.mods m with port_waiting_list := rest }) m w ev
    refine ⟨?_, ?_, ?_⟩
    · intro k
      rw [l1 k, ← h1 k]
      simp only [Sim.setMod, upd]
      split
      · next e => rw [e]
      · rfl
    · rw [l2]; exact h2
    · intro k
      obtain ⟨q, e, he⟩ := l3 k
      obtain ⟨q', e', he'⟩ := h3 k
      refine ⟨q, e, ?_⟩
      rw [he]
      have : (t.setMod m { t.mods m with port_waiting_list := rest }).stack_tab k =
          t.stack_tab k := rfl
      rw [this, he']
  unfold mod_unlock_port
  simp only
  split
  · refine ⟨?_, ?_, ?_⟩
    · intro k
      simp only [Sim.setStack, Sim.setMod, upd, check_mods]
      split
      · next e => rw [e]
      · rfl
    · simp [Sim.setStack, Sim.setMod, (check_frame _ _ _).2.2.2]
    · intro k
      simp only [Sim.setStack, Sim.setMod, upd, check_stack_tab]
      split
      · next e => rw [e]; exact ⟨_, _, rfl⟩
      · exact ⟨_, _, rfl⟩
  · refine a1 _ ?_ ?_ ?_ _ _ _
    · intro k
      simp only [Sim.setStack, Sim.setMod, upd, check_mods]
      split
      · next e => rw [e]
      · rfl
    · simp [Sim.setStack, Sim.setMod, (check_frame _ _ _).2.2.2]
    · intro k
      simp only [Sim.setStack, Sim.setMod, upd, check_stack_tab]
      split
      · next e => rw [e]; exact ⟨_, _, rfl⟩
      · exact ⟨_, _, rfl⟩

theorem modRet_set (t : Sim) (h r : Nat) (f : mod_stack_t → mod_stack_t) {α : Type}
    (g : mod_stack_t → α) (v : α)
    (hret : (t.stack_tab h).ret_stack = some r) (hf : ∀ x, g (f x) = v) :
    g ((t.modRet h f).stack_tab r) = v := by
  rw [modRet_stack_tab, if_pos hret]
  exact hf _

/-- Releasing a port in a well-formed port state: the access holds no port
afterwards, no port is bound to it, and the port state is well formed again. -/
theorem mod_unlock_port_unbinds (a : Sim) (m p h : Nat) (hinv : PortInv a m)
    (hok : port_op_ok a m (port_op_t.unlock p h)) :
    PortInv (mod_unlock_port a m p h) m ∧
    ((mod_unlock_port a m p h).stack_tab h).port = none ∧
    (∀ q : Nat, ((mod_unlock_port a m p h).mods m).ports[q]? ≠ some (mod_port_t.mk (some h))) := by
  obtain ⟨e1, -, -, e4⟩ := port_apply_effect a m (port_op_t.unlock p h) hinv hok
  simp only [port_apply] at e1 e4
  obtain ⟨-, e5, -⟩ := e4
  have hnw : (a.mods m).port_waiting_list.head? ≠ some h := by
    intro e
    have hmem : h ∈ (a.mods m).port_waiting_list := List.mem_of_mem_head? e
    have := hinv.waiters h hmem
    rw [hok.1] at this
    cases this
  have hp : ((mod_unlock_port a m p h).stack_tab h).port = none := by
    rw [e5 h hnw, if_pos rfl]
  refine ⟨e1, hp, ?_⟩
  intro q hq
  have := e1.bound q h hq
  rw [hp] at this
  cases this

/-- The lock step on a locked entry, non-blocking request: error to the
caller, port released, return, caches untouched. -/
theorem find_and_lock_port_lock_fail (t : Sim) (h r p m : Nat)
    (hm : (t.stack_tab h).mod = m)
    (hret : (t.stack_tab h).ret_stack = some r)
    (hinv : PortInv t m)
    (hport : (t.stack_tab h).port = some p)
    (hbound : (t.mods m).ports[p]? = some ⟨some h⟩)
    (hlocks : (t.stack_tab h).locks = true)
    (hlocked : (cache_lock_get t m (t.stack_tab h).set (t.stack_tab h).way).lock = true)
    (hnb : (t.stack_tab h).blocking = false) :
    ((find_and_lock_port_lock t h m p).stack_tab r).err = true ∧
    ((find_and_lock_port_lock t h m p).stack_tab r).port_locked = false ∧
    ((find_and_lock_port_lock t h m p).stack_tab h).port = none ∧
    (∀ q : Nat, ((find_and_lock_port_lock t h m p).mods m).ports[q]? ≠
      some (mod_port_t.mk (some h))) ∧
    (t.esim_time, (t.stack_tab h).ret_event, r) ∈ (find_and_lock_port_lock t h m p).events ∧
    (∀ k, ((find_and_lock_port_lock t h m p).mods k).cache = (t.mods k).cache) := by
  have hc : ((cache_lock_get t m (t.stack_tab h).set (t.stack_tab h).way).lock &&
      !(t.stack_tab h).blocking) = true := by rw [hlocked, hnb]; rfl
  have ha_inv : PortInv (t.modRet h (fun rt => { rt with err := true })) m :=
    PortInv_congr t _ m (by rw [modRet_mods]) (by rw [modRet_mods]) (by rw [modRet_mods])
      (by rw [modRet_mods])
      (fun k => modRet_keep t h k _ (fun x => x.port) (by intro _; rfl)) hinv
  have hok : port_op_ok (t.modRet h (fun rt => { rt with err := true })) m
      (port_op_t.unlock p h) :=
    ⟨(modRet_keep t h h _ (fun x => x.port) (by intro _; rfl)).trans hport,
      by rw [modRet_mods]; exact hbound,
      (modRet_keep t h h _ (fun x => x.mod) (by intro _; rfl)).trans hm⟩
  obtain ⟨-, u2, u3⟩ := mod_unlock_port_unbinds _ m p h ha_inv hok
  obtain ⟨k1, k2, k3⟩ := mod_unlock_port_keep (t.modRet h (fun rt => { rt with err := true })) m p h
  have hret_a : ((t.modRet h (fun rt => { rt with err := true })).stack_tab h).ret_stack = some r :=
    (modRet_keep t h h _ (fun x => x.ret_stack) (by intro _; rfl)).trans hret
  have hret_b : ((mod_unlock_port (t.modRet h (fun rt => { rt with err := true })) m p h).stack_tab
      h).ret_stack = some r := by
    obtain ⟨q, e, he⟩ := k3 h
    rw [he]; exact hret_a
  have hrete_b : ((mod_unlock_port (t.modRet h (fun rt => { rt with err := true })) m p h).stack_tab
      h).ret_event = (t.stack_tab h).ret_event := by
    obtain ⟨q, e, he⟩ := k3 h
    rw [he]
    exact modRet_keep t h h _ (fun x => x.ret_event) (by intro _; rfl)
  unfold find_and_lock_port_lock
  simp only
  rw [if_pos hlocks, if_pos hc]
  refine ⟨?_, ?_, ?_, ?_, ?_, ?_⟩
  · rw [(mod_stack_return_keep _ h).2.2 r]
    refine (modRet_keep _ h r _ (fun x => x.err) (by intro _; rfl)).trans ?_
    obtain ⟨q, e, he⟩ := k3 r
    rw [he]
    exact modRet_set t h r _ (fun x => x.err) true hret (by intro _; rfl)
  · obtain ⟨l, hl⟩ := mod_stack_return_stack
      ((mod_unlock_port (t.modRet h (fun rt => { rt with err := true })) m p h).modRet h
        (fun rt => { rt with port_locked := false })) h r
    rw [hl]
    exact modRet_set _ h r _ (fun x => x.port_locked) false hret_b (by intro _; rfl)
  · obtain ⟨l, hl⟩ := mod_stack_return_stack
      ((mod_unlock_port (t.modRet h (fun rt => { rt with err := true })) m p h).modRet h
        (fun rt => { rt with port_locked := false })) h h
    rw [hl]
    exact (modRet_keep _ h h _ (fun x => x.port) (by intro _; rfl)).trans u2
  · intro q
    rw [(mod_stack_return_keep _ h).1, modRet_mods]
    exact u3 q
  · have := mod_stack_return_event
      ((mod_unlock_port (t.modRet h (fun rt => { rt with err := true })) m p h).modRet h
        (fun rt => { rt with port_locked := false })) h r
      ((modRet_keep _ h h _ (fun x => x.ret_stack) (by intro _; rfl)).trans hret_b)
    rw [modRet_esim_time, k2, modRet_esim_time,
      modRet_keep _ h h _ (fun x => x.ret_event) (by intro _; rfl), hrete_b] at this
    exact this
  · intro k
    rw [(mod_stack_return_keep _ h).1, modRet_mods, k1 k, modRet_mods]

/-- Requesting a locked entry: the request fails, the access is appended to the
lock queue of the entry, and nothing else changes but its `cache_lock_event`
and the lock log. -/
theorem cache_entry_lock_queued (t : Sim) (m : Nat) (set way : Int) (ev : Ev) (h : Nat)
    (hl : (cache_lock_get t m set way).lock = true) :
    (cache_entry_lock t m set way ev h).1 = false ∧
    cache_lock_get (cache_entry_lock t m set way ev h).2 m set way =
      { cache_lock_get t m set way with
        lock_queue := (cache_lock_get t m set way).lock_queue ++ [h] } ∧
    (∀ k, ((cache_entry_lock t m set way ev h).2.mods k).cache.blocks = (t.mods k).cache.blocks) ∧
    (∀ k, ((cache_entry_lock t m set way ev h).2.mods k).ports = (t.mods k).ports ∧
      ((cache_entry_lock t m set way ev h).2.mods k).num_ports = (t.mods k).num_ports ∧
      ((cache_entry_lock t m set way ev h).2.mods k).num_locked_ports =
        (t.mods k).num_locked_ports ∧
      ((cache_entry_lock t m set way ev h).2.mods k).port_waiting_list =
        (t.mods k).port_waiting_list) ∧
    (∀ k, ∃ e, (cache_entry_lock t m set way ev h).2.stack_tab k =
      { t.stack_tab k with cache_lock_event := e }) := by
  unfold cache_entry_lock
  simp only
  rw [if_pos hl]
  refine ⟨rfl, ?_, ?_, ?_, ?_⟩
  · simp [cache_lock_get, Sim.setLock, Sim.setCache, Sim.setMod, Sim.setStack, upd, upd2]
  · intro k
    simp only [Sim.setLock, Sim.setCache, Sim.setMod, Sim.setStack, upd]
    split
    · next e => rw [e]
    · rfl
  · intro k
    simp only [Sim.setLock, Sim.setCache, Sim.setMod, Sim.setStack, upd]
    split
    · next e => rw [e]; exact ⟨rfl, rfl, rfl, rfl⟩
    · exact ⟨rfl, rfl, rfl, rfl⟩
  · intro k
    simp only [Sim.setLock, Sim.setCache, Sim.setMod, Sim.setStack, upd]
    split
    · next e => rw [e]; exact ⟨_, rfl⟩
    · exact ⟨_, rfl⟩

theorem find_and_lock_port_lock_wait_eq (t : Sim) (h p m : Nat)
    (hlocks : (t.stack_tab h).locks = true)
    (hlocked : (cache_lock_get t m (t.stack_tab h).set (t.stack_tab h).way).lock = true)
    (hb : (t.stack_tab h).blocking = true) :
    find_and_lock_port_lock t h m p =
      (mod_unlock_port (cache_entry_lock t m (t.stack_tab h).set (t.stack_tab h).way
        EV_MOD_NMOESI_FIND_AND_LOCK h).2 m p h).modRet h
        (fun rt => { rt with port_locked := false }) := by
  have hc : ¬ ((cache_lock_get t m (t.stack_tab h).set (t.stack_tab h).way).lock &&
      !(t.stack_tab h).blocking) = true := by rw [hlocked, hb]; decide
  have h1 := (cache_entry_lock_queued t m (t.stack_tab h).set (t.stack_tab h).way
    EV_MOD_NMOESI_FIND_AND_LOCK h hlocked).1
  unfold find_and_lock_port_lock
  simp only
  rw [if_pos hlocks, if_neg hc]
  generalize cache_entry_lock t m (t.stack_tab h).set (t.stack_tab h).way
    EV_MOD_NMOESI_FIND_AND_LOCK h = pr at h1 ⊢
  obtain ⟨ok, s1⟩ := pr
  simp only at h1
  subst h1
  rfl

/-- The lock step on a locked entry, blocking request: the access joins the
lock queue of the entry and releases its port; no block changes. -/
theorem find_and_lock_port_lock_wait (t : Sim) (h r p m : Nat)
    (hm : (t.stack_tab h).mod = m)
    (hret : (t.stack_tab h).ret_stack = some r)
    (hinv : PortInv t m)
    (hport : (t.stack_tab h).port = some p)
    (hbound : (t.mods m).ports[p]? = some ⟨some h⟩)
    (hlocks : (t.stack_tab h).locks = true)
    (hlocked : (cache_lock_get t m (t.stack_tab h).set (t.stack_tab h).way).lock = true)
    (hb : (t.stack_tab h).blocking = true) :
    cache_lock_get (find_and_lock_port_lock t h m p) m (t.stack_tab h).set (t.stack_tab h).way =
      { cache_lock_get t m (t.stack_tab h).set (t.stack_tab h).way with
        lock_queue :=
          (cache_lock_get t m (t.stack_tab h).set (t.stack_tab h).way).lock_queue ++ [h] } ∧
    ((find_and_lock_port_lock t h m p).stack_tab h).port = none ∧
    (∀ q : Nat, ((find_and_lock_port_lock t h m p).mods m).ports[q]? ≠
      some (mod_port_t.mk (some h))) ∧
    ((find_and_lock_port_lock t h m p).stack_tab r).port_locked = false ∧
    ((find_and_lock_port_lock t h m p).stack_tab r).err = (t.stack_tab r).err ∧
    (∀ k, ((find_and_lock_port_lock t h m p).mods k).cache.blocks = (t.mods k).cache.blocks) := by
  obtain ⟨-, c2, c3, c4, c5⟩ := cache_entry_lock_queued t m (t.stack_tab h).set (t.stack_tab h).way
    EV_MOD_NMOESI_FIND_AND_LOCK h hlocked
  have hf : ∀ {α : Type} (g : mod_stack_t → α) (k : Nat),
      (∀ x e, g { x with cache_lock_event := e } = g x) →
      g ((cache_entry_lock t m (t.stack_tab h).set (t.stack_tab h).way
        EV_MOD_NMOESI_FIND_AND_LOCK h).2.stack_tab k) = g (t.stack_tab k) := by
    intro α g k hg
    obtain ⟨e, he⟩ := c5 k
    rw [he]; exact hg _ _
  have ha_inv : PortInv (cache_entry_lock t m (t.stack_tab h).set (t.stack_tab h).way
      EV_MOD_NMOESI_FIND_AND_LOCK h).2 m :=
    PortInv_congr t _ m (c4 m).1 (c4 m).2.1 (c4 m).2.2.1 (c4 m).2.2.2
      (fun k => hf (fun x => x.port) k (by intro _ _; rfl)) hinv
  have hok : port_op_ok (cache_entry_lock t m (t.stack_tab h).set (t.stack_tab h).way
      EV_MOD_NMOESI_FIND_AND_LOCK h).2 m (port_op_t.unlock p h) :=
    ⟨(hf (fun x => x.port) h (by intro _ _; rfl)).trans hport,
      by rw [(c4 m).1]; exact hbound,
      (hf (fun x => x.mod) h (by intro _ _; rfl)).trans hm⟩
  obtain ⟨-, u2, u3⟩ := mod_unlock_port_unbinds _ m p h ha_inv hok
  obtain ⟨k1, k2, k3⟩ := mod_unlock_port_keep (cache_entry_lock t m (t.stack_tab h).set
    (t.stack_tab h).way EV_MOD_NMOESI_FIND_AND_LOCK h).2 m p h
  have hret_b : ((mod_unlock_port (cache_entry_lock t m (t.stack_tab h).set
      (t.stack_tab h).way EV_MOD_NMOESI_FIND_AND_LOCK h).2 m p h).stack_tab h).ret_stack =
      some r := by
    obtain ⟨q, e, he⟩ := k3 h
    rw [he]
    exact (hf (fun x => x.ret_stack) h (by intro _ _; rfl)).trans hret
  rw [find_and_lock_port_lock_wait_eq t h p m hlocks hlocked hb]
  refine ⟨?_, ?_, ?_, ?_, ?_, ?_⟩
  · unfold cache_lock_get
    rw [modRet_mods, k1 m]
    exact c2
  · exact (modRet_keep _ h h _ (fun x => x.port) (by intro _; rfl)).trans u2
  · intro q
    rw [modRet_mods]
    exact u3 q
  · exact modRet_set _ h r _ (fun x => x.port_locked) false hret_b (by intro _; rfl)
  · refine (modRet_keep _ h r _ (fun x => x.err) (by intro _; rfl)).trans ?_
    obtain ⟨q, e, he⟩ := k3 r
    rw [he]
    exact hf (fun x => x.err) r (by intro _ _; rfl)
  · intro k
    rw [modRet_mods, k1 k]
    exact c3 k

/-- C34: the port step of FindAndLock on a locked entry.  The access `h` holds
port `p` of its module in a well-formed port state, the lookup (result `fb`)
chose an entry that FindAndLock locks (a hit, or a request that is neither a
down-up request nor an eviction) and that entry is locked.  Non-blocking
request: the caller's `err` is set, its `port_locked` is cleared, the port is
released (the access holds no port and no port is bound to it), the return
event is scheduled on the caller in the same cycle, and the cache of every
module (tag, transient tag and state of every block, every lock and lock queue)
is unchanged.  Blocking request: the access is appended to the lock queue of
the entry, the port is released in the same way, `port_locked` is cleared, the
caller's `err` is untouched and no block changes. -/
theorem find_and_lock_locked_entry (s : Sim) (h r p : Nat) (fb : find_block_t)
    (hfb : mod_find_block (s.mods (s.stack_tab h).mod) (s.stack_tab h).addr (s.stack_tab h).way
      (s.stack_tab h).state = some fb)
    (hop : (s.stack_tab h).known_op = true)
    (hret : (s.stack_tab h).ret_stack = some r)
    (hinv : PortInv s (s.stack_tab h).mod)
    (hport : (s.stack_tab h).port = some p)
    (hbound : (s.mods (s.stack_tab h).mod).ports[p]? = some ⟨some h⟩)
    (hlocks : ((find_and_lock_port_lookup s h fb).stack_tab h).locks = true)
    (hlocked : (cache_lock_get s (s.stack_tab h).mod
      ((find_and_lock_port_lookup s h fb).stack_tab h).set
      ((find_and_lock_port_lookup s h fb).stack_tab h).way).lock = true) :
    ((s.stack_tab h).blocking = false →
      ((ev_mod_nmoesi_find_and_lock_port s h).stack_tab r).err = true ∧
      ((ev_mod_nmoesi_find_and_lock_port s h).stack_tab r).port_locked = false ∧
      ((ev_mod_nmoesi_find_and_lock_port s h).stack_tab h).port = none ∧
      (∀ q : Nat, ((ev_mod_nmoesi_find_and_lock_port s h).mods (s.stack_tab h).mod).ports[q]? ≠
        some (mod_port_t.mk (some h))) ∧
      (s.esim_time, (s.stack_tab h).ret_event, r) ∈
        (ev_mod_nmoesi_find_and_lock_port s h).events ∧
      (∀ k, ((ev_mod_nmoesi_find_and_lock_port s h).mods k).cache = (s.mods k).cache)) ∧
    ((s.stack_tab h).blocking = true →
      cache_lock_get (ev_mod_nmoesi_find_and_lock_port s h) (s.stack_tab h).mod
          ((find_and_lock_port_lookup s h fb).stack_tab h).set
          ((find_and_lock_port_lookup s h fb).stack_tab h).way =
        { cache_lock_get s (s.stack_tab h).mod
            ((find_and_lock_port_lookup s h fb).stack_tab h).set
            ((find_and_lock_port_lookup s h fb).stack_tab h).way with
          lock_queue := (cache_lock_get s (s.stack_tab h).mod
            ((find_and_lock_port_lookup s h fb).stack_tab h).set
            ((find_and_lock_port_lookup s h fb).stack_tab h).way).lock_queue ++ [h] } ∧
      ((ev_mod_nmoesi_find_and_lock_port s h).stack_tab h).port = none ∧
      (∀ q : Nat, ((ev_mod_nmoesi_find_and_lock_port s h).mods (s.stack_tab h).mod).ports[q]? ≠
        some (mod_port_t.mk (some h))) ∧
      ((ev_mod_nmoesi_find_and_lock_port s h).stack_tab r).port_locked = false ∧
      ((ev_mod_nmoesi_find_and_lock_port s h).stack_tab r).err = (s.stack_tab r).err ∧
      (∀ k, ((ev_mod_nmoesi_find_and_lock_port s h).mods k).cache.blocks =
        (s.mods k).cache.blocks)) := by
  obtain ⟨f1, f2, f3⟩ := find_and_lock_port_lookup_frame s h fb
  have kp : ∀ {α : Type} (g : mod_stack_t → α) (k : Nat),
      (∀ x b, g { x with port_locked := b } = g x) →
      (∀ x a b c d e, g { x with hit := a, set := b, way := c, tag := d, state := e } = g x) →
      (∀ x a, g { x with prev_state := a } = g x) →
      (∀ x a, g { x with witness_ptr := a } = g x) →
      (∀ x a, g { x with way := a } = g x) →
      g ((find_and_lock_port_lookup s h fb).stack_tab k) = g (s.stack_tab k) :=
    fun g k a1 a2 a3 a4 a5 => find_and_lock_port_lookup_keep s h k fb g a1 a2 a3 a4 a5
  have hm : ((find_and_lock_port_lookup s h fb).stack_tab h).mod = (s.stack_tab h).mod :=
    kp (fun x => x.mod) h (by intro _ _; rfl) (by intro _ _ _ _ _ _; rfl)
    (by intro _ _; rfl) (by intro _ _; rfl) (by intro _ _; rfl)
  have hret' := (kp (fun x => x.ret_stack) h (by intro _ _; rfl) (by intro _ _ _ _ _ _; rfl)
    (by intro _ _; rfl) (by intro _ _; rfl) (by intro _ _; rfl)).trans hret
  have hport' := (kp (fun x => x.port) h (by intro _ _; rfl) (by intro _ _ _ _ _ _; rfl)
    (by intro _ _; rfl) (by intro _ _; rfl) (by intro _ _; rfl)).trans hport
  have hblk : ((find_and_lock_port_lookup s h fb).stack_tab h).blocking = (s.stack_tab h).blocking :=
    kp (fun x => x.blocking) h (by intro _ _; rfl) (by intro _ _ _ _ _ _; rfl)
    (by intro _ _; rfl) (by intro _ _; rfl) (by intro _ _; rfl)
  have hre : ((find_and_lock_port_lookup s h fb).stack_tab h).ret_event = (s.stack_tab h).ret_event :=
    kp (fun x => x.ret_event) h (by intro _ _; rfl) (by intro _ _ _ _ _ _; rfl)
    (by intro _ _; rfl) (by intro _ _; rfl) (by intro _ _; rfl)
  have herr : ((find_and_lock_port_lookup s h fb).stack_tab r).err = (s.stack_tab r).err :=
    kp (fun x => x.err) r (by intro _ _; rfl) (by intro _ _ _ _ _ _; rfl)
    (by intro _ _; rfl) (by intro _ _; rfl) (by intro _ _; rfl)
  have hinv' : PortInv (find_and_lock_port_lookup s h fb) (s.stack_tab h).mod :=
    PortInv_congr s _ _ (by rw [f1]) (by rw [f1]) (by rw [f1]) (by rw [f1])
      (fun k => kp (fun x => x.port) k (by intro _ _; rfl) (by intro _ _ _ _ _ _; rfl)
        (by intro _ _; rfl) (by intro _ _; rfl) (by intro _ _; rfl)) hinv
  have hbound' : ((find_and_lock_port_lookup s h fb).mods (s.stack_tab h).mod).ports[p]? =
      some ⟨some h⟩ := by rw [f1]; exact hbound
  have hcl : ∀ a b, cache_lock_get (find_and_lock_port_lookup s h fb) (s.stack_tab h).mod a b =
      cache_lock_get s (s.stack_tab h).mod a b := by
    intro a b; unfold cache_lock_get; rw [f1]
  have hlocked' := (congrArg cache_lock_t.lock (hcl _ _)).trans hlocked
  have hpd : (s.stack_tab h).port.getD 0 = p := by rw [hport]; rfl
  rw [find_and_lock_port_eq s h fb hfb hop, hpd]
  constructor
  · intro hnb
    obtain ⟨a1, a2, a3, a4, a5, a6⟩ := find_and_lock_port_lock_fail
      (find_and_lock_port_lookup s h fb) h r p (s.stack_tab h).mod hm hret' hinv' hport' hbound'
      hlocks hlocked' (hblk.trans hnb)
    rw [f3, hre] at a5
    refine ⟨a1, a2, a3, a4, a5, ?_⟩
    intro k; rw [a6 k, f1]
  · intro hb
    obtain ⟨a1, a2, a3, a4, a5, a6⟩ := find_and_lock_port_lock_wait
      (find_and_lock_port_lookup s h fb) h r p (s.stack_tab h).mod hm hret' hinv' hport' hbound'
      hlocks hlocked' (hblk.trans hb)
    rw [hcl] at a1
    rw [herr] at a5
    refine ⟨a1, a2, a3, a4, a5, ?_⟩
    intro k; rw [a6 k, f1]

theorem lock_demo_inv (b : Bool) : PortInv (lock_demo b) 0 :=
  (PortReach_inv 0 (lock_demo0 b) (lock_demo b)
    (by cases b <;> (unfold ports_clear; decide))
    (PortReach.step PortReach.init (by cases b <;> (unfold port_op_ok; decide)))).1

theorem find_and_lock_locked_entry_witness :
    (((ev_mod_nmoesi_find_and_lock_port (lock_demo false) 1).stack_tab 0).err = true ∧
      ((ev_mod_nmoesi_find_and_lock_port (lock_demo false) 1).stack_tab 0).port_locked = false ∧
      ((ev_mod_nmoesi_find_and_lock_port (lock_demo false) 1).stack_tab 1).port = none ∧
      (∀ k, ((ev_mod_nmoesi_find_and_lock_port (lock_demo false) 1).mods k).cache =
        ((lock_demo false).mods k).cache)) ∧
    (cache_lock_get (ev_mod_nmoesi_find_and_lock_port (lock_demo true) 1) 0 1 1).lock_queue = [1] ∧
    ((ev_mod_nmoesi_find_and_lock_port (lock_demo true) 1).stack_tab 1).port = none ∧
    ((ev_mod_nmoesi_find_and_lock_port (lock_demo true) 1).stack_tab 0).port_locked = false :=
  have a := (find_and_lock_locked_entry (lock_demo false) 1 0 0
    ⟨true, 1, 1, 4160, cache_block_exclusive⟩ (by decide) (by decide) (by decide)
    (lock_demo_inv false) (by decide) (by decide) (by decide) (by decide)).1 (by decide)
  have b := (find_and_lock_locked_entry (lock_demo true) 1 0 0
    ⟨true, 1, 1, 4160, cache_block_exclusive⟩ (by decide) (by decide) (by decide)
    (lock_demo_inv true) (by decide) (by decide) (by decide) (by decide)).2 (by decide)
  ⟨⟨a.1, a.2.1, a.2.2.1, a.2.2.2.2.2⟩, by decide, b.2.1, b.2.2.2.1⟩

/-- Requesting a free entry: the request succeeds, the entry is locked by the
access, and nothing else changes but the lock log. -/
theorem cache_entry_lock_acquired (t : Sim) (m : Nat) (set way : Int) (ev : Ev) (h : Nat)
    (hl : (cache_lock_get t m set way).lock = false) :
    (cache_entry_lock t m set way ev h).1 = true ∧
    cache_lock_get (cache_entry_lock t m set way ev h).2 m set way =
      { cache_lock_get t m set way with lock := true, stack_id := (t.stack_tab h).id } ∧
    (∀ k, ((cache_entry_lock t m set way ev h).2.mods k).cache.blocks = (t.mods k).cache.blocks) ∧
    (∀ k, ((cache_entry_lock t m set way ev h).2.mods k).ports = (t.mods k).ports ∧
      ((cache_entry_lock t m set way ev h).2.mods k).num_ports = (t.mods k).num_ports ∧
      ((cache_entry_lock t m set way ev h).2.mods k).num_locked_ports =
        (t.mods k).num_locked_ports ∧
      ((cache_entry_lock t m set way ev h).2.mods k).port_waiting_list =
        (t.mods k).port_waiting_list) ∧
    (cache_entry_lock t m set way ev h).2.stack_tab = t.stack_tab ∧
    (cache_entry_lock t m set way ev h).2.events = t.events ∧
    (cache_entry_lock t m set way ev h).2.esim_time = t.esim_time ∧
    (cache_entry_lock t m set way ev h).2.next_stack = t.next_stack := by
  have hl' : ¬ (cache_lock_get t m set way).lock = true := by rw [hl]; decide
  unfold cache_entry_lock
  simp only
  rw [if_neg hl']
  refine ⟨rfl, ?_, ?_, ?_, rfl, rfl, rfl, rfl⟩
  · simp [cache_lock_get, Sim.setLock, Sim.setCache, Sim.setMod, upd, upd2]
  · intro k
    simp only [Sim.setLock, Sim.setCache, Sim.setMod, upd]
    split
    · next e => rw [e]
    · rfl
  · intro k
    simp only [Sim.setLock, Sim.setCache, Sim.setMod, upd]
    split
    · next e => rw [e]; exact ⟨rfl, rfl, rfl, rfl⟩
    · exact ⟨rfl, rfl, rfl, rfl⟩

/-- The lock step on a free entry, for a miss of a request that is neither a
down-up request nor an eviction: as an equation. -/
theorem find_and_lock_port_lock_acquire_eq (t : Sim) (h p m : Nat)
    (hplain : (t.stack_tab h).plain = true) (hmiss : (t.stack_tab h).hit = false)
    (hfree : (cache_lock_get t m (t.stack_tab h).set (t.stack_tab h).way).lock = false) :
    find_and_lock_port_lock t h m p =
      esim_schedule_event
        (cache_access_block
          (cache_set_transient_tag
            ((if (t.stack_tab h).request_dir ≠ mod_request_down_up then
                (cache_entry_lock t m (t.stack_tab h).set (t.stack_tab h).way
                  EV_MOD_NMOESI_FIND_AND_LOCK h).2.modRet h (fun rt => { rt with
                  read_request_in_progress := rt.read_request_in_progress || (t.stack_tab h).read
                  write_request_in_progress :=
                    rt.write_request_in_progress || (t.stack_tab h).write })
              else (cache_entry_lock t m (t.stack_tab h).set (t.stack_tab h).way
                  EV_MOD_NMOESI_FIND_AND_LOCK h).2).modStack h
              (fun x => { x with state := ((t.mods m).cache.blocks (t.stack_tab h).set
                (t.stack_tab h).way).state }))
            m (t.stack_tab h).set (t.stack_tab h).way (t.stack_tab h).tag)
          m (t.stack_tab h).set (t.stack_tab h).way)
        EV_MOD_NMOESI_FIND_AND_LOCK_ACTION h 0 := by
  have hlocks : (t.stack_tab h).locks = true := by
    unfold mod_stack_t.plain at hplain
    unfold mod_stack_t.locks
    revert hplain
    cases (t.stack_tab h).hit <;> cases (t.stack_tab h).downup_read_request <;>
      cases (t.stack_tab h).downup_writeback_request <;> cases (t.stack_tab h).evict_trans <;>
      decide
  have hc : ¬ ((cache_lock_get t m (t.stack_tab h).set (t.stack_tab h).way).lock &&
      !(t.stack_tab h).blocking) = true := by rw [hfree]; simp
  have hpm : ((t.stack_tab h).plain && !(t.stack_tab h).hit) = true := by
    rw [hplain, hmiss]; rfl
  obtain ⟨h1, -, h3, -⟩ := cache_entry_lock_acquired t m (t.stack_tab h).set (t.stack_tab h).way
    EV_MOD_NMOESI_FIND_AND_LOCK h hfree
  have hblk : ∀ (c : Prop) [Decidable c] (f : mod_stack_t → mod_stack_t),
      ((if c then (cache_entry_lock t m (t.stack_tab h).set (t.stack_tab h).way
          EV_MOD_NMOESI_FIND_AND_LOCK h).2.modRet h f
        else (cache_entry_lock t m (t.stack_tab h).set (t.stack_tab h).way
          EV_MOD_NMOESI_FIND_AND_LOCK h).2).mods m).cache.blocks = (t.mods m).cache.blocks := by
    intro c _ f
    split
    · rw [modRet_mods]; exact h3 m
    · exact h3 m
  unfold find_and_lock_port_lock
  simp only
  rw [if_pos hlocks, if_neg hc]
  rw [← hblk ((t.stack_tab h).request_dir ≠ mod_request_down_up) (fun rt => { rt with
    read_request_in_progress := rt.read_request_in_progress || (t.stack_tab h).read
    write_request_in_progress := rt.write_request_in_progress || (t.stack_tab h).write })]
  generalize cache_entry_lock t m (t.stack_tab h).set (t.stack_tab h).way
    EV_MOD_NMOESI_FIND_AND_LOCK h = pr at h1 ⊢
  obtain ⟨ok, s1⟩ := pr
  simp only at h1
  subst h1
  simp only [Bool.not_true, Bool.false_eq_true, if_false, hpm, if_true, cache_get_block]

/-- Stamping the transient tag, touching the way and scheduling an event. -/
theorem stamp_touch_schedule (X : Sim) (m : Nat) (set way tag : Int) (ev : Ev) (h : Nat) :
    (esim_schedule_event (cache_access_block (cache_set_transient_tag X m set way tag) m set way)
      ev h 0).stack_tab = X.stack_tab ∧
    (esim_schedule_event (cache_access_block (cache_set_transient_tag X m set way tag) m set way)
      ev h 0).next_stack = X.next_stack ∧
    (esim_schedule_event (cache_access_block (cache_set_transient_tag X m set way tag) m set way)
      ev h 0).esim_time = X.esim_time ∧
    (esim_schedule_event (cache_access_block (cache_set_transient_tag X m set way tag) m set way)
      ev h 0).events = insert_event X.esim_time ev h X.events ∧
    (∀ k, ((esim_schedule_event (cache_access_block (cache_set_transient_tag X m set way tag)
        m set way) ev h 0).mods k).ports = (X.mods k).ports ∧
      ((esim_schedule_event (cache_access_block (cache_set_transient_tag X m set way tag)
        m set way) ev h 0).mods k).num_ports = (X.mods k).num_ports ∧
      ((esim_schedule_event (cache_access_block (cache_set_transient_tag X m set way tag)
        m set way) ev h 0).mods k).num_locked_ports = (X.mods k).num_locked_ports ∧
      ((esim_schedule_event (cache_access_block (cache_set_transient_tag X m set way tag)
        m set way) ev h 0).mods k).port_waiting_list = (X.mods k).port_waiting_list) ∧
    cache_lock_get (esim_schedule_event (cache_access_block
      (cache_set_transient_tag X m set way tag) m set way) ev h 0) m set way =
      cache_lock_get X m set way ∧
    (((esim_schedule_event (cache_access_block (cache_set_transient_tag X m set way tag)
      m set way) ev h 0).mods m).cache.blocks set way).transient_tag = tag ∧
    block_view (esim_schedule_event (cache_access_block (cache_set_transient_tag X m set way tag)
      m set way) ev h 0) = block_view X := by
  refine ⟨rfl, rfl, rfl, rfl, ?_, ?_, ?_, ?_⟩
  · intro k
    simp only [esim_schedule_event, cache_access_block, cache_set_transient_tag, Sim.setCache,
      Sim.setMod, upd]
    by_cases e : k = m
    · subst e; simp
    · simp [e]
  · simp [cache_lock_get, esim_schedule_event, cache_access_block, cache_set_transient_tag,
      Sim.setCache, Sim.setMod, upd]
  · simp [esim_schedule_event, cache_access_block, cache_set_transient_tag,
      Sim.setCache, Sim.setMod, upd, upd2]
  · funext k a b
    unfold block_view
    simp only [esim_schedule_event, cache_access_block, cache_set_transient_tag, Sim.setCache,
      Sim.setMod, upd]
    by_cases e : k = m
    · subst e
      by_cases e2 : a = set ∧ b = way
      · obtain ⟨e3, e4⟩ := e2
        subst e3; subst e4
        simp [upd2]
      · simp [upd2, e2]
    · simp [e]

/-- The lock step on a free entry, for a miss of a request that is neither a
down-up request nor an eviction: the entry lock is taken, the transient tag is
stamped, the next step is scheduled; no stack is created and no port field
changes. -/
theorem find_and_lock_port_lock_acquire (t : Sim) (h p m : Nat)
    (hplain : (t.stack_tab h).plain = true) (hmiss : (t.stack_tab h).hit = false)
    (hfree : (cache_lock_get t m (t.stack_tab h).set (t.stack_tab h).way).lock = false) :
    cache_lock_get (find_and_lock_port_lock t h m p) m (t.stack_tab h).set (t.stack_tab h).way =
      { cache_lock_get t m (t.stack_tab h).set (t.stack_tab h).way with
        lock := true, stack_id := (t.stack_tab h).id } ∧
    (((find_and_lock_port_lock t h m p).mods m).cache.blocks (t.stack_tab h).set
      (t.stack_tab h).way).transient_tag = (t.stack_tab h).tag ∧
    block_view (find_and_lock_port_lock t h m p) = block_view t ∧
    (find_and_lock_port_lock t h m p).events =
      insert_event t.esim_time EV_MOD_NMOESI_FIND_AND_LOCK_ACTION h t.events ∧
    (find_and_lock_port_lock t h m p).next_stack = t.next_stack ∧
    (find_and_lock_port_lock t h m p).esim_time = t.esim_time ∧
    (∀ k, ((find_and_lock_port_lock t h m p).mods k).ports = (t.mods k).ports ∧
      ((find_and_lock_port_lock t h m p).mods k).num_ports = (t.mods k).num_ports ∧
      ((find_and_lock_port_lock t h m p).mods k).num_locked_ports = (t.mods k).num_locked_ports ∧
      ((find_and_lock_port_lock t h m p).mods k).port_waiting_list =
        (t.mods k).port_waiting_list) ∧
    (∀ {α : Type} (g : mod_stack_t → α) (k : Nat),
      (∀ x a b, g { x with read_request_in_progress := a, write_request_in_progress := b } = g x) →
      (∀ x a, g { x with state := a } = g x) →
      g ((find_and_lock_port_lock t h m p).stack_tab k) = g (t.stack_tab k)) ∧
    ((find_and_lock_port_lock t h m p).stack_tab h).state =
      ((t.mods m).cache.blocks (t.stack_tab h).set (t.stack_tab h).way).state := by
  obtain ⟨-, c2, c3, c4, c5, c6, c7, c8⟩ := cache_entry_lock_acquired t m (t.stack_tab h).set
    (t.stack_tab h).way EV_MOD_NMOESI_FIND_AND_LOCK h hfree
  rw [find_and_lock_port_lock_acquire_eq t h p m hplain hmiss hfree]
  generalize hE : (cache_entry_lock t m (t.stack_tab h).set (t.stack_tab h).way
    EV_MOD_NMOESI_FIND_AND_LOCK h).2 = E at c2 c3 c4 c5 c6 c7 c8 ⊢
  generalize hf : (fun rt : mod_stack_t => { rt with
    read_request_in_progress := rt.read_request_in_progress || (t.stack_tab h).read
    write_request_in_progress := rt.write_request_in_progress || (t.stack_tab h).write }) = f
  have hfk : ∀ {α : Type} (g : mod_stack_t → α),
      (∀ x a b, g { x with read_request_in_progress := a, write_request_in_progress := b } = g x) →
      ∀ x, g (f x) = g x := by
    intro α g hg x
    rw [← hf]
    exact hg x _ _
  generalize hX : (if (t.stack_tab h).request_dir ≠ mod_request_down_up then E.modRet h f
    else E) = X
  have x1 : X.mods = E.mods ∧ X.events = E.events ∧ X.esim_time = E.esim_time ∧
      X.next_stack = E.next_stack := by
    rw [← hX]
    split
    · refine ⟨modRet_mods _ _ _, modRet_events _ _ _, modRet_esim_time _ _ _, ?_⟩
      unfold Sim.modRet; split <;> rfl
    · exact ⟨rfl, rfl, rfl, rfl⟩
  have x2 : ∀ {α : Type} (g : mod_stack_t → α) (k : Nat),
      (∀ x a b, g { x with read_request_in_progress := a, write_request_in_progress := b } = g x) →
      g (X.stack_tab k) = g (t.stack_tab k) := by
    intro α g k hg
    rw [← hX, ← c5]
    split
    · exact modRet_keep E h k f g (hfk g hg)
    · rfl
  obtain ⟨s1, s2, s3, s4, s5, s6, s7, s8⟩ := stamp_touch_schedule
    (X.modStack h (fun x => { x with state := ((t.mods m).cache.blocks (t.stack_tab h).set
      (t.stack_tab h).way).state })) m (t.stack_tab h).set (t.stack_tab h).way (t.stack_tab h).tag
    EV_MOD_NMOESI_FIND_AND_LOCK_ACTION h
  have hbv : ∀ (A B : Sim), A.mods = B.mods → block_view A = block_view B := by
    intro A B e; unfold block_view; rw [e]
  refine ⟨?_, s7, ?_, ?_, ?_, ?_, ?_, ?_, ?_⟩
  · rw [s6, ← c2]
    unfold cache_lock_get
    show ((X.mods m).cache.cache_lock _ _) = _
    rw [x1.1]
  · rw [s8]
    funext k a b
    unfold block_view
    show (((X.mods k).cache.blocks a b).tag, ((X.mods k).cache.blocks a b).state) = _
    rw [x1.1, c3 k]
  · rw [s4]
    show insert_event X.esim_time _ h X.events = _
    rw [x1.2.2.1, x1.2.1, c6, c7]
  · rw [s2]
    show X.next_stack = _
    rw [x1.2.2.2, c8]
  · rw [s3]
    show X.esim_time = _
    rw [x1.2.2.1, c7]
  · intro k
    obtain ⟨p1, p2, p3, p4⟩ := s5 k
    obtain ⟨q1, q2, q3, q4⟩ := c4 k
    rw [p1, p2, p3, p4]
    show (X.mods k).ports = _ ∧ (X.mods k).num_ports = _ ∧ (X.mods k).num_locked_ports = _ ∧
      (X.mods k).port_waiting_list = _
    rw [x1.1]
    exact ⟨q1, q2, q3, q4⟩
  · intro α g k hg1 hg2
    rw [s1]
    refine (modStack_keep X h k _ g ?_).trans (x2 g k hg1)
    intro x; exact hg2 x _
  · rw [s1, modStack_stack_tab, if_pos rfl]

theorem mod_lock_port_next_stack (s : Sim) (m h : Nat) (ev : Ev) :
    (mod_lock_port s m h ev).next_stack = s.next_stack := by
  unfold mod_lock_port
  simp only
  split <;> simp [Sim.setStack, Sim.setMod, check_next_stack, esim_schedule_event]

theorem mod_unlock_port_next_stack (s : Sim) (m p h : Nat) :
    (mod_unlock_port s m p h).next_stack = s.next_stack := by
  unfold mod_unlock_port
  simp only
  split
  · simp [Sim.setStack, Sim.setMod, check_next_stack]
  · rw [mod_lock_port_next_stack]
    simp [Sim.setStack, Sim.setMod, check_next_stack]

/-- The action step of FindAndLock on a miss with a valid victim, for a request
that is neither a down-up request nor an eviction: the port is released, then
an Evict of the chosen way is created and scheduled; no cache changes. -/
theorem find_and_lock_action_evicts (u : Sim) (h p : Nat)
    (hinv : PortInv u (u.stack_tab h).mod)
    (hport : (u.stack_tab h).port = some p)
    (hbound : (u.mods (u.stack_tab h).mod).ports[p]? = some ⟨some h⟩)
    (hplain : (u.stack_tab h).plain = true) (hmiss : (u.stack_tab h).hit = false)
    (hvalid : (u.stack_tab h).state.valid = true)
    (hlt : h < u.next_stack) :
    ((ev_mod_nmoesi_find_and_lock_action u h).stack_tab h).port = none ∧
    (∀ q : Nat, ((ev_mod_nmoesi_find_and_lock_action u h).mods (u.stack_tab h).mod).ports[q]? ≠
      some (mod_port_t.mk (some h))) ∧
    (ev_mod_nmoesi_find_and_lock_action u h).next_stack = u.next_stack + 1 ∧
    ((ev_mod_nmoesi_find_and_lock_action u h).stack_tab u.next_stack).evict_trans = true ∧
    ((ev_mod_nmoesi_find_and_lock_action u h).stack_tab u.next_stack).set =
      (u.stack_tab h).set ∧
    ((ev_mod_nmoesi_find_and_lock_action u h).stack_tab u.next_stack).way =
      (u.stack_tab h).way ∧
    ((ev_mod_nmoesi_find_and_lock_action u h).stack_tab u.next_stack).ret_stack = some h ∧
    ((ev_mod_nmoesi_find_and_lock_action u h).stack_tab u.next_stack).ret_event =
      EV_MOD_NMOESI_FIND_AND_LOCK_FINISH ∧
    (u.esim_time, EV_MOD_NMOESI_EVICT, u.next_stack) ∈
      (ev_mod_nmoesi_find_and_lock_action u h).events ∧
    (∀ k, ((ev_mod_nmoesi_find_and_lock_action u h).mods k).cache = (u.mods k).cache) := by
  generalize ha : (u.log EV_MOD_NMOESI_FIND_AND_LOCK_ACTION h).check
    ((u.log EV_MOD_NMOESI_FIND_AND_LOCK_ACTION h).stack_tab h).port.isSome 1472 = a
  have a1 : a.mods = u.mods := by rw [← ha, check_mods]; rfl
  have a2 : a.stack_tab = u.stack_tab := by rw [← ha, check_stack_tab]; rfl
  have a3 : a.esim_time = u.esim_time := by rw [← ha, check_esim_time]; rfl
  have a4 : a.next_stack = u.next_stack := by rw [← ha, check_next_stack]; rfl
  have ha_inv : PortInv a (u.stack_tab h).mod :=
    PortInv_congr u a _ (by rw [a1]) (by rw [a1]) (by rw [a1]) (by rw [a1])
      (fun k => by rw [a2]) hinv
  have hok : port_op_ok a (u.stack_tab h).mod (port_op_t.unlock p h) :=
    ⟨by rw [a2]; exact hport, by rw [a1]; exact hbound, by rw [a2]⟩
  obtain ⟨-, u2, u3⟩ := mod_unlock_port_unbinds a _ p h ha_inv hok
  obtain ⟨k1, k2, k3⟩ := mod_unlock_port_keep a (u.stack_tab h).mod p h
  have k4 := mod_unlock_port_next_stack a (u.stack_tab h).mod p h
  generalize hb : mod_unlock_port a (u.stack_tab h).mod p h = b at u2 u3 k1 k2 k3 k4
  have hbk : ∀ {α : Type} (g : mod_stack_t → α) (k : Nat),
      (∀ x q e, g { x with port := q, port_waiting_list_event := e } = g x) →
      g (b.stack_tab k) = g (u.stack_tab k) := by
    intro α g k hg
    obtain ⟨q, e, he⟩ := k3 k
    rw [he, a2]; exact hg _ _ _
  generalize hc : b.modRet h (fun rt => { rt with port_locked := false }) = c
  have c1 : c.mods = b.mods := by rw [← hc, modRet_mods]
  have c3 : c.esim_time = b.esim_time := by rw [← hc, modRet_esim_time]
  have c4 : c.next_stack = b.next_stack := by
    rw [← hc]; unfold Sim.modRet; split <;> rfl
  have c5 : c.events = b.events := by rw [← hc, modRet_events]
  have hck : ∀ {α : Type} (g : mod_stack_t → α) (k : Nat),
      (∀ x q e, g { x with port := q, port_waiting_list_event := e } = g x) →
      (∀ x e, g { x with port_locked := e } = g x) →
      g (c.stack_tab k) = g (u.stack_tab k) := by
    intro α g k hg1 hg2
    rw [← hc]
    exact (modRet_keep b h k _ g (by intro x; exact hg2 x _)).trans (hbk g k hg1)
  have hcport : (c.stack_tab h).port = none := by
    rw [← hc]
    exact (modRet_keep b h h _ (fun x => x.port) (by intro _; rfl)).trans u2
  have hcond : ((c.stack_tab h).plain && !(c.stack_tab h).hit && (c.stack_tab h).state.valid) =
      true := by
    have e1 : (c.stack_tab h).plain = (u.stack_tab h).plain :=
      hck (fun x => x.plain) h (by intro _ _ _; rfl) (by intro _ _; rfl)
    have e2 : (c.stack_tab h).hit = (u.stack_tab h).hit :=
      hck (fun x => x.hit) h (by intro _ _ _; rfl) (by intro _ _; rfl)
    have e3 : (c.stack_tab h).state = (u.stack_tab h).state :=
      hck (fun x => x.state) h (by intro _ _ _; rfl) (by intro _ _; rfl)
    rw [e1, e2, e3, hplain, hmiss, hvalid]; rfl
  have hset : (c.stack_tab h).set = (u.stack_tab h).set :=
    hck (fun x => x.set) h (by intro _ _ _; rfl) (by intro _ _; rfl)
  have hway : (c.stack_tab h).way = (u.stack_tab h).way :=
    hck (fun x => x.way) h (by intro _ _ _; rfl) (by intro _ _; rfl)
  have hne : ¬ h = c.next_stack := by rw [c4, k4, a4]; omega
  have hE : ev_mod_nmoesi_find_and_lock_action u h =
      (if ((c.stack_tab h).plain && !(c.stack_tab h).hit && (c.stack_tab h).state.valid) = true
      then
        esim_schedule_event
          (((mod_stack_create (c.modStack h (fun x => { x with eviction := true }))
            (c.stack_tab h).id (u.stack_tab h).mod 0 EV_MOD_NMOESI_FIND_AND_LOCK_FINISH
            (some h)).2).modStack c.next_stack (fun x => { x with
              orig_mod_id := (c.mods (u.stack_tab h).mod).mod_id
              issue_mod_id := (c.stack_tab h).issue_mod_id
              set := (c.stack_tab h).set
              way := (c.stack_tab h).way
              evict_trans := true }))
          EV_MOD_NMOESI_EVICT c.next_stack 0
      else esim_schedule_event c EV_MOD_NMOESI_FIND_AND_LOCK_FINISH h 0) := by
    have hpd : (u.stack_tab h).port.getD 0 = p := by rw [hport]; rfl
    rw [← hc, ← hb, ← ha, ← hpd]
    rfl
  rw [hE, if_pos hcond]
  refine ⟨?_, ?_, ?_, ?_, ?_, ?_, ?_, ?_, ?_, ?_⟩
  · simp only [esim_schedule_event, mod_stack_create, Sim.modStack, Sim.setStack, upd, hne,
      if_false, if_true]
    exact hcport
  · intro q
    simp only [esim_schedule_event, mod_stack_create, Sim.modStack, Sim.setStack]
    rw [c1]
    exact u3 q
  · simp only [esim_schedule_event, mod_stack_create, Sim.modStack, Sim.setStack]
    rw [c4, k4, a4]
  · rw [← a4, ← k4, ← c4]
    simp [esim_schedule_event, mod_stack_create, Sim.modStack, Sim.setStack, upd]
  · rw [← a4, ← k4, ← c4]
    simp [esim_schedule_event, mod_stack_create, Sim.modStack, Sim.setStack, upd, hset]
  · rw [← a4, ← k4, ← c4]
    simp [esim_schedule_event, mod_stack_create, Sim.modStack, Sim.setStack, upd, hway]
  · rw [← a4, ← k4, ← c4]
    simp [esim_schedule_event, mod_stack_create, Sim.modStack, Sim.setStack, upd]
  · rw [← a4, ← k4, ← c4]
    simp [esim_schedule_event, mod_stack_create, Sim.modStack, Sim.setStack, upd]
  · rw [← a3, ← k2, ← c3, ← a4, ← k4, ← c4]
    simp only [esim_schedule_event, mod_stack_create, Sim.modStack, Sim.setStack, Nat.add_zero]
    exact (mem_insert_event _ _ _ _ _).mpr (Or.inl rfl)
  · intro k
    simp only [esim_schedule_event, mod_stack_create, Sim.modStack, Sim.setStack]
    rw [c1, k1 k, a1]

theorem find_and_lock_port_lookup_next_stack (s : Sim) (h : Nat) (r : find_block_t) :
    (find_and_lock_port_lookup s h r).next_stack = s.next_stack := by
  have P : ∀ (t : Sim) (c : Prop) [Decidable c] (u : Sim),
      u.next_stack = t.next_stack → t.next_stack = s.next_stack →
      (if c then u else t).next_stack = s.next_stack := by
    intro t c _ u hu ht
    split
    · exact hu.trans ht
    · exact ht
  have hmr : ∀ (t : Sim) (f : mod_stack_t → mod_stack_t),
      (t.modRet h f).next_stack = t.next_stack := by
    intro t f; unfold Sim.modRet; split <;> rfl
  unfold find_and_lock_port_lookup
  simp only
  refine P _ _ _ ?_ (P _ _ _ ?_ (P _ _ _ ?_ ?_))
  · exact check_next_stack _ _ _
  · rfl
  · rfl
  · rw [hmr]
    show (Sim.modRet _ h _).next_stack = s.next_stack
    rw [hmr, check_next_stack]; rfl

/-- The lookup part of the port step leaves in the stack what the lookup found,
for every property that does not depend on the fields written afterwards. -/
theorem find_and_lock_port_lookup_sets (s : Sim) (h : Nat) (r : find_block_t) {α : Type}
    (g : mod_stack_t → α) (v : α)
    (hg2 : ∀ x : mod_stack_t, g { x with
      hit := r.hit, set := r.set, way := r.way, tag := r.tag, state := r.state } = v)
    (hg3 : ∀ x a, g { x with prev_state := a } = g x)
    (hg4 : ∀ x a, g { x with witness_ptr := a } = g x)
    (hg5 : ∀ x a, g { x with way := a } = g x) :
    g ((find_and_lock_port_lookup s h r).stack_tab h) = v := by
  have k1 : ∀ (t : Sim),
      g (((t.modStack h (fun st => { st with
        hit := r.hit, set := r.set, way := r.way, tag := r.tag, state := r.state })).modRet h
        (fun rt => { rt with
          prev_state := if r.hit then r.state else cache_block_invalid })).stack_tab h) = v := by
    intro t
    refine (modRet_keep _ h h _ g ?_).trans ?_
    · intro x; exact hg3 x _
    · rw [modStack_stack_tab, if_pos rfl]
      exact hg2 _
  have k2 : ∀ (t : Sim) (c : Prop) [Decidable c], g (t.stack_tab h) = v →
      g ((if c then { t.modStack h (fun st => { st with witness_ptr := false }) with
          witness := t.witness + 1 } else t).stack_tab h) = v := by
    intro t c _ ht
    split
    · show g ((t.modStack h (fun st => { st with witness_ptr := false })).stack_tab h) = _
      refine (modStack_keep t h h _ g ?_).trans ht
      intro x; exact hg4 x _
    · exact ht
  have k3 : ∀ (t : Sim) (c : Prop) [Decidable c] (m : Nat), g (t.stack_tab h) = v →
      g ((if c then t.modStack h (fun st => { st with way := cache_replace_block t m st.set })
          else t).stack_tab h) = v := by
    intro t c _ m ht
    split
    · refine (modStack_keep t h h _ g ?_).trans ht
      intro x; exact hg5 x _
    · exact ht
  have k4 : ∀ (t : Sim) (c : Prop) [Decidable c] (b : Bool) (l : Nat),
      g (t.stack_tab h) = v →
      g ((if c then t.check b l else t).stack_tab h) = v := by
    intro t c _ b l ht
    split
    · rw [check_stack_tab]; exact ht
    · exact ht
  unfold find_and_lock_port_lookup
  simp only
  exact k4 _ _ _ _ (k3 _ _ _ (k2 _ _ (k1 _)))

/-- C35 (amended): order of the steps of FindAndLock on a miss with a valid
victim, for a request that is neither a down-up request nor an eviction, whose
chosen entry is free.  The port step takes the entry lock of the victim way
and stamps the transient tag while the access still holds its port, and it
creates no stack; the action step, run on the resulting state, first releases
the port and then creates the Evict of that way (returning to
`FIND_AND_LOCK_FINISH`) and schedules it, leaving every cache as the port step
left it. -/
theorem find_and_lock_victim_order (s : Sim) (h p : Nat) (fb : find_block_t)
    (hfb : mod_find_block (s.mods (s.stack_tab h).mod) (s.stack_tab h).addr (s.stack_tab h).way
      (s.stack_tab h).state = some fb)
    (hop : (s.stack_tab h).known_op = true)
    (hinv : PortInv s (s.stack_tab h).mod)
    (hport : (s.stack_tab h).port = some p)
    (hbound : (s.mods (s.stack_tab h).mod).ports[p]? = some ⟨some h⟩)
    (hlt : h < s.next_stack)
    (hplain : (s.stack_tab h).plain = true)
    (hmiss : fb.hit = false)
    (hvalid : ((s.mods (s.stack_tab h).mod).cache.blocks
      ((find_and_lock_port_lookup s h fb).stack_tab h).set
      ((find_and_lock_port_lookup s h fb).stack_tab h).way).state.valid = true)
    (hfree : (cache_lock_get s (s.stack_tab h).mod
      ((find_and_lock_port_lookup s h fb).stack_tab h).set
      ((find_and_lock_port_lookup s h fb).stack_tab h).way).lock = false) :
    ((cache_lock_get (ev_mod_nmoesi_find_and_lock_port s h) (s.stack_tab h).mod
        ((find_and_lock_port_lookup s h fb).stack_tab h).set
        ((find_and_lock_port_lookup s h fb).stack_tab h).way).lock = true ∧
      (cache_lock_get (ev_mod_nmoesi_find_and_lock_port s h) (s.stack_tab h).mod
        ((find_and_lock_port_lookup s h fb).stack_tab h).set
        ((find_and_lock_port_lookup s h fb).stack_tab h).way).stack_id = (s.stack_tab h).id ∧
      (((ev_mod_nmoesi_find_and_lock_port s h).mods (s.stack_tab h).mod).cache.blocks
        ((find_and_lock_port_lookup s h fb).stack_tab h).set
        ((find_and_lock_port_lookup s h fb).stack_tab h).way).transient_tag = fb.tag ∧
      ((ev_mod_nmoesi_find_and_lock_port s h).stack_tab h).port = some p ∧
      (ev_mod_nmoesi_find_and_lock_port s h).next_stack = s.next_stack ∧
      (ev_mod_nmoesi_find_and_lock_port s h).events =
        insert_event s.esim_time EV_MOD_NMOESI_FIND_AND_LOCK_ACTION h s.events) ∧
    (((ev_mod_nmoesi_find_and_lock_action (ev_mod_nmoesi_find_and_lock_port s h) h).stack_tab
        h).port = none ∧
      (∀ q : Nat, ((ev_mod_nmoesi_find_and_lock_action (ev_mod_nmoesi_find_and_lock_port s h)
        h).mods (s.stack_tab h).mod).ports[q]? ≠ some (mod_port_t.mk (some h))) ∧
      (ev_mod_nmoesi_find_and_lock_action (ev_mod_nmoesi_find_and_lock_port s h) h).next_stack =
        s.next_stack + 1 ∧
      ((ev_mod_nmoesi_find_and_lock_action (ev_mod_nmoesi_find_and_lock_port s h) h).stack_tab
        s.next_stack).evict_trans = true ∧
      ((ev_mod_nmoesi_find_and_lock_action (ev_mod_nmoesi_find_and_lock_port s h) h).stack_tab
        s.next_stack).set = ((find_and_lock_port_lookup s h fb).stack_tab h).set ∧
      ((ev_mod_nmoesi_find_and_lock_action (ev_mod_nmoesi_find_and_lock_port s h) h).stack_tab
        s.next_stack).way = ((find_and_lock_port_lookup s h fb).stack_tab h).way ∧
      ((ev_mod_nmoesi_find_and_lock_action (ev_mod_nmoesi_find_and_lock_port s h) h).stack_tab
        s.next_stack).ret_stack = some h ∧
      ((ev_mod_nmoesi_find_and_lock_action (ev_mod_nmoesi_find_and_lock_port s h) h).stack_tab
        s.next_stack).ret_event = EV_MOD_NMOESI_FIND_AND_LOCK_FINISH ∧
      (s.esim_time, EV_MOD_NMOESI_EVICT, s.next_stack) ∈
        (ev_mod_nmoesi_find_and_lock_action (ev_mod_nmoesi_find_and_lock_port s h) h).events ∧
      (∀ k, ((ev_mod_nmoesi_find_and_lock_action (ev_mod_nmoesi_find_and_lock_port s h)
        h).mods k).cache = ((ev_mod_nmoesi_find_and_lock_port s h).mods k).cache)) := by
  obtain ⟨f1, f2, f3⟩ := find_and_lock_port_lookup_frame s h fb
  have f4 := find_and_lock_port_lookup_next_stack s h fb
  have kp : ∀ {α : Type} (g : mod_stack_t → α) (k : Nat),
      (∀ x b, g { x with port_locked := b } = g x) →
      (∀ x a b c d e, g { x with hit := a, set := b, way := c, tag := d, state := e } = g x) →
      (∀ x a, g { x with prev_state := a } = g x) →
      (∀ x a, g { x with witness_ptr := a } = g x) →
      (∀ x a, g { x with way := a } = g x) →
      g ((find_and_lock_port_lookup s h fb).stack_tab k) = g (s.stack_tab k) :=
    fun g k a1 a2 a3 a4 a5 => find_and_lock_port_lookup_keep s h k fb g a1 a2 a3 a4 a5
  have hm : ((find_and_lock_port_lookup s h fb).stack_tab h).mod = (s.stack_tab h).mod :=
    kp (fun x => x.mod) h (by intro _ _; rfl) (by intro _ _ _ _ _ _; rfl)
      (by intro _ _; rfl) (by intro _ _; rfl) (by intro _ _; rfl)
  have hid : ((find_and_lock_port_lookup s h fb).stack_tab h).id = (s.stack_tab h).id :=
    kp (fun x => x.id) h (by intro _ _; rfl) (by intro _ _ _ _ _ _; rfl)
      (by intro _ _; rfl) (by intro _ _; rfl) (by intro _ _; rfl)
  have hpl : ((find_and_lock_port_lookup s h fb).stack_tab h).plain = true :=
    (kp (fun x => x.plain) h (by intro _ _; rfl) (by intro _ _ _ _ _ _; rfl)
      (by intro _ _; rfl) (by intro _ _; rfl) (by intro _ _; rfl)).trans hplain
  have hpt : ∀ k, ((find_and_lock_port_lookup s h fb).stack_tab k).port = (s.stack_tab k).port :=
    fun k => kp (fun x => x.port) k (by intro _ _; rfl) (by intro _ _ _ _ _ _; rfl)
      (by intro _ _; rfl) (by intro _ _; rfl) (by intro _ _; rfl)
  have hhit : ((find_and_lock_port_lookup s h fb).stack_tab h).hit = false :=
    (find_and_lock_port_lookup_sets s h fb (fun x => x.hit) fb.hit (by intro _; rfl)
      (by intro _ _; rfl) (by intro _ _; rfl) (by intro _ _; rfl)).trans hmiss
  have htag : ((find_and_lock_port_lookup s h fb).stack_tab h).tag = fb.tag :=
    find_and_lock_port_lookup_sets s h fb (fun x => x.tag) fb.tag (by intro _; rfl)
      (by intro _ _; rfl) (by intro _ _; rfl) (by intro _ _; rfl)
  have hcl : ∀ a b, cache_lock_get (find_and_lock_port_lookup s h fb) (s.stack_tab h).mod a b =
      cache_lock_get s (s.stack_tab h).mod a b := by
    intro a b; unfold cache_lock_get; rw [f1]
  have hfree' := (congrArg cache_lock_t.lock (hcl _ _)).trans hfree
  have hpd : (s.stack_tab h).port.getD 0 = p := by rw [hport]; rfl
  obtain ⟨a1, a2, -, a4, a5, a6, a7, a8, a9⟩ := find_and_lock_port_lock_acquire
    (find_and_lock_port_lookup s h fb) h p (s.stack_tab h).mod hpl hhit hfree'
  rw [find_and_lock_port_eq s h fb hfb hop, hpd]
  generalize find_and_lock_port_lock (find_and_lock_port_lookup s h fb) h (s.stack_tab h).mod p = u
    at a1 a2 a4 a5 a6 a7 a8 a9 ⊢
  have up : ∀ k, (u.stack_tab k).port = (s.stack_tab k).port := fun k =>
    (a8 (fun x => x.port) k (by intro _ _ _; rfl) (by intro _ _; rfl)).trans (hpt k)
  have um : (u.stack_tab h).mod = (s.stack_tab h).mod :=
    (a8 (fun x => x.mod) h (by intro _ _ _; rfl) (by intro _ _; rfl)).trans hm
  have uinv : PortInv u (u.stack_tab h).mod := by
    rw [um]
    exact PortInv_congr s u _ (by rw [(a7 _).1, f1]) (by rw [(a7 _).2.1, f1])
      (by rw [(a7 _).2.2.1, f1]) (by rw [(a7 _).2.2.2, f1]) up hinv
  have ubound : (u.mods (u.stack_tab h).mod).ports[p]? = some ⟨some h⟩ := by
    rw [um, (a7 _).1, f1]; exact hbound
  have uplain : (u.stack_tab h).plain = true :=
    (a8 (fun x => x.plain) h (by intro _ _ _; rfl) (by intro _ _; rfl)).trans hpl
  have uhit : (u.stack_tab h).hit = false :=
    (a8 (fun x => x.hit) h (by intro _ _ _; rfl) (by intro _ _; rfl)).trans hhit
  have uset : (u.stack_tab h).set = ((find_and_lock_port_lookup s h fb).stack_tab h).set :=
    a8 (fun x => x.set) h (by intro _ _ _; rfl) (by intro _ _; rfl)
  have uway : (u.stack_tab h).way = ((find_and_lock_port_lookup s h fb).stack_tab h).way :=
    a8 (fun x => x.way) h (by intro _ _ _; rfl) (by intro _ _; rfl)
  have uvalid : (u.stack_tab h).state.valid = true := by
    rw [a9, f1]; exact hvalid
  have ult : h < u.next_stack := by rw [a5, f4]; exact hlt
  obtain ⟨b1, b2, b3, b4, b5, b6, b7, b8, b9, b10⟩ := find_and_lock_action_evicts u h p uinv
    ((up h).trans hport) ubound uplain uhit uvalid ult
  rw [um] at b2
  rw [a5, f4] at b3 b4 b5 b6 b7 b8 b9
  rw [a6, f3] at b9
  rw [uset] at b5
  rw [uway] at b6
  refine ⟨⟨?_, ?_, ?_, (up h).trans hport, a5.trans f4, ?_⟩,
    ⟨b1, b2, b3, b4, b5, b6, b7, b8, b9, b10⟩⟩
  · rw [a1]
  · rw [a1]; exact hid
  · rw [a2, htag]
  · rw [a4, f2, f3]

theorem victim_demo_inv : PortInv victim_demo 0 :=
  (PortReach_inv 0 victim_demo0 victim_demo (by unfold ports_clear; decide)
    (PortReach.step PortReach.init (by unfold port_op_ok; decide))).1

/-- C35 (counterexample): a read of 4672 misses in a full set whose victim (set
1, way 1) holds the valid block 4416.  After the port step the entry lock of
the victim way is held, the transient tag is stamped and the port is still
bound; after the action step the port is released and the Evict of the way is
only scheduled: it has not run yet. -/
theorem evict_after_lock_and_release :
    victim_demo.events = [(0, EV_MOD_NMOESI_FIND_AND_LOCK_PORT, 1)] ∧
    block_view victim_demo 0 1 1 = (4416, cache_block_exclusive) ∧
    (cache_lock_get victim_demo 0 1 1).lock = false ∧
    (cache_lock_get (esim_run 1 victim_demo) 0 1 1).lock = true ∧
    (((esim_run 1 victim_demo).mods 0).cache.blocks 1 1).transient_tag = 4672 ∧
    ((esim_run 1 victim_demo).mods 0).num_locked_ports = 1 ∧
    (esim_run 1 victim_demo).trace = [(EV_MOD_NMOESI_FIND_AND_LOCK_PORT, 1)] ∧
    ((esim_run 2 victim_demo).mods 0).num_locked_ports = 0 ∧
    (esim_run 2 victim_demo).trace =
      [(EV_MOD_NMOESI_FIND_AND_LOCK_PORT, 1), (EV_MOD_NMOESI_FIND_AND_LOCK_ACTION, 1)] ∧
    (esim_run 2 victim_demo).events = [(0, EV_MOD_NMOESI_EVICT, 2)] ∧
    ((esim_run 2 victim_demo).stack_tab 2).set = 1 ∧
    ((esim_run 2 victim_demo).stack_tab 2).way = 1 := by
  decide

theorem find_and_lock_victim_order_witness :
    (ev_mod_nmoesi_find_and_lock_port victim_demo 1).next_stack = 2 ∧
    ((ev_mod_nmoesi_find_and_lock_port victim_demo 1).stack_tab 1).port = some 0 ∧
    ((ev_mod_nmoesi_find_and_lock_action (ev_mod_nmoesi_find_and_lock_port victim_demo 1)
      1).stack_tab 1).port = none ∧
    ((ev_mod_nmoesi_find_and_lock_action (ev_mod_nmoesi_find_and_lock_port victim_demo 1)
      1).stack_tab 2).evict_trans = true ∧
    (0, EV_MOD_NMOESI_EVICT, 2) ∈
      (ev_mod_nmoesi_find_and_lock_action (ev_mod_nmoesi_find_and_lock_port victim_demo 1)
        1).events :=
  have a := find_and_lock_victim_order victim_demo 1 0
    ⟨false, 1, -1, 4672, cache_block_invalid⟩ (by decide) (by decide) victim_demo_inv
    (by decide) (by decide) (by decide) (by decide) (by decide) (by decide) (by decide)
  ⟨a.1.2.2.2.2.1, a.1.2.2.2.1, a.2.1, a.2.2.2.2.1, a.2.2.2.2.2.2.2.2.2.1⟩

/-- C37: `EVICT_PROCESS` at the lower module `t`, for an Evict whose stack holds
the line that FindAndLock reported there (`hline`).  A failed FindAndLock
(`err`): the error is set in the Evict's caller and no module changes.  An
ack-only notice: tag and state of every block are unchanged.  A notice with
data: the line gets the state of the claimed table and keeps the reported tag,
no other block changes and the simulation goes on; an Invalid line stops the
simulation with a fatal error. -/
theorem evict_process_rule (s : Sim) (h r t : Nat)
    (ht : (s.stack_tab h).target_mod = some t)
    (hr : (s.stack_tab h).ret_stack = some r)
    (hline : ((s.mods t).cache.blocks (s.stack_tab h).set (s.stack_tab h).way).state =
      (s.stack_tab h).state) :
    ((s.stack_tab h).err = true →
      ((ev_mod_nmoesi_evict_process s h).stack_tab r).err = true ∧
      (ev_mod_nmoesi_evict_process s h).mods = s.mods) ∧
    ((s.stack_tab h).err = false → (s.stack_tab h).reply = reply_ack →
      block_view (ev_mod_nmoesi_evict_process s h) = block_view s ∧
      (ev_mod_nmoesi_evict_process s h).fatal = s.fatal) ∧
    ((s.stack_tab h).err = false → (s.stack_tab h).reply = reply_ack_data →
      match spec_evict_data_state
        ((s.mods t).cache.blocks (s.stack_tab h).set (s.stack_tab h).way).state with
      | some st =>
        block_view (ev_mod_nmoesi_evict_process s h) t (s.stack_tab h).set (s.stack_tab h).way =
          ((s.stack_tab h).tag, st) ∧
        (∀ m a b, ¬ (m = t ∧ a = (s.stack_tab h).set ∧ b = (s.stack_tab h).way) →
          block_view (ev_mod_nmoesi_evict_process s h) m a b = block_view s m a b) ∧
        (ev_mod_nmoesi_evict_process s h).fatal = s.fatal
      | none => (ev_mod_nmoesi_evict_process s h).fatal = true) := by
  have hset : ∀ (z : Sim) (st : cache_block_state_t),
      block_view (esim_schedule_event (cache_entry_unlock
        (cache_set_block z t (s.stack_tab h).set (s.stack_tab h).way (s.stack_tab h).tag st)
        t (s.stack_tab h).set (s.stack_tab h).way) EV_MOD_NMOESI_EVICT_REPLY h
        ((cache_entry_unlock
        (cache_set_block z t (s.stack_tab h).set (s.stack_tab h).way (s.stack_tab h).tag st)
        t (s.stack_tab h).set (s.stack_tab h).way).mods t).latency) t (s.stack_tab h).set
        (s.stack_tab h).way = ((s.stack_tab h).tag, st) ∧
      (∀ m a b, ¬ (m = t ∧ a = (s.stack_tab h).set ∧ b = (s.stack_tab h).way) →
        block_view (esim_schedule_event (cache_entry_unlock
        (cache_set_block z t (s.stack_tab h).set (s.stack_tab h).way (s.stack_tab h).tag st)
        t (s.stack_tab h).set (s.stack_tab h).way) EV_MOD_NMOESI_EVICT_REPLY h
        ((cache_entry_unlock
        (cache_set_block z t (s.stack_tab h).set (s.stack_tab h).way (s.stack_tab h).tag st)
        t (s.stack_tab h).set (s.stack_tab h).way).mods t).latency) m a b = block_view z m a b) ∧
      (esim_schedule_event (cache_entry_unlock
        (cache_set_block z t (s.stack_tab h).set (s.stack_tab h).way (s.stack_tab h).tag st)
        t (s.stack_tab h).set (s.stack_tab h).way) EV_MOD_NMOESI_EVICT_REPLY h
        ((cache_entry_unlock
        (cache_set_block z t (s.stack_tab h).set (s.stack_tab h).way (s.stack_tab h).tag st)
        t (s.stack_tab h).set (s.stack_tab h).way).mods t).latency).fatal = z.fatal := by
    intro z st
    refine ⟨?_, ?_, ?_⟩
    · show block_view (cache_entry_unlock _ t _ _) t _ _ = _
      rw [(cache_entry_unlock_keep _ t _ _).1]
      simp [block_view, cache_set_block, Sim.setCache, Sim.setMod, upd, upd2]
    · intro m a b hne
      show block_view (cache_entry_unlock _ t _ _) m a b = _
      rw [(cache_entry_unlock_keep _ t _ _).1]
      unfold block_view
      simp only [cache_set_block, Sim.setCache, Sim.setMod, upd]
      by_cases e : m = t
      · subst e
        have : ¬ (a = (s.stack_tab h).set ∧ b = (s.stack_tab h).way) := fun e2 => hne ⟨rfl, e2⟩
        simp [upd2, this]
      · simp [e]
    · simp
  refine ⟨?_, ?_, ?_⟩
  · intro he
    exact ⟨(evict_process_err s h r t ht hr he).1, (evict_process_err s h r t ht hr he).2.1⟩
  · intro he hrep
    unfold ev_mod_nmoesi_evict_process
    simp only [log_stack_tab, ht, he, hrep, Bool.false_eq_true, if_false, if_true]
    refine ⟨?_, by simp⟩
    show block_view (cache_entry_unlock _ t _ _) = _
    rw [(cache_entry_unlock_keep _ t _ _).1]
    rfl
  · intro he hrep
    have hna : ¬ reply_ack_data = reply_ack := by decide
    unfold ev_mod_nmoesi_evict_process
    simp only [log_stack_tab, ht, he, hrep, Bool.false_eq_true, if_false, if_true, hna]
    rw [hline]
    cases hst : (s.stack_tab h).state <;>
      simp only [spec_evict_data_state, reduceCtorEq, or_false, false_or, or_true, true_or,
        if_true, if_false, or_self]
    all_goals first
      | rfl
      | exact hset (s.log EV_MOD_NMOESI_EVICT_PROCESS h) _

theorem evict_process_rule_witness :
    block_view (ev_mod_nmoesi_evict_process
      (evict_process_demo cache_block_exclusive reply_ack_data false) 1) 1 1 1 =
      (4160, cache_block_modified) ∧
    block_view (ev_mod_nmoesi_evict_process
      (evict_process_demo cache_block_shared reply_ack false) 1) =
      block_view (evict_process_demo cache_block_shared reply_ack false) ∧
    ((ev_mod_nmoesi_evict_process
      (evict_process_demo cache_block_shared reply_ack_data true) 1).stack_tab 0).err = true ∧
    (ev_mod_nmoesi_evict_process
      (evict_process_demo cache_block_invalid reply_ack_data false) 1).fatal = true :=
  ⟨((evict_process_rule (evict_process_demo cache_block_exclusive reply_ack_data false) 1 0 1
      rfl rfl rfl).2.2 rfl rfl).1,
    ((evict_process_rule (evict_process_demo cache_block_shared reply_ack false) 1 0 1
      rfl rfl rfl).2.1 rfl rfl).1,
    ((evict_process_rule (evict_process_demo cache_block_shared reply_ack_data true) 1 0 1
      rfl rfl rfl).1 rfl).1,
    (evict_process_rule (evict_process_demo cache_block_invalid reply_ack_data false) 1 0 1
      rfl rfl rfl).2.2 rfl rfl⟩


set_option maxRecDepth 100000 in
/-- C39: `READ_REQUEST_UPDOWN_FINISH` rewrites a dirty line of the target to
Shared.  Single step: a line found Owned, with no dirty copy reported by the
probes, becomes Shared; so does a line found Modified when a probe reported a
clean sharer; the step completes (the reply is scheduled, no fatal error, no
failed assertion).  Whole run: after the first four accesses (`dirty_run4`)
the shared L2 holds 4160 Owned, core 0 no longer holds it and core 1 holds it
Shared; the Load of core 0 then hits in the L2 (read request 34, line found
Owned) and leaves its line Shared; every access retires without a fatal error,
the only assertion that fails on the way being the one at line 2550 in the
probe of core 1. -/
theorem updown_finish_loses_dirty :
    (block_view (updown_finish_demo cache_block_owned false false) 2 1 1 =
        (4160, cache_block_owned) ∧
      block_view (ev_mod_nmoesi_read_request_updown_finish
        (updown_finish_demo cache_block_owned false false) 1) 2 1 1 =
        (4160, cache_block_shared) ∧
      block_view (updown_finish_demo cache_block_modified true false) 2 1 1 =
        (4160, cache_block_modified) ∧
      block_view (ev_mod_nmoesi_read_request_updown_finish
        (updown_finish_demo cache_block_modified true false) 1) 2 1 1 =
        (4160, cache_block_shared) ∧
      (ev_mod_nmoesi_read_request_updown_finish
        (updown_finish_demo cache_block_owned false false) 1).events =
        [(2, EV_MOD_NMOESI_READ_REQUEST_REPLY, 1)] ∧
      (ev_mod_nmoesi_read_request_updown_finish
        (updown_finish_demo cache_block_owned false false) 1).fatal = false ∧
      (ev_mod_nmoesi_read_request_updown_finish
        (updown_finish_demo cache_block_owned false false) 1).assert_log = []) ∧
    (dirty_run4.events = [] ∧ dirty_run4.fatal = false ∧ dirty_run4.assert_log = [] ∧
      line_state dirty_run4 0 4160 = cache_block_invalid ∧
      line_state dirty_run4 1 4160 = cache_block_shared ∧
      line_state dirty_run4 2 4160 = cache_block_owned ∧
      dirty_run5.events = [] ∧ dirty_run5.fatal = false ∧
      dirty_run5.assert_log = [2550] ∧
      (EV_MOD_NMOESI_READ_REQUEST_UPDOWN_FINISH, 34) ∈ dirty_run5.trace ∧
      (dirty_run5.stack_tab 34).target_mod = some 2 ∧
      (dirty_run5.stack_tab 34).state = cache_block_owned ∧
      line_state dirty_run5 2 4160 = cache_block_shared ∧
      line_state dirty_run5 0 4160 = cache_block_shared ∧
      line_state dirty_run5 1 4160 = cache_block_shared) := by
  decide!

set_option maxRecDepth 100000 in
/-- C38: `READ_REQUEST_DOWNUP` runs on a line that FindAndLock reported
Invalid.  After three loads of core 0 (4160, 4416, 4672) every access has
retired, no assertion has failed, the shared L2 holds 4160 Exclusive and
neither core holds it.  Core 0 then loads 4160: the read request hits in the
L2, which probes core 1; 36 turns of the scheduler later the next event is
`READ_REQUEST_DOWNUP` on the probe (stack 28, target module 1) with state
Invalid, and the run ends with the assertion of line 2549 failed. -/
theorem downup_read_probe_of_missing_line :
    probe_run3.events = [] ∧ probe_run3.fatal = false ∧ probe_run3.assert_log = [] ∧
    line_state probe_run3 0 4160 = cache_block_invalid ∧
    line_state probe_run3 1 4160 = cache_block_invalid ∧
    line_state probe_run3 2 4160 = cache_block_exclusive ∧
    (esim_run 36 (mod_access probe_run3 0 mod_access_load 4160 false)).events.head? =
      some (43, EV_MOD_NMOESI_READ_REQUEST_DOWNUP, 28) ∧
    ((esim_run 36 (mod_access probe_run3 0 mod_access_load 4160 false)).stack_tab 28).target_mod =
      some 1 ∧
    ((esim_run 36 (mod_access probe_run3 0 mod_access_load 4160 false)).stack_tab 28).state =
      cache_block_invalid ∧
    (esim_run 36 (mod_access probe_run3 0 mod_access_load 4160 false)).assert_log = [] ∧
    (EV_MOD_NMOESI_READ_REQUEST_DOWNUP, 28) ∈ probe_run4.trace ∧
    probe_run4.assert_log = [2549] ∧ probe_run4.events = [] := by
  decide!

theorem block_view_blocks (s t : Sim)
    (hb : ∀ k, (t.mods k).cache.blocks = (s.mods k).cache.blocks) :
    block_view t = block_view s := by
  funext k a b
  unfold block_view
  rw [hb k]

theorem block_view_cache (s t : Sim) (hb : ∀ k, (t.mods k).cache = (s.mods k).cache) :
    block_view t = block_view s :=
  block_view_blocks s t (fun k => by rw [hb k])

/-- The steps MESSAGE, MESSAGE_RECEIVE, MESSAGE_REPLY and MESSAGE_FINISH change
no module. -/
theorem message_steps_mods (s : Sim) (h : Nat) :
    (ev_mod_nmoesi_message s h).mods = s.mods ∧
    (ev_mod_nmoesi_message_receive s h).mods = s.mods ∧
    (ev_mod_nmoesi_message_reply s h).mods = s.mods ∧
    (ev_mod_nmoesi_message_finish s h).mods = s.mods := by
  refine ⟨?_, ?_, ?_, ?_⟩
  · unfold ev_mod_nmoesi_message
    simp only
    rw [net_try_send_ev_mods, check_mods, modRet_mods]
    rfl
  · unfold ev_mod_nmoesi_message_receive
    simp only
    split
    · rfl
    · rfl
  · unfold ev_mod_nmoesi_message_reply
    simp only
    split
    · rfl
    · rw [net_try_send_ev_mods, check_mods]; rfl
  · unfold ev_mod_nmoesi_message_finish
    simp only
    rw [(mod_stack_return_keep _ h).1]
    rfl

/-- The step MESSAGE_ACTION changes no block; without a lock error it releases
the entry lock of the line at the target. -/
theorem message_action_blocks (s : Sim) (h : Nat) :
    block_view (ev_mod_nmoesi_message_action s h) = block_view s ∧
    (∀ t, (s.stack_tab h).target_mod = some t → (s.stack_tab h).err = false →
      (s.stack_tab h).message = message_clear_owner →
      (cache_lock_get (ev_mod_nmoesi_message_action s h) t (s.stack_tab h).set
        (s.stack_tab h).way).lock = false) ∧
    ((s.stack_tab h).err = true → (ev_mod_nmoesi_message_action s h).mods = s.mods) := by
  refine ⟨?_, ?_, ?_⟩
  · unfold ev_mod_nmoesi_message_action
    simp only
    split
    · rfl
    · split
      · apply block_view_mods
        rw [schedule_mods]
        split
        · rw [set_reply_mods, modRet_mods, check_mods]; rfl
        · rw [stop_mods, modRet_mods, check_mods]; rfl
      · split
        · show block_view (cache_entry_unlock _ _ _ _) = _
          rw [(cache_entry_unlock_keep _ _ _ _).1]
          apply block_view_mods
          rw [check_mods]; rfl
        · apply block_view_mods
          rw [stop_mods, check_mods]; rfl
  · intro t ht he hm
    have he' : ¬ ((s.log EV_MOD_NMOESI_MESSAGE_ACTION h).stack_tab h).err = true := by
      show ¬ (s.stack_tab h).err = true
      rw [he]; decide
    unfold ev_mod_nmoesi_message_action
    simp only [log_stack_tab, ht, hm, if_true]
    rw [if_neg (by rw [he]; decide)]
    unfold cache_entry_unlock cache_lock_get
    simp only
    split <;>
      simp [Sim.setLock, Sim.setCache, Sim.setMod, esim_schedule_event, upd, upd2]
  · intro he
    unfold ev_mod_nmoesi_message_action
    simp only [log_stack_tab]
    split
    · rfl
    · rw [if_pos he, schedule_mods]
      split
      · rw [set_reply_mods, modRet_mods, check_mods]; rfl
      · rw [stop_mods, modRet_mods, check_mods]; rfl

/-- The first step of FindAndLock changes no cache. -/
theorem find_and_lock_cache (s : Sim) (h : Nat) :
    ∀ k, ((ev_mod_nmoesi_find_and_lock s h).mods k).cache = (s.mods k).cache := by
  intro k
  unfold ev_mod_nmoesi_find_and_lock
  simp only
  rw [(mod_lock_port_keep _ _ h _).1 k]
  show ((Sim.modRet _ h _).mods k).cache = _
  rw [modRet_mods]
  rfl

theorem cache_entry_lock_blocks (t : Sim) (m : Nat) (set way : Int) (ev : Ev) (h : Nat) :
    ∀ k, ((cache_entry_lock t m set way ev h).2.mods k).cache.blocks = (t.mods k).cache.blocks := by
  intro k
  by_cases hl : (cache_lock_get t m set way).lock = true
  · exact (cache_entry_lock_queued t m set way ev h hl).2.2.1 k
  · have hl' : (cache_lock_get t m set way).lock = false := by
      cases hx : (cache_lock_get t m set way).lock
      · rfl
      · exact absurd hx hl
    exact (cache_entry_lock_acquired t m set way ev h hl').2.2.1 k

/-- The lock step of FindAndLock changes the tag and the state of no block. -/
theorem find_and_lock_port_lock_blocks (t : Sim) (h m p : Nat) :
    block_view (find_and_lock_port_lock t h m p) = block_view t := by
  have hmr : ∀ (z : Sim) (f : mod_stack_t → mod_stack_t),
      block_view (z.modRet h f) = block_view z := fun z f =>
    block_view_mods _ _ (modRet_mods _ _ _)
  have hup : ∀ (z : Sim), block_view (mod_unlock_port z m p h) = block_view z := fun z =>
    block_view_cache _ _ (mod_unlock_port_keep z m p h).1
  have hif : ∀ (c : Prop) [Decidable c] (a b : Sim) (v : Nat → Int → Int → Int × cache_block_state_t),
      block_view a = v → block_view b = v → block_view (if c then a else b) = v := by
    intro c _ a b v ha hb
    split
    · exact ha
    · exact hb
  unfold find_and_lock_port_lock
  simp only
  split
  · split
    · rw [block_view_mods _ _ (mod_stack_return_keep _ h).1, hmr, hup, hmr]
    · have hb := cache_entry_lock_blocks t m (t.stack_tab h).set (t.stack_tab h).way
        EV_MOD_NMOESI_FIND_AND_LOCK h
      generalize cache_entry_lock t m (t.stack_tab h).set (t.stack_tab h).way
        EV_MOD_NMOESI_FIND_AND_LOCK h = pr at hb ⊢
      obtain ⟨ok, s1⟩ := pr
      have hs1 : block_view s1 = block_view t := block_view_blocks _ _ hb
      simp only
      cases ok
      · simp only [Bool.not_false, if_true]
        rw [hmr, hup, hs1]
      · simp only [Bool.not_true, Bool.false_eq_true, if_false]
        rw [(stamp_touch_schedule _ m _ _ _ _ h).2.2.2.2.2.2.2]
        apply hif
        · show block_view (Sim.modStack _ h _) = _
          refine (block_view_mods _ _ rfl).trans ?_
          apply hif
          · rw [hmr, hs1]
          · exact hs1
        · apply hif
          · rw [hmr, hs1]
          · exact hs1
  · apply block_view_mods
    rw [schedule_mods]
    split <;> rfl

/-- The port step of FindAndLock changes the tag and the state of no block. -/
theorem find_and_lock_port_blocks (s : Sim) (h : Nat) (fb : find_block_t)
    (hfb : mod_find_block (s.mods (s.stack_tab h).mod) (s.stack_tab h).addr (s.stack_tab h).way
      (s.stack_tab h).state = some fb)
    (hop : (s.stack_tab h).known_op = true) :
    block_view (ev_mod_nmoesi_find_and_lock_port s h) = block_view s := by
  rw [find_and_lock_port_eq s h fb hfb hop, find_and_lock_port_lock_blocks]
  exact block_view_mods _ _ (find_and_lock_port_lookup_frame s h fb).1

/-- The lock step of FindAndLock on a free entry that is to be locked: the
entry is locked by the access. -/
theorem find_and_lock_port_lock_takes (t : Sim) (h m p : Nat)
    (hlocks : (t.stack_tab h).locks = true)
    (hfree : (cache_lock_get t m (t.stack_tab h).set (t.stack_tab h).way).lock = false) :
    cache_lock_get (find_and_lock_port_lock t h m p) m (t.stack_tab h).set (t.stack_tab h).way =
      { cache_lock_get t m (t.stack_tab h).set (t.stack_tab h).way with
        lock := true, stack_id := (t.stack_tab h).id } := by
  have hc : ¬ ((cache_lock_get t m (t.stack_tab h).set (t.stack_tab h).way).lock &&
      !(t.stack_tab h).blocking) = true := by rw [hfree]; simp
  obtain ⟨h1, h2, -⟩ := cache_entry_lock_acquired t m (t.stack_tab h).set (t.stack_tab h).way
    EV_MOD_NMOESI_FIND_AND_LOCK h hfree
  have hif : ∀ (c : Prop) [Decidable c] (a b : Sim) (v : cache_t),
      (a.mods m).cache = v → (b.mods m).cache = v → ((if c then a else b).mods m).cache = v := by
    intro c _ a b v ha hb
    split
    · exact ha
    · exact hb
  unfold find_and_lock_port_lock
  simp only
  rw [if_pos hlocks, if_neg hc]
  generalize cache_entry_lock t m (t.stack_tab h).set (t.stack_tab h).way
    EV_MOD_NMOESI_FIND_AND_LOCK h = pr at h1 h2 ⊢
  obtain ⟨ok, s1⟩ := pr
  simp only at h1 h2
  subst h1
  simp only [Bool.not_true, Bool.false_eq_true, if_false]
  rw [(stamp_touch_schedule _ m _ _ _ _ h).2.2.2.2.2.1, ← h2]
  unfold cache_lock_get
  refine congrArg (fun c : cache_t => c.cache_lock (t.stack_tab h).set (t.stack_tab h).way) ?_
  apply hif
  · show ((Sim.modStack _ h _).mods m).cache = _
    show ((ite _ _ _ : Sim).mods m).cache = _
    apply hif
    · rw [modRet_mods]
    · rfl
  · apply hif
    · rw [modRet_mods]
    · rfl

/-- The action step of FindAndLock changes no cache; when the lookup hit or the
chosen way holds no valid block it creates no stack (no Evict is started). -/
theorem find_and_lock_action_blocks (s : Sim) (h : Nat) :
    (∀ k, ((ev_mod_nmoesi_find_and_lock_action s h).mods k).cache = (s.mods k).cache) ∧
    ((s.stack_tab h).hit = true ∨ (s.stack_tab h).state = cache_block_invalid →
      (ev_mod_nmoesi_find_and_lock_action s h).next_stack = s.next_stack) := by
  generalize ha : (s.log EV_MOD_NMOESI_FIND_AND_LOCK_ACTION h).check
    ((s.log EV_MOD_NMOESI_FIND_AND_LOCK_ACTION h).stack_tab h).port.isSome 1472 = a
  have a1 : a.mods = s.mods := by rw [← ha, check_mods]; rfl
  have a2 : a.stack_tab = s.stack_tab := by rw [← ha, check_stack_tab]; rfl
  have a4 : a.next_stack = s.next_stack := by rw [← ha, check_next_stack]; rfl
  obtain ⟨k1, -, k3⟩ := mod_unlock_port_keep a (s.stack_tab h).mod ((s.stack_tab h).port.getD 0) h
  have k4 := mod_unlock_port_next_stack a (s.stack_tab h).mod ((s.stack_tab h).port.getD 0) h
  generalize hb : mod_unlock_port a (s.stack_tab h).mod ((s.stack_tab h).port.getD 0) h = b
    at k1 k3 k4
  generalize hc : b.modRet h (fun rt => { rt with port_locked := false }) = c
  have c1 : c.mods = b.mods := by rw [← hc, modRet_mods]
  have c4 : c.next_stack = b.next_stack := by
    rw [← hc]; unfold Sim.modRet; split <;> rfl
  have hck : ∀ {α : Type} (g : mod_stack_t → α) (k : Nat),
      (∀ x q e, g { x with port := q, port_waiting_list_event := e } = g x) →
      (∀ x e, g { x with port_locked := e } = g x) →
      g (c.stack_tab k) = g (s.stack_tab k) := by
    intro α g k hg1 hg2
    rw [← hc]
    refine (modRet_keep b h k _ g (by intro x; exact hg2 x _)).trans ?_
    obtain ⟨q, e, he⟩ := k3 k
    rw [he, a2]; exact hg1 _ _ _
  have hE : ev_mod_nmoesi_find_and_lock_action s h =
      (if ((c.stack_tab h).plain && !(c.stack_tab h).hit && (c.stack_tab h).state.valid) = true
      then
        esim_schedule_event
          (((mod_stack_create (c.modStack h (fun x => { x with eviction := true }))
            (c.stack_tab h).id (s.stack_tab h).mod 0 EV_MOD_NMOESI_FIND_AND_LOCK_FINISH
            (some h)).2).modStack c.next_stack (fun x => { x with
              orig_mod_id := (c.mods (s.stack_tab h).mod).mod_id
              issue_mod_id := (c.stack_tab h).issue_mod_id
              set := (c.stack_tab h).set
              way := (c.stack_tab h).way
              evict_trans := true }))
          EV_MOD_NMOESI_EVICT c.next_stack 0
      else esim_schedule_event c EV_MOD_NMOESI_FIND_AND_LOCK_FINISH h 0) := by
    rw [← hc, ← hb, ← ha]
    rfl
  rw [hE]
  refine ⟨?_, ?_⟩
  · intro k
    split
    · simp only [esim_schedule_event, mod_stack_create, Sim.modStack, Sim.setStack]
      rw [c1, k1 k, a1]
    · simp only [esim_schedule_event]
      rw [c1, k1 k, a1]
  · intro hh
    have e2 : (c.stack_tab h).hit = (s.stack_tab h).hit :=
      hck (fun x => x.hit) h (by intro _ _ _; rfl) (by intro _ _; rfl)
    have e3 : (c.stack_tab h).state = (s.stack_tab h).state :=
      hck (fun x => x.state) h (by intro _ _ _; rfl) (by intro _ _; rfl)
    have hcond : ¬ ((c.stack_tab h).plain && !(c.stack_tab h).hit &&
        (c.stack_tab h).state.valid) = true := by
      rw [e2, e3]
      rcases hh with hh | hh
      · rw [hh]; simp
      · rw [hh]; simp [cache_block_state_t.valid]
    rw [if_neg hcond]
    simp only [esim_schedule_event]
    rw [c4, k4, a4]

/-- The last step of FindAndLock at a cache module changes the tag and the
state of no block. -/
theorem find_and_lock_finish_blocks (s : Sim) (h : Nat)
    (hk : (s.mods (s.stack_tab h).mod).kind ≠ mod_kind_main_memory) :
    block_view (ev_mod_nmoesi_find_and_lock_finish s h) = block_view s := by
  have hif : ∀ (c : Prop) [Decidable c] (a b : Sim) (v : Nat → Int → Int → Int × cache_block_state_t),
      block_view a = v → block_view b = v → block_view (if c then a else b) = v := by
    intro c _ a b v ha hb
    split
    · exact ha
    · exact hb
  have hmif : ∀ (c : Prop) [Decidable c] (a b : Sim),
      a.mods = s.mods → b.mods = s.mods → (if c then a else b).mods = s.mods := by
    intro c _ a b ha hb
    split
    · exact ha
    · exact hb
  unfold ev_mod_nmoesi_find_and_lock_finish
  simp only
  split
  · rw [block_view_mods _ _ (mod_stack_return_keep _ h).1]
    apply hif
    · rw [(cache_entry_unlock_keep _ _ _ _).1]
      apply block_view_mods
      rw [modRet_mods, check_mods, check_mods]
      rfl
    · apply block_view_mods
      rw [modRet_mods, check_mods, check_mods]
      rfl
  · rw [block_view_mods _ _ (mod_stack_return_keep _ h).1]
    apply block_view_mods
    rw [modRet_mods]
    have hm1 : (if ((s.log EV_MOD_NMOESI_FIND_AND_LOCK_FINISH h).stack_tab h).eviction = true then
        ((s.log EV_MOD_NMOESI_FIND_AND_LOCK_FINISH h).modStack h (fun x => { x with
          state := (cache_get_block (s.log EV_MOD_NMOESI_FIND_AND_LOCK_FINISH h)
            ((s.log EV_MOD_NMOESI_FIND_AND_LOCK_FINISH h).stack_tab h).mod
            ((s.log EV_MOD_NMOESI_FIND_AND_LOCK_FINISH h).stack_tab h).set
            ((s.log EV_MOD_NMOESI_FIND_AND_LOCK_FINISH h).stack_tab h).way).2 })).check
          (!(cache_get_block (s.log EV_MOD_NMOESI_FIND_AND_LOCK_FINISH h)
            ((s.log EV_MOD_NMOESI_FIND_AND_LOCK_FINISH h).stack_tab h).mod
            ((s.log EV_MOD_NMOESI_FIND_AND_LOCK_FINISH h).stack_tab h).set
            ((s.log EV_MOD_NMOESI_FIND_AND_LOCK_FINISH h).stack_tab h).way).2.valid) 1539
        else s.log EV_MOD_NMOESI_FIND_AND_LOCK_FINISH h).mods = s.mods := by
      apply hmif
      · rw [check_mods]; rfl
      · rfl
    have hk' : ∀ (z : Sim) (P : Prop), z.mods = s.mods →
        ¬ ((z.mods ((s.log EV_MOD_NMOESI_FIND_AND_LOCK_FINISH h).stack_tab h).mod).kind =
          mod_kind_main_memory ∧ P) := by
      intro z P hz hkk
      rw [hz] at hkk
      exact hk hkk.1
    rw [if_neg (hk' _ _ hm1)]
    exact hm1

/-- The last step of FindAndLock changes the tag and the state of no block when
the module is a cache, or when no eviction took place and the line is valid. -/
theorem find_and_lock_finish_keeps (s : Sim) (h : Nat)
    (hk : (s.mods (s.stack_tab h).mod).kind ≠ mod_kind_main_memory ∨
      ((s.stack_tab h).err = false ∧ (s.stack_tab h).eviction = false ∧
        (s.stack_tab h).state.valid = true)) :
    block_view (ev_mod_nmoesi_find_and_lock_finish s h) = block_view s := by
  rcases hk with hk | ⟨he, hev, hv⟩
  · exact find_and_lock_finish_blocks s h hk
  · have he' : ¬ ((s.log EV_MOD_NMOESI_FIND_AND_LOCK_FINISH h).stack_tab h).err = true := by
      show ¬ (s.stack_tab h).err = true
      rw [he]; decide
    have hev' : ¬ ((s.log EV_MOD_NMOESI_FIND_AND_LOCK_FINISH h).stack_tab h).eviction = true := by
      show ¬ (s.stack_tab h).eviction = true
      rw [hev]; decide
    unfold ev_mod_nmoesi_find_and_lock_finish
    simp only
    rw [if_neg he', if_neg hev']
    have hc : ¬ (((s.log EV_MOD_NMOESI_FIND_AND_LOCK_FINISH h).mods
        ((s.log EV_MOD_NMOESI_FIND_AND_LOCK_FINISH h).stack_tab h).mod).kind =
          mod_kind_main_memory ∧
        (!((s.log EV_MOD_NMOESI_FIND_AND_LOCK_FINISH h).stack_tab h).state.valid) = true) := by
      intro hx
      have := hx.2
      rw [show ((s.log EV_MOD_NMOESI_FIND_AND_LOCK_FINISH h).stack_tab h).state.valid =
        (s.stack_tab h).state.valid from rfl, hv] at this
      cases this
    rw [if_neg hc, block_view_mods _ _ (mod_stack_return_keep _ h).1]
    apply block_view_mods
    rw [modRet_mods]
    rfl

/-- C32 (amended): steps of a Message (clear-owner) transaction.  For a stack
`h` that carries the message: the five steps of the Message handler and the
first three steps of FindAndLock leave the tag and state of every block of
every module unchanged; when the lookup hit or the chosen way holds no valid
block, the action step creates no stack, so no Evict is started; the last step
of FindAndLock leaves every block unchanged when the module is a cache, or
when nothing was evicted and the line is valid; the port step locks the chosen
entry for the access when FindAndLock locks it and it is free, and
`MESSAGE_ACTION` without a lock error leaves that entry unlocked. -/
theorem message_roundtrip_frame (s : Sim) (h : Nat) (fb : find_block_t)
    (hfb : mod_find_block (s.mods (s.stack_tab h).mod) (s.stack_tab h).addr (s.stack_tab h).way
      (s.stack_tab h).state = some fb)
    (hmsg : (s.stack_tab h).message = message_clear_owner) :
    (∀ ev ∈ [EV_MOD_NMOESI_MESSAGE, EV_MOD_NMOESI_MESSAGE_RECEIVE, EV_MOD_NMOESI_MESSAGE_ACTION,
        EV_MOD_NMOESI_MESSAGE_REPLY, EV_MOD_NMOESI_MESSAGE_FINISH],
      block_view (mod_handler_nmoesi_message ev s h) = block_view s) ∧
    block_view (ev_mod_nmoesi_find_and_lock s h) = block_view s ∧
    block_view (ev_mod_nmoesi_find_and_lock_port s h) = block_view s ∧
    block_view (ev_mod_nmoesi_find_and_lock_action s h) = block_view s ∧
    ((s.stack_tab h).hit = true ∨ (s.stack_tab h).state = cache_block_invalid →
      (ev_mod_nmoesi_find_and_lock_action s h).next_stack = s.next_stack) ∧
    ((s.mods (s.stack_tab h).mod).kind ≠ mod_kind_main_memory ∨
      ((s.stack_tab h).err = false ∧ (s.stack_tab h).eviction = false ∧
        (s.stack_tab h).state.valid = true) →
      block_view (ev_mod_nmoesi_find_and_lock_finish s h) = block_view s) ∧
    (((find_and_lock_port_lookup s h fb).stack_tab h).locks = true →
      (cache_lock_get s (s.stack_tab h).mod
        ((find_and_lock_port_lookup s h fb).stack_tab h).set
        ((find_and_lock_port_lookup s h fb).stack_tab h).way).lock = false →
      cache_lock_get (ev_mod_nmoesi_find_and_lock_port s h) (s.stack_tab h).mod
          ((find_and_lock_port_lookup s h fb).stack_tab h).set
          ((find_and_lock_port_lookup s h fb).stack_tab h).way =
        { cache_lock_get s (s.stack_tab h).mod
            ((find_and_lock_port_lookup s h fb).stack_tab h).set
            ((find_and_lock_port_lookup s h fb).stack_tab h).way with
          lock := true, stack_id := (s.stack_tab h).id }) ∧
    (∀ t, (s.stack_tab h).target_mod = some t → (s.stack_tab h).err = false →
      (cache_lock_get (ev_mod_nmoesi_message_action s h) t (s.stack_tab h).set
        (s.stack_tab h).way).lock = false) := by
  have hop : (s.stack_tab h).known_op = true := by
    unfold mod_stack_t.known_op
    rw [hmsg]
    simp
  obtain ⟨m1, m2, m3, m4⟩ := message_steps_mods s h
  obtain ⟨m5, m6, -⟩ := message_action_blocks s h
  refine ⟨?_, ?_, ?_, ?_, ?_, ?_, ?_, ?_⟩
  · intro ev hev
    simp only [List.mem_cons, List.mem_singleton, List.not_mem_nil, or_false] at hev
    rcases hev with e | e | e | e | e <;> subst e
    · exact block_view_mods _ _ m1
    · exact block_view_mods _ _ m2
    · exact m5
    · exact block_view_mods _ _ m3
    · exact block_view_mods _ _ m4
  · exact block_view_cache _ _ (find_and_lock_cache s h)
  · exact find_and_lock_port_blocks s h fb hfb hop
  · exact block_view_cache _ _ (find_and_lock_action_blocks s h).1
  · exact (find_and_lock_action_blocks s h).2
  · exact find_and_lock_finish_keeps s h
  · intro hlocks hfree
    obtain ⟨f1, -, -⟩ := find_and_lock_port_lookup_frame s h fb
    have hid : ((find_and_lock_port_lookup s h fb).stack_tab h).id = (s.stack_tab h).id :=
      find_and_lock_port_lookup_keep s h h fb (fun x => x.id) (by intro _ _; rfl)
        (by intro _ _ _ _ _ _; rfl) (by intro _ _; rfl) (by intro _ _; rfl) (by intro _ _; rfl)
    have hcl : ∀ a b, cache_lock_get (find_and_lock_port_lookup s h fb) (s.stack_tab h).mod a b =
        cache_lock_get s (s.stack_tab h).mod a b := by
      intro a b; unfold cache_lock_get; rw [f1]
    rw [find_and_lock_port_eq s h fb hfb hop,
      find_and_lock_port_lock_takes _ h _ _ hlocks ((congrArg cache_lock_t.lock (hcl _ _)).trans
        hfree), hcl, hid]
  · intro t ht he
    exact m6 t ht he hmsg

set_option maxRecDepth 100000 in
/-- C32 (counterexample): a Message for 4160 reaches an L2 that does not hold
the line and whose set is full.  The transaction runs from `MESSAGE` to
`MESSAGE_FINISH` without a fatal error or a failed assertion, and FindAndLock
at the L2 evicts the block 576 of way 1: the tag and state of that block of
the target change. -/
theorem message_evicts_victim :
    message_miss_demo.events = [(0, EV_MOD_NMOESI_MESSAGE, 1)] ∧
    block_view message_miss_demo 1 1 1 = (576, cache_block_exclusive) ∧
    (esim_run 38 message_miss_demo).trace.getLast? = some (EV_MOD_NMOESI_MESSAGE_FINISH, 1) ∧
    (EV_MOD_NMOESI_EVICT, 3) ∈ (esim_run 38 message_miss_demo).trace ∧
    (esim_run 38 message_miss_demo).fatal = false ∧
    (esim_run 38 message_miss_demo).assert_log = [] ∧
    block_view (esim_run 38 message_miss_demo) 1 1 1 = (0, cache_block_invalid) := by
  decide!

set_option maxRecDepth 100000 in
theorem message_roundtrip_frame_witness :
    block_view (ev_mod_nmoesi_find_and_lock_port (message_run 10) 9) =
      block_view (message_run 10) ∧
    (cache_lock_get (ev_mod_nmoesi_find_and_lock_port (message_run 10) 9) 1 1 1).lock = true ∧
    (message_run 7).events.head? = some (11, EV_MOD_NMOESI_MESSAGE, 8) ∧
    (message_run 16).trace.getLast? = some (EV_MOD_NMOESI_MESSAGE_FINISH, 8) ∧
    same_blocks (message_run 7) (message_run 16) ∧
    (message_run 7).lock_log.length = 7 ∧
    (message_run 16).lock_log.drop 7 =
      [⟨lock_op_t.acquired, 1, 1, 1, 2⟩, ⟨lock_op_t.released, 1, 1, 1, 2⟩] :=
  have a := message_roundtrip_frame (message_run 10) 9
    ⟨true, 1, 1, 4160, cache_block_exclusive⟩ (by decide!) (by decide!)
  ⟨a.2.2.1, by decide!, by decide!, by decide!, by decide!, by decide!, by decide!⟩

theorem read_request_updown_send_step (h t : Nat) (s : Sim) (p : Nat × Nat)
    (hh : h < s.next_stack) :
    (read_request_updown_send h t s p).next_stack = s.next_stack + 1 ∧
    ((read_request_updown_send h t s p).stack_tab h).pending = (s.stack_tab h).pending + 1 ∧
    count_events EV_MOD_NMOESI_READ_REQUEST (read_request_updown_send h t s p) =
      count_events EV_MOD_NMOESI_READ_REQUEST s + 1 ∧
    (read_request_updown_send h t s p).mods = s.mods := by
  have hne : h ≠ s.next_stack := Nat.ne_of_lt hh
  refine ⟨?_, ?_, ?_, ?_⟩
  · simp [read_request_updown_send, Sim.modStack, Sim.setStack, mod_stack_create,
      esim_schedule_event]
  · simp [read_request_updown_send, Sim.modStack, Sim.setStack, mod_stack_create,
      esim_schedule_event, upd, hne]
  · unfold count_events
    simp only [read_request_updown_send, Sim.modStack, Sim.setStack, mod_stack_create,
      esim_schedule_event]
    rw [countP_insert_event]
    simp
  · simp [read_request_updown_send, Sim.modStack, Sim.setStack, mod_stack_create,
      esim_schedule_event]

theorem read_request_updown_send_fold (h t : Nat) (l : List (Nat × Nat)) (s : Sim)
    (hh : h < s.next_stack) :
    (l.foldl (read_request_updown_send h t) s).next_stack = s.next_stack + l.length ∧
    ((l.foldl (read_request_updown_send h t) s).stack_tab h).pending =
      (s.stack_tab h).pending + (l.length : Int) ∧
    count_events EV_MOD_NMOESI_READ_REQUEST (l.foldl (read_request_updown_send h t) s) =
      count_events EV_MOD_NMOESI_READ_REQUEST s + l.length ∧
    (l.foldl (read_request_updown_send h t) s).mods = s.mods := by
  induction l generalizing s with
  | nil => simp
  | cons p rest ih =>
    obtain ⟨a1, a2, a3, a4⟩ := read_request_updown_send_step h t s p hh
    obtain ⟨b1, b2, b3, b4⟩ := ih (read_request_updown_send h t s p) (by rw [a1]; omega)
    simp only [List.foldl_cons, List.length_cons]
    refine ⟨?_, ?_, ?_, ?_⟩
    · rw [b1, a1]; omega
    · rw [b2, a2]; push_cast; omega
    · rw [b3, a3]; omega
    · rw [b4, a4]

/-- The hit branch of `READ_REQUEST_UPDOWN` issues `read_request_fanout`
requests, one new stack each, and leaves `pending` one above their number. -/
theorem read_request_updown_counts (s : Sim) (h t : Nat) (hh : h < s.next_stack)
    (ht : (s.stack_tab h).target_mod = some t)
    (hst : (s.stack_tab h).state ≠ cache_block_invalid) :
    (ev_mod_nmoesi_read_request_updown s h).next_stack =
      s.next_stack + read_request_fanout s h t ∧
    ((ev_mod_nmoesi_read_request_updown s h).stack_tab h).pending =
      1 + ((read_request_fanout s h t : Nat) : Int) ∧
    count_events EV_MOD_NMOESI_READ_REQUEST (ev_mod_nmoesi_read_request_updown s h) =
      count_events EV_MOD_NMOESI_READ_REQUEST s + read_request_fanout s h t := by
  have key : ∀ z : Sim, count_events EV_MOD_NMOESI_READ_REQUEST
      (esim_schedule_event z EV_MOD_NMOESI_READ_REQUEST_UPDOWN_FINISH h 0) =
      count_events EV_MOD_NMOESI_READ_REQUEST z := by
    intro z
    unfold count_events
    simp only [esim_schedule_event]
    rw [countP_insert_event]
    simp
  generalize hX : (mod_stack_set_reply ((s.log EV_MOD_NMOESI_READ_REQUEST_UPDOWN h).modStack h
      (fun x => { x with
        pending := 1
        reply_size := (((s.log EV_MOD_NMOESI_READ_REQUEST_UPDOWN h).mods
          ((s.log EV_MOD_NMOESI_READ_REQUEST_UPDOWN h).stack_tab h).mod).block_size : Int) + 8 }))
      h reply_ack_data) = X
  have x1 : X.mods = s.mods := by rw [← hX]; rfl
  have x2 : X.next_stack = s.next_stack := by rw [← hX]; rfl
  have x3 : X.events = s.events := by rw [← hX]; rfl
  have x4 : (X.stack_tab h).pending = 1 := by
    rw [← hX]; simp [mod_stack_set_reply, Sim.modStack, Sim.setStack, upd]
  have x5 : (X.stack_tab h).tag = (s.stack_tab h).tag := by
    rw [← hX]; simp [mod_stack_set_reply, Sim.modStack, Sim.setStack, upd]
  have x6 : (X.stack_tab h).orig_mod_id = (s.stack_tab h).orig_mod_id := by
    rw [← hX]; simp [mod_stack_set_reply, Sim.modStack, Sim.setStack, upd]
  have x7 : (X.stack_tab h).state = (s.stack_tab h).state := by
    rw [← hX]; simp [mod_stack_set_reply, Sim.modStack, Sim.setStack, upd]
  have hE : ev_mod_nmoesi_read_request_updown s h =
      (if (X.stack_tab h).state ≠ cache_block_invalid then
        esim_schedule_event
          (if ((X.check (decide ((X.stack_tab h).addr %
              (X.mods ((s.log EV_MOD_NMOESI_READ_REQUEST_UPDOWN h).stack_tab h).mod).block_size = 0))
              2339).mods t).num_nodes ≠ 0 then
            (fanout (X.check (decide ((X.stack_tab h).addr %
              (X.mods ((s.log EV_MOD_NMOESI_READ_REQUEST_UPDOWN h).stack_tab h).mod).block_size = 0))
              2339) t (X.stack_tab h).tag (X.stack_tab h).orig_mod_id none).foldl
              (read_request_updown_send h t)
              (X.check (decide ((X.stack_tab h).addr %
              (X.mods ((s.log EV_MOD_NMOESI_READ_REQUEST_UPDOWN h).stack_tab h).mod).block_size = 0))
              2339)
          else (X.check (decide ((X.stack_tab h).addr %
              (X.mods ((s.log EV_MOD_NMOESI_READ_REQUEST_UPDOWN h).stack_tab h).mod).block_size = 0))
              2339)) EV_MOD_NMOESI_READ_REQUEST_UPDOWN_FINISH h 0
      else ev_mod_nmoesi_read_request_updown s h) := by
    rw [if_pos (by rw [x7]; exact hst)]
    rw [← hX]
    unfold ev_mod_nmoesi_read_request_updown
    simp only [log_stack_tab, ht]
    rw [if_pos (by rw [← x7, ← hX] at hst; exact hst)]
  generalize hY : X.check (decide ((X.stack_tab h).addr %
      (X.mods ((s.log EV_MOD_NMOESI_READ_REQUEST_UPDOWN h).stack_tab h).mod).block_size = 0))
      2339 = Y at hE
  have y1 : Y.mods = s.mods := by rw [← hY, check_mods, x1]
  have y2 : Y.next_stack = s.next_stack := by rw [← hY, check_next_stack, x2]
  have y3 : Y.events = s.events := by rw [← hY, check_events, x3]
  have y4 : (Y.stack_tab h).pending = 1 := by rw [← hY, check_stack_tab, x4]
  have hfan : fanout Y t (X.stack_tab h).tag (X.stack_tab h).orig_mod_id none =
      fanout s t (s.stack_tab h).tag (s.stack_tab h).orig_mod_id none := by
    unfold fanout
    simp only [y1, x5, x6]
  rw [hE, if_pos (by rw [x7]; exact hst), hfan, y1]
  unfold read_request_fanout
  have hc0 : count_events EV_MOD_NMOESI_READ_REQUEST Y =
      count_events EV_MOD_NMOESI_READ_REQUEST s := by unfold count_events; rw [y3]
  by_cases hn : (s.mods t).num_nodes ≠ 0
  · rw [if_pos hn, if_pos hn, key]
    obtain ⟨b1, b2, b3, -⟩ := read_request_updown_send_fold h t
      (fanout s t (s.stack_tab h).tag (s.stack_tab h).orig_mod_id none) Y (by rw [y2]; exact hh)
    refine ⟨?_, ?_, ?_⟩
    · show (List.foldl _ Y _).next_stack = _
      rw [b1, y2]
    · show ((List.foldl _ Y _).stack_tab h).pending = _
      rw [b2, y4]
    · rw [b3, hc0]
  · rw [if_neg hn, if_neg hn, key]
    refine ⟨?_, ?_, ?_⟩
    · show Y.next_stack = _
      rw [y2]; rfl
    · show (Y.stack_tab h).pending = _
      rw [y4]; rfl
    · rw [hc0]; rfl

/-- One `INVALIDATE_FINISH`: `pending` goes down by one; while it stays
non-zero nothing is scheduled and only `pending` changes in the stacks; when it
reaches zero the access returns to its caller. -/
theorem invalidate_finish_pending (s : Sim) (h : Nat) :
    ((ev_mod_nmoesi_invalidate_finish s h).stack_tab h).pending = (s.stack_tab h).pending - 1 ∧
    ((s.stack_tab h).pending ≠ 1 →
      (ev_mod_nmoesi_invalidate_finish s h).events = s.events ∧
      (ev_mod_nmoesi_invalidate_finish s h).esim_time = s.esim_time ∧
      (ev_mod_nmoesi_invalidate_finish s h).stack_tab =
        upd s.stack_tab h { s.stack_tab h with pending := (s.stack_tab h).pending - 1 }) ∧
    ((s.stack_tab h).pending = 1 → ∀ r, (s.stack_tab h).ret_stack = some r →
      (s.esim_time, (s.stack_tab h).ret_event, r) ∈
        (ev_mod_nmoesi_invalidate_finish s h).events) := by
  generalize hX : (if ((s.log EV_MOD_NMOESI_INVALIDATE_FINISH h).stack_tab h).reply =
      reply_ack_data then
        cache_set_block (s.log EV_MOD_NMOESI_INVALIDATE_FINISH h)
          ((s.log EV_MOD_NMOESI_INVALIDATE_FINISH h).stack_tab h).mod
          ((s.log EV_MOD_NMOESI_INVALIDATE_FINISH h).stack_tab h).set
          ((s.log EV_MOD_NMOESI_INVALIDATE_FINISH h).stack_tab h).way
          ((s.log EV_MOD_NMOESI_INVALIDATE_FINISH h).stack_tab h).tag cache_block_modified
      else s.log EV_MOD_NMOESI_INVALIDATE_FINISH h).check
      (decide (((s.log EV_MOD_NMOESI_INVALIDATE_FINISH h).stack_tab h).pending > 0)) 3797 = X
  have x1 : X.stack_tab = s.stack_tab := by
    rw [← hX, check_stack_tab]; split <;> rfl
  have x2 : X.events = s.events := by
    rw [← hX, check_events]; split <;> rfl
  have x3 : X.esim_time = s.esim_time := by
    rw [← hX, check_esim_time]; split <;> rfl
  have hE : ev_mod_nmoesi_invalidate_finish s h =
      (if ((X.modStack h (fun x => { x with pending := x.pending - 1 })).stack_tab h).pending ≠ 0
        then X.modStack h (fun x => { x with pending := x.pending - 1 })
        else mod_stack_return (X.modStack h (fun x => { x with pending := x.pending - 1 })) h) := by
    rw [← hX]; rfl
  have hp : ((X.modStack h (fun x => { x with pending := x.pending - 1 })).stack_tab h).pending =
      (s.stack_tab h).pending - 1 := by
    rw [modStack_stack_tab, if_pos rfl, x1]
  have hst : (X.modStack h (fun x => { x with pending := x.pending - 1 })).stack_tab =
      upd s.stack_tab h { s.stack_tab h with pending := (s.stack_tab h).pending - 1 } := by
    simp only [Sim.modStack, Sim.setStack, x1]
  rw [hE, hp]
  refine ⟨?_, ?_, ?_⟩
  · split
    · exact hp
    · obtain ⟨l, hl⟩ := mod_stack_return_stack
        (X.modStack h (fun x => { x with pending := x.pending - 1 })) h h
      rw [hl]; exact hp
  · intro hne
    have : (s.stack_tab h).pending - 1 ≠ 0 := by omega
    rw [if_pos this]
    exact ⟨x2, x3, hst⟩
  · intro h1 r hr
    have : ¬ (s.stack_tab h).pending - 1 ≠ 0 := by omega
    rw [if_neg this]
    have hret : ((X.modStack h (fun x => { x with pending := x.pending - 1 })).stack_tab
        h).ret_stack = some r := by
      rw [hst]; simp [upd, hr]
    have := mod_stack_return_event _ h r hret
    rw [hst] at this
    simp only [upd, if_true] at this
    rw [show (X.modStack h (fun x => { x with pending := x.pending - 1 })).esim_time =
      s.esim_time from x3] at this
    exact this

theorem set_reply_keep (z : Sim) (r k : Nat) (rp : mod_reply_type_t) {α : Type}
    (g : mod_stack_t → α) (hg : ∀ x a, g { x with reply := a } = g x) :
    g ((mod_stack_set_reply z r rp).stack_tab k) = g (z.stack_tab k) := by
  simp only [mod_stack_set_reply, Sim.setStack, upd]
  split
  · next e => rw [hg, e]
  · rfl

/-- One `READ_REQUEST_UPDOWN_FINISH`: `pending` goes down by one; while it
stays non-zero nothing is scheduled and only `pending` changes in the stacks;
when it reaches zero the reply to the requester is scheduled. -/
theorem read_request_updown_finish_pending (s : Sim) (h t : Nat)
    (ht : (s.stack_tab h).target_mod = some t) :
    ((ev_mod_nmoesi_read_request_updown_finish s h).stack_tab h).pending =
      (s.stack_tab h).pending - 1 ∧
    ((s.stack_tab h).pending ≠ 1 →
      (ev_mod_nmoesi_read_request_updown_finish s h).events = s.events ∧
      (ev_mod_nmoesi_read_request_updown_finish s h).esim_time = s.esim_time ∧
      (ev_mod_nmoesi_read_request_updown_finish s h).stack_tab =
        upd s.stack_tab h { s.stack_tab h with pending := (s.stack_tab h).pending - 1 }) ∧
    ((s.stack_tab h).pending = 1 → (s.stack_tab h).reply_size ≥ 8 →
      ∃ d, (s.esim_time + d, EV_MOD_NMOESI_READ_REQUEST_REPLY, h) ∈
        (ev_mod_nmoesi_read_request_updown_finish s h).events) := by
  unfold ev_mod_nmoesi_read_request_updown_finish
  simp only [ht]
  generalize hX : (s.check (decide ((s.stack_tab h).reply ≠ reply_none)) 2474).check
    (decide ((s.stack_tab h).pending > 0)) 2477 = X
  have x1 : X.stack_tab = s.stack_tab := by
    rw [← hX, check_stack_tab, check_stack_tab]
  have x2 : X.events = s.events := by
    rw [← hX, check_events, check_events]
  have x3 : X.esim_time = s.esim_time := by
    rw [← hX, check_esim_time, check_esim_time]
  generalize hY : X.modStack h (fun x => { x with pending := x.pending - 1 }) = Y
  have hp : (Y.stack_tab h).pending = (s.stack_tab h).pending - 1 := by
    rw [← hY, modStack_stack_tab, if_pos rfl, x1]
  have hst : Y.stack_tab =
      upd s.stack_tab h { s.stack_tab h with pending := (s.stack_tab h).pending - 1 } := by
    rw [← hY]
    simp only [Sim.modStack, Sim.setStack, x1]
  have y2 : Y.events = s.events := by rw [← hY]; exact x2
  have y3 : Y.esim_time = s.esim_time := by rw [← hY]; exact x3
  rw [hp]
  refine ⟨?_, ?_, ?_⟩
  · split
    · exact hp
    · split
      · simp only [schedule_stack_tab, cache_entry_unlock_stack_tab]
        split
        · rw [cache_set_block_stack_tab]
          exact (modRet_keep _ h h _ (fun x => x.pending) (by intro _; rfl)).trans
            ((modRet_keep _ h h _ (fun x => x.pending) (by intro _; rfl)).trans (by
              split
              · exact (set_reply_keep _ _ h _ (fun x => x.pending) (by intro _ _; rfl)).trans hp
              · exact hp))
        · exact (modRet_keep _ h h _ (fun x => x.pending) (by intro _; rfl)).trans
            ((modRet_keep _ h h _ (fun x => x.pending) (by intro _; rfl)).trans (by
              split
              · exact (set_reply_keep _ _ h _ (fun x => x.pending) (by intro _ _; rfl)).trans hp
              · exact hp))
      · exact hp
  · intro hne
    have : (s.stack_tab h).pending - 1 ≠ 0 := by omega
    rw [if_pos this]
    refine ⟨y2, y3, ?_⟩
    rw [hst]
    simp only [ht]
  · intro h1 hrs
    have : ¬ (s.stack_tab h).pending - 1 ≠ 0 := by omega
    rw [if_neg this, if_pos hrs]
    have key : ∀ (A : Sim) (L : Nat), A.esim_time = s.esim_time →
        (s.esim_time + L, EV_MOD_NMOESI_READ_REQUEST_REPLY, h) ∈
          (esim_schedule_event A EV_MOD_NMOESI_READ_REQUEST_REPLY h L).events := by
      intro A L hA
      simp only [esim_schedule_event, hA]
      exact (mem_insert_event _ _ _ _ _).mpr (Or.inl rfl)
    have ht' : ∀ (c : Prop) [Decidable c] (a b : Sim), a.esim_time = s.esim_time →
        b.esim_time = s.esim_time → (if c then a else b).esim_time = s.esim_time := by
      intro c _ a b ha hb
      split
      · exact ha
      · exact hb
    refine ⟨_, key _ _ ?_⟩
    rw [cache_entry_unlock_esim_time]
    apply ht'
    · rw [cache_set_block_esim_time, modRet_esim_time, modRet_esim_time]
      split <;> exact y3
    · rw [modRet_esim_time, modRet_esim_time]
      split <;> exact y3

/-- A finish step that only counts down while `pending` is above one, delivered
`j` times to a stack with `pending = k + 1` and property `Q`, `j ≤ k`: `pending` is
`k + 1 - j`, nothing else changed in the stack, nothing was scheduled. -/
theorem finish_iter_counts (f : Sim → Nat → Sim) (h : Nat) (Q : mod_stack_t → Prop)
    (hQ : ∀ (x : mod_stack_t) (p : Int), Q x → Q { x with pending := p })
    (hf : ∀ s : Sim, Q (s.stack_tab h) → (s.stack_tab h).pending ≠ 1 →
      (f s h).events = s.events ∧ (f s h).esim_time = s.esim_time ∧
      (f s h).stack_tab =
        upd s.stack_tab h { s.stack_tab h with pending := (s.stack_tab h).pending - 1 })
    (u : Sim) (k : Nat) (hp : (u.stack_tab h).pending = (k : Int) + 1)
    (hu : Q (u.stack_tab h)) :
    ∀ j, j ≤ k →
      (finish_iter f h j u).stack_tab h =
        { u.stack_tab h with pending := (k : Int) + 1 - (j : Int) } ∧
      (finish_iter f h j u).events = u.events ∧
      (finish_iter f h j u).esim_time = u.esim_time := by
  intro j
  induction j with
  | zero =>
    intro _
    refine ⟨?_, rfl, rfl⟩
    show u.stack_tab h = _
    rw [← hp, Nat.cast_zero, sub_zero]
  | succ n ih =>
    intro hj
    obtain ⟨i1, i2, i3⟩ := ih (by omega)
    have hne : ((finish_iter f h n u).stack_tab h).pending ≠ 1 := by
      rw [i1]
      show (k : Int) + 1 - (n : Int) ≠ 1
      omega
    obtain ⟨a1, a2, a3⟩ := hf (finish_iter f h n u) (by rw [i1]; exact hQ _ _ hu) hne
    refine ⟨?_, ?_, ?_⟩
    · show (f (finish_iter f h n u) h).stack_tab h = _
      rw [a3]
      simp only [upd, if_true]
      rw [i1]
      show ({ u.stack_tab h with pending := (k : Int) + 1 - (n : Int) - 1 } : mod_stack_t) = _
      have : (k : Int) + 1 - (n : Int) - 1 = (k : Int) + 1 - ((n + 1 : Nat) : Int) := by
        push_cast; ring
      rw [this]
    · show (f (finish_iter f h n u) h).events = _
      rw [a1, i2]
    · show (f (finish_iter f h n u) h).esim_time = _
      rw [a2, i3]

/-- C36: the pending-count pattern.  For a stack `h` that exists:
`INVALIDATE` creates `k` stacks and schedules `k` write requests, `k` being
the number of pairs of `fanout` (0 without upper-level nodes or for an Invalid
block), and leaves `pending = k + 1`; the hit branch of `READ_REQUEST_UPDOWN`
does the same with read requests.  From any state in which `pending = k + 1`,
the finish step delivered `j ≤ k` times leaves `pending = k + 1 - j` and
schedules nothing; delivered once more it leaves `pending = 0` and runs the
continuation: `INVALIDATE_FINISH` schedules the return event on the caller,
`READ_REQUEST_UPDOWN_FINISH` schedules `READ_REQUEST_REPLY`. -/
theorem pending_count_pattern (s : Sim) (h t : Nat) (hh : h < s.next_stack) :
    ((ev_mod_nmoesi_invalidate s h).next_stack = s.next_stack + invalidate_fanout s h ∧
      ((ev_mod_nmoesi_invalidate s h).stack_tab h).pending =
        1 + ((invalidate_fanout s h : Nat) : Int) ∧
      count_events EV_MOD_NMOESI_WRITE_REQUEST (ev_mod_nmoesi_invalidate s h) =
        count_events EV_MOD_NMOESI_WRITE_REQUEST s + invalidate_fanout s h) ∧
    ((s.stack_tab h).target_mod = some t → (s.stack_tab h).state ≠ cache_block_invalid →
      (ev_mod_nmoesi_read_request_updown s h).next_stack =
        s.next_stack + read_request_fanout s h t ∧
      ((ev_mod_nmoesi_read_request_updown s h).stack_tab h).pending =
        1 + ((read_request_fanout s h t : Nat) : Int) ∧
      count_events EV_MOD_NMOESI_READ_REQUEST (ev_mod_nmoesi_read_request_updown s h) =
        count_events EV_MOD_NMOESI_READ_REQUEST s + read_request_fanout s h t) ∧
    (∀ (u : Sim) (k : Nat), (u.stack_tab h).pending = (k : Int) + 1 →
      (∀ j, j ≤ k →
        ((finish_iter ev_mod_nmoesi_invalidate_finish h j u).stack_tab h).pending =
          (k : Int) + 1 - (j : Int) ∧
        (finish_iter ev_mod_nmoesi_invalidate_finish h j u).events = u.events) ∧
      ((finish_iter ev_mod_nmoesi_invalidate_finish h (k + 1) u).stack_tab h).pending = 0 ∧
      (∀ r, (u.stack_tab h).ret_stack = some r →
        (u.esim_time, (u.stack_tab h).ret_event, r) ∈
          (finish_iter ev_mod_nmoesi_invalidate_finish h (k + 1) u).events)) ∧
    (∀ (u : Sim) (k : Nat), (u.stack_tab h).pending = (k : Int) + 1 →
      (u.stack_tab h).target_mod = some t →
      (∀ j, j ≤ k →
        ((finish_iter ev_mod_nmoesi_read_request_updown_finish h j u).stack_tab h).pending =
          (k : Int) + 1 - (j : Int) ∧
        (finish_iter ev_mod_nmoesi_read_request_updown_finish h j u).events = u.events) ∧
      ((finish_iter ev_mod_nmoesi_read_request_updown_finish h (k + 1) u).stack_tab h).pending =
        0 ∧
      ((u.stack_tab h).reply_size ≥ 8 →
        ∃ d, (u.esim_time + d, EV_MOD_NMOESI_READ_REQUEST_REPLY, h) ∈
          (finish_iter ev_mod_nmoesi_read_request_updown_finish h (k + 1) u).events)) := by
  refine ⟨invalidate_counts s h hh, fun ht hst => read_request_updown_counts s h t hh ht hst,
    ?_, ?_⟩
  · intro u k hp
    have key := finish_iter_counts ev_mod_nmoesi_invalidate_finish h (fun _ => True)
      (fun _ _ _ => trivial) (fun z _ hz => (invalidate_finish_pending z h).2.1 hz) u k hp trivial
    obtain ⟨e1, e2, e3⟩ := key k (le_refl k)
    have hp1 : ((finish_iter ev_mod_nmoesi_invalidate_finish h k u).stack_tab h).pending = 1 := by
      rw [e1]
      show (k : Int) + 1 - (k : Int) = 1
      omega
    obtain ⟨a1, -, a3⟩ := invalidate_finish_pending
      (finish_iter ev_mod_nmoesi_invalidate_finish h k u) h
    refine ⟨?_, ?_, ?_⟩
    · intro j hj
      obtain ⟨c1, c2, -⟩ := key j hj
      exact ⟨by rw [c1], c2⟩
    · show ((ev_mod_nmoesi_invalidate_finish _ h).stack_tab h).pending = 0
      rw [a1, hp1]; rfl
    · intro r hr
      have := a3 hp1 r (by rw [e1]; exact hr)
      rw [e3, e1] at this
      exact this
  · intro u k hp ht
    have key := finish_iter_counts ev_mod_nmoesi_read_request_updown_finish h
      (fun x => x.target_mod = some t) (fun _ _ hx => hx)
      (fun z hq hz => (read_request_updown_finish_pending z h t hq).2.1 hz) u k hp ht
    obtain ⟨e1, e2, e3⟩ := key k (le_refl k)
    have hp1 : ((finish_iter ev_mod_nmoesi_read_request_updown_finish h k u).stack_tab
        h).pending = 1 := by
      rw [e1]
      show (k : Int) + 1 - (k : Int) = 1
      omega
    obtain ⟨a1, -, a3⟩ := read_request_updown_finish_pending
      (finish_iter ev_mod_nmoesi_read_request_updown_finish h k u) h t (by rw [e1]; exact ht)
    refine ⟨?_, ?_, ?_⟩
    · intro j hj
      obtain ⟨c1, c2, -⟩ := key j hj
      exact ⟨by rw [c1], c2⟩
    · show ((ev_mod_nmoesi_read_request_updown_finish _ h).stack_tab h).pending = 0
      rw [a1, hp1]; rfl
    · intro hrs
      have := a3 hp1 (by rw [e1]; exact hrs)
      rw [e3] at this
      exact this

set_option maxRecDepth 100000 in
theorem pending_count_pattern_witness :
    (pending_demo 13).events.head? = some (12, EV_MOD_NMOESI_READ_REQUEST_UPDOWN, 10) ∧
    read_request_fanout (pending_demo 13) 10 2 = 1 ∧
    ((ev_mod_nmoesi_read_request_updown (pending_demo 13) 10).stack_tab 10).pending =
      1 + ((read_request_fanout (pending_demo 13) 10 2 : Nat) : Int) ∧
    (pending_demo 15).events.head? = some (12, EV_MOD_NMOESI_READ_REQUEST_UPDOWN_FINISH, 10) ∧
    ((pending_demo 15).stack_tab 10).pending = 2 ∧
    (pending_demo 27).events.head? = some (15, EV_MOD_NMOESI_READ_REQUEST_UPDOWN_FINISH, 10) ∧
    ((pending_demo 27).stack_tab 10).pending = 1 ∧
    (EV_MOD_NMOESI_READ_REQUEST_REPLY, 10) ∉ (pending_demo 27).trace ∧
    (pending_demo 28).events.head? = some (17, EV_MOD_NMOESI_READ_REQUEST_REPLY, 10) ∧
    ((pending_demo 28).stack_tab 10).pending = 0 ∧
    (pending_demo 96).events = [] ∧
    (pending_demo 96).trace.count (EV_MOD_NMOESI_READ_REQUEST_REPLY, 10) = 1 :=
  have a := (pending_count_pattern (pending_demo 13) 10 2 (by decide!)).2.1 (by decide!)
    (by decide!)
  ⟨by decide!, by decide!, a.2.1, by decide!, by decide!, by decide!, by decide!, by decide!,
    by decide!, by decide!, by decide!, by decide!⟩

/-- A walk of `mod_check_coherency_status` that reaches no `fatal`: no module
it visits violates the check made on it. -/
theorem mccs_visited (s : Sim) (issue_mod addr : Nat) (st : cache_block_state_t)
    (t p : Nat) (d : Bool) (x : Nat) (dx : Bool)
    (hv : Visited s issue_mod addr t p d x dx) :
    ∀ fuel, mod_check_coherency_status s issue_mod addr st fuel (some t) p d = false →
    ∃ r, mod_find_block (s.mods x) addr 0 s.uninit_state = some r ∧
      coherency_violation (s.mods x).kind st dx r.hit r.state = false := by
  induction hv with
  | self t p d =>
    intro fuel h
    cases fuel with
    | zero => simp [mod_check_coherency_status] at h
    | succ fuel =>
      rw [mccs_succ] at h
      cases h0 : mod_find_block (s.mods t) addr 0 s.uninit_state with
      | none => rw [h0] at h; simp at h
      | some r =>
        rw [h0] at h
        simp only at h
        refine ⟨r, rfl, ?_⟩
        by_cases hv : coherency_violation (s.mods t).kind st d r.hit r.state = true
        · simp [hv] at h
        · simpa using hv
  | up t p d node x dx hnet hnode hkind h1 h2 h3 _ ih =>
    intro fuel h
    cases fuel with
    | zero => simp [mod_check_coherency_status] at h
    | succ fuel =>
      rw [mccs_succ] at h
      cases h0 : mod_find_block (s.mods t) addr 0 s.uninit_state with
      | none => rw [h0] at h; simp at h
      | some r =>
        rw [h0] at h
        simp only at h
        have hv : coherency_violation (s.mods t).kind st d r.hit r.state = false := by
          by_cases hv : coherency_violation (s.mods t).kind st d r.hit r.state = true
          · simp [hv] at h
          · simpa using hv
        simp only [hv, Bool.false_eq_true, if_false, hnet, if_true] at h
        simp at h
        exact ih fuel (h.1 node hnode hkind h1 h2 h3)
  | down t p l x dx hlow hget _ ih =>
    intro fuel h
    cases fuel with
    | zero => simp [mod_check_coherency_status] at h
    | succ fuel =>
      rw [mccs_succ] at h
      cases h0 : mod_find_block (s.mods t) addr 0 s.uninit_state with
      | none => rw [h0] at h; simp at h
      | some r =>
        rw [h0] at h
        simp only at h
        have hv : coherency_violation (s.mods t).kind st false r.hit r.state = false := by
          by_cases hv : coherency_violation (s.mods t).kind st false r.hit r.state = true
          · simp [hv] at h
          · simpa using hv
        simp only [hv, Bool.false_eq_true, if_false, hlow, hget] at h
        simp at h
        exact ih fuel h.2

/-- C33 (amended): a call of `mod_check_coherency_status` for an issuer state
Exclusive or Modified that returns normally (reaches no `fatal`).  Every module
`x` the walk visits in the down-up direction (an upper-level neighbor of a
module on the path) misses or holds the line Invalid; every module it visits
in the up-down direction (a lower-level module on the path to main memory)
holds the line neither Shared nor Owned.  Equivalently the call ends in
`fatal` as soon as one visited module fails this. -/
theorem coherency_check_exclusive (s : Sim) (issue_mod addr : Nat) (st : cache_block_state_t)
    (fuel t p : Nat) (d : Bool) (x : Nat) (dx : Bool)
    (hst : st = cache_block_modified ∨ st = cache_block_exclusive)
    (hv : Visited s issue_mod addr t p d x dx)
    (h : mod_check_coherency_status s issue_mod addr st fuel (some t) p d = false) :
    (dx = true → line_state s x addr = cache_block_invalid) ∧
    (dx = false →
      line_state s x addr ≠ cache_block_shared ∧ line_state s x addr ≠ cache_block_owned) := by
  obtain ⟨r, h0, hviol⟩ := mccs_visited s issue_mod addr st t p d x dx hv fuel h
  have hinit := mod_find_block_init (s.mods x) addr 0 (-1) s.uninit_state cache_block_invalid
  unfold line_state
  cases h1 : mod_find_block (s.mods x) addr (-1) cache_block_invalid with
  | none => exact ⟨fun _ => rfl, fun _ => ⟨by simp, by simp⟩⟩
  | some r1 =>
    have hh := hinit.2 r r1 h0 h1
    simp only
    by_cases hit : r1.hit = true
    · simp only [hit, if_true]
      have hrh : r.hit = true := by rw [hh.1]; exact hit
      rw [← hh.2 hrh]
      unfold coherency_violation at hviol
      constructor
      · intro hd
        subst hd
        rcases hst with hst | hst <;> simp [hst, hrh] at hviol <;> exact hviol
      · intro hd
        subst hd
        rcases hst with hst | hst <;> simp [hst, hrh] at hviol <;>
          (constructor <;> intro hc <;> simp [hc] at hviol)
    · simp only [hit]
      exact ⟨fun _ => rfl, fun _ => ⟨by simp, by simp⟩⟩

set_option maxRecDepth 100000 in
/-- C33 (counterexample): after a Load of 4160 on the empty chain the first
level holds the line Exclusive and so do the L2 and main memory, the two
lower-level modules the walk visits; the call made for the installed state
returns normally and the run ends without a fatal error. -/
theorem coherency_check_accepts_lower_exclusive :
    (scenario1 cache_block_invalid 4160).fatal = false ∧
    (scenario1 cache_block_invalid 4160).events = [] ∧
    line_state (scenario1 cache_block_invalid 4160) 0 4160 = cache_block_exclusive ∧
    line_state (scenario1 cache_block_invalid 4160) 1 4160 = cache_block_exclusive ∧
    line_state (scenario1 cache_block_invalid 4160) 2 4160 = cache_block_exclusive ∧
    mod_get_low_mod (scenario1 cache_block_invalid 4160) 0 4160 = low_mod_t.server 1 ∧
    mod_get_low_mod (scenario1 cache_block_invalid 4160) 1 4160 = low_mod_t.server 2 ∧
    mod_check_coherency_status (scenario1 cache_block_invalid 4160) 0 4160 cache_block_exclusive
      (coherency_fuel (scenario1 cache_block_invalid 4160)) (some 1) 0 false = false := by
  decide!

set_option maxRecDepth 100000 in
theorem coherency_check_exclusive_witness :
    line_state dirty_run1 0 4160 = cache_block_modified ∧
    mod_check_coherency_status dirty_run1 0 4160 cache_block_modified
      (coherency_fuel dirty_run1) (some 2) 0 false = false ∧
    Visited dirty_run1 0 4160 2 0 false 1 true ∧
    line_state dirty_run1 1 4160 = cache_block_invalid ∧
    Visited dirty_run1 0 4160 2 0 false 3 false ∧
    line_state dirty_run1 3 4160 ≠ cache_block_shared :=
  have v1 : Visited dirty_run1 0 4160 2 0 false 1 true :=
    Visited.up 2 0 false ⟨net_node_end, 1⟩ 1 true (by decide!) (by decide!) (by decide!)
      (by decide!) (by decide!) (by decide!) (Visited.self 1 2 true)
  have v3 : Visited dirty_run1 0 4160 2 0 false 3 false :=
    Visited.down 2 0 3 3 false (by decide!) (by decide!) (Visited.self 3 2 false)
  ⟨by decide!, by decide!, v1,
    (coherency_check_exclusive dirty_run1 0 4160 cache_block_modified (coherency_fuel dirty_run1)
      2 0 false 1 true (Or.inl rfl) v1 (by decide!)).1 rfl, v3,
    ((coherency_check_exclusive dirty_run1 0 4160 cache_block_modified
      (coherency_fuel dirty_run1) 2 0 false 3 false (Or.inl rfl) v3 (by decide!)).2 rfl).1⟩

set_option maxRecDepth 100000 in
/-- C40: the assertions at the top of `mod_update_state_modification_counters`
reject every call.  In the Load of Scenario 1 on the empty chain, `LOAD_MISS`
runs for the Load (stack 0) with `prev_state` Invalid and installs Exclusive,
so the call is made with (Invalid, Exclusive, load): all ten assertions are
false there.  For every transaction type and every pair of states at least
one assertion is false; the first is false for each of the four types the
protocol uses.  The `switch` itself increments the counter of (type, previous
state, next state) and no other. -/
theorem state_counter_asserts_fail :
    ((EV_MOD_NMOESI_LOAD_MISS, 0) ∈ (scenario1 cache_block_invalid 4160).trace ∧
      ((scenario1 cache_block_invalid 4160).stack_tab 0).prev_state = cache_block_invalid ∧
      line_state (scenario1 cache_block_invalid 4160) 0 4160 = cache_block_exclusive) ∧
    state_counter_asserts cache_block_invalid cache_block_exclusive mod_trans_load =
      [false, false, false, false, false, false, false, false, false, false] ∧
    (∀ t p n, (state_counter_asserts p n t).all (fun b => b) = false) ∧
    (∀ t p n, (t = mod_trans_load ∨ t = mod_trans_store ∨ t = mod_trans_downup_read_request ∨
        t = mod_trans_downup_writeback_request) →
      (state_counter_asserts p n t).head? = some false) ∧
    (∀ c t p n, (t = mod_trans_load ∨ t = mod_trans_store ∨ t = mod_trans_downup_read_request ∨
        t = mod_trans_downup_writeback_request) →
      mod_update_state_modification_counters c p n t t p n = c t p n + 1 ∧
      ∀ t' p' n', ¬ (t' = t ∧ p' = p ∧ n' = n) →
        mod_update_state_modification_counters c p n t t' p' n' = c t' p' n') := by
  refine ⟨by decide!, by decide, ?_, ?_, ?_⟩
  · intro t p n
    cases t <;> cases p <;> cases n <;> rfl
  · intro t p n ht
    rcases ht with ht | ht | ht | ht <;> subst ht <;> rfl
  · intro c t p n ht
    unfold mod_update_state_modification_counters
    rw [if_pos ht]
    refine ⟨by simp, ?_⟩
    intro t' p' n' hne
    show (if t' = t ∧ p' = p ∧ n' = n then c t' p' n' + 1 else c t' p' n') = c t' p' n'
    rw [if_neg hne]

theorem net_frame_check (p s : Sim) (c : Bool) (l : Nat) (hp : net_frame p s) :
    net_frame (p.check c l) s := by
  unfold Sim.check
  split
  · exact hp
  · exact hp

theorem net_frame_modRet (p s : Sim) (h : Nat) (f : mod_stack_t → mod_stack_t)
    (hp : net_frame p s) : net_frame (p.modRet h f) s := by
  unfold Sim.modRet
  split
  · exact hp
  · exact hp

theorem net_frame_modStack (p s : Sim) (h : Nat) (f : mod_stack_t → mod_stack_t)
    (hp : net_frame p s) : net_frame (p.modStack h f) s := hp

theorem net_frame_log (s : Sim) (ev : Ev) (h : Nat) : net_frame (s.log ev h) s :=
  ⟨rfl, rfl, rfl, rfl⟩

theorem net_frame_sched (p s : Sim) (ev : Ev) (h d : Nat) (hp : net_frame p s) :
    (esim_schedule_event p ev h d).net_log = s.net_log := hp.2.2.2

theorem net_frame_set_reply (p s : Sim) (h : Nat) (r : mod_reply_type_t)
    (hp : net_frame p s) : net_frame (mod_stack_set_reply p h r) s := hp

theorem net_try_send_ev_reject (s p : Sim) (h : Nat) (size : Int) (re rt : Ev)
    (he : p.events = s.events) (ht : p.esim_time = s.esim_time)
    (ho : p.net_oracle = s.net_oracle) (hrej : net_accepts s = false) :
    (net_try_send_ev p h size re rt).events = insert_event (s.esim_time + 1) rt h s.events ∧
    (net_try_send_ev p h size re rt).net_oracle = s.net_oracle.tail := by
  unfold net_accepts at hrej
  unfold net_try_send_ev
  rw [ho]
  split at hrej
  · rename_i rest hs
    rw [hs]
    refine ⟨?_, rfl⟩
    show insert_event (p.esim_time + 1) rt h p.events = _
    rw [he, ht]
  · exact absurd hrej (by decide)

theorem net_frame_reject (s p : Sim) (h : Nat) (size : Int) (re rt : Ev)
    (hp : net_frame p s) (hrej : net_accepts s = false) :
    (net_try_send_ev p h size re rt).events = insert_event (s.esim_time + 1) rt h s.events ∧
    (net_try_send_ev p h size re rt).net_oracle = s.net_oracle.tail :=
  net_try_send_ev_reject s p h size re rt hp.1 hp.2.1 hp.2.2.1 hrej

theorem modRet_frame (s : Sim) (h : Nat) (f : mod_stack_t → mod_stack_t) :
    (s.modRet h f).events = s.events ∧ (s.modRet h f).esim_time = s.esim_time ∧
    (s.modRet h f).net_oracle = s.net_oracle ∧ (s.modRet h f).net_log = s.net_log := by
  unfold Sim.modRet
  split <;> exact ⟨rfl, rfl, rfl, rfl⟩

theorem send_step_mods (s : Sim) (h : Nat) (ev : Ev) (hev : ev ∈ retry_send_steps) :
    (dispatch ev s h).mods = s.mods := by
  simp only [retry_send_steps, List.mem_cons, List.mem_singleton, List.not_mem_nil,
    or_false] at hev
  rcases hev with rfl | rfl | rfl | rfl | rfl | rfl
  · exact evict_action_mods s h
  · exact evict_reply_mods s h
  · show (ev_mod_nmoesi_read_request s h).mods = s.mods
    unfold ev_mod_nmoesi_read_request
    simp only
    rw [net_try_send_ev_mods, check_mods, modRet_mods]
    rfl
  · show (ev_mod_nmoesi_read_request_reply s h).mods = s.mods
    unfold ev_mod_nmoesi_read_request_reply
    simp only
    rw [net_try_send_ev_mods, check_mods, check_mods]
    rfl
  · show (ev_mod_nmoesi_write_request s h).mods = s.mods
    unfold ev_mod_nmoesi_write_request
    simp only
    rw [net_try_send_ev_mods, check_mods]
    show (((s.log EV_MOD_NMOESI_WRITE_REQUEST h).modRet h _).mods) = s.mods
    rw [modRet_mods]
    rfl
  · show (ev_mod_nmoesi_write_request_reply s h).mods = s.mods
    unfold ev_mod_nmoesi_write_request_reply
    simp only
    rw [net_try_send_ev_mods, check_mods]
    rfl

theorem send_iter_mods (ev : Ev) (hev : ev ∈ retry_send_steps) (h : Nat) (n : Nat) (s : Sim) :
    (finish_iter (dispatch ev) h n s).mods = s.mods := by
  induction n with
  | zero => rfl
  | succ k ih =>
    show (dispatch ev (finish_iter (dispatch ev) h k s) h).mods = s.mods
    rw [send_step_mods _ _ _ hev, ih]

theorem send_step_reject (s : Sim) (h : Nat) (ev : Ev) (hev : ev ∈ retry_send_steps)
    (hrej : net_accepts s = false) (hsend : (dispatch ev s h).net_log ≠ s.net_log) :
    (dispatch ev s h).events = insert_event (s.esim_time + 1) ev h s.events ∧
    (dispatch ev s h).net_oracle = s.net_oracle.tail := by
  simp only [retry_send_steps, List.mem_cons, List.mem_singleton, List.not_mem_nil,
    or_false] at hev
  rcases hev with rfl | rfl | rfl | rfl | rfl | rfl
  · have hsend : (ev_mod_nmoesi_evict_action s h).net_log ≠ s.net_log := hsend
    show (ev_mod_nmoesi_evict_action s h).events = _ ∧
      (ev_mod_nmoesi_evict_action s h).net_oracle = _
    unfold ev_mod_nmoesi_evict_action at hsend ⊢
    simp only at hsend ⊢
    split
    · rename_i hst
      rw [if_pos hst] at hsend
      exfalso
      apply hsend
      exact net_frame_sched _ s _ h 0 (net_frame_modStack _ s h _ (net_frame_check _ s _ 1654
        (net_frame_check _ s _ 1653 (net_frame_log s EV_MOD_NMOESI_EVICT_ACTION h))))
    · apply net_frame_reject _ _ _ _ _ _ _ hrej
      split
      · exact net_frame_modStack _ s h _ (net_frame_modStack _ s h _
          (net_frame_check _ s _ 1654 (net_frame_check _ s _ 1653 (net_frame_log s _ h))))
      · exact net_frame_modStack _ s h _ (net_frame_modStack _ s h _
          (net_frame_check _ s _ 1654 (net_frame_check _ s _ 1653 (net_frame_log s _ h))))
  · exact net_frame_reject _ _ _ _ _ _ (net_frame_log s _ h) hrej
  · show (ev_mod_nmoesi_read_request s h).events = _ ∧
      (ev_mod_nmoesi_read_request s h).net_oracle = _
    unfold ev_mod_nmoesi_read_request
    exact net_frame_reject _ _ _ _ _ _
      (net_frame_check _ s _ 2015 (net_frame_modRet _ s h _ (net_frame_log s _ h))) hrej
  · show (ev_mod_nmoesi_read_request_reply s h).events = _ ∧
      (ev_mod_nmoesi_read_request_reply s h).net_oracle = _
    unfold ev_mod_nmoesi_read_request_reply
    exact net_frame_reject _ _ _ _ _ _
      (net_frame_check _ s _ 2708 (net_frame_check _ s _ 2707 (net_frame_log s _ h))) hrej
  · show (ev_mod_nmoesi_write_request s h).events = _ ∧
      (ev_mod_nmoesi_write_request s h).net_oracle = _
    unfold ev_mod_nmoesi_write_request
    exact net_frame_reject _ _ _ _ _ _
      (net_frame_check _ s _ 2870 (net_frame_set_reply _ s h _ (net_frame_modStack _ s h _
        (net_frame_modRet _ s h _ (net_frame_log s _ h))))) hrej
  · show (ev_mod_nmoesi_write_request_reply s h).events = _ ∧
      (ev_mod_nmoesi_write_request_reply s h).net_oracle = _
    unfold ev_mod_nmoesi_write_request_reply
    exact net_frame_reject _ _ _ _ _ _
      (net_frame_check _ s _ 3421 (net_frame_log s _ h)) hrej

theorem lock_error_retry (s : Sim) (h : Nat) (a : Ev × Ev) (ha : a ∈ lock_retry_steps)
    (herr : (s.stack_tab h).err = true) :
    block_view (dispatch a.1 s h) = block_view s ∧
    ((dispatch a.1 s h).stack_tab h).retry = true ∧
    (dispatch a.1 s h).events =
      insert_event (s.esim_time + (mod_get_retry_latency s (s.stack_tab h).mod).1) a.2 h
        s.events := by
  simp only [lock_retry_steps, List.mem_cons, List.mem_singleton, List.not_mem_nil,
    or_false] at ha
  rcases ha with rfl | rfl | rfl
  · show block_view (ev_mod_nmoesi_load_action s h) = _ ∧
      ((ev_mod_nmoesi_load_action s h).stack_tab h).retry = true ∧
      (ev_mod_nmoesi_load_action s h).events = _
    unfold ev_mod_nmoesi_load_action
    simp only [Sim.log, herr, if_true]
    refine ⟨block_view_mods _ _ rfl, ?_, rfl⟩
    simp [esim_schedule_event, Sim.modStack, Sim.setStack, mod_get_retry_latency]
  · show block_view (ev_mod_nmoesi_store_action s h) = _ ∧
      ((ev_mod_nmoesi_store_action s h).stack_tab h).retry = true ∧
      (ev_mod_nmoesi_store_action s h).events = _
    unfold ev_mod_nmoesi_store_action
    simp only [Sim.log, herr, if_true]
    refine ⟨block_view_mods _ _ rfl, ?_, rfl⟩
    simp [esim_schedule_event, Sim.modStack, Sim.setStack, mod_get_retry_latency]
  · show block_view (ev_mod_nmoesi_nc_store_action s h) = _ ∧
      ((ev_mod_nmoesi_nc_store_action s h).stack_tab h).retry = true ∧
      (ev_mod_nmoesi_nc_store_action s h).events = _
    unfold ev_mod_nmoesi_nc_store_action
    simp only [Sim.log, herr, if_true]
    refine ⟨block_view_mods _ _ rfl, ?_, rfl⟩
    simp [esim_schedule_event, Sim.modStack, Sim.setStack, mod_get_retry_latency]

set_option maxRecDepth 100000 in
/-- C31 (counterexample): a failed attempt before the successful one changes the
final blocks.  In `retry_demo` core 0 loads 4672 while the L2 entry of its
least recently used line 4416 is locked by a Message of core 1.  When the
Message releases the entry at once (`retry_demo 0`), the single attempt of the
Load evicts 4416 and installs 4672 in way 1.  When the entry is released at
time 12 (`retry_demo 12`), the eviction of 4416 fails, `LOAD_ACTION` sees the
error and enters `LOAD_LOCK` again, and the second attempt evicts 4160 and
installs 4672 in way 0.  Both runs end with no event left, no failed assertion
and the same blocks in the L2. -/
theorem lock_retry_picks_other_victim :
    ((esim_run 80 (retry_demo 0)).events = [] ∧ (esim_run 80 (retry_demo 0)).fatal = false ∧
      (esim_run 80 (retry_demo 0)).assert_log = [] ∧
      (esim_run 80 (retry_demo 0)).trace.count (EV_MOD_NMOESI_LOAD_LOCK, 2) = 1 ∧
      (esim_run 80 (retry_demo 0)).trace.count (EV_MOD_NMOESI_LOAD_FINISH, 2) = 1 ∧
      block_view (esim_run 80 (retry_demo 0)) 0 1 0 = (4160, cache_block_exclusive) ∧
      block_view (esim_run 80 (retry_demo 0)) 0 1 1 = (4672, cache_block_exclusive) ∧
      block_view (esim_run 80 (retry_demo 0)) 2 1 0 = (4160, cache_block_exclusive) ∧
      block_view (esim_run 80 (retry_demo 0)) 2 1 1 = (4672, cache_block_exclusive) ∧
      block_view (esim_run 80 (retry_demo 0)) 2 5 0 = (4416, cache_block_exclusive)) ∧
    ((esim_run 17 (retry_demo 12)).events.head? = some (2, EV_MOD_NMOESI_LOAD_ACTION, 2) ∧
      (lock_error_demo.stack_tab 2).err = true ∧
      block_view lock_error_demo 0 1 0 = (4160, cache_block_exclusive) ∧
      block_view lock_error_demo 0 1 1 = (4416, cache_block_exclusive) ∧
      (esim_run 80 (retry_demo 12)).events = [] ∧ (esim_run 80 (retry_demo 12)).fatal = false ∧
      (esim_run 80 (retry_demo 12)).assert_log = [] ∧
      (esim_run 80 (retry_demo 12)).trace.count (EV_MOD_NMOESI_LOAD_LOCK, 2) = 2 ∧
      (esim_run 80 (retry_demo 12)).trace.count (EV_MOD_NMOESI_LOAD_FINISH, 2) = 1 ∧
      block_view (esim_run 80 (retry_demo 12)) 0 1 0 = (4672, cache_block_exclusive) ∧
      block_view (esim_run 80 (retry_demo 12)) 0 1 1 = (4416, cache_block_exclusive) ∧
      block_view (esim_run 80 (retry_demo 12)) 2 1 0 = (4160, cache_block_exclusive) ∧
      block_view (esim_run 80 (retry_demo 12)) 2 1 1 = (4672, cache_block_exclusive) ∧
      block_view (esim_run 80 (retry_demo 12)) 2 5 0 = (4416, cache_block_exclusive)) := by
  exact ⟨by decide!, by decide!⟩

/-- C31 (amended): a send step of Evict, ReadRequest, WriteRequest or of their
replies changes the tag and the state of no block, so executing it any number
of times before the execution whose send is accepted leaves every block as a
single execution does; when the network rejects its send, the step schedules
itself again for the same access one cycle later and consumes one answer of
the network.  When `LOAD_ACTION`, `STORE_ACTION` or `NC_STORE_ACTION` sees the
error of FindAndLock, it changes no block, sets the retry flag and schedules
`LOAD_LOCK`, `STORE_LOCK` or `NC_STORE_LOCK` after the retry latency; what the
failed FindAndLock did before is not taken back. -/
theorem retry_frame (s : Sim) (h : Nat) :
    (∀ ev ∈ retry_send_steps,
      (∀ n, block_view (finish_iter (dispatch ev) h (n + 1) s) = block_view (dispatch ev s h)) ∧
      block_view (dispatch ev s h) = block_view s ∧
      (net_accepts s = false → (dispatch ev s h).net_log ≠ s.net_log →
        (dispatch ev s h).events = insert_event (s.esim_time + 1) ev h s.events ∧
        (dispatch ev s h).net_oracle = s.net_oracle.tail)) ∧
    (∀ a ∈ lock_retry_steps, (s.stack_tab h).err = true →
      block_view (dispatch a.1 s h) = block_view s ∧
      ((dispatch a.1 s h).stack_tab h).retry = true ∧
      (dispatch a.1 s h).events =
        insert_event (s.esim_time + (mod_get_retry_latency s (s.stack_tab h).mod).1) a.2 h
          s.events) := by
  refine ⟨fun ev hev => ⟨fun n => ?_, ?_, fun hrej hsend => send_step_reject s h ev hev hrej hsend⟩,
    fun a ha herr => lock_error_retry s h a ha herr⟩
  · rw [block_view_mods _ _ (send_iter_mods ev hev h (n + 1) s),
      block_view_mods _ _ (send_step_mods s h ev hev)]
  · exact block_view_mods _ _ (send_step_mods s h ev hev)

set_option maxRecDepth 100000 in
/-- Witness for C31: in `retry_demo 0` the send of `EVICT_ACTION` of the
eviction of 4416 (stack 4) is rejected once, and in `retry_demo 12`
`LOAD_ACTION` of the Load (stack 2) sees the error of its FindAndLock. -/
theorem retry_frame_witness :
    ((esim_run 10 (retry_demo 0)).events.head? = some (0, EV_MOD_NMOESI_EVICT_ACTION, 4) ∧
      EV_MOD_NMOESI_EVICT_ACTION ∈ retry_send_steps ∧
      net_accepts reject_demo = false ∧
      (dispatch EV_MOD_NMOESI_EVICT_ACTION reject_demo 4).net_log ≠ reject_demo.net_log ∧
      ((∀ n, block_view (finish_iter (dispatch EV_MOD_NMOESI_EVICT_ACTION) 4 (n + 1) reject_demo) =
          block_view (dispatch EV_MOD_NMOESI_EVICT_ACTION reject_demo 4)) ∧
        block_view (dispatch EV_MOD_NMOESI_EVICT_ACTION reject_demo 4) = block_view reject_demo ∧
        (dispatch EV_MOD_NMOESI_EVICT_ACTION reject_demo 4).events =
          insert_event (reject_demo.esim_time + 1) EV_MOD_NMOESI_EVICT_ACTION 4
            reject_demo.events ∧
        (dispatch EV_MOD_NMOESI_EVICT_ACTION reject_demo 4).net_oracle =
          reject_demo.net_oracle.tail)) ∧
    ((esim_run 17 (retry_demo 12)).events.head? = some (2, EV_MOD_NMOESI_LOAD_ACTION, 2) ∧
      (EV_MOD_NMOESI_LOAD_ACTION, EV_MOD_NMOESI_LOAD_LOCK) ∈ lock_retry_steps ∧
      (lock_error_demo.stack_tab 2).err = true ∧
      block_view (dispatch EV_MOD_NMOESI_LOAD_ACTION lock_error_demo 2) =
        block_view lock_error_demo ∧
      ((dispatch EV_MOD_NMOESI_LOAD_ACTION lock_error_demo 2).stack_tab 2).retry = true ∧
      (dispatch EV_MOD_NMOESI_LOAD_ACTION lock_error_demo 2).events =
        insert_event (lock_error_demo.esim_time +
          (mod_get_retry_latency lock_error_demo (lock_error_demo.stack_tab 2).mod).1)
          EV_MOD_NMOESI_LOAD_LOCK 2 lock_error_demo.events) :=
  ⟨⟨by decide!, by decide, by decide!, by decide!,
    ((retry_frame reject_demo 4).1 EV_MOD_NMOESI_EVICT_ACTION (by decide)).1,
    ((retry_frame reject_demo 4).1 EV_MOD_NMOESI_EVICT_ACTION (by decide)).2.1,
    ((retry_frame reject_demo 4).1 EV_MOD_NMOESI_EVICT_ACTION (by decide)).2.2
      (by decide!) (by decide!)⟩,
   ⟨by decide!, by decide, by decide!,
    (retry_frame lock_error_demo 2).2 (EV_MOD_NMOESI_LOAD_ACTION, EV_MOD_NMOESI_LOAD_LOCK)
      (by decide) (by decide!)⟩⟩

/-- Witness for C40: the call of the Load miss of Scenario 1, (Invalid,
Exclusive, load), fails the first assertion, and from counters that are all
zero the `switch` leaves the counter of (load, Invalid, Exclusive) at 1. -/
theorem state_counter_asserts_fail_witness :
    (state_counter_asserts cache_block_invalid cache_block_exclusive mod_trans_load).head? =
      some false ∧
    mod_update_state_modification_counters (fun _ _ _ => 0) cache_block_invalid
      cache_block_exclusive mod_trans_load mod_trans_load cache_block_invalid
      cache_block_exclusive = 1 :=
  ⟨state_counter_asserts_fail.2.2.2.1 mod_trans_load cache_block_invalid cache_block_exclusive
    (Or.inl rfl),
   (state_counter_asserts_fail.2.2.2.2 (fun _ _ _ => 0) mod_trans_load cache_block_invalid
    cache_block_exclusive (Or.inl rfl)).1⟩

/-! ### Symbolic run of Scenario 1 -/

/-- Updating a table twice at one index keeps the later value. -/
theorem upd_upd_same {α : Type} (f : Nat → α) (i : Nat) (a b : α) :
    upd (upd f i a) i b = upd f i b := by
  funext j
  unfold upd
  split <;> rfl

/-- Updates of a table at different indices commute; used left to right to sort
them by index. -/
theorem upd_upd_comm {α : Type} (f : Nat → α) (i j : Nat) (a b : α) (h : i < j) :
    upd (upd f j a) i b = upd (upd f i b) j a := by
  funext k
  unfold upd
  by_cases h1 : k = i
  · have h2 : i ≠ j := by omega
    subst h1
    simp [h2]
  · simp [h1]

/-- Updating a block table twice at one entry keeps the later value. -/
theorem upd2_upd2_same {α : Type} (f : Int → Int → α) (i j : Int) (a b : α) :
    upd2 (upd2 f i j a) i j b = upd2 f i j b := by
  funext x y
  unfold upd2
  split <;> rfl

/-- Updating a per-set table twice at one set keeps the later value. -/
theorem updI_updI_same {α : Type} (f : Int → α) (i : Int) (a b : α) :
    updI (updI f i a) i b = updI f i b := by
  funext x
  unfold updI
  split <;> rfl

/-- The ways of a two-way cache. -/
theorem range2 : List.range 2 = [0, 1] := rfl

/-- The ways of a four-way cache. -/
theorem range4 : List.range 4 = [0, 1, 2, 3] := rfl

/-- An `unsigned int` is at most `0xffffffff`. -/
theorem toU32_le (x : Int) : toU32 x ≤ 4294967295 := by
  unfold toU32
  have h1 : 0 ≤ x % 4294967296 := Int.emod_nonneg _ (by decide)
  have h2 : x % 4294967296 < 4294967296 := Int.emod_lt_of_pos _ (by decide)
  omega

/-- With the oracle list empty the network accepts the send: the message is
logged, the stack carries it and the receive event is scheduled after the
network delay. -/
theorem net_try_send_ev_nil (s : Sim) (h : Nat) (size : Int) (re rt : Ev)
    (ho : s.net_oracle = []) :
    net_try_send_ev s h size re rt =
      esim_schedule_event
        (({ s with net_oracle := [], net_log := s.net_log ++ [(re, size, true)] } : Sim).setStack h
          { s.stack_tab h with msg := true }) re h s.net_delay := by
  unfold net_try_send_ev
  rw [ho]
  rfl

/-- A block tag of a 64-byte-block cache survives the round trip through `int`. -/
theorem toU32_tag (X : Nat) : toU32 (toI32 (X &&& 4294967232)) = X &&& 4294967232 :=
  toU32_toI32 _ (Nat.lt_of_le_of_lt Nat.and_le_right (by decide))

/-- Masking the block offset twice is masking it once. -/
theorem and_mask_idem (X : Nat) : (X &&& 4294967232) &&& 4294967232 = X &&& 4294967232 := by
  rw [Nat.and_assoc, Nat.and_self]

/-- A masked address fits in 32 bits. -/
theorem and_mask_le (X : Nat) : X &&& 4294967232 ≤ 4294967295 :=
  Nat.le_trans Nat.and_le_right (by decide)

/-- A masked address is a multiple of the block size 64. -/
theorem and_mask_mod (X : Nat) : (X &&& 4294967232) % 64 = 0 := by
  have h : (X &&& 4294967232) % 2 ^ 6 = (X &&& 4294967232) &&& (2 ^ 6 - 1) :=
    (Nat.and_pow_two_sub_one_eq_mod _ 6).symm
  have e : (4294967232 : Nat) &&& (2 ^ 6 - 1) = 0 := by decide
  rw [Nat.and_assoc, e, Nat.and_zero] at h
  exact h

/-- A single way. -/
theorem range1 : List.range 1 = [0] := rfl

/-- On a chain of module 0 over module 1 over main memory 2, `check_after_install`
for a block installed Exclusive in module 0 changes nothing when modules 1 and
2 both hold the block Exclusive: no branch of `mod_check_coherency_status`
calls `fatal`. -/
theorem check_chain_ok (s : Sim) (tag : Int) (r1 r2 : find_block_t)
    (k0 : (s.mods 0).kind = mod_kind_cache) (l0 : (s.mods 0).low_mod_list = [1])
    (i0 : (s.mods 0).mod_id = 0)
    (k1 : (s.mods 1).kind = mod_kind_cache) (l1 : (s.mods 1).low_mod_list = [2])
    (i1 : (s.mods 1).mod_id = 1) (h1 : (s.mods 1).has_high_net = true)
    (n1 : (s.mods 1).node_list = [⟨net_node_end, 0⟩, ⟨net_node_end, 1⟩, ⟨net_node_switch, 0⟩])
    (c1 : (s.mods 1).num_nodes = 3) (w1 : (s.mods 1).has_low_net = true)
    (g1 : (s.mods 1).range = mod_range_bounds 0 4294967295)
    (i2 : (s.mods 2).mod_id = 2) (h2 : (s.mods 2).has_high_net = true)
    (n2 : (s.mods 2).node_list = [⟨net_node_end, 1⟩, ⟨net_node_end, 2⟩, ⟨net_node_switch, 0⟩])
    (c2 : (s.mods 2).num_nodes = 3) (w2 : (s.mods 2).has_low_net = false)
    (g2 : (s.mods 2).range = mod_range_bounds 0 4294967295)
    (nm : s.num_mods = 3)
    (f1 : mod_find_block (s.mods 1) (toU32 tag) 0 s.uninit_state = some r1)
    (e1 : r1.hit = true) (s1 : r1.state = cache_block_exclusive)
    (f2 : mod_find_block (s.mods 2) (toU32 tag) 0 s.uninit_state = some r2)
    (e2 : r2.hit = true) (s2 : r2.state = cache_block_exclusive) :
    check_after_install s 0 tag cache_block_exclusive = s := by
  have hle : toU32 tag ≤ 4294967295 := toU32_le tag
  have low0 : mod_get_low_mod s 0 (toU32 tag) = low_mod_t.server 1 := by
    simp [mod_get_low_mod, mod_get_low_mod_loop, mod_serves_address, k0, l0, g1, hle]
  have low1 : mod_get_low_mod s 1 (toU32 tag) = low_mod_t.server 2 := by
    simp [mod_get_low_mod, mod_get_low_mod_loop, mod_serves_address, k1, l1, g2, hle]
  unfold check_after_install
  rw [low0]
  simp only
  have hc : mod_check_coherency_status s 0 (toU32 tag) cache_block_exclusive (coherency_fuel s)
      (some 1) 0 false = false := by
    unfold coherency_fuel
    rw [nm]
    show mod_check_coherency_status s 0 (toU32 tag) cache_block_exclusive (7 + 1) (some 1) 0 false
      = false
    unfold mod_check_coherency_status
    simp only [f1]
    simp [coherency_violation, e1, s1, h1, n1, c1, i0, i1, w1, low1]
    unfold mod_check_coherency_status
    simp only [f2]
    simp [coherency_violation, e2, s2, h2, n2, c2, i0, i1, i2, w2]
  rw [hc]
  rfl
/-- The way loop of `mod_find_block` stops at way `way + k` when the `k` ways
before it are Invalid and that way holds the tag in a valid state. -/
theorem mod_find_block_scan_hit (c : cache_t) (set tag : Int) :
    ∀ (k n way : Nat), k < n →
      (∀ j : Nat, j < k → (c.blocks set ((way + j : Nat) : Int)).state = cache_block_invalid) →
      (c.blocks set ((way + k : Nat) : Int)).tag = tag →
      (c.blocks set ((way + k : Nat) : Int)).state ≠ cache_block_invalid →
      mod_find_block_scan c set tag n way = way + k := by
  intro k
  induction k with
  | zero =>
    intro n way hk _ ht hs
    obtain ⟨n, rfl⟩ : ∃ m, n = m + 1 := ⟨n - 1, by omega⟩
    simp only [Nat.add_zero] at ht hs
    simp [mod_find_block_scan, ht, hs]
  | succ k ih =>
    intro n way hk hinv ht hs
    obtain ⟨n, rfl⟩ : ∃ m, n = m + 1 := ⟨n - 1, by omega⟩
    have h0 := hinv 0 (by omega)
    simp only [Nat.add_zero] at h0
    have := ih n (way + 1) (by omega)
      (fun j hj => by have := hinv (j + 1) (by omega); rwa [show way + 1 + j = way + (j + 1) by omega])
      (by rwa [show way + 1 + k = way + (k + 1) by omega])
      (by rwa [show way + 1 + k = way + (k + 1) by omega])
    simp only [mod_find_block_scan, h0, ne_eq, not_true_eq_false, and_false, if_false, this]
    omega

/-- The lookup `mod_find_block` hits at way `w` of the set of the address when the
ways before `w` are Invalid and way `w` holds the tag in a valid state. -/
theorem mod_find_block_hit (md : mod_t) (a : Nat) (way0 : Int) (st0 : cache_block_state_t)
    (lo hi w : Nat) (T : Int) (st : cache_block_state_t)
    (hr : md.range = mod_range_bounds lo hi)
    (hT : mod_find_block_tag md.cache a = T)
    (hw : w < md.cache.assoc)
    (hinv : ∀ j : Nat, j < w →
      (md.cache.blocks (toI32 (toU32 (T >>> md.cache.log_block_size) % md.cache.num_sets)) (j : Int)).state
        = cache_block_invalid)
    (ht : (md.cache.blocks (toI32 (toU32 (T >>> md.cache.log_block_size) % md.cache.num_sets)) (w : Int)).tag = T)
    (hs : (md.cache.blocks (toI32 (toU32 (T >>> md.cache.log_block_size) % md.cache.num_sets)) (w : Int)).state = st)
    (hv : st ≠ cache_block_invalid) :
    mod_find_block md a way0 st0 =
      some ⟨true, toI32 (toU32 (T >>> md.cache.log_block_size) % md.cache.num_sets), (w : Int), T, st⟩ := by
  have hscan := mod_find_block_scan_hit md.cache
    (toI32 (toU32 (T >>> md.cache.log_block_size) % md.cache.num_sets)) T w md.cache.assoc 0 hw
    (fun j hj => by simpa using hinv j hj) (by simpa using ht) (by simpa [hs] using hv)
  simp only [Nat.zero_add] at hscan
  unfold mod_find_block
  simp only [hT, mod_find_block_set, hr, hscan]
  rw [if_neg (by omega)]
  simp [hs]

/-- The value of `~block_mask` for 64-byte blocks, as an `unsigned int`. -/
theorem xor_mask63 : (4294967295 ^^^ 63 : Nat) = 4294967232 := by decide
/-- The tag of a tag is the tag itself (64-byte blocks). -/
theorem mod_find_block_tag_mask63 (c : cache_t) (X : Nat) (h : c.block_mask = 63) :
    mod_find_block_tag c (toU32 (toI32 (X &&& 4294967232))) = toI32 (X &&& 4294967232) := by
  unfold mod_find_block_tag
  rw [h, toU32_tag, xor_mask63, and_mask_idem]

/-- The tag of an address in a cache with 64-byte blocks. -/
theorem mod_find_block_tag_mask (c : cache_t) (X : Nat) (h : c.block_mask = 63) :
    mod_find_block_tag c X = toI32 (X &&& 4294967232) := by
  unfold mod_find_block_tag
  rw [h, xor_mask63]

/-- The state `line_state` reports for a block that sits at way `w` of its set,
the ways before `w` being Invalid. -/
theorem line_state_hit (s : Sim) (m X lo hi w : Nat) (st : cache_block_state_t)
    (hr : (s.mods m).range = mod_range_bounds lo hi)
    (hm : (s.mods m).cache.block_mask = 63)
    (hw : w < (s.mods m).cache.assoc)
    (hinv : ∀ j : Nat, j < w →
      ((s.mods m).cache.blocks (toI32 (toU32 (toI32 (X &&& 4294967232) >>>
        (s.mods m).cache.log_block_size) % (s.mods m).cache.num_sets)) (j : Int)).state
        = cache_block_invalid)
    (ht : ((s.mods m).cache.blocks (toI32 (toU32 (toI32 (X &&& 4294967232) >>>
        (s.mods m).cache.log_block_size) % (s.mods m).cache.num_sets)) (w : Int)).tag
        = toI32 (X &&& 4294967232))
    (hs : ((s.mods m).cache.blocks (toI32 (toU32 (toI32 (X &&& 4294967232) >>>
        (s.mods m).cache.log_block_size) % (s.mods m).cache.num_sets)) (w : Int)).state = st)
    (hv : st ≠ cache_block_invalid) :
    line_state s m X = st := by
  unfold line_state
  rw [mod_find_block_hit _ X _ _ lo hi w (toI32 (X &&& 4294967232)) st hr
    (mod_find_block_tag_mask _ _ hm) hw hinv ht hs hv]
  rfl

/-- An entry lock table whose entries are all free stays so when a free entry is
written. -/
theorem upd2_lock_false (f : Int → Int → cache_lock_t) (i j : Int) (v : cache_lock_t)
    (hv : v.lock = false) (hf : ∀ a b, (f a b).lock = false) (a b : Int) :
    (upd2 f i j v a b).lock = false := by
  unfold upd2
  split
  · exact hv
  · exact hf a b

/-- One turn of the scheduler. -/
theorem esim_run_succ (n : Nat) (s : Sim) : esim_run (n + 1) s = esim_run n (esim_step s) := rfl

/-- With the event queue empty the scheduler does nothing. -/
theorem esim_run_idle (n : Nat) (s : Sim) (h : s.events = []) : esim_run n s = s := by
  induction n with
  | zero => rfl
  | succ k ih =>
    rw [esim_run_succ]
    have : esim_step s = s := by
      unfold esim_step
      split
      · rfl
      · rw [h]
    rw [this, ih]

set_option maxHeartbeats 40000000 in
set_option maxRecDepth 100000 in
/-- C6: Scenario 1.  On the empty chain L1 -> L2 -> MainMemory with a network
that accepts every send, for every address `X` and each value an uninitialised
local may have, a single Load runs to completion (queue empty, no `fatal`, no
failed assertion, `EV_MOD_NMOESI_LOAD_FINISH` executed for the access);
FindAndLock missed at L1 (stack 1) and at L2 (stack 3); main memory, L2 and L1
all hold the block of `X` Exclusive; every entry lock and every port of the
three modules is released.  The proof runs the 33 events of the access on the
symbolic address. -/
theorem scenario1_cascading_fill (uninit : cache_block_state_t) (X : Nat) :
    (scenario1 uninit X).events = [] ∧
    (scenario1 uninit X).fatal = false ∧
    (scenario1 uninit X).assert_log = [] ∧
    (EV_MOD_NMOESI_LOAD_FINISH, 0) ∈ (scenario1 uninit X).trace ∧
    ((scenario1 uninit X).stack_tab 1).mod = 0 ∧
    ((scenario1 uninit X).stack_tab 1).hit = false ∧
    ((scenario1 uninit X).stack_tab 3).mod = 1 ∧
    ((scenario1 uninit X).stack_tab 3).hit = false ∧
    line_state (scenario1 uninit X) 2 X = cache_block_exclusive ∧
    line_state (scenario1 uninit X) 1 X = cache_block_exclusive ∧
    line_state (scenario1 uninit X) 0 X = cache_block_exclusive ∧
    mod_released (scenario1 uninit X) 0 ∧
    mod_released (scenario1 uninit X) 1 ∧
    mod_released (scenario1 uninit X) 2 := by
  have key : ∀ Q : Sim → Prop,
      (∀ s : Sim, (s.events = [] ∧
      s.fatal = false ∧
      s.assert_log = [] ∧
      (EV_MOD_NMOESI_LOAD_FINISH, 0) ∈ s.trace ∧
      (s.stack_tab 1).mod = 0 ∧
      (s.stack_tab 1).hit = false ∧
      (s.stack_tab 3).mod = 1 ∧
      (s.stack_tab 3).hit = false ∧
      line_state s 2 X = cache_block_exclusive ∧
      line_state s 1 X = cache_block_exclusive ∧
      line_state s 0 X = cache_block_exclusive ∧
      mod_released s 0 ∧
      mod_released s 1 ∧
      mod_released s 2) → Q s) →
      Q (esim_run 64 (mod_access (chain_init uninit) 0 mod_access_load X false)) := by
    intro Q hQ
    simp [mod_access, dispatch, mod_handler_nmoesi_load, ev_mod_nmoesi_load,
        mod_reply_type_t.toNat, cache_block_state_t.valid, cache_block_next_state, flag, upd,
        upd2, updI, Sim.setStack, Sim.setMod, Sim.setCache, Sim.check, Sim.stop, Sim.log,
        insert_event, esim_schedule_event, mod_get_retry_latency, mod_stack_zero,
        mod_stack_create, wakeup_list, mod_stack_return, mod_stack_wait_in_stack,
        mod_stack_set_reply, set_reply_max, cache_set_block, cache_get_block,
        cache_set_transient_tag, cache_access_block, cache_replace_block, replace_lru,
        cache_lock_get, Sim.setLock, cache_entry_lock, cache_entry_unlock, mod_find_block_scan,
        mod_find_block_tag, mod_find_block_set, mod_find_block, port_scan, mod_lock_port,
        mod_unlock_port, hash_index, mod_access_start, mod_access_finish, prev_chain,
        mod_in_flight_address, mod_in_flight_write, mod_serves_address, mod_get_low_mod_loop,
        mod_get_low_mod, mod_can_coalesce, mod_read_write_req_access_start,
        mod_read_write_req_access_finish, mod_in_flight_read_write_req_address,
        mod_in_flight_evict_address, Sim.modStack, Sim.modRet, mod_stack_t.plain,
        mod_stack_t.locks, mod_stack_t.known_op, low_mod_t.toOption, fanout, downup_older_stack,
        read_request_updown_send, read_request_updown_shared, cache_empty, mod_new, sim_new,
        chain_mods, chain_init, MOD_ACCESS_HASH_TABLE_SIZE, upd_upd_same, upd_upd_comm,
        upd2_upd2_same, updI_updI_same, toU32_le, toU32_tag, and_mask_idem, and_mask_le,
        and_mask_mod, range1, range2, range4]
    rw [esim_run_succ]
    simp [esim_step, dispatch, mod_handler_nmoesi_load, ev_mod_nmoesi_load_lock,
        mod_reply_type_t.toNat, cache_block_state_t.valid, cache_block_next_state, flag, upd,
        upd2, updI, Sim.setStack, Sim.setMod, Sim.setCache, Sim.check, Sim.stop, Sim.log,
        insert_event, esim_schedule_event, mod_get_retry_latency, mod_stack_zero,
        mod_stack_create, wakeup_list, mod_stack_return, mod_stack_wait_in_stack,
        mod_stack_set_reply, set_reply_max, cache_set_block, cache_get_block,
        cache_set_transient_tag, cache_access_block, cache_replace_block, replace_lru,
        cache_lock_get, Sim.setLock, cache_entry_lock, cache_entry_unlock, mod_find_block_scan,
        mod_find_block_tag, mod_find_block_set, mod_find_block, port_scan, mod_lock_port,
        mod_unlock_port, hash_index, mod_access_start, mod_access_finish, prev_chain,
        mod_in_flight_address, mod_in_flight_write, mod_serves_address, mod_get_low_mod_loop,
        mod_get_low_mod, mod_can_coalesce, mod_read_write_req_access_start,
        mod_read_write_req_access_finish, mod_in_flight_read_write_req_address,
        mod_in_flight_evict_address, Sim.modStack, Sim.modRet, mod_stack_t.plain,
        mod_stack_t.locks, mod_stack_t.known_op, low_mod_t.toOption, fanout, downup_older_stack,
        read_request_updown_send, read_request_updown_shared, cache_empty, mod_new, sim_new,
        chain_mods, chain_init, MOD_ACCESS_HASH_TABLE_SIZE, upd_upd_same, upd_upd_comm,
        upd2_upd2_same, updI_updI_same, toU32_le, toU32_tag, and_mask_idem, and_mask_le,
        and_mask_mod, range1, range2, range4]
    rw [esim_run_succ]
    simp [esim_step, dispatch, mod_handler_nmoesi_find_and_lock, ev_mod_nmoesi_find_and_lock,
        mod_reply_type_t.toNat, cache_block_state_t.valid, cache_block_next_state, flag, upd,
        upd2, updI, Sim.setStack, Sim.setMod, Sim.setCache, Sim.check, Sim.stop, Sim.log,
        insert_event, esim_schedule_event, mod_get_retry_latency, mod_stack_zero,
        mod_stack_create, wakeup_list, mod_stack_return, mod_stack_wait_in_stack,
        mod_stack_set_reply, set_reply_max, cache_set_block, cache_get_block,
        cache_set_transient_tag, cache_access_block, cache_replace_block, replace_lru,
        cache_lock_get, Sim.setLock, cache_entry_lock, cache_entry_unlock, mod_find_block_scan,
        mod_find_block_tag, mod_find_block_set, mod_find_block, port_scan, mod_lock_port,
        mod_unlock_port, hash_index, mod_access_start, mod_access_finish, prev_chain,
        mod_in_flight_address, mod_in_flight_write, mod_serves_address, mod_get_low_mod_loop,
        mod_get_low_mod, mod_can_coalesce, mod_read_write_req_access_start,
        mod_read_write_req_access_finish, mod_in_flight_read_write_req_address,
        mod_in_flight_evict_address, Sim.modStack, Sim.modRet, mod_stack_t.plain,
        mod_stack_t.locks, mod_stack_t.known_op, low_mod_t.toOption, fanout, downup_older_stack,
        read_request_updown_send, read_request_updown_shared, cache_empty, mod_new, sim_new,
        chain_mods, chain_init, MOD_ACCESS_HASH_TABLE_SIZE, upd_upd_same, upd_upd_comm,
        upd2_upd2_same, updI_updI_same, toU32_le, toU32_tag, and_mask_idem, and_mask_le,
        and_mask_mod, range1, range2, range4]
    rw [esim_run_succ]
    simp [esim_step, dispatch, mod_handler_nmoesi_find_and_lock]
    rw [find_and_lock_port_eq _ _ ⟨false,
        toI32 (toU32 (toI32 (X &&& 4294967232) >>> (6 : Nat)) % 4), -1,
      toI32 (X &&& 4294967232), cache_block_invalid⟩ ?hfb ?hop]
    case hop => simp [mod_stack_t.known_op]
    case hfb =>
      simp only [upd, if_true]
      simp only [mod_find_block, mod_find_block_set, mod_find_block_tag, mod_find_block_scan]
      simp [and_mask_idem]
    simp [find_and_lock_port_lookup, range2, range4, mod_reply_type_t.toNat,
        cache_block_state_t.valid, cache_block_next_state, flag, upd, upd2, updI, Sim.setStack,
        Sim.setMod, Sim.setCache, Sim.check, Sim.stop, Sim.log, insert_event, esim_schedule_event,
        mod_get_retry_latency, mod_stack_zero, mod_stack_create, wakeup_list, mod_stack_return,
        mod_stack_wait_in_stack, mod_stack_set_reply, set_reply_max, cache_set_block,
        cache_get_block, cache_set_transient_tag, cache_access_block, cache_replace_block,
        replace_lru, cache_lock_get, Sim.setLock, cache_entry_lock, cache_entry_unlock,
        mod_find_block_scan, mod_find_block_tag, mod_find_block_set, mod_find_block, port_scan,
        mod_lock_port, mod_unlock_port, hash_index, mod_access_start, mod_access_finish,
        prev_chain, mod_in_flight_address, mod_in_flight_write, mod_serves_address,
        mod_get_low_mod_loop, mod_get_low_mod, mod_can_coalesce, mod_read_write_req_access_start,
        mod_read_write_req_access_finish, mod_in_flight_read_write_req_address,
        mod_in_flight_evict_address, Sim.modStack, Sim.modRet, mod_stack_t.plain,
        mod_stack_t.locks, mod_stack_t.known_op, low_mod_t.toOption, fanout, downup_older_stack,
        read_request_updown_send, read_request_updown_shared, cache_empty, mod_new, sim_new,
        chain_mods, chain_init, MOD_ACCESS_HASH_TABLE_SIZE, upd_upd_same, upd_upd_comm,
        upd2_upd2_same, updI_updI_same, toU32_le, toU32_tag, and_mask_idem, and_mask_le,
        and_mask_mod, range1, range2, range4]
    rw [find_and_lock_port_lock_acquire_eq _ _ _ _ (by simp [mod_stack_t.plain, upd])
      (by simp [upd]) (by simp [cache_lock_get, upd])]
    simp [mod_reply_type_t.toNat, cache_block_state_t.valid, cache_block_next_state, flag, upd,
        upd2, updI, Sim.setStack, Sim.setMod, Sim.setCache, Sim.check, Sim.stop, Sim.log,
        insert_event, esim_schedule_event, mod_get_retry_latency, mod_stack_zero,
        mod_stack_create, wakeup_list, mod_stack_return, mod_stack_wait_in_stack,
        mod_stack_set_reply, set_reply_max, cache_set_block, cache_get_block,
        cache_set_transient_tag, cache_access_block, cache_replace_block, replace_lru,
        cache_lock_get, Sim.setLock, cache_entry_lock, cache_entry_unlock, mod_find_block_scan,
        mod_find_block_tag, mod_find_block_set, mod_find_block, port_scan, mod_lock_port,
        mod_unlock_port, hash_index, mod_access_start, mod_access_finish, prev_chain,
        mod_in_flight_address, mod_in_flight_write, mod_serves_address, mod_get_low_mod_loop,
        mod_get_low_mod, mod_can_coalesce, mod_read_write_req_access_start,
        mod_read_write_req_access_finish, mod_in_flight_read_write_req_address,
        mod_in_flight_evict_address, Sim.modStack, Sim.modRet, mod_stack_t.plain,
        mod_stack_t.locks, mod_stack_t.known_op, low_mod_t.toOption, fanout, downup_older_stack,
        read_request_updown_send, read_request_updown_shared, cache_empty, mod_new, sim_new,
        chain_mods, chain_init, MOD_ACCESS_HASH_TABLE_SIZE, upd_upd_same, upd_upd_comm,
        upd2_upd2_same, updI_updI_same, toU32_le, toU32_tag, and_mask_idem, and_mask_le,
        and_mask_mod, range1, range2, range4]
    rw [esim_run_succ]
    simp [esim_step, dispatch, mod_handler_nmoesi_find_and_lock,
        ev_mod_nmoesi_find_and_lock_action, mod_reply_type_t.toNat, cache_block_state_t.valid,
        cache_block_next_state, flag, upd, upd2, updI, Sim.setStack, Sim.setMod, Sim.setCache,
        Sim.check, Sim.stop, Sim.log, insert_event, esim_schedule_event, mod_get_retry_latency,
        mod_stack_zero, mod_stack_create, wakeup_list, mod_stack_return, mod_stack_wait_in_stack,
        mod_stack_set_reply, set_reply_max, cache_set_block, cache_get_block,
        cache_set_transient_tag, cache_access_block, cache_replace_block, replace_lru,
        cache_lock_get, Sim.setLock, cache_entry_lock, cache_entry_unlock, mod_find_block_scan,
        mod_find_block_tag, mod_find_block_set, mod_find_block, port_scan, mod_lock_port,
        mod_unlock_port, hash_index, mod_access_start, mod_access_finish, prev_chain,
        mod_in_flight_address, mod_in_flight_write, mod_serves_address, mod_get_low_mod_loop,
        mod_get_low_mod, mod_can_coalesce, mod_read_write_req_access_start,
        mod_read_write_req_access_finish, mod_in_flight_read_write_req_address,
        mod_in_flight_evict_address, Sim.modStack, Sim.modRet, mod_stack_t.plain,
        mod_stack_t.locks, mod_stack_t.known_op, low_mod_t.toOption, fanout, downup_older_stack,
        read_request_updown_send, read_request_updown_shared, cache_empty, mod_new, sim_new,
        chain_mods, chain_init, MOD_ACCESS_HASH_TABLE_SIZE, upd_upd_same, upd_upd_comm,
        upd2_upd2_same, updI_updI_same, toU32_le, toU32_tag, and_mask_idem, and_mask_le,
        and_mask_mod, range1, range2, range4]
    rw [esim_run_succ]
    simp [esim_step, dispatch, mod_handler_nmoesi_find_and_lock,
        ev_mod_nmoesi_find_and_lock_finish, mod_reply_type_t.toNat, cache_block_state_t.valid,
        cache_block_next_state, flag, upd, upd2, updI, Sim.setStack, Sim.setMod, Sim.setCache,
        Sim.check, Sim.stop, Sim.log, insert_event, esim_schedule_event, mod_get_retry_latency,
        mod_stack_zero, mod_stack_create, wakeup_list, mod_stack_return, mod_stack_wait_in_stack,
        mod_stack_set_reply, set_reply_max, cache_set_block, cache_get_block,
        cache_set_transient_tag, cache_access_block, cache_replace_block, replace_lru,
        cache_lock_get, Sim.setLock, cache_entry_lock, cache_entry_unlock, mod_find_block_scan,
        mod_find_block_tag, mod_find_block_set, mod_find_block, port_scan, mod_lock_port,
        mod_unlock_port, hash_index, mod_access_start, mod_access_finish, prev_chain,
        mod_in_flight_address, mod_in_flight_write, mod_serves_address, mod_get_low_mod_loop,
        mod_get_low_mod, mod_can_coalesce, mod_read_write_req_access_start,
        mod_read_write_req_access_finish, mod_in_flight_read_write_req_address,
        mod_in_flight_evict_address, Sim.modStack, Sim.modRet, mod_stack_t.plain,
        mod_stack_t.locks, mod_stack_t.known_op, low_mod_t.toOption, fanout, downup_older_stack,
        read_request_updown_send, read_request_updown_shared, cache_empty, mod_new, sim_new,
        chain_mods, chain_init, MOD_ACCESS_HASH_TABLE_SIZE, upd_upd_same, upd_upd_comm,
        upd2_upd2_same, updI_updI_same, toU32_le, toU32_tag, and_mask_idem, and_mask_le,
        and_mask_mod, range1, range2, range4]
    rw [esim_run_succ]
    simp [esim_step, dispatch, mod_handler_nmoesi_load, ev_mod_nmoesi_load_action,
        mod_reply_type_t.toNat, cache_block_state_t.valid, cache_block_next_state, flag, upd,
        upd2, updI, Sim.setStack, Sim.setMod, Sim.setCache, Sim.check, Sim.stop, Sim.log,
        insert_event, esim_schedule_event, mod_get_retry_latency, mod_stack_zero,
        mod_stack_create, wakeup_list, mod_stack_return, mod_stack_wait_in_stack,
        mod_stack_set_reply, set_reply_max, cache_set_block, cache_get_block,
        cache_set_transient_tag, cache_access_block, cache_replace_block, replace_lru,
        cache_lock_get, Sim.setLock, cache_entry_lock, cache_entry_unlock, mod_find_block_scan,
        mod_find_block_tag, mod_find_block_set, mod_find_block, port_scan, mod_lock_port,
        mod_unlock_port, hash_index, mod_access_start, mod_access_finish, prev_chain,
        mod_in_flight_address, mod_in_flight_write, mod_serves_address, mod_get_low_mod_loop,
        mod_get_low_mod, mod_can_coalesce, mod_read_write_req_access_start,
        mod_read_write_req_access_finish, mod_in_flight_read_write_req_address,
        mod_in_flight_evict_address, Sim.modStack, Sim.modRet, mod_stack_t.plain,
        mod_stack_t.locks, mod_stack_t.known_op, low_mod_t.toOption, fanout, downup_older_stack,
        read_request_updown_send, read_request_updown_shared, cache_empty, mod_new, sim_new,
        chain_mods, chain_init, MOD_ACCESS_HASH_TABLE_SIZE, upd_upd_same, upd_upd_comm,
        upd2_upd2_same, updI_updI_same, toU32_le, toU32_tag, and_mask_idem, and_mask_le,
        and_mask_mod, range1, range2, range4]
    rw [esim_run_succ]
    simp [esim_step, dispatch, mod_handler_nmoesi_read_request, ev_mod_nmoesi_read_request,
        Sim.log, Sim.modRet, Sim.modStack, Sim.setStack, Sim.check, mod_stack_set_reply,
        set_reply_max, upd, upd_upd_same, upd_upd_comm]
    rw [net_try_send_ev_nil _ _ _ _ _ rfl]
    simp [mod_reply_type_t.toNat, cache_block_state_t.valid, cache_block_next_state, flag, upd,
        upd2, updI, Sim.setStack, Sim.setMod, Sim.setCache, Sim.check, Sim.stop, Sim.log,
        insert_event, esim_schedule_event, mod_get_retry_latency, mod_stack_zero,
        mod_stack_create, wakeup_list, mod_stack_return, mod_stack_wait_in_stack,
        mod_stack_set_reply, set_reply_max, cache_set_block, cache_get_block,
        cache_set_transient_tag, cache_access_block, cache_replace_block, replace_lru,
        cache_lock_get, Sim.setLock, cache_entry_lock, cache_entry_unlock, mod_find_block_scan,
        mod_find_block_tag, mod_find_block_set, mod_find_block, port_scan, mod_lock_port,
        mod_unlock_port, hash_index, mod_access_start, mod_access_finish, prev_chain,
        mod_in_flight_address, mod_in_flight_write, mod_serves_address, mod_get_low_mod_loop,
        mod_get_low_mod, mod_can_coalesce, mod_read_write_req_access_start,
        mod_read_write_req_access_finish, mod_in_flight_read_write_req_address,
        mod_in_flight_evict_address, Sim.modStack, Sim.modRet, mod_stack_t.plain,
        mod_stack_t.locks, mod_stack_t.known_op, low_mod_t.toOption, fanout, downup_older_stack,
        read_request_updown_send, read_request_updown_shared, cache_empty, mod_new, sim_new,
        chain_mods, chain_init, MOD_ACCESS_HASH_TABLE_SIZE, upd_upd_same, upd_upd_comm,
        upd2_upd2_same, updI_updI_same, toU32_le, toU32_tag, and_mask_idem, and_mask_le,
        and_mask_mod, range1, range2, range4]
    rw [esim_run_succ]
    simp [esim_step, dispatch, mod_handler_nmoesi_read_request,
        ev_mod_nmoesi_read_request_receive, mod_reply_type_t.toNat, cache_block_state_t.valid,
        cache_block_next_state, flag, upd, upd2, updI, Sim.setStack, Sim.setMod, Sim.setCache,
        Sim.check, Sim.stop, Sim.log, insert_event, esim_schedule_event, mod_get_retry_latency,
        mod_stack_zero, mod_stack_create, wakeup_list, mod_stack_return, mod_stack_wait_in_stack,
        mod_stack_set_reply, set_reply_max, cache_set_block, cache_get_block,
        cache_set_transient_tag, cache_access_block, cache_replace_block, replace_lru,
        cache_lock_get, Sim.setLock, cache_entry_lock, cache_entry_unlock, mod_find_block_scan,
        mod_find_block_tag, mod_find_block_set, mod_find_block, port_scan, mod_lock_port,
        mod_unlock_port, hash_index, mod_access_start, mod_access_finish, prev_chain,
        mod_in_flight_address, mod_in_flight_write, mod_serves_address, mod_get_low_mod_loop,
        mod_get_low_mod, mod_can_coalesce, mod_read_write_req_access_start,
        mod_read_write_req_access_finish, mod_in_flight_read_write_req_address,
        mod_in_flight_evict_address, Sim.modStack, Sim.modRet, mod_stack_t.plain,
        mod_stack_t.locks, mod_stack_t.known_op, low_mod_t.toOption, fanout, downup_older_stack,
        read_request_updown_send, read_request_updown_shared, cache_empty, mod_new, sim_new,
        chain_mods, chain_init, MOD_ACCESS_HASH_TABLE_SIZE, upd_upd_same, upd_upd_comm,
        upd2_upd2_same, updI_updI_same, toU32_le, toU32_tag, and_mask_idem, and_mask_le,
        and_mask_mod, range1, range2, range4]
    rw [esim_run_succ]
    simp [esim_step, dispatch, mod_handler_nmoesi_find_and_lock, ev_mod_nmoesi_find_and_lock,
        mod_reply_type_t.toNat, cache_block_state_t.valid, cache_block_next_state, flag, upd,
        upd2, updI, Sim.setStack, Sim.setMod, Sim.setCache, Sim.check, Sim.stop, Sim.log,
        insert_event, esim_schedule_event, mod_get_retry_latency, mod_stack_zero,
        mod_stack_create, wakeup_list, mod_stack_return, mod_stack_wait_in_stack,
        mod_stack_set_reply, set_reply_max, cache_set_block, cache_get_block,
        cache_set_transient_tag, cache_access_block, cache_replace_block, replace_lru,
        cache_lock_get, Sim.setLock, cache_entry_lock, cache_entry_unlock, mod_find_block_scan,
        mod_find_block_tag, mod_find_block_set, mod_find_block, port_scan, mod_lock_port,
        mod_unlock_port, hash_index, mod_access_start, mod_access_finish, prev_chain,
        mod_in_flight_address, mod_in_flight_write, mod_serves_address, mod_get_low_mod_loop,
        mod_get_low_mod, mod_can_coalesce, mod_read_write_req_access_start,
        mod_read_write_req_access_finish, mod_in_flight_read_write_req_address,
        mod_in_flight_evict_address, Sim.modStack, Sim.modRet, mod_stack_t.plain,
        mod_stack_t.locks, mod_stack_t.known_op, low_mod_t.toOption, fanout, downup_older_stack,
        read_request_updown_send, read_request_updown_shared, cache_empty, mod_new, sim_new,
        chain_mods, chain_init, MOD_ACCESS_HASH_TABLE_SIZE, upd_upd_same, upd_upd_comm,
        upd2_upd2_same, updI_updI_same, toU32_le, toU32_tag, and_mask_idem, and_mask_le,
        and_mask_mod, range1, range2, range4]
    rw [esim_run_succ]
    simp [esim_step, dispatch, mod_handler_nmoesi_find_and_lock]
    rw [find_and_lock_port_eq _ _ ⟨false,
        toI32 (toU32 (toI32 (X &&& 4294967232) >>> (6 : Nat)) % 8), -1,
      toI32 (X &&& 4294967232), cache_block_invalid⟩ ?hfb ?hop]
    case hop => simp [mod_stack_t.known_op]
    case hfb =>
      simp only [upd, if_true]
      simp only [mod_find_block, mod_find_block_set, mod_find_block_tag, mod_find_block_scan]
      simp [and_mask_idem]
    simp [find_and_lock_port_lookup, range2, range4, mod_reply_type_t.toNat,
        cache_block_state_t.valid, cache_block_next_state, flag, upd, upd2, updI, Sim.setStack,
        Sim.setMod, Sim.setCache, Sim.check, Sim.stop, Sim.log, insert_event, esim_schedule_event,
        mod_get_retry_latency, mod_stack_zero, mod_stack_create, wakeup_list, mod_stack_return,
        mod_stack_wait_in_stack, mod_stack_set_reply, set_reply_max, cache_set_block,
        cache_get_block, cache_set_transient_tag, cache_access_block, cache_replace_block,
        replace_lru, cache_lock_get, Sim.setLock, cache_entry_lock, cache_entry_unlock,
        mod_find_block_scan, mod_find_block_tag, mod_find_block_set, mod_find_block, port_scan,
        mod_lock_port, mod_unlock_port, hash_index, mod_access_start, mod_access_finish,
        prev_chain, mod_in_flight_address, mod_in_flight_write, mod_serves_address,
        mod_get_low_mod_loop, mod_get_low_mod, mod_can_coalesce, mod_read_write_req_access_start,
        mod_read_write_req_access_finish, mod_in_flight_read_write_req_address,
        mod_in_flight_evict_address, Sim.modStack, Sim.modRet, mod_stack_t.plain,
        mod_stack_t.locks, mod_stack_t.known_op, low_mod_t.toOption, fanout, downup_older_stack,
        read_request_updown_send, read_request_updown_shared, cache_empty, mod_new, sim_new,
        chain_mods, chain_init, MOD_ACCESS_HASH_TABLE_SIZE, upd_upd_same, upd_upd_comm,
        upd2_upd2_same, updI_updI_same, toU32_le, toU32_tag, and_mask_idem, and_mask_le,
        and_mask_mod, range1, range2, range4]
    rw [find_and_lock_port_lock_acquire_eq _ _ _ _ (by simp [mod_stack_t.plain, upd])
      (by simp [upd]) (by simp [cache_lock_get, upd])]
    simp [mod_reply_type_t.toNat, cache_block_state_t.valid, cache_block_next_state, flag, upd,
        upd2, updI, Sim.setStack, Sim.setMod, Sim.setCache, Sim.check, Sim.stop, Sim.log,
        insert_event, esim_schedule_event, mod_get_retry_latency, mod_stack_zero,
        mod_stack_create, wakeup_list, mod_stack_return, mod_stack_wait_in_stack,
        mod_stack_set_reply, set_reply_max, cache_set_block, cache_get_block,
        cache_set_transient_tag, cache_access_block, cache_replace_block, replace_lru,
        cache_lock_get, Sim.setLock, cache_entry_lock, cache_entry_unlock, mod_find_block_scan,
        mod_find_block_tag, mod_find_block_set, mod_find_block, port_scan, mod_lock_port,
        mod_unlock_port, hash_index, mod_access_start, mod_access_finish, prev_chain,
        mod_in_flight_address, mod_in_flight_write, mod_serves_address, mod_get_low_mod_loop,
        mod_get_low_mod, mod_can_coalesce, mod_read_write_req_access_start,
        mod_read_write_req_access_finish, mod_in_flight_read_write_req_address,
        mod_in_flight_evict_address, Sim.modStack, Sim.modRet, mod_stack_t.plain,
        mod_stack_t.locks, mod_stack_t.known_op, low_mod_t.toOption, fanout, downup_older_stack,
        read_request_updown_send, read_request_updown_shared, cache_empty, mod_new, sim_new,
        chain_mods, chain_init, MOD_ACCESS_HASH_TABLE_SIZE, upd_upd_same, upd_upd_comm,
        upd2_upd2_same, updI_updI_same, toU32_le, toU32_tag, and_mask_idem, and_mask_le,
        and_mask_mod, range1, range2, range4]
    rw [esim_run_succ]
    simp [esim_step, dispatch, mod_handler_nmoesi_find_and_lock,
        ev_mod_nmoesi_find_and_lock_action, mod_reply_type_t.toNat, cache_block_state_t.valid,
        cache_block_next_state, flag, upd, upd2, updI, Sim.setStack, Sim.setMod, Sim.setCache,
        Sim.check, Sim.stop, Sim.log, insert_event, esim_schedule_event, mod_get_retry_latency,
        mod_stack_zero, mod_stack_create, wakeup_list, mod_stack_return, mod_stack_wait_in_stack,
        mod_stack_set_reply, set_reply_max, cache_set_block, cache_get_block,
        cache_set_transient_tag, cache_access_block, cache_replace_block, replace_lru,
        cache_lock_get, Sim.setLock, cache_entry_lock, cache_entry_unlock, mod_find_block_scan,
        mod_find_block_tag, mod_find_block_set, mod_find_block, port_scan, mod_lock_port,
        mod_unlock_port, hash_index, mod_access_start, mod_access_finish, prev_chain,
        mod_in_flight_address, mod_in_flight_write, mod_serves_address, mod_get_low_mod_loop,
        mod_get_low_mod, mod_can_coalesce, mod_read_write_req_access_start,
        mod_read_write_req_access_finish, mod_in_flight_read_write_req_address,
        mod_in_flight_evict_address, Sim.modStack, Sim.modRet, mod_stack_t.plain,
        mod_stack_t.locks, mod_stack_t.known_op, low_mod_t.toOption, fanout, downup_older_stack,
        read_request_updown_send, read_request_updown_shared, cache_empty, mod_new, sim_new,
        chain_mods, chain_init, MOD_ACCESS_HASH_TABLE_SIZE, upd_upd_same, upd_upd_comm,
        upd2_upd2_same, updI_updI_same, toU32_le, toU32_tag, and_mask_idem, and_mask_le,
        and_mask_mod, range1, range2, range4]
    rw [esim_run_succ]
    simp [esim_step, dispatch, mod_handler_nmoesi_find_and_lock,
        ev_mod_nmoesi_find_and_lock_finish, mod_reply_type_t.toNat, cache_block_state_t.valid,
        cache_block_next_state, flag, upd, upd2, updI, Sim.setStack, Sim.setMod, Sim.setCache,
        Sim.check, Sim.stop, Sim.log, insert_event, esim_schedule_event, mod_get_retry_latency,
        mod_stack_zero, mod_stack_create, wakeup_list, mod_stack_return, mod_stack_wait_in_stack,
        mod_stack_set_reply, set_reply_max, cache_set_block, cache_get_block,
        cache_set_transient_tag, cache_access_block, cache_replace_block, replace_lru,
        cache_lock_get, Sim.setLock, cache_entry_lock, cache_entry_unlock, mod_find_block_scan,
        mod_find_block_tag, mod_find_block_set, mod_find_block, port_scan, mod_lock_port,
        mod_unlock_port, hash_index, mod_access_start, mod_access_finish, prev_chain,
        mod_in_flight_address, mod_in_flight_write, mod_serves_address, mod_get_low_mod_loop,
        mod_get_low_mod, mod_can_coalesce, mod_read_write_req_access_start,
        mod_read_write_req_access_finish, mod_in_flight_read_write_req_address,
        mod_in_flight_evict_address, Sim.modStack, Sim.modRet, mod_stack_t.plain,
        mod_stack_t.locks, mod_stack_t.known_op, low_mod_t.toOption, fanout, downup_older_stack,
        read_request_updown_send, read_request_updown_shared, cache_empty, mod_new, sim_new,
        chain_mods, chain_init, MOD_ACCESS_HASH_TABLE_SIZE, upd_upd_same, upd_upd_comm,
        upd2_upd2_same, updI_updI_same, toU32_le, toU32_tag, and_mask_idem, and_mask_le,
        and_mask_mod, range1, range2, range4]
    rw [esim_run_succ]
    simp [esim_step, dispatch, mod_handler_nmoesi_read_request, ev_mod_nmoesi_read_request_action,
        mod_reply_type_t.toNat, cache_block_state_t.valid, cache_block_next_state, flag, upd,
        upd2, updI, Sim.setStack, Sim.setMod, Sim.setCache, Sim.check, Sim.stop, Sim.log,
        insert_event, esim_schedule_event, mod_get_retry_latency, mod_stack_zero,
        mod_stack_create, wakeup_list, mod_stack_return, mod_stack_wait_in_stack,
        mod_stack_set_reply, set_reply_max, cache_set_block, cache_get_block,
        cache_set_transient_tag, cache_access_block, cache_replace_block, replace_lru,
        cache_lock_get, Sim.setLock, cache_entry_lock, cache_entry_unlock, mod_find_block_scan,
        mod_find_block_tag, mod_find_block_set, mod_find_block, port_scan, mod_lock_port,
        mod_unlock_port, hash_index, mod_access_start, mod_access_finish, prev_chain,
        mod_in_flight_address, mod_in_flight_write, mod_serves_address, mod_get_low_mod_loop,
        mod_get_low_mod, mod_can_coalesce, mod_read_write_req_access_start,
        mod_read_write_req_access_finish, mod_in_flight_read_write_req_address,
        mod_in_flight_evict_address, Sim.modStack, Sim.modRet, mod_stack_t.plain,
        mod_stack_t.locks, mod_stack_t.known_op, low_mod_t.toOption, fanout, downup_older_stack,
        read_request_updown_send, read_request_updown_shared, cache_empty, mod_new, sim_new,
        chain_mods, chain_init, MOD_ACCESS_HASH_TABLE_SIZE, upd_upd_same, upd_upd_comm,
        upd2_upd2_same, updI_updI_same, toU32_le, toU32_tag, and_mask_idem, and_mask_le,
        and_mask_mod, range1, range2, range4]
    rw [esim_run_succ]
    simp [esim_step, dispatch, mod_handler_nmoesi_read_request, ev_mod_nmoesi_read_request_updown,
        mod_reply_type_t.toNat, cache_block_state_t.valid, cache_block_next_state, flag, upd,
        upd2, updI, Sim.setStack, Sim.setMod, Sim.setCache, Sim.check, Sim.stop, Sim.log,
        insert_event, esim_schedule_event, mod_get_retry_latency, mod_stack_zero,
        mod_stack_create, wakeup_list, mod_stack_return, mod_stack_wait_in_stack,
        mod_stack_set_reply, set_reply_max, cache_set_block, cache_get_block,
        cache_set_transient_tag, cache_access_block, cache_replace_block, replace_lru,
        cache_lock_get, Sim.setLock, cache_entry_lock, cache_entry_unlock, mod_find_block_scan,
        mod_find_block_tag, mod_find_block_set, mod_find_block, port_scan, mod_lock_port,
        mod_unlock_port, hash_index, mod_access_start, mod_access_finish, prev_chain,
        mod_in_flight_address, mod_in_flight_write, mod_serves_address, mod_get_low_mod_loop,
        mod_get_low_mod, mod_can_coalesce, mod_read_write_req_access_start,
        mod_read_write_req_access_finish, mod_in_flight_read_write_req_address,
        mod_in_flight_evict_address, Sim.modStack, Sim.modRet, mod_stack_t.plain,
        mod_stack_t.locks, mod_stack_t.known_op, low_mod_t.toOption, fanout, downup_older_stack,
        read_request_updown_send, read_request_updown_shared, cache_empty, mod_new, sim_new,
        chain_mods, chain_init, MOD_ACCESS_HASH_TABLE_SIZE, upd_upd_same, upd_upd_comm,
        upd2_upd2_same, updI_updI_same, toU32_le, toU32_tag, and_mask_idem, and_mask_le,
        and_mask_mod, range1, range2, range4]
    rw [esim_run_succ]
    simp [esim_step, dispatch, mod_handler_nmoesi_read_request, ev_mod_nmoesi_read_request,
        Sim.log, Sim.modRet, Sim.modStack, Sim.setStack, Sim.check, mod_stack_set_reply,
        set_reply_max, upd, upd_upd_same, upd_upd_comm]
    rw [net_try_send_ev_nil _ _ _ _ _ rfl]
    simp [mod_reply_type_t.toNat, cache_block_state_t.valid, cache_block_next_state, flag, upd,
        upd2, updI, Sim.setStack, Sim.setMod, Sim.setCache, Sim.check, Sim.stop, Sim.log,
        insert_event, esim_schedule_event, mod_get_retry_latency, mod_stack_zero,
        mod_stack_create, wakeup_list, mod_stack_return, mod_stack_wait_in_stack,
        mod_stack_set_reply, set_reply_max, cache_set_block, cache_get_block,
        cache_set_transient_tag, cache_access_block, cache_replace_block, replace_lru,
        cache_lock_get, Sim.setLock, cache_entry_lock, cache_entry_unlock, mod_find_block_scan,
        mod_find_block_tag, mod_find_block_set, mod_find_block, port_scan, mod_lock_port,
        mod_unlock_port, hash_index, mod_access_start, mod_access_finish, prev_chain,
        mod_in_flight_address, mod_in_flight_write, mod_serves_address, mod_get_low_mod_loop,
        mod_get_low_mod, mod_can_coalesce, mod_read_write_req_access_start,
        mod_read_write_req_access_finish, mod_in_flight_read_write_req_address,
        mod_in_flight_evict_address, Sim.modStack, Sim.modRet, mod_stack_t.plain,
        mod_stack_t.locks, mod_stack_t.known_op, low_mod_t.toOption, fanout, downup_older_stack,
        read_request_updown_send, read_request_updown_shared, cache_empty, mod_new, sim_new,
        chain_mods, chain_init, MOD_ACCESS_HASH_TABLE_SIZE, upd_upd_same, upd_upd_comm,
        upd2_upd2_same, updI_updI_same, toU32_le, toU32_tag, and_mask_idem, and_mask_le,
        and_mask_mod, range1, range2, range4]
    rw [esim_run_succ]
    simp [esim_step, dispatch, mod_handler_nmoesi_read_request,
        ev_mod_nmoesi_read_request_receive, mod_reply_type_t.toNat, cache_block_state_t.valid,
        cache_block_next_state, flag, upd, upd2, updI, Sim.setStack, Sim.setMod, Sim.setCache,
        Sim.check, Sim.stop, Sim.log, insert_event, esim_schedule_event, mod_get_retry_latency,
        mod_stack_zero, mod_stack_create, wakeup_list, mod_stack_return, mod_stack_wait_in_stack,
        mod_stack_set_reply, set_reply_max, cache_set_block, cache_get_block,
        cache_set_transient_tag, cache_access_block, cache_replace_block, replace_lru,
        cache_lock_get, Sim.setLock, cache_entry_lock, cache_entry_unlock, mod_find_block_scan,
        mod_find_block_tag, mod_find_block_set, mod_find_block, port_scan, mod_lock_port,
        mod_unlock_port, hash_index, mod_access_start, mod_access_finish, prev_chain,
        mod_in_flight_address, mod_in_flight_write, mod_serves_address, mod_get_low_mod_loop,
        mod_get_low_mod, mod_can_coalesce, mod_read_write_req_access_start,
        mod_read_write_req_access_finish, mod_in_flight_read_write_req_address,
        mod_in_flight_evict_address, Sim.modStack, Sim.modRet, mod_stack_t.plain,
        mod_stack_t.locks, mod_stack_t.known_op, low_mod_t.toOption, fanout, downup_older_stack,
        read_request_updown_send, read_request_updown_shared, cache_empty, mod_new, sim_new,
        chain_mods, chain_init, MOD_ACCESS_HASH_TABLE_SIZE, upd_upd_same, upd_upd_comm,
        upd2_upd2_same, updI_updI_same, toU32_le, toU32_tag, and_mask_idem, and_mask_le,
        and_mask_mod, range1, range2, range4]
    rw [esim_run_succ]
    simp [esim_step, dispatch, mod_handler_nmoesi_find_and_lock, ev_mod_nmoesi_find_and_lock,
        mod_reply_type_t.toNat, cache_block_state_t.valid, cache_block_next_state, flag, upd,
        upd2, updI, Sim.setStack, Sim.setMod, Sim.setCache, Sim.check, Sim.stop, Sim.log,
        insert_event, esim_schedule_event, mod_get_retry_latency, mod_stack_zero,
        mod_stack_create, wakeup_list, mod_stack_return, mod_stack_wait_in_stack,
        mod_stack_set_reply, set_reply_max, cache_set_block, cache_get_block,
        cache_set_transient_tag, cache_access_block, cache_replace_block, replace_lru,
        cache_lock_get, Sim.setLock, cache_entry_lock, cache_entry_unlock, mod_find_block_scan,
        mod_find_block_tag, mod_find_block_set, mod_find_block, port_scan, mod_lock_port,
        mod_unlock_port, hash_index, mod_access_start, mod_access_finish, prev_chain,
        mod_in_flight_address, mod_in_flight_write, mod_serves_address, mod_get_low_mod_loop,
        mod_get_low_mod, mod_can_coalesce, mod_read_write_req_access_start,
        mod_read_write_req_access_finish, mod_in_flight_read_write_req_address,
        mod_in_flight_evict_address, Sim.modStack, Sim.modRet, mod_stack_t.plain,
        mod_stack_t.locks, mod_stack_t.known_op, low_mod_t.toOption, fanout, downup_older_stack,
        read_request_updown_send, read_request_updown_shared, cache_empty, mod_new, sim_new,
        chain_mods, chain_init, MOD_ACCESS_HASH_TABLE_SIZE, upd_upd_same, upd_upd_comm,
        upd2_upd2_same, updI_updI_same, toU32_le, toU32_tag, and_mask_idem, and_mask_le,
        and_mask_mod, range1, range2, range4]
    rw [esim_run_succ]
    simp [esim_step, dispatch, mod_handler_nmoesi_find_and_lock]
    rw [find_and_lock_port_eq _ _ ⟨false,
        toI32 (toU32 (toI32 (X &&& 4294967232) >>> (6 : Nat)) % 16), -1,
      toI32 (X &&& 4294967232), cache_block_invalid⟩ ?hfb ?hop]
    case hop => simp [mod_stack_t.known_op]
    case hfb =>
      simp only [upd, if_true]
      simp only [mod_find_block, mod_find_block_set, mod_find_block_tag, mod_find_block_scan]
      simp [and_mask_idem]
    simp [find_and_lock_port_lookup, range2, range4, mod_reply_type_t.toNat,
        cache_block_state_t.valid, cache_block_next_state, flag, upd, upd2, updI, Sim.setStack,
        Sim.setMod, Sim.setCache, Sim.check, Sim.stop, Sim.log, insert_event, esim_schedule_event,
        mod_get_retry_latency, mod_stack_zero, mod_stack_create, wakeup_list, mod_stack_return,
        mod_stack_wait_in_stack, mod_stack_set_reply, set_reply_max, cache_set_block,
        cache_get_block, cache_set_transient_tag, cache_access_block, cache_replace_block,
        replace_lru, cache_lock_get, Sim.setLock, cache_entry_lock, cache_entry_unlock,
        mod_find_block_scan, mod_find_block_tag, mod_find_block_set, mod_find_block, port_scan,
        mod_lock_port, mod_unlock_port, hash_index, mod_access_start, mod_access_finish,
        prev_chain, mod_in_flight_address, mod_in_flight_write, mod_serves_address,
        mod_get_low_mod_loop, mod_get_low_mod, mod_can_coalesce, mod_read_write_req_access_start,
        mod_read_write_req_access_finish, mod_in_flight_read_write_req_address,
        mod_in_flight_evict_address, Sim.modStack, Sim.modRet, mod_stack_t.plain,
        mod_stack_t.locks, mod_stack_t.known_op, low_mod_t.toOption, fanout, downup_older_stack,
        read_request_updown_send, read_request_updown_shared, cache_empty, mod_new, sim_new,
        chain_mods, chain_init, MOD_ACCESS_HASH_TABLE_SIZE, upd_upd_same, upd_upd_comm,
        upd2_upd2_same, updI_updI_same, toU32_le, toU32_tag, and_mask_idem, and_mask_le,
        and_mask_mod, range1, range2, range4]
    rw [find_and_lock_port_lock_acquire_eq _ _ _ _ (by simp [mod_stack_t.plain, upd])
      (by simp [upd]) (by simp [cache_lock_get, upd])]
    simp [mod_reply_type_t.toNat, cache_block_state_t.valid, cache_block_next_state, flag, upd,
        upd2, updI, Sim.setStack, Sim.setMod, Sim.setCache, Sim.check, Sim.stop, Sim.log,
        insert_event, esim_schedule_event, mod_get_retry_latency, mod_stack_zero,
        mod_stack_create, wakeup_list, mod_stack_return, mod_stack_wait_in_stack,
        mod_stack_set_reply, set_reply_max, cache_set_block, cache_get_block,
        cache_set_transient_tag, cache_access_block, cache_replace_block, replace_lru,
        cache_lock_get, Sim.setLock, cache_entry_lock, cache_entry_unlock, mod_find_block_scan,
        mod_find_block_tag, mod_find_block_set, mod_find_block, port_scan, mod_lock_port,
        mod_unlock_port, hash_index, mod_access_start, mod_access_finish, prev_chain,
        mod_in_flight_address, mod_in_flight_write, mod_serves_address, mod_get_low_mod_loop,
        mod_get_low_mod, mod_can_coalesce, mod_read_write_req_access_start,
        mod_read_write_req_access_finish, mod_in_flight_read_write_req_address,
        mod_in_flight_evict_address, Sim.modStack, Sim.modRet, mod_stack_t.plain,
        mod_stack_t.locks, mod_stack_t.known_op, low_mod_t.toOption, fanout, downup_older_stack,
        read_request_updown_send, read_request_updown_shared, cache_empty, mod_new, sim_new,
        chain_mods, chain_init, MOD_ACCESS_HASH_TABLE_SIZE, upd_upd_same, upd_upd_comm,
        upd2_upd2_same, updI_updI_same, toU32_le, toU32_tag, and_mask_idem, and_mask_le,
        and_mask_mod, range1, range2, range4]
    rw [esim_run_succ]
    simp [esim_step, dispatch, mod_handler_nmoesi_find_and_lock,
        ev_mod_nmoesi_find_and_lock_action, mod_reply_type_t.toNat, cache_block_state_t.valid,
        cache_block_next_state, flag, upd, upd2, updI, Sim.setStack, Sim.setMod, Sim.setCache,
        Sim.check, Sim.stop, Sim.log, insert_event, esim_schedule_event, mod_get_retry_latency,
        mod_stack_zero, mod_stack_create, wakeup_list, mod_stack_return, mod_stack_wait_in_stack,
        mod_stack_set_reply, set_reply_max, cache_set_block, cache_get_block,
        cache_set_transient_tag, cache_access_block, cache_replace_block, replace_lru,
        cache_lock_get, Sim.setLock, cache_entry_lock, cache_entry_unlock, mod_find_block_scan,
        mod_find_block_tag, mod_find_block_set, mod_find_block, port_scan, mod_lock_port,
        mod_unlock_port, hash_index, mod_access_start, mod_access_finish, prev_chain,
        mod_in_flight_address, mod_in_flight_write, mod_serves_address, mod_get_low_mod_loop,
        mod_get_low_mod, mod_can_coalesce, mod_read_write_req_access_start,
        mod_read_write_req_access_finish, mod_in_flight_read_write_req_address,
        mod_in_flight_evict_address, Sim.modStack, Sim.modRet, mod_stack_t.plain,
        mod_stack_t.locks, mod_stack_t.known_op, low_mod_t.toOption, fanout, downup_older_stack,
        read_request_updown_send, read_request_updown_shared, cache_empty, mod_new, sim_new,
        chain_mods, chain_init, MOD_ACCESS_HASH_TABLE_SIZE, upd_upd_same, upd_upd_comm,
        upd2_upd2_same, updI_updI_same, toU32_le, toU32_tag, and_mask_idem, and_mask_le,
        and_mask_mod, range1, range2, range4]
    rw [esim_run_succ]
    simp [esim_step, dispatch, mod_handler_nmoesi_find_and_lock,
        ev_mod_nmoesi_find_and_lock_finish, mod_reply_type_t.toNat, cache_block_state_t.valid,
        cache_block_next_state, flag, upd, upd2, updI, Sim.setStack, Sim.setMod, Sim.setCache,
        Sim.check, Sim.stop, Sim.log, insert_event, esim_schedule_event, mod_get_retry_latency,
        mod_stack_zero, mod_stack_create, wakeup_list, mod_stack_return, mod_stack_wait_in_stack,
        mod_stack_set_reply, set_reply_max, cache_set_block, cache_get_block,
        cache_set_transient_tag, cache_access_block, cache_replace_block, replace_lru,
        cache_lock_get, Sim.setLock, cache_entry_lock, cache_entry_unlock, mod_find_block_scan,
        mod_find_block_tag, mod_find_block_set, mod_find_block, port_scan, mod_lock_port,
        mod_unlock_port, hash_index, mod_access_start, mod_access_finish, prev_chain,
        mod_in_flight_address, mod_in_flight_write, mod_serves_address, mod_get_low_mod_loop,
        mod_get_low_mod, mod_can_coalesce, mod_read_write_req_access_start,
        mod_read_write_req_access_finish, mod_in_flight_read_write_req_address,
        mod_in_flight_evict_address, Sim.modStack, Sim.modRet, mod_stack_t.plain,
        mod_stack_t.locks, mod_stack_t.known_op, low_mod_t.toOption, fanout, downup_older_stack,
        read_request_updown_send, read_request_updown_shared, cache_empty, mod_new, sim_new,
        chain_mods, chain_init, MOD_ACCESS_HASH_TABLE_SIZE, upd_upd_same, upd_upd_comm,
        upd2_upd2_same, updI_updI_same, toU32_le, toU32_tag, and_mask_idem, and_mask_le,
        and_mask_mod, range1, range2, range4]
    rw [esim_run_succ]
    simp [esim_step, dispatch, mod_handler_nmoesi_read_request, ev_mod_nmoesi_read_request_action,
        mod_reply_type_t.toNat, cache_block_state_t.valid, cache_block_next_state, flag, upd,
        upd2, updI, Sim.setStack, Sim.setMod, Sim.setCache, Sim.check, Sim.stop, Sim.log,
        insert_event, esim_schedule_event, mod_get_retry_latency, mod_stack_zero,
        mod_stack_create, wakeup_list, mod_stack_return, mod_stack_wait_in_stack,
        mod_stack_set_reply, set_reply_max, cache_set_block, cache_get_block,
        cache_set_transient_tag, cache_access_block, cache_replace_block, replace_lru,
        cache_lock_get, Sim.setLock, cache_entry_lock, cache_entry_unlock, mod_find_block_scan,
        mod_find_block_tag, mod_find_block_set, mod_find_block, port_scan, mod_lock_port,
        mod_unlock_port, hash_index, mod_access_start, mod_access_finish, prev_chain,
        mod_in_flight_address, mod_in_flight_write, mod_serves_address, mod_get_low_mod_loop,
        mod_get_low_mod, mod_can_coalesce, mod_read_write_req_access_start,
        mod_read_write_req_access_finish, mod_in_flight_read_write_req_address,
        mod_in_flight_evict_address, Sim.modStack, Sim.modRet, mod_stack_t.plain,
        mod_stack_t.locks, mod_stack_t.known_op, low_mod_t.toOption, fanout, downup_older_stack,
        read_request_updown_send, read_request_updown_shared, cache_empty, mod_new, sim_new,
        chain_mods, chain_init, MOD_ACCESS_HASH_TABLE_SIZE, upd_upd_same, upd_upd_comm,
        upd2_upd2_same, updI_updI_same, toU32_le, toU32_tag, and_mask_idem, and_mask_le,
        and_mask_mod, range1, range2, range4]
    rw [esim_run_succ]
    simp [esim_step, dispatch, mod_handler_nmoesi_read_request, ev_mod_nmoesi_read_request_updown,
        mod_reply_type_t.toNat, cache_block_state_t.valid, cache_block_next_state, flag, upd,
        upd2, updI, Sim.setStack, Sim.setMod, Sim.setCache, Sim.check, Sim.stop, Sim.log,
        insert_event, esim_schedule_event, mod_get_retry_latency, mod_stack_zero,
        mod_stack_create, wakeup_list, mod_stack_return, mod_stack_wait_in_stack,
        mod_stack_set_reply, set_reply_max, cache_set_block, cache_get_block,
        cache_set_transient_tag, cache_access_block, cache_replace_block, replace_lru,
        cache_lock_get, Sim.setLock, cache_entry_lock, cache_entry_unlock, mod_find_block_scan,
        mod_find_block_tag, mod_find_block_set, mod_find_block, port_scan, mod_lock_port,
        mod_unlock_port, hash_index, mod_access_start, mod_access_finish, prev_chain,
        mod_in_flight_address, mod_in_flight_write, mod_serves_address, mod_get_low_mod_loop,
        mod_get_low_mod, mod_can_coalesce, mod_read_write_req_access_start,
        mod_read_write_req_access_finish, mod_in_flight_read_write_req_address,
        mod_in_flight_evict_address, Sim.modStack, Sim.modRet, mod_stack_t.plain,
        mod_stack_t.locks, mod_stack_t.known_op, low_mod_t.toOption, fanout, downup_older_stack,
        read_request_updown_send, read_request_updown_shared, cache_empty, mod_new, sim_new,
        chain_mods, chain_init, MOD_ACCESS_HASH_TABLE_SIZE, upd_upd_same, upd_upd_comm,
        upd2_upd2_same, updI_updI_same, toU32_le, toU32_tag, and_mask_idem, and_mask_le,
        and_mask_mod, range1, range2, range4]
    rw [esim_run_succ]
    simp [esim_step, dispatch, mod_handler_nmoesi_read_request,
        ev_mod_nmoesi_read_request_updown_finish, mod_reply_type_t.toNat,
        cache_block_state_t.valid, cache_block_next_state, flag, upd, upd2, updI, Sim.setStack,
        Sim.setMod, Sim.setCache, Sim.check, Sim.stop, Sim.log, insert_event, esim_schedule_event,
        mod_get_retry_latency, mod_stack_zero, mod_stack_create, wakeup_list, mod_stack_return,
        mod_stack_wait_in_stack, mod_stack_set_reply, set_reply_max, cache_set_block,
        cache_get_block, cache_set_transient_tag, cache_access_block, cache_replace_block,
        replace_lru, cache_lock_get, Sim.setLock, cache_entry_lock, cache_entry_unlock,
        mod_find_block_scan, mod_find_block_tag, mod_find_block_set, mod_find_block, port_scan,
        mod_lock_port, mod_unlock_port, hash_index, mod_access_start, mod_access_finish,
        prev_chain, mod_in_flight_address, mod_in_flight_write, mod_serves_address,
        mod_get_low_mod_loop, mod_get_low_mod, mod_can_coalesce, mod_read_write_req_access_start,
        mod_read_write_req_access_finish, mod_in_flight_read_write_req_address,
        mod_in_flight_evict_address, Sim.modStack, Sim.modRet, mod_stack_t.plain,
        mod_stack_t.locks, mod_stack_t.known_op, low_mod_t.toOption, fanout, downup_older_stack,
        read_request_updown_send, read_request_updown_shared, cache_empty, mod_new, sim_new,
        chain_mods, chain_init, MOD_ACCESS_HASH_TABLE_SIZE, upd_upd_same, upd_upd_comm,
        upd2_upd2_same, updI_updI_same, toU32_le, toU32_tag, and_mask_idem, and_mask_le,
        and_mask_mod, range1, range2, range4]
    rw [esim_run_succ]
    simp [esim_step, dispatch, mod_handler_nmoesi_read_request, ev_mod_nmoesi_read_request_reply,
        Sim.log, Sim.modRet, Sim.modStack, Sim.setStack, Sim.check, mod_stack_set_reply,
        set_reply_max, upd, upd_upd_same, upd_upd_comm]
    rw [net_try_send_ev_nil _ _ _ _ _ rfl]
    simp [mod_reply_type_t.toNat, cache_block_state_t.valid, cache_block_next_state, flag, upd,
        upd2, updI, Sim.setStack, Sim.setMod, Sim.setCache, Sim.check, Sim.stop, Sim.log,
        insert_event, esim_schedule_event, mod_get_retry_latency, mod_stack_zero,
        mod_stack_create, wakeup_list, mod_stack_return, mod_stack_wait_in_stack,
        mod_stack_set_reply, set_reply_max, cache_set_block, cache_get_block,
        cache_set_transient_tag, cache_access_block, cache_replace_block, replace_lru,
        cache_lock_get, Sim.setLock, cache_entry_lock, cache_entry_unlock, mod_find_block_scan,
        mod_find_block_tag, mod_find_block_set, mod_find_block, port_scan, mod_lock_port,
        mod_unlock_port, hash_index, mod_access_start, mod_access_finish, prev_chain,
        mod_in_flight_address, mod_in_flight_write, mod_serves_address, mod_get_low_mod_loop,
        mod_get_low_mod, mod_can_coalesce, mod_read_write_req_access_start,
        mod_read_write_req_access_finish, mod_in_flight_read_write_req_address,
        mod_in_flight_evict_address, Sim.modStack, Sim.modRet, mod_stack_t.plain,
        mod_stack_t.locks, mod_stack_t.known_op, low_mod_t.toOption, fanout, downup_older_stack,
        read_request_updown_send, read_request_updown_shared, cache_empty, mod_new, sim_new,
        chain_mods, chain_init, MOD_ACCESS_HASH_TABLE_SIZE, upd_upd_same, upd_upd_comm,
        upd2_upd2_same, updI_updI_same, toU32_le, toU32_tag, and_mask_idem, and_mask_le,
        and_mask_mod, range1, range2, range4]
    rw [esim_run_succ]
    simp [esim_step, dispatch, mod_handler_nmoesi_read_request, ev_mod_nmoesi_read_request_finish,
        mod_reply_type_t.toNat, cache_block_state_t.valid, cache_block_next_state, flag, upd,
        upd2, updI, Sim.setStack, Sim.setMod, Sim.setCache, Sim.check, Sim.stop, Sim.log,
        insert_event, esim_schedule_event, mod_get_retry_latency, mod_stack_zero,
        mod_stack_create, wakeup_list, mod_stack_return, mod_stack_wait_in_stack,
        mod_stack_set_reply, set_reply_max, cache_set_block, cache_get_block,
        cache_set_transient_tag, cache_access_block, cache_replace_block, replace_lru,
        cache_lock_get, Sim.setLock, cache_entry_lock, cache_entry_unlock, mod_find_block_scan,
        mod_find_block_tag, mod_find_block_set, mod_find_block, port_scan, mod_lock_port,
        mod_unlock_port, hash_index, mod_access_start, mod_access_finish, prev_chain,
        mod_in_flight_address, mod_in_flight_write, mod_serves_address, mod_get_low_mod_loop,
        mod_get_low_mod, mod_can_coalesce, mod_read_write_req_access_start,
        mod_read_write_req_access_finish, mod_in_flight_read_write_req_address,
        mod_in_flight_evict_address, Sim.modStack, Sim.modRet, mod_stack_t.plain,
        mod_stack_t.locks, mod_stack_t.known_op, low_mod_t.toOption, fanout, downup_older_stack,
        read_request_updown_send, read_request_updown_shared, cache_empty, mod_new, sim_new,
        chain_mods, chain_init, MOD_ACCESS_HASH_TABLE_SIZE, upd_upd_same, upd_upd_comm,
        upd2_upd2_same, updI_updI_same, toU32_le, toU32_tag, and_mask_idem, and_mask_le,
        and_mask_mod, range1, range2, range4]
    rw [esim_run_succ]
    simp [esim_step, dispatch, mod_handler_nmoesi_read_request,
        ev_mod_nmoesi_read_request_updown_miss, mod_reply_type_t.toNat, cache_block_state_t.valid,
        cache_block_next_state, flag, upd, upd2, updI, Sim.setStack, Sim.setMod, Sim.setCache,
        Sim.check, Sim.stop, Sim.log, insert_event, esim_schedule_event, mod_get_retry_latency,
        mod_stack_zero, mod_stack_create, wakeup_list, mod_stack_return, mod_stack_wait_in_stack,
        mod_stack_set_reply, set_reply_max, cache_set_block, cache_get_block,
        cache_set_transient_tag, cache_access_block, cache_replace_block, replace_lru,
        cache_lock_get, Sim.setLock, cache_entry_lock, cache_entry_unlock, mod_find_block_scan,
        mod_find_block_tag, mod_find_block_set, mod_find_block, port_scan, mod_lock_port,
        mod_unlock_port, hash_index, mod_access_start, mod_access_finish, prev_chain,
        mod_in_flight_address, mod_in_flight_write, mod_serves_address, mod_get_low_mod_loop,
        mod_get_low_mod, mod_can_coalesce, mod_read_write_req_access_start,
        mod_read_write_req_access_finish, mod_in_flight_read_write_req_address,
        mod_in_flight_evict_address, Sim.modStack, Sim.modRet, mod_stack_t.plain,
        mod_stack_t.locks, mod_stack_t.known_op, low_mod_t.toOption, fanout, downup_older_stack,
        read_request_updown_send, read_request_updown_shared, cache_empty, mod_new, sim_new,
        chain_mods, chain_init, MOD_ACCESS_HASH_TABLE_SIZE, upd_upd_same, upd_upd_comm,
        upd2_upd2_same, updI_updI_same, toU32_le, toU32_tag, and_mask_idem, and_mask_le,
        and_mask_mod, range1, range2, range4]
    rw [esim_run_succ]
    simp [esim_step, dispatch, mod_handler_nmoesi_read_request,
        ev_mod_nmoesi_read_request_updown_finish, mod_reply_type_t.toNat,
        cache_block_state_t.valid, cache_block_next_state, flag, upd, upd2, updI, Sim.setStack,
        Sim.setMod, Sim.setCache, Sim.check, Sim.stop, Sim.log, insert_event, esim_schedule_event,
        mod_get_retry_latency, mod_stack_zero, mod_stack_create, wakeup_list, mod_stack_return,
        mod_stack_wait_in_stack, mod_stack_set_reply, set_reply_max, cache_set_block,
        cache_get_block, cache_set_transient_tag, cache_access_block, cache_replace_block,
        replace_lru, cache_lock_get, Sim.setLock, cache_entry_lock, cache_entry_unlock,
        mod_find_block_scan, mod_find_block_tag, mod_find_block_set, mod_find_block, port_scan,
        mod_lock_port, mod_unlock_port, hash_index, mod_access_start, mod_access_finish,
        prev_chain, mod_in_flight_address, mod_in_flight_write, mod_serves_address,
        mod_get_low_mod_loop, mod_get_low_mod, mod_can_coalesce, mod_read_write_req_access_start,
        mod_read_write_req_access_finish, mod_in_flight_read_write_req_address,
        mod_in_flight_evict_address, Sim.modStack, Sim.modRet, mod_stack_t.plain,
        mod_stack_t.locks, mod_stack_t.known_op, low_mod_t.toOption, fanout, downup_older_stack,
        read_request_updown_send, read_request_updown_shared, cache_empty, mod_new, sim_new,
        chain_mods, chain_init, MOD_ACCESS_HASH_TABLE_SIZE, upd_upd_same, upd_upd_comm,
        upd2_upd2_same, updI_updI_same, toU32_le, toU32_tag, and_mask_idem, and_mask_le,
        and_mask_mod, range1, range2, range4]
    rw [esim_run_succ]
    simp [esim_step, dispatch, mod_handler_nmoesi_read_request, ev_mod_nmoesi_read_request_reply,
        Sim.log, Sim.modRet, Sim.modStack, Sim.setStack, Sim.check, mod_stack_set_reply,
        set_reply_max, upd, upd_upd_same, upd_upd_comm]
    rw [net_try_send_ev_nil _ _ _ _ _ rfl]
    simp [mod_reply_type_t.toNat, cache_block_state_t.valid, cache_block_next_state, flag, upd,
        upd2, updI, Sim.setStack, Sim.setMod, Sim.setCache, Sim.check, Sim.stop, Sim.log,
        insert_event, esim_schedule_event, mod_get_retry_latency, mod_stack_zero,
        mod_stack_create, wakeup_list, mod_stack_return, mod_stack_wait_in_stack,
        mod_stack_set_reply, set_reply_max, cache_set_block, cache_get_block,
        cache_set_transient_tag, cache_access_block, cache_replace_block, replace_lru,
        cache_lock_get, Sim.setLock, cache_entry_lock, cache_entry_unlock, mod_find_block_scan,
        mod_find_block_tag, mod_find_block_set, mod_find_block, port_scan, mod_lock_port,
        mod_unlock_port, hash_index, mod_access_start, mod_access_finish, prev_chain,
        mod_in_flight_address, mod_in_flight_write, mod_serves_address, mod_get_low_mod_loop,
        mod_get_low_mod, mod_can_coalesce, mod_read_write_req_access_start,
        mod_read_write_req_access_finish, mod_in_flight_read_write_req_address,
        mod_in_flight_evict_address, Sim.modStack, Sim.modRet, mod_stack_t.plain,
        mod_stack_t.locks, mod_stack_t.known_op, low_mod_t.toOption, fanout, downup_older_stack,
        read_request_updown_send, read_request_updown_shared, cache_empty, mod_new, sim_new,
        chain_mods, chain_init, MOD_ACCESS_HASH_TABLE_SIZE, upd_upd_same, upd_upd_comm,
        upd2_upd2_same, updI_updI_same, toU32_le, toU32_tag, and_mask_idem, and_mask_le,
        and_mask_mod, range1, range2, range4]
    rw [esim_run_succ]
    simp [esim_step, dispatch, mod_handler_nmoesi_read_request, ev_mod_nmoesi_read_request_finish,
        mod_reply_type_t.toNat, cache_block_state_t.valid, cache_block_next_state, flag, upd,
        upd2, updI, Sim.setStack, Sim.setMod, Sim.setCache, Sim.check, Sim.stop, Sim.log,
        insert_event, esim_schedule_event, mod_get_retry_latency, mod_stack_zero,
        mod_stack_create, wakeup_list, mod_stack_return, mod_stack_wait_in_stack,
        mod_stack_set_reply, set_reply_max, cache_set_block, cache_get_block,
        cache_set_transient_tag, cache_access_block, cache_replace_block, replace_lru,
        cache_lock_get, Sim.setLock, cache_entry_lock, cache_entry_unlock, mod_find_block_scan,
        mod_find_block_tag, mod_find_block_set, mod_find_block, port_scan, mod_lock_port,
        mod_unlock_port, hash_index, mod_access_start, mod_access_finish, prev_chain,
        mod_in_flight_address, mod_in_flight_write, mod_serves_address, mod_get_low_mod_loop,
        mod_get_low_mod, mod_can_coalesce, mod_read_write_req_access_start,
        mod_read_write_req_access_finish, mod_in_flight_read_write_req_address,
        mod_in_flight_evict_address, Sim.modStack, Sim.modRet, mod_stack_t.plain,
        mod_stack_t.locks, mod_stack_t.known_op, low_mod_t.toOption, fanout, downup_older_stack,
        read_request_updown_send, read_request_updown_shared, cache_empty, mod_new, sim_new,
        chain_mods, chain_init, MOD_ACCESS_HASH_TABLE_SIZE, upd_upd_same, upd_upd_comm,
        upd2_upd2_same, updI_updI_same, toU32_le, toU32_tag, and_mask_idem, and_mask_le,
        and_mask_mod, range1, range2, range4]
    rw [esim_run_succ]
    simp [esim_step, dispatch, mod_handler_nmoesi_load, ev_mod_nmoesi_load_miss,
        mod_reply_type_t.toNat, cache_block_state_t.valid, cache_block_next_state, flag, upd,
        upd2, updI, Sim.setStack, Sim.setMod, Sim.setCache, Sim.check, Sim.stop, Sim.log,
        insert_event, esim_schedule_event, mod_get_retry_latency, mod_stack_zero,
        mod_stack_create, wakeup_list, mod_stack_return, mod_stack_wait_in_stack,
        mod_stack_set_reply, set_reply_max, cache_set_block, cache_get_block,
        cache_set_transient_tag, cache_access_block, cache_replace_block, replace_lru,
        cache_lock_get, Sim.setLock, cache_entry_lock, cache_entry_unlock, mod_find_block_scan,
        mod_find_block_tag, mod_find_block_set, mod_find_block, port_scan, mod_lock_port,
        mod_unlock_port, hash_index, mod_access_start, mod_access_finish, prev_chain,
        mod_in_flight_address, mod_in_flight_write, mod_serves_address, mod_get_low_mod_loop,
        mod_get_low_mod, mod_can_coalesce, mod_read_write_req_access_start,
        mod_read_write_req_access_finish, mod_in_flight_read_write_req_address,
        mod_in_flight_evict_address, Sim.modStack, Sim.modRet, mod_stack_t.plain,
        mod_stack_t.locks, mod_stack_t.known_op, low_mod_t.toOption, fanout, downup_older_stack,
        read_request_updown_send, read_request_updown_shared, cache_empty, mod_new, sim_new,
        chain_mods, chain_init, MOD_ACCESS_HASH_TABLE_SIZE, upd_upd_same, upd_upd_comm,
        upd2_upd2_same, updI_updI_same, toU32_le, toU32_tag, and_mask_idem, and_mask_le,
        and_mask_mod, range1, range2, range4]
    rw [check_chain_ok _ _ ⟨true, toI32 (toU32 (toI32 (X &&& 4294967232) >>> (6 : Nat)) % 8), 1,
        toI32 (X &&& 4294967232), cache_block_exclusive⟩
      ⟨true, toI32 (toU32 (toI32 (X &&& 4294967232) >>> (6 : Nat)) % 16), 3,
        toI32 (X &&& 4294967232), cache_block_exclusive⟩]
    case k0 => simp [upd]
    case l0 => simp [upd]
    case i0 => simp [upd]
    case k1 => simp [upd]
    case l1 => simp [upd]
    case i1 => simp [upd]
    case h1 => simp [upd]
    case n1 => simp [upd]
    case c1 => simp [upd]
    case w1 => simp [upd]
    case g1 => simp [upd]
    case i2 => simp [upd]
    case h2 => simp [upd]
    case n2 => simp [upd]
    case c2 => simp [upd]
    case w2 => simp [upd]
    case g2 => simp [upd]
    case nm => simp [upd]
    case e1 => rfl
    case s1 => rfl
    case e2 => rfl
    case s2 => rfl
    case f1 =>
      simp only [upd, if_true]
      refine mod_find_block_hit _ _ _ _ 0 4294967295 1 (toI32 (X &&& 4294967232)) cache_block_exclusive
        ?hr ?hT ?hw ?hinv ?ht ?hs (by decide)
      case hr => rfl
      case hT => exact mod_find_block_tag_mask63 _ _ rfl
      case hw => simp
      case hinv => intro j hj; interval_cases j <;> simp [upd2]
      case ht => simp [upd2]
      case hs => simp [upd2]
    case f2 =>
      simp only [upd, if_true]
      refine mod_find_block_hit _ _ _ _ 0 4294967295 3 (toI32 (X &&& 4294967232)) cache_block_exclusive
        ?hr ?hT ?hw ?hinv ?ht ?hs (by decide)
      case hr => rfl
      case hT => exact mod_find_block_tag_mask63 _ _ rfl
      case hw => simp
      case hinv => intro j hj; interval_cases j <;> simp [upd2]
      case ht => simp [upd2]
      case hs => simp [upd2]
    simp [mod_reply_type_t.toNat, cache_block_state_t.valid, cache_block_next_state, flag, upd,
        upd2, updI, Sim.setStack, Sim.setMod, Sim.setCache, Sim.check, Sim.stop, Sim.log,
        insert_event, esim_schedule_event, mod_get_retry_latency, mod_stack_zero,
        mod_stack_create, wakeup_list, mod_stack_return, mod_stack_wait_in_stack,
        mod_stack_set_reply, set_reply_max, cache_set_block, cache_get_block,
        cache_set_transient_tag, cache_access_block, cache_replace_block, replace_lru,
        cache_lock_get, Sim.setLock, cache_entry_lock, cache_entry_unlock, mod_find_block_scan,
        mod_find_block_tag, mod_find_block_set, mod_find_block, port_scan, mod_lock_port,
        mod_unlock_port, hash_index, mod_access_start, mod_access_finish, prev_chain,
        mod_in_flight_address, mod_in_flight_write, mod_serves_address, mod_get_low_mod_loop,
        mod_get_low_mod, mod_can_coalesce, mod_read_write_req_access_start,
        mod_read_write_req_access_finish, mod_in_flight_read_write_req_address,
        mod_in_flight_evict_address, Sim.modStack, Sim.modRet, mod_stack_t.plain,
        mod_stack_t.locks, mod_stack_t.known_op, low_mod_t.toOption, fanout, downup_older_stack,
        read_request_updown_send, read_request_updown_shared, cache_empty, mod_new, sim_new,
        chain_mods, chain_init, MOD_ACCESS_HASH_TABLE_SIZE, upd_upd_same, upd_upd_comm,
        upd2_upd2_same, updI_updI_same, toU32_le, toU32_tag, and_mask_idem, and_mask_le,
        and_mask_mod, range1, range2, range4]
    rw [esim_run_succ]
    simp [esim_step, dispatch, mod_handler_nmoesi_load, ev_mod_nmoesi_load_unlock,
        mod_reply_type_t.toNat, cache_block_state_t.valid, cache_block_next_state, flag, upd,
        upd2, updI, Sim.setStack, Sim.setMod, Sim.setCache, Sim.check, Sim.stop, Sim.log,
        insert_event, esim_schedule_event, mod_get_retry_latency, mod_stack_zero,
        mod_stack_create, wakeup_list, mod_stack_return, mod_stack_wait_in_stack,
        mod_stack_set_reply, set_reply_max, cache_set_block, cache_get_block,
        cache_set_transient_tag, cache_access_block, cache_replace_block, replace_lru,
        cache_lock_get, Sim.setLock, cache_entry_lock, cache_entry_unlock, mod_find_block_scan,
        mod_find_block_tag, mod_find_block_set, mod_find_block, port_scan, mod_lock_port,
        mod_unlock_port, hash_index, mod_access_start, mod_access_finish, prev_chain,
        mod_in_flight_address, mod_in_flight_write, mod_serves_address, mod_get_low_mod_loop,
        mod_get_low_mod, mod_can_coalesce, mod_read_write_req_access_start,
        mod_read_write_req_access_finish, mod_in_flight_read_write_req_address,
        mod_in_flight_evict_address, Sim.modStack, Sim.modRet, mod_stack_t.plain,
        mod_stack_t.locks, mod_stack_t.known_op, low_mod_t.toOption, fanout, downup_older_stack,
        read_request_updown_send, read_request_updown_shared, cache_empty, mod_new, sim_new,
        chain_mods, chain_init, MOD_ACCESS_HASH_TABLE_SIZE, upd_upd_same, upd_upd_comm,
        upd2_upd2_same, updI_updI_same, toU32_le, toU32_tag, and_mask_idem, and_mask_le,
        and_mask_mod, range1, range2, range4]
    rw [esim_run_succ]
    simp [esim_step, dispatch, mod_handler_nmoesi_load, ev_mod_nmoesi_load_finish,
        mod_reply_type_t.toNat, cache_block_state_t.valid, cache_block_next_state, flag, upd,
        upd2, updI, Sim.setStack, Sim.setMod, Sim.setCache, Sim.check, Sim.stop, Sim.log,
        insert_event, esim_schedule_event, mod_get_retry_latency, mod_stack_zero,
        mod_stack_create, wakeup_list, mod_stack_return, mod_stack_wait_in_stack,
        mod_stack_set_reply, set_reply_max, cache_set_block, cache_get_block,
        cache_set_transient_tag, cache_access_block, cache_replace_block, replace_lru,
        cache_lock_get, Sim.setLock, cache_entry_lock, cache_entry_unlock, mod_find_block_scan,
        mod_find_block_tag, mod_find_block_set, mod_find_block, port_scan, mod_lock_port,
        mod_unlock_port, hash_index, mod_access_start, mod_access_finish, prev_chain,
        mod_in_flight_address, mod_in_flight_write, mod_serves_address, mod_get_low_mod_loop,
        mod_get_low_mod, mod_can_coalesce, mod_read_write_req_access_start,
        mod_read_write_req_access_finish, mod_in_flight_read_write_req_address,
        mod_in_flight_evict_address, Sim.modStack, Sim.modRet, mod_stack_t.plain,
        mod_stack_t.locks, mod_stack_t.known_op, low_mod_t.toOption, fanout, downup_older_stack,
        read_request_updown_send, read_request_updown_shared, cache_empty, mod_new, sim_new,
        chain_mods, chain_init, MOD_ACCESS_HASH_TABLE_SIZE, upd_upd_same, upd_upd_comm,
        upd2_upd2_same, updI_updI_same, toU32_le, toU32_tag, and_mask_idem, and_mask_le,
        and_mask_mod, range1, range2, range4]
    rw [esim_run_idle _ _ rfl]
    apply hQ
    refine ⟨rfl, rfl, rfl, by simp, rfl, rfl, rfl, rfl, ?l2, ?l1, ?l0, ?r0, ?r1, ?r2⟩
    case l2 =>
      refine line_state_hit _ 2 X 0 4294967295 3 _ rfl rfl (by simp [upd]) ?_ ?_ ?_ (by decide)
      · intro j hj; interval_cases j <;> simp [upd, upd2]
      · simp [upd, upd2]
      · simp [upd, upd2]
    case l1 =>
      refine line_state_hit _ 1 X 0 4294967295 1 _ rfl rfl (by simp [upd]) ?_ ?_ ?_ (by decide)
      · intro j hj; interval_cases j <;> simp [upd, upd2]
      · simp [upd, upd2]
      · simp [upd, upd2]
    case l0 =>
      refine line_state_hit _ 0 X 0 4294967295 1 _ rfl rfl (by simp [upd]) ?_ ?_ ?_ (by decide)
      · intro j hj; interval_cases j <;> simp [upd, upd2]
      · simp [upd, upd2]
      · simp [upd, upd2]
    case r0 =>
      refine ⟨?_, rfl, rfl, by simp [upd]⟩
      intro set _ way _
      simp only [upd, if_true]
      exact upd2_lock_false _ _ _ _ rfl (fun _ _ => rfl) _ _
    case r1 =>
      refine ⟨?_, rfl, rfl, by simp [upd]⟩
      intro set _ way _
      simp [upd]
      exact upd2_lock_false _ _ _ _ rfl (fun _ _ => rfl) _ _
    case r2 =>
      refine ⟨?_, rfl, rfl, by simp [upd]⟩
      intro set _ way _
      simp [upd]
      exact upd2_lock_false _ _ _ _ rfl (fun _ _ => rfl) _ _
  exact key (fun s => s.events = [] ∧
      s.fatal = false ∧
      s.assert_log = [] ∧
      (EV_MOD_NMOESI_LOAD_FINISH, 0) ∈ s.trace ∧
      (s.stack_tab 1).mod = 0 ∧
      (s.stack_tab 1).hit = false ∧
      (s.stack_tab 3).mod = 1 ∧
      (s.stack_tab 3).hit = false ∧
      line_state s 2 X = cache_block_exclusive ∧
      line_state s 1 X = cache_block_exclusive ∧
      line_state s 0 X = cache_block_exclusive ∧
      mod_released s 0 ∧
      mod_released s 1 ∧
      mod_released s 2) (fun _ hs => hs)

end Coherence
